import Mathlib

/-!
# Gizmo: a shallow embedding of the CPU core (`src/core/cpu.c`)

Machine integers are natural numbers; every place where the C code relies on
`uint8_t` / `uint16_t` wrap-around carries an explicit `% 256` / `% 65536`.
C functions that mutate `CPU *cpu` become functions returning the new state
(paired with the C return value when there is one).
-/

set_option linter.unusedVariables false

namespace Gizmo

/-! ## Constants (`include/util/common.h`, `include/core/cpu.h`) -/

abbrev BIT_0_MASK : Nat := 0x01
abbrev BIT_1_MASK : Nat := 0x02
abbrev BIT_2_MASK : Nat := 0x04
abbrev BIT_3_MASK : Nat := 0x08
abbrev BIT_4_MASK : Nat := 0x10
abbrev BIT_5_MASK : Nat := 0x20
abbrev BIT_6_MASK : Nat := 0x40
abbrev BIT_7_MASK : Nat := 0x80
abbrev LOWER_4_MASK : Nat := 0x0F
abbrev LOWER_5_MASK : Nat := 0x1F
abbrev LOWER_12_MASK : Nat := 0x0FFF
abbrev LOWER_BYTE_MASK : Nat := 0x00FF
abbrev BYTE : Nat := 8
abbrev BYTE_UNDERFLOW : Nat := 0xFF
abbrev MAX_INT_16 : Nat := 0xFFFF
abbrev NIBBLE : Nat := 4

abbrev ZERO_FLAG : Nat := 0x80
abbrev SUBTRACT_FLAG : Nat := 0x40
abbrev HALF_CARRY_FLAG : Nat := 0x20
abbrev CARRY_FLAG : Nat := 0x10

abbrev VBLANK_INTERRUPT_CODE : Nat := 0x01
abbrev LCD_STAT_INTERRUPT_CODE : Nat := 0x02
abbrev TIMER_INTERRUPT_CODE : Nat := 0x04
abbrev SERIAL_INTERRUPT_CODE : Nat := 0x08
abbrev JOYPAD_INTERRUPT_CODE : Nat := 0x10

/-- Modelled from the spec: the interrupt vectors are constants of `core/mmu.h`,
a header that is not among the sources; the spec (section 4.D) lists them as
VBlank=0x40, LCD=0x48, Timer=0x50, Serial=0x58, Joypad=0x60. -/
abbrev VBLANK_VECTOR : Nat := 0x40
/-- Modelled from the spec: LCD-STAT vector of `core/mmu.h` (spec 4.D). -/
abbrev LCD_VECTOR : Nat := 0x48
/-- Modelled from the spec: timer vector of `core/mmu.h` (spec 4.D). -/
abbrev TIMER_VECTOR : Nat := 0x50
/-- Modelled from the spec: serial vector of `core/mmu.h` (spec 4.D). -/
abbrev SERIAL_VECTOR : Nat := 0x58
/-- Modelled from the spec: joypad vector of `core/mmu.h` (spec 4.D). -/
abbrev JOYPAD_VECTOR : Nat := 0x60

/-- Register pairs (`DualRegister` of cpu.h). -/
inductive DualRegister where
  | AF_REG
  | BC_REG
  | DE_REG
  | HL_REG
  | SP_REG
  deriving DecidableEq, Repr

/-! ## The bus (`src/core/mmu.c`) -/

/-- The part of `EmuMemory` the CPU can observe: `memory` is the 64 KiB general
array `mem->memory` (the I/O page lives in it, and `reg.IFR` / `reg.IER` point
into it); `dev` stands for everything else reachable from the bus (cartridge,
VRAM, WRAM, OAM, palette RAM, DMA engines, PPU, APU, timer). -/
structure EmuMemory (D : Type) where
  memory : Nat → Nat
  dev : D

/-- The globals `memory_read_table`, `memory_write_table`, `memory_mask_table`
of mmu.c and the address constants `IFR`, `IER`, `KEY1` of `core/mmu.h`.  The
header is not among the sources and the tables are filled at run time by
`init_tables` / `init_masks`, so all of them are parameters of the model. -/
structure MemoryTables (D : Type) where
  memory_read_table : Nat → EmuMemory D → Nat → Nat
  memory_write_table : Nat → EmuMemory D → Nat → Nat → EmuMemory D
  memory_mask_table : Nat → Nat
  IFR : Nat
  IER : Nat
  KEY1 : Nat

/-- `read_memory` (mmu.c:43); the result is a `uint8_t`. -/
def read_memory {D : Type} (t : MemoryTables D) (mem : EmuMemory D) (address : Nat) : Nat :=
  (t.memory_read_table address mem address ||| t.memory_mask_table address) % 256

/-- `write_memory` (mmu.c:48). -/
def write_memory {D : Type} (t : MemoryTables D) (mem : EmuMemory D) (address : Nat)
    (value : Nat) : EmuMemory D :=
  t.memory_write_table address mem address value

/-- `default_read` (mmu.c:129). -/
def default_read {D : Type} (mem : EmuMemory D) (address : Nat) : Nat :=
  mem.memory address

/-- `default_write` (mmu.c:134). -/
def default_write {D : Type} (mem : EmuMemory D) (address : Nat) (value : Nat) : EmuMemory D :=
  { mem with memory := fun a => if a = address then value else mem.memory a }

/-- `write_interrupt_flag` (mmu.c:300); `ifr` is the constant `IFR`. -/
def write_interrupt_flag {D : Type} (ifr : Nat) (mem : EmuMemory D) (address : Nat)
    (value : Nat) : EmuMemory D :=
  { mem with memory := fun a => if a = ifr then (0xE0 ||| (value &&& LOWER_5_MASK)) else mem.memory a }

/-! ## CPU state (`include/core/cpu.h`) -/

/-- `Register` of cpu.h; the pointers `IER` / `IFR` are the bytes
`memory[IER]` / `memory[IFR]` of the bus (`link_cpu`). -/
structure Register where
  A : Nat
  F : Nat
  B : Nat
  C : Nat
  D : Nat
  E : Nat
  H : Nat
  L : Nat
  PC : Nat
  SP : Nat

/-- The function pointer `ins.handler`: an entry of `opcode_table`, an entry of
`prefix_opcode_table`, or `int_exec`. -/
inductive HandlerRef where
  | main (opcode : Nat)
  | cb (opcode : Nat)
  | int_exec
  deriving DecidableEq, Repr

/-- `InstructionEntity` of cpu.h (the debug `label` is left out). -/
structure InstructionEntity where
  address : Nat
  duration : Nat
  length : Nat
  low : Nat
  high : Nat
  opcode : Nat
  executed : Bool
  cb_prefixed : Bool
  handler : HandlerRef

/-- `CPU` of cpu.h; `cart_is_gbc` is `cpu->cart->is_gbc`, `mem` is `*cpu->mem`. -/
structure CPU (D : Type) where
  ime_delay : Nat
  ime : Bool
  ime_scheduled : Bool
  speed_enabled : Bool
  running : Bool
  halted : Bool
  halt_bug_active : Bool
  reg : Register
  ins : InstructionEntity
  cart_is_gbc : Bool
  mem : EmuMemory D

/-- The 8-bit registers a handler can receive by address (`&(cpu->reg.B)`). -/
inductive Reg8 where
  | A
  | B
  | C
  | D
  | E
  | H
  | L
  deriving DecidableEq, Repr

variable {D : Type}

/-- The store `*reg = value` through a pointer to an 8-bit register. -/
def write_reg8 (cpu : CPU D) (reg : Reg8) (value : Nat) : CPU D :=
  match reg with
  | .A => { cpu with reg := { cpu.reg with A := value } }
  | .B => { cpu with reg := { cpu.reg with B := value } }
  | .C => { cpu with reg := { cpu.reg with C := value } }
  | .D => { cpu with reg := { cpu.reg with D := value } }
  | .E => { cpu with reg := { cpu.reg with E := value } }
  | .H => { cpu with reg := { cpu.reg with H := value } }
  | .L => { cpu with reg := { cpu.reg with L := value } }

/-- The conversion `(uint16_t)(int8_t) v` of a byte: sign extension to 16 bits. -/
def int8_to_u16 (v : Nat) : Nat :=
  if v < 0x80 then v else v + 0xFF00

/-- The decrement `x - 1` of a `uint16_t`, wrapping from 0 to 0xFFFF. -/
def dec16 (x : Nat) : Nat :=
  if x = 0 then 0xFFFF else (x - 1) % 65536

/-- The integer value of a `bool` in C arithmetic. -/
def b2n (b : Bool) : Nat :=
  if b then 1 else 0

/-- `OpcodeHandler` (cpu.c:12): the state is threaded, the `bool` result says
whether the instruction is complete. -/
abbrev OpcodeHandler (D : Type) : Type := MemoryTables D → CPU D → Bool × CPU D

/-! ## Helpers (cpu.c:16-160) -/


/-- `form_address` (cpu.c:16). -/
def form_address (cpu : CPU D) : Nat :=
  let upper := cpu.ins.high
  let lower := cpu.ins.low
  ((upper <<< BYTE) ||| lower) % 65536

/-- `write_flag_reg` (cpu.c:24): only the upper nibble is stored. -/
def write_flag_reg (cpu : CPU D) (value : Nat) : CPU D :=
  { cpu with reg := { cpu.reg with F := value &&& 0xF0 } }

/-- `set_flag` (cpu.c:29); `~flag_mask` on a byte is `0xFF ^^^ flag_mask`. -/
def set_flag (cpu : CPU D) (is_set : Bool) (flag_mask : Nat) : CPU D :=
  let value := if is_set then cpu.reg.F ||| flag_mask else cpu.reg.F &&& (0xFF ^^^ flag_mask)
  write_flag_reg cpu value

/-- `is_flag_set` (cpu.c:35). -/
def is_flag_set (cpu : CPU D) (flag : Nat) : Bool :=
  decide ((cpu.reg.F &&& flag) ≠ 0)

/-- `fetch` (cpu.c:40): returns the byte at PC; PC is incremented unless the
halt-bug latch is set, in which case the latch is cleared instead. -/
def fetch (t : MemoryTables D) (cpu : CPU D) : Nat × CPU D :=
  if cpu.halt_bug_active then
    let cpu := { cpu with halt_bug_active := false }
    (read_memory t cpu.mem cpu.reg.PC, cpu)
  else
    (read_memory t cpu.mem cpu.reg.PC,
      { cpu with reg := { cpu.reg with PC := (cpu.reg.PC + 1) % 65536 } })

/-- `getDR` (cpu.c:57). -/
def getDR (cpu : CPU D) (dr : DualRegister) : Nat :=
  match dr with
  | .AF_REG => ((cpu.reg.A <<< BYTE) ||| cpu.reg.F) % 65536
  | .BC_REG => ((cpu.reg.B <<< BYTE) ||| cpu.reg.C) % 65536
  | .DE_REG => ((cpu.reg.D <<< BYTE) ||| cpu.reg.E) % 65536
  | .HL_REG => ((cpu.reg.H <<< BYTE) ||| cpu.reg.L) % 65536
  | .SP_REG => cpu.reg.SP

/-- `setDR` (cpu.c:71); the parameter `source` is a `uint16_t`. -/
def setDR (cpu : CPU D) (dr : DualRegister) (source : Nat) : CPU D :=
  let source := source % 65536
  match dr with
  | .AF_REG =>
    { cpu with reg := { cpu.reg with A := (source >>> BYTE) % 256, F := (source &&& 0xF0) % 256 } }
  | .BC_REG =>
    { cpu with reg := { cpu.reg with B := (source >>> BYTE) % 256, C := (source % 256) &&& 0xFF } }
  | .DE_REG =>
    { cpu with reg := { cpu.reg with D := (source >>> BYTE) % 256, E := (source % 256) &&& 0xFF } }
  | .HL_REG =>
    { cpu with reg := { cpu.reg with H := (source >>> BYTE) % 256, L := (source % 256) &&& 0xFF } }
  | .SP_REG => { cpu with reg := { cpu.reg with SP := source } }

/-- `pop_stack` (cpu.c:99). -/
def pop_stack (t : MemoryTables D) (cpu : CPU D) : Nat × CPU D :=
  let result := read_memory t cpu.mem cpu.reg.SP
  (result, { cpu with reg := { cpu.reg with SP := (cpu.reg.SP + 1) % 65536 } })

/-- `push_stack` (cpu.c:106). -/
def push_stack (t : MemoryTables D) (cpu : CPU D) (value : Nat) : CPU D :=
  let cpu := { cpu with reg := { cpu.reg with SP := dec16 cpu.reg.SP } }
  { cpu with mem := write_memory t cpu.mem cpu.reg.SP value }

/-- `encode_interrupt` (cpu.c:112): latches vector and code of the pending
interrupt with the lowest bit number. -/
def encode_interrupt (cpu : CPU D) (pending : Nat) : CPU D :=
  if pending &&& VBLANK_INTERRUPT_CODE ≠ 0 then
    { cpu with ins := { cpu.ins with address := VBLANK_VECTOR, low := VBLANK_INTERRUPT_CODE } }
  else if pending &&& LCD_STAT_INTERRUPT_CODE ≠ 0 then
    { cpu with ins := { cpu.ins with address := LCD_VECTOR, low := LCD_STAT_INTERRUPT_CODE } }
  else if pending &&& TIMER_INTERRUPT_CODE ≠ 0 then
    { cpu with ins := { cpu.ins with address := TIMER_VECTOR, low := TIMER_INTERRUPT_CODE } }
  else if pending &&& SERIAL_INTERRUPT_CODE ≠ 0 then
    { cpu with ins := { cpu.ins with address := SERIAL_VECTOR, low := SERIAL_INTERRUPT_CODE } }
  else if pending &&& JOYPAD_INTERRUPT_CODE ≠ 0 then
    { cpu with ins := { cpu.ins with address := JOYPAD_VECTOR, low := JOYPAD_INTERRUPT_CODE } }
  else cpu

/-- `get_pending_interrupts` (cpu.c:155): `IF & IE & 0x1F`, read through the
raw pointers `reg.IFR` / `reg.IER`. -/
def get_pending_interrupts (t : MemoryTables D) (cpu : CPU D) : Nat :=
  let ifr := cpu.mem.memory t.IFR &&& LOWER_5_MASK
  let ier := cpu.mem.memory t.IER &&& LOWER_5_MASK
  ifr &&& ier

/-! ## Opcode handlers (cpu.c:195-2556) -/

-- cpu.c:195  0x00 (- - - -) 1M
def nop (t : MemoryTables D) (cpu : CPU D) : Bool × CPU D :=
  (true, cpu)

-- cpu.c:199  0x76 (- - - -) 1M
def halt (t : MemoryTables D) (cpu : CPU D) : Bool × CPU D :=
  let pending := get_pending_interrupts t cpu
  if cpu.ime = false ∧ pending ≠ 0 then
    let cpu := { cpu with halt_bug_active := true }
    let cpu := { cpu with halted := false }
    (true, cpu)
  else
    let cpu := { cpu with halted := decide (pending = 0) }
    (true, cpu)

-- cpu.c:215  0x10
def stop (t : MemoryTables D) (cpu : CPU D) : Bool × CPU D :=
  let cpu := (fetch t cpu).2
  let key1 := read_memory t cpu.mem t.KEY1
  if cpu.cart_is_gbc && decide ((key1 &&& BIT_0_MASK) ≠ b2n cpu.speed_enabled) then
    let cpu := { cpu with speed_enabled := !cpu.speed_enabled }
    let new_key1 := (b2n cpu.speed_enabled <<< 7) % 256
    let cpu := { cpu with mem := write_memory t cpu.mem t.KEY1 new_key1 }
    (true, cpu)
  else
    (true, cpu)

-- cpu.c:235  0x01 (- - - -) 3M
def ld_bc_nn (t : MemoryTables D) (cpu : CPU D) : Bool × CPU D :=
  match cpu.ins.duration with
  | 1 => (false, cpu)
  | 2 =>
    let r := fetch t cpu
    let cpu := { r.2 with reg := { r.2.reg with C := r.1 } }
    (false, cpu)
  | 3 =>
    let r := fetch t cpu
    let cpu := { r.2 with reg := { r.2.reg with B := r.1 } }
    (true, cpu)
  | _ => (true, cpu)

-- cpu.c:253  0x11 (- - - -) 3M
def ld_de_nn (t : MemoryTables D) (cpu : CPU D) : Bool × CPU D :=
  match cpu.ins.duration with
  | 1 => (false, cpu)
  | 2 =>
    let r := fetch t cpu
    let cpu := { r.2 with reg := { r.2.reg with E := r.1 } }
    (false, cpu)
  | 3 =>
    let r := fetch t cpu
    let cpu := { r.2 with reg := { r.2.reg with D := r.1 } }
    (true, cpu)
  | _ => (true, cpu)

-- cpu.c:271  0x21 (- - - -) 3M
def ld_hl_nn (t : MemoryTables D) (cpu : CPU D) : Bool × CPU D :=
  match cpu.ins.duration with
  | 1 => (false, cpu)
  | 2 =>
    let r := fetch t cpu
    let cpu := { r.2 with reg := { r.2.reg with L := r.1 } }
    (false, cpu)
  | 3 =>
    let r := fetch t cpu
    let cpu := { r.2 with reg := { r.2.reg with H := r.1 } }
    (true, cpu)
  | _ => (true, cpu)

-- cpu.c:289  0x31 (- - - -) 3M
def ld_sp_nn (t : MemoryTables D) (cpu : CPU D) : Bool × CPU D :=
  match cpu.ins.duration with
  | 1 => (false, cpu)
  | 2 =>
    let r := fetch t cpu
    let cpu := { r.2 with ins := { r.2.ins with low := r.1 } }
    (false, cpu)
  | 3 =>
    let r := fetch t cpu
    let cpu := { r.2 with ins := { r.2.ins with high := r.1 } }
    let cpu := { cpu with reg := { cpu.reg with SP := form_address cpu } }
    (true, cpu)
  | _ => (true, cpu)

-- cpu.c:309
def reg_inc_16 (cpu : CPU D) (dr : DualRegister) : CPU D :=
  match dr with
  | .BC_REG =>
    let cpu := { cpu with reg := { cpu.reg with C := (cpu.reg.C + 1) % 256 } }
    if cpu.reg.C = 0 then { cpu with reg := { cpu.reg with B := (cpu.reg.B + 1) % 256 } } else cpu
  | .DE_REG =>
    let cpu := { cpu with reg := { cpu.reg with E := (cpu.reg.E + 1) % 256 } }
    if cpu.reg.E = 0 then { cpu with reg := { cpu.reg with D := (cpu.reg.D + 1) % 256 } } else cpu
  | .HL_REG =>
    let cpu := { cpu with reg := { cpu.reg with L := (cpu.reg.L + 1) % 256 } }
    if cpu.reg.L = 0 then { cpu with reg := { cpu.reg with H := (cpu.reg.H + 1) % 256 } } else cpu
  | .SP_REG => { cpu with reg := { cpu.reg with SP := (cpu.reg.SP + 1) % 65536 } }
  | .AF_REG => cpu

-- cpu.c:330
def reg_inc_16_handler (cpu : CPU D) (dr : DualRegister) : Bool × CPU D :=
  match cpu.ins.duration with
  | 1 => (false, cpu)
  | 2 =>
    let cpu := reg_inc_16 cpu dr
    (true, cpu)
  | _ => (true, cpu)

-- cpu.c:344  0x03 (- - - -) 2M
def inc_bc (t : MemoryTables D) (cpu : CPU D) : Bool × CPU D :=
  reg_inc_16_handler cpu .BC_REG

-- cpu.c:348  0x13 (- - - -) 2M
def inc_de (t : MemoryTables D) (cpu : CPU D) : Bool × CPU D :=
  reg_inc_16_handler cpu .DE_REG

-- cpu.c:352  0x23 (- - - -) 2M
def inc_hl (t : MemoryTables D) (cpu : CPU D) : Bool × CPU D :=
  reg_inc_16_handler cpu .HL_REG

-- cpu.c:356  0x33 (- - - -) 2M
def inc_sp (t : MemoryTables D) (cpu : CPU D) : Bool × CPU D :=
  reg_inc_16_handler cpu .SP_REG

-- cpu.c:361
def reg_dec_16 (cpu : CPU D) (dr : DualRegister) : CPU D :=
  match dr with
  | .BC_REG =>
    let cpu := { cpu with reg := { cpu.reg with C := (cpu.reg.C + 0xFF) % 256 } }
    if cpu.reg.C = BYTE_UNDERFLOW then
      { cpu with reg := { cpu.reg with B := (cpu.reg.B + 0xFF) % 256 } } else cpu
  | .DE_REG =>
    let cpu := { cpu with reg := { cpu.reg with E := (cpu.reg.E + 0xFF) % 256 } }
    if cpu.reg.E = BYTE_UNDERFLOW then
      { cpu with reg := { cpu.reg with D := (cpu.reg.D + 0xFF) % 256 } } else cpu
  | .HL_REG =>
    let cpu := { cpu with reg := { cpu.reg with L := (cpu.reg.L + 0xFF) % 256 } }
    if cpu.reg.L = BYTE_UNDERFLOW then
      { cpu with reg := { cpu.reg with H := (cpu.reg.H + 0xFF) % 256 } } else cpu
  | .SP_REG => { cpu with reg := { cpu.reg with SP := dec16 cpu.reg.SP } }
  | .AF_REG => cpu

-- cpu.c:382 (the fall-through result of this one is `false`)
def reg_dec_16_handler (cpu : CPU D) (dr : DualRegister) : Bool × CPU D :=
  match cpu.ins.duration with
  | 1 => (false, cpu)
  | 2 =>
    let cpu := reg_dec_16 cpu dr
    (true, cpu)
  | _ => (false, cpu)

-- cpu.c:396  0x0B (- - - -) 2M
def dec_bc (t : MemoryTables D) (cpu : CPU D) : Bool × CPU D :=
  reg_dec_16_handler cpu .BC_REG

-- cpu.c:400  0x1B (- - - -) 2M
def dec_de (t : MemoryTables D) (cpu : CPU D) : Bool × CPU D :=
  reg_dec_16_handler cpu .DE_REG

-- cpu.c:404  0x2B (- - - -) 2M
def dec_hl (t : MemoryTables D) (cpu : CPU D) : Bool × CPU D :=
  reg_dec_16_handler cpu .HL_REG

-- cpu.c:408  0x3B (- - - -) 2M
def dec_sp (t : MemoryTables D) (cpu : CPU D) : Bool × CPU D :=
  reg_dec_16_handler cpu .SP_REG

-- cpu.c:413  0xC1 (- - - -) 3M
def pop_bc (t : MemoryTables D) (cpu : CPU D) : Bool × CPU D :=
  match cpu.ins.duration with
  | 1 => (false, cpu)
  | 2 =>
    let r := pop_stack t cpu
    let cpu := { r.2 with reg := { r.2.reg with C := r.1 } }
    (false, cpu)
  | 3 =>
    let r := pop_stack t cpu
    let cpu := { r.2 with reg := { r.2.reg with B := r.1 } }
    (true, cpu)
  | _ => (true, cpu)

-- cpu.c:431  0xD1 (- - - -) 3M
def pop_de (t : MemoryTables D) (cpu : CPU D) : Bool × CPU D :=
  match cpu.ins.duration with
  | 1 => (false, cpu)
  | 2 =>
    let r := pop_stack t cpu
    let cpu := { r.2 with reg := { r.2.reg with E := r.1 } }
    (false, cpu)
  | 3 =>
    let r := pop_stack t cpu
    let cpu := { r.2 with reg := { r.2.reg with D := r.1 } }
    (true, cpu)
  | _ => (true, cpu)

-- cpu.c:449  0xE1 (- - - -) 3M
def pop_hl (t : MemoryTables D) (cpu : CPU D) : Bool × CPU D :=
  match cpu.ins.duration with
  | 1 => (false, cpu)
  | 2 =>
    let r := pop_stack t cpu
    let cpu := { r.2 with reg := { r.2.reg with L := r.1 } }
    (false, cpu)
  | 3 =>
    let r := pop_stack t cpu
    let cpu := { r.2 with reg := { r.2.reg with H := r.1 } }
    (true, cpu)
  | _ => (true, cpu)

-- cpu.c:467  0xF1 (Z N H C) 3M
def pop_af (t : MemoryTables D) (cpu : CPU D) : Bool × CPU D :=
  match cpu.ins.duration with
  | 1 => (false, cpu)
  | 2 =>
    let r := pop_stack t cpu
    let cpu := write_flag_reg r.2 r.1
    (false, cpu)
  | 3 =>
    let r := pop_stack t cpu
    let cpu := { r.2 with reg := { r.2.reg with A := r.1 } }
    (true, cpu)
  | _ => (true, cpu)

-- cpu.c:486  0xC5 (- - - -) 4M
def push_bc (t : MemoryTables D) (cpu : CPU D) : Bool × CPU D :=
  match cpu.ins.duration with
  | 1 => (false, cpu)
  | 2 => (false, cpu)
  | 3 =>
    let cpu := push_stack t cpu cpu.reg.B
    (false, cpu)
  | 4 =>
    let cpu := push_stack t cpu cpu.reg.C
    (true, cpu)
  | _ => (true, cpu)

-- cpu.c:506  0xD5 (- - - -) 4M
def push_de (t : MemoryTables D) (cpu : CPU D) : Bool × CPU D :=
  match cpu.ins.duration with
  | 1 => (false, cpu)
  | 2 => (false, cpu)
  | 3 =>
    let cpu := push_stack t cpu cpu.reg.D
    (false, cpu)
  | 4 =>
    let cpu := push_stack t cpu cpu.reg.E
    (true, cpu)
  | _ => (true, cpu)

-- cpu.c:526  0xE5 (- - - -) 4M
def push_hl (t : MemoryTables D) (cpu : CPU D) : Bool × CPU D :=
  match cpu.ins.duration with
  | 1 => (false, cpu)
  | 2 => (false, cpu)
  | 3 =>
    let cpu := push_stack t cpu cpu.reg.H
    (false, cpu)
  | 4 =>
    let cpu := push_stack t cpu cpu.reg.L
    (true, cpu)
  | _ => (true, cpu)

-- cpu.c:546  0xF5 (- - - -) 4M
def push_af (t : MemoryTables D) (cpu : CPU D) : Bool × CPU D :=
  match cpu.ins.duration with
  | 1 => (false, cpu)
  | 2 => (false, cpu)
  | 3 =>
    let cpu := push_stack t cpu cpu.reg.A
    (false, cpu)
  | 4 =>
    let cpu := push_stack t cpu cpu.reg.F
    (true, cpu)
  | _ => (true, cpu)

-- cpu.c:567  0x22 (- - - -) 2M
def ld_hli_a (t : MemoryTables D) (cpu : CPU D) : Bool × CPU D :=
  match cpu.ins.duration with
  | 1 => (false, cpu)
  | 2 =>
    let hl := getDR cpu .HL_REG
    let cpu := { cpu with mem := write_memory t cpu.mem hl cpu.reg.A }
    let cpu := setDR cpu .HL_REG (hl + 1)
    (true, cpu)
  | _ => (true, cpu)

-- cpu.c:583  0x2A (- - - -) 2M
def ld_a_hli (t : MemoryTables D) (cpu : CPU D) : Bool × CPU D :=
  match cpu.ins.duration with
  | 1 => (false, cpu)
  | 2 =>
    let hl := getDR cpu .HL_REG
    let cpu := { cpu with reg := { cpu.reg with A := read_memory t cpu.mem hl } }
    let cpu := setDR cpu .HL_REG (hl + 1)
    (true, cpu)
  | _ => (true, cpu)

-- cpu.c:599  0x32 (- - - -) 2M
def ld_hld_a (t : MemoryTables D) (cpu : CPU D) : Bool × CPU D :=
  match cpu.ins.duration with
  | 1 => (false, cpu)
  | 2 =>
    let hl := getDR cpu .HL_REG
    let cpu := { cpu with mem := write_memory t cpu.mem hl cpu.reg.A }
    let cpu := setDR cpu .HL_REG (dec16 hl)
    (true, cpu)
  | _ => (true, cpu)

-- cpu.c:615  0x3A (- - - -) 2M
def ld_a_hld (t : MemoryTables D) (cpu : CPU D) : Bool × CPU D :=
  match cpu.ins.duration with
  | 1 => (false, cpu)
  | 2 =>
    let hl := getDR cpu .HL_REG
    let cpu := { cpu with reg := { cpu.reg with A := read_memory t cpu.mem hl } }
    let cpu := setDR cpu .HL_REG (dec16 hl)
    (true, cpu)
  | _ => (true, cpu)

-- cpu.c:632  0x02 (- - - -) 2M
def ld_bc_a (t : MemoryTables D) (cpu : CPU D) : Bool × CPU D :=
  match cpu.ins.duration with
  | 1 => (false, cpu)
  | 2 =>
    let bc := getDR cpu .BC_REG
    let cpu := { cpu with mem := write_memory t cpu.mem bc cpu.reg.A }
    (true, cpu)
  | _ => (true, cpu)

-- cpu.c:647  0x12 (- - - -) 2M
def ld_de_a (t : MemoryTables D) (cpu : CPU D) : Bool × CPU D :=
  match cpu.ins.duration with
  | 1 => (false, cpu)
  | 2 =>
    let de := getDR cpu .DE_REG
    let cpu := { cpu with mem := write_memory t cpu.mem de cpu.reg.A }
    (true, cpu)
  | _ => (true, cpu)

-- cpu.c:662  0x08 (- - - -) 5M
def ld_nn_sp (t : MemoryTables D) (cpu : CPU D) : Bool × CPU D :=
  match cpu.ins.duration with
  | 1 => (false, cpu)
  | 2 =>
    let r := fetch t cpu
    let cpu := { r.2 with ins := { r.2.ins with low := r.1 } }
    (false, cpu)
  | 3 =>
    let r := fetch t cpu
    let cpu := { r.2 with ins := { r.2.ins with high := r.1 } }
    let cpu := { cpu with ins := { cpu.ins with address := form_address cpu } }
    (false, cpu)
  | 4 =>
    let sp_low := cpu.reg.SP &&& LOWER_BYTE_MASK
    let cpu := { cpu with mem := write_memory t cpu.mem cpu.ins.address sp_low }
    (false, cpu)
  | 5 =>
    let sp_high := (cpu.reg.SP >>> BYTE) &&& LOWER_BYTE_MASK
    let cpu := { cpu with mem := write_memory t cpu.mem ((cpu.ins.address + 1) % 65536) sp_high }
    (true, cpu)
  | _ => (true, cpu)

-- cpu.c:692
def ld_hl_reg (t : MemoryTables D) (cpu : CPU D) (reg : Nat) : Bool × CPU D :=
  match cpu.ins.duration with
  | 1 => (false, cpu)
  | 2 =>
    let hl := getDR cpu .HL_REG
    let cpu := { cpu with mem := write_memory t cpu.mem hl reg }
    (true, cpu)
  | _ => (true, cpu)

-- cpu.c:707  0x70 (- - - -) 2M
def ld_hl_b (t : MemoryTables D) (cpu : CPU D) : Bool × CPU D :=
  ld_hl_reg t cpu cpu.reg.B

-- cpu.c:711  0x71 (- - - -) 2M
def ld_hl_c (t : MemoryTables D) (cpu : CPU D) : Bool × CPU D :=
  ld_hl_reg t cpu cpu.reg.C

-- cpu.c:715  0x72 (- - - -) 2M
def ld_hl_d (t : MemoryTables D) (cpu : CPU D) : Bool × CPU D :=
  ld_hl_reg t cpu cpu.reg.D

-- cpu.c:719  0x73 (- - - -) 2M
def ld_hl_e (t : MemoryTables D) (cpu : CPU D) : Bool × CPU D :=
  ld_hl_reg t cpu cpu.reg.E

-- cpu.c:723  0x74 (- - - -) 2M
def ld_hl_h (t : MemoryTables D) (cpu : CPU D) : Bool × CPU D :=
  ld_hl_reg t cpu cpu.reg.H

-- cpu.c:727  0x75 (- - - -) 2M
def ld_hl_l (t : MemoryTables D) (cpu : CPU D) : Bool × CPU D :=
  ld_hl_reg t cpu cpu.reg.L

-- cpu.c:731  0x77 (- - - -) 2M
def ld_hl_a (t : MemoryTables D) (cpu : CPU D) : Bool × CPU D :=
  ld_hl_reg t cpu cpu.reg.A

-- cpu.c:736  0x41 (- - - -) 1M
def ld_b_c (t : MemoryTables D) (cpu : CPU D) : Bool × CPU D :=
  let cpu := { cpu with reg := { cpu.reg with B := cpu.reg.C } }
  (true, cpu)

-- cpu.c:741  0x42 (- - - -) 1M
def ld_b_d (t : MemoryTables D) (cpu : CPU D) : Bool × CPU D :=
  let cpu := { cpu with reg := { cpu.reg with B := cpu.reg.D } }
  (true, cpu)

-- cpu.c:746  0x43 (- - - -) 1M
def ld_b_e (t : MemoryTables D) (cpu : CPU D) : Bool × CPU D :=
  let cpu := { cpu with reg := { cpu.reg with B := cpu.reg.E } }
  (true, cpu)

-- cpu.c:751  0x44 (- - - -) 1M
def ld_b_h (t : MemoryTables D) (cpu : CPU D) : Bool × CPU D :=
  let cpu := { cpu with reg := { cpu.reg with B := cpu.reg.H } }
  (true, cpu)

-- cpu.c:756  0x45 (- - - -) 1M
def ld_b_l (t : MemoryTables D) (cpu : CPU D) : Bool × CPU D :=
  let cpu := { cpu with reg := { cpu.reg with B := cpu.reg.L } }
  (true, cpu)

-- cpu.c:761  0x46 (- - - -) 2M
def ld_b_hl (t : MemoryTables D) (cpu : CPU D) : Bool × CPU D :=
  if cpu.ins.duration = 1 then
    (false, cpu)
  else if cpu.ins.duration = 2 then
    let hl := getDR cpu .HL_REG
    let cpu := { cpu with reg := { cpu.reg with B := read_memory t cpu.mem hl } }
    (true, cpu)
  else
    (true, cpu)

-- cpu.c:777  0x47 (- - - -) 1M
def ld_b_a (t : MemoryTables D) (cpu : CPU D) : Bool × CPU D :=
  let cpu := { cpu with reg := { cpu.reg with B := cpu.reg.A } }
  (true, cpu)

-- cpu.c:782  0x48 (- - - -) 1M
def ld_c_b (t : MemoryTables D) (cpu : CPU D) : Bool × CPU D :=
  let cpu := { cpu with reg := { cpu.reg with C := cpu.reg.B } }
  (true, cpu)

-- cpu.c:787  0x4A (- - - -) 1M
def ld_c_d (t : MemoryTables D) (cpu : CPU D) : Bool × CPU D :=
  let cpu := { cpu with reg := { cpu.reg with C := cpu.reg.D } }
  (true, cpu)

-- cpu.c:792  0x4B (- - - -) 1M
def ld_c_e (t : MemoryTables D) (cpu : CPU D) : Bool × CPU D :=
  let cpu := { cpu with reg := { cpu.reg with C := cpu.reg.E } }
  (true, cpu)

-- cpu.c:797  0x4C (- - - -) 1M
def ld_c_h (t : MemoryTables D) (cpu : CPU D) : Bool × CPU D :=
  let cpu := { cpu with reg := { cpu.reg with C := cpu.reg.H } }
  (true, cpu)

-- cpu.c:802  0x4D (- - - -) 1M
def ld_c_l (t : MemoryTables D) (cpu : CPU D) : Bool × CPU D :=
  let cpu := { cpu with reg := { cpu.reg with C := cpu.reg.L } }
  (true, cpu)

-- cpu.c:807  0x4E (- - - -) 2M
def ld_c_hl (t : MemoryTables D) (cpu : CPU D) : Bool × CPU D :=
  match cpu.ins.duration with
  | 1 => (false, cpu)
  | 2 =>
    let hl := getDR cpu .HL_REG
    let cpu := { cpu with reg := { cpu.reg with C := read_memory t cpu.mem hl } }
    (true, cpu)
  | _ => (true, cpu)

-- cpu.c:822  0x4F (- - - -) 1M
def ld_c_a (t : MemoryTables D) (cpu : CPU D) : Bool × CPU D :=
  let cpu := { cpu with reg := { cpu.reg with C := cpu.reg.A } }
  (true, cpu)

-- cpu.c:828  0x50 (- - - -) 1M
def ld_d_b (t : MemoryTables D) (cpu : CPU D) : Bool × CPU D :=
  let cpu := { cpu with reg := { cpu.reg with D := cpu.reg.B } }
  (true, cpu)

-- cpu.c:833  0x51 (- - - -) 1M
def ld_d_c (t : MemoryTables D) (cpu : CPU D) : Bool × CPU D :=
  let cpu := { cpu with reg := { cpu.reg with D := cpu.reg.C } }
  (true, cpu)

-- cpu.c:838  0x53 (- - - -) 1M
def ld_d_e (t : MemoryTables D) (cpu : CPU D) : Bool × CPU D :=
  let cpu := { cpu with reg := { cpu.reg with D := cpu.reg.E } }
  (true, cpu)

-- cpu.c:843  0x54 (- - - -) 1M
def ld_d_h (t : MemoryTables D) (cpu : CPU D) : Bool × CPU D :=
  let cpu := { cpu with reg := { cpu.reg with D := cpu.reg.H } }
  (true, cpu)

-- cpu.c:848  0x55 (- - - -) 1M
def ld_d_l (t : MemoryTables D) (cpu : CPU D) : Bool × CPU D :=
  let cpu := { cpu with reg := { cpu.reg with D := cpu.reg.L } }
  (true, cpu)

-- cpu.c:853  0x56 (- - - -) 2M
def ld_d_hl (t : MemoryTables D) (cpu : CPU D) : Bool × CPU D :=
  match cpu.ins.duration with
  | 1 => (false, cpu)
  | 2 =>
    let hl := getDR cpu .HL_REG
    let cpu := { cpu with reg := { cpu.reg with D := read_memory t cpu.mem hl } }
    (true, cpu)
  | _ => (true, cpu)

-- cpu.c:868  0x57 (- - - -) 1M
def ld_d_a (t : MemoryTables D) (cpu : CPU D) : Bool × CPU D :=
  let cpu := { cpu with reg := { cpu.reg with D := cpu.reg.A } }
  (true, cpu)

-- cpu.c:873  0x58 (- - - -) 1M
def ld_e_b (t : MemoryTables D) (cpu : CPU D) : Bool × CPU D :=
  let cpu := { cpu with reg := { cpu.reg with E := cpu.reg.B } }
  (true, cpu)

-- cpu.c:878  0x59 (- - - -) 1M
def ld_e_c (t : MemoryTables D) (cpu : CPU D) : Bool × CPU D :=
  let cpu := { cpu with reg := { cpu.reg with E := cpu.reg.C } }
  (true, cpu)

-- cpu.c:883  0x5A (- - - -) 1M
def ld_e_d (t : MemoryTables D) (cpu : CPU D) : Bool × CPU D :=
  let cpu := { cpu with reg := { cpu.reg with E := cpu.reg.D } }
  (true, cpu)

-- cpu.c:888  0x5C (- - - -) 1M
def ld_e_h (t : MemoryTables D) (cpu : CPU D) : Bool × CPU D :=
  let cpu := { cpu with reg := { cpu.reg with E := cpu.reg.H } }
  (true, cpu)

-- cpu.c:893  0x5D (- - - -) 1M
def ld_e_l (t : MemoryTables D) (cpu : CPU D) : Bool × CPU D :=
  let cpu := { cpu with reg := { cpu.reg with E := cpu.reg.L } }
  (true, cpu)

-- cpu.c:898  0x5E (- - - -) 2M
def ld_e_hl (t : MemoryTables D) (cpu : CPU D) : Bool × CPU D :=
  match cpu.ins.duration with
  | 1 => (false, cpu)
  | 2 =>
    let hl := getDR cpu .HL_REG
    let cpu := { cpu with reg := { cpu.reg with E := read_memory t cpu.mem hl } }
    (true, cpu)
  | _ => (true, cpu)

-- cpu.c:913  0x5F (- - - -) 1M
def ld_e_a (t : MemoryTables D) (cpu : CPU D) : Bool × CPU D :=
  let cpu := { cpu with reg := { cpu.reg with E := cpu.reg.A } }
  (true, cpu)

-- cpu.c:919  0x60 (- - - -) 1M
def ld_h_b (t : MemoryTables D) (cpu : CPU D) : Bool × CPU D :=
  let cpu := { cpu with reg := { cpu.reg with H := cpu.reg.B } }
  (true, cpu)

-- cpu.c:924  0x61 (- - - -) 1M
def ld_h_c (t : MemoryTables D) (cpu : CPU D) : Bool × CPU D :=
  let cpu := { cpu with reg := { cpu.reg with H := cpu.reg.C } }
  (true, cpu)

-- cpu.c:929  0x62 (- - - -) 1M
def ld_h_d (t : MemoryTables D) (cpu : CPU D) : Bool × CPU D :=
  let cpu := { cpu with reg := { cpu.reg with H := cpu.reg.D } }
  (true, cpu)

-- cpu.c:934  0x63 (- - - -) 1M
def ld_h_e (t : MemoryTables D) (cpu : CPU D) : Bool × CPU D :=
  let cpu := { cpu with reg := { cpu.reg with H := cpu.reg.E } }
  (true, cpu)

-- cpu.c:939  0x65 (- - - -) 1M
def ld_h_l (t : MemoryTables D) (cpu : CPU D) : Bool × CPU D :=
  let cpu := { cpu with reg := { cpu.reg with H := cpu.reg.L } }
  (true, cpu)

-- cpu.c:944  0x66 (- - - -) 2M
def ld_h_hl (t : MemoryTables D) (cpu : CPU D) : Bool × CPU D :=
  match cpu.ins.duration with
  | 1 => (false, cpu)
  | 2 =>
    let hl := getDR cpu .HL_REG
    let cpu := { cpu with reg := { cpu.reg with H := read_memory t cpu.mem hl } }
    (true, cpu)
  | _ => (true, cpu)

-- cpu.c:959  0x67 (- - - -) 1M
def ld_h_a (t : MemoryTables D) (cpu : CPU D) : Bool × CPU D :=
  let cpu := { cpu with reg := { cpu.reg with H := cpu.reg.A } }
  (true, cpu)

-- cpu.c:964  0x68 (- - - -) 1M
def ld_l_b (t : MemoryTables D) (cpu : CPU D) : Bool × CPU D :=
  let cpu := { cpu with reg := { cpu.reg with L := cpu.reg.B } }
  (true, cpu)

-- cpu.c:969  0x69 (- - - -) 1M
def ld_l_c (t : MemoryTables D) (cpu : CPU D) : Bool × CPU D :=
  let cpu := { cpu with reg := { cpu.reg with L := cpu.reg.C } }
  (true, cpu)

-- cpu.c:974  0x6A (- - - -) 1M
def ld_l_d (t : MemoryTables D) (cpu : CPU D) : Bool × CPU D :=
  let cpu := { cpu with reg := { cpu.reg with L := cpu.reg.D } }
  (true, cpu)

-- cpu.c:979  0x6B (- - - -) 1M
def ld_l_e (t : MemoryTables D) (cpu : CPU D) : Bool × CPU D :=
  let cpu := { cpu with reg := { cpu.reg with L := cpu.reg.E } }
  (true, cpu)

-- cpu.c:984  0x6C (- - - -) 1M
def ld_l_h (t : MemoryTables D) (cpu : CPU D) : Bool × CPU D :=
  let cpu := { cpu with reg := { cpu.reg with L := cpu.reg.H } }
  (true, cpu)

-- cpu.c:989  0x6E (- - - -) 2M
def ld_l_hl (t : MemoryTables D) (cpu : CPU D) : Bool × CPU D :=
  match cpu.ins.duration with
  | 1 => (false, cpu)
  | 2 =>
    let hl := getDR cpu .HL_REG
    let cpu := { cpu with reg := { cpu.reg with L := read_memory t cpu.mem hl } }
    (true, cpu)
  | _ => (true, cpu)

-- cpu.c:1004  0x6F (- - - -) 1M
def ld_l_a (t : MemoryTables D) (cpu : CPU D) : Bool × CPU D :=
  let cpu := { cpu with reg := { cpu.reg with L := cpu.reg.A } }
  (true, cpu)

-- cpu.c:1010  0x78 (- - - -) 1M
def ld_a_b (t : MemoryTables D) (cpu : CPU D) : Bool × CPU D :=
  let cpu := { cpu with reg := { cpu.reg with A := cpu.reg.B } }
  (true, cpu)

-- cpu.c:1015  0x79 (- - - -) 1M
def ld_a_c (t : MemoryTables D) (cpu : CPU D) : Bool × CPU D :=
  let cpu := { cpu with reg := { cpu.reg with A := cpu.reg.C } }
  (true, cpu)

-- cpu.c:1020  0x7A (- - - -) 1M
def ld_a_d (t : MemoryTables D) (cpu : CPU D) : Bool × CPU D :=
  let cpu := { cpu with reg := { cpu.reg with A := cpu.reg.D } }
  (true, cpu)

-- cpu.c:1025  0x7B (- - - -) 1M
def ld_a_e (t : MemoryTables D) (cpu : CPU D) : Bool × CPU D :=
  let cpu := { cpu with reg := { cpu.reg with A := cpu.reg.E } }
  (true, cpu)

-- cpu.c:1030  0x7C (- - - -) 1M
def ld_a_h (t : MemoryTables D) (cpu : CPU D) : Bool × CPU D :=
  let cpu := { cpu with reg := { cpu.reg with A := cpu.reg.H } }
  (true, cpu)

-- cpu.c:1035  0x7D (- - - -) 1M
def ld_a_l (t : MemoryTables D) (cpu : CPU D) : Bool × CPU D :=
  let cpu := { cpu with reg := { cpu.reg with A := cpu.reg.L } }
  (true, cpu)

-- cpu.c:1040  0x7E (- - - -) 2M
def ld_a_hl (t : MemoryTables D) (cpu : CPU D) : Bool × CPU D :=
  match cpu.ins.duration with
  | 1 => (false, cpu)
  | 2 =>
    let hl := getDR cpu .HL_REG
    let cpu := { cpu with reg := { cpu.reg with A := read_memory t cpu.mem hl } }
    (true, cpu)
  | _ => (true, cpu)

-- cpu.c:1055  0x0A (- - - -) 2M
def ld_a_bc (t : MemoryTables D) (cpu : CPU D) : Bool × CPU D :=
  match cpu.ins.duration with
  | 1 => (false, cpu)
  | 2 =>
    let bc := getDR cpu .BC_REG
    let cpu := { cpu with reg := { cpu.reg with A := read_memory t cpu.mem bc } }
    (true, cpu)
  | _ => (true, cpu)

-- cpu.c:1070  0x1A (- - - -) 2M
def ld_a_de (t : MemoryTables D) (cpu : CPU D) : Bool × CPU D :=
  match cpu.ins.duration with
  | 1 => (false, cpu)
  | 2 =>
    let de := getDR cpu .DE_REG
    let cpu := { cpu with reg := { cpu.reg with A := read_memory t cpu.mem de } }
    (true, cpu)
  | _ => (true, cpu)

-- cpu.c:1086
def reg_ld_n_8 (t : MemoryTables D) (cpu : CPU D) (reg : Reg8) : Bool × CPU D :=
  match cpu.ins.duration with
  | 1 => (false, cpu)
  | 2 =>
    let r := fetch t cpu
    let cpu := write_reg8 r.2 reg r.1
    (true, cpu)
  | _ => (true, cpu)

-- cpu.c:1100  0x06 (- - - -) 2M
def ld_b_n (t : MemoryTables D) (cpu : CPU D) : Bool × CPU D :=
  reg_ld_n_8 t cpu .B

-- cpu.c:1104  0x0E (- - - -) 2M
def ld_c_n (t : MemoryTables D) (cpu : CPU D) : Bool × CPU D :=
  reg_ld_n_8 t cpu .C

-- cpu.c:1108  0x16 (- - - -) 2M
def ld_d_n (t : MemoryTables D) (cpu : CPU D) : Bool × CPU D :=
  reg_ld_n_8 t cpu .D

-- cpu.c:1112  0x1E (- - - -) 2M
def ld_e_n (t : MemoryTables D) (cpu : CPU D) : Bool × CPU D :=
  reg_ld_n_8 t cpu .E

-- cpu.c:1116  0x26 (- - - -) 2M
def ld_h_n (t : MemoryTables D) (cpu : CPU D) : Bool × CPU D :=
  reg_ld_n_8 t cpu .H

-- cpu.c:1120  0x2E (- - - -) 2M
def ld_l_n (t : MemoryTables D) (cpu : CPU D) : Bool × CPU D :=
  reg_ld_n_8 t cpu .L

-- cpu.c:1124  0x36 (- - - -) 3M
def ld_hl_n (t : MemoryTables D) (cpu : CPU D) : Bool × CPU D :=
  match cpu.ins.duration with
  | 1 => (false, cpu)
  | 2 =>
    let r := fetch t cpu
    let cpu := { r.2 with ins := { r.2.ins with low := r.1 } }
    (false, cpu)
  | 3 =>
    let hl := getDR cpu .HL_REG
    let cpu := { cpu with mem := write_memory t cpu.mem hl cpu.ins.low }
    (true, cpu)
  | _ => (true, cpu)

-- cpu.c:1143  0x3E (- - - -) 2M
def ld_a_n (t : MemoryTables D) (cpu : CPU D) : Bool × CPU D :=
  reg_ld_n_8 t cpu .A

-- cpu.c:1148
def reg_inc_8 (cpu : CPU D) (r : Nat) : Nat × CPU D :=
  let result := (r + 1) % 256
  let is_zero := decide (result = 0)
  let hc_exists := decide ((r &&& LOWER_4_MASK) = LOWER_4_MASK)
  let cpu := set_flag cpu is_zero ZERO_FLAG
  let cpu := set_flag cpu false SUBTRACT_FLAG
  let cpu := set_flag cpu hc_exists HALF_CARRY_FLAG
  (result, cpu)

-- cpu.c:1158  0x04 (Z 0 H -) 1M
def inc_b (t : MemoryTables D) (cpu : CPU D) : Bool × CPU D :=
  let r := reg_inc_8 cpu cpu.reg.B
  let cpu := { r.2 with reg := { r.2.reg with B := r.1 } }
  (true, cpu)

-- cpu.c:1163  0x14 (Z 0 H -) 1M
def inc_d (t : MemoryTables D) (cpu : CPU D) : Bool × CPU D :=
  let r := reg_inc_8 cpu cpu.reg.D
  let cpu := { r.2 with reg := { r.2.reg with D := r.1 } }
  (true, cpu)

-- cpu.c:1168  0x24 (Z 0 H -) 1M
def inc_h (t : MemoryTables D) (cpu : CPU D) : Bool × CPU D :=
  let r := reg_inc_8 cpu cpu.reg.H
  let cpu := { r.2 with reg := { r.2.reg with H := r.1 } }
  (true, cpu)

-- cpu.c:1173  0x34 (Z 0 H -) 3M
def inc_hl_mem (t : MemoryTables D) (cpu : CPU D) : Bool × CPU D :=
  match cpu.ins.duration with
  | 1 => (false, cpu)
  | 2 =>
    let hl := getDR cpu .HL_REG
    let cpu := { cpu with ins := { cpu.ins with low := read_memory t cpu.mem hl } }
    let cpu := { cpu with ins := { cpu.ins with address := hl } }
    (false, cpu)
  | 3 =>
    let r := reg_inc_8 cpu cpu.ins.low
    let result := r.1
    let cpu := r.2
    let cpu := { cpu with mem := write_memory t cpu.mem cpu.ins.address result }
    (true, cpu)
  | _ => (true, cpu)

-- cpu.c:1194  0x0C (Z 0 H -) 1M
def inc_c (t : MemoryTables D) (cpu : CPU D) : Bool × CPU D :=
  let r := reg_inc_8 cpu cpu.reg.C
  let cpu := { r.2 with reg := { r.2.reg with C := r.1 } }
  (true, cpu)

-- cpu.c:1199  0x1C (Z 0 H -) 1M
def inc_e (t : MemoryTables D) (cpu : CPU D) : Bool × CPU D :=
  let r := reg_inc_8 cpu cpu.reg.E
  let cpu := { r.2 with reg := { r.2.reg with E := r.1 } }
  (true, cpu)

-- cpu.c:1204  0x2C (Z 0 H -) 1M
def inc_l (t : MemoryTables D) (cpu : CPU D) : Bool × CPU D :=
  let r := reg_inc_8 cpu cpu.reg.L
  let cpu := { r.2 with reg := { r.2.reg with L := r.1 } }
  (true, cpu)

-- cpu.c:1209  0x3C (Z 0 H -) 1M
def inc_a (t : MemoryTables D) (cpu : CPU D) : Bool × CPU D :=
  let r := reg_inc_8 cpu cpu.reg.A
  let cpu := { r.2 with reg := { r.2.reg with A := r.1 } }
  (true, cpu)

-- cpu.c:1215
def reg_dec_8 (cpu : CPU D) (r : Nat) : Nat × CPU D :=
  let result := (r + 0xFF) % 256
  let is_zero := decide (result = 0)
  let hc_exists := decide ((r &&& LOWER_4_MASK) = 0)
  let cpu := set_flag cpu is_zero ZERO_FLAG
  let cpu := set_flag cpu true SUBTRACT_FLAG
  let cpu := set_flag cpu hc_exists HALF_CARRY_FLAG
  (result, cpu)

-- cpu.c:1225  0x05 (Z 1 H -) 1M
def dec_b (t : MemoryTables D) (cpu : CPU D) : Bool × CPU D :=
  let r := reg_dec_8 cpu cpu.reg.B
  let cpu := { r.2 with reg := { r.2.reg with B := r.1 } }
  (true, cpu)

-- cpu.c:1230  0x15 (Z 1 H -) 1M
def dec_d (t : MemoryTables D) (cpu : CPU D) : Bool × CPU D :=
  let r := reg_dec_8 cpu cpu.reg.D
  let cpu := { r.2 with reg := { r.2.reg with D := r.1 } }
  (true, cpu)

-- cpu.c:1235  0x25 (Z 1 H -) 1M
def dec_h (t : MemoryTables D) (cpu : CPU D) : Bool × CPU D :=
  let r := reg_dec_8 cpu cpu.reg.H
  let cpu := { r.2 with reg := { r.2.reg with H := r.1 } }
  (true, cpu)

-- cpu.c:1240  0x35 (Z 1 H -) 3M
def dec_hl_mem (t : MemoryTables D) (cpu : CPU D) : Bool × CPU D :=
  match cpu.ins.duration with
  | 1 => (false, cpu)
  | 2 =>
    let hl := getDR cpu .HL_REG
    let cpu := { cpu with ins := { cpu.ins with low := read_memory t cpu.mem hl } }
    let cpu := { cpu with ins := { cpu.ins with address := hl } }
    (false, cpu)
  | 3 =>
    let r := reg_dec_8 cpu cpu.ins.low
    let result := r.1
    let cpu := r.2
    let cpu := { cpu with mem := write_memory t cpu.mem cpu.ins.address result }
    (true, cpu)
  | _ => (true, cpu)

-- cpu.c:1261  0x0D (Z 1 H -) 1M
def dec_c (t : MemoryTables D) (cpu : CPU D) : Bool × CPU D :=
  let r := reg_dec_8 cpu cpu.reg.C
  let cpu := { r.2 with reg := { r.2.reg with C := r.1 } }
  (true, cpu)

-- cpu.c:1266  0x1D (Z 1 H -) 1M
def dec_e (t : MemoryTables D) (cpu : CPU D) : Bool × CPU D :=
  let r := reg_dec_8 cpu cpu.reg.E
  let cpu := { r.2 with reg := { r.2.reg with E := r.1 } }
  (true, cpu)

-- cpu.c:1271  0x2D (Z 1 H -) 1M
def dec_l (t : MemoryTables D) (cpu : CPU D) : Bool × CPU D :=
  let r := reg_dec_8 cpu cpu.reg.L
  let cpu := { r.2 with reg := { r.2.reg with L := r.1 } }
  (true, cpu)

-- cpu.c:1276  0x3D (Z 1 H -) 1M
def dec_a (t : MemoryTables D) (cpu : CPU D) : Bool × CPU D :=
  let r := reg_dec_8 cpu cpu.reg.A
  let cpu := { r.2 with reg := { r.2.reg with A := r.1 } }
  (true, cpu)

-- cpu.c:1282  0x07 (0 0 0 C) 1M
def rlca (t : MemoryTables D) (cpu : CPU D) : Bool × CPU D :=
  let c_exists := decide ((cpu.reg.A &&& BIT_7_MASK) ≠ 0)
  let cpu := { cpu with reg := { cpu.reg with A := ((cpu.reg.A >>> 7) ||| (cpu.reg.A <<< 1)) % 256 } }
  let cpu := set_flag cpu false ZERO_FLAG
  let cpu := set_flag cpu false SUBTRACT_FLAG
  let cpu := set_flag cpu false HALF_CARRY_FLAG
  let cpu := set_flag cpu c_exists CARRY_FLAG
  (true, cpu)

-- cpu.c:1292  0x17 (0 0 0 C) 1M
def rla (t : MemoryTables D) (cpu : CPU D) : Bool × CPU D :=
  let c_exists := decide ((cpu.reg.A &&& BIT_7_MASK) ≠ 0)
  let carry_in := if is_flag_set cpu CARRY_FLAG then 1 else 0
  let cpu := { cpu with reg := { cpu.reg with A := ((cpu.reg.A <<< 1) ||| carry_in) % 256 } }
  let cpu := set_flag cpu false ZERO_FLAG
  let cpu := set_flag cpu false SUBTRACT_FLAG
  let cpu := set_flag cpu false HALF_CARRY_FLAG
  let cpu := set_flag cpu c_exists CARRY_FLAG
  (true, cpu)

-- cpu.c:1303  0x0F (0 0 0 C) 1M
def rrca (t : MemoryTables D) (cpu : CPU D) : Bool × CPU D :=
  let c_exists := decide ((cpu.reg.A &&& BIT_0_MASK) ≠ 0)
  let cpu := { cpu with reg := { cpu.reg with A := ((cpu.reg.A <<< 7) ||| (cpu.reg.A >>> 1)) % 256 } }
  let cpu := set_flag cpu false ZERO_FLAG
  let cpu := set_flag cpu false SUBTRACT_FLAG
  let cpu := set_flag cpu false HALF_CARRY_FLAG
  let cpu := set_flag cpu c_exists CARRY_FLAG
  (true, cpu)

-- cpu.c:1313  0x1F (0 0 0 C) 1M
def rra (t : MemoryTables D) (cpu : CPU D) : Bool × CPU D :=
  let c_exists := decide ((cpu.reg.A &&& BIT_0_MASK) ≠ 0)
  let carry_in := if is_flag_set cpu CARRY_FLAG then 1 else 0
  let cpu := { cpu with reg := { cpu.reg with A := ((carry_in <<< 7) ||| (cpu.reg.A >>> 1)) % 256 } }
  let cpu := set_flag cpu false ZERO_FLAG
  let cpu := set_flag cpu false SUBTRACT_FLAG
  let cpu := set_flag cpu false HALF_CARRY_FLAG
  let cpu := set_flag cpu c_exists CARRY_FLAG
  (true, cpu)

-- cpu.c:1325
def reg_add_16 (cpu : CPU D) (dest : Nat) (source : Nat) : Nat × CPU D :=
  let hc_exists := decide (((dest &&& LOWER_12_MASK) + (source &&& LOWER_12_MASK)) > LOWER_12_MASK)
  let c_exists := decide ((dest + source) > MAX_INT_16)
  let cpu := set_flag cpu false SUBTRACT_FLAG
  let cpu := set_flag cpu hc_exists HALF_CARRY_FLAG
  let cpu := set_flag cpu c_exists CARRY_FLAG
  let result := (dest + source) % 65536
  (result, cpu)

-- cpu.c:1335
def reg_add_16_handler (cpu : CPU D) (source : DualRegister) : Bool × CPU D :=
  match cpu.ins.duration with
  | 1 => (false, cpu)
  | 2 =>
    let hl := getDR cpu .HL_REG
    let operand := getDR cpu source
    let r := reg_add_16 cpu hl operand
    let result := r.1
    let cpu := r.2
    let cpu := setDR cpu .HL_REG result
    (true, cpu)
  | _ => (true, cpu)

-- cpu.c:1352  0x09 (- 0 H C) 2M
def add_hl_bc (t : MemoryTables D) (cpu : CPU D) : Bool × CPU D :=
  reg_add_16_handler cpu .BC_REG

-- cpu.c:1356  0x19 (- 0 H C) 2M
def add_hl_de (t : MemoryTables D) (cpu : CPU D) : Bool × CPU D :=
  reg_add_16_handler cpu .DE_REG

-- cpu.c:1360  0x29 (- 0 H C) 2M
def add_hl_hl (t : MemoryTables D) (cpu : CPU D) : Bool × CPU D :=
  reg_add_16_handler cpu .HL_REG

-- cpu.c:1364  0x39 (- 0 H C) 2M
def add_hl_sp (t : MemoryTables D) (cpu : CPU D) : Bool × CPU D :=
  reg_add_16_handler cpu .SP_REG

-- cpu.c:1369
def reg_add_8 (cpu : CPU D) (dest : Nat) (source : Nat) : Nat × CPU D :=
  let result := (dest + source) % 256
  let is_zero := decide (result = 0)
  let hc_exists := decide (((dest &&& LOWER_4_MASK) + (source &&& LOWER_4_MASK)) > LOWER_4_MASK)
  let c_exists := decide ((dest + source) > LOWER_BYTE_MASK)
  let cpu := set_flag cpu is_zero ZERO_FLAG
  let cpu := set_flag cpu false SUBTRACT_FLAG
  let cpu := set_flag cpu hc_exists HALF_CARRY_FLAG
  let cpu := set_flag cpu c_exists CARRY_FLAG
  (result, cpu)

-- cpu.c:1381  0x80 (Z 0 H C) 1M
def add_a_b (t : MemoryTables D) (cpu : CPU D) : Bool × CPU D :=
  let r := reg_add_8 cpu cpu.reg.A cpu.reg.B
  let cpu := { r.2 with reg := { r.2.reg with A := r.1 } }
  (true, cpu)

-- cpu.c:1386  0x81 (Z 0 H C) 1M
def add_a_c (t : MemoryTables D) (cpu : CPU D) : Bool × CPU D :=
  let r := reg_add_8 cpu cpu.reg.A cpu.reg.C
  let cpu := { r.2 with reg := { r.2.reg with A := r.1 } }
  (true, cpu)

-- cpu.c:1391  0x82 (Z 0 H C) 1M
def add_a_d (t : MemoryTables D) (cpu : CPU D) : Bool × CPU D :=
  let r := reg_add_8 cpu cpu.reg.A cpu.reg.D
  let cpu := { r.2 with reg := { r.2.reg with A := r.1 } }
  (true, cpu)

-- cpu.c:1396  0x83 (Z 0 H C) 1M
def add_a_e (t : MemoryTables D) (cpu : CPU D) : Bool × CPU D :=
  let r := reg_add_8 cpu cpu.reg.A cpu.reg.E
  let cpu := { r.2 with reg := { r.2.reg with A := r.1 } }
  (true, cpu)

-- cpu.c:1401  0x84 (Z 0 H C) 1M
def add_a_h (t : MemoryTables D) (cpu : CPU D) : Bool × CPU D :=
  let r := reg_add_8 cpu cpu.reg.A cpu.reg.H
  let cpu := { r.2 with reg := { r.2.reg with A := r.1 } }
  (true, cpu)

-- cpu.c:1406  0x85 (Z 0 H C) 1M
def add_a_l (t : MemoryTables D) (cpu : CPU D) : Bool × CPU D :=
  let r := reg_add_8 cpu cpu.reg.A cpu.reg.L
  let cpu := { r.2 with reg := { r.2.reg with A := r.1 } }
  (true, cpu)

-- cpu.c:1411  0x86 (Z 0 H C) 2M
def add_a_hl (t : MemoryTables D) (cpu : CPU D) : Bool × CPU D :=
  match cpu.ins.duration with
  | 1 => (false, cpu)
  | 2 =>
    let hl := getDR cpu .HL_REG
    let r := reg_add_8 cpu cpu.reg.A (read_memory t cpu.mem hl)
    let cpu := { r.2 with reg := { r.2.reg with A := r.1 } }
    (true, cpu)
  | _ => (true, cpu)

-- cpu.c:1426  0x87 (Z 0 H C) 1M
def add_a_a (t : MemoryTables D) (cpu : CPU D) : Bool × CPU D :=
  let r := reg_add_8 cpu cpu.reg.A cpu.reg.A
  let cpu := { r.2 with reg := { r.2.reg with A := r.1 } }
  (true, cpu)

-- cpu.c:1431  0xC6 (Z 0 H C) 2M
def add_a_n (t : MemoryTables D) (cpu : CPU D) : Bool × CPU D :=
  match cpu.ins.duration with
  | 1 =>
    let r := fetch t cpu
    let cpu := { r.2 with ins := { r.2.ins with low := r.1 } }
    (false, cpu)
  | 2 =>
    let r := reg_add_8 cpu cpu.reg.A cpu.ins.low
    let cpu := { r.2 with reg := { r.2.reg with A := r.1 } }
    (true, cpu)
  | _ => (true, cpu)

-- cpu.c:1447
def reg_adc_8 (cpu : CPU D) (dest : Nat) (source : Nat) : Nat × CPU D :=
  let carry := if is_flag_set cpu CARRY_FLAG then 1 else 0
  let result := (dest + source + carry) % 256
  let is_zero := decide (result = 0)
  let hc_exists :=
    decide (((dest &&& LOWER_4_MASK) + (source &&& LOWER_4_MASK) + carry) > LOWER_4_MASK)
  let c_exists := decide ((dest + source + carry) > LOWER_BYTE_MASK)
  let cpu := set_flag cpu is_zero ZERO_FLAG
  let cpu := set_flag cpu false SUBTRACT_FLAG
  let cpu := set_flag cpu hc_exists HALF_CARRY_FLAG
  let cpu := set_flag cpu c_exists CARRY_FLAG
  (result, cpu)

-- cpu.c:1460  0x88 (Z 0 H C) 1M
def adc_a_b (t : MemoryTables D) (cpu : CPU D) : Bool × CPU D :=
  let r := reg_adc_8 cpu cpu.reg.A cpu.reg.B
  let cpu := { r.2 with reg := { r.2.reg with A := r.1 } }
  (true, cpu)

-- cpu.c:1465  0x89 (Z 0 H C) 1M
def adc_a_c (t : MemoryTables D) (cpu : CPU D) : Bool × CPU D :=
  let r := reg_adc_8 cpu cpu.reg.A cpu.reg.C
  let cpu := { r.2 with reg := { r.2.reg with A := r.1 } }
  (true, cpu)

-- cpu.c:1470  0x8A (Z 0 H C) 1M
def adc_a_d (t : MemoryTables D) (cpu : CPU D) : Bool × CPU D :=
  let r := reg_adc_8 cpu cpu.reg.A cpu.reg.D
  let cpu := { r.2 with reg := { r.2.reg with A := r.1 } }
  (true, cpu)

-- cpu.c:1475  0x8B (Z 0 H C) 1M
def adc_a_e (t : MemoryTables D) (cpu : CPU D) : Bool × CPU D :=
  let r := reg_adc_8 cpu cpu.reg.A cpu.reg.E
  let cpu := { r.2 with reg := { r.2.reg with A := r.1 } }
  (true, cpu)

-- cpu.c:1480  0x8C (Z 0 H C) 1M
def adc_a_h (t : MemoryTables D) (cpu : CPU D) : Bool × CPU D :=
  let r := reg_adc_8 cpu cpu.reg.A cpu.reg.H
  let cpu := { r.2 with reg := { r.2.reg with A := r.1 } }
  (true, cpu)

-- cpu.c:1485  0x8D (Z 0 H C) 1M
def adc_a_l (t : MemoryTables D) (cpu : CPU D) : Bool × CPU D :=
  let r := reg_adc_8 cpu cpu.reg.A cpu.reg.L
  let cpu := { r.2 with reg := { r.2.reg with A := r.1 } }
  (true, cpu)

-- cpu.c:1490  0x8E (Z 0 H C) 2M
def adc_a_hl (t : MemoryTables D) (cpu : CPU D) : Bool × CPU D :=
  match cpu.ins.duration with
  | 1 => (false, cpu)
  | 2 =>
    let hl := getDR cpu .HL_REG
    let r := reg_adc_8 cpu cpu.reg.A (read_memory t cpu.mem hl)
    let cpu := { r.2 with reg := { r.2.reg with A := r.1 } }
    (true, cpu)
  | _ => (true, cpu)

-- cpu.c:1505  0x8F (Z 0 H C) 1M
def adc_a_a (t : MemoryTables D) (cpu : CPU D) : Bool × CPU D :=
  let r := reg_adc_8 cpu cpu.reg.A cpu.reg.A
  let cpu := { r.2 with reg := { r.2.reg with A := r.1 } }
  (true, cpu)

-- cpu.c:1510  0xCE (Z 0 H C) 2M
def adc_a_n (t : MemoryTables D) (cpu : CPU D) : Bool × CPU D :=
  match cpu.ins.duration with
  | 1 =>
    let r := fetch t cpu
    let cpu := { r.2 with ins := { r.2.ins with low := r.1 } }
    (false, cpu)
  | 2 =>
    let r := reg_adc_8 cpu cpu.reg.A cpu.ins.low
    let cpu := { r.2 with reg := { r.2.reg with A := r.1 } }
    (true, cpu)
  | _ => (true, cpu)

-- cpu.c:1526
def reg_sub_8 (cpu : CPU D) (dest : Nat) (source : Nat) : Nat × CPU D :=
  let result := (dest + 0x100 - source) % 256
  let is_zero := decide (result = 0)
  let hc_exists := decide ((dest &&& LOWER_4_MASK) < (source &&& LOWER_4_MASK))
  let c_exists := decide (dest < source)
  let cpu := set_flag cpu is_zero ZERO_FLAG
  let cpu := set_flag cpu true SUBTRACT_FLAG
  let cpu := set_flag cpu hc_exists HALF_CARRY_FLAG
  let cpu := set_flag cpu c_exists CARRY_FLAG
  (result, cpu)

-- cpu.c:1538  0x90 (Z 1 H C) 1M
def sub_a_b (t : MemoryTables D) (cpu : CPU D) : Bool × CPU D :=
  let r := reg_sub_8 cpu cpu.reg.A cpu.reg.B
  let cpu := { r.2 with reg := { r.2.reg with A := r.1 } }
  (true, cpu)

-- cpu.c:1543  0x91 (Z 1 H C) 1M
def sub_a_c (t : MemoryTables D) (cpu : CPU D) : Bool × CPU D :=
  let r := reg_sub_8 cpu cpu.reg.A cpu.reg.C
  let cpu := { r.2 with reg := { r.2.reg with A := r.1 } }
  (true, cpu)

-- cpu.c:1548  0x92 (Z 1 H C) 1M
def sub_a_d (t : MemoryTables D) (cpu : CPU D) : Bool × CPU D :=
  let r := reg_sub_8 cpu cpu.reg.A cpu.reg.D
  let cpu := { r.2 with reg := { r.2.reg with A := r.1 } }
  (true, cpu)

-- cpu.c:1553  0x93 (Z 1 H C) 1M
def sub_a_e (t : MemoryTables D) (cpu : CPU D) : Bool × CPU D :=
  let r := reg_sub_8 cpu cpu.reg.A cpu.reg.E
  let cpu := { r.2 with reg := { r.2.reg with A := r.1 } }
  (true, cpu)

-- cpu.c:1558  0x94 (Z 1 H C) 1M
def sub_a_h (t : MemoryTables D) (cpu : CPU D) : Bool × CPU D :=
  let r := reg_sub_8 cpu cpu.reg.A cpu.reg.H
  let cpu := { r.2 with reg := { r.2.reg with A := r.1 } }
  (true, cpu)

-- cpu.c:1563  0x95 (Z 1 H C) 1M
def sub_a_l (t : MemoryTables D) (cpu : CPU D) : Bool × CPU D :=
  let r := reg_sub_8 cpu cpu.reg.A cpu.reg.L
  let cpu := { r.2 with reg := { r.2.reg with A := r.1 } }
  (true, cpu)

-- cpu.c:1568  0x96 (Z 1 H C) 2M
def sub_a_hl (t : MemoryTables D) (cpu : CPU D) : Bool × CPU D :=
  match cpu.ins.duration with
  | 1 => (false, cpu)
  | 2 =>
    let hl := getDR cpu .HL_REG
    let r := reg_sub_8 cpu cpu.reg.A (read_memory t cpu.mem hl)
    let cpu := { r.2 with reg := { r.2.reg with A := r.1 } }
    (true, cpu)
  | _ => (true, cpu)

-- cpu.c:1583  0x97 (Z 1 H C) 1M
def sub_a_a (t : MemoryTables D) (cpu : CPU D) : Bool × CPU D :=
  let r := reg_sub_8 cpu cpu.reg.A cpu.reg.A
  let cpu := { r.2 with reg := { r.2.reg with A := r.1 } }
  (true, cpu)

-- cpu.c:1588  0xD6 (Z 1 H C) 2M
def sub_a_n (t : MemoryTables D) (cpu : CPU D) : Bool × CPU D :=
  match cpu.ins.duration with
  | 1 =>
    let r := fetch t cpu
    let cpu := { r.2 with ins := { r.2.ins with low := r.1 } }
    (false, cpu)
  | 2 =>
    let r := reg_sub_8 cpu cpu.reg.A cpu.ins.low
    let cpu := { r.2 with reg := { r.2.reg with A := r.1 } }
    (true, cpu)
  | _ => (true, cpu)

-- cpu.c:1604
def reg_sbc_8 (cpu : CPU D) (dest : Nat) (source : Nat) : Nat × CPU D :=
  let carry := if is_flag_set cpu CARRY_FLAG then 1 else 0
  let result := (dest + 0x200 - source - carry) % 256
  let is_zero := decide (result = 0)
  let hc_exists := decide ((dest &&& LOWER_4_MASK) < ((source &&& LOWER_4_MASK) + carry))
  let c_exists := decide (dest < (source + carry))
  let cpu := set_flag cpu is_zero ZERO_FLAG
  let cpu := set_flag cpu true SUBTRACT_FLAG
  let cpu := set_flag cpu hc_exists HALF_CARRY_FLAG
  let cpu := set_flag cpu c_exists CARRY_FLAG
  (result, cpu)

-- cpu.c:1617  0x98 (Z 1 H C) 1M
def sbc_a_b (t : MemoryTables D) (cpu : CPU D) : Bool × CPU D :=
  let r := reg_sbc_8 cpu cpu.reg.A cpu.reg.B
  let cpu := { r.2 with reg := { r.2.reg with A := r.1 } }
  (true, cpu)

-- cpu.c:1622  0x99 (Z 1 H C) 1M
def sbc_a_c (t : MemoryTables D) (cpu : CPU D) : Bool × CPU D :=
  let r := reg_sbc_8 cpu cpu.reg.A cpu.reg.C
  let cpu := { r.2 with reg := { r.2.reg with A := r.1 } }
  (true, cpu)

-- cpu.c:1627  0x9A (Z 1 H C) 1M
def sbc_a_d (t : MemoryTables D) (cpu : CPU D) : Bool × CPU D :=
  let r := reg_sbc_8 cpu cpu.reg.A cpu.reg.D
  let cpu := { r.2 with reg := { r.2.reg with A := r.1 } }
  (true, cpu)

-- cpu.c:1632  0x9B (Z 1 H C) 1M
def sbc_a_e (t : MemoryTables D) (cpu : CPU D) : Bool × CPU D :=
  let r := reg_sbc_8 cpu cpu.reg.A cpu.reg.E
  let cpu := { r.2 with reg := { r.2.reg with A := r.1 } }
  (true, cpu)

-- cpu.c:1637  0x9C (Z 1 H C) 1M
def sbc_a_h (t : MemoryTables D) (cpu : CPU D) : Bool × CPU D :=
  let r := reg_sbc_8 cpu cpu.reg.A cpu.reg.H
  let cpu := { r.2 with reg := { r.2.reg with A := r.1 } }
  (true, cpu)

-- cpu.c:1642  0x9D (Z 1 H C) 1M
def sbc_a_l (t : MemoryTables D) (cpu : CPU D) : Bool × CPU D :=
  let r := reg_sbc_8 cpu cpu.reg.A cpu.reg.L
  let cpu := { r.2 with reg := { r.2.reg with A := r.1 } }
  (true, cpu)

-- cpu.c:1647  0x9E (Z 1 H C) 2M
def sbc_a_hl (t : MemoryTables D) (cpu : CPU D) : Bool × CPU D :=
  match cpu.ins.duration with
  | 1 => (false, cpu)
  | 2 =>
    let hl := getDR cpu .HL_REG
    let r := reg_sbc_8 cpu cpu.reg.A (read_memory t cpu.mem hl)
    let cpu := { r.2 with reg := { r.2.reg with A := r.1 } }
    (true, cpu)
  | _ => (true, cpu)

-- cpu.c:1662  0x9F (Z 1 H C) 1M
def sbc_a_a (t : MemoryTables D) (cpu : CPU D) : Bool × CPU D :=
  let r := reg_sbc_8 cpu cpu.reg.A cpu.reg.A
  let cpu := { r.2 with reg := { r.2.reg with A := r.1 } }
  (true, cpu)

-- cpu.c:1667  0xDE (Z 1 H C) 2M
def sbc_a_n (t : MemoryTables D) (cpu : CPU D) : Bool × CPU D :=
  match cpu.ins.duration with
  | 1 =>
    let r := fetch t cpu
    let cpu := { r.2 with ins := { r.2.ins with low := r.1 } }
    (false, cpu)
  | 2 =>
    let r := reg_sbc_8 cpu cpu.reg.A cpu.ins.low
    let cpu := { r.2 with reg := { r.2.reg with A := r.1 } }
    (true, cpu)
  | _ => (true, cpu)

-- cpu.c:1683
def reg_and_8 (cpu : CPU D) (dest : Nat) (source : Nat) : Nat × CPU D :=
  let result := dest &&& source
  let is_zero := decide (result = 0)
  let cpu := set_flag cpu is_zero ZERO_FLAG
  let cpu := set_flag cpu false SUBTRACT_FLAG
  let cpu := set_flag cpu true HALF_CARRY_FLAG
  let cpu := set_flag cpu false CARRY_FLAG
  (result, cpu)

-- cpu.c:1693  0xA0 (Z 0 1 0) 1M
def and_a_b (t : MemoryTables D) (cpu : CPU D) : Bool × CPU D :=
  let r := reg_and_8 cpu cpu.reg.A cpu.reg.B
  let cpu := { r.2 with reg := { r.2.reg with A := r.1 } }
  (true, cpu)

-- cpu.c:1698  0xA1 (Z 0 1 0) 1M
def and_a_c (t : MemoryTables D) (cpu : CPU D) : Bool × CPU D :=
  let r := reg_and_8 cpu cpu.reg.A cpu.reg.C
  let cpu := { r.2 with reg := { r.2.reg with A := r.1 } }
  (true, cpu)

-- cpu.c:1703  0xA2 (Z 0 1 0) 1M
def and_a_d (t : MemoryTables D) (cpu : CPU D) : Bool × CPU D :=
  let r := reg_and_8 cpu cpu.reg.A cpu.reg.D
  let cpu := { r.2 with reg := { r.2.reg with A := r.1 } }
  (true, cpu)

-- cpu.c:1708  0xA3 (Z 0 1 0) 1M
def and_a_e (t : MemoryTables D) (cpu : CPU D) : Bool × CPU D :=
  let r := reg_and_8 cpu cpu.reg.A cpu.reg.E
  let cpu := { r.2 with reg := { r.2.reg with A := r.1 } }
  (true, cpu)

-- cpu.c:1713  0xA4 (Z 0 1 0) 1M
def and_a_h (t : MemoryTables D) (cpu : CPU D) : Bool × CPU D :=
  let r := reg_and_8 cpu cpu.reg.A cpu.reg.H
  let cpu := { r.2 with reg := { r.2.reg with A := r.1 } }
  (true, cpu)

-- cpu.c:1718  0xA5 (Z 0 1 0) 1M
def and_a_l (t : MemoryTables D) (cpu : CPU D) : Bool × CPU D :=
  let r := reg_and_8 cpu cpu.reg.A cpu.reg.L
  let cpu := { r.2 with reg := { r.2.reg with A := r.1 } }
  (true, cpu)

-- cpu.c:1723  0xA6 (Z 0 1 0) 2M
def and_a_hl (t : MemoryTables D) (cpu : CPU D) : Bool × CPU D :=
  match cpu.ins.duration with
  | 1 => (false, cpu)
  | 2 =>
    let hl := getDR cpu .HL_REG
    let r := reg_and_8 cpu cpu.reg.A (read_memory t cpu.mem hl)
    let cpu := { r.2 with reg := { r.2.reg with A := r.1 } }
    (true, cpu)
  | _ => (true, cpu)

-- cpu.c:1738  0xA7 (Z 0 1 0) 1M
def and_a_a (t : MemoryTables D) (cpu : CPU D) : Bool × CPU D :=
  let r := reg_and_8 cpu cpu.reg.A cpu.reg.A
  let cpu := { r.2 with reg := { r.2.reg with A := r.1 } }
  (true, cpu)

-- cpu.c:1743  0xE6 (Z 0 1 0) 2M
def and_a_n (t : MemoryTables D) (cpu : CPU D) : Bool × CPU D :=
  match cpu.ins.duration with
  | 1 =>
    let r := fetch t cpu
    let cpu := { r.2 with ins := { r.2.ins with low := r.1 } }
    (false, cpu)
  | 2 =>
    let r := reg_and_8 cpu cpu.reg.A cpu.ins.low
    let cpu := { r.2 with reg := { r.2.reg with A := r.1 } }
    (true, cpu)
  | _ => (true, cpu)

-- cpu.c:1759
def reg_xor_8 (cpu : CPU D) (dest : Nat) (source : Nat) : Nat × CPU D :=
  let result := dest ^^^ source
  let is_zero := decide (result = 0)
  let cpu := set_flag cpu is_zero ZERO_FLAG
  let cpu := set_flag cpu false SUBTRACT_FLAG
  let cpu := set_flag cpu false HALF_CARRY_FLAG
  let cpu := set_flag cpu false CARRY_FLAG
  (result, cpu)

-- cpu.c:1769  0xA8 (Z 0 0 0) 1M
def xor_a_b (t : MemoryTables D) (cpu : CPU D) : Bool × CPU D :=
  let r := reg_xor_8 cpu cpu.reg.A cpu.reg.B
  let cpu := { r.2 with reg := { r.2.reg with A := r.1 } }
  (true, cpu)

-- cpu.c:1774  0xA9 (Z 0 0 0) 1M
def xor_a_c (t : MemoryTables D) (cpu : CPU D) : Bool × CPU D :=
  let r := reg_xor_8 cpu cpu.reg.A cpu.reg.C
  let cpu := { r.2 with reg := { r.2.reg with A := r.1 } }
  (true, cpu)

-- cpu.c:1779  0xAA (Z 0 0 0) 1M
def xor_a_d (t : MemoryTables D) (cpu : CPU D) : Bool × CPU D :=
  let r := reg_xor_8 cpu cpu.reg.A cpu.reg.D
  let cpu := { r.2 with reg := { r.2.reg with A := r.1 } }
  (true, cpu)

-- cpu.c:1784  0xAB (Z 0 0 0) 1M
def xor_a_e (t : MemoryTables D) (cpu : CPU D) : Bool × CPU D :=
  let r := reg_xor_8 cpu cpu.reg.A cpu.reg.E
  let cpu := { r.2 with reg := { r.2.reg with A := r.1 } }
  (true, cpu)

-- cpu.c:1789  0xAC (Z 0 0 0) 1M
def xor_a_h (t : MemoryTables D) (cpu : CPU D) : Bool × CPU D :=
  let r := reg_xor_8 cpu cpu.reg.A cpu.reg.H
  let cpu := { r.2 with reg := { r.2.reg with A := r.1 } }
  (true, cpu)

-- cpu.c:1794  0xAD (Z 0 0 0) 1M
def xor_a_l (t : MemoryTables D) (cpu : CPU D) : Bool × CPU D :=
  let r := reg_xor_8 cpu cpu.reg.A cpu.reg.L
  let cpu := { r.2 with reg := { r.2.reg with A := r.1 } }
  (true, cpu)

-- cpu.c:1799  0xAE (Z 0 0 0) 2M
def xor_a_hl (t : MemoryTables D) (cpu : CPU D) : Bool × CPU D :=
  match cpu.ins.duration with
  | 1 => (false, cpu)
  | 2 =>
    let hl := getDR cpu .HL_REG
    let r := reg_xor_8 cpu cpu.reg.A (read_memory t cpu.mem hl)
    let cpu := { r.2 with reg := { r.2.reg with A := r.1 } }
    (true, cpu)
  | _ => (true, cpu)

-- cpu.c:1814  0xAF (Z 0 0 0) 1M
def xor_a_a (t : MemoryTables D) (cpu : CPU D) : Bool × CPU D :=
  let r := reg_xor_8 cpu cpu.reg.A cpu.reg.A
  let cpu := { r.2 with reg := { r.2.reg with A := r.1 } }
  (true, cpu)

-- cpu.c:1819  0xEE (Z 0 0 0) 2M
def xor_a_n (t : MemoryTables D) (cpu : CPU D) : Bool × CPU D :=
  match cpu.ins.duration with
  | 1 =>
    let r := fetch t cpu
    let cpu := { r.2 with ins := { r.2.ins with low := r.1 } }
    (false, cpu)
  | 2 =>
    let r := reg_xor_8 cpu cpu.reg.A cpu.ins.low
    let cpu := { r.2 with reg := { r.2.reg with A := r.1 } }
    (true, cpu)
  | _ => (true, cpu)

-- cpu.c:1835
def reg_or_8 (cpu : CPU D) (dest : Nat) (source : Nat) : Nat × CPU D :=
  let result := dest ||| source
  let is_zero := decide (result = 0)
  let cpu := set_flag cpu is_zero ZERO_FLAG
  let cpu := set_flag cpu false SUBTRACT_FLAG
  let cpu := set_flag cpu false HALF_CARRY_FLAG
  let cpu := set_flag cpu false CARRY_FLAG
  (result, cpu)

-- cpu.c:1845  0xB0 (Z 0 0 0) 1M
def or_a_b (t : MemoryTables D) (cpu : CPU D) : Bool × CPU D :=
  let r := reg_or_8 cpu cpu.reg.A cpu.reg.B
  let cpu := { r.2 with reg := { r.2.reg with A := r.1 } }
  (true, cpu)

-- cpu.c:1850  0xB1 (Z 0 0 0) 1M
def or_a_c (t : MemoryTables D) (cpu : CPU D) : Bool × CPU D :=
  let r := reg_or_8 cpu cpu.reg.A cpu.reg.C
  let cpu := { r.2 with reg := { r.2.reg with A := r.1 } }
  (true, cpu)

-- cpu.c:1855  0xB2 (Z 0 0 0) 1M
def or_a_d (t : MemoryTables D) (cpu : CPU D) : Bool × CPU D :=
  let r := reg_or_8 cpu cpu.reg.A cpu.reg.D
  let cpu := { r.2 with reg := { r.2.reg with A := r.1 } }
  (true, cpu)

-- cpu.c:1860  0xB3 (Z 0 0 0) 1M
def or_a_e (t : MemoryTables D) (cpu : CPU D) : Bool × CPU D :=
  let r := reg_or_8 cpu cpu.reg.A cpu.reg.E
  let cpu := { r.2 with reg := { r.2.reg with A := r.1 } }
  (true, cpu)

-- cpu.c:1865  0xB4 (Z 0 0 0) 1M
def or_a_h (t : MemoryTables D) (cpu : CPU D) : Bool × CPU D :=
  let r := reg_or_8 cpu cpu.reg.A cpu.reg.H
  let cpu := { r.2 with reg := { r.2.reg with A := r.1 } }
  (true, cpu)

-- cpu.c:1870  0xB5 (Z 0 0 0) 1M
def or_a_l (t : MemoryTables D) (cpu : CPU D) : Bool × CPU D :=
  let r := reg_or_8 cpu cpu.reg.A cpu.reg.L
  let cpu := { r.2 with reg := { r.2.reg with A := r.1 } }
  (true, cpu)

-- cpu.c:1875  0xB6 (Z 0 0 0) 2M
def or_a_hl (t : MemoryTables D) (cpu : CPU D) : Bool × CPU D :=
  match cpu.ins.duration with
  | 1 => (false, cpu)
  | 2 =>
    let hl := getDR cpu .HL_REG
    let r := reg_or_8 cpu cpu.reg.A (read_memory t cpu.mem hl)
    let cpu := { r.2 with reg := { r.2.reg with A := r.1 } }
    (true, cpu)
  | _ => (true, cpu)

-- cpu.c:1890  0xB7 (Z 0 0 0) 1M
def or_a_a (t : MemoryTables D) (cpu : CPU D) : Bool × CPU D :=
  let r := reg_or_8 cpu cpu.reg.A cpu.reg.A
  let cpu := { r.2 with reg := { r.2.reg with A := r.1 } }
  (true, cpu)

-- cpu.c:1895  0xF6 (Z 0 0 0) 2M
def or_a_n (t : MemoryTables D) (cpu : CPU D) : Bool × CPU D :=
  match cpu.ins.duration with
  | 1 =>
    let r := fetch t cpu
    let cpu := { r.2 with ins := { r.2.ins with low := r.1 } }
    (false, cpu)
  | 2 =>
    let r := reg_or_8 cpu cpu.reg.A cpu.ins.low
    let cpu := { r.2 with reg := { r.2.reg with A := r.1 } }
    (true, cpu)
  | _ => (true, cpu)

-- cpu.c:1911
def reg_cp_8 (cpu : CPU D) (dest : Nat) (source : Nat) : CPU D :=
  let is_zero := decide (dest = source)
  let hc_exists := decide ((dest &&& LOWER_4_MASK) < (source &&& LOWER_4_MASK))
  let c_exists := decide (dest < source)
  let cpu := set_flag cpu is_zero ZERO_FLAG
  let cpu := set_flag cpu true SUBTRACT_FLAG
  let cpu := set_flag cpu hc_exists HALF_CARRY_FLAG
  let cpu := set_flag cpu c_exists CARRY_FLAG
  cpu

-- cpu.c:1921  0xB8 (Z 1 H C) 1M
def cp_a_b (t : MemoryTables D) (cpu : CPU D) : Bool × CPU D :=
  let cpu := reg_cp_8 cpu cpu.reg.A cpu.reg.B
  (true, cpu)

-- cpu.c:1926  0xB9 (Z 1 H C) 1M
def cp_a_c (t : MemoryTables D) (cpu : CPU D) : Bool × CPU D :=
  let cpu := reg_cp_8 cpu cpu.reg.A cpu.reg.C
  (true, cpu)

-- cpu.c:1931  0xBA (Z 1 H C) 1M
def cp_a_d (t : MemoryTables D) (cpu : CPU D) : Bool × CPU D :=
  let cpu := reg_cp_8 cpu cpu.reg.A cpu.reg.D
  (true, cpu)

-- cpu.c:1936  0xBB (Z 1 H C) 1M
def cp_a_e (t : MemoryTables D) (cpu : CPU D) : Bool × CPU D :=
  let cpu := reg_cp_8 cpu cpu.reg.A cpu.reg.E
  (true, cpu)

-- cpu.c:1941  0xBC (Z 1 H C) 1M
def cp_a_h (t : MemoryTables D) (cpu : CPU D) : Bool × CPU D :=
  let cpu := reg_cp_8 cpu cpu.reg.A cpu.reg.H
  (true, cpu)

-- cpu.c:1946  0xBD (Z 1 H C) 1M
def cp_a_l (t : MemoryTables D) (cpu : CPU D) : Bool × CPU D :=
  let cpu := reg_cp_8 cpu cpu.reg.A cpu.reg.L
  (true, cpu)

-- cpu.c:1951  0xBE (Z 1 H C) 2M
def cp_a_hl (t : MemoryTables D) (cpu : CPU D) : Bool × CPU D :=
  match cpu.ins.duration with
  | 1 => (false, cpu)
  | 2 =>
    let hl := getDR cpu .HL_REG
    let cpu := reg_cp_8 cpu cpu.reg.A (read_memory t cpu.mem hl)
    (true, cpu)
  | _ => (true, cpu)

-- cpu.c:1966  0xBF (Z 1 H C) 1M
def cp_a_a (t : MemoryTables D) (cpu : CPU D) : Bool × CPU D :=
  let cpu := reg_cp_8 cpu cpu.reg.A cpu.reg.A
  (true, cpu)

-- cpu.c:1971  0xFE (Z 1 H C) 2M
def cp_a_n (t : MemoryTables D) (cpu : CPU D) : Bool × CPU D :=
  match cpu.ins.duration with
  | 1 =>
    let r := fetch t cpu
    let cpu := { r.2 with ins := { r.2.ins with low := r.1 } }
    (false, cpu)
  | 2 =>
    let cpu := reg_cp_8 cpu cpu.reg.A cpu.ins.low
    (true, cpu)
  | _ => (true, cpu)

-- cpu.c:1987
def return_handler (t : MemoryTables D) (cpu : CPU D) (returning : Bool) : Bool × CPU D :=
  match cpu.ins.duration with
  | 1 => (false, cpu)
  | 2 => if !returning then (true, cpu) else (false, cpu)
  | 3 =>
    let r := pop_stack t cpu
    let cpu := { r.2 with ins := { r.2.ins with low := r.1 } }
    (false, cpu)
  | 4 =>
    let r := pop_stack t cpu
    let cpu := { r.2 with ins := { r.2.ins with high := r.1 } }
    (false, cpu)
  | 5 =>
    let cpu := { cpu with reg := { cpu.reg with PC := form_address cpu } }
    (true, cpu)
  | _ => (true, cpu)

-- cpu.c:2017  0xC0 (- - - -) 5M
def ret_nz (t : MemoryTables D) (cpu : CPU D) : Bool × CPU D :=
  return_handler t cpu (!is_flag_set cpu ZERO_FLAG)

-- cpu.c:2021  0xD0 (- - - -) 5M
def ret_nc (t : MemoryTables D) (cpu : CPU D) : Bool × CPU D :=
  return_handler t cpu (!is_flag_set cpu CARRY_FLAG)

-- cpu.c:2025  0xD8 (- - - -) 5M
def ret_c (t : MemoryTables D) (cpu : CPU D) : Bool × CPU D :=
  return_handler t cpu (is_flag_set cpu CARRY_FLAG)

-- cpu.c:2029  0xC8 (- - - -) 5M
def ret_z (t : MemoryTables D) (cpu : CPU D) : Bool × CPU D :=
  return_handler t cpu (is_flag_set cpu ZERO_FLAG)

-- cpu.c:2033  0xC9 (- - - -) 4M
def ret (t : MemoryTables D) (cpu : CPU D) : Bool × CPU D :=
  let cpu :=
    if cpu.ins.duration = 2 then
      { cpu with ins := { cpu.ins with duration := (cpu.ins.duration + 1) % 256 } }
    else cpu
  return_handler t cpu true

-- cpu.c:2038  0xD9 (- - - -) 4M
def reti (t : MemoryTables D) (cpu : CPU D) : Bool × CPU D :=
  let cpu :=
    if cpu.ins.duration = 2 then
      { cpu with ins := { cpu.ins with duration := (cpu.ins.duration + 1) % 256 } }
    else cpu
  let r := return_handler t cpu true
  let result := r.1
  let cpu := r.2
  let cpu := if cpu.ins.duration = 4 then { cpu with ime := true } else cpu
  (result, cpu)

-- cpu.c:2051
def rst_handler (t : MemoryTables D) (cpu : CPU D) (rst_vector : Nat) : Bool × CPU D :=
  match cpu.ins.duration with
  | 1 => (false, cpu)
  | 2 => (false, cpu)
  | 3 =>
    let cpu := push_stack t cpu ((cpu.reg.PC >>> BYTE) &&& LOWER_BYTE_MASK)
    (false, cpu)
  | 4 =>
    let cpu := push_stack t cpu (cpu.reg.PC &&& LOWER_BYTE_MASK)
    let cpu := { cpu with reg := { cpu.reg with PC := rst_vector } }
    (true, cpu)
  | _ => (true, cpu)

-- cpu.c:2073  0xC7 (- - - -) 4M
def rst_00 (t : MemoryTables D) (cpu : CPU D) : Bool × CPU D :=
  rst_handler t cpu 0x00

-- cpu.c:2077  0xD7 (- - - -) 4M
def rst_10 (t : MemoryTables D) (cpu : CPU D) : Bool × CPU D :=
  rst_handler t cpu 0x10

-- cpu.c:2081  0xE7 (- - - -) 4M
def rst_20 (t : MemoryTables D) (cpu : CPU D) : Bool × CPU D :=
  rst_handler t cpu 0x20

-- cpu.c:2085  0xF7 (- - - -) 4M
def rst_30 (t : MemoryTables D) (cpu : CPU D) : Bool × CPU D :=
  rst_handler t cpu 0x30

-- cpu.c:2089  0xCF (- - - -) 4M
def rst_08 (t : MemoryTables D) (cpu : CPU D) : Bool × CPU D :=
  rst_handler t cpu 0x08

-- cpu.c:2093  0xDF (- - - -) 4M
def rst_18 (t : MemoryTables D) (cpu : CPU D) : Bool × CPU D :=
  rst_handler t cpu 0x18

-- cpu.c:2097  0xEF (- - - -) 4M
def rst_28 (t : MemoryTables D) (cpu : CPU D) : Bool × CPU D :=
  rst_handler t cpu 0x28

-- cpu.c:2101  0xFF (- - - -) 4M
def rst_38 (t : MemoryTables D) (cpu : CPU D) : Bool × CPU D :=
  rst_handler t cpu 0x38

-- cpu.c:2106
def call_handler (t : MemoryTables D) (cpu : CPU D) (calling : Bool) : Bool × CPU D :=
  match cpu.ins.duration with
  | 1 => (false, cpu)
  | 2 =>
    let r := fetch t cpu
    let cpu := { r.2 with ins := { r.2.ins with low := r.1 } }
    (false, cpu)
  | 3 =>
    let r := fetch t cpu
    let cpu := { r.2 with ins := { r.2.ins with high := r.1 } }
    if !calling then (true, cpu) else (false, cpu)
  | 4 => (false, cpu)
  | 5 =>
    let cpu := push_stack t cpu ((cpu.reg.PC >>> BYTE) &&& LOWER_BYTE_MASK)
    (false, cpu)
  | 6 =>
    let cpu := push_stack t cpu (cpu.reg.PC &&& LOWER_BYTE_MASK)
    let cpu := { cpu with reg := { cpu.reg with PC := form_address cpu } }
    (true, cpu)
  | _ => (true, cpu)

-- cpu.c:2140  0xC4 (- - - -) 6M
def call_nz_nn (t : MemoryTables D) (cpu : CPU D) : Bool × CPU D :=
  call_handler t cpu (!is_flag_set cpu ZERO_FLAG)

-- cpu.c:2144  0xD4 (- - - -) 6M
def call_nc_nn (t : MemoryTables D) (cpu : CPU D) : Bool × CPU D :=
  call_handler t cpu (!is_flag_set cpu CARRY_FLAG)

-- cpu.c:2148  0xCC (- - - -) 6M
def call_z_nn (t : MemoryTables D) (cpu : CPU D) : Bool × CPU D :=
  call_handler t cpu (is_flag_set cpu ZERO_FLAG)

-- cpu.c:2152  0xDC (- - - -) 6M
def call_c_nn (t : MemoryTables D) (cpu : CPU D) : Bool × CPU D :=
  call_handler t cpu (is_flag_set cpu CARRY_FLAG)

-- cpu.c:2156  0xCD (- - - -) 6M
def call_nn (t : MemoryTables D) (cpu : CPU D) : Bool × CPU D :=
  call_handler t cpu true

-- cpu.c:2161
def jump_relative_handler (t : MemoryTables D) (cpu : CPU D) (jumping : Bool) : Bool × CPU D :=
  match cpu.ins.duration with
  | 1 => (false, cpu)
  | 2 =>
    let r := fetch t cpu
    let cpu := { r.2 with ins := { r.2.ins with low := r.1 } }
    if !jumping then (true, cpu) else (false, cpu)
  | 3 =>
    let offset := int8_to_u16 cpu.ins.low
    let cpu := { cpu with reg := { cpu.reg with PC := (cpu.reg.PC + offset) % 65536 } }
    (true, cpu)
  | _ => (true, cpu)

-- cpu.c:2184  0x18 (- - - -) 3M
def jr_n (t : MemoryTables D) (cpu : CPU D) : Bool × CPU D :=
  jump_relative_handler t cpu true

-- cpu.c:2188  0x28 (- - - -) 3M
def jr_z_n (t : MemoryTables D) (cpu : CPU D) : Bool × CPU D :=
  jump_relative_handler t cpu (is_flag_set cpu ZERO_FLAG)

-- cpu.c:2192  0x38 (- - - -) 3M
def jr_c_n (t : MemoryTables D) (cpu : CPU D) : Bool × CPU D :=
  jump_relative_handler t cpu (is_flag_set cpu CARRY_FLAG)

-- cpu.c:2196  0x20 (- - - -) 3M
def jr_nz_n (t : MemoryTables D) (cpu : CPU D) : Bool × CPU D :=
  jump_relative_handler t cpu (!is_flag_set cpu ZERO_FLAG)

-- cpu.c:2200  0x30 (- - - -) 3M
def jr_nc_n (t : MemoryTables D) (cpu : CPU D) : Bool × CPU D :=
  jump_relative_handler t cpu (!is_flag_set cpu CARRY_FLAG)

-- cpu.c:2205
def jump_position_handler (t : MemoryTables D) (cpu : CPU D) (jumping : Bool) : Bool × CPU D :=
  match cpu.ins.duration with
  | 1 => (false, cpu)
  | 2 =>
    let r := fetch t cpu
    let cpu := { r.2 with ins := { r.2.ins with low := r.1 } }
    (false, cpu)
  | 3 =>
    let r := fetch t cpu
    let cpu := { r.2 with ins := { r.2.ins with high := r.1 } }
    if !jumping then (true, cpu) else (false, cpu)
  | 4 =>
    let cpu := { cpu with reg := { cpu.reg with PC := form_address cpu } }
    (true, cpu)
  | _ => (true, cpu)

-- cpu.c:2231  0xC2 (- - - -) 4M
def jp_nz_nn (t : MemoryTables D) (cpu : CPU D) : Bool × CPU D :=
  jump_position_handler t cpu (!is_flag_set cpu ZERO_FLAG)

-- cpu.c:2235  0xD2 (- - - -) 4M
def jp_nc_nn (t : MemoryTables D) (cpu : CPU D) : Bool × CPU D :=
  jump_position_handler t cpu (!is_flag_set cpu CARRY_FLAG)

-- cpu.c:2239  0xC3 (- - - -) 4M
def jp_nn (t : MemoryTables D) (cpu : CPU D) : Bool × CPU D :=
  jump_position_handler t cpu true

-- cpu.c:2243  0xCA (- - - -) 4M
def jp_z_nn (t : MemoryTables D) (cpu : CPU D) : Bool × CPU D :=
  jump_position_handler t cpu (is_flag_set cpu ZERO_FLAG)

-- cpu.c:2247  0xDA (- - - -) 4M
def jp_c_nn (t : MemoryTables D) (cpu : CPU D) : Bool × CPU D :=
  jump_position_handler t cpu (is_flag_set cpu CARRY_FLAG)

-- cpu.c:2251  0xE9 (- - - -) 1M
def jp_hl (t : MemoryTables D) (cpu : CPU D) : Bool × CPU D :=
  let cpu := { cpu with reg := { cpu.reg with PC := getDR cpu .HL_REG } }
  (true, cpu)

-- cpu.c:2257  0x27 (Z - 0 C) 1M
def daa (t : MemoryTables D) (cpu : CPU D) : Bool × CPU D :=
  let correction := 0
  let carry := is_flag_set cpu CARRY_FLAG
  let cpu :=
    if !is_flag_set cpu SUBTRACT_FLAG then
      let correction :=
        if is_flag_set cpu HALF_CARRY_FLAG || decide ((cpu.reg.A &&& 0x0F) > 9) then
          correction ||| 0x06
        else correction
      let p :=
        if carry || decide (cpu.reg.A > 0x99) then
          (correction ||| 0x60, set_flag cpu true CARRY_FLAG)
        else
          (correction, set_flag cpu false CARRY_FLAG)
      let correction := p.1
      let cpu := p.2
      { cpu with reg := { cpu.reg with A := (cpu.reg.A + correction) % 256 } }
    else
      let correction := if is_flag_set cpu HALF_CARRY_FLAG then correction ||| 0x06 else correction
      let correction := if carry then correction ||| 0x60 else correction
      { cpu with reg := { cpu.reg with A := (cpu.reg.A + 0x100 - correction) % 256 } }
  let cpu := set_flag cpu (decide (cpu.reg.A = 0)) ZERO_FLAG
  let cpu := set_flag cpu false HALF_CARRY_FLAG
  (true, cpu)

-- cpu.c:2288  0x2F (- 1 1 -) 1M
def cpl (t : MemoryTables D) (cpu : CPU D) : Bool × CPU D :=
  let cpu := { cpu with reg := { cpu.reg with A := 0xFF ^^^ cpu.reg.A } }
  let cpu := set_flag cpu true SUBTRACT_FLAG
  let cpu := set_flag cpu true HALF_CARRY_FLAG
  (true, cpu)

-- cpu.c:2295  0x37 (- 0 0 1) 1M
def scf (t : MemoryTables D) (cpu : CPU D) : Bool × CPU D :=
  let cpu := set_flag cpu false SUBTRACT_FLAG
  let cpu := set_flag cpu false HALF_CARRY_FLAG
  let cpu := set_flag cpu true CARRY_FLAG
  (true, cpu)

-- cpu.c:2302  0x3F (- 0 0 C) 1M
def ccf (t : MemoryTables D) (cpu : CPU D) : Bool × CPU D :=
  let cpu := set_flag cpu false SUBTRACT_FLAG
  let cpu := set_flag cpu false HALF_CARRY_FLAG
  let cpu := set_flag cpu (!is_flag_set cpu CARRY_FLAG) CARRY_FLAG
  (true, cpu)

-- cpu.c:2310  0xE0 (- - - -) 3M
def ldh_n_a (t : MemoryTables D) (cpu : CPU D) : Bool × CPU D :=
  match cpu.ins.duration with
  | 1 => (false, cpu)
  | 2 =>
    let r := fetch t cpu
    let cpu := { r.2 with ins := { r.2.ins with address := 0xFF00 ||| r.1 } }
    (false, cpu)
  | 3 =>
    let cpu := { cpu with mem := write_memory t cpu.mem cpu.ins.address cpu.reg.A }
    (true, cpu)
  | _ => (true, cpu)

-- cpu.c:2328  0xF0 (- - - -) 3M
def ldh_a_n (t : MemoryTables D) (cpu : CPU D) : Bool × CPU D :=
  match cpu.ins.duration with
  | 1 => (false, cpu)
  | 2 =>
    let r := fetch t cpu
    let cpu := { r.2 with ins := { r.2.ins with address := 0xFF00 ||| r.1 } }
    (false, cpu)
  | 3 =>
    let cpu := { cpu with reg := { cpu.reg with A := read_memory t cpu.mem cpu.ins.address } }
    (true, cpu)
  | _ => (true, cpu)

-- cpu.c:2346  0xE2 (- - - -) 2M
def ldh_c_a (t : MemoryTables D) (cpu : CPU D) : Bool × CPU D :=
  match cpu.ins.duration with
  | 1 =>
    let cpu := { cpu with ins := { cpu.ins with address := 0xFF00 ||| cpu.reg.C } }
    (false, cpu)
  | 2 =>
    let cpu := { cpu with mem := write_memory t cpu.mem cpu.ins.address cpu.reg.A }
    (true, cpu)
  | _ => (true, cpu)

-- cpu.c:2361  0xF2 (- - - -) 2M
def ldh_a_c (t : MemoryTables D) (cpu : CPU D) : Bool × CPU D :=
  match cpu.ins.duration with
  | 1 =>
    let cpu := { cpu with ins := { cpu.ins with address := 0xFF00 ||| cpu.reg.C } }
    (false, cpu)
  | 2 =>
    let cpu := { cpu with reg := { cpu.reg with A := read_memory t cpu.mem cpu.ins.address } }
    (true, cpu)
  | _ => (true, cpu)

-- cpu.c:2377  0xEA (- - - -) 4M
def ld_nn_a (t : MemoryTables D) (cpu : CPU D) : Bool × CPU D :=
  match cpu.ins.duration with
  | 1 => (false, cpu)
  | 2 =>
    let r := fetch t cpu
    let cpu := { r.2 with ins := { r.2.ins with low := r.1 } }
    (false, cpu)
  | 3 =>
    let r := fetch t cpu
    let cpu := { r.2 with ins := { r.2.ins with high := r.1 } }
    (false, cpu)
  | 4 =>
    let cpu := { cpu with ins := { cpu.ins with address := form_address cpu } }
    let cpu := { cpu with mem := write_memory t cpu.mem cpu.ins.address cpu.reg.A }
    (true, cpu)
  | _ => (true, cpu)

-- cpu.c:2400  0xFA (- - - -) 4M
def ld_a_nn (t : MemoryTables D) (cpu : CPU D) : Bool × CPU D :=
  match cpu.ins.duration with
  | 1 => (false, cpu)
  | 2 =>
    let r := fetch t cpu
    let cpu := { r.2 with ins := { r.2.ins with low := r.1 } }
    (false, cpu)
  | 3 =>
    let r := fetch t cpu
    let cpu := { r.2 with ins := { r.2.ins with high := r.1 } }
    (false, cpu)
  | 4 =>
    let cpu := { cpu with ins := { cpu.ins with address := form_address cpu } }
    let cpu := { cpu with reg := { cpu.reg with A := read_memory t cpu.mem cpu.ins.address } }
    (true, cpu)
  | _ => (true, cpu)

-- cpu.c:2423  0xF8 (0 0 H C) 3M
def ld_hl_sp_n (t : MemoryTables D) (cpu : CPU D) : Bool × CPU D :=
  match cpu.ins.duration with
  | 1 => (false, cpu)
  | 2 =>
    let r := fetch t cpu
    let cpu := { r.2 with ins := { r.2.ins with low := r.1 } }
    (false, cpu)
  | 3 =>
    let n := cpu.ins.low
    let result := (cpu.reg.SP + int8_to_u16 n) % 65536
    let hc_exists := decide (((cpu.reg.SP &&& LOWER_4_MASK) + (n &&& LOWER_4_MASK)) > LOWER_4_MASK)
    let c_exists := decide (((cpu.reg.SP &&& 0xFF) + (n &&& 0xFF)) > 0xFF)
    let cpu := set_flag cpu false ZERO_FLAG
    let cpu := set_flag cpu false SUBTRACT_FLAG
    let cpu := set_flag cpu hc_exists HALF_CARRY_FLAG
    let cpu := set_flag cpu c_exists CARRY_FLAG
    let cpu := setDR cpu .HL_REG result
    (true, cpu)
  | _ => (true, cpu)

-- cpu.c:2449  0xF9 (- - - -) 2M
def ld_sp_hl (t : MemoryTables D) (cpu : CPU D) : Bool × CPU D :=
  match cpu.ins.duration with
  | 1 => (false, cpu)
  | 2 =>
    let cpu := { cpu with reg := { cpu.reg with SP := getDR cpu .HL_REG } }
    (true, cpu)
  | _ => (true, cpu)

-- cpu.c:2463  0xE8 (0 0 H C) 4M
def add_sp_n (t : MemoryTables D) (cpu : CPU D) : Bool × CPU D :=
  match cpu.ins.duration with
  | 1 => (false, cpu)
  | 2 =>
    let r := fetch t cpu
    let cpu := { r.2 with ins := { r.2.ins with low := r.1 } }
    (false, cpu)
  | 3 => (false, cpu)
  | 4 =>
    let n := cpu.ins.low
    let sum := (cpu.reg.SP + int8_to_u16 n) % 65536
    let hc_exists := decide (((cpu.reg.SP &&& LOWER_4_MASK) + (n &&& LOWER_4_MASK)) > LOWER_4_MASK)
    let c_exists := decide (((cpu.reg.SP &&& 0xFF) + (n &&& 0xFF)) > 0xFF)
    let cpu := set_flag cpu false ZERO_FLAG
    let cpu := set_flag cpu false SUBTRACT_FLAG
    let cpu := set_flag cpu hc_exists HALF_CARRY_FLAG
    let cpu := set_flag cpu c_exists CARRY_FLAG
    let cpu := { cpu with reg := { cpu.reg with SP := sum } }
    (true, cpu)
  | _ => (true, cpu)

-- cpu.c:2493  0xF3 (- - - -) 1M
def di (t : MemoryTables D) (cpu : CPU D) : Bool × CPU D :=
  let cpu := { cpu with ime := false }
  let cpu := { cpu with ime_scheduled := false }
  (true, cpu)

-- cpu.c:2499  0xFB (- - - -) 1M
def ei (t : MemoryTables D) (cpu : CPU D) : Bool × CPU D :=
  if cpu.ime || cpu.ime_scheduled then (true, cpu)
  else
    let cpu := { cpu with ime_scheduled := true }
    let cpu := { cpu with ime_delay := 2 }
    (true, cpu)

-- cpu.c:2507  0xCB (- - - -) 1M
def cb_prefix (t : MemoryTables D) (cpu : CPU D) : Bool × CPU D :=
  let cpu := { cpu with ins := { cpu.ins with cb_prefixed := true } }
  (true, cpu)

-- cpu.c:2513  interrupt service (- - - -) 5M
def int_exec (t : MemoryTables D) (cpu : CPU D) : Bool × CPU D :=
  match cpu.ins.duration with
  | 1 => (false, cpu)
  | 2 => (false, cpu)
  | 3 =>
    let high := (cpu.reg.PC >>> BYTE) &&& LOWER_BYTE_MASK
    let cpu := push_stack t cpu high
    let pending := get_pending_interrupts t cpu
    if pending = 0 then
      let cpu := { cpu with reg := { cpu.reg with PC := 0x0000 } }
      (true, cpu)
    else
      let cpu :=
        if (pending &&& cpu.ins.low) = 0 then
          let cpu := encode_interrupt cpu pending
          { cpu with ins := { cpu.ins with duration := 3 } }
        else cpu
      (false, cpu)
  | 4 =>
    let low := cpu.reg.PC &&& LOWER_BYTE_MASK
    let cpu := push_stack t cpu low
    (false, cpu)
  | 5 =>
    let cpu := { cpu with reg := { cpu.reg with PC := cpu.ins.address } }
    let byte := cpu.mem.memory t.IFR &&& (0xFF ^^^ cpu.ins.low)
    let cpu := { cpu with mem := write_memory t cpu.mem t.IFR byte }
    (true, cpu)
  | _ => (true, cpu)

/-- `opcode_table` (cpu.c:2558), entry `i` at index `i`. -/
def opcode_table (D : Type) : List (OpcodeHandler D) :=
  [nop, ld_bc_nn, ld_bc_a, inc_bc, inc_b, dec_b, ld_b_n, rlca, ld_nn_sp, add_hl_bc, ld_a_bc, dec_bc, inc_c, dec_c, ld_c_n, rrca,
   stop, ld_de_nn, ld_de_a, inc_de, inc_d, dec_d, ld_d_n, rla, jr_n, add_hl_de, ld_a_de, dec_de, inc_e, dec_e, ld_e_n, rra,
   jr_nz_n, ld_hl_nn, ld_hli_a, inc_hl, inc_h, dec_h, ld_h_n, daa, jr_z_n, add_hl_hl, ld_a_hli, dec_hl, inc_l, dec_l, ld_l_n, cpl,
   jr_nc_n, ld_sp_nn, ld_hld_a, inc_sp, inc_hl_mem, dec_hl_mem, ld_hl_n, scf, jr_c_n, add_hl_sp, ld_a_hld, dec_sp, inc_a, dec_a, ld_a_n, ccf,
   nop, ld_b_c, ld_b_d, ld_b_e, ld_b_h, ld_b_l, ld_b_hl, ld_b_a, ld_c_b, nop, ld_c_d, ld_c_e, ld_c_h, ld_c_l, ld_c_hl, ld_c_a,
   ld_d_b, ld_d_c, nop, ld_d_e, ld_d_h, ld_d_l, ld_d_hl, ld_d_a, ld_e_b, ld_e_c, ld_e_d, nop, ld_e_h, ld_e_l, ld_e_hl, ld_e_a,
   ld_h_b, ld_h_c, ld_h_d, ld_h_e, nop, ld_h_l, ld_h_hl, ld_h_a, ld_l_b, ld_l_c, ld_l_d, ld_l_e, ld_l_h, nop, ld_l_hl, ld_l_a,
   ld_hl_b, ld_hl_c, ld_hl_d, ld_hl_e, ld_hl_h, ld_hl_l, halt, ld_hl_a, ld_a_b, ld_a_c, ld_a_d, ld_a_e, ld_a_h, ld_a_l, ld_a_hl, nop,
   add_a_b, add_a_c, add_a_d, add_a_e, add_a_h, add_a_l, add_a_hl, add_a_a, adc_a_b, adc_a_c, adc_a_d, adc_a_e, adc_a_h, adc_a_l, adc_a_hl, adc_a_a,
   sub_a_b, sub_a_c, sub_a_d, sub_a_e, sub_a_h, sub_a_l, sub_a_hl, sub_a_a, sbc_a_b, sbc_a_c, sbc_a_d, sbc_a_e, sbc_a_h, sbc_a_l, sbc_a_hl, sbc_a_a,
   and_a_b, and_a_c, and_a_d, and_a_e, and_a_h, and_a_l, and_a_hl, and_a_a, xor_a_b, xor_a_c, xor_a_d, xor_a_e, xor_a_h, xor_a_l, xor_a_hl, xor_a_a,
   or_a_b, or_a_c, or_a_d, or_a_e, or_a_h, or_a_l, or_a_hl, or_a_a, cp_a_b, cp_a_c, cp_a_d, cp_a_e, cp_a_h, cp_a_l, cp_a_hl, cp_a_a,
   ret_nz, pop_bc, jp_nz_nn, jp_nn, call_nz_nn, push_bc, add_a_n, rst_00, ret_z, ret, jp_z_nn, cb_prefix, call_z_nn, call_nn, adc_a_n, rst_08,
   ret_nc, pop_de, jp_nc_nn, nop, call_nc_nn, push_de, sub_a_n, rst_10, ret_c, reti, jp_c_nn, nop, call_c_nn, nop, sbc_a_n, rst_18,
   ldh_n_a, pop_hl, ldh_c_a, nop, nop, push_hl, and_a_n, rst_20, add_sp_n, jp_hl, ld_nn_a, nop, nop, nop, xor_a_n, rst_28,
   ldh_a_n, pop_af, ldh_a_c, di, nop, push_af, or_a_n, rst_30, ld_hl_sp_n, ld_sp_hl, ld_a_nn, ei, nop, nop, cp_a_n, rst_38]

/-! ## Handlers of the 0xCB page (cpu.c:2834-4668) -/

-- cpu.c:2834
def reg_rlc_8 (cpu : CPU D) (r : Nat) : Nat × CPU D :=
  let c_exists := decide ((r &&& BIT_7_MASK) ≠ 0)
  let carry_in := if c_exists then 1 else 0
  let result := ((r <<< 1) ||| carry_in) % 256
  let is_zero := decide (result = 0)
  let cpu := set_flag cpu is_zero ZERO_FLAG
  let cpu := set_flag cpu false SUBTRACT_FLAG
  let cpu := set_flag cpu false HALF_CARRY_FLAG
  let cpu := set_flag cpu c_exists CARRY_FLAG
  (result, cpu)

-- cpu.c:2846  CB 0x00 (Z 0 0 C) 2M
def rlc_b (t : MemoryTables D) (cpu : CPU D) : Bool × CPU D :=
  let r := reg_rlc_8 cpu cpu.reg.B
  let cpu := { r.2 with reg := { r.2.reg with B := r.1 } }
  (true, cpu)

-- cpu.c:2851  CB 0x01 (Z 0 0 C) 2M
def rlc_c (t : MemoryTables D) (cpu : CPU D) : Bool × CPU D :=
  let r := reg_rlc_8 cpu cpu.reg.C
  let cpu := { r.2 with reg := { r.2.reg with C := r.1 } }
  (true, cpu)

-- cpu.c:2856  CB 0x02 (Z 0 0 C) 2M
def rlc_d (t : MemoryTables D) (cpu : CPU D) : Bool × CPU D :=
  let r := reg_rlc_8 cpu cpu.reg.D
  let cpu := { r.2 with reg := { r.2.reg with D := r.1 } }
  (true, cpu)

-- cpu.c:2861  CB 0x03 (Z 0 0 C) 2M
def rlc_e (t : MemoryTables D) (cpu : CPU D) : Bool × CPU D :=
  let r := reg_rlc_8 cpu cpu.reg.E
  let cpu := { r.2 with reg := { r.2.reg with E := r.1 } }
  (true, cpu)

-- cpu.c:2866  CB 0x04 (Z 0 0 C) 2M
def rlc_h (t : MemoryTables D) (cpu : CPU D) : Bool × CPU D :=
  let r := reg_rlc_8 cpu cpu.reg.H
  let cpu := { r.2 with reg := { r.2.reg with H := r.1 } }
  (true, cpu)

-- cpu.c:2871  CB 0x05 (Z 0 0 C) 2M
def rlc_l (t : MemoryTables D) (cpu : CPU D) : Bool × CPU D :=
  let r := reg_rlc_8 cpu cpu.reg.L
  let cpu := { r.2 with reg := { r.2.reg with L := r.1 } }
  (true, cpu)

-- cpu.c:2876  CB 0x06 (Z 0 0 C) 4M
def rlc_hl (t : MemoryTables D) (cpu : CPU D) : Bool × CPU D :=
  match cpu.ins.duration with
  | 1 => (false, cpu)
  | 2 =>
    let cpu := { cpu with ins := { cpu.ins with address := getDR cpu .HL_REG } }
    let cpu := { cpu with ins := { cpu.ins with low := read_memory t cpu.mem cpu.ins.address } }
    (false, cpu)
  | 3 =>
    let r := reg_rlc_8 cpu cpu.ins.low
    let result := r.1
    let cpu := r.2
    let cpu := { cpu with mem := write_memory t cpu.mem cpu.ins.address result }
    (true, cpu)
  | _ => (true, cpu)

-- cpu.c:2896  CB 0x07 (Z 0 0 C) 2M
def rlc_a (t : MemoryTables D) (cpu : CPU D) : Bool × CPU D :=
  let r := reg_rlc_8 cpu cpu.reg.A
  let cpu := { r.2 with reg := { r.2.reg with A := r.1 } }
  (true, cpu)

-- cpu.c:2902
def reg_rrc_8 (cpu : CPU D) (r : Nat) : Nat × CPU D :=
  let c_exists := decide ((r &&& BIT_0_MASK) ≠ 0)
  let carry_in := if c_exists then 1 else 0
  let result := ((carry_in <<< 7) ||| (r >>> 1)) % 256
  let is_zero := decide (result = 0)
  let cpu := set_flag cpu is_zero ZERO_FLAG
  let cpu := set_flag cpu false SUBTRACT_FLAG
  let cpu := set_flag cpu false HALF_CARRY_FLAG
  let cpu := set_flag cpu c_exists CARRY_FLAG
  (result, cpu)

-- cpu.c:2914  CB 0x08 (Z 0 0 C) 2M
def rrc_b (t : MemoryTables D) (cpu : CPU D) : Bool × CPU D :=
  let r := reg_rrc_8 cpu cpu.reg.B
  let cpu := { r.2 with reg := { r.2.reg with B := r.1 } }
  (true, cpu)

-- cpu.c:2919  CB 0x09 (Z 0 0 C) 2M
def rrc_c (t : MemoryTables D) (cpu : CPU D) : Bool × CPU D :=
  let r := reg_rrc_8 cpu cpu.reg.C
  let cpu := { r.2 with reg := { r.2.reg with C := r.1 } }
  (true, cpu)

-- cpu.c:2924  CB 0x0A (Z 0 0 C) 2M
def rrc_d (t : MemoryTables D) (cpu : CPU D) : Bool × CPU D :=
  let r := reg_rrc_8 cpu cpu.reg.D
  let cpu := { r.2 with reg := { r.2.reg with D := r.1 } }
  (true, cpu)

-- cpu.c:2929  CB 0x0B (Z 0 0 C) 2M
def rrc_e (t : MemoryTables D) (cpu : CPU D) : Bool × CPU D :=
  let r := reg_rrc_8 cpu cpu.reg.E
  let cpu := { r.2 with reg := { r.2.reg with E := r.1 } }
  (true, cpu)

-- cpu.c:2934  CB 0x0C (Z 0 0 C) 2M
def rrc_h (t : MemoryTables D) (cpu : CPU D) : Bool × CPU D :=
  let r := reg_rrc_8 cpu cpu.reg.H
  let cpu := { r.2 with reg := { r.2.reg with H := r.1 } }
  (true, cpu)

-- cpu.c:2939  CB 0x0D (Z 0 0 C) 2M
def rrc_l (t : MemoryTables D) (cpu : CPU D) : Bool × CPU D :=
  let r := reg_rrc_8 cpu cpu.reg.L
  let cpu := { r.2 with reg := { r.2.reg with L := r.1 } }
  (true, cpu)

-- cpu.c:2944  CB 0x0E (Z 0 0 C) 4M
def rrc_hl (t : MemoryTables D) (cpu : CPU D) : Bool × CPU D :=
  match cpu.ins.duration with
  | 1 => (false, cpu)
  | 2 =>
    let cpu := { cpu with ins := { cpu.ins with address := getDR cpu .HL_REG } }
    let cpu := { cpu with ins := { cpu.ins with low := read_memory t cpu.mem cpu.ins.address } }
    (false, cpu)
  | 3 =>
    let r := reg_rrc_8 cpu cpu.ins.low
    let result := r.1
    let cpu := r.2
    let cpu := { cpu with mem := write_memory t cpu.mem cpu.ins.address result }
    (true, cpu)
  | _ => (true, cpu)

-- cpu.c:2964  CB 0x0F (Z 0 0 C) 2M
def rrc_a (t : MemoryTables D) (cpu : CPU D) : Bool × CPU D :=
  let r := reg_rrc_8 cpu cpu.reg.A
  let cpu := { r.2 with reg := { r.2.reg with A := r.1 } }
  (true, cpu)

-- cpu.c:2970
def reg_rl_8 (cpu : CPU D) (r : Nat) : Nat × CPU D :=
  let c_exists := decide ((r &&& BIT_7_MASK) ≠ 0)
  let carry_in := if is_flag_set cpu CARRY_FLAG then 1 else 0
  let result := ((r <<< 1) ||| carry_in) % 256
  let is_zero := decide (result = 0)
  let cpu := set_flag cpu is_zero ZERO_FLAG
  let cpu := set_flag cpu false SUBTRACT_FLAG
  let cpu := set_flag cpu false HALF_CARRY_FLAG
  let cpu := set_flag cpu c_exists CARRY_FLAG
  (result, cpu)

-- cpu.c:2982  CB 0x10 (Z 0 0 C) 2M
def rl_b (t : MemoryTables D) (cpu : CPU D) : Bool × CPU D :=
  let r := reg_rl_8 cpu cpu.reg.B
  let cpu := { r.2 with reg := { r.2.reg with B := r.1 } }
  (true, cpu)

-- cpu.c:2987  CB 0x11 (Z 0 0 C) 2M
def rl_c (t : MemoryTables D) (cpu : CPU D) : Bool × CPU D :=
  let r := reg_rl_8 cpu cpu.reg.C
  let cpu := { r.2 with reg := { r.2.reg with C := r.1 } }
  (true, cpu)

-- cpu.c:2992  CB 0x12 (Z 0 0 C) 2M
def rl_d (t : MemoryTables D) (cpu : CPU D) : Bool × CPU D :=
  let r := reg_rl_8 cpu cpu.reg.D
  let cpu := { r.2 with reg := { r.2.reg with D := r.1 } }
  (true, cpu)

-- cpu.c:2997  CB 0x13 (Z 0 0 C) 2M
def rl_e (t : MemoryTables D) (cpu : CPU D) : Bool × CPU D :=
  let r := reg_rl_8 cpu cpu.reg.E
  let cpu := { r.2 with reg := { r.2.reg with E := r.1 } }
  (true, cpu)

-- cpu.c:3002  CB 0x14 (Z 0 0 C) 2M
def rl_h (t : MemoryTables D) (cpu : CPU D) : Bool × CPU D :=
  let r := reg_rl_8 cpu cpu.reg.H
  let cpu := { r.2 with reg := { r.2.reg with H := r.1 } }
  (true, cpu)

-- cpu.c:3007  CB 0x15 (Z 0 0 C) 2M
def rl_l (t : MemoryTables D) (cpu : CPU D) : Bool × CPU D :=
  let r := reg_rl_8 cpu cpu.reg.L
  let cpu := { r.2 with reg := { r.2.reg with L := r.1 } }
  (true, cpu)

-- cpu.c:3012  CB 0x16 (Z 0 0 C) 4M
def rl_hl (t : MemoryTables D) (cpu : CPU D) : Bool × CPU D :=
  match cpu.ins.duration with
  | 1 => (false, cpu)
  | 2 =>
    let cpu := { cpu with ins := { cpu.ins with address := getDR cpu .HL_REG } }
    let cpu := { cpu with ins := { cpu.ins with low := read_memory t cpu.mem cpu.ins.address } }
    (false, cpu)
  | 3 =>
    let r := reg_rl_8 cpu cpu.ins.low
    let result := r.1
    let cpu := r.2
    let cpu := { cpu with mem := write_memory t cpu.mem cpu.ins.address result }
    (true, cpu)
  | _ => (true, cpu)

-- cpu.c:3032  CB 0x17 (Z 0 0 C) 2M
def rl_a (t : MemoryTables D) (cpu : CPU D) : Bool × CPU D :=
  let r := reg_rl_8 cpu cpu.reg.A
  let cpu := { r.2 with reg := { r.2.reg with A := r.1 } }
  (true, cpu)

-- cpu.c:3038
def reg_rr_8 (cpu : CPU D) (r : Nat) : Nat × CPU D :=
  let c_exists := decide ((r &&& BIT_0_MASK) ≠ 0)
  let carry_in := if is_flag_set cpu CARRY_FLAG then 1 else 0
  let result := ((carry_in <<< 7) ||| (r >>> 1)) % 256
  let is_zero := decide (result = 0)
  let cpu := set_flag cpu is_zero ZERO_FLAG
  let cpu := set_flag cpu false SUBTRACT_FLAG
  let cpu := set_flag cpu false HALF_CARRY_FLAG
  let cpu := set_flag cpu c_exists CARRY_FLAG
  (result, cpu)

-- cpu.c:3050  CB 0x18 (Z 0 0 C) 2M
def rr_b (t : MemoryTables D) (cpu : CPU D) : Bool × CPU D :=
  let r := reg_rr_8 cpu cpu.reg.B
  let cpu := { r.2 with reg := { r.2.reg with B := r.1 } }
  (true, cpu)

-- cpu.c:3055  CB 0x19 (Z 0 0 C) 2M
def rr_c (t : MemoryTables D) (cpu : CPU D) : Bool × CPU D :=
  let r := reg_rr_8 cpu cpu.reg.C
  let cpu := { r.2 with reg := { r.2.reg with C := r.1 } }
  (true, cpu)

-- cpu.c:3060  CB 0x1A (Z 0 0 C) 2M
def rr_d (t : MemoryTables D) (cpu : CPU D) : Bool × CPU D :=
  let r := reg_rr_8 cpu cpu.reg.D
  let cpu := { r.2 with reg := { r.2.reg with D := r.1 } }
  (true, cpu)

-- cpu.c:3065  CB 0x1B (Z 0 0 C) 2M
def rr_e (t : MemoryTables D) (cpu : CPU D) : Bool × CPU D :=
  let r := reg_rr_8 cpu cpu.reg.E
  let cpu := { r.2 with reg := { r.2.reg with E := r.1 } }
  (true, cpu)

-- cpu.c:3070  CB 0x1C (Z 0 0 C) 2M
def rr_h (t : MemoryTables D) (cpu : CPU D) : Bool × CPU D :=
  let r := reg_rr_8 cpu cpu.reg.H
  let cpu := { r.2 with reg := { r.2.reg with H := r.1 } }
  (true, cpu)

-- cpu.c:3075  CB 0x1D (Z 0 0 C) 2M
def rr_l (t : MemoryTables D) (cpu : CPU D) : Bool × CPU D :=
  let r := reg_rr_8 cpu cpu.reg.L
  let cpu := { r.2 with reg := { r.2.reg with L := r.1 } }
  (true, cpu)

-- cpu.c:3080  CB 0x1E (Z 0 0 C) 4M
def rr_hl (t : MemoryTables D) (cpu : CPU D) : Bool × CPU D :=
  match cpu.ins.duration with
  | 1 => (false, cpu)
  | 2 =>
    let cpu := { cpu with ins := { cpu.ins with address := getDR cpu .HL_REG } }
    let cpu := { cpu with ins := { cpu.ins with low := read_memory t cpu.mem cpu.ins.address } }
    (false, cpu)
  | 3 =>
    let r := reg_rr_8 cpu cpu.ins.low
    let result := r.1
    let cpu := r.2
    let cpu := { cpu with mem := write_memory t cpu.mem cpu.ins.address result }
    (true, cpu)
  | _ => (true, cpu)

-- cpu.c:3100  CB 0x1F (Z 0 0 C) 2M
def rr_a (t : MemoryTables D) (cpu : CPU D) : Bool × CPU D :=
  let r := reg_rr_8 cpu cpu.reg.A
  let cpu := { r.2 with reg := { r.2.reg with A := r.1 } }
  (true, cpu)

-- cpu.c:3106
def reg_sla_8 (cpu : CPU D) (r : Nat) : Nat × CPU D :=
  let c_exists := decide ((r &&& BIT_7_MASK) ≠ 0)
  let result := (r <<< 1) % 256
  let is_zero := decide (result = 0)
  let cpu := set_flag cpu is_zero ZERO_FLAG
  let cpu := set_flag cpu false SUBTRACT_FLAG
  let cpu := set_flag cpu false HALF_CARRY_FLAG
  let cpu := set_flag cpu c_exists CARRY_FLAG
  (result, cpu)

-- cpu.c:3117  CB 0x20 (Z 0 0 C) 2M
def sla_b (t : MemoryTables D) (cpu : CPU D) : Bool × CPU D :=
  let r := reg_sla_8 cpu cpu.reg.B
  let cpu := { r.2 with reg := { r.2.reg with B := r.1 } }
  (true, cpu)

-- cpu.c:3122  CB 0x21 (Z 0 0 C) 2M
def sla_c (t : MemoryTables D) (cpu : CPU D) : Bool × CPU D :=
  let r := reg_sla_8 cpu cpu.reg.C
  let cpu := { r.2 with reg := { r.2.reg with C := r.1 } }
  (true, cpu)

-- cpu.c:3127  CB 0x22 (Z 0 0 C) 2M
def sla_d (t : MemoryTables D) (cpu : CPU D) : Bool × CPU D :=
  let r := reg_sla_8 cpu cpu.reg.D
  let cpu := { r.2 with reg := { r.2.reg with D := r.1 } }
  (true, cpu)

-- cpu.c:3132  CB 0x23 (Z 0 0 C) 2M
def sla_e (t : MemoryTables D) (cpu : CPU D) : Bool × CPU D :=
  let r := reg_sla_8 cpu cpu.reg.E
  let cpu := { r.2 with reg := { r.2.reg with E := r.1 } }
  (true, cpu)

-- cpu.c:3137  CB 0x24 (Z 0 0 C) 2M
def sla_h (t : MemoryTables D) (cpu : CPU D) : Bool × CPU D :=
  let r := reg_sla_8 cpu cpu.reg.H
  let cpu := { r.2 with reg := { r.2.reg with H := r.1 } }
  (true, cpu)

-- cpu.c:3142  CB 0x25 (Z 0 0 C) 2M
def sla_l (t : MemoryTables D) (cpu : CPU D) : Bool × CPU D :=
  let r := reg_sla_8 cpu cpu.reg.L
  let cpu := { r.2 with reg := { r.2.reg with L := r.1 } }
  (true, cpu)

-- cpu.c:3147  CB 0x26 (Z 0 0 C) 4M
def sla_hl (t : MemoryTables D) (cpu : CPU D) : Bool × CPU D :=
  match cpu.ins.duration with
  | 1 => (false, cpu)
  | 2 =>
    let cpu := { cpu with ins := { cpu.ins with address := getDR cpu .HL_REG } }
    let cpu := { cpu with ins := { cpu.ins with low := read_memory t cpu.mem cpu.ins.address } }
    (false, cpu)
  | 3 =>
    let r := reg_sla_8 cpu cpu.ins.low
    let result := r.1
    let cpu := r.2
    let cpu := { cpu with mem := write_memory t cpu.mem cpu.ins.address result }
    (true, cpu)
  | _ => (true, cpu)

-- cpu.c:3167  CB 0x27 (Z 0 0 C) 2M
def sla_a (t : MemoryTables D) (cpu : CPU D) : Bool × CPU D :=
  let r := reg_sla_8 cpu cpu.reg.A
  let cpu := { r.2 with reg := { r.2.reg with A := r.1 } }
  (true, cpu)

-- cpu.c:3173
def reg_sra_8 (cpu : CPU D) (r : Nat) : Nat × CPU D :=
  let c_exists := decide ((r &&& BIT_0_MASK) ≠ 0)
  let result := ((r &&& BIT_7_MASK) ||| (r >>> 1)) % 256
  let is_zero := decide (result = 0)
  let cpu := set_flag cpu is_zero ZERO_FLAG
  let cpu := set_flag cpu false SUBTRACT_FLAG
  let cpu := set_flag cpu false HALF_CARRY_FLAG
  let cpu := set_flag cpu c_exists CARRY_FLAG
  (result, cpu)

-- cpu.c:3184  CB 0x28 (Z 0 0 C) 2M
def sra_b (t : MemoryTables D) (cpu : CPU D) : Bool × CPU D :=
  let r := reg_sra_8 cpu cpu.reg.B
  let cpu := { r.2 with reg := { r.2.reg with B := r.1 } }
  (true, cpu)

-- cpu.c:3189  CB 0x29 (Z 0 0 C) 2M
def sra_c (t : MemoryTables D) (cpu : CPU D) : Bool × CPU D :=
  let r := reg_sra_8 cpu cpu.reg.C
  let cpu := { r.2 with reg := { r.2.reg with C := r.1 } }
  (true, cpu)

-- cpu.c:3194  CB 0x2A (Z 0 0 C) 2M
def sra_d (t : MemoryTables D) (cpu : CPU D) : Bool × CPU D :=
  let r := reg_sra_8 cpu cpu.reg.D
  let cpu := { r.2 with reg := { r.2.reg with D := r.1 } }
  (true, cpu)

-- cpu.c:3199  CB 0x2B (Z 0 0 C) 2M
def sra_e (t : MemoryTables D) (cpu : CPU D) : Bool × CPU D :=
  let r := reg_sra_8 cpu cpu.reg.E
  let cpu := { r.2 with reg := { r.2.reg with E := r.1 } }
  (true, cpu)

-- cpu.c:3204  CB 0x2C (Z 0 0 C) 2M
def sra_h (t : MemoryTables D) (cpu : CPU D) : Bool × CPU D :=
  let r := reg_sra_8 cpu cpu.reg.H
  let cpu := { r.2 with reg := { r.2.reg with H := r.1 } }
  (true, cpu)

-- cpu.c:3209  CB 0x2D (Z 0 0 C) 2M
def sra_l (t : MemoryTables D) (cpu : CPU D) : Bool × CPU D :=
  let r := reg_sra_8 cpu cpu.reg.L
  let cpu := { r.2 with reg := { r.2.reg with L := r.1 } }
  (true, cpu)

-- cpu.c:3214  CB 0x2E (Z 0 0 C) 4M
def sra_hl (t : MemoryTables D) (cpu : CPU D) : Bool × CPU D :=
  match cpu.ins.duration with
  | 1 => (false, cpu)
  | 2 =>
    let cpu := { cpu with ins := { cpu.ins with address := getDR cpu .HL_REG } }
    let cpu := { cpu with ins := { cpu.ins with low := read_memory t cpu.mem cpu.ins.address } }
    (false, cpu)
  | 3 =>
    let r := reg_sra_8 cpu cpu.ins.low
    let result := r.1
    let cpu := r.2
    let cpu := { cpu with mem := write_memory t cpu.mem cpu.ins.address result }
    (true, cpu)
  | _ => (true, cpu)

-- cpu.c:3234  CB 0x2F (Z 0 0 C) 2M
def sra_a (t : MemoryTables D) (cpu : CPU D) : Bool × CPU D :=
  let r := reg_sra_8 cpu cpu.reg.A
  let cpu := { r.2 with reg := { r.2.reg with A := r.1 } }
  (true, cpu)

-- cpu.c:3240
def reg_swap_8 (cpu : CPU D) (r : Nat) : Nat × CPU D :=
  let result := ((r >>> NIBBLE) ||| (r <<< NIBBLE)) % 256
  let is_zero := decide (result = 0)
  let cpu := set_flag cpu is_zero ZERO_FLAG
  let cpu := set_flag cpu false SUBTRACT_FLAG
  let cpu := set_flag cpu false HALF_CARRY_FLAG
  let cpu := set_flag cpu false CARRY_FLAG
  (result, cpu)

-- cpu.c:3250  CB 0x30 (Z 0 0 0) 2M
def swap_b (t : MemoryTables D) (cpu : CPU D) : Bool × CPU D :=
  let r := reg_swap_8 cpu cpu.reg.B
  let cpu := { r.2 with reg := { r.2.reg with B := r.1 } }
  (true, cpu)

-- cpu.c:3255  CB 0x31 (Z 0 0 0) 2M
def swap_c (t : MemoryTables D) (cpu : CPU D) : Bool × CPU D :=
  let r := reg_swap_8 cpu cpu.reg.C
  let cpu := { r.2 with reg := { r.2.reg with C := r.1 } }
  (true, cpu)

-- cpu.c:3260  CB 0x32 (Z 0 0 0) 2M
def swap_d (t : MemoryTables D) (cpu : CPU D) : Bool × CPU D :=
  let r := reg_swap_8 cpu cpu.reg.D
  let cpu := { r.2 with reg := { r.2.reg with D := r.1 } }
  (true, cpu)

-- cpu.c:3265  CB 0x33 (Z 0 0 0) 2M
def swap_e (t : MemoryTables D) (cpu : CPU D) : Bool × CPU D :=
  let r := reg_swap_8 cpu cpu.reg.E
  let cpu := { r.2 with reg := { r.2.reg with E := r.1 } }
  (true, cpu)

-- cpu.c:3270  CB 0x34 (Z 0 0 0) 2M
def swap_h (t : MemoryTables D) (cpu : CPU D) : Bool × CPU D :=
  let r := reg_swap_8 cpu cpu.reg.H
  let cpu := { r.2 with reg := { r.2.reg with H := r.1 } }
  (true, cpu)

-- cpu.c:3275  CB 0x35 (Z 0 0 0) 2M
def swap_l (t : MemoryTables D) (cpu : CPU D) : Bool × CPU D :=
  let r := reg_swap_8 cpu cpu.reg.L
  let cpu := { r.2 with reg := { r.2.reg with L := r.1 } }
  (true, cpu)

-- cpu.c:3280  CB 0x36 (Z 0 0 0) 4M
def swap_hl (t : MemoryTables D) (cpu : CPU D) : Bool × CPU D :=
  match cpu.ins.duration with
  | 1 => (false, cpu)
  | 2 =>
    let cpu := { cpu with ins := { cpu.ins with address := getDR cpu .HL_REG } }
    let cpu := { cpu with ins := { cpu.ins with low := read_memory t cpu.mem cpu.ins.address } }
    (false, cpu)
  | 3 =>
    let r := reg_swap_8 cpu cpu.ins.low
    let result := r.1
    let cpu := r.2
    let cpu := { cpu with mem := write_memory t cpu.mem cpu.ins.address result }
    (true, cpu)
  | _ => (true, cpu)

-- cpu.c:3300  CB 0x37 (Z 0 0 0) 2M
def swap_a (t : MemoryTables D) (cpu : CPU D) : Bool × CPU D :=
  let r := reg_swap_8 cpu cpu.reg.A
  let cpu := { r.2 with reg := { r.2.reg with A := r.1 } }
  (true, cpu)

-- cpu.c:3306
def reg_srl_8 (cpu : CPU D) (r : Nat) : Nat × CPU D :=
  let c_exists := decide ((r &&& BIT_0_MASK) ≠ 0)
  let result := (r >>> 1) % 256
  let is_zero := decide (result = 0)
  let cpu := set_flag cpu is_zero ZERO_FLAG
  let cpu := set_flag cpu false SUBTRACT_FLAG
  let cpu := set_flag cpu false HALF_CARRY_FLAG
  let cpu := set_flag cpu c_exists CARRY_FLAG
  (result, cpu)

-- cpu.c:3317  CB 0x38 (Z 0 0 C) 2M
def srl_b (t : MemoryTables D) (cpu : CPU D) : Bool × CPU D :=
  let r := reg_srl_8 cpu cpu.reg.B
  let cpu := { r.2 with reg := { r.2.reg with B := r.1 } }
  (true, cpu)

-- cpu.c:3322  CB 0x39 (Z 0 0 C) 2M
def srl_c (t : MemoryTables D) (cpu : CPU D) : Bool × CPU D :=
  let r := reg_srl_8 cpu cpu.reg.C
  let cpu := { r.2 with reg := { r.2.reg with C := r.1 } }
  (true, cpu)

-- cpu.c:3327  CB 0x3A (Z 0 0 C) 2M
def srl_d (t : MemoryTables D) (cpu : CPU D) : Bool × CPU D :=
  let r := reg_srl_8 cpu cpu.reg.D
  let cpu := { r.2 with reg := { r.2.reg with D := r.1 } }
  (true, cpu)

-- cpu.c:3332  CB 0x3B (Z 0 0 C) 2M
def srl_e (t : MemoryTables D) (cpu : CPU D) : Bool × CPU D :=
  let r := reg_srl_8 cpu cpu.reg.E
  let cpu := { r.2 with reg := { r.2.reg with E := r.1 } }
  (true, cpu)

-- cpu.c:3337  CB 0x3C (Z 0 0 C) 2M
def srl_h (t : MemoryTables D) (cpu : CPU D) : Bool × CPU D :=
  let r := reg_srl_8 cpu cpu.reg.H
  let cpu := { r.2 with reg := { r.2.reg with H := r.1 } }
  (true, cpu)

-- cpu.c:3342  CB 0x3D (Z 0 0 C) 2M
def srl_l (t : MemoryTables D) (cpu : CPU D) : Bool × CPU D :=
  let r := reg_srl_8 cpu cpu.reg.L
  let cpu := { r.2 with reg := { r.2.reg with L := r.1 } }
  (true, cpu)

-- cpu.c:3347  CB 0x3E (Z 0 0 C) 4M
def srl_hl (t : MemoryTables D) (cpu : CPU D) : Bool × CPU D :=
  match cpu.ins.duration with
  | 1 => (false, cpu)
  | 2 =>
    let cpu := { cpu with ins := { cpu.ins with address := getDR cpu .HL_REG } }
    let cpu := { cpu with ins := { cpu.ins with low := read_memory t cpu.mem cpu.ins.address } }
    (false, cpu)
  | 3 =>
    let r := reg_srl_8 cpu cpu.ins.low
    let result := r.1
    let cpu := r.2
    let cpu := { cpu with mem := write_memory t cpu.mem cpu.ins.address result }
    (true, cpu)
  | _ => (true, cpu)

-- cpu.c:3367  CB 0x3F (Z 0 0 C) 2M
def srl_a (t : MemoryTables D) (cpu : CPU D) : Bool × CPU D :=
  let r := reg_srl_8 cpu cpu.reg.A
  let cpu := { r.2 with reg := { r.2.reg with A := r.1 } }
  (true, cpu)

-- cpu.c:3373
def reg_bit_x (cpu : CPU D) (mask : Nat) (r : Nat) : CPU D :=
  let is_zero := decide ((r &&& mask) = 0)
  let cpu := set_flag cpu is_zero ZERO_FLAG
  let cpu := set_flag cpu false SUBTRACT_FLAG
  let cpu := set_flag cpu true HALF_CARRY_FLAG
  cpu

-- cpu.c:3380  CB 0x40 (Z 0 1 -) 2M
def bit_0_b (t : MemoryTables D) (cpu : CPU D) : Bool × CPU D :=
  let cpu := reg_bit_x cpu BIT_0_MASK cpu.reg.B
  (true, cpu)

-- cpu.c:3385  CB 0x41 (Z 0 1 -) 2M
def bit_0_c (t : MemoryTables D) (cpu : CPU D) : Bool × CPU D :=
  let cpu := reg_bit_x cpu BIT_0_MASK cpu.reg.C
  (true, cpu)

-- cpu.c:3390  CB 0x42 (Z 0 1 -) 2M
def bit_0_d (t : MemoryTables D) (cpu : CPU D) : Bool × CPU D :=
  let cpu := reg_bit_x cpu BIT_0_MASK cpu.reg.D
  (true, cpu)

-- cpu.c:3395  CB 0x43 (Z 0 1 -) 2M
def bit_0_e (t : MemoryTables D) (cpu : CPU D) : Bool × CPU D :=
  let cpu := reg_bit_x cpu BIT_0_MASK cpu.reg.E
  (true, cpu)

-- cpu.c:3400  CB 0x44 (Z 0 1 -) 2M
def bit_0_h (t : MemoryTables D) (cpu : CPU D) : Bool × CPU D :=
  let cpu := reg_bit_x cpu BIT_0_MASK cpu.reg.H
  (true, cpu)

-- cpu.c:3405  CB 0x45 (Z 0 1 -) 2M
def bit_0_l (t : MemoryTables D) (cpu : CPU D) : Bool × CPU D :=
  let cpu := reg_bit_x cpu BIT_0_MASK cpu.reg.L
  (true, cpu)

-- cpu.c:3410  CB 0x46 (Z 0 1 -) 3M
def bit_0_hl (t : MemoryTables D) (cpu : CPU D) : Bool × CPU D :=
  match cpu.ins.duration with
  | 1 => (false, cpu)
  | 2 =>
    let cpu := { cpu with ins := { cpu.ins with address := getDR cpu .HL_REG } }
    let cpu := { cpu with ins := { cpu.ins with low := read_memory t cpu.mem cpu.ins.address } }
    let cpu := reg_bit_x cpu BIT_0_MASK cpu.ins.low
    (true, cpu)
  | _ => (true, cpu)

-- cpu.c:3426  CB 0x47 (Z 0 1 -) 2M
def bit_0_a (t : MemoryTables D) (cpu : CPU D) : Bool × CPU D :=
  let cpu := reg_bit_x cpu BIT_0_MASK cpu.reg.A
  (true, cpu)

-- cpu.c:3431  CB 0x48 (Z 0 1 -) 2M
def bit_1_b (t : MemoryTables D) (cpu : CPU D) : Bool × CPU D :=
  let cpu := reg_bit_x cpu BIT_1_MASK cpu.reg.B
  (true, cpu)

-- cpu.c:3436  CB 0x49 (Z 0 1 -) 2M
def bit_1_c (t : MemoryTables D) (cpu : CPU D) : Bool × CPU D :=
  let cpu := reg_bit_x cpu BIT_1_MASK cpu.reg.C
  (true, cpu)

-- cpu.c:3441  CB 0x4A (Z 0 1 -) 2M
def bit_1_d (t : MemoryTables D) (cpu : CPU D) : Bool × CPU D :=
  let cpu := reg_bit_x cpu BIT_1_MASK cpu.reg.D
  (true, cpu)

-- cpu.c:3446  CB 0x4B (Z 0 1 -) 2M
def bit_1_e (t : MemoryTables D) (cpu : CPU D) : Bool × CPU D :=
  let cpu := reg_bit_x cpu BIT_1_MASK cpu.reg.E
  (true, cpu)

-- cpu.c:3451  CB 0x4C (Z 0 1 -) 2M
def bit_1_h (t : MemoryTables D) (cpu : CPU D) : Bool × CPU D :=
  let cpu := reg_bit_x cpu BIT_1_MASK cpu.reg.H
  (true, cpu)

-- cpu.c:3456  CB 0x4D (Z 0 1 -) 2M
def bit_1_l (t : MemoryTables D) (cpu : CPU D) : Bool × CPU D :=
  let cpu := reg_bit_x cpu BIT_1_MASK cpu.reg.L
  (true, cpu)

-- cpu.c:3461  CB 0x4E (Z 0 1 -) 3M
def bit_1_hl (t : MemoryTables D) (cpu : CPU D) : Bool × CPU D :=
  match cpu.ins.duration with
  | 1 => (false, cpu)
  | 2 =>
    let cpu := { cpu with ins := { cpu.ins with address := getDR cpu .HL_REG } }
    let cpu := { cpu with ins := { cpu.ins with low := read_memory t cpu.mem cpu.ins.address } }
    let cpu := reg_bit_x cpu BIT_1_MASK cpu.ins.low
    (true, cpu)
  | _ => (true, cpu)

-- cpu.c:3477  CB 0x4F (Z 0 1 -) 2M
def bit_1_a (t : MemoryTables D) (cpu : CPU D) : Bool × CPU D :=
  let cpu := reg_bit_x cpu BIT_1_MASK cpu.reg.A
  (true, cpu)

-- cpu.c:3482  CB 0x50 (Z 0 1 -) 2M
def bit_2_b (t : MemoryTables D) (cpu : CPU D) : Bool × CPU D :=
  let cpu := reg_bit_x cpu BIT_2_MASK cpu.reg.B
  (true, cpu)

-- cpu.c:3487  CB 0x51 (Z 0 1 -) 2M
def bit_2_c (t : MemoryTables D) (cpu : CPU D) : Bool × CPU D :=
  let cpu := reg_bit_x cpu BIT_2_MASK cpu.reg.C
  (true, cpu)

-- cpu.c:3492  CB 0x52 (Z 0 1 -) 2M
def bit_2_d (t : MemoryTables D) (cpu : CPU D) : Bool × CPU D :=
  let cpu := reg_bit_x cpu BIT_2_MASK cpu.reg.D
  (true, cpu)

-- cpu.c:3497  CB 0x53 (Z 0 1 -) 2M
def bit_2_e (t : MemoryTables D) (cpu : CPU D) : Bool × CPU D :=
  let cpu := reg_bit_x cpu BIT_2_MASK cpu.reg.E
  (true, cpu)

-- cpu.c:3502  CB 0x54 (Z 0 1 -) 2M
def bit_2_h (t : MemoryTables D) (cpu : CPU D) : Bool × CPU D :=
  let cpu := reg_bit_x cpu BIT_2_MASK cpu.reg.H
  (true, cpu)

-- cpu.c:3507  CB 0x55 (Z 0 1 -) 2M
def bit_2_l (t : MemoryTables D) (cpu : CPU D) : Bool × CPU D :=
  let cpu := reg_bit_x cpu BIT_2_MASK cpu.reg.L
  (true, cpu)

-- cpu.c:3512  CB 0x56 (Z 0 1 -) 3M
def bit_2_hl (t : MemoryTables D) (cpu : CPU D) : Bool × CPU D :=
  match cpu.ins.duration with
  | 1 => (false, cpu)
  | 2 =>
    let cpu := { cpu with ins := { cpu.ins with address := getDR cpu .HL_REG } }
    let cpu := { cpu with ins := { cpu.ins with low := read_memory t cpu.mem cpu.ins.address } }
    let cpu := reg_bit_x cpu BIT_2_MASK cpu.ins.low
    (true, cpu)
  | _ => (true, cpu)

-- cpu.c:3528  CB 0x57 (Z 0 1 -) 2M
def bit_2_a (t : MemoryTables D) (cpu : CPU D) : Bool × CPU D :=
  let cpu := reg_bit_x cpu BIT_2_MASK cpu.reg.A
  (true, cpu)

-- cpu.c:3533  CB 0x58 (Z 0 1 -) 2M
def bit_3_b (t : MemoryTables D) (cpu : CPU D) : Bool × CPU D :=
  let cpu := reg_bit_x cpu BIT_3_MASK cpu.reg.B
  (true, cpu)

-- cpu.c:3538  CB 0x59 (Z 0 1 -) 2M
def bit_3_c (t : MemoryTables D) (cpu : CPU D) : Bool × CPU D :=
  let cpu := reg_bit_x cpu BIT_3_MASK cpu.reg.C
  (true, cpu)

-- cpu.c:3543  CB 0x5A (Z 0 1 -) 2M
def bit_3_d (t : MemoryTables D) (cpu : CPU D) : Bool × CPU D :=
  let cpu := reg_bit_x cpu BIT_3_MASK cpu.reg.D
  (true, cpu)

-- cpu.c:3548  CB 0x5B (Z 0 1 -) 2M
def bit_3_e (t : MemoryTables D) (cpu : CPU D) : Bool × CPU D :=
  let cpu := reg_bit_x cpu BIT_3_MASK cpu.reg.E
  (true, cpu)

-- cpu.c:3553  CB 0x5C (Z 0 1 -) 2M
def bit_3_h (t : MemoryTables D) (cpu : CPU D) : Bool × CPU D :=
  let cpu := reg_bit_x cpu BIT_3_MASK cpu.reg.H
  (true, cpu)

-- cpu.c:3558  CB 0x5D (Z 0 1 -) 2M
def bit_3_l (t : MemoryTables D) (cpu : CPU D) : Bool × CPU D :=
  let cpu := reg_bit_x cpu BIT_3_MASK cpu.reg.L
  (true, cpu)

-- cpu.c:3563  CB 0x5E (Z 0 1 -) 3M
def bit_3_hl (t : MemoryTables D) (cpu : CPU D) : Bool × CPU D :=
  match cpu.ins.duration with
  | 1 => (false, cpu)
  | 2 =>
    let cpu := { cpu with ins := { cpu.ins with address := getDR cpu .HL_REG } }
    let cpu := { cpu with ins := { cpu.ins with low := read_memory t cpu.mem cpu.ins.address } }
    let cpu := reg_bit_x cpu BIT_3_MASK cpu.ins.low
    (true, cpu)
  | _ => (true, cpu)

-- cpu.c:3579  CB 0x5F (Z 0 1 -) 2M
def bit_3_a (t : MemoryTables D) (cpu : CPU D) : Bool × CPU D :=
  let cpu := reg_bit_x cpu BIT_3_MASK cpu.reg.A
  (true, cpu)

-- cpu.c:3584  CB 0x60 (Z 0 1 -) 2M
def bit_4_b (t : MemoryTables D) (cpu : CPU D) : Bool × CPU D :=
  let cpu := reg_bit_x cpu BIT_4_MASK cpu.reg.B
  (true, cpu)

-- cpu.c:3589  CB 0x61 (Z 0 1 -) 2M
def bit_4_c (t : MemoryTables D) (cpu : CPU D) : Bool × CPU D :=
  let cpu := reg_bit_x cpu BIT_4_MASK cpu.reg.C
  (true, cpu)

-- cpu.c:3594  CB 0x62 (Z 0 1 -) 2M
def bit_4_d (t : MemoryTables D) (cpu : CPU D) : Bool × CPU D :=
  let cpu := reg_bit_x cpu BIT_4_MASK cpu.reg.D
  (true, cpu)

-- cpu.c:3599  CB 0x63 (Z 0 1 -) 2M
def bit_4_e (t : MemoryTables D) (cpu : CPU D) : Bool × CPU D :=
  let cpu := reg_bit_x cpu BIT_4_MASK cpu.reg.E
  (true, cpu)

-- cpu.c:3604  CB 0x64 (Z 0 1 -) 2M
def bit_4_h (t : MemoryTables D) (cpu : CPU D) : Bool × CPU D :=
  let cpu := reg_bit_x cpu BIT_4_MASK cpu.reg.H
  (true, cpu)

-- cpu.c:3609  CB 0x65 (Z 0 1 -) 2M
def bit_4_l (t : MemoryTables D) (cpu : CPU D) : Bool × CPU D :=
  let cpu := reg_bit_x cpu BIT_4_MASK cpu.reg.L
  (true, cpu)

-- cpu.c:3614  CB 0x66 (Z 0 1 -) 3M
def bit_4_hl (t : MemoryTables D) (cpu : CPU D) : Bool × CPU D :=
  match cpu.ins.duration with
  | 1 => (false, cpu)
  | 2 =>
    let cpu := { cpu with ins := { cpu.ins with address := getDR cpu .HL_REG } }
    let cpu := { cpu with ins := { cpu.ins with low := read_memory t cpu.mem cpu.ins.address } }
    let cpu := reg_bit_x cpu BIT_4_MASK cpu.ins.low
    (true, cpu)
  | _ => (true, cpu)

-- cpu.c:3630  CB 0x67 (Z 0 1 -) 2M
def bit_4_a (t : MemoryTables D) (cpu : CPU D) : Bool × CPU D :=
  let cpu := reg_bit_x cpu BIT_4_MASK cpu.reg.A
  (true, cpu)

-- cpu.c:3635  CB 0x68 (Z 0 1 -) 2M
def bit_5_b (t : MemoryTables D) (cpu : CPU D) : Bool × CPU D :=
  let cpu := reg_bit_x cpu BIT_5_MASK cpu.reg.B
  (true, cpu)

-- cpu.c:3640  CB 0x69 (Z 0 1 -) 2M
def bit_5_c (t : MemoryTables D) (cpu : CPU D) : Bool × CPU D :=
  let cpu := reg_bit_x cpu BIT_5_MASK cpu.reg.C
  (true, cpu)

-- cpu.c:3645  CB 0x6A (Z 0 1 -) 2M
def bit_5_d (t : MemoryTables D) (cpu : CPU D) : Bool × CPU D :=
  let cpu := reg_bit_x cpu BIT_5_MASK cpu.reg.D
  (true, cpu)

-- cpu.c:3650  CB 0x6B (Z 0 1 -) 2M
def bit_5_e (t : MemoryTables D) (cpu : CPU D) : Bool × CPU D :=
  let cpu := reg_bit_x cpu BIT_5_MASK cpu.reg.E
  (true, cpu)

-- cpu.c:3655  CB 0x6C (Z 0 1 -) 2M
def bit_5_h (t : MemoryTables D) (cpu : CPU D) : Bool × CPU D :=
  let cpu := reg_bit_x cpu BIT_5_MASK cpu.reg.H
  (true, cpu)

-- cpu.c:3660  CB 0x6D (Z 0 1 -) 2M
def bit_5_l (t : MemoryTables D) (cpu : CPU D) : Bool × CPU D :=
  let cpu := reg_bit_x cpu BIT_5_MASK cpu.reg.L
  (true, cpu)

-- cpu.c:3665  CB 0x6E (Z 0 1 -) 3M
def bit_5_hl (t : MemoryTables D) (cpu : CPU D) : Bool × CPU D :=
  match cpu.ins.duration with
  | 1 => (false, cpu)
  | 2 =>
    let cpu := { cpu with ins := { cpu.ins with address := getDR cpu .HL_REG } }
    let cpu := { cpu with ins := { cpu.ins with low := read_memory t cpu.mem cpu.ins.address } }
    let cpu := reg_bit_x cpu BIT_5_MASK cpu.ins.low
    (true, cpu)
  | _ => (true, cpu)

-- cpu.c:3681  CB 0x6F (Z 0 1 -) 2M
def bit_5_a (t : MemoryTables D) (cpu : CPU D) : Bool × CPU D :=
  let cpu := reg_bit_x cpu BIT_5_MASK cpu.reg.A
  (true, cpu)

-- cpu.c:3686  CB 0x70 (Z 0 1 -) 2M
def bit_6_b (t : MemoryTables D) (cpu : CPU D) : Bool × CPU D :=
  let cpu := reg_bit_x cpu BIT_6_MASK cpu.reg.B
  (true, cpu)

-- cpu.c:3691  CB 0x71 (Z 0 1 -) 2M
def bit_6_c (t : MemoryTables D) (cpu : CPU D) : Bool × CPU D :=
  let cpu := reg_bit_x cpu BIT_6_MASK cpu.reg.C
  (true, cpu)

-- cpu.c:3696  CB 0x72 (Z 0 1 -) 2M
def bit_6_d (t : MemoryTables D) (cpu : CPU D) : Bool × CPU D :=
  let cpu := reg_bit_x cpu BIT_6_MASK cpu.reg.D
  (true, cpu)

-- cpu.c:3701  CB 0x73 (Z 0 1 -) 2M
def bit_6_e (t : MemoryTables D) (cpu : CPU D) : Bool × CPU D :=
  let cpu := reg_bit_x cpu BIT_6_MASK cpu.reg.E
  (true, cpu)

-- cpu.c:3706  CB 0x74 (Z 0 1 -) 2M
def bit_6_h (t : MemoryTables D) (cpu : CPU D) : Bool × CPU D :=
  let cpu := reg_bit_x cpu BIT_6_MASK cpu.reg.H
  (true, cpu)

-- cpu.c:3711  CB 0x75 (Z 0 1 -) 2M
def bit_6_l (t : MemoryTables D) (cpu : CPU D) : Bool × CPU D :=
  let cpu := reg_bit_x cpu BIT_6_MASK cpu.reg.L
  (true, cpu)

-- cpu.c:3716  CB 0x76 (Z 0 1 -) 3M
def bit_6_hl (t : MemoryTables D) (cpu : CPU D) : Bool × CPU D :=
  match cpu.ins.duration with
  | 1 => (false, cpu)
  | 2 =>
    let cpu := { cpu with ins := { cpu.ins with address := getDR cpu .HL_REG } }
    let cpu := { cpu with ins := { cpu.ins with low := read_memory t cpu.mem cpu.ins.address } }
    let cpu := reg_bit_x cpu BIT_6_MASK cpu.ins.low
    (true, cpu)
  | _ => (true, cpu)

-- cpu.c:3732  CB 0x77 (Z 0 1 -) 2M
def bit_6_a (t : MemoryTables D) (cpu : CPU D) : Bool × CPU D :=
  let cpu := reg_bit_x cpu BIT_6_MASK cpu.reg.A
  (true, cpu)

-- cpu.c:3737  CB 0x78 (Z 0 1 -) 2M
def bit_7_b (t : MemoryTables D) (cpu : CPU D) : Bool × CPU D :=
  let cpu := reg_bit_x cpu BIT_7_MASK cpu.reg.B
  (true, cpu)

-- cpu.c:3742  CB 0x79 (Z 0 1 -) 2M
def bit_7_c (t : MemoryTables D) (cpu : CPU D) : Bool × CPU D :=
  let cpu := reg_bit_x cpu BIT_7_MASK cpu.reg.C
  (true, cpu)

-- cpu.c:3747  CB 0x7A (Z 0 1 -) 2M
def bit_7_d (t : MemoryTables D) (cpu : CPU D) : Bool × CPU D :=
  let cpu := reg_bit_x cpu BIT_7_MASK cpu.reg.D
  (true, cpu)

-- cpu.c:3752  CB 0x7B (Z 0 1 -) 2M
def bit_7_e (t : MemoryTables D) (cpu : CPU D) : Bool × CPU D :=
  let cpu := reg_bit_x cpu BIT_7_MASK cpu.reg.E
  (true, cpu)

-- cpu.c:3757  CB 0x7C (Z 0 1 -) 2M
def bit_7_h (t : MemoryTables D) (cpu : CPU D) : Bool × CPU D :=
  let cpu := reg_bit_x cpu BIT_7_MASK cpu.reg.H
  (true, cpu)

-- cpu.c:3762  CB 0x7D (Z 0 1 -) 2M
def bit_7_l (t : MemoryTables D) (cpu : CPU D) : Bool × CPU D :=
  let cpu := reg_bit_x cpu BIT_7_MASK cpu.reg.L
  (true, cpu)

-- cpu.c:3767  CB 0x7E (Z 0 1 -) 3M
def bit_7_hl (t : MemoryTables D) (cpu : CPU D) : Bool × CPU D :=
  match cpu.ins.duration with
  | 1 => (false, cpu)
  | 2 =>
    let cpu := { cpu with ins := { cpu.ins with address := getDR cpu .HL_REG } }
    let cpu := { cpu with ins := { cpu.ins with low := read_memory t cpu.mem cpu.ins.address } }
    let cpu := reg_bit_x cpu BIT_7_MASK cpu.ins.low
    (true, cpu)
  | _ => (true, cpu)

-- cpu.c:3783  CB 0x7F (Z 0 1 -) 2M
def bit_7_a (t : MemoryTables D) (cpu : CPU D) : Bool × CPU D :=
  let cpu := reg_bit_x cpu BIT_7_MASK cpu.reg.A
  (true, cpu)

-- cpu.c:3789  CB 0x80 (- - - -) 2M
def res_0_b (t : MemoryTables D) (cpu : CPU D) : Bool × CPU D :=
  let cpu := { cpu with reg := { cpu.reg with B := cpu.reg.B &&& (0xFF ^^^ BIT_0_MASK) } }
  (true, cpu)

-- cpu.c:3794  CB 0x81 (- - - -) 2M
def res_0_c (t : MemoryTables D) (cpu : CPU D) : Bool × CPU D :=
  let cpu := { cpu with reg := { cpu.reg with C := cpu.reg.C &&& (0xFF ^^^ BIT_0_MASK) } }
  (true, cpu)

-- cpu.c:3799  CB 0x82 (- - - -) 2M
def res_0_d (t : MemoryTables D) (cpu : CPU D) : Bool × CPU D :=
  let cpu := { cpu with reg := { cpu.reg with D := cpu.reg.D &&& (0xFF ^^^ BIT_0_MASK) } }
  (true, cpu)

-- cpu.c:3804  CB 0x83 (- - - -) 2M
def res_0_e (t : MemoryTables D) (cpu : CPU D) : Bool × CPU D :=
  let cpu := { cpu with reg := { cpu.reg with E := cpu.reg.E &&& (0xFF ^^^ BIT_0_MASK) } }
  (true, cpu)

-- cpu.c:3809  CB 0x84 (- - - -) 2M
def res_0_h (t : MemoryTables D) (cpu : CPU D) : Bool × CPU D :=
  let cpu := { cpu with reg := { cpu.reg with H := cpu.reg.H &&& (0xFF ^^^ BIT_0_MASK) } }
  (true, cpu)

-- cpu.c:3814  CB 0x85 (- - - -) 2M
def res_0_l (t : MemoryTables D) (cpu : CPU D) : Bool × CPU D :=
  let cpu := { cpu with reg := { cpu.reg with L := cpu.reg.L &&& (0xFF ^^^ BIT_0_MASK) } }
  (true, cpu)

-- cpu.c:3819  CB 0x86 (- - - -) 4M
def res_0_hl (t : MemoryTables D) (cpu : CPU D) : Bool × CPU D :=
  match cpu.ins.duration with
  | 1 => (false, cpu)
  | 2 =>
    let cpu := { cpu with ins := { cpu.ins with address := getDR cpu .HL_REG } }
    let cpu := { cpu with ins := { cpu.ins with low := read_memory t cpu.mem cpu.ins.address } }
    (false, cpu)
  | 3 =>
    let result := cpu.ins.low &&& (0xFF ^^^ BIT_0_MASK)
    let cpu := { cpu with mem := write_memory t cpu.mem cpu.ins.address result }
    (true, cpu)
  | _ => (true, cpu)

-- cpu.c:3839  CB 0x87 (- - - -) 2M
def res_0_a (t : MemoryTables D) (cpu : CPU D) : Bool × CPU D :=
  let cpu := { cpu with reg := { cpu.reg with A := cpu.reg.A &&& (0xFF ^^^ BIT_0_MASK) } }
  (true, cpu)

-- cpu.c:3844  CB 0x88 (- - - -) 2M
def res_1_b (t : MemoryTables D) (cpu : CPU D) : Bool × CPU D :=
  let cpu := { cpu with reg := { cpu.reg with B := cpu.reg.B &&& (0xFF ^^^ BIT_1_MASK) } }
  (true, cpu)

-- cpu.c:3849  CB 0x89 (- - - -) 2M
def res_1_c (t : MemoryTables D) (cpu : CPU D) : Bool × CPU D :=
  let cpu := { cpu with reg := { cpu.reg with C := cpu.reg.C &&& (0xFF ^^^ BIT_1_MASK) } }
  (true, cpu)

-- cpu.c:3854  CB 0x8A (- - - -) 2M
def res_1_d (t : MemoryTables D) (cpu : CPU D) : Bool × CPU D :=
  let cpu := { cpu with reg := { cpu.reg with D := cpu.reg.D &&& (0xFF ^^^ BIT_1_MASK) } }
  (true, cpu)

-- cpu.c:3859  CB 0x8B (- - - -) 2M
def res_1_e (t : MemoryTables D) (cpu : CPU D) : Bool × CPU D :=
  let cpu := { cpu with reg := { cpu.reg with E := cpu.reg.E &&& (0xFF ^^^ BIT_1_MASK) } }
  (true, cpu)

-- cpu.c:3864  CB 0x8C (- - - -) 2M
def res_1_h (t : MemoryTables D) (cpu : CPU D) : Bool × CPU D :=
  let cpu := { cpu with reg := { cpu.reg with H := cpu.reg.H &&& (0xFF ^^^ BIT_1_MASK) } }
  (true, cpu)

-- cpu.c:3869  CB 0x8D (- - - -) 2M
def res_1_l (t : MemoryTables D) (cpu : CPU D) : Bool × CPU D :=
  let cpu := { cpu with reg := { cpu.reg with L := cpu.reg.L &&& (0xFF ^^^ BIT_1_MASK) } }
  (true, cpu)

-- cpu.c:3874  CB 0x8E (- - - -) 4M
def res_1_hl (t : MemoryTables D) (cpu : CPU D) : Bool × CPU D :=
  match cpu.ins.duration with
  | 1 => (false, cpu)
  | 2 =>
    let cpu := { cpu with ins := { cpu.ins with address := getDR cpu .HL_REG } }
    let cpu := { cpu with ins := { cpu.ins with low := read_memory t cpu.mem cpu.ins.address } }
    (false, cpu)
  | 3 =>
    let result := cpu.ins.low &&& (0xFF ^^^ BIT_1_MASK)
    let cpu := { cpu with mem := write_memory t cpu.mem cpu.ins.address result }
    (true, cpu)
  | _ => (true, cpu)

-- cpu.c:3894  CB 0x8F (- - - -) 2M
def res_1_a (t : MemoryTables D) (cpu : CPU D) : Bool × CPU D :=
  let cpu := { cpu with reg := { cpu.reg with A := cpu.reg.A &&& (0xFF ^^^ BIT_1_MASK) } }
  (true, cpu)

-- cpu.c:3899  CB 0x90 (- - - -) 2M
def res_2_b (t : MemoryTables D) (cpu : CPU D) : Bool × CPU D :=
  let cpu := { cpu with reg := { cpu.reg with B := cpu.reg.B &&& (0xFF ^^^ BIT_2_MASK) } }
  (true, cpu)

-- cpu.c:3904  CB 0x91 (- - - -) 2M
def res_2_c (t : MemoryTables D) (cpu : CPU D) : Bool × CPU D :=
  let cpu := { cpu with reg := { cpu.reg with C := cpu.reg.C &&& (0xFF ^^^ BIT_2_MASK) } }
  (true, cpu)

-- cpu.c:3909  CB 0x92 (- - - -) 2M
def res_2_d (t : MemoryTables D) (cpu : CPU D) : Bool × CPU D :=
  let cpu := { cpu with reg := { cpu.reg with D := cpu.reg.D &&& (0xFF ^^^ BIT_2_MASK) } }
  (true, cpu)

-- cpu.c:3914  CB 0x93 (- - - -) 2M
def res_2_e (t : MemoryTables D) (cpu : CPU D) : Bool × CPU D :=
  let cpu := { cpu with reg := { cpu.reg with E := cpu.reg.E &&& (0xFF ^^^ BIT_2_MASK) } }
  (true, cpu)

-- cpu.c:3919  CB 0x94 (- - - -) 2M
def res_2_h (t : MemoryTables D) (cpu : CPU D) : Bool × CPU D :=
  let cpu := { cpu with reg := { cpu.reg with H := cpu.reg.H &&& (0xFF ^^^ BIT_2_MASK) } }
  (true, cpu)

-- cpu.c:3924  CB 0x95 (- - - -) 2M
def res_2_l (t : MemoryTables D) (cpu : CPU D) : Bool × CPU D :=
  let cpu := { cpu with reg := { cpu.reg with L := cpu.reg.L &&& (0xFF ^^^ BIT_2_MASK) } }
  (true, cpu)

-- cpu.c:3929  CB 0x96 (- - - -) 4M
def res_2_hl (t : MemoryTables D) (cpu : CPU D) : Bool × CPU D :=
  match cpu.ins.duration with
  | 1 => (false, cpu)
  | 2 =>
    let cpu := { cpu with ins := { cpu.ins with address := getDR cpu .HL_REG } }
    let cpu := { cpu with ins := { cpu.ins with low := read_memory t cpu.mem cpu.ins.address } }
    (false, cpu)
  | 3 =>
    let result := cpu.ins.low &&& (0xFF ^^^ BIT_2_MASK)
    let cpu := { cpu with mem := write_memory t cpu.mem cpu.ins.address result }
    (true, cpu)
  | _ => (true, cpu)

-- cpu.c:3949  CB 0x97 (- - - -) 2M
def res_2_a (t : MemoryTables D) (cpu : CPU D) : Bool × CPU D :=
  let cpu := { cpu with reg := { cpu.reg with A := cpu.reg.A &&& (0xFF ^^^ BIT_2_MASK) } }
  (true, cpu)

-- cpu.c:3954  CB 0x98 (- - - -) 2M
def res_3_b (t : MemoryTables D) (cpu : CPU D) : Bool × CPU D :=
  let cpu := { cpu with reg := { cpu.reg with B := cpu.reg.B &&& (0xFF ^^^ BIT_3_MASK) } }
  (true, cpu)

-- cpu.c:3959  CB 0x99 (- - - -) 2M
def res_3_c (t : MemoryTables D) (cpu : CPU D) : Bool × CPU D :=
  let cpu := { cpu with reg := { cpu.reg with C := cpu.reg.C &&& (0xFF ^^^ BIT_3_MASK) } }
  (true, cpu)

-- cpu.c:3964  CB 0x9A (- - - -) 2M
def res_3_d (t : MemoryTables D) (cpu : CPU D) : Bool × CPU D :=
  let cpu := { cpu with reg := { cpu.reg with D := cpu.reg.D &&& (0xFF ^^^ BIT_3_MASK) } }
  (true, cpu)

-- cpu.c:3969  CB 0x9B (- - - -) 2M
def res_3_e (t : MemoryTables D) (cpu : CPU D) : Bool × CPU D :=
  let cpu := { cpu with reg := { cpu.reg with E := cpu.reg.E &&& (0xFF ^^^ BIT_3_MASK) } }
  (true, cpu)

-- cpu.c:3974  CB 0x9C (- - - -) 2M
def res_3_h (t : MemoryTables D) (cpu : CPU D) : Bool × CPU D :=
  let cpu := { cpu with reg := { cpu.reg with H := cpu.reg.H &&& (0xFF ^^^ BIT_3_MASK) } }
  (true, cpu)

-- cpu.c:3979  CB 0x9D (- - - -) 2M
def res_3_l (t : MemoryTables D) (cpu : CPU D) : Bool × CPU D :=
  let cpu := { cpu with reg := { cpu.reg with L := cpu.reg.L &&& (0xFF ^^^ BIT_3_MASK) } }
  (true, cpu)

-- cpu.c:3984  CB 0x9E (- - - -) 4M
def res_3_hl (t : MemoryTables D) (cpu : CPU D) : Bool × CPU D :=
  match cpu.ins.duration with
  | 1 => (false, cpu)
  | 2 =>
    let cpu := { cpu with ins := { cpu.ins with address := getDR cpu .HL_REG } }
    let cpu := { cpu with ins := { cpu.ins with low := read_memory t cpu.mem cpu.ins.address } }
    (false, cpu)
  | 3 =>
    let result := cpu.ins.low &&& (0xFF ^^^ BIT_3_MASK)
    let cpu := { cpu with mem := write_memory t cpu.mem cpu.ins.address result }
    (true, cpu)
  | _ => (true, cpu)

-- cpu.c:4004  CB 0x9F (- - - -) 2M
def res_3_a (t : MemoryTables D) (cpu : CPU D) : Bool × CPU D :=
  let cpu := { cpu with reg := { cpu.reg with A := cpu.reg.A &&& (0xFF ^^^ BIT_3_MASK) } }
  (true, cpu)

-- cpu.c:4009  CB 0xA0 (- - - -) 2M
def res_4_b (t : MemoryTables D) (cpu : CPU D) : Bool × CPU D :=
  let cpu := { cpu with reg := { cpu.reg with B := cpu.reg.B &&& (0xFF ^^^ BIT_4_MASK) } }
  (true, cpu)

-- cpu.c:4014  CB 0xA1 (- - - -) 2M
def res_4_c (t : MemoryTables D) (cpu : CPU D) : Bool × CPU D :=
  let cpu := { cpu with reg := { cpu.reg with C := cpu.reg.C &&& (0xFF ^^^ BIT_4_MASK) } }
  (true, cpu)

-- cpu.c:4019  CB 0xA2 (- - - -) 2M
def res_4_d (t : MemoryTables D) (cpu : CPU D) : Bool × CPU D :=
  let cpu := { cpu with reg := { cpu.reg with D := cpu.reg.D &&& (0xFF ^^^ BIT_4_MASK) } }
  (true, cpu)

-- cpu.c:4024  CB 0xA3 (- - - -) 2M
def res_4_e (t : MemoryTables D) (cpu : CPU D) : Bool × CPU D :=
  let cpu := { cpu with reg := { cpu.reg with E := cpu.reg.E &&& (0xFF ^^^ BIT_4_MASK) } }
  (true, cpu)

-- cpu.c:4029  CB 0xA4 (- - - -) 2M
def res_4_h (t : MemoryTables D) (cpu : CPU D) : Bool × CPU D :=
  let cpu := { cpu with reg := { cpu.reg with H := cpu.reg.H &&& (0xFF ^^^ BIT_4_MASK) } }
  (true, cpu)

-- cpu.c:4034  CB 0xA5 (- - - -) 2M
def res_4_l (t : MemoryTables D) (cpu : CPU D) : Bool × CPU D :=
  let cpu := { cpu with reg := { cpu.reg with L := cpu.reg.L &&& (0xFF ^^^ BIT_4_MASK) } }
  (true, cpu)

-- cpu.c:4039  CB 0xA6 (- - - -) 4M
def res_4_hl (t : MemoryTables D) (cpu : CPU D) : Bool × CPU D :=
  match cpu.ins.duration with
  | 1 => (false, cpu)
  | 2 =>
    let cpu := { cpu with ins := { cpu.ins with address := getDR cpu .HL_REG } }
    let cpu := { cpu with ins := { cpu.ins with low := read_memory t cpu.mem cpu.ins.address } }
    (false, cpu)
  | 3 =>
    let result := cpu.ins.low &&& (0xFF ^^^ BIT_4_MASK)
    let cpu := { cpu with mem := write_memory t cpu.mem cpu.ins.address result }
    (true, cpu)
  | _ => (true, cpu)

-- cpu.c:4059  CB 0xA7 (- - - -) 2M
def res_4_a (t : MemoryTables D) (cpu : CPU D) : Bool × CPU D :=
  let cpu := { cpu with reg := { cpu.reg with A := cpu.reg.A &&& (0xFF ^^^ BIT_4_MASK) } }
  (true, cpu)

-- cpu.c:4064  CB 0xA8 (- - - -) 2M
def res_5_b (t : MemoryTables D) (cpu : CPU D) : Bool × CPU D :=
  let cpu := { cpu with reg := { cpu.reg with B := cpu.reg.B &&& (0xFF ^^^ BIT_5_MASK) } }
  (true, cpu)

-- cpu.c:4069  CB 0xA9 (- - - -) 2M
def res_5_c (t : MemoryTables D) (cpu : CPU D) : Bool × CPU D :=
  let cpu := { cpu with reg := { cpu.reg with C := cpu.reg.C &&& (0xFF ^^^ BIT_5_MASK) } }
  (true, cpu)

-- cpu.c:4074  CB 0xAA (- - - -) 2M
def res_5_d (t : MemoryTables D) (cpu : CPU D) : Bool × CPU D :=
  let cpu := { cpu with reg := { cpu.reg with D := cpu.reg.D &&& (0xFF ^^^ BIT_5_MASK) } }
  (true, cpu)

-- cpu.c:4079  CB 0xAB (- - - -) 2M
def res_5_e (t : MemoryTables D) (cpu : CPU D) : Bool × CPU D :=
  let cpu := { cpu with reg := { cpu.reg with E := cpu.reg.E &&& (0xFF ^^^ BIT_5_MASK) } }
  (true, cpu)

-- cpu.c:4084  CB 0xAC (- - - -) 2M
def res_5_h (t : MemoryTables D) (cpu : CPU D) : Bool × CPU D :=
  let cpu := { cpu with reg := { cpu.reg with H := cpu.reg.H &&& (0xFF ^^^ BIT_5_MASK) } }
  (true, cpu)

-- cpu.c:4089  CB 0xAD (- - - -) 2M
def res_5_l (t : MemoryTables D) (cpu : CPU D) : Bool × CPU D :=
  let cpu := { cpu with reg := { cpu.reg with L := cpu.reg.L &&& (0xFF ^^^ BIT_5_MASK) } }
  (true, cpu)

-- cpu.c:4094  CB 0xAE (- - - -) 4M
def res_5_hl (t : MemoryTables D) (cpu : CPU D) : Bool × CPU D :=
  match cpu.ins.duration with
  | 1 => (false, cpu)
  | 2 =>
    let cpu := { cpu with ins := { cpu.ins with address := getDR cpu .HL_REG } }
    let cpu := { cpu with ins := { cpu.ins with low := read_memory t cpu.mem cpu.ins.address } }
    (false, cpu)
  | 3 =>
    let result := cpu.ins.low &&& (0xFF ^^^ BIT_5_MASK)
    let cpu := { cpu with mem := write_memory t cpu.mem cpu.ins.address result }
    (true, cpu)
  | _ => (true, cpu)

-- cpu.c:4114  CB 0xAF (- - - -) 2M
def res_5_a (t : MemoryTables D) (cpu : CPU D) : Bool × CPU D :=
  let cpu := { cpu with reg := { cpu.reg with A := cpu.reg.A &&& (0xFF ^^^ BIT_5_MASK) } }
  (true, cpu)

-- cpu.c:4119  CB 0xB0 (- - - -) 2M
def res_6_b (t : MemoryTables D) (cpu : CPU D) : Bool × CPU D :=
  let cpu := { cpu with reg := { cpu.reg with B := cpu.reg.B &&& (0xFF ^^^ BIT_6_MASK) } }
  (true, cpu)

-- cpu.c:4124  CB 0xB1 (- - - -) 2M
def res_6_c (t : MemoryTables D) (cpu : CPU D) : Bool × CPU D :=
  let cpu := { cpu with reg := { cpu.reg with C := cpu.reg.C &&& (0xFF ^^^ BIT_6_MASK) } }
  (true, cpu)

-- cpu.c:4129  CB 0xB2 (- - - -) 2M
def res_6_d (t : MemoryTables D) (cpu : CPU D) : Bool × CPU D :=
  let cpu := { cpu with reg := { cpu.reg with D := cpu.reg.D &&& (0xFF ^^^ BIT_6_MASK) } }
  (true, cpu)

-- cpu.c:4134  CB 0xB3 (- - - -) 2M
def res_6_e (t : MemoryTables D) (cpu : CPU D) : Bool × CPU D :=
  let cpu := { cpu with reg := { cpu.reg with E := cpu.reg.E &&& (0xFF ^^^ BIT_6_MASK) } }
  (true, cpu)

-- cpu.c:4139  CB 0xB4 (- - - -) 2M
def res_6_h (t : MemoryTables D) (cpu : CPU D) : Bool × CPU D :=
  let cpu := { cpu with reg := { cpu.reg with H := cpu.reg.H &&& (0xFF ^^^ BIT_6_MASK) } }
  (true, cpu)

-- cpu.c:4144  CB 0xB5 (- - - -) 2M
def res_6_l (t : MemoryTables D) (cpu : CPU D) : Bool × CPU D :=
  let cpu := { cpu with reg := { cpu.reg with L := cpu.reg.L &&& (0xFF ^^^ BIT_6_MASK) } }
  (true, cpu)

-- cpu.c:4149  CB 0xB6 (- - - -) 4M
def res_6_hl (t : MemoryTables D) (cpu : CPU D) : Bool × CPU D :=
  match cpu.ins.duration with
  | 1 => (false, cpu)
  | 2 =>
    let cpu := { cpu with ins := { cpu.ins with address := getDR cpu .HL_REG } }
    let cpu := { cpu with ins := { cpu.ins with low := read_memory t cpu.mem cpu.ins.address } }
    (false, cpu)
  | 3 =>
    let result := cpu.ins.low &&& (0xFF ^^^ BIT_6_MASK)
    let cpu := { cpu with mem := write_memory t cpu.mem cpu.ins.address result }
    (true, cpu)
  | _ => (true, cpu)

-- cpu.c:4169  CB 0xB7 (- - - -) 2M
def res_6_a (t : MemoryTables D) (cpu : CPU D) : Bool × CPU D :=
  let cpu := { cpu with reg := { cpu.reg with A := cpu.reg.A &&& (0xFF ^^^ BIT_6_MASK) } }
  (true, cpu)

-- cpu.c:4174  CB 0xB8 (- - - -) 2M
def res_7_b (t : MemoryTables D) (cpu : CPU D) : Bool × CPU D :=
  let cpu := { cpu with reg := { cpu.reg with B := cpu.reg.B &&& (0xFF ^^^ BIT_7_MASK) } }
  (true, cpu)

-- cpu.c:4179  CB 0xB9 (- - - -) 2M
def res_7_c (t : MemoryTables D) (cpu : CPU D) : Bool × CPU D :=
  let cpu := { cpu with reg := { cpu.reg with C := cpu.reg.C &&& (0xFF ^^^ BIT_7_MASK) } }
  (true, cpu)

-- cpu.c:4184  CB 0xBA (- - - -) 2M
def res_7_d (t : MemoryTables D) (cpu : CPU D) : Bool × CPU D :=
  let cpu := { cpu with reg := { cpu.reg with D := cpu.reg.D &&& (0xFF ^^^ BIT_7_MASK) } }
  (true, cpu)

-- cpu.c:4189  CB 0xBB (- - - -) 2M
def res_7_e (t : MemoryTables D) (cpu : CPU D) : Bool × CPU D :=
  let cpu := { cpu with reg := { cpu.reg with E := cpu.reg.E &&& (0xFF ^^^ BIT_7_MASK) } }
  (true, cpu)

-- cpu.c:4194  CB 0xBC (- - - -) 2M
def res_7_h (t : MemoryTables D) (cpu : CPU D) : Bool × CPU D :=
  let cpu := { cpu with reg := { cpu.reg with H := cpu.reg.H &&& (0xFF ^^^ BIT_7_MASK) } }
  (true, cpu)

-- cpu.c:4199  CB 0xBD (- - - -) 2M
def res_7_l (t : MemoryTables D) (cpu : CPU D) : Bool × CPU D :=
  let cpu := { cpu with reg := { cpu.reg with L := cpu.reg.L &&& (0xFF ^^^ BIT_7_MASK) } }
  (true, cpu)

-- cpu.c:4204  CB 0xBE (- - - -) 4M
def res_7_hl (t : MemoryTables D) (cpu : CPU D) : Bool × CPU D :=
  match cpu.ins.duration with
  | 1 => (false, cpu)
  | 2 =>
    let cpu := { cpu with ins := { cpu.ins with address := getDR cpu .HL_REG } }
    let cpu := { cpu with ins := { cpu.ins with low := read_memory t cpu.mem cpu.ins.address } }
    (false, cpu)
  | 3 =>
    let result := cpu.ins.low &&& (0xFF ^^^ BIT_7_MASK)
    let cpu := { cpu with mem := write_memory t cpu.mem cpu.ins.address result }
    (true, cpu)
  | _ => (true, cpu)

-- cpu.c:4224  CB 0xBF (- - - -) 2M
def res_7_a (t : MemoryTables D) (cpu : CPU D) : Bool × CPU D :=
  let cpu := { cpu with reg := { cpu.reg with A := cpu.reg.A &&& (0xFF ^^^ BIT_7_MASK) } }
  (true, cpu)

-- cpu.c:4230  CB 0xC0 (- - - -) 2M
def set_0_b (t : MemoryTables D) (cpu : CPU D) : Bool × CPU D :=
  let cpu := { cpu with reg := { cpu.reg with B := cpu.reg.B ||| BIT_0_MASK } }
  (true, cpu)

-- cpu.c:4235  CB 0xC1 (- - - -) 2M
def set_0_c (t : MemoryTables D) (cpu : CPU D) : Bool × CPU D :=
  let cpu := { cpu with reg := { cpu.reg with C := cpu.reg.C ||| BIT_0_MASK } }
  (true, cpu)

-- cpu.c:4240  CB 0xC2 (- - - -) 2M
def set_0_d (t : MemoryTables D) (cpu : CPU D) : Bool × CPU D :=
  let cpu := { cpu with reg := { cpu.reg with D := cpu.reg.D ||| BIT_0_MASK } }
  (true, cpu)

-- cpu.c:4245  CB 0xC3 (- - - -) 2M
def set_0_e (t : MemoryTables D) (cpu : CPU D) : Bool × CPU D :=
  let cpu := { cpu with reg := { cpu.reg with E := cpu.reg.E ||| BIT_0_MASK } }
  (true, cpu)

-- cpu.c:4250  CB 0xC4 (- - - -) 2M
def set_0_h (t : MemoryTables D) (cpu : CPU D) : Bool × CPU D :=
  let cpu := { cpu with reg := { cpu.reg with H := cpu.reg.H ||| BIT_0_MASK } }
  (true, cpu)

-- cpu.c:4255  CB 0xC5 (- - - -) 2M
def set_0_l (t : MemoryTables D) (cpu : CPU D) : Bool × CPU D :=
  let cpu := { cpu with reg := { cpu.reg with L := cpu.reg.L ||| BIT_0_MASK } }
  (true, cpu)

-- cpu.c:4260  CB 0xC6 (- - - -) 4M
def set_0_hl (t : MemoryTables D) (cpu : CPU D) : Bool × CPU D :=
  match cpu.ins.duration with
  | 1 => (false, cpu)
  | 2 =>
    let cpu := { cpu with ins := { cpu.ins with address := getDR cpu .HL_REG } }
    let cpu := { cpu with ins := { cpu.ins with low := read_memory t cpu.mem cpu.ins.address } }
    (false, cpu)
  | 3 =>
    let result := cpu.ins.low ||| BIT_0_MASK
    let cpu := { cpu with mem := write_memory t cpu.mem cpu.ins.address result }
    (true, cpu)
  | _ => (true, cpu)

-- cpu.c:4280  CB 0xC7 (- - - -) 2M
def set_0_a (t : MemoryTables D) (cpu : CPU D) : Bool × CPU D :=
  let cpu := { cpu with reg := { cpu.reg with A := cpu.reg.A ||| BIT_0_MASK } }
  (true, cpu)

-- cpu.c:4285  CB 0xC8 (- - - -) 2M
def set_1_b (t : MemoryTables D) (cpu : CPU D) : Bool × CPU D :=
  let cpu := { cpu with reg := { cpu.reg with B := cpu.reg.B ||| BIT_1_MASK } }
  (true, cpu)

-- cpu.c:4290  CB 0xC9 (- - - -) 2M
def set_1_c (t : MemoryTables D) (cpu : CPU D) : Bool × CPU D :=
  let cpu := { cpu with reg := { cpu.reg with C := cpu.reg.C ||| BIT_1_MASK } }
  (true, cpu)

-- cpu.c:4295  CB 0xCA (- - - -) 2M
def set_1_d (t : MemoryTables D) (cpu : CPU D) : Bool × CPU D :=
  let cpu := { cpu with reg := { cpu.reg with D := cpu.reg.D ||| BIT_1_MASK } }
  (true, cpu)

-- cpu.c:4300  CB 0xCB (- - - -) 2M
def set_1_e (t : MemoryTables D) (cpu : CPU D) : Bool × CPU D :=
  let cpu := { cpu with reg := { cpu.reg with E := cpu.reg.E ||| BIT_1_MASK } }
  (true, cpu)

-- cpu.c:4305  CB 0xCC (- - - -) 2M
def set_1_h (t : MemoryTables D) (cpu : CPU D) : Bool × CPU D :=
  let cpu := { cpu with reg := { cpu.reg with H := cpu.reg.H ||| BIT_1_MASK } }
  (true, cpu)

-- cpu.c:4310  CB 0xCD (- - - -) 2M
def set_1_l (t : MemoryTables D) (cpu : CPU D) : Bool × CPU D :=
  let cpu := { cpu with reg := { cpu.reg with L := cpu.reg.L ||| BIT_1_MASK } }
  (true, cpu)

-- cpu.c:4315  CB 0xCE (- - - -) 4M
def set_1_hl (t : MemoryTables D) (cpu : CPU D) : Bool × CPU D :=
  match cpu.ins.duration with
  | 1 => (false, cpu)
  | 2 =>
    let cpu := { cpu with ins := { cpu.ins with address := getDR cpu .HL_REG } }
    let cpu := { cpu with ins := { cpu.ins with low := read_memory t cpu.mem cpu.ins.address } }
    (false, cpu)
  | 3 =>
    let result := cpu.ins.low ||| BIT_1_MASK
    let cpu := { cpu with mem := write_memory t cpu.mem cpu.ins.address result }
    (true, cpu)
  | _ => (true, cpu)

-- cpu.c:4335  CB 0xCF (- - - -) 2M
def set_1_a (t : MemoryTables D) (cpu : CPU D) : Bool × CPU D :=
  let cpu := { cpu with reg := { cpu.reg with A := cpu.reg.A ||| BIT_1_MASK } }
  (true, cpu)

-- cpu.c:4340  CB 0xD0 (- - - -) 2M
def set_2_b (t : MemoryTables D) (cpu : CPU D) : Bool × CPU D :=
  let cpu := { cpu with reg := { cpu.reg with B := cpu.reg.B ||| BIT_2_MASK } }
  (true, cpu)

-- cpu.c:4345  CB 0xD1 (- - - -) 2M
def set_2_c (t : MemoryTables D) (cpu : CPU D) : Bool × CPU D :=
  let cpu := { cpu with reg := { cpu.reg with C := cpu.reg.C ||| BIT_2_MASK } }
  (true, cpu)

-- cpu.c:4350  CB 0xD2 (- - - -) 2M
def set_2_d (t : MemoryTables D) (cpu : CPU D) : Bool × CPU D :=
  let cpu := { cpu with reg := { cpu.reg with D := cpu.reg.D ||| BIT_2_MASK } }
  (true, cpu)

-- cpu.c:4355  CB 0xD3 (- - - -) 2M
def set_2_e (t : MemoryTables D) (cpu : CPU D) : Bool × CPU D :=
  let cpu := { cpu with reg := { cpu.reg with E := cpu.reg.E ||| BIT_2_MASK } }
  (true, cpu)

-- cpu.c:4360  CB 0xD4 (- - - -) 2M
def set_2_h (t : MemoryTables D) (cpu : CPU D) : Bool × CPU D :=
  let cpu := { cpu with reg := { cpu.reg with H := cpu.reg.H ||| BIT_2_MASK } }
  (true, cpu)

-- cpu.c:4365  CB 0xD5 (- - - -) 2M
def set_2_l (t : MemoryTables D) (cpu : CPU D) : Bool × CPU D :=
  let cpu := { cpu with reg := { cpu.reg with L := cpu.reg.L ||| BIT_2_MASK } }
  (true, cpu)

-- cpu.c:4370  CB 0xD6 (- - - -) 4M
def set_2_hl (t : MemoryTables D) (cpu : CPU D) : Bool × CPU D :=
  match cpu.ins.duration with
  | 1 => (false, cpu)
  | 2 =>
    let cpu := { cpu with ins := { cpu.ins with address := getDR cpu .HL_REG } }
    let cpu := { cpu with ins := { cpu.ins with low := read_memory t cpu.mem cpu.ins.address } }
    (false, cpu)
  | 3 =>
    let result := cpu.ins.low ||| BIT_2_MASK
    let cpu := { cpu with mem := write_memory t cpu.mem cpu.ins.address result }
    (true, cpu)
  | _ => (true, cpu)

-- cpu.c:4390  CB 0xD7 (- - - -) 2M
def set_2_a (t : MemoryTables D) (cpu : CPU D) : Bool × CPU D :=
  let cpu := { cpu with reg := { cpu.reg with A := cpu.reg.A ||| BIT_2_MASK } }
  (true, cpu)

-- cpu.c:4395  CB 0xD8 (- - - -) 2M
def set_3_b (t : MemoryTables D) (cpu : CPU D) : Bool × CPU D :=
  let cpu := { cpu with reg := { cpu.reg with B := cpu.reg.B ||| BIT_3_MASK } }
  (true, cpu)

-- cpu.c:4400  CB 0xD9 (- - - -) 2M
def set_3_c (t : MemoryTables D) (cpu : CPU D) : Bool × CPU D :=
  let cpu := { cpu with reg := { cpu.reg with C := cpu.reg.C ||| BIT_3_MASK } }
  (true, cpu)

-- cpu.c:4405  CB 0xDA (- - - -) 2M
def set_3_d (t : MemoryTables D) (cpu : CPU D) : Bool × CPU D :=
  let cpu := { cpu with reg := { cpu.reg with D := cpu.reg.D ||| BIT_3_MASK } }
  (true, cpu)

-- cpu.c:4410  CB 0xDB (- - - -) 2M
def set_3_e (t : MemoryTables D) (cpu : CPU D) : Bool × CPU D :=
  let cpu := { cpu with reg := { cpu.reg with E := cpu.reg.E ||| BIT_3_MASK } }
  (true, cpu)

-- cpu.c:4415  CB 0xDC (- - - -) 2M
def set_3_h (t : MemoryTables D) (cpu : CPU D) : Bool × CPU D :=
  let cpu := { cpu with reg := { cpu.reg with H := cpu.reg.H ||| BIT_3_MASK } }
  (true, cpu)

-- cpu.c:4420  CB 0xDD (- - - -) 2M
def set_3_l (t : MemoryTables D) (cpu : CPU D) : Bool × CPU D :=
  let cpu := { cpu with reg := { cpu.reg with L := cpu.reg.L ||| BIT_3_MASK } }
  (true, cpu)

-- cpu.c:4425  CB 0xDE (- - - -) 4M
def set_3_hl (t : MemoryTables D) (cpu : CPU D) : Bool × CPU D :=
  match cpu.ins.duration with
  | 1 => (false, cpu)
  | 2 =>
    let cpu := { cpu with ins := { cpu.ins with address := getDR cpu .HL_REG } }
    let cpu := { cpu with ins := { cpu.ins with low := read_memory t cpu.mem cpu.ins.address } }
    (false, cpu)
  | 3 =>
    let result := cpu.ins.low ||| BIT_3_MASK
    let cpu := { cpu with mem := write_memory t cpu.mem cpu.ins.address result }
    (true, cpu)
  | _ => (true, cpu)

-- cpu.c:4445  CB 0xDF (- - - -) 2M
def set_3_a (t : MemoryTables D) (cpu : CPU D) : Bool × CPU D :=
  let cpu := { cpu with reg := { cpu.reg with A := cpu.reg.A ||| BIT_3_MASK } }
  (true, cpu)

-- cpu.c:4450  CB 0xE0 (- - - -) 2M
def set_4_b (t : MemoryTables D) (cpu : CPU D) : Bool × CPU D :=
  let cpu := { cpu with reg := { cpu.reg with B := cpu.reg.B ||| BIT_4_MASK } }
  (true, cpu)

-- cpu.c:4455  CB 0xE1 (- - - -) 2M
def set_4_c (t : MemoryTables D) (cpu : CPU D) : Bool × CPU D :=
  let cpu := { cpu with reg := { cpu.reg with C := cpu.reg.C ||| BIT_4_MASK } }
  (true, cpu)

-- cpu.c:4460  CB 0xE2 (- - - -) 2M
def set_4_d (t : MemoryTables D) (cpu : CPU D) : Bool × CPU D :=
  let cpu := { cpu with reg := { cpu.reg with D := cpu.reg.D ||| BIT_4_MASK } }
  (true, cpu)

-- cpu.c:4465  CB 0xE3 (- - - -) 2M
def set_4_e (t : MemoryTables D) (cpu : CPU D) : Bool × CPU D :=
  let cpu := { cpu with reg := { cpu.reg with E := cpu.reg.E ||| BIT_4_MASK } }
  (true, cpu)

-- cpu.c:4470  CB 0xE4 (- - - -) 2M
def set_4_h (t : MemoryTables D) (cpu : CPU D) : Bool × CPU D :=
  let cpu := { cpu with reg := { cpu.reg with H := cpu.reg.H ||| BIT_4_MASK } }
  (true, cpu)

-- cpu.c:4475  CB 0xE5 (- - - -) 2M
def set_4_l (t : MemoryTables D) (cpu : CPU D) : Bool × CPU D :=
  let cpu := { cpu with reg := { cpu.reg with L := cpu.reg.L ||| BIT_4_MASK } }
  (true, cpu)

-- cpu.c:4480  CB 0xE6 (- - - -) 4M
def set_4_hl (t : MemoryTables D) (cpu : CPU D) : Bool × CPU D :=
  match cpu.ins.duration with
  | 1 => (false, cpu)
  | 2 =>
    let cpu := { cpu with ins := { cpu.ins with address := getDR cpu .HL_REG } }
    let cpu := { cpu with ins := { cpu.ins with low := read_memory t cpu.mem cpu.ins.address } }
    (false, cpu)
  | 3 =>
    let result := cpu.ins.low ||| BIT_4_MASK
    let cpu := { cpu with mem := write_memory t cpu.mem cpu.ins.address result }
    (true, cpu)
  | _ => (true, cpu)

-- cpu.c:4500  CB 0xE7 (- - - -) 2M
def set_4_a (t : MemoryTables D) (cpu : CPU D) : Bool × CPU D :=
  let cpu := { cpu with reg := { cpu.reg with A := cpu.reg.A ||| BIT_4_MASK } }
  (true, cpu)

-- cpu.c:4505  CB 0xE8 (- - - -) 2M
def set_5_b (t : MemoryTables D) (cpu : CPU D) : Bool × CPU D :=
  let cpu := { cpu with reg := { cpu.reg with B := cpu.reg.B ||| BIT_5_MASK } }
  (true, cpu)

-- cpu.c:4510  CB 0xE9 (- - - -) 2M
def set_5_c (t : MemoryTables D) (cpu : CPU D) : Bool × CPU D :=
  let cpu := { cpu with reg := { cpu.reg with C := cpu.reg.C ||| BIT_5_MASK } }
  (true, cpu)

-- cpu.c:4515  CB 0xEA (- - - -) 2M
def set_5_d (t : MemoryTables D) (cpu : CPU D) : Bool × CPU D :=
  let cpu := { cpu with reg := { cpu.reg with D := cpu.reg.D ||| BIT_5_MASK } }
  (true, cpu)

-- cpu.c:4520  CB 0xEB (- - - -) 2M
def set_5_e (t : MemoryTables D) (cpu : CPU D) : Bool × CPU D :=
  let cpu := { cpu with reg := { cpu.reg with E := cpu.reg.E ||| BIT_5_MASK } }
  (true, cpu)

-- cpu.c:4525  CB 0xEC (- - - -) 2M
def set_5_h (t : MemoryTables D) (cpu : CPU D) : Bool × CPU D :=
  let cpu := { cpu with reg := { cpu.reg with H := cpu.reg.H ||| BIT_5_MASK } }
  (true, cpu)

-- cpu.c:4530  CB 0xED (- - - -) 2M
def set_5_l (t : MemoryTables D) (cpu : CPU D) : Bool × CPU D :=
  let cpu := { cpu with reg := { cpu.reg with L := cpu.reg.L ||| BIT_5_MASK } }
  (true, cpu)

-- cpu.c:4535  CB 0xEE (- - - -) 4M
def set_5_hl (t : MemoryTables D) (cpu : CPU D) : Bool × CPU D :=
  match cpu.ins.duration with
  | 1 => (false, cpu)
  | 2 =>
    let cpu := { cpu with ins := { cpu.ins with address := getDR cpu .HL_REG } }
    let cpu := { cpu with ins := { cpu.ins with low := read_memory t cpu.mem cpu.ins.address } }
    (false, cpu)
  | 3 =>
    let result := cpu.ins.low ||| BIT_5_MASK
    let cpu := { cpu with mem := write_memory t cpu.mem cpu.ins.address result }
    (true, cpu)
  | _ => (true, cpu)

-- cpu.c:4555  CB 0xEF (- - - -) 2M
def set_5_a (t : MemoryTables D) (cpu : CPU D) : Bool × CPU D :=
  let cpu := { cpu with reg := { cpu.reg with A := cpu.reg.A ||| BIT_5_MASK } }
  (true, cpu)

-- cpu.c:4560  CB 0xF0 (- - - -) 2M
def set_6_b (t : MemoryTables D) (cpu : CPU D) : Bool × CPU D :=
  let cpu := { cpu with reg := { cpu.reg with B := cpu.reg.B ||| BIT_6_MASK } }
  (true, cpu)

-- cpu.c:4565  CB 0xF1 (- - - -) 2M
def set_6_c (t : MemoryTables D) (cpu : CPU D) : Bool × CPU D :=
  let cpu := { cpu with reg := { cpu.reg with C := cpu.reg.C ||| BIT_6_MASK } }
  (true, cpu)

-- cpu.c:4570  CB 0xF2 (- - - -) 2M
def set_6_d (t : MemoryTables D) (cpu : CPU D) : Bool × CPU D :=
  let cpu := { cpu with reg := { cpu.reg with D := cpu.reg.D ||| BIT_6_MASK } }
  (true, cpu)

-- cpu.c:4575  CB 0xF3 (- - - -) 2M
def set_6_e (t : MemoryTables D) (cpu : CPU D) : Bool × CPU D :=
  let cpu := { cpu with reg := { cpu.reg with E := cpu.reg.E ||| BIT_6_MASK } }
  (true, cpu)

-- cpu.c:4580  CB 0xF4 (- - - -) 2M
def set_6_h (t : MemoryTables D) (cpu : CPU D) : Bool × CPU D :=
  let cpu := { cpu with reg := { cpu.reg with H := cpu.reg.H ||| BIT_6_MASK } }
  (true, cpu)

-- cpu.c:4585  CB 0xF5 (- - - -) 2M
def set_6_l (t : MemoryTables D) (cpu : CPU D) : Bool × CPU D :=
  let cpu := { cpu with reg := { cpu.reg with L := cpu.reg.L ||| BIT_6_MASK } }
  (true, cpu)

-- cpu.c:4590  CB 0xF6 (- - - -) 4M
def set_6_hl (t : MemoryTables D) (cpu : CPU D) : Bool × CPU D :=
  match cpu.ins.duration with
  | 1 => (false, cpu)
  | 2 =>
    let cpu := { cpu with ins := { cpu.ins with address := getDR cpu .HL_REG } }
    let cpu := { cpu with ins := { cpu.ins with low := read_memory t cpu.mem cpu.ins.address } }
    (false, cpu)
  | 3 =>
    let result := cpu.ins.low ||| BIT_6_MASK
    let cpu := { cpu with mem := write_memory t cpu.mem cpu.ins.address result }
    (true, cpu)
  | _ => (true, cpu)

-- cpu.c:4610  CB 0xF7 (- - - -) 2M
def set_6_a (t : MemoryTables D) (cpu : CPU D) : Bool × CPU D :=
  let cpu := { cpu with reg := { cpu.reg with A := cpu.reg.A ||| BIT_6_MASK } }
  (true, cpu)

-- cpu.c:4615  CB 0xF8 (- - - -) 2M
def set_7_b (t : MemoryTables D) (cpu : CPU D) : Bool × CPU D :=
  let cpu := { cpu with reg := { cpu.reg with B := cpu.reg.B ||| BIT_7_MASK } }
  (true, cpu)

-- cpu.c:4620  CB 0xF9 (- - - -) 2M
def set_7_c (t : MemoryTables D) (cpu : CPU D) : Bool × CPU D :=
  let cpu := { cpu with reg := { cpu.reg with C := cpu.reg.C ||| BIT_7_MASK } }
  (true, cpu)

-- cpu.c:4625  CB 0xFA (- - - -) 2M
def set_7_d (t : MemoryTables D) (cpu : CPU D) : Bool × CPU D :=
  let cpu := { cpu with reg := { cpu.reg with D := cpu.reg.D ||| BIT_7_MASK } }
  (true, cpu)

-- cpu.c:4630  CB 0xFB (- - - -) 2M
def set_7_e (t : MemoryTables D) (cpu : CPU D) : Bool × CPU D :=
  let cpu := { cpu with reg := { cpu.reg with E := cpu.reg.E ||| BIT_7_MASK } }
  (true, cpu)

-- cpu.c:4635  CB 0xFC (- - - -) 2M
def set_7_h (t : MemoryTables D) (cpu : CPU D) : Bool × CPU D :=
  let cpu := { cpu with reg := { cpu.reg with H := cpu.reg.H ||| BIT_7_MASK } }
  (true, cpu)

-- cpu.c:4640  CB 0xFD (- - - -) 2M
def set_7_l (t : MemoryTables D) (cpu : CPU D) : Bool × CPU D :=
  let cpu := { cpu with reg := { cpu.reg with L := cpu.reg.L ||| BIT_7_MASK } }
  (true, cpu)

-- cpu.c:4645  CB 0xFE (- - - -) 4M
def set_7_hl (t : MemoryTables D) (cpu : CPU D) : Bool × CPU D :=
  match cpu.ins.duration with
  | 1 => (false, cpu)
  | 2 =>
    let cpu := { cpu with ins := { cpu.ins with address := getDR cpu .HL_REG } }
    let cpu := { cpu with ins := { cpu.ins with low := read_memory t cpu.mem cpu.ins.address } }
    (false, cpu)
  | 3 =>
    let result := cpu.ins.low ||| BIT_7_MASK
    let cpu := { cpu with mem := write_memory t cpu.mem cpu.ins.address result }
    (true, cpu)
  | _ => (true, cpu)

-- cpu.c:4665  CB 0xFF (- - - -) 2M
def set_7_a (t : MemoryTables D) (cpu : CPU D) : Bool × CPU D :=
  let cpu := { cpu with reg := { cpu.reg with A := cpu.reg.A ||| BIT_7_MASK } }
  (true, cpu)

/-- `prefix_opcode_table` (cpu.c:4671), entry `i` at index `i`. -/
def prefix_opcode_table (D : Type) : List (OpcodeHandler D) :=
  [rlc_b, rlc_c, rlc_d, rlc_e, rlc_h, rlc_l, rlc_hl, rlc_a, rrc_b, rrc_c, rrc_d, rrc_e, rrc_h, rrc_l, rrc_hl, rrc_a,
   rl_b, rl_c, rl_d, rl_e, rl_h, rl_l, rl_hl, rl_a, rr_b, rr_c, rr_d, rr_e, rr_h, rr_l, rr_hl, rr_a,
   sla_b, sla_c, sla_d, sla_e, sla_h, sla_l, sla_hl, sla_a, sra_b, sra_c, sra_d, sra_e, sra_h, sra_l, sra_hl, sra_a,
   swap_b, swap_c, swap_d, swap_e, swap_h, swap_l, swap_hl, swap_a, srl_b, srl_c, srl_d, srl_e, srl_h, srl_l, srl_hl, srl_a,
   bit_0_b, bit_0_c, bit_0_d, bit_0_e, bit_0_h, bit_0_l, bit_0_hl, bit_0_a, bit_1_b, bit_1_c, bit_1_d, bit_1_e, bit_1_h, bit_1_l, bit_1_hl, bit_1_a,
   bit_2_b, bit_2_c, bit_2_d, bit_2_e, bit_2_h, bit_2_l, bit_2_hl, bit_2_a, bit_3_b, bit_3_c, bit_3_d, bit_3_e, bit_3_h, bit_3_l, bit_3_hl, bit_3_a,
   bit_4_b, bit_4_c, bit_4_d, bit_4_e, bit_4_h, bit_4_l, bit_4_hl, bit_4_a, bit_5_b, bit_5_c, bit_5_d, bit_5_e, bit_5_h, bit_5_l, bit_5_hl, bit_5_a,
   bit_6_b, bit_6_c, bit_6_d, bit_6_e, bit_6_h, bit_6_l, bit_6_hl, bit_6_a, bit_7_b, bit_7_c, bit_7_d, bit_7_e, bit_7_h, bit_7_l, bit_7_hl, bit_7_a,
   res_0_b, res_0_c, res_0_d, res_0_e, res_0_h, res_0_l, res_0_hl, res_0_a, res_1_b, res_1_c, res_1_d, res_1_e, res_1_h, res_1_l, res_1_hl, res_1_a,
   res_2_b, res_2_c, res_2_d, res_2_e, res_2_h, res_2_l, res_2_hl, res_2_a, res_3_b, res_3_c, res_3_d, res_3_e, res_3_h, res_3_l, res_3_hl, res_3_a,
   res_4_b, res_4_c, res_4_d, res_4_e, res_4_h, res_4_l, res_4_hl, res_4_a, res_5_b, res_5_c, res_5_d, res_5_e, res_5_h, res_5_l, res_5_hl, res_5_a,
   res_6_b, res_6_c, res_6_d, res_6_e, res_6_h, res_6_l, res_6_hl, res_6_a, res_7_b, res_7_c, res_7_d, res_7_e, res_7_h, res_7_l, res_7_hl, res_7_a,
   set_0_b, set_0_c, set_0_d, set_0_e, set_0_h, set_0_l, set_0_hl, set_0_a, set_1_b, set_1_c, set_1_d, set_1_e, set_1_h, set_1_l, set_1_hl, set_1_a,
   set_2_b, set_2_c, set_2_d, set_2_e, set_2_h, set_2_l, set_2_hl, set_2_a, set_3_b, set_3_c, set_3_d, set_3_e, set_3_h, set_3_l, set_3_hl, set_3_a,
   set_4_b, set_4_c, set_4_d, set_4_e, set_4_h, set_4_l, set_4_hl, set_4_a, set_5_b, set_5_c, set_5_d, set_5_e, set_5_h, set_5_l, set_5_hl, set_5_a,
   set_6_b, set_6_c, set_6_d, set_6_e, set_6_h, set_6_l, set_6_hl, set_6_a, set_7_b, set_7_c, set_7_d, set_7_e, set_7_h, set_7_l, set_7_hl, set_7_a]

/-! ## Instruction sequencing (cpu.c:4947-5046) -/

/-- The handler behind a function pointer stored in `ins.handler`. -/
def dispatch (h : HandlerRef) : OpcodeHandler D :=
  match h with
  | .main opcode => (opcode_table D).getD opcode nop
  | .cb opcode => (prefix_opcode_table D).getD opcode nop
  | .int_exec => int_exec

/-- `reset_ins` (cpu.c:4947); `handler = nop` is entry 0x00 of `opcode_table`;
`cb_prefixed` is not touched. -/
def reset_ins (cpu : CPU D) : CPU D :=
  { cpu with ins := { cpu.ins with
      address := cpu.reg.PC, duration := 0, length := 1, low := 0, high := 0,
      opcode := 0, executed := false, handler := .main 0x00 } }

/-- `request_interrupt` (cpu.c:4962). -/
def request_interrupt (t : MemoryTables D) (cpu : CPU D) (interrupt : Nat) : CPU D :=
  let byte := (cpu.mem.memory t.IFR ||| interrupt) % 256
  { cpu with mem := write_memory t cpu.mem t.IFR byte }

/-- `service_interrupts` (cpu.c:4968). -/
def service_interrupts (t : MemoryTables D) (cpu : CPU D) : Bool × CPU D :=
  let pending := get_pending_interrupts t cpu
  if (!cpu.ime) || decide (pending = 0) then (false, cpu)
  else
    let cpu := { cpu with ime := false }
    let cpu := reset_ins cpu
    let cpu := { cpu with ins := { cpu.ins with handler := .int_exec } }
    let cpu := encode_interrupt cpu pending
    (true, cpu)

/-- `check_pending_interrupts` (cpu.c:4983). -/
def check_pending_interrupts (t : MemoryTables D) (cpu : CPU D) : CPU D :=
  if cpu.halted then
    let pending := get_pending_interrupts t cpu
    { cpu with halted := decide (pending = 0) }
  else cpu

/-- `next_ins` (cpu.c:4992). -/
def next_ins (t : MemoryTables D) (cpu : CPU D) : CPU D :=
  let cpu := reset_ins cpu
  let r := fetch t cpu
  let cpu := { r.2 with ins := { r.2.ins with opcode := r.1 } }
  if cpu.ins.cb_prefixed then
    { cpu with ins := { cpu.ins with handler := .cb cpu.ins.opcode, cb_prefixed := false } }
  else
    { cpu with ins := { cpu.ins with handler := .main cpu.ins.opcode } }

/-- `check_ins` (cpu.c:5007). -/
def check_ins (t : MemoryTables D) (cpu : CPU D) : CPU D :=
  if cpu.ins.executed then
    if cpu.ins.cb_prefixed then
      next_ins t cpu
    else
      let r := service_interrupts t cpu
      if r.1 then r.2 else next_ins t r.2
  else cpu

/-- `execute_ins` (cpu.c:5023). -/
def execute_ins (t : MemoryTables D) (cpu : CPU D) : CPU D :=
  let cpu := { cpu with ins := { cpu.ins with duration := (cpu.ins.duration + 1) % 256 } }
  let r := dispatch cpu.ins.handler t cpu
  let cpu := { r.2 with ins := { r.2.ins with executed := r.1 } }
  if cpu.ime_scheduled && cpu.ins.executed then
    let cpu : CPU D := { cpu with ime_delay := (cpu.ime_delay + 0xFF) % 256 }
    if cpu.ime_delay = 0 then
      { cpu with ime := true, ime_scheduled := false }
    else cpu
  else cpu

/-- `machine_cycle` (cpu.c:5040). -/
def machine_cycle (t : MemoryTables D) (cpu : CPU D) : CPU D :=
  let cpu := check_pending_interrupts t cpu
  if (!cpu.running) || cpu.halted then cpu
  else
    let cpu := check_ins t cpu
    execute_ins t cpu


/-! ## Frame predicates -/

/-- The low nibble of the flag register is zero. -/
def FLow (cpu : CPU D) : Prop := cpu.reg.F &&& 0x0F = 0

/-- Two states agree on `ime`, `ime_scheduled` and `ime_delay`. -/
def SameIme (a b : CPU D) : Prop :=
  b.ime = a.ime ∧ b.ime_scheduled = a.ime_scheduled ∧ b.ime_delay = a.ime_delay

/-- `AllFrom P k l`: `P` holds of every handler of the list `l` together with
its index, the first index being `k`. -/
def AllFrom (P : Nat → OpcodeHandler D → Prop) : Nat → List (OpcodeHandler D) → Prop
  | _, [] => True
  | k, h :: l => P k h ∧ AllFrom P (k + 1) l

/-! ## Start-up values (`src/core/emulator.c`) -/

/-- The `CPU Values` block of `dmg_bios` (emulator.c:29-41): IE and IF are
written through the bus, the register file receives the post-boot values. -/
def dmg_bios_cpu_values (t : MemoryTables D) (cpu : CPU D) : CPU D :=
  let cpu := { cpu with mem := write_memory t cpu.mem t.IER 0x00 }
  let cpu := { cpu with mem := write_memory t cpu.mem t.IFR 0x00 }
  { cpu with reg := { cpu.reg with
      PC := 0x0100, SP := 0xFFFE, A := 0x01, F := 0xB0, B := 0x00, C := 0x13,
      D := 0x00, E := 0xD8, H := 0x01, L := 0x4D } }

/-! ## A concrete machine for evaluating the model -/

/-- A concrete instance of the bus parameters: the I/O page of `init_tables`
(`default_read` / `default_write` everywhere, `write_interrupt_flag` on IF, no
read mask), with the hardware addresses IF = 0xFF0F, IE = 0xFFFF,
KEY1 = 0xFF4D. -/
def ioTables : MemoryTables Unit :=
  { memory_read_table := fun _ => default_read
    memory_write_table := fun a =>
      if a = 0xFF0F then write_interrupt_flag 0xFF0F else default_write
    memory_mask_table := fun _ => 0
    IFR := 0xFF0F
    IER := 0xFFFF
    KEY1 := 0xFF4D }

/-- A memory holding `bytes` from address `base` on and zero elsewhere. -/
def memOf (base : Nat) (bytes : List Nat) : EmuMemory Unit :=
  { memory := fun a => if base ≤ a then bytes.getD (a - base) 0 else 0, dev := () }

/-- A running CPU at an instruction boundary with the post-boot register
values of `dmg_bios`, over the memory `mem`. -/
def bootCpu (mem : EmuMemory Unit) : CPU Unit :=
  { ime_delay := 0, ime := false, ime_scheduled := false, speed_enabled := false,
    running := true, halted := false, halt_bug_active := false,
    reg := { A := 0x01, F := 0xB0, B := 0x00, C := 0x13, D := 0x00, E := 0xD8,
             H := 0x01, L := 0x4D, PC := 0x0100, SP := 0xFFFE },
    ins := { address := 0x0100, duration := 0, length := 1, low := 0, high := 0,
             opcode := 0, executed := true, cb_prefixed := false, handler := .main 0x00 },
    cart_is_gbc := false, mem := mem }

/-! ## Events on the interrupt-flag register -/

/-- What can reach the IF byte after load: a guest write to IF
(`write_memory(IFR, value)`), an interrupt request (`request_interrupt`), the
last m-cycle of an interrupt service (`int_exec` with `duration = 5`, for any
latched code `low` and vector `address`), and a bus write to another address. -/
inductive IFEvent where
  | guest_write (value : Nat)
  | request (interrupt : Nat)
  | service (low : Nat) (address : Nat)
  | other_write (address : Nat) (value : Nat)

/-- The effect of one event on the machine. -/
def apply_if_event (t : MemoryTables D) (cpu : CPU D) (e : IFEvent) : CPU D :=
  match e with
  | .guest_write value => { cpu with mem := write_memory t cpu.mem t.IFR value }
  | .request interrupt => request_interrupt t cpu interrupt
  | .service low address =>
    (int_exec t { cpu with ins := { cpu.ins with duration := 5, low := low, address := address } }).2
  | .other_write address value => { cpu with mem := write_memory t cpu.mem address value }

/-- The effect of a sequence of events, first event first. -/
def run_if_events (t : MemoryTables D) (cpu : CPU D) (events : List IFEvent) : CPU D :=
  events.foldl (apply_if_event t) cpu

/-- An event writes to the bus only at IF, or at an address whose write
handler leaves the IF byte alone. -/
def if_event_ok (t : MemoryTables D) (e : IFEvent) : Prop :=
  match e with
  | .other_write address _ =>
    ∀ (mem : EmuMemory D) (value : Nat),
      (t.memory_write_table address mem address value).memory t.IFR = mem.memory t.IFR
  | _ => True

/-! ## Flag bytes -/

/-- The flag byte holding exactly the given Z, N, H, C flags (bits 7..4) and a
zero low nibble. -/
def flags_byte (z n h c : Bool) : Nat :=
  (if z then ZERO_FLAG else 0) ||| (if n then SUBTRACT_FLAG else 0) |||
    (if h then HALF_CARRY_FLAG else 0) ||| (if c then CARRY_FLAG else 0)

/-- The value `set_flag` stores in `F` when the register holds `f`. -/
def flag_value (f : Nat) (is_set : Bool) (flag_mask : Nat) : Nat :=
  (if is_set then f ||| flag_mask else f &&& (0xFF ^^^ flag_mask)) &&& 0xF0

/-! ## Packed BCD -/

/-- The packed-BCD byte of a number below 100. -/
def to_bcd (n : Nat) : Nat := (n / 10) * 16 + n % 10

/-- The number a packed-BCD byte stands for. -/
def from_bcd (a : Nat) : Nat := (a / 16) * 10 + a % 16

/-- Both nibbles of the byte are decimal digits. -/
def valid_bcd (a : Nat) : Prop := a / 16 ≤ 9 ∧ a % 16 ≤ 9

/-- The concrete CPU with accumulator `a` and flag register `f`. -/
def afCpu (a f : Nat) : CPU Unit :=
  { bootCpu (memOf 0 []) with reg := { (bootCpu (memOf 0 [])).reg with A := a, F := f } }

/-! ## Register widths -/

/-- The memory `mem` with the byte at `address` replaced by `value`. -/
def poke (mem : EmuMemory Unit) (address value : Nat) : EmuMemory Unit :=
  { mem with memory := fun a => if a = address then value else mem.memory a }

/-- The state after `n` calls of `machine_cycle`. -/
def machine_cycles (t : MemoryTables D) (n : Nat) (cpu : CPU D) : CPU D :=
  match n with
  | 0 => cpu
  | n + 1 => machine_cycles t n (machine_cycle t cpu)

/-- The number of m-cycles the handler `h` consumes from the state `cpu`: it is
called once per m-cycle with `ins.duration` incremented before each call, as
`execute_ins` does, until it reports completion; `fuel` bounds the number of
calls and `n` counts the calls already made. -/
def handler_cycles (h : OpcodeHandler D) (t : MemoryTables D) (fuel : Nat) (cpu : CPU D)
    (n : Nat) : Option (Nat × CPU D) :=
  match fuel with
  | 0 => none
  | fuel + 1 =>
    let cpu := { cpu with ins := { cpu.ins with duration := (cpu.ins.duration + 1) % 256 } }
    let r := h t cpu
    if r.1 then some (n + 1, r.2) else handler_cycles h t fuel r.2 (n + 1)

/-- A machine with IME = 0 at the program `HALT; INC A` (0x76, 0x3C at 0x0100)
with the V-blank interrupt requested and enabled (IF = 0xE1, IE = 0x01). -/
def haltProg : CPU Unit :=
  bootCpu (poke (poke (memOf 0x100 [0x76, 0x3C]) 0xFF0F 0xE1) 0xFFFF 0x01)

/-- The machine of `haltProg` with nothing requested (IF = 0xE0), halted. -/
def haltedCpu : CPU Unit :=
  { bootCpu (poke (poke (memOf 0x100 [0x76, 0x3C]) 0xFF0F 0xE0) 0xFFFF 0x01) with
    halted := true }

/-- A running machine at an instruction boundary with IME = 1, the V-blank
interrupt requested and enabled (IF = 0xE1, IE = 0x01), and the given PC and
SP. -/
def serviceCpu (pc sp : Nat) : CPU Unit :=
  { bootCpu (poke (poke (memOf 0 []) 0xFF0F 0xE1) 0xFFFF 0x01) with
    ime := true
    reg := { (bootCpu (memOf 0 [])).reg with PC := pc, SP := sp } }

/-- The booted machine (IME = 0, V-blank requested and enabled) at a program
placed at 0x0100. -/
def progCpu (bytes : List Nat) : CPU Unit :=
  bootCpu (poke (poke (memOf 0x100 bytes) 0xFF0F 0xE1) 0xFFFF 0x01)

/-- A booted machine with a CGB cartridge at the program `STOP 00`, in the
given speed mode and with the given byte in KEY1 (0xFF4D). -/
def stopCpu (speed : Bool) (key1 : Nat) : CPU Unit :=
  { bootCpu (poke (memOf 0x100 [0x10, 0x00, 0x00]) 0xFF4D key1) with
    cart_is_gbc := true, speed_enabled := speed }

/-! ## Cartridge (`src/core/cart.c`, `include/core/cart.h`) -/

abbrev OPEN_BUS : Nat := 0xFF
abbrev LOWER_2_MASK : Nat := 0x03
abbrev LOWER_6_MASK : Nat := 0x3F
abbrev LOWER_7_MASK : Nat := 0x7F
abbrev LOWER_14_MASK : Nat := 0x3FFF
abbrev BIT_10_MASK : Nat := 0x0400
abbrev BIT_11_MASK : Nat := 0x0800

abbrev ROM_BANK_SIZE : Nat := 0x4000
abbrev RAM_BANK_SIZE : Nat := 0x2000
abbrev ROM_MODE : Nat := 0x00
abbrev RAM_MODE : Nat := 0x01
abbrev RTC_MODE : Nat := 0x02

abbrev COLOR_MODE_ENABLE_ADDRESS : Nat := 0x0143
abbrev NEW_PUBLISHER_ADDRESS : Nat := 0x0144
abbrev MBC_SCHEMA_ADDRESS : Nat := 0x0147
abbrev DESTINATION_ADDRESS : Nat := 0x014A
abbrev OLD_PUBLISHER_ADDRESS : Nat := 0x014B
abbrev VERSION_ADDRESS : Nat := 0x014C
abbrev CHECKSUM_ADDRESS : Nat := 0x014D
abbrev ROM_SETTINGS_ADDRESS : Nat := 0x0148
abbrev RAM_SETTINGS_ADDRESS : Nat := 0x0149

/-- Modelled from the spec: `EXT_RAM_START` is a constant of `core/mmu.h`, a
header that is not among the sources; the spec (section 4.A) places external
RAM at 0xA000-0xBFFF. -/
abbrev EXT_RAM_START : Nat := 0xA000

/-- The subtraction `a - b` of C integers converted to `uint16_t`. -/
def sub_u16 (a b : Nat) : Nat :=
  if b ≤ a then (a - b) % 65536 else (65536 - (b - a) % 65536) % 65536

/-- The subtraction `a - b` of C integers converted to `uint32_t`. -/
def sub_u32 (a b : Nat) : Nat :=
  if b ≤ a then (a - b) % 4294967296 else (4294967296 - (b - a) % 4294967296) % 4294967296

/-- The functions a `cartridge_reader` / `cartridge_writer` pointer can hold:
the handler pair of one of the five mappers, or `unset` when `encode_cartridge`
left the pointer as `malloc` returned it. -/
inductive MapperRef where
  | rom_only
  | mbc1
  | mbc2
  | mbc3
  | mbc5
  | unset
  deriving DecidableEq, Repr

/-- `Header` of cart.h (the title string is left out). -/
structure Header where
  cgb_code : Nat
  nl_code : Nat
  cart_code : Nat
  rom_code : Nat
  ram_code : Nat
  dest_code : Nat
  ol_code : Nat
  version : Nat
  checksum : Nat

/-- `RTCC` of cart.h. -/
structure RTCC where
  live_s : Nat
  live_m : Nat
  live_h : Nat
  live_dl : Nat
  live_dh : Nat
  rtc_s : Nat
  rtc_m : Nat
  rtc_h : Nat
  rtc_dl : Nat
  rtc_dh : Nat
  prev_latch_value : Nat

/-- `Cartridge` of cart.h. `rom` and `ram` are the contents of the two heap
buffers, `latch_prev` is the function-static `prev` of `latch_clock`; the file
names are left out. -/
structure Cartridge where
  cartridge_reader : MapperRef
  cartridge_writer : MapperRef
  upper_bank_enabled : Bool
  ram_enabled : Bool
  bios_locked : Bool
  is_gbc : Bool
  mode : Nat
  lower : Nat
  upper : Nat
  mbc5_upper : Nat
  ram_bank_quantity : Nat
  rom_bank_quantity : Nat
  rom_bank_mask : Nat
  ram_size : Nat
  clock : RTCC
  header : Header
  rom : Nat → Nat
  ram : Nat → Nat
  file_size : Nat
  latch_prev : Nat

/-- `encode_header` (cart.c:163). -/
def encode_header (header : Header) (rom : Nat → Nat) : Header :=
  { header with
    cart_code := rom MBC_SCHEMA_ADDRESS
    cgb_code := rom COLOR_MODE_ENABLE_ADDRESS
    checksum := rom CHECKSUM_ADDRESS
    dest_code := rom DESTINATION_ADDRESS
    nl_code := rom NEW_PUBLISHER_ADDRESS
    ol_code := rom OLD_PUBLISHER_ADDRESS
    version := rom VERSION_ADDRESS
    rom_code := rom ROM_SETTINGS_ADDRESS
    ram_code := rom RAM_SETTINGS_ADDRESS }

/-- `get_address_code` (cart.c:179); the result is a `uint8_t`. -/
def get_address_code (address : Nat) : Nat :=
  (address >>> 13) % 256

/-- `read_rom` (cart.c:184); `bank` is a `uint16_t`, `offset` a `uint32_t`. -/
def read_rom (cart : Cartridge) (bank : Nat) (address : Nat) : Nat :=
  let bank := bank &&& cart.rom_bank_mask
  let offset := (bank * ROM_BANK_SIZE) % 4294967296
  cart.rom ((offset + address) % 4294967296)

/-- `read_ram` (cart.c:191); `bank` is a `uint8_t`. -/
def read_ram (cart : Cartridge) (bank : Nat) (address : Nat) : Nat :=
  if !cart.ram_enabled then OPEN_BUS
  else
    let index := sub_u32 address EXT_RAM_START
    let offset := ((bank % 256) * RAM_BANK_SIZE) % 4294967296
    let index := (index + offset) % 4294967296
    cart.ram (index % cart.ram_size)

/-- `write_ram` (cart.c:204); `bank` is a `uint16_t`. -/
def write_ram (cart : Cartridge) (bank : Nat) (address : Nat) (value : Nat) : Cartridge :=
  if !cart.ram_enabled then cart
  else
    let index := sub_u32 address EXT_RAM_START
    let offset := ((bank % 65536) * RAM_BANK_SIZE) % 4294967296
    let index := (index + offset) % 4294967296
    { cart with ram := fun i => if i = index % cart.ram_size then value else cart.ram i }

/-- `read_rom_only` (cart.c:220). -/
def read_rom_only (cart : Cartridge) (address : Nat) : Nat :=
  match get_address_code address with
  | 0 => read_rom cart 0 address
  | 1 => read_rom cart 0 address
  | 2 => read_rom cart 1 (sub_u16 address ROM_BANK_SIZE)
  | 3 => read_rom cart 1 (sub_u16 address ROM_BANK_SIZE)
  | _ => OPEN_BUS

/-- `write_rom_only` (cart.c:236). -/
def write_rom_only (cart : Cartridge) (address : Nat) (value : Nat) : Cartridge :=
  cart

/-- `rom_bank_sel_mbc1` (cart.c:243); `bank` is a `uint8_t`. -/
def rom_bank_sel_mbc1 (cart : Cartridge) : Nat :=
  let bank := cart.lower
  let bank := bank &&& LOWER_5_MASK
  let bank := if bank = 0 then 1 else bank
  let bank := (bank ||| (cart.upper <<< 5)) % 256
  let bank := if bank ≥ cart.rom_bank_quantity then bank &&& cart.rom_bank_mask else bank
  bank

/-- `read_mbc1` (cart.c:253). -/
def read_mbc1 (cart : Cartridge) (address : Nat) : Nat :=
  match get_address_code address with
  | 0 =>
    let rom_bank :=
      if cart.upper_bank_enabled && decide (cart.mode = RAM_MODE) then (cart.upper <<< 5) % 256
      else 0
    read_rom cart rom_bank address
  | 1 =>
    let rom_bank :=
      if cart.upper_bank_enabled && decide (cart.mode = RAM_MODE) then (cart.upper <<< 5) % 256
      else 0
    read_rom cart rom_bank address
  | 2 =>
    let rom_bank := rom_bank_sel_mbc1 cart
    read_rom cart rom_bank (sub_u16 address ROM_BANK_SIZE)
  | 3 =>
    let rom_bank := rom_bank_sel_mbc1 cart
    read_rom cart rom_bank (sub_u16 address ROM_BANK_SIZE)
  | 5 =>
    let ram_bank := if cart.mode = RAM_MODE then cart.upper else 0
    read_ram cart ram_bank address
  | _ => OPEN_BUS

/-- `write_mbc1` (cart.c:278). -/
def write_mbc1 (cart : Cartridge) (address : Nat) (value : Nat) : Cartridge :=
  match get_address_code address with
  | 0 => { cart with ram_enabled := decide ((value &&& LOWER_4_MASK) = 0x0A) }
  | 1 => { cart with lower := value &&& LOWER_5_MASK }
  | 2 => { cart with upper := value &&& LOWER_2_MASK }
  | 3 => { cart with mode := value &&& BIT_0_MASK }
  | 5 =>
    let ram_bank := if cart.mode = RAM_MODE then cart.upper else 0
    write_ram cart ram_bank address value
  | _ => cart

/-- `read_ram_mbc2` (cart.c:307); `address` is a `uint16_t`. -/
def read_ram_mbc2 (cart : Cartridge) (address : Nat) : Nat :=
  if !cart.ram_enabled then OPEN_BUS
  else
    let address := sub_u16 address EXT_RAM_START
    let address := address % 0x0200
    ((cart.ram address &&& 0x0F) ||| 0xF0) % 256

/-- `write_ram_mbc2` (cart.c:316). -/
def write_ram_mbc2 (cart : Cartridge) (address : Nat) (value : Nat) : Cartridge :=
  if !cart.ram_enabled then cart
  else
    let address := sub_u16 address EXT_RAM_START
    let address := address % 0x0200
    { cart with ram := fun i => if i = address then value else cart.ram i }

/-- `read_mbc2` (cart.c:325). -/
def read_mbc2 (cart : Cartridge) (address : Nat) : Nat :=
  match get_address_code address with
  | 0 => read_rom cart 0 address
  | 1 => read_rom cart 0 address
  | 2 =>
    let rom_bank := cart.lower
    let rom_bank := if rom_bank = 0 then 1 else rom_bank
    read_rom cart rom_bank (sub_u16 address ROM_BANK_SIZE)
  | 3 =>
    let rom_bank := cart.lower
    let rom_bank := if rom_bank = 0 then 1 else rom_bank
    read_rom cart rom_bank (sub_u16 address ROM_BANK_SIZE)
  | 4 => OPEN_BUS
  | 5 => read_ram_mbc2 cart address
  | _ => OPEN_BUS

/-- `write_mbc2` (cart.c:349); cases 0 and 1 share one body. -/
def write_mbc2 (cart : Cartridge) (address : Nat) (value : Nat) : Cartridge :=
  match get_address_code address with
  | 0 =>
    if (address &&& 0x0100) = 0 then
      { cart with ram_enabled := decide ((value &&& LOWER_4_MASK) = 0x0A) }
    else
      let value := value &&& LOWER_4_MASK
      { cart with lower := value }
  | 1 =>
    if (address &&& 0x0100) = 0 then
      { cart with ram_enabled := decide ((value &&& LOWER_4_MASK) = 0x0A) }
    else
      let value := value &&& LOWER_4_MASK
      { cart with lower := value }
  | 2 => cart
  | 3 => cart
  | 4 => cart
  | 5 => write_ram_mbc2 cart address value
  | _ => cart

/-- `read_rtc` (cart.c:379). -/
def read_rtc (cart : Cartridge) (code : Nat) : Nat :=
  match code with
  | 0x08 => cart.clock.rtc_s
  | 0x09 => cart.clock.rtc_m
  | 0x0A => cart.clock.rtc_h
  | 0x0B => cart.clock.rtc_dl
  | 0x0C => cart.clock.rtc_dh
  | _ => OPEN_BUS

/-- `write_rtc` (cart.c:393). -/
def write_rtc (cart : Cartridge) (code : Nat) (value : Nat) : Cartridge :=
  match code with
  | 0x08 => { cart with clock := { cart.clock with rtc_s := value % 60 } }
  | 0x09 => { cart with clock := { cart.clock with rtc_m := value % 60 } }
  | 0x0A => { cart with clock := { cart.clock with rtc_h := value % 24 } }
  | 0x0B => { cart with clock := { cart.clock with rtc_dl := value } }
  | 0x0C => { cart with clock := { cart.clock with rtc_dh := value &&& 0xC1 } }
  | _ => cart

/-- `latch_clock` (cart.c:405); the static `prev` is `cart.latch_prev`. -/
def latch_clock (cart : Cartridge) (value : Nat) : Cartridge :=
  let triggered := decide (value = 0x01) && decide (cart.latch_prev = 0x00)
  let cart :=
    if triggered then
      { cart with clock := { cart.clock with
          rtc_s := cart.clock.live_s
          rtc_m := cart.clock.live_m
          rtc_h := cart.clock.live_h
          rtc_dl := cart.clock.live_dl } }
    else cart
  { cart with latch_prev := value }

/-- `read_mbc3` (cart.c:421). -/
def read_mbc3 (cart : Cartridge) (address : Nat) : Nat :=
  let rom_bank := 0
  match get_address_code address with
  | 0 => read_rom cart rom_bank address
  | 1 => read_rom cart rom_bank address
  | 2 =>
    let rom_bank := if cart.lower = 0 then 1 else cart.lower
    read_rom cart rom_bank (sub_u16 address ROM_BANK_SIZE)
  | 3 =>
    let rom_bank := if cart.lower = 0 then 1 else cart.lower
    read_rom cart rom_bank (sub_u16 address ROM_BANK_SIZE)
  | 5 =>
    if cart.mode = RAM_MODE then
      let bank := cart.upper
      read_ram cart bank address
    else
      let code := cart.upper
      read_rtc cart code
  | _ => OPEN_BUS

/-- `write_mbc3` (cart.c:451). -/
def write_mbc3 (cart : Cartridge) (address : Nat) (value : Nat) : Cartridge :=
  match get_address_code address with
  | 0 => { cart with ram_enabled := decide ((value &&& LOWER_4_MASK) = 0x0A) }
  | 1 => { cart with lower := value &&& LOWER_7_MASK }
  | 2 =>
    let cart := { cart with upper := value &&& LOWER_4_MASK }
    { cart with mode := if value > 0x07 then RTC_MODE else RAM_MODE }
  | 3 => latch_clock cart value
  | 5 =>
    if !cart.ram_enabled then cart
    else if cart.mode = RAM_MODE then
      let bank := cart.upper
      write_ram cart bank address value
    else
      let code := cart.upper
      write_rtc cart code value
  | _ => cart

/-- `read_mbc5` (cart.c:492); `rom_bank` is a `uint16_t`. -/
def read_mbc5 (cart : Cartridge) (address : Nat) : Nat :=
  match get_address_code address with
  | 0 => read_rom cart 0 address
  | 1 => read_rom cart 0 address
  | 2 =>
    let rom_bank := ((cart.mbc5_upper <<< 8) ||| cart.lower) % 65536
    read_rom cart rom_bank (sub_u16 address ROM_BANK_SIZE)
  | 3 =>
    let rom_bank := ((cart.mbc5_upper <<< 8) ||| cart.lower) % 65536
    read_rom cart rom_bank (sub_u16 address ROM_BANK_SIZE)
  | 4 => OPEN_BUS
  | 5 =>
    let ram_bank := cart.upper
    read_ram cart ram_bank address
  | _ => OPEN_BUS

/-- `write_mbc5` (cart.c:516). -/
def write_mbc5 (cart : Cartridge) (address : Nat) (value : Nat) : Cartridge :=
  match get_address_code address with
  | 0 => { cart with ram_enabled := decide ((value &&& LOWER_4_MASK) = 0x0A) }
  | 1 =>
    if address ≤ 0x2FFF then { cart with lower := value }
    else { cart with mbc5_upper := value &&& BIT_0_MASK }
  | 2 => { cart with upper := value &&& LOWER_4_MASK }
  | 5 =>
    let ram_bank := cart.upper
    write_ram cart ram_bank address value
  | _ => cart

/-- `read_cartridge` (cart.c:575): the call through `cartridge_reader`; there is
no result when the pointer was never set. -/
def read_cartridge (cart : Cartridge) (address : Nat) : Option Nat :=
  match cart.cartridge_reader with
  | .rom_only => some (read_rom_only cart address)
  | .mbc1 => some (read_mbc1 cart address)
  | .mbc2 => some (read_mbc2 cart address)
  | .mbc3 => some (read_mbc3 cart address)
  | .mbc5 => some (read_mbc5 cart address)
  | .unset => none

/-- `rtc_tick_day` (cart.c:580). -/
def rtc_tick_day (cart : Cartridge) : Cartridge :=
  let cart := { cart with clock := { cart.clock with live_dl := (cart.clock.live_dl + 1) % 256 } }
  if cart.clock.live_dl ≠ 0 then cart
  else
    let upper_bit := decide ((cart.clock.live_dh &&& BIT_0_MASK) ≠ 0)
    { cart with clock := { cart.clock with
        live_dh :=
          if upper_bit then (cart.clock.live_dh ||| BIT_7_MASK) % 256
          else (cart.clock.live_dh ||| BIT_0_MASK) % 256 } }

/-- `rtc_tick_hour` (cart.c:592). -/
def rtc_tick_hour (cart : Cartridge) : Cartridge :=
  let cart := { cart with clock := { cart.clock with live_h := (cart.clock.live_h + 1) % 24 } }
  if cart.clock.live_h = 0 then rtc_tick_day cart else cart

/-- `rtc_tick_minute` (cart.c:600). -/
def rtc_tick_minute (cart : Cartridge) : Cartridge :=
  let cart := { cart with clock := { cart.clock with live_m := (cart.clock.live_m + 1) % 60 } }
  if cart.clock.live_m = 0 then rtc_tick_hour cart else cart

/-- `rtc_tick_second` (cart.c:608). -/
def rtc_tick_second (cart : Cartridge) : Cartridge :=
  let halted := decide ((cart.clock.live_dh &&& BIT_6_MASK) ≠ 0)
  if halted then cart
  else
    let cart := { cart with clock := { cart.clock with live_s := (cart.clock.live_s + 1) % 60 } }
    if cart.clock.live_s = 0 then rtc_tick_minute cart else cart

/-- `write_cartridge` (cart.c:631): the call through `cartridge_writer`. -/
def write_cartridge (cart : Cartridge) (address : Nat) (value : Nat) : Option Cartridge :=
  match cart.cartridge_writer with
  | .rom_only => some (write_rom_only cart address value)
  | .mbc1 => some (write_mbc1 cart address value)
  | .mbc2 => some (write_mbc2 cart address value)
  | .mbc3 => some (write_mbc3 cart address value)
  | .mbc5 => some (write_mbc5 cart address value)
  | .unset => none

/-- The loop of `compute_bank_mask` (cart.c:643): `fuel` bounds the number of
tests of the loop condition, `none` means the bound was reached. -/
def compute_bank_mask_loop (fuel : Nat) (quantity : Nat) (mask : Nat) : Option Nat :=
  match fuel with
  | 0 => none
  | fuel + 1 =>
    if (quantity &&& mask) ≠ quantity then
      compute_bank_mask_loop fuel quantity (((mask <<< 1) + 1) % 256)
    else some mask

/-- `compute_bank_mask` (cart.c:638); the parameter is a `uint8_t`. -/
def compute_bank_mask (fuel : Nat) (quantity : Nat) : Option Nat :=
  let mask := 0x00
  let quantity := (quantity + 0xFF) % 256
  compute_bank_mask_loop fuel quantity mask

/-- `encode_rom_settings` (cart.c:649). -/
def encode_rom_settings (cart : Cartridge) : Cartridge :=
  match cart.header.rom_code with
  | 0x00 => { cart with rom_bank_quantity := 2 }
  | 0x01 => { cart with rom_bank_quantity := 4 }
  | 0x02 => { cart with rom_bank_quantity := 8 }
  | 0x03 => { cart with rom_bank_quantity := 16 }
  | 0x04 => { cart with rom_bank_quantity := 32 }
  | 0x05 => { cart with rom_bank_quantity := 64 }
  | 0x06 => { cart with rom_bank_quantity := 128 }
  | 0x07 => { cart with rom_bank_quantity := 256 }
  | 0x08 => { cart with rom_bank_quantity := 512 }
  | _ => { cart with rom_bank_quantity := 2 }

/-- `encode_ram_settings` (cart.c:666). -/
def encode_ram_settings (cart : Cartridge) : Cartridge :=
  match cart.header.ram_code with
  | 0x00 => { cart with ram_bank_quantity := 0 }
  | 0x01 => { cart with ram_bank_quantity := 0 }
  | 0x02 => { cart with ram_bank_quantity := 1 }
  | 0x03 => { cart with ram_bank_quantity := 4 }
  | 0x04 => { cart with ram_bank_quantity := 16 }
  | 0x05 => { cart with ram_bank_quantity := 8 }
  | _ => { cart with ram_bank_quantity := 1 }

/-- The `switch` of `encode_cartridge` (cart.c:697) on the `CartridgeCode` of
the header: the handler pair, or nothing for an unlisted code (the `default`
case returns with the pointers as they were). -/
def mapper_of_code (cart_code : Nat) : Option MapperRef :=
  match cart_code with
  | 0x00 => some .rom_only
  | 0x01 => some .mbc1
  | 0x02 => some .mbc1
  | 0x03 => some .mbc1
  | 0x05 => some .mbc2
  | 0x06 => some .mbc2
  | 0x11 => some .mbc3
  | 0x12 => some .mbc3
  | 0x13 => some .mbc3
  | 0x0F => some .mbc3
  | 0x10 => some .mbc3
  | 0x19 => some .mbc5
  | 0x1A => some .mbc5
  | 0x1B => some .mbc5
  | 0x1C => some .mbc5
  | 0x1D => some .mbc5
  | 0x1E => some .mbc5
  | _ => none

/-- `encode_cartridge` (cart.c:680); the argument of `compute_bank_mask` is
converted to `uint8_t`, and there is no result when its loop runs out of
`fuel`. -/
def encode_cartridge (fuel : Nat) (cart : Cartridge) : Option Cartridge :=
  let cart := { cart with header := encode_header cart.header cart.rom }
  let cart := encode_rom_settings cart
  let cart := encode_ram_settings cart
  match compute_bank_mask fuel (cart.rom_bank_quantity % 256) with
  | none => none
  | some mask =>
    let cart := { cart with rom_bank_mask := mask }
    let cart := { cart with mode := ROM_MODE }
    let cart := { cart with ram_enabled := false }
    let cart := { cart with bios_locked := false }
    let cart := { cart with
      is_gbc := decide (cart.header.cgb_code = 0x80) || decide (cart.header.cgb_code = 0xC0) }
    let cart := { cart with lower := 1 }
    let cart := { cart with upper := 0 }
    let cart := { cart with mbc5_upper := 0 }
    let cart := { cart with upper_bank_enabled := decide (cart.file_size ≥ 0x100000) }
    match mapper_of_code cart.header.cart_code with
    | some m => some { cart with cartridge_reader := m, cartridge_writer := m }
    | none => some cart

/-- `init_ram` (cart.c:741); `ram_bank_quantity` is a `uint8_t`, the buffer is
zeroed by `memset`. -/
def init_ram (cart : Cartridge) : Cartridge :=
  let cart := { cart with
    ram_bank_quantity := if cart.ram_bank_quantity = 0 then 1 else cart.ram_bank_quantity }
  let cart := { cart with ram_size := cart.ram_bank_quantity * RAM_BANK_SIZE }
  { cart with ram := fun _ => 0 }

/-- `init_rtcc` (cart.c:757). -/
def init_rtcc (cart : Cartridge) : Cartridge :=
  { cart with clock := { cart.clock with rtc_s := 0, rtc_m := 0, rtc_h := 0, rtc_dl := 0,
                                         rtc_dh := 0 } }

/-- `init_cartridge` (cart.c:766): `blank` is the structure as `malloc` returned
it (its fields are not initialised), `rom` and `file_size` are what
`get_rom_content` read from the file. -/
def init_cartridge (fuel : Nat) (blank : Cartridge) (rom : Nat → Nat) (file_size : Nat) :
    Option Cartridge :=
  let cart := { blank with rom := rom, file_size := file_size }
  match encode_cartridge fuel cart with
  | none => none
  | some cart =>
    let cart := init_ram cart
    let cart := init_rtcc cart
    some cart

/-! ## Concrete cartridges for evaluating the model -/

/-- A structure with every field zero and no handler set, standing for the
memory `malloc` hands to `init_cartridge`. -/
def blankCart : Cartridge :=
  { cartridge_reader := .unset, cartridge_writer := .unset, upper_bank_enabled := false,
    ram_enabled := false, bios_locked := false, is_gbc := false, mode := 0, lower := 0,
    upper := 0, mbc5_upper := 0, ram_bank_quantity := 0, rom_bank_quantity := 0,
    rom_bank_mask := 0, ram_size := 0,
    clock := { live_s := 0, live_m := 0, live_h := 0, live_dl := 0, live_dh := 0, rtc_s := 0,
               rtc_m := 0, rtc_h := 0, rtc_dl := 0, rtc_dh := 0, prev_latch_value := 0 },
    header := { cgb_code := 0, nl_code := 0, cart_code := 0, rom_code := 0, ram_code := 0,
                dest_code := 0, ol_code := 0, version := 0, checksum := 0 },
    rom := fun _ => 0, ram := fun _ => 0, file_size := 0, latch_prev := 0 }

/-- A ROM image whose header carries the given mapper, ROM-size and RAM-size
codes and in which every other byte is the number of its 16 KiB bank modulo
251 (so that banks 0 and 256 hold different bytes). -/
def romImage (cart_code rom_code ram_code : Nat) : Nat → Nat :=
  fun a =>
    if a = MBC_SCHEMA_ADDRESS then cart_code
    else if a = ROM_SETTINGS_ADDRESS then rom_code
    else if a = RAM_SETTINGS_ADDRESS then ram_code
    else (a / ROM_BANK_SIZE) % 251

/-- The cartridge `init_cartridge` builds from `romImage`, for a file of
`(2 << rom_code)` banks. -/
def cartOf (cart_code rom_code ram_code : Nat) : Cartridge :=
  (init_cartridge 16 blankCart (romImage cart_code rom_code ram_code)
    ((2 <<< rom_code) * ROM_BANK_SIZE)).getD blankCart

/-- The MBC3 cartridge of `cartOf` with the given live RTC counters. -/
def clockCart (s m h dl dh : Nat) : Cartridge :=
  { cartOf 0x10 0x00 0x03 with
    clock := { (cartOf 0x10 0x00 0x03).clock with
      live_s := s, live_m := m, live_h := h, live_dl := dl, live_dh := dh } }

/-- The cartridge with the live seconds, minutes and hours replaced. -/
def with_live_time (cart : Cartridge) (s m h : Nat) : Cartridge :=
  { cart with clock := { cart.clock with live_s := s, live_m := m, live_h := h } }

/-- The state after `n` calls of `rtc_tick_second`. -/
def rtc_ticks (n : Nat) (cart : Cartridge) : Cartridge :=
  match n with
  | 0 => cart
  | n + 1 => rtc_ticks n (rtc_tick_second cart)


/-! ## The timer (`src/core/timer.c`, `include/core/timer.h`) -/

/-- `sys_shift_table` of timer.h, indexed by the two low bits of TAC. -/
def sys_shift_table (select : Nat) : Nat :=
  [7, 1, 3, 5].getD select 0

/-- `TimaOverflowState` of timer.h. -/
inductive TimaOverflowState where
  | PRE_CYCLE_A
  | CYCLE_A
  | CYCLE_B
  | NOT_OVERFLOWING
  deriving DecidableEq, Repr

/-- The fields of `EmuTimer` (timer.h) that are the timer's own state. The
pointers `div_`, `tac`, `tma`, `tima` point at bytes of `mem->memory`
(`link_timer`), and the component pointers are the state they point to. -/
structure EmuTimer where
  sys : Nat
  tofs : TimaOverflowState
  prev_sys_bit : Bool
  prev_apu_bit : Bool
  deriving DecidableEq, Repr

/-- What timer.c uses from outside the file: the bus tables, the address
constants `DIV`, `TIMA`, `TMA`, `TAC` of `core/mmu.h` (the header is not among
the sources), the APU, PPU and DMA steps, which act on the state behind the
bus, the field `mem->hdma.bytes_transferring`, and the m-cycle of the CPU, which
can reach the timer through bus writes (`write_timer_register`). -/
structure TimerEnv (D : Type) where
  bus : MemoryTables D
  DIV : Nat
  TIMA : Nat
  TMA : Nat
  TAC : Nat
  div_apu_event : EmuMemory D → EmuMemory D
  apu_dot : EmuMemory D → EmuMemory D
  ppu_dot : EmuMemory D → Bool × EmuMemory D
  check_hdma_transfer : EmuMemory D → EmuMemory D
  check_dma_transfer : EmuMemory D → EmuMemory D
  hdma_bytes_transferring : EmuMemory D → Bool
  machine_cycle : EmuTimer × CPU D → EmuTimer × CPU D

/-- The machine as the timer sees it: the timer, the CPU with the memory behind
it, and `dots`, the function-static counter of `system_clock_pulse`. -/
structure GbcEmu (D : Type) where
  timer : EmuTimer
  cpu : CPU D
  dots : Nat

/-- A store through a pointer into `mem->memory`. -/
def store_byte (mem : EmuMemory D) (address : Nat) (value : Nat) : EmuMemory D :=
  { mem with memory := fun a => if a = address then value else mem.memory a }

/-- The store `*p = value` for a timer register pointer `p`. -/
def store_register (emu : GbcEmu D) (address : Nat) (value : Nat) : GbcEmu D :=
  { emu with cpu := { emu.cpu with mem := store_byte emu.cpu.mem address value } }

/-- `get_current_sys_bit` (timer.c:13). -/
def get_current_sys_bit (env : TimerEnv D) (emu : GbcEmu D) : Bool :=
  let select := emu.cpu.mem.memory env.TAC &&& LOWER_2_MASK
  let sys_bit := (emu.timer.sys >>> sys_shift_table select) &&& BIT_0_MASK
  decide (sys_bit ≠ 0)

/-- `get_current_apu_bit` (timer.c:20). -/
def get_current_apu_bit (emu : GbcEmu D) : Bool :=
  if emu.cpu.speed_enabled then decide (emu.timer.sys &&& BIT_11_MASK ≠ 0)
  else decide (emu.timer.sys &&& BIT_10_MASK ≠ 0)

/-- `tac_enabled` (timer.c:27). -/
def tac_enabled (env : TimerEnv D) (emu : GbcEmu D) : Bool :=
  decide (emu.cpu.mem.memory env.TAC &&& BIT_2_MASK ≠ 0)

/-- `sync_div` (timer.c:32). -/
def sync_div (env : TimerEnv D) (emu : GbcEmu D) : GbcEmu D :=
  store_register emu env.DIV ((emu.timer.sys >>> 6) &&& LOWER_BYTE_MASK)

/-- `inc_tima` (timer.c:42). -/
def inc_tima (env : TimerEnv D) (emu : GbcEmu D) : Bool × GbcEmu D :=
  let emu := store_register emu env.TIMA ((emu.cpu.mem.memory env.TIMA + 1) % 256)
  (decide (emu.cpu.mem.memory env.TIMA = 0), emu)

/-- `check_tima_overflow` (timer.c:48). -/
def check_tima_overflow (env : TimerEnv D) (emu : GbcEmu D) : GbcEmu D :=
  match emu.timer.tofs with
  | .PRE_CYCLE_A => { emu with timer := { emu.timer with tofs := .CYCLE_A } }
  | .CYCLE_A => { emu with timer := { emu.timer with tofs := .CYCLE_B } }
  | .CYCLE_B =>
    let emu := store_register emu env.TIMA (emu.cpu.mem.memory env.TMA)
    let emu := { emu with cpu := request_interrupt env.bus emu.cpu TIMER_INTERRUPT_CODE }
    { emu with timer := { emu.timer with tofs := .NOT_OVERFLOWING } }
  | .NOT_OVERFLOWING => emu

/-- `check_apu_event` (timer.c:74). -/
def check_apu_event (env : TimerEnv D) (emu : GbcEmu D) (curr_sys_bit : Bool) : GbcEmu D :=
  let emu := { emu with timer := { emu.timer with prev_sys_bit := curr_sys_bit } }
  let curr_apu_bit := get_current_apu_bit emu
  let emu :=
    if emu.timer.prev_apu_bit && !curr_apu_bit then
      { emu with cpu := { emu.cpu with mem := env.div_apu_event emu.cpu.mem } }
    else emu
  { emu with timer := { emu.timer with prev_apu_bit := curr_apu_bit } }

/-- `write_sys` (timer.c:86); `value` is a `uint16_t`. -/
def write_sys (env : TimerEnv D) (emu : GbcEmu D) (value : Nat) : Bool × GbcEmu D :=
  let emu := { emu with timer := { emu.timer with sys := value &&& LOWER_14_MASK } }
  let emu := sync_div env emu
  let curr_sys_bit := get_current_sys_bit env emu
  let r :=
    if tac_enabled env emu && emu.timer.prev_sys_bit && !curr_sys_bit then inc_tima env emu
    else (false, emu)
  let emu := check_apu_event env r.2 curr_sys_bit
  let emu := { emu with timer := { emu.timer with prev_sys_bit := curr_sys_bit } }
  (r.1, emu)

/-- `inc_sys` (timer.c:104); the argument is converted to `uint16_t`. -/
def inc_sys (env : TimerEnv D) (emu : GbcEmu D) : Bool × GbcEmu D :=
  write_sys env emu ((emu.timer.sys + 1) % 65536)

/-- `clear_sys` (timer.c:111). -/
def clear_sys (env : TimerEnv D) (emu : GbcEmu D) : GbcEmu D :=
  let r := write_sys env emu 0
  if r.1 then { r.2 with timer := { r.2.timer with tofs := .CYCLE_B } } else r.2

/-- `write_tac` (timer.c:117). -/
def write_tac (env : TimerEnv D) (emu : GbcEmu D) (value : Nat) : GbcEmu D :=
  let prev_enable := tac_enabled env emu
  let emu := store_register emu env.TAC value
  let curr_enable := tac_enabled env emu
  let curr_sys_bit := get_current_sys_bit env emu
  if prev_enable && emu.timer.prev_sys_bit then
    if !curr_enable || !curr_sys_bit then
      let r := inc_tima env emu
      if r.1 then { r.2 with timer := { r.2.timer with tofs := .CYCLE_B } } else r.2
    else emu
  else emu

/-- `write_tima` (timer.c:136). -/
def write_tima (env : TimerEnv D) (emu : GbcEmu D) (value : Nat) : GbcEmu D :=
  if emu.timer.tofs = .CYCLE_A then
    let emu := store_register emu env.TIMA value
    { emu with timer := { emu.timer with tofs := .NOT_OVERFLOWING } }
  else if emu.timer.tofs = .CYCLE_B then emu
  else store_register emu env.TIMA value

/-- `write_tma` (timer.c:150). -/
def write_tma (env : TimerEnv D) (emu : GbcEmu D) (value : Nat) : GbcEmu D :=
  store_register emu env.TMA value

/-- `write_timer_register` (timer.c:155): the `switch` over the four address
constants, any other address falls through. -/
def write_timer_register (env : TimerEnv D) (emu : GbcEmu D) (address : Nat) (value : Nat) :
    GbcEmu D :=
  if address = env.DIV then clear_sys env emu
  else if address = env.TIMA then write_tima env emu value
  else if address = env.TMA then write_tma env emu value
  else if address = env.TAC then write_tac env emu value
  else emu

/-- `system_clock_pulse` (timer.c:168); the result pairs `frame_ready` with the
state. -/
def system_clock_pulse (env : TimerEnv D) (emu : GbcEmu D) : Bool × GbcEmu D :=
  let emu := { emu with cpu := { emu.cpu with mem := env.check_hdma_transfer emu.cpu.mem } }
  let emu := { emu with cpu := { emu.cpu with mem := env.apu_dot emu.cpu.mem } }
  let p := env.ppu_dot emu.cpu.mem
  let frame_ready := p.1
  let emu := { emu with cpu := { emu.cpu with mem := p.2 } }
  let emu := { emu with dots := (emu.dots + 0xFF) % 256 }
  if emu.dots ≠ 0 then (frame_ready, emu)
  else
    let emu := { emu with dots := if emu.cpu.speed_enabled then 2 else 4 }
    let emu := { emu with cpu := { emu.cpu with mem := env.check_dma_transfer emu.cpu.mem } }
    let emu := check_tima_overflow env emu
    let emu :=
      if emu.timer.tofs = .CYCLE_B then
        store_register emu env.TIMA (emu.cpu.mem.memory env.TMA)
      else emu
    let emu :=
      if !env.hdma_bytes_transferring emu.cpu.mem then
        let r := env.machine_cycle (emu.timer, emu.cpu)
        { emu with timer := r.1, cpu := r.2 }
      else emu
    let r := inc_sys env emu
    let emu := if r.1 then { r.2 with timer := { r.2.timer with tofs := .PRE_CYCLE_A } } else r.2
    (frame_ready, emu)

/-- `init_timer` (timer.c:247). -/
def init_timer : EmuTimer :=
  { tofs := .NOT_OVERFLOWING, prev_apu_bit := false, prev_sys_bit := false, sys := 0 }

/-! ### Runs of the timer -/

/-- The state after `n` calls of `system_clock_pulse`. -/
def system_clock_pulses (env : TimerEnv D) (n : Nat) (emu : GbcEmu D) : GbcEmu D :=
  match n with
  | 0 => emu
  | n + 1 => system_clock_pulses env n (system_clock_pulse env emu).2

/-- The arguments with which the call of `system_clock_pulse` from `emu` calls
`machine_cycle` (timer.c:174-191), or `none` when it does not call it. -/
def machine_cycle_entry (env : TimerEnv D) (emu : GbcEmu D) : Option (EmuTimer × CPU D) :=
  let emu := { emu with cpu := { emu.cpu with mem := env.check_hdma_transfer emu.cpu.mem } }
  let emu := { emu with cpu := { emu.cpu with mem := env.apu_dot emu.cpu.mem } }
  let p := env.ppu_dot emu.cpu.mem
  let emu := { emu with cpu := { emu.cpu with mem := p.2 } }
  let emu := { emu with dots := (emu.dots + 0xFF) % 256 }
  if emu.dots ≠ 0 then none
  else
    let emu := { emu with dots := if emu.cpu.speed_enabled then 2 else 4 }
    let emu := { emu with cpu := { emu.cpu with mem := env.check_dma_transfer emu.cpu.mem } }
    let emu := check_tima_overflow env emu
    let emu :=
      if emu.timer.tofs = .CYCLE_B then
        store_register emu env.TIMA (emu.cpu.mem.memory env.TMA)
      else emu
    if !env.hdma_bytes_transferring emu.cpu.mem then some (emu.timer, emu.cpu) else none

/-- Bit 2 (TIMER) of the IF byte. -/
def timer_requested (env : TimerEnv D) (mem : EmuMemory D) : Bool :=
  decide (mem.memory env.bus.IFR &&& TIMER_INTERRUPT_CODE ≠ 0)

/-- The memory `m2` holds the same timer registers and the same TIMER bit of IF
as `m1`. -/
@[reducible] def same_registers (env : TimerEnv D) (m1 m2 : EmuMemory D) : Prop :=
  m2.memory env.DIV = m1.memory env.DIV ∧ m2.memory env.TIMA = m1.memory env.TIMA ∧
  m2.memory env.TMA = m1.memory env.TMA ∧ m2.memory env.TAC = m1.memory env.TAC ∧
  timer_requested env m2 = timer_requested env m1

/-- The m-cycle of the CPU from `p` leaves the timer alone: the timer's state,
its registers, the TIMER bit of IF and the speed mode are as before. -/
@[reducible] def cpu_quiet (env : TimerEnv D) (p : EmuTimer × CPU D) : Prop :=
  (env.machine_cycle p).1 = p.1 ∧ same_registers env p.2.mem (env.machine_cycle p).2.mem ∧
  (env.machine_cycle p).2.speed_enabled = p.2.speed_enabled

/-- The CPU leaves the timer alone in the pulse from `emu`, if that pulse runs
an m-cycle of the CPU at all. -/
@[reducible] def pulse_quiet (env : TimerEnv D) (emu : GbcEmu D) : Prop :=
  ∀ p ∈ machine_cycle_entry env emu, cpu_quiet env p

/-- The APU, PPU and DMA steps leave the timer registers and the TIMER bit of
IF alone. -/
def env_quiet (env : TimerEnv D) : Prop :=
  ∀ mem : EmuMemory D,
    same_registers env mem (env.div_apu_event mem) ∧
    same_registers env mem (env.apu_dot mem) ∧
    same_registers env mem (env.ppu_dot mem).2 ∧
    same_registers env mem (env.check_hdma_transfer mem) ∧
    same_registers env mem (env.check_dma_transfer mem)

/-- The five addresses the timer writes to are distinct, and bus writes to IF
are handled by `write_interrupt_flag` (`init_tables`, mmu.c). -/
def timer_wired (env : TimerEnv D) : Prop :=
  env.DIV ≠ env.TIMA ∧ env.DIV ≠ env.TMA ∧ env.DIV ≠ env.TAC ∧ env.DIV ≠ env.bus.IFR ∧
  env.TIMA ≠ env.TMA ∧ env.TIMA ≠ env.TAC ∧ env.TIMA ≠ env.bus.IFR ∧
  env.TMA ≠ env.TAC ∧ env.TMA ≠ env.bus.IFR ∧ env.TAC ≠ env.bus.IFR ∧
  env.bus.memory_write_table env.bus.IFR = write_interrupt_flag env.bus.IFR

/-- The part of the state the timer functions depend on. -/
structure TimerView where
  sys : Nat
  tofs : TimaOverflowState
  prev_sys_bit : Bool
  dots : Nat
  tima : Nat
  tma : Nat
  tac : Nat
  requested : Bool
  speed : Bool
  deriving DecidableEq, Repr

/-- The view of a state. -/
def timer_view (env : TimerEnv D) (emu : GbcEmu D) : TimerView :=
  { sys := emu.timer.sys, tofs := emu.timer.tofs, prev_sys_bit := emu.timer.prev_sys_bit,
    dots := emu.dots, tima := emu.cpu.mem.memory env.TIMA, tma := emu.cpu.mem.memory env.TMA,
    tac := emu.cpu.mem.memory env.TAC, requested := timer_requested env emu.cpu.mem,
    speed := emu.cpu.speed_enabled }

/-- What `check_tima_overflow` followed by the CYCLE_B reload of
`system_clock_pulse` (timer.c:185-188) does to the view. -/
def overflow_view (v : TimerView) : TimerView :=
  match v.tofs with
  | .PRE_CYCLE_A => { v with tofs := .CYCLE_A }
  | .CYCLE_A => { v with tofs := .CYCLE_B, tima := v.tma }
  | .CYCLE_B => { v with tofs := .NOT_OVERFLOWING, tima := v.tma, requested := true }
  | .NOT_OVERFLOWING => v

/-- What `inc_sys` followed by the PRE_CYCLE_A assignment of
`system_clock_pulse` (timer.c:193-194) does to the view. -/
def inc_sys_view (v : TimerView) : TimerView :=
  let sys := ((v.sys + 1) % 65536) &&& LOWER_14_MASK
  let curr := decide ((sys >>> sys_shift_table (v.tac &&& LOWER_2_MASK)) &&& BIT_0_MASK ≠ 0)
  let edge := decide (v.tac &&& BIT_2_MASK ≠ 0) && v.prev_sys_bit && !curr
  let tima := if edge then (v.tima + 1) % 256 else v.tima
  { v with sys := sys, prev_sys_bit := curr, tima := tima,
           tofs := if edge && decide (tima = 0) then .PRE_CYCLE_A else v.tofs }

/-- What a call of `system_clock_pulse` does to the view when nothing but the
timer touches it. -/
def pulse_view (v : TimerView) : TimerView :=
  let v := { v with dots := (v.dots + 0xFF) % 256 }
  if v.dots ≠ 0 then v
  else inc_sys_view (overflow_view { v with dots := if v.speed then 2 else 4 })

/-- The view after `n` pulses. -/
def pulses_view (n : Nat) (v : TimerView) : TimerView :=
  match n with
  | 0 => v
  | n + 1 => pulses_view n (pulse_view v)

/-- A concrete instance of the timer's surroundings: the bus of `ioTables`,
the hardware addresses DIV = 0xFF04, TIMA = 0xFF05, TMA = 0xFF06, TAC = 0xFF07,
idle APU, PPU and DMA engines, and the CPU of this model on that bus. -/
def timerEnv : TimerEnv Unit :=
  { bus := ioTables, DIV := 0xFF04, TIMA := 0xFF05, TMA := 0xFF06, TAC := 0xFF07,
    div_apu_event := fun mem => mem, apu_dot := fun mem => mem,
    ppu_dot := fun mem => (false, mem),
    check_hdma_transfer := fun mem => mem, check_dma_transfer := fun mem => mem,
    hdma_bytes_transferring := fun _ => false,
    machine_cycle := fun p => (p.1, machine_cycle ioTables p.2) }

/-- A machine on `timerEnv` with the timer `timer`, the given bytes in TIMA,
TMA and TAC, IF = 0, single speed, the static `dots` at its initial value 4, and
the CPU at a program of NOPs. -/
def timerEmu (timer : EmuTimer) (tima tma tac : Nat) : GbcEmu Unit :=
  { timer := timer,
    cpu := bootCpu (poke (poke (poke (memOf 0x100 []) 0xFF05 tima) 0xFF06 tma) 0xFF07 tac),
    dots := 4 }


/-! ## The bus devices (`src/core/mmu.c`) -/

abbrev LOWER_3_MASK : Nat := 0x07
abbrev UPPER_4_MASK : Nat := 0xF0

/-- Start of video RAM; mmu.c heads the handlers of the range with
`[$8000 - $9FFF] VRAM`. -/
abbrev VRAM_START : Nat := 0x8000
/-- End of video RAM (`[$8000 - $9FFF] VRAM`). -/
abbrev VRAM_END : Nat := 0x9FFF
/-- Start of object attribute memory; mmu.c heads the handlers of the range
with `[$FE00 - $FE9F] OAM`. -/
abbrev OAM_START : Nat := 0xFE00
/-- End of object attribute memory (`[$FE00 - $FE9F] OAM`). -/
abbrev OAM_END : Nat := 0xFE9F
/-- Modelled from the spec: the DMA engine stages "length = 160+startup-delay",
and has a "total duration 160 m-cycles after a one-cycle startup delay". -/
abbrev DMA_DURATION : Nat := 161
/-- Modelled from the spec: "bit 7 chooses mode; a mode-0 write while an hblank
HDMA is active cancels it", so mode 0 is the general transfer. -/
abbrev GENERAL_HDMA : Nat := 0
/-- Modelled from the spec: mode 1 of HDMA5 bit 7 is the per-HBlank transfer. -/
abbrev HBLANK_HDMA : Nat := 1

/-- The field `dma` of `EmuMemory`; `src` and `dst` are 16-bit addresses,
`length` is taken as a 16-bit counter (`core/mmu.h` is not among the
sources). -/
structure DmaState where
  active : Bool
  src : Nat
  dst : Nat
  length : Nat
  deriving DecidableEq, Repr

/-- The field `hdma` of `EmuMemory`; `src`, `dst` and `length` are 16-bit,
`counter` and `bytes_transferred` are bytes. -/
structure HdmaState where
  active : Bool
  src : Nat
  dst : Nat
  length : Nat
  mode : Nat
  bytes_transferring : Bool
  bytes_transferred : Nat
  counter : Nat
  deriving DecidableEq, Repr

/-- What the DMA engines, the OAM and VRAM handlers and the PPU use of
`EmuMemory` besides `memory`: OAM, the two VRAM banks (`vram bank index`),
palette RAM, the four block flags, the two transfer engines and
`mem->cart->is_gbc`; `rest` stands for everything else behind the bus. -/
structure MmuDev (X : Type) where
  oam : Nat → Nat
  vram : Nat → Nat → Nat
  cram : Nat → Nat
  oam_read_blocked : Bool
  oam_write_blocked : Bool
  vram_read_blocked : Bool
  vram_write_blocked : Bool
  dma : DmaState
  hdma : HdmaState
  cart_is_gbc : Bool
  rest : X

/-- The address constants of `core/mmu.h` used by the DMA engines and the PPU
(the header is not among the sources, so they are parameters). -/
structure IoMap where
  DMA : Nat
  HDMA1 : Nat
  HDMA2 : Nat
  HDMA3 : Nat
  HDMA4 : Nat
  HDMA5 : Nat
  VBK : Nat
  LCDC : Nat
  STAT : Nat
  LY : Nat
  LYC : Nat
  SCX : Nat
  SCY : Nat
  WX : Nat
  WY : Nat
  BGP : Nat
  OBP0 : Nat
  OBP1 : Nat

variable {X : Type}

/-- `read_vram_bank` (mmu.c:27). -/
def read_vram_bank (mem : EmuMemory (MmuDev X)) (bank : Nat) (address : Nat) : Nat :=
  let address := sub_u16 address VRAM_START
  if bank = 0 then mem.dev.vram 0 address else mem.dev.vram 1 address

/-- `read_cram` (mmu.c:36); `base` and `offset` are bytes. -/
def read_cram (mem : EmuMemory (MmuDev X)) (is_obj : Bool) (palette_index color_id index : Nat) :
    Nat :=
  let base := if is_obj then 0x40 else 0x00
  let offset := ((palette_index <<< 3) ||| (color_id <<< 1)) % 256
  mem.dev.cram (base + offset + index)

/-- `check_dma_transfer` (mmu.c:53). -/
def check_dma_transfer (t : MemoryTables (MmuDev X)) (mem : EmuMemory (MmuDev X)) :
    EmuMemory (MmuDev X) :=
  if !mem.dev.dma.active then mem
  else
    let mem :=
      if mem.dev.dma.length = DMA_DURATION - 1 then
        { mem with dev := { mem.dev with oam_read_blocked := true, oam_write_blocked := true } }
      else mem
    if mem.dev.dma.length > 160 then
      { mem with dev := { mem.dev with
          dma := { mem.dev.dma with length := (mem.dev.dma.length + 0xFFFF) % 65536 } } }
    else
      let byte := read_memory t mem mem.dev.dma.src
      let mem := { mem with dev := { mem.dev with
          dma := { mem.dev.dma with src := (mem.dev.dma.src + 1) % 65536 } } }
      let mem := { mem with dev := { mem.dev with
          oam := fun i => if i = sub_u16 mem.dev.dma.dst OAM_START then byte else mem.dev.oam i } }
      let mem := { mem with dev := { mem.dev with
          dma := { mem.dev.dma with dst := (mem.dev.dma.dst + 1) % 65536 } } }
      let mem := { mem with dev := { mem.dev with
          dma := { mem.dev.dma with length := (mem.dev.dma.length + 0xFFFF) % 65536 } } }
      if mem.dev.dma.length = 0 then
        { mem with dev := { mem.dev with
            oam_read_blocked := false, oam_write_blocked := false,
            dma := { mem.dev.dma with active := false } } }
      else mem

/-- `check_hdma_trigger` (mmu.c:85). -/
def check_hdma_trigger (mem : EmuMemory (MmuDev X)) : EmuMemory (MmuDev X) :=
  if !mem.dev.hdma.active || decide (mem.dev.hdma.mode ≠ HBLANK_HDMA) || !mem.dev.cart_is_gbc
  then mem
  else
    { mem with dev := { mem.dev with
        hdma := { mem.dev.hdma with bytes_transferring := true, bytes_transferred := 0 } } }

/-- `check_hdma_transfer` (mmu.c:94); `hdma5` is the constant `HDMA5`. The
post-increments of `src` and `dst` take effect before the bus calls they are
arguments of. -/
def check_hdma_transfer (t : MemoryTables (MmuDev X)) (hdma5 : Nat)
    (mem : EmuMemory (MmuDev X)) : EmuMemory (MmuDev X) :=
  if !mem.dev.hdma.active || !mem.dev.hdma.bytes_transferring then mem
  else
    let mem := { mem with dev := { mem.dev with
        hdma := { mem.dev.hdma with counter := (mem.dev.hdma.counter + 1) % 256 } } }
    if mem.dev.hdma.counter < 2 then mem
    else
      let mem := { mem with dev := { mem.dev with hdma := { mem.dev.hdma with counter := 0 } } }
      let src := mem.dev.hdma.src
      let mem := { mem with dev := { mem.dev with
          hdma := { mem.dev.hdma with src := (src + 1) % 65536 } } }
      let byte := read_memory t mem src
      let dst := mem.dev.hdma.dst
      let mem := { mem with dev := { mem.dev with
          hdma := { mem.dev.hdma with dst := (dst + 1) % 65536 } } }
      let mem := write_memory t mem dst byte
      let mem := { mem with dev := { mem.dev with
          hdma := { mem.dev.hdma with
            bytes_transferred := (mem.dev.hdma.bytes_transferred + 1) % 256 } } }
      let mem := { mem with dev := { mem.dev with
          hdma := { mem.dev.hdma with length := (mem.dev.hdma.length + 0xFFFF) % 65536 } } }
      if mem.dev.hdma.length = 0 || decide (mem.dev.hdma.dst > VRAM_END) then
        let mem := { mem with dev := { mem.dev with
            hdma := { mem.dev.hdma with active := false, bytes_transferring := false } } }
        { mem with memory := fun a => if a = hdma5 then 0xFF else mem.memory a }
      else
        let mem :=
          if mem.dev.hdma.mode = HBLANK_HDMA && decide (mem.dev.hdma.bytes_transferred ≥ 16) then
            { mem with dev := { mem.dev with
                hdma := { mem.dev.hdma with bytes_transferring := false, bytes_transferred := 0 } } }
          else mem
        let mem := { mem with memory := fun a =>
          if a = hdma5 then mem.memory hdma5 &&& BIT_7_MASK else mem.memory a }
        { mem with memory := fun a =>
          if a = hdma5 then
            (mem.memory hdma5 |||
              (((mem.dev.hdma.length / 0x10 + 0xFFFFFFFF) % 0x100000000) &&& LOWER_7_MASK)) % 256
          else mem.memory a }

/-- `read_vram` (mmu.c:153); `vbk` is the constant `VBK`. -/
def read_vram (vbk : Nat) (mem : EmuMemory (MmuDev X)) (address : Nat) : Nat :=
  if mem.dev.vram_read_blocked then OPEN_BUS
  else
    let address := sub_u16 address VRAM_START
    let bank := mem.memory vbk &&& BIT_0_MASK
    mem.dev.vram bank address

/-- `write_vram` (mmu.c:162). -/
def write_vram (vbk : Nat) (mem : EmuMemory (MmuDev X)) (address : Nat) (value : Nat) :
    EmuMemory (MmuDev X) :=
  if mem.dev.vram_write_blocked then mem
  else
    let address := sub_u16 address VRAM_START
    let bank := mem.memory vbk &&& BIT_0_MASK
    { mem with dev := { mem.dev with
        vram := fun b i => if b = bank ∧ i = address then value else mem.dev.vram b i } }

/-- `read_oam` (mmu.c:217). -/
def read_oam (mem : EmuMemory (MmuDev X)) (address : Nat) : Nat :=
  if mem.dev.oam_read_blocked then OPEN_BUS
  else
    let address := sub_u16 address OAM_START
    mem.dev.oam address

/-- `write_oam` (mmu.c:226). -/
def write_oam (mem : EmuMemory (MmuDev X)) (address : Nat) (value : Nat) :
    EmuMemory (MmuDev X) :=
  if mem.dev.oam_write_blocked then mem
  else
    let address := sub_u16 address OAM_START
    { mem with dev := { mem.dev with
        oam := fun i => if i = address then value else mem.dev.oam i } }

/-- `dma_handler` (mmu.c:326); `dma` is the constant `DMA`. -/
def dma_handler (dma : Nat) (mem : EmuMemory (MmuDev X)) (address : Nat) (value : Nat) :
    EmuMemory (MmuDev X) :=
  let value := if value = 0xFF then 0xDF else value
  let value := if value = 0xFE then 0xE0 else value
  let source := (value * 0x0100) % 65536
  let mem := { mem with memory := fun a => if a = dma then value else mem.memory a }
  let mem := { mem with dev := { mem.dev with
      dma := { mem.dev.dma with src := source, dst := OAM_START, length := DMA_DURATION } } }
  let mem := { mem with dev := { mem.dev with
      oam_read_blocked := mem.dev.dma.active, oam_write_blocked := mem.dev.dma.active } }
  { mem with dev := { mem.dev with dma := { mem.dev.dma with active := true } } }

/-- `hdma_handler` (mmu.c:346). -/
def hdma_handler (io : IoMap) (mem : EmuMemory (MmuDev X)) (address : Nat) (value : Nat) :
    EmuMemory (MmuDev X) :=
  if !mem.dev.cart_is_gbc then mem
  else
    let mode := (value >>> 7) &&& BIT_0_MASK
    if mode = 0 && mem.dev.hdma.active then
      { mem with dev := { mem.dev with hdma := { mem.dev.hdma with active := false } } }
    else
      let hdma1 := mem.memory io.HDMA1
      let hdma2 := mem.memory io.HDMA2 &&& UPPER_4_MASK
      let src := ((hdma1 <<< BYTE) ||| hdma2) % 65536
      let hdma3 := mem.memory io.HDMA3 &&& LOWER_5_MASK
      let hdma4 := mem.memory io.HDMA4 &&& UPPER_4_MASK
      let dst := (VRAM_START ||| (hdma3 <<< BYTE) ||| hdma4) % 65536
      let mem := { mem with dev := { mem.dev with
          hdma := { active := true, src := src, dst := dst,
                    length := (((value &&& LOWER_7_MASK) + 1) * 0x10) % 65536,
                    bytes_transferring := decide (mode = GENERAL_HDMA),
                    mode := mode, counter := 0, bytes_transferred := 0 } } }
      { mem with memory := fun a => if a = io.HDMA5 then value else mem.memory a }

/-! ### Runs of the DMA engine -/

/-- The state after `n` calls of `check_dma_transfer`. -/
def dma_cycles (t : MemoryTables (MmuDev X)) (n : Nat) (mem : EmuMemory (MmuDev X)) :
    EmuMemory (MmuDev X) :=
  match n with
  | 0 => mem
  | n + 1 => dma_cycles t n (check_dma_transfer t mem)

/-- The state after `n` calls of `check_hdma_transfer`. -/
def hdma_dots (t : MemoryTables (MmuDev X)) (hdma5 : Nat) (n : Nat)
    (mem : EmuMemory (MmuDev X)) : EmuMemory (MmuDev X) :=
  match n with
  | 0 => mem
  | n + 1 => hdma_dots t hdma5 n (check_hdma_transfer t hdma5 mem)


/-! ## The pixel FIFOs (`src/util/circular_queue.c`) -/

/-- `GbcPixel` of circular_queue.h. -/
structure GbcPixel where
  color : Nat
  dmg_palette : Nat
  cgb_palette : Nat
  priority : Bool
  deriving DecidableEq, Repr, Inhabited

/-- `OamObject` of circular_queue.h. -/
structure OamObject where
  oam_address : Nat
  y : Nat
  x : Nat
  tile_index : Nat
  priority : Bool
  y_flip : Bool
  x_flip : Bool
  dmg_palette : Nat
  bank : Nat
  cgb_palette : Nat
  deriving DecidableEq, Repr, Inhabited

/-- `Queue` of circular_queue.h: `items` lists what the `capacity` item
pointers point to, slot by slot; `front` and `rear` are `int`s that may hold
-1. -/
structure Queue (α : Type) where
  items : List α
  front : Int
  rear : Int
  size : Nat
  capacity : Nat
  deriving Repr

/-- `is_full` (circular_queue.c:11). -/
def is_full {α : Type} (queue : Queue α) : Bool :=
  decide (queue.size = queue.capacity)

/-- `is_empty` (circular_queue.c:16). -/
def is_empty {α : Type} (queue : Queue α) : Bool :=
  decide (queue.size = 0)

/-- `enqueue_pixel` / `enqueue_object` (circular_queue.c:21, 33): the item is
copied into the slot at the new `rear`. -/
def enqueue {α : Type} (queue : Queue α) (item : α) : Queue α :=
  if is_full queue then queue
  else
    let queue := { queue with rear := (queue.rear + 1) % (queue.capacity : Int) }
    let queue := { queue with items := queue.items.set queue.rear.toNat item }
    let queue := if queue.front = -1 then { queue with front := 0 } else queue
    { queue with size := queue.size + 1 }

/-- `reset_queue` (circular_queue.c:45). -/
def reset_queue {α : Type} (queue : Queue α) : Queue α :=
  { queue with front := -1, rear := -1, size := 0 }

/-- `peek` (circular_queue.c:52); `none` is `NULL`. -/
def peek {α : Type} [Inhabited α] (queue : Queue α) : Option α :=
  if queue.size = 0 then none
  else some (queue.items.getD queue.front.toNat default)

/-- `dequeue` (circular_queue.c:59); `none` is `NULL`. -/
def dequeue {α : Type} [Inhabited α] (queue : Queue α) : Option α × Queue α :=
  if is_empty queue then (none, queue)
  else
    let item := queue.items.getD queue.front.toNat default
    let queue := { queue with front := (queue.front + 1) % (queue.capacity : Int) }
    (some item, { queue with size := queue.size - 1 })

/-- The loop of `sort_oam_by_xpos` (circular_queue.c:79); `index` is a
`uint8_t`, `fuel` bounds the number of tests of the loop condition and `none`
means the bound was reached. -/
def sort_oam_loop (fuel : Nat) (items : List OamObject) (size : Nat) (index : Nat) :
    Option (List OamObject) :=
  match fuel with
  | 0 => none
  | fuel + 1 =>
    if index < size then
      let index := if index = 0 then 1 else index
      let x_prev := (items.getD (index - 1) default).x
      let x_curr := (items.getD index default).x
      if x_prev > x_curr then
        let obj_prev := items.getD (index - 1) default
        let obj_curr := items.getD index default
        let items := items.set (index - 1) obj_curr
        let items := items.set index obj_prev
        sort_oam_loop fuel items size ((index + 0xFF) % 256)
      else sort_oam_loop fuel items size ((index + 1) % 256)
    else some items

/-- `sort_oam_by_xpos` (circular_queue.c:71). -/
def sort_oam_by_xpos (fuel : Nat) (queue : Queue OamObject) : Option (Queue OamObject) :=
  if queue.size < 2 then some queue
  else
    match sort_oam_loop fuel queue.items queue.size 1 with
    | none => none
    | some items => some { queue with items := items }

/-- `init_queue` (circular_queue.c:108); the slots are allocated and not
written, `slot` is what they hold. -/
def init_queue {α : Type} (capacity : Nat) (slot : α) : Queue α :=
  { items := List.replicate capacity slot, front := -1, rear := -1, size := 0,
    capacity := capacity }

/-! ## The PPU (`src/core/ppu.c`, `include/core/ppu.h`) -/

abbrev DOT_PER_FRAME : Nat := 70224
abbrev DOTS_PER_SCANLINE : Nat := 456
abbrev OBJS_PER_SCANLINE : Nat := 10
abbrev GBC_WIDTH : Nat := 160
abbrev GBC_HEIGHT : Nat := 144
abbrev GRID_SIZE : Nat := 32
abbrev OAM_ENTRY_SIZE : Nat := 4
abbrev SCAN_LINE_QUANTITY : Nat := 154
abbrev TILE_SIZE : Nat := 8
abbrev WHITE : Nat := 0xFFE0F8D0
abbrev LIGHT_GRAY : Nat := 0xFF88C070
abbrev DARK_GRAY : Nat := 0xFF346856
abbrev BLACK : Nat := 0xFF081820
abbrev B0_ADDRESS_START : Nat := 0x8000
abbrev TM0_ADDRESS_START : Nat := 0x9800
abbrev TM1_ADDRESS_START : Nat := 0x9C00

/-- `PpuMode` of ppu.h. -/
inductive PpuMode where
  | HBLANK
  | VBLANK
  | OAM_SCAN
  | DRAWING
  | COINCIDENCE
  deriving DecidableEq, Repr

/-- The value of a `PpuMode`. -/
def PpuMode.code : PpuMode → Nat
  | .HBLANK => 0x00
  | .VBLANK => 0x01
  | .OAM_SCAN => 0x02
  | .DRAWING => 0x03
  | .COINCIDENCE => 0x04

/-- `Tile` of ppu.h. -/
structure Tile where
  x : Nat
  y : Nat
  row : Nat
  attr : Nat
  lsb : Nat
  msb : Nat
  deriving DecidableEq, Repr

/-- The fields of `PPU` (ppu.h) that are the PPU's own state; the register
pointers point at bytes of `mem->memory` (`link_ppu`). -/
structure PPU where
  tile_considered : Nat → Bool
  mode : PpuMode
  sc_dot : Nat
  penalty : Nat
  sc_tile : Nat
  lx : Nat
  init_sc : Bool
  init_tile : Bool
  win_rendering : Bool
  sc_rendering : Bool
  frame_delay : Bool
  running : Bool
  stat_irq_line : Bool
  lyc_irq : Bool

/-- The PPU with what it reaches: the CPU with the memory behind it
(`ppu->cpu`, `ppu->mem`; `ppu->cart` is `mem->cart`), the three file-static
queues and the frame buffer `gbc_lcd`. `stores` is not a variable of the
program: it lists the indices of the stores into `gbc_lcd` in the order they
were made. -/
structure PpuSys (X : Type) where
  ppu : PPU
  cpu : CPU (MmuDev X)
  oam_fifo : Queue OamObject
  bgw_fifo : Queue GbcPixel
  obj_fifo : Queue GbcPixel
  gbc_lcd : Nat → Nat
  stores : List Nat

/-- The bus tables and the address constants the PPU works with. -/
structure PpuEnv (X : Type) where
  bus : MemoryTables (MmuDev X)
  io : IoMap

/-- The byte a register pointer of the PPU points at. -/
def ppu_reg (s : PpuSys X) (address : Nat) : Nat :=
  s.cpu.mem.memory address

/-- The store `*p = value` through a register pointer of the PPU; the byte is
`mem->memory[address]`. -/
def set_ppu_reg (s : PpuSys X) (address : Nat) (value : Nat) : PpuSys X :=
  { s with cpu := { s.cpu with mem := { s.cpu.mem with
      memory := fun a => if a = address then value else s.cpu.mem.memory a } } }

/-- The update of `*ppu->mem` by `f`. -/
def with_mem (s : PpuSys X) (f : EmuMemory (MmuDev X) → EmuMemory (MmuDev X)) : PpuSys X :=
  { s with cpu := { s.cpu with mem := f s.cpu.mem } }

/-- `scx_penalty` (ppu.c:25). -/
def scx_penalty (env : PpuEnv X) (s : PpuSys X) : Nat :=
  let c := ppu_reg s env.io.SCX % TILE_SIZE
  if c = 0 then 0
  else if c = 1 ∨ c = 2 ∨ c = 3 ∨ c = 4 then 4
  else 8

/-- `obj_penalty` (ppu.c:45); `penalty` is an `int8_t`, the result a
`uint8_t`. -/
def obj_penalty (ppu : PPU) (obj : OamObject) : Nat × PPU :=
  if obj.x ≥ 168 then (0, ppu)
  else
    let tile := obj.x / TILE_SIZE
    if ppu.tile_considered tile then (6, ppu)
    else
      let ppu := { ppu with
        tile_considered := fun i => if i = tile then true else ppu.tile_considered i }
      if obj.x = 0 then (11, ppu)
      else
        let penalty : Int := (TILE_SIZE : Int) - ((obj.x % TILE_SIZE : Nat) : Int) - 3
        let penalty := if penalty < 0 then 0 else penalty
        let penalty := penalty + 6
        ((penalty % 256).toNat, ppu)

/-- `unlock_oam` (ppu.c:67). -/
def unlock_oam (mem : EmuMemory (MmuDev X)) : EmuMemory (MmuDev X) :=
  { mem with dev := { mem.dev with oam_read_blocked := false, oam_write_blocked := false } }

/-- `lock_oam` (ppu.c:73). -/
def lock_oam (mem : EmuMemory (MmuDev X)) : EmuMemory (MmuDev X) :=
  { mem with dev := { mem.dev with oam_read_blocked := true, oam_write_blocked := true } }

/-- `unlock_vram` (ppu.c:79). -/
def unlock_vram (mem : EmuMemory (MmuDev X)) : EmuMemory (MmuDev X) :=
  { mem with dev := { mem.dev with vram_read_blocked := false, vram_write_blocked := false } }

/-- `lock_vram` (ppu.c:85). -/
def lock_vram (mem : EmuMemory (MmuDev X)) : EmuMemory (MmuDev X) :=
  { mem with dev := { mem.dev with vram_read_blocked := true, vram_write_blocked := true } }

/-- `get_argb` (ppu.c:93); the channels are bytes, the result is a
`uint32_t`. -/
def get_argb (lsb msb : Nat) : Nat :=
  let color := ((msb <<< BYTE) ||| lsb) % 65536
  let red := ((color &&& LOWER_5_MASK) <<< 3) % 256
  let green := (((color >>> 5) &&& LOWER_5_MASK) <<< 3) % 256
  let blue := (((color >>> 10) &&& LOWER_5_MASK) <<< 3) % 256
  ((0xFF <<< (BYTE * 3)) ||| (red <<< (BYTE * 2)) ||| (green <<< (BYTE * 1)) ||| blue) %
    0x100000000

/-- `get_dmg_shade` (ppu.c:104). -/
def get_dmg_shade (id : Nat) : Nat :=
  if id = 0 then WHITE
  else if id = 1 then LIGHT_GRAY
  else if id = 2 then DARK_GRAY
  else if id = 3 then BLACK
  else WHITE

/-- `drawing_window` (ppu.c:127). -/
def drawing_window (env : PpuEnv X) (s : PpuSys X) : Bool :=
  let win_enabled := decide (ppu_reg s env.io.LCDC &&& BIT_5_MASK ≠ 0)
  decide (s.ppu.lx + 7 ≥ ppu_reg s env.io.WX) &&
    decide (ppu_reg s env.io.LY ≥ ppu_reg s env.io.WY) && win_enabled

/-- `obj_rendering_triggered` (ppu.c:133); `lx` is a `uint8_t`. -/
def obj_rendering_triggered (env : PpuEnv X) (s : PpuSys X) : Bool :=
  let obj_enabled := decide (ppu_reg s env.io.LCDC &&& BIT_1_MASK ≠ 0)
  match peek s.oam_fifo with
  | none => false
  | some obj =>
    if !obj_enabled then false
    else
      let lx := (s.ppu.lx + TILE_SIZE) % 256
      decide (lx ≥ obj.x)

/-- `get_obj_pixel_color` (ppu.c:146). -/
def get_obj_pixel_color (env : PpuEnv X) (s : PpuSys X) (pixel : GbcPixel) : Nat :=
  if s.cpu.mem.dev.cart_is_gbc then
    let lsb := read_cram s.cpu.mem true pixel.cgb_palette pixel.color 0
    let msb := read_cram s.cpu.mem true pixel.cgb_palette pixel.color 1
    get_argb lsb msb
  else
    let opd := if pixel.dmg_palette ≠ 0 then ppu_reg s env.io.OBP1 else ppu_reg s env.io.OBP0
    let cid := (opd >>> (2 * pixel.color)) &&& LOWER_2_MASK
    get_dmg_shade cid

/-- `get_bgw_pixel_color` (ppu.c:162). -/
def get_bgw_pixel_color (env : PpuEnv X) (s : PpuSys X) (pixel : GbcPixel) : Nat :=
  if s.cpu.mem.dev.cart_is_gbc then
    let lsb := read_cram s.cpu.mem false pixel.cgb_palette pixel.color 0
    let msb := read_cram s.cpu.mem false pixel.cgb_palette pixel.color 1
    get_argb lsb msb
  else
    let cid := (ppu_reg s env.io.BGP >>> (2 * pixel.color)) &&& LOWER_2_MASK
    get_dmg_shade cid

/-- `merge_obj_bgw` (ppu.c:177). The `switch` lists the codes 0..7, which are
all the values `code` takes; the last branch stands for the end of the function
after the `switch`. -/
def merge_obj_bgw (env : PpuEnv X) (s : PpuSys X) (bgw obj : GbcPixel) : Nat :=
  if obj.color = 0 then get_bgw_pixel_color env s bgw
  else if bgw.color = 0 then get_obj_pixel_color env s obj
  else
    let master_prio :=
      if s.cpu.mem.dev.cart_is_gbc then decide (ppu_reg s env.io.LCDC &&& BIT_0_MASK ≠ 0)
      else false
    let code := ((master_prio.toNat <<< 2) ||| (obj.priority.toNat <<< 1) |||
      bgw.priority.toNat) % 256
    if code = 0 ∨ code = 1 ∨ code = 2 ∨ code = 3 ∨ code = 4 then get_obj_pixel_color env s obj
    else if code = 5 ∨ code = 6 ∨ code = 7 then get_bgw_pixel_color env s bgw
    else 0

/-- The store `gbc_lcd[index] = value`. -/
def store_lcd (s : PpuSys X) (index : Nat) (value : Nat) : PpuSys X :=
  { s with gbc_lcd := fun i => if i = index then value else s.gbc_lcd i,
           stores := s.stores ++ [index] }

/-- `draw_pixel_lcd` (ppu.c:202); `none` stands for the dereference of a `NULL`
returned by `dequeue`. -/
def draw_pixel_lcd (env : PpuEnv X) (s : PpuSys X) : Option (PpuSys X) :=
  let r : Option (PpuSys X) :=
    if !is_empty s.bgw_fifo && !is_empty s.obj_fifo then
      let b := dequeue s.bgw_fifo
      let s := { s with bgw_fifo := b.2 }
      let o := dequeue s.obj_fifo
      let s := { s with obj_fifo := o.2 }
      match b.1, o.1 with
      | some bgw, some obj =>
        let s := store_lcd s (ppu_reg s env.io.LY * GBC_WIDTH + s.ppu.lx)
          (merge_obj_bgw env s bgw obj)
        some { s with ppu := { s.ppu with lx := (s.ppu.lx + 1) % 256 } }
      | _, _ => none
    else if !is_empty s.bgw_fifo then
      let b := dequeue s.bgw_fifo
      let s := { s with bgw_fifo := b.2 }
      match b.1 with
      | some bgw =>
        let s := store_lcd s (ppu_reg s env.io.LY * GBC_WIDTH + s.ppu.lx)
          (get_bgw_pixel_color env s bgw)
        some { s with ppu := { s.ppu with lx := (s.ppu.lx + 1) % 256 } }
      | none => none
    else some s
  match r with
  | none => none
  | some s =>
    if s.ppu.lx ≥ GBC_WIDTH then some { s with ppu := { s.ppu with sc_rendering := false } }
    else some s

/-- `bgw_tile_data_address` (ppu.c:224); `base` and the result are
`uint16_t`s, `signed_index` is the byte read as an `int8_t`. -/
def bgw_tile_data_address (index lcdc row : Nat) : Nat :=
  let base :=
    if lcdc &&& BIT_4_MASK ≠ 0 then (0x8000 + index * 16) % 65536
    else
      let signed_index : Int :=
        if index % 256 ≥ 128 then ((index % 256 : Nat) : Int) - 256
        else ((index % 256 : Nat) : Int)
      ((0x9000 + signed_index * 16) % 65536).toNat
  (base + row * 2) % 65536

/-- `encode_tile` (ppu.c:241); `address` is a `uint16_t`, `row` a byte. -/
def encode_tile (env : PpuEnv X) (s : PpuSys X) (tile : Tile) (mask : Nat) : Tile :=
  let map_base :=
    if ppu_reg s env.io.LCDC &&& mask ≠ 0 then TM1_ADDRESS_START else TM0_ADDRESS_START
  let address := (map_base + tile.y * GRID_SIZE + tile.x) % 65536
  let bank := 0
  let r : Tile × Nat :=
    if s.cpu.mem.dev.cart_is_gbc then
      let tile := { tile with attr := read_vram_bank s.cpu.mem 1 address }
      let tile := { tile with
        row := if tile.attr &&& BIT_6_MASK ≠ 0 then (TILE_SIZE - 1 + 256 - tile.row % 256) % 256
               else tile.row }
      (tile, (tile.attr &&& BIT_3_MASK) >>> 3)
    else (tile, bank)
  let tile := r.1
  let bank := r.2
  let index := read_vram_bank s.cpu.mem 0 address
  let address := bgw_tile_data_address index (ppu_reg s env.io.LCDC) tile.row
  let tile := { tile with lsb := read_vram_bank s.cpu.mem bank address }
  { tile with msb := read_vram_bank s.cpu.mem bank ((address + 1) % 65536) }

/-- `get_win_tile` (ppu.c:265); the column is computed in `int` (the division
truncates) and stored in a byte, `y` is a byte. -/
def get_win_tile (env : PpuEnv X) (s : PpuSys X) : Tile :=
  let tile : Tile := { x := 0, y := 0, row := 0, attr := 0, lsb := 0, msb := 0 }
  let tile := { tile with
    x := ((Int.tdiv (((s.ppu.lx + 7 : Nat) : Int) - ((ppu_reg s env.io.WX : Nat) : Int))
      (TILE_SIZE : Int)) % 256).toNat }
  let y := (ppu_reg s env.io.LY + 256 - ppu_reg s env.io.WY % 256) % 256
  let tile := { tile with y := y / TILE_SIZE }
  let tile := { tile with row := y % TILE_SIZE }
  encode_tile env s tile BIT_6_MASK

/-- `get_bg_tile` (ppu.c:280). -/
def get_bg_tile (env : PpuEnv X) (s : PpuSys X) : Tile :=
  let tile : Tile := { x := 0, y := 0, row := 0, attr := 0, lsb := 0, msb := 0 }
  let tile := { tile with x := ((ppu_reg s env.io.SCX / TILE_SIZE) + s.ppu.sc_tile) % GRID_SIZE }
  let y := (ppu_reg s env.io.SCY + ppu_reg s env.io.LY) % 256
  let tile := { tile with y := (y / TILE_SIZE) % GRID_SIZE }
  let tile := { tile with row := y % TILE_SIZE }
  encode_tile env s tile BIT_3_MASK

/-- `get_obj_tile` (ppu.c:295); `none` stands for the dereference of a `NULL`
returned by `peek`. -/
def get_obj_tile (env : PpuEnv X) (s : PpuSys X) : Option Tile :=
  let tile : Tile := { x := 0, y := 0, row := 0, attr := 0, lsb := 0, msb := 0 }
  match peek s.oam_fifo with
  | none => none
  | some obj =>
    let row := (ppu_reg s env.io.LY + 16 + 256 - obj.y % 256) % 256
    let stacked := decide (ppu_reg s env.io.LCDC &&& BIT_2_MASK ≠ 0)
    let height := if stacked then 16 else 8
    let index := obj.tile_index
    let row := if obj.y_flip then (height - 1 + 256 - row) % 256 else row
    let address := (B0_ADDRESS_START + index * 16 + row * 2) % 65536
    let tile := { tile with lsb := read_vram_bank s.cpu.mem obj.bank address }
    some { tile with msb := read_vram_bank s.cpu.mem obj.bank ((address + 1) % 65536) }

/-- The object `oam_scan` builds from the four bytes of an entry
(ppu.c:331-347). -/
def oam_object (address y_pos x_pos tile_index attributes : Nat) : OamObject :=
  { oam_address := address, x := x_pos, y := y_pos, tile_index := tile_index,
    priority := decide (attributes &&& BIT_7_MASK ≠ 0),
    y_flip := decide (attributes &&& BIT_6_MASK ≠ 0),
    x_flip := decide (attributes &&& BIT_5_MASK ≠ 0),
    dmg_palette := if attributes &&& BIT_4_MASK ≠ 0 then 1 else 0,
    bank := if attributes &&& BIT_3_MASK ≠ 0 then 1 else 0,
    cgb_palette := attributes &&& LOWER_3_MASK }

/-- One round of the loop of `oam_scan` (ppu.c:324-350) at the loop variable
`address`; `ly` is a byte. -/
def oam_scan_entry (env : PpuEnv X) (s : PpuSys X) (address : Nat) (stacked : Bool) :
    PpuSys X :=
  let y_pos := read_memory env.bus s.cpu.mem address
  let height := if stacked then 16 else 8
  let ly := (ppu_reg s env.io.LY + 16) % 256
  let on_scanline := decide (ly ≥ y_pos) && decide (ly - y_pos < height)
  if on_scanline then
    let x_pos := read_memory env.bus s.cpu.mem ((address + 1) % 65536)
    let tile_index := read_memory env.bus s.cpu.mem ((address + 2) % 65536)
    let attributes := read_memory env.bus s.cpu.mem ((address + 3) % 65536)
    { s with oam_fifo :=
        enqueue s.oam_fifo (oam_object address y_pos x_pos tile_index attributes) }
  else s

/-- The loop of `oam_scan` (ppu.c:322); `address` is a `uint16_t`, `fuel`
bounds the number of tests of the loop condition. -/
def oam_scan_loop (env : PpuEnv X) (fuel : Nat) (s : PpuSys X) (address : Nat)
    (stacked : Bool) : Option (PpuSys X) :=
  match fuel with
  | 0 => none
  | fuel + 1 =>
    if address ≤ OAM_END ∧ s.oam_fifo.size < 10 then
      oam_scan_loop env fuel (oam_scan_entry env s address stacked)
        ((address + OAM_ENTRY_SIZE) % 65536) stacked
    else some s

/-- `oam_scan` (ppu.c:315); `none` means that one of the two loops reached the
bound `fuel`. -/
def oam_scan (env : PpuEnv X) (fuel : Nat) (s : PpuSys X) : Option (PpuSys X) :=
  let s := { s with oam_fifo := reset_queue s.oam_fifo }
  let address := OAM_START
  let stacked := decide (ppu_reg s env.io.LCDC &&& BIT_2_MASK ≠ 0)
  match oam_scan_loop env fuel s address stacked with
  | none => none
  | some s =>
    match sort_oam_by_xpos fuel s.oam_fifo with
    | none => none
    | some q => some { s with oam_fifo := q }

/-- `get_tile_pixel_color` (ppu.c:360). -/
def get_tile_pixel_color (tile : Tile) (shift : Nat) (x_flip : Bool) : Nat :=
  let lsb :=
    if x_flip then (tile.lsb >>> shift) &&& BIT_0_MASK
    else (tile.lsb >>> (TILE_SIZE - 1 - shift)) &&& BIT_0_MASK
  let msb :=
    if x_flip then (tile.msb >>> shift) &&& BIT_0_MASK
    else (tile.msb >>> (TILE_SIZE - 1 - shift)) &&& BIT_0_MASK
  (msb <<< 1) ||| lsb

/-- `push_bgw_row` (ppu.c:378): the `for` loop runs over
`i = offset, ..., TILE_SIZE - 1`. -/
def push_bgw_row (tile : Tile) (fifo : Queue GbcPixel) (offset : Nat) : Queue GbcPixel :=
  let x_flip := decide (tile.attr &&& BIT_5_MASK ≠ 0)
  (List.range' offset (TILE_SIZE - offset)).foldl
    (fun fifo i =>
      let pixel : GbcPixel :=
        { color := get_tile_pixel_color tile i x_flip,
          priority := decide (tile.attr &&& BIT_7_MASK ≠ 0),
          cgb_palette := tile.attr &&& LOWER_3_MASK,
          dmg_palette := 0 }
      enqueue fifo pixel)
    fifo

/-- The padding loop of `push_obj_row` (ppu.c:400); `fuel` bounds the number of
tests of the loop condition. -/
def pad_obj_fifo (fuel : Nat) (fifo : Queue GbcPixel) (pixel : GbcPixel) :
    Option (Queue GbcPixel) :=
  match fuel with
  | 0 => none
  | fuel + 1 =>
    if fifo.size < TILE_SIZE then pad_obj_fifo fuel (enqueue fifo pixel) pixel
    else some fifo

/-- The replacing loop of `push_obj_row` (ppu.c:405) for the last `n` values of
`i`, that is `i = TILE_SIZE - n, ..., TILE_SIZE - 1`; `none` stands for the
dereference of a `NULL` returned by `dequeue`. -/
def replace_obj_pixels (tile : Tile) (obj : OamObject) (n : Nat) (fifo : Queue GbcPixel) :
    Option (Queue GbcPixel) :=
  match n with
  | 0 => some fifo
  | n + 1 =>
    let i := TILE_SIZE - (n + 1)
    let d := dequeue fifo
    match d.1 with
    | none => none
    | some current =>
      let pixel : GbcPixel :=
        { color := get_tile_pixel_color tile i obj.x_flip,
          priority := obj.priority,
          dmg_palette := obj.dmg_palette,
          cgb_palette := obj.cgb_palette }
      let current := if current.color = 0 then pixel else current
      replace_obj_pixels tile obj n (enqueue d.2 current)

/-- The chopping loop of `push_obj_row` (ppu.c:418), `n` rounds. -/
def chop_obj_fifo (n : Nat) (fifo : Queue GbcPixel) : Queue GbcPixel :=
  match n with
  | 0 => fifo
  | n + 1 => chop_obj_fifo n (dequeue fifo).2

/-- `push_obj_row` (ppu.c:392), called with `fifo` the file-static `obj_fifo`.
`none` stands for a run that does not return: the dereference of a `NULL`, the
padding loop at the bound `fuel`, or the chopping loop with a bound above 255,
which its byte counter never reaches. -/
def push_obj_row (fuel : Nat) (s : PpuSys X) (tile : Tile) : Option (PpuSys X) :=
  let d := dequeue s.oam_fifo
  let s := { s with oam_fifo := d.2 }
  match d.1 with
  | none => none
  | some obj =>
    let p := obj_penalty s.ppu obj
    let s := { s with ppu := { p.2 with penalty := (p.2.penalty + p.1) % 256 } }
    let pixel : GbcPixel := { color := 0, dmg_palette := 0, cgb_palette := 0, priority := false }
    match pad_obj_fifo fuel s.obj_fifo pixel with
    | none => none
    | some fifo =>
      match replace_obj_pixels tile obj TILE_SIZE fifo with
      | none => none
      | some fifo =>
        let count : Int := ((s.ppu.lx + 8 : Nat) : Int) - ((obj.x : Nat) : Int)
        if count > 255 then none
        else some { s with obj_fifo := chop_obj_fifo count.toNat fifo }

/-- The first loop of `pixel_pipeline_step` (ppu.c:426); `n` bounds the number
of tests of the loop condition. -/
def obj_rendering_loop (env : PpuEnv X) (fuel : Nat) (n : Nat) (s : PpuSys X) :
    Option (PpuSys X) :=
  match n with
  | 0 => none
  | n + 1 =>
    if obj_rendering_triggered env s then
      match get_obj_tile env s with
      | none => none
      | some tile =>
        match push_obj_row fuel s tile with
        | none => none
        | some s => obj_rendering_loop env fuel n s
    else some s

/-- `pixel_pipeline_step` (ppu.c:424). -/
def pixel_pipeline_step (env : PpuEnv X) (fuel : Nat) (s : PpuSys X) : Option (PpuSys X) :=
  match obj_rendering_loop env fuel fuel s with
  | none => none
  | some s =>
    let s :=
      if drawing_window env s && !s.ppu.win_rendering then
        let s := { s with bgw_fifo := reset_queue s.bgw_fifo }
        let s := { s with ppu := { s.ppu with penalty := (s.ppu.penalty + 6) % 256 } }
        { s with ppu := { s.ppu with win_rendering := true } }
      else s
    let s :=
      if is_empty s.bgw_fifo then
        let tile := if s.ppu.win_rendering then get_win_tile env s else get_bg_tile env s
        let offset :=
          if decide (s.ppu.sc_tile = 0) && !s.ppu.win_rendering then ppu_reg s env.io.SCX % 8
          else 0
        let s := { s with bgw_fifo := push_bgw_row tile s.bgw_fifo offset }
        { s with ppu := { s.ppu with sc_tile := (s.ppu.sc_tile + 1) % 256 } }
      else s
    draw_pixel_lcd env s

/-- `check_stat_irq` (ppu.c:452). -/
def check_stat_irq (env : PpuEnv X) (s : PpuSys X) (mode : PpuMode) : PpuSys X :=
  let triggered := false
  let stat := ppu_reg s env.io.STAT
  let r : Bool × Nat × PpuSys X :=
    match mode with
    | .HBLANK => (decide (stat &&& BIT_3_MASK ≠ 0), stat, s)
    | .VBLANK => (decide (stat &&& BIT_4_MASK ≠ 0), stat, s)
    | .OAM_SCAN => (decide (stat &&& BIT_5_MASK ≠ 0), stat, s)
    | .DRAWING =>
      (triggered, stat, { s with ppu := { s.ppu with stat_irq_line := s.ppu.lyc_irq } })
    | .COINCIDENCE =>
      let triggered := decide (stat &&& BIT_6_MASK ≠ 0)
      let intersecting := decide (ppu_reg s env.io.LY = ppu_reg s env.io.LYC)
      let stat := stat &&& 0xFB
      let stat := stat ||| (intersecting.toNat <<< 2)
      let triggered := triggered && intersecting
      let triggered := triggered && !s.ppu.lyc_irq
      (triggered, stat, { s with ppu := { s.ppu with lyc_irq := intersecting } })
  let triggered := r.1
  let s := set_ppu_reg r.2.2 env.io.STAT r.2.1
  if triggered && !s.ppu.stat_irq_line then
    let s := { s with ppu := { s.ppu with stat_irq_line := true } }
    { s with cpu := request_interrupt env.bus s.cpu LCD_STAT_INTERRUPT_CODE }
  else s

/-- `set_ppu_mode` (ppu.c:495). -/
def set_ppu_mode (env : PpuEnv X) (s : PpuSys X) (mode : PpuMode) : PpuSys X :=
  let s := set_ppu_reg s env.io.STAT ((ppu_reg s env.io.STAT &&& 0xFC) ||| mode.code)
  { s with ppu := { s.ppu with mode := mode } }

/-- `enter_oam_mode` (ppu.c:501). -/
def enter_oam_mode (env : PpuEnv X) (fuel : Nat) (s : PpuSys X) : Option (PpuSys X) :=
  let s := with_mem s unlock_oam
  match oam_scan env fuel s with
  | none => none
  | some s =>
    let s := with_mem s lock_oam
    let s := check_stat_irq env s .OAM_SCAN
    some (set_ppu_mode env s .OAM_SCAN)

/-- `enter_drawing_mode` (ppu.c:513). -/
def enter_drawing_mode (env : PpuEnv X) (s : PpuSys X) : PpuSys X :=
  let s := { s with bgw_fifo := reset_queue s.bgw_fifo }
  let s := { s with obj_fifo := reset_queue s.obj_fifo }
  let s := { s with ppu := { s.ppu with penalty := scx_penalty env s } }
  let s := { s with ppu := { s.ppu with sc_tile := 0 } }
  let s := { s with ppu := { s.ppu with lx := 0 } }
  let s := { s with ppu := { s.ppu with win_rendering := false } }
  let s := { s with ppu := { s.ppu with sc_rendering := true } }
  let s := with_mem s lock_oam
  let s := with_mem s lock_vram
  let s := { s with ppu := { s.ppu with tile_considered := fun _ => false } }
  let s := check_stat_irq env s .DRAWING
  set_ppu_mode env s .DRAWING

/-- `enter_hblank_mode` (ppu.c:534). -/
def enter_hblank_mode (env : PpuEnv X) (s : PpuSys X) : PpuSys X :=
  let s := with_mem s unlock_oam
  let s := with_mem s unlock_vram
  let s := with_mem s check_hdma_trigger
  let s := check_stat_irq env s .HBLANK
  set_ppu_mode env s .HBLANK

/-- `enter_vblank_mode` (ppu.c:546). -/
def enter_vblank_mode (env : PpuEnv X) (s : PpuSys X) : PpuSys X :=
  let s := { s with cpu := request_interrupt env.bus s.cpu VBLANK_INTERRUPT_CODE }
  let s := check_stat_irq env s .VBLANK
  let s := check_stat_irq env s .OAM_SCAN
  set_ppu_mode env s .VBLANK

/-- `next_scanline` (ppu.c:556). -/
def next_scanline (env : PpuEnv X) (s : PpuSys X) : Bool × PpuSys X :=
  let s := { s with ppu := { s.ppu with sc_dot := 0 } }
  let next_ly := ((ppu_reg s env.io.LY + 1) % SCAN_LINE_QUANTITY) % 256
  let s := set_ppu_reg s env.io.LY next_ly
  let s :=
    if ppu_reg s env.io.STAT &&& BIT_2_MASK ≠ 0 then check_stat_irq env s .COINCIDENCE
    else s
  if ppu_reg s env.io.LY = 0 then (true, s) else (false, s)

/-- `check_mode` (ppu.c:571); `none` comes from `enter_oam_mode`. -/
def check_mode (env : PpuEnv X) (fuel : Nat) (s : PpuSys X) : Option (PpuSys X) :=
  let dot := s.ppu.sc_dot
  let ly := ppu_reg s env.io.LY
  if ly < GBC_HEIGHT then
    let r : Option (PpuSys X) :=
      if dot = 0 then
        match enter_oam_mode env fuel s with
        | none => none
        | some s => some (check_stat_irq env s .COINCIDENCE)
      else if dot = 79 then
        let s := with_mem s fun mem =>
          { mem with dev := { mem.dev with oam_write_blocked := false } }
        some (with_mem s fun mem =>
          { mem with dev := { mem.dev with vram_read_blocked := !s.ppu.init_sc } })
      else if dot = 80 then some (enter_drawing_mode env s)
      else if dot = 455 then
        let s := { s with ppu := { s.ppu with init_sc := false } }
        some (with_mem s fun mem =>
          { mem with dev := { mem.dev with oam_read_blocked := true } })
      else some s
    match r with
    | none => none
    | some s =>
      if dot = 252 + s.ppu.penalty then some (enter_hblank_mode env s) else some s
  else if ly = GBC_HEIGHT ∧ dot = 0 then some (enter_vblank_mode env s)
  else some s

/-- `ppu_dot` (ppu.c:617); the result pairs the returned `frame_ready` with the
state, `sc_dot` is a `uint16_t`. `none` means that a loop reached the bound
`fuel` or that the run does not return. -/
def ppu_dot (env : PpuEnv X) (fuel : Nat) (s : PpuSys X) : Option (Bool × PpuSys X) :=
  let frame_ready := false
  if !s.ppu.running then some (false, s)
  else
    match check_mode env fuel s with
    | none => none
    | some s =>
      let s := { s with ppu := { s.ppu with sc_dot := (s.ppu.sc_dot + 1) % 65536 } }
      let r := if s.ppu.sc_dot = DOTS_PER_SCANLINE then next_scanline env s else (frame_ready, s)
      let frame_ready := r.1
      let s := r.2
      if decide (s.ppu.mode = .DRAWING) && s.ppu.sc_rendering then
        match pixel_pipeline_step env fuel s with
        | none => none
        | some s => some (frame_ready, s)
      else some (frame_ready, s)

/-- `write_stat` (ppu.c:690). -/
def write_stat (env : PpuEnv X) (s : PpuSys X) (value : Nat) : PpuSys X :=
  let value := value &&& 0x78
  let s := set_ppu_reg s env.io.STAT (ppu_reg s env.io.STAT &&& 0x87)
  let s := set_ppu_reg s env.io.STAT (ppu_reg s env.io.STAT ||| value)
  check_stat_irq env s s.ppu.mode

/-- `write_lyc` (ppu.c:699). -/
def write_lyc (env : PpuEnv X) (s : PpuSys X) (value : Nat) : PpuSys X :=
  let s := set_ppu_reg s env.io.LYC value
  if s.ppu.running then check_stat_irq env s .COINCIDENCE else s

/-- `init_pipeline` (ppu.c:754): the three queues; `obj` and `pixel` are what
the freshly allocated slots hold. -/
def init_pipeline (s : PpuSys X) (obj : OamObject) (pixel : GbcPixel) : PpuSys X :=
  { s with oam_fifo := init_queue OBJS_PER_SCANLINE obj,
           bgw_fifo := init_queue (2 * TILE_SIZE) pixel,
           obj_fifo := init_queue TILE_SIZE pixel }

/-- `init_ppu` (ppu.c:776): `blank` is the structure as `malloc` returned it,
the fields that are not assigned keep what it holds. -/
def init_ppu (blank : PPU) : PPU :=
  { blank with penalty := 0, sc_dot := 0, running := false, win_rendering := false,
               sc_rendering := false, stat_irq_line := false, lyc_irq := false }

/-! ### Runs of the PPU -/

/-- The results of `n` calls of `ppu_dot`: the returned `frame_ready` values in
order and the final state. -/
def ppu_dots (env : PpuEnv X) (fuel : Nat) (n : Nat) (s : PpuSys X) :
    Option (List Bool × PpuSys X) :=
  match n with
  | 0 => some ([], s)
  | n + 1 =>
    match ppu_dot env fuel s with
    | none => none
    | some r =>
      match ppu_dots env fuel n r.2 with
      | none => none
      | some rs => some (r.1 :: rs.1, rs.2)

/-! ### A concrete machine for evaluating the PPU and the DMA engines -/

/-- The hardware addresses of the registers of `IoMap`. -/
def hwIo : IoMap :=
  { DMA := 0xFF46, HDMA1 := 0xFF51, HDMA2 := 0xFF52, HDMA3 := 0xFF53, HDMA4 := 0xFF54,
    HDMA5 := 0xFF55, VBK := 0xFF4F, LCDC := 0xFF40, STAT := 0xFF41, LY := 0xFF44,
    LYC := 0xFF45, SCX := 0xFF43, SCY := 0xFF42, WX := 0xFF4B, WY := 0xFF4A,
    BGP := 0xFF47, OBP0 := 0xFF48, OBP1 := 0xFF49 }

/-- A concrete instance of the bus tables after `init_tables`, for the ranges
modelled here: VRAM and OAM with their handlers, `write_interrupt_flag` on IF,
`dma_handler` on DMA, `hdma_handler` on HDMA5, `default_read` /
`default_write` elsewhere and no read mask. -/
def mmuTables : MemoryTables (MmuDev Unit) :=
  { memory_read_table := fun a =>
      if 0x8000 ≤ a ∧ a < 0xA000 then read_vram 0xFF4F
      else if 0xFE00 ≤ a ∧ a < 0xFEA0 then read_oam
      else default_read
    memory_write_table := fun a =>
      if 0x8000 ≤ a ∧ a < 0xA000 then write_vram 0xFF4F
      else if 0xFE00 ≤ a ∧ a < 0xFEA0 then write_oam
      else if a = 0xFF0F then write_interrupt_flag 0xFF0F
      else if a = 0xFF46 then dma_handler 0xFF46
      else if a = 0xFF55 then hdma_handler hwIo
      else default_write
    memory_mask_table := fun _ => 0
    IFR := 0xFF0F
    IER := 0xFFFF
    KEY1 := 0xFF4D }

/-- The PPU environment of `mmuTables` and `hwIo`. -/
def hwEnv : PpuEnv Unit :=
  { bus := mmuTables, io := hwIo }

/-- A memory with the given `memory` array and OAM, empty VRAM and palette
RAM, nothing blocked and both transfer engines idle. -/
def mmuMem (memory : Nat → Nat) (oam : Nat → Nat) (is_gbc : Bool) : EmuMemory (MmuDev Unit) :=
  { memory := memory,
    dev := { oam := oam, vram := fun _ _ => 0, cram := fun _ => 0,
             oam_read_blocked := false, oam_write_blocked := false,
             vram_read_blocked := false, vram_write_blocked := false,
             dma := { active := false, src := 0, dst := 0, length := 0 },
             hdma := { active := false, src := 0, dst := 0, length := 0, mode := 0,
                       bytes_transferring := false, bytes_transferred := 0, counter := 0 },
             cart_is_gbc := is_gbc, rest := () } }

/-- A running CPU over the memory `mem`. -/
def lcdCpu (mem : EmuMemory (MmuDev Unit)) : CPU (MmuDev Unit) :=
  { ime_delay := 0, ime := false, ime_scheduled := false, speed_enabled := false,
    running := true, halted := false, halt_bug_active := false,
    reg := { A := 0x01, F := 0xB0, B := 0x00, C := 0x13, D := 0x00, E := 0xD8,
             H := 0x01, L := 0x4D, PC := 0x0100, SP := 0xFFFE },
    ins := { address := 0x0100, duration := 0, length := 1, low := 0, high := 0,
             opcode := 0, executed := true, cb_prefixed := false, handler := .main 0x00 },
    cart_is_gbc := mem.dev.cart_is_gbc, mem := mem }

/-- The PPU after `init_ppu` and `init_pipeline` with the LCD running, at dot
`dot` in mode `mode`, over the memory `mem`; the unassigned fields and the
queue slots hold zeros. -/
def lcdSys (mem : EmuMemory (MmuDev Unit)) (mode : PpuMode) (dot : Nat) : PpuSys Unit :=
  init_pipeline
    { ppu := { init_ppu
                { tile_considered := fun _ => false, mode := mode, sc_dot := 0, penalty := 0,
                  sc_tile := 0, lx := 0, init_sc := false, init_tile := false,
                  win_rendering := false, sc_rendering := false, frame_delay := false,
                  running := false, stat_irq_line := false, lyc_irq := false } with
               running := true, sc_dot := dot },
      cpu := lcdCpu mem,
      oam_fifo := init_queue 0 default, bgw_fifo := init_queue 0 default,
      obj_fifo := init_queue 0 default, gbc_lcd := fun _ => 0, stores := [] }
    default default

/-- The `memory` array holding the given register values and zero elsewhere. -/
def regMem (regs : List (Nat × Nat)) : Nat → Nat :=
  fun a => match regs.find? (fun r => r.1 = a) with
    | some r => r.2
    | none => 0

/-! ### The bus as the PPU needs it -/

/-- What `init_tables` and `core/mmu.h` provide and the PPU relies on: the
write handler of IF is `write_interrupt_flag`, and IF, STAT, LY and LYC are four
different addresses. -/
@[reducible] def ppu_wired (env : PpuEnv X) : Prop :=
  env.bus.memory_write_table env.bus.IFR = write_interrupt_flag env.bus.IFR ∧
  env.bus.IFR ≠ env.io.STAT ∧ env.bus.IFR ≠ env.io.LY ∧ env.bus.IFR ≠ env.io.LYC ∧
  env.io.STAT ≠ env.io.LY ∧ env.io.STAT ≠ env.io.LYC ∧ env.io.LY ≠ env.io.LYC

/-! ### Notions used to state and prove the properties of the OAM scan -/

/-- The object `oam_scan` builds from entry `i` of OAM: the four bytes the bus
returns at `OAM_START + 4 * i`. -/
def oam_entry (env : PpuEnv X) (mem : EmuMemory (MmuDev X)) (i : Nat) : OamObject :=
  oam_object (OAM_START + 4 * i)
    (read_memory env.bus mem (OAM_START + 4 * i))
    (read_memory env.bus mem (OAM_START + 4 * i + 1))
    (read_memory env.bus mem (OAM_START + 4 * i + 2))
    (read_memory env.bus mem (OAM_START + 4 * i + 3))

/-- The number of pairs of a list of objects that are out of order by X
position (an earlier object with a larger X than a later one). -/
def x_inversions : List OamObject → Nat
  | [] => 0
  | a :: l => (l.filter (fun b => decide (a.x > b.x))).length + x_inversions l

/-- The part of the state that the dot counter, the line counter and the
stores into the frame buffer depend on. -/
structure LcdCore where
  running : Bool
  sc_dot : Nat
  ly : Nat
  mode : PpuMode
  sc_rendering : Bool
  lx : Nat
  oam_fifo : Queue OamObject
  bgw_fifo : Queue GbcPixel
  obj_fifo : Queue GbcPixel
  stores : List Nat

/-- The `LcdCore` of a state. -/
def lcd_core (env : PpuEnv X) (s : PpuSys X) : LcdCore :=
  { running := s.ppu.running, sc_dot := s.ppu.sc_dot, ly := ppu_reg s env.io.LY,
    mode := s.ppu.mode, sc_rendering := s.ppu.sc_rendering, lx := s.ppu.lx,
    oam_fifo := s.oam_fifo, bgw_fifo := s.bgw_fifo, obj_fifo := s.obj_fifo,
    stores := s.stores }

/-- The shape `init_pipeline` gives the queues and the running PPU keeps: the
LCD runs, dot and line counters are in range, the OAM queue has 10 slots and at
most 10 objects, the object FIFO 8 slots, the background FIFO 16, and `lx` is
below 160 while a line is being rendered. -/
@[reducible] def lcd_inv (c : LcdCore) : Prop :=
  c.running = true ∧ c.sc_dot < 456 ∧ c.ly < 154 ∧
  c.oam_fifo.capacity = 10 ∧ c.oam_fifo.items.length = 10 ∧ c.oam_fifo.size ≤ 10 ∧
  c.obj_fifo.capacity = 8 ∧ c.bgw_fifo.capacity = 16 ∧
  (c.sc_rendering = true → c.lx < 160)

/-- A CGB memory like `mmuMem` whose palette RAM is `cram`. -/
def cramMem (memory : Nat → Nat) (cram : Nat → Nat) : EmuMemory (MmuDev Unit) :=
  { mmuMem memory (fun _ => 0) true with
    dev := { (mmuMem memory (fun _ => 0) true).dev with cram := cram } }

/-! ### The OAM locks in the running machine -/

abbrev UPPER_5_MASK : Nat := 0xF8
abbrev PERIOD_OVERFLOW : Nat := 0x07FF

/-- `wave_forms` (apu.c:13). -/
def wave_forms : List (List Nat) :=
  [[1, 1, 1, 1, 1, 1, 1, 0],
   [0, 1, 1, 1, 1, 1, 1, 0],
   [0, 1, 1, 1, 1, 0, 0, 0],
   [1, 0, 0, 0, 0, 0, 0, 1]]

/-- `dac_table` (apu.c:21). -/
def dac_table : List Int :=
  [32767, 28377, 23987, 19597,
   15207, 10817, 6427, 2037,
   -2353, -6743, -11133, -15523,
   -19913, -24303, -28693, -32768]

/-- `volume_table` (apu.c:29) in eighths: the `float` entry `i` of the source
is `volume_table[i] / 8` (0.125, 0.250, ..., 1.000), each a binary fraction. -/
def volume_table : List Int := [1, 2, 3, 4, 5, 6, 7, 8]

/-- `divisor_table` of `write_nr43` (apu.c:810). -/
def divisor_table : List Nat := [8, 16, 32, 48, 64, 80, 96, 112]

/-- `ChannelName` of apu.h. -/
inductive ChannelName where
  | PULSE_ONE
  | PULSE_TWO
  | WAVE
  | NOISE
  deriving DecidableEq, Repr

/-- A pointer `Channel *ch` into the APU: `&apu->ch1` .. `&apu->ch4`. -/
inductive ChannelRef where
  | ch1
  | ch2
  | ch3
  | ch4
  deriving DecidableEq, Repr

/-- `FrequencySweepUnit` of apu.h. -/
structure FrequencySweepUnit where
  calc_occured_negate_mode : Bool
  negate_mode : Bool
  freq_sweep_enabled : Bool
  freq_sweep_thresh : Nat
  freq_sweep_timer : Nat
  shadow : Nat

/-- `Channel` of apu.h; the pointers `nrx0` .. `nrx4` are the addresses of the
bytes of `mem->memory` they point to (`link_apu`). -/
structure Channel where
  name : ChannelName
  dac_enabled : Bool
  enabled : Bool
  output : Nat
  phase : Nat
  volume_envelope_enabled : Bool
  volume_envelope_timer : Nat
  length_timer_enabled : Bool
  length_timer : Nat
  volume : Nat
  step : Nat
  timer : Nat
  divider : Nat
  lfsr : Nat
  nrx0 : Nat
  nrx1 : Nat
  nrx2 : Nat
  nrx3 : Nat
  nrx4 : Nat

/-- `APU` of apu.h; the members `ch1` .. `ch4` are `ch .ch1` .. `ch .ch4`, the
pointers `nr50`, `nr51`, `nr52` are addresses into `mem->memory`. -/
structure APU where
  powered : Bool
  frame : Nat
  ch : ChannelRef → Channel
  fsu : FrequencySweepUnit
  nr50 : Nat
  nr51 : Nat
  nr52 : Nat

/-- The APU together with what its pointers reach: the array `mem->memory`,
the 16 bytes of `mem->wave_ram`, and the file-scope variable `noise_period`
of apu.c. -/
structure ApuSys where
  apu : APU
  memory : Nat → Nat
  wave_ram : Nat → Nat
  noise_period : Nat

/-- The audio register addresses `NR10` .. `NR52` and `WAVE_RAM_START` of
`core/mmu.h`; the header is not among the sources, so they are parameters. -/
structure ApuMap where
  NR10 : Nat
  NR11 : Nat
  NR12 : Nat
  NR13 : Nat
  NR14 : Nat
  NR20 : Nat
  NR21 : Nat
  NR22 : Nat
  NR23 : Nat
  NR24 : Nat
  NR30 : Nat
  NR31 : Nat
  NR32 : Nat
  NR33 : Nat
  NR34 : Nat
  NR40 : Nat
  NR41 : Nat
  NR42 : Nat
  NR43 : Nat
  NR44 : Nat
  NR50 : Nat
  NR51 : Nat
  NR52 : Nat
  WAVE_RAM_START : Nat

/-- The byte `*p` behind a register pointer. -/
def reg8 (s : ApuSys) (p : Nat) : Nat :=
  s.memory p % 256

/-- The store `*p = value` through a register pointer. -/
def store8 (s : ApuSys) (p : Nat) (value : Nat) : ApuSys :=
  { s with memory := fun a => if a = p then value else s.memory a }

/-- An update of the channel `*ch`. -/
def with_ch (s : ApuSys) (c : ChannelRef) (f : Channel → Channel) : ApuSys :=
  { s with apu := { s.apu with ch := fun x => if x = c then f (s.apu.ch c) else s.apu.ch x } }

/-- An update of `apu->fsu`. -/
def with_fsu (s : ApuSys) (f : FrequencySweepUnit → FrequencySweepUnit) : ApuSys :=
  { s with apu := { s.apu with fsu := f s.apu.fsu } }

/-- `sync_nr52` (apu.c:34). -/
def sync_nr52 (s : ApuSys) : ApuSys :=
  let nr52 := reg8 s s.apu.nr52 &&& BIT_7_MASK
  let nr52 := if (s.apu.ch .ch1).enabled then nr52 ||| BIT_0_MASK else nr52
  let nr52 := if (s.apu.ch .ch2).enabled then nr52 ||| BIT_1_MASK else nr52
  let nr52 := if (s.apu.ch .ch3).enabled then nr52 ||| BIT_2_MASK else nr52
  let nr52 := if (s.apu.ch .ch4).enabled then nr52 ||| BIT_3_MASK else nr52
  store8 s s.apu.nr52 nr52

/-- `enable_fsu` (apu.c:53). -/
def enable_fsu (s : ApuSys) : ApuSys :=
  with_fsu s (fun fsu => { fsu with freq_sweep_enabled := true })

/-- `disable_fsu` (apu.c:58). -/
def disable_fsu (s : ApuSys) : ApuSys :=
  with_fsu s (fun fsu => { fsu with freq_sweep_enabled := false })

/-- `disable_channel` (apu.c:63). -/
def disable_channel (s : ApuSys) (c : ChannelRef) : ApuSys :=
  let s := with_ch s c (fun ch =>
    { ch with output := 0, enabled := false, volume_envelope_enabled := false })
  let s := if (s.apu.ch c).name = .PULSE_ONE then disable_fsu s else s
  sync_nr52 s

/-- `get_period` (apu.c:75). -/
def get_period (s : ApuSys) (c : ChannelRef) : Nat :=
  let lower := reg8 s (s.apu.ch c).nrx3
  let upper := reg8 s (s.apu.ch c).nrx4 &&& LOWER_3_MASK
  ((upper <<< 8) ||| lower) % 65536

/-- `set_period` (apu.c:82); `~LOWER_3_MASK` on a byte is `0xF8`. -/
def set_period (s : ApuSys) (c : ChannelRef) (period : Nat) : ApuSys :=
  let s := store8 s (s.apu.ch c).nrx3 (period &&& LOWER_BYTE_MASK)
  store8 s (s.apu.ch c).nrx4
    (((reg8 s (s.apu.ch c).nrx4 &&& 0xF8) ||| ((period >>> 8) &&& LOWER_3_MASK)) % 256)

/-- `init_length` (apu.c:90). -/
def init_length (s : ApuSys) (c : ChannelRef) : Nat :=
  if (s.apu.ch c).name = .WAVE then 256 - reg8 s (s.apu.ch c).nrx1
  else 64 - (reg8 s (s.apu.ch c).nrx1 &&& LOWER_6_MASK)

/-- `length_timer` (apu.c:100). -/
def length_timer (s : ApuSys) (c : ChannelRef) : ApuSys :=
  if (s.apu.ch c).length_timer_enabled = false then s
  else
    let s :=
      if (s.apu.ch c).length_timer > 0 then
        with_ch s c (fun ch => { ch with length_timer := ch.length_timer - 1 })
      else s
    if (s.apu.ch c).length_timer = 0 then disable_channel s c else s

/-- `init_volume` (apu.c:113). -/
def init_volume (s : ApuSys) (c : ChannelRef) : Nat :=
  if (s.apu.ch c).name = .WAVE then (reg8 s (s.apu.ch c).nrx2 >>> 5) &&& LOWER_2_MASK
  else (reg8 s (s.apu.ch c).nrx2 >>> 4) &&& LOWER_4_MASK

/-- `volume_dir` (apu.c:121). -/
def volume_dir (s : ApuSys) (c : ChannelRef) : Bool :=
  decide (reg8 s (s.apu.ch c).nrx2 &&& BIT_3_MASK ≠ 0)

/-- `volume_pace` (apu.c:126). -/
def volume_pace (s : ApuSys) (c : ChannelRef) : Nat :=
  reg8 s (s.apu.ch c).nrx2 &&& LOWER_3_MASK

/-- `volume_envelope` (apu.c:131). -/
def volume_envelope (s : ApuSys) (c : ChannelRef) : ApuSys :=
  if (s.apu.ch c).volume_envelope_enabled = false then s
  else
    let pace := volume_pace s c
    let dir := volume_dir s c
    if pace = 0 then s
    else
      let s := with_ch s c (fun ch =>
        { ch with volume_envelope_timer := (ch.volume_envelope_timer + 1) % 256 })
      if (s.apu.ch c).volume_envelope_timer < pace then s
      else
        let s := with_ch s c (fun ch => { ch with volume_envelope_timer := 0 })
        if dir = true ∧ (s.apu.ch c).volume < 0x0F then
          let s := with_ch s c (fun ch => { ch with volume := (ch.volume + 1) % 256 })
          with_ch s c (fun ch => { ch with volume_envelope_enabled := decide (ch.volume ≠ 0x0F) })
        else if dir = false ∧ (s.apu.ch c).volume > 0 then
          let s := with_ch s c (fun ch => { ch with volume := ch.volume - 1 })
          with_ch s c (fun ch => { ch with volume_envelope_enabled := decide (ch.volume ≠ 0) })
        else s

/-- `sweep_pace` (apu.c:163). -/
def sweep_pace (s : ApuSys) : Nat :=
  (reg8 s (s.apu.ch .ch1).nrx0 >>> 4) &&& LOWER_3_MASK

/-- `sweep_dir` (apu.c:168). -/
def sweep_dir (s : ApuSys) : Bool :=
  decide (reg8 s (s.apu.ch .ch1).nrx0 &&& BIT_3_MASK ≠ 0)

/-- `sweep_step` (apu.c:173). -/
def sweep_step (s : ApuSys) : Nat :=
  reg8 s (s.apu.ch .ch1).nrx0 &&& LOWER_3_MASK

/-- `check_negate_latch_set` (apu.c:178). -/
def check_negate_latch_set (s : ApuSys) : ApuSys :=
  if s.apu.fsu.negate_mode = true ∧ s.apu.fsu.calc_occured_negate_mode = false then
    with_fsu s (fun fsu => { fsu with calc_occured_negate_mode := true })
  else s

/-- `check_negate_transition` (apu.c:184). -/
def check_negate_transition (s : ApuSys) : ApuSys :=
  let prev_negate_mode := s.apu.fsu.negate_mode
  let s := with_fsu s (fun fsu => { fsu with negate_mode := sweep_dir s })
  if sweep_pace s = 0 then
    with_fsu s (fun fsu => { fsu with calc_occured_negate_mode := false })
  else
    let s :=
      if s.apu.fsu.negate_mode = false ∧ prev_negate_mode = true ∧
          s.apu.fsu.calc_occured_negate_mode = true then
        disable_channel (disable_fsu s) .ch1
      else s
    if s.apu.fsu.negate_mode then
      with_fsu s (fun fsu => { fsu with calc_occured_negate_mode := false })
    else s

/-- `freq_sweep_calc` (apu.c:207); the result is a `uint16_t`. -/
def freq_sweep_calc (fsu : FrequencySweepUnit) (step : Nat) : Nat :=
  let period := fsu.shadow
  if step = 0 then period
  else
    let delta := period >>> step
    if fsu.negate_mode then (period - delta) % 65536 else (period + delta) % 65536

/-- `calc_overflow_check` (apu.c:220). -/
def calc_overflow_check (s : ApuSys) (step : Nat) : ApuSys :=
  let period := freq_sweep_calc s.apu.fsu step
  let s := check_negate_latch_set s
  if period > PERIOD_OVERFLOW then disable_channel (disable_fsu s) .ch1
  else
    let s := with_fsu s (fun fsu => { fsu with shadow := period })
    let s := set_period s .ch1 period
    let period := freq_sweep_calc s.apu.fsu step
    if period > PERIOD_OVERFLOW then disable_channel (disable_fsu s) .ch1
    else s

/-- `freq_sweep` (apu.c:248). -/
def freq_sweep (s : ApuSys) : ApuSys :=
  if s.apu.fsu.freq_sweep_enabled = false then s
  else
    let s := with_fsu s (fun fsu => { fsu with freq_sweep_timer := (fsu.freq_sweep_timer + 1) % 256 })
    if s.apu.fsu.freq_sweep_timer < s.apu.fsu.freq_sweep_thresh then s
    else
      let s := with_fsu s (fun fsu => { fsu with freq_sweep_timer := 0 })
      let pace := sweep_pace s
      let step := sweep_step s
      let s := with_fsu s (fun fsu => { fsu with freq_sweep_thresh := if pace = 0 then 8 else pace })
      if pace = 0 then s
      else
        let s :=
          if step = 0 ∧ s.apu.fsu.shadow = PERIOD_OVERFLOW then
            disable_channel (disable_fsu s) .ch1
          else s
        calc_overflow_check s step

/-- `clock_volume_envelopes` (apu.c:279). -/
def clock_volume_envelopes (s : ApuSys) : ApuSys :=
  let s := volume_envelope s .ch1
  let s := volume_envelope s .ch2
  volume_envelope s .ch4

/-- `clock_length_timers` (apu.c:286). -/
def clock_length_timers (s : ApuSys) : ApuSys :=
  let s := length_timer s .ch1
  let s := length_timer s .ch2
  let s := length_timer s .ch3
  length_timer s .ch4

/-- `div_apu_event` (apu.c:294). -/
def div_apu_event (s : ApuSys) : ApuSys :=
  if s.apu.powered = false then s
  else
    let s :=
      match s.apu.frame with
      | 0 => clock_length_timers s
      | 1 => s
      | 2 => clock_length_timers (freq_sweep s)
      | 3 => s
      | 4 => clock_length_timers s
      | 5 => s
      | 6 => clock_length_timers (freq_sweep s)
      | 7 => clock_volume_envelopes s
      | _ => s
    { s with apu := { s.apu with frame := (s.apu.frame + 1) % 8 } }

/-- `get_duty_cycle` (apu.c:337). -/
def get_duty_cycle (s : ApuSys) (c : ChannelRef) : Nat :=
  (reg8 s (s.apu.ch c).nrx1 >>> 6) &&& LOWER_2_MASK

/-- `clock_pulse_divider` (apu.c:342). -/
def clock_pulse_divider (s : ApuSys) (c : ChannelRef) : ApuSys :=
  let s := with_ch s c (fun ch => { ch with divider := (ch.divider + 1) % 65536 })
  if (s.apu.ch c).divider > PERIOD_OVERFLOW then
    let s := with_ch s c (fun ch => { ch with divider := get_period s c })
    let s := with_ch s c (fun ch => { ch with step := (ch.step + 1) % 8 })
    let wave_high :=
      decide (((wave_forms.getD (get_duty_cycle s c) []).getD (s.apu.ch c).step 0) ≠ 0)
    with_ch s c (fun ch => { ch with output := if wave_high then ch.volume else 0 })
  else s

/-- `clock_pulse_timer` (apu.c:355). -/
def clock_pulse_timer (s : ApuSys) (c : ChannelRef) : ApuSys :=
  if (s.apu.ch c).enabled = false then s
  else
    let s := with_ch s c (fun ch => { ch with timer := (ch.timer + 1) % 256 })
    if (s.apu.ch c).timer < 4 then s
    else
      let s := with_ch s c (fun ch => { ch with timer := 0 })
      clock_pulse_divider s c

/-- `apply_coarse_wave_volume` (apu.c:369). -/
def apply_coarse_wave_volume (s : ApuSys) (c : ChannelRef) : ApuSys :=
  match init_volume s c with
  | 0 => with_ch s c (fun ch => { ch with output := (ch.output * 0) % 256 })
  | 1 => with_ch s c (fun ch => { ch with output := (ch.output * 1) % 256 })
  | 2 => with_ch s c (fun ch => { ch with output := ch.output >>> 1 })
  | 3 => with_ch s c (fun ch => { ch with output := ch.output >>> 2 })
  | _ => s

/-- `advance_general_waveform` (apu.c:380). -/
def advance_general_waveform (s : ApuSys) (c : ChannelRef) : ApuSys :=
  let left_nibble := decide ((s.apu.ch c).step &&& BIT_0_MASK = 0)
  let index := (s.apu.ch c).step >>> 1
  let byte := s.wave_ram index % 256
  let s := with_ch s c (fun ch => { ch with output := if left_nibble then byte >>> 4 else byte })
  let s := with_ch s c (fun ch => { ch with output := ch.output &&& LOWER_4_MASK })
  let s := apply_coarse_wave_volume s c
  with_ch s c (fun ch => { ch with step := (ch.step + 1) % 32 })

/-- `clock_wave_divider` (apu.c:394). -/
def clock_wave_divider (s : ApuSys) (c : ChannelRef) : ApuSys :=
  let s := with_ch s c (fun ch => { ch with divider := (ch.divider + 1) % 65536 })
  if (s.apu.ch c).divider > PERIOD_OVERFLOW then
    let s := with_ch s c (fun ch => { ch with divider := get_period s c })
    advance_general_waveform s c
  else s

/-- `clock_wave_timer` (apu.c:405). -/
def clock_wave_timer (s : ApuSys) : ApuSys :=
  if (s.apu.ch .ch3).enabled = false then s
  else if (s.apu.ch .ch3).phase ≠ 0 then
    with_ch s .ch3 (fun ch => { ch with phase := ch.phase - 1 })
  else
    let s := with_ch s .ch3 (fun ch => { ch with timer := (ch.timer + 1) % 256 })
    if (s.apu.ch .ch3).timer < 2 then s
    else
      let s := with_ch s .ch3 (fun ch => { ch with timer := 0 })
      clock_wave_divider s .ch3

/-- `clock_lfsr` (apu.c:427); the local `nr43` is loaded through `ch->nrx4`, and
`~x` is taken on the 16 bits that `feedback` keeps. -/
def clock_lfsr (s : ApuSys) (c : ChannelRef) : ApuSys :=
  let nr43 := reg8 s (s.apu.ch c).nrx4
  let lfsr := (s.apu.ch c).lfsr
  let bit_0 := decide (lfsr &&& BIT_0_MASK ≠ 0)
  let bit_1 := decide ((lfsr >>> 1) &&& BIT_0_MASK ≠ 0)
  let feedback := (0xFFFF ^^^ (b2n bit_0 ^^^ b2n bit_1)) &&& BIT_0_MASK
  let lfsr := ((lfsr &&& 0x7FFF) ||| (feedback <<< 15)) % 65536
  let lfsr :=
    if nr43 &&& BIT_3_MASK ≠ 0 then ((lfsr &&& 0xFF7F) ||| (feedback <<< 7)) % 65536 else lfsr
  let lfsr := lfsr >>> 1
  let s := with_ch s c (fun ch => { ch with lfsr := lfsr })
  with_ch s c (fun ch => { ch with output := if feedback = 0 then 0 else ch.volume })

/-- `clock_noise_timer` (apu.c:447); `ch->timer` is a `uint8_t`. -/
def clock_noise_timer (s : ApuSys) : ApuSys :=
  if (s.apu.ch .ch4).enabled = false then s
  else
    let s := with_ch s .ch4 (fun ch => { ch with timer := (ch.timer + 1) % 256 })
    if (s.apu.ch .ch4).timer < s.noise_period then s
    else
      let s := with_ch s .ch4 (fun ch => { ch with timer := 0 })
      clock_lfsr s .ch4

/-- `apu_dot` (apu.c:463). -/
def apu_dot (s : ApuSys) : ApuSys :=
  let s := clock_pulse_timer s .ch1
  let s := clock_pulse_timer s .ch2
  let s := clock_wave_timer s
  clock_noise_timer s

/-- `length_enabled` (apu.c:473). -/
def length_enabled (s : ApuSys) (c : ChannelRef) : Bool :=
  decide (reg8 s (s.apu.ch c).nrx4 &&& BIT_6_MASK ≠ 0)

/-- `check_length_trigger` (apu.c:478). -/
def check_length_trigger (s : ApuSys) (c : ChannelRef) : ApuSys :=
  let prev_enabled := (s.apu.ch c).length_timer_enabled
  let s := with_ch s c (fun ch => { ch with length_timer_enabled := length_enabled s c })
  let first_period_half := decide (s.apu.frame % 2 = 1)
  if (s.apu.ch c).length_timer_enabled = true ∧ prev_enabled = false ∧
      first_period_half = true then
    length_timer s c
  else s

/-- `reset_length_timer` (apu.c:488). -/
def reset_length_timer (s : ApuSys) (c : ChannelRef) : ApuSys :=
  let s := with_ch s c (fun ch =>
    { ch with length_timer := if ch.name = .WAVE then 256 else 64 })
  let s := with_ch s c (fun ch => { ch with length_timer_enabled := false })
  check_length_trigger s c

/-- `channel_triggered` (apu.c:495). -/
def channel_triggered (s : ApuSys) (c : ChannelRef) : Bool :=
  decide (reg8 s (s.apu.ch c).nrx4 &&& BIT_7_MASK ≠ 0)

/-- `check_channel_trigger` (apu.c:500). -/
def check_channel_trigger (s : ApuSys) (c : ChannelRef) : ApuSys :=
  if channel_triggered s c = false then s
  else
    let s := with_ch s c (fun ch => { ch with enabled := ch.dac_enabled })
    let s := if (s.apu.ch c).length_timer = 0 then reset_length_timer s c else s
    let s := with_ch s c (fun ch => { ch with divider := get_period s c })
    let s := with_ch s c (fun ch =>
      { ch with volume_envelope_enabled := true, volume_envelope_timer := 0 })
    let s := with_ch s c (fun ch => { ch with volume := init_volume s c })
    let s := with_ch s c (fun ch => { ch with step := 0 })
    sync_nr52 s

/-- `ch_out_active` (apu.c:530). -/
def ch_out_active (s : ApuSys) (c : ChannelRef) (nr51 mask : Nat) : Bool :=
  decide (nr51 &&& mask ≠ 0) && (s.apu.ch c).dac_enabled

/-- One of the four `if (ch_out_active(...))` blocks of the samplers: the
running sum `output` and the count `active`; `none` when the index
`ch->output` is outside the 16 entries of `dac_table`. -/
def mix_channel (s : ApuSys) (c : ChannelRef) (panning mask : Nat) (acc : Int × Nat) :
    Option (Int × Nat) :=
  if ch_out_active s c panning mask then
    match dac_table.get? (s.apu.ch c).output with
    | some v => some (acc.1 + v, acc.2 + 1)
    | none => none
  else some acc

/-- The conversion `(int16_t) mixed` of an `int32_t`. -/
def to_int16 (x : Int) : Int :=
  (x + 32768) % 65536 - 32768

/-- The tail of both samplers (apu.c:569-574): `output / active` is a C integer
division, and its product with the `float` `volume_table[volume]` = k/8 is
exact in single precision (at most 2^15 in magnitude times k ≤ 8, three binary
places), so the conversion to `int32_t` truncates the exact quotient. -/
def mix_output (output : Int) (active : Nat) (volume : Nat) : Int :=
  if active = 0 then 0
  else
    let mixed := Int.tdiv (Int.tdiv output (active : Int) * volume_table.getD volume 0) 8
    to_int16 mixed

/-- The value `mixed` of the samplers before the conversion to `int16_t`. -/
def mix_value (output : Int) (active : Nat) (volume : Nat) : Int :=
  Int.tdiv (Int.tdiv output (active : Int) * volume_table.getD volume 0) 8

/-- `sample_left_channel` (apu.c:537). -/
def sample_left_channel (s : ApuSys) : Option Int :=
  let panning := reg8 s s.apu.nr51
  let volume := (reg8 s s.apu.nr50 >>> 4) &&& LOWER_3_MASK
  match mix_channel s .ch1 panning BIT_4_MASK (0, 0) with
  | none => none
  | some a1 =>
    match mix_channel s .ch2 panning BIT_5_MASK a1 with
    | none => none
    | some a2 =>
      match mix_channel s .ch3 panning BIT_6_MASK a2 with
      | none => none
      | some a3 =>
        match mix_channel s .ch4 panning BIT_7_MASK a3 with
        | none => none
        | some a4 => some (mix_output a4.1 a4.2 volume)

/-- `sample_right_channel` (apu.c:577). -/
def sample_right_channel (s : ApuSys) : Option Int :=
  let panning := reg8 s s.apu.nr51
  let volume := reg8 s s.apu.nr50 &&& LOWER_3_MASK
  match mix_channel s .ch1 panning BIT_0_MASK (0, 0) with
  | none => none
  | some a1 =>
    match mix_channel s .ch2 panning BIT_1_MASK a1 with
    | none => none
    | some a2 =>
      match mix_channel s .ch3 panning BIT_2_MASK a2 with
      | none => none
      | some a3 =>
        match mix_channel s .ch4 panning BIT_3_MASK a3 with
        | none => none
        | some a4 => some (mix_output a4.1 a4.2 volume)

/-- `write_nr10` (apu.c:619); the debug counter `iteration` is left out. -/
def write_nr10 (s : ApuSys) (value : Nat) : ApuSys :=
  let s := store8 s (s.apu.ch .ch1).nrx0 value
  check_negate_transition s

/-- `write_nr11` (apu.c:633), `write_nr21`, `write_nr31`, `write_nr41`: the
four functions differ in the channel only. -/
def write_nrx1 (s : ApuSys) (c : ChannelRef) (value : Nat) : ApuSys :=
  let s := store8 s (s.apu.ch c).nrx1 value
  with_ch s c (fun ch => { ch with length_timer := init_length s c })

/-- `write_nr12` (apu.c:641), `write_nr22`, `write_nr42`: the three functions
differ in the channel only. -/
def write_nrx2 (s : ApuSys) (c : ChannelRef) (value : Nat) : ApuSys :=
  let s := store8 s (s.apu.ch c).nrx2 value
  let s := with_ch s c (fun ch => { ch with dac_enabled := decide (value &&& UPPER_5_MASK ≠ 0) })
  if (s.apu.ch c).dac_enabled = false ∧ (s.apu.ch c).enabled = true then disable_channel s c
  else s

/-- `write_nr13` (apu.c:652), `write_nr23`, `write_nr33`. -/
def write_nrx3 (s : ApuSys) (c : ChannelRef) (value : Nat) : ApuSys :=
  store8 s (s.apu.ch c).nrx3 value

/-- `write_nr14` (apu.c:658). -/
def write_nr14 (s : ApuSys) (value : Nat) : ApuSys :=
  let s := store8 s (s.apu.ch .ch1).nrx4 value
  let s := check_length_trigger s .ch1
  let s := check_channel_trigger s .ch1
  let pace := sweep_pace s
  let step := sweep_step s
  if pace = 0 ∧ step = 0 then disable_fsu s
  else
    let s := enable_fsu s
    let s := with_fsu s (fun fsu => { fsu with shadow := get_period s .ch1 })
    let s := with_fsu s (fun fsu => { fsu with freq_sweep_thresh := if pace = 0 then 8 else pace })
    if step = 0 then s
    else
      let s := check_negate_latch_set s
      let period := freq_sweep_calc s.apu.fsu step
      if period > PERIOD_OVERFLOW then disable_channel (disable_fsu s) .ch1
      else s

/-- `write_nr20` (apu.c:697), `write_nr40`. -/
def write_nrx0 (s : ApuSys) (c : ChannelRef) (value : Nat) : ApuSys :=
  store8 s (s.apu.ch c).nrx0 value

/-- `write_nr24` (apu.c:728), `write_nr34`. -/
def write_nrx4 (s : ApuSys) (c : ChannelRef) (value : Nat) : ApuSys :=
  let s := store8 s (s.apu.ch c).nrx4 value
  let s := check_length_trigger s c
  check_channel_trigger s c

/-- `write_nr30` (apu.c:740). -/
def write_nr30 (s : ApuSys) (value : Nat) : ApuSys :=
  let s := store8 s (s.apu.ch .ch3).nrx0 value
  let s := with_ch s .ch3 (fun ch => { ch with dac_enabled := decide (value &&& BIT_7_MASK ≠ 0) })
  if (s.apu.ch .ch3).dac_enabled = false ∧ (s.apu.ch .ch3).enabled = true then
    disable_channel s .ch3
  else s

/-- `write_nr32` (apu.c:759). -/
def write_nr32 (s : ApuSys) (value : Nat) : ApuSys :=
  store8 s (s.apu.ch .ch3).nrx2 value

/-- `write_nr43` (apu.c:808); `noise_period` is a `uint16_t`. -/
def write_nr43 (s : ApuSys) (value : Nat) : ApuSys :=
  let s := store8 s (s.apu.ch .ch4).nrx3 value
  let step := (value >>> 4) &&& LOWER_4_MASK
  let div := value &&& LOWER_3_MASK
  { s with noise_period := ((divisor_table.getD div 0) <<< step) % 65536 }

/-- `write_nr44` (apu.c:822). -/
def write_nr44 (s : ApuSys) (value : Nat) : ApuSys :=
  let s := store8 s (s.apu.ch .ch4).nrx4 value
  let s := check_length_trigger s .ch4
  let s := check_channel_trigger s .ch4
  with_ch s .ch4 (fun ch => { ch with lfsr := 0 })

/-- `clear_channel` (apu.c:836). -/
def clear_channel (s : ApuSys) (c : ChannelRef) : ApuSys :=
  let s := store8 s (s.apu.ch c).nrx0 0
  let s := store8 s (s.apu.ch c).nrx1 0
  let s := store8 s (s.apu.ch c).nrx2 0
  let s := store8 s (s.apu.ch c).nrx3 0
  let s := store8 s (s.apu.ch c).nrx4 0
  with_ch s c (fun ch =>
    { ch with volume_envelope_enabled := false, length_timer_enabled := false,
              dac_enabled := false })

/-- `power_apu_on` (apu.c:848). -/
def power_apu_on (s : ApuSys) : ApuSys :=
  let s := { s with apu := { s.apu with powered := true, frame := 0 } }
  let s := with_ch s .ch1 (fun ch => { ch with timer := 0 })
  let s := with_ch s .ch2 (fun ch => { ch with timer := 0 })
  let s := with_ch s .ch3 (fun ch => { ch with timer := 0 })
  with_ch s .ch4 (fun ch => { ch with timer := 0 })

/-- `power_apu_off` (apu.c:857). -/
def power_apu_off (s : ApuSys) : ApuSys :=
  let s := disable_channel (clear_channel s .ch1) .ch1
  let s := disable_channel (clear_channel s .ch2) .ch2
  let s := disable_channel (clear_channel s .ch3) .ch3
  let s := disable_channel (clear_channel s .ch4) .ch4
  let s := store8 s s.apu.nr50 0
  store8 s s.apu.nr51 0

/-- `write_nr50` (apu.c:875). -/
def write_nr50 (s : ApuSys) (value : Nat) : ApuSys :=
  store8 s s.apu.nr50 value

/-- `write_nr51` (apu.c:879). -/
def write_nr51 (s : ApuSys) (value : Nat) : ApuSys :=
  store8 s s.apu.nr51 value

/-- `write_nr52` (apu.c:883). -/
def write_nr52 (s : ApuSys) (value : Nat) : ApuSys :=
  let s := store8 s s.apu.nr52 value
  let prev_powered := s.apu.powered
  let s := { s with apu := { s.apu with powered := decide (value &&& BIT_7_MASK ≠ 0) } }
  let s := if s.apu.powered = true ∧ prev_powered = false then power_apu_on s else s
  let s := if s.apu.powered = false ∧ prev_powered = true then power_apu_off s else s
  sync_nr52 s

/-- `write_audio_register` (apu.c:899); `value` is a `uint8_t`, the `case`
labels of the `switch` are tried in the order of the source. -/
def write_audio_register (io : ApuMap) (s : ApuSys) (address : Nat) (value : Nat) : ApuSys :=
  let value := value % 256
  if s.apu.powered = false ∧ address ≠ io.NR52 then s
  else if address = io.NR10 then write_nr10 s value
  else if address = io.NR11 then write_nrx1 s .ch1 value
  else if address = io.NR12 then write_nrx2 s .ch1 value
  else if address = io.NR13 then write_nrx3 s .ch1 value
  else if address = io.NR14 then write_nr14 s value
  else if address = io.NR20 then write_nrx0 s .ch2 value
  else if address = io.NR21 then write_nrx1 s .ch2 value
  else if address = io.NR22 then write_nrx2 s .ch2 value
  else if address = io.NR23 then write_nrx3 s .ch2 value
  else if address = io.NR24 then write_nrx4 s .ch2 value
  else if address = io.NR30 then write_nr30 s value
  else if address = io.NR31 then write_nrx1 s .ch3 value
  else if address = io.NR32 then write_nr32 s value
  else if address = io.NR33 then write_nrx3 s .ch3 value
  else if address = io.NR34 then write_nrx4 s .ch3 value
  else if address = io.NR40 then write_nrx0 s .ch4 value
  else if address = io.NR41 then write_nrx1 s .ch4 value
  else if address = io.NR42 then write_nrx2 s .ch4 value
  else if address = io.NR43 then write_nr43 s value
  else if address = io.NR44 then write_nr44 s value
  else if address = io.NR50 then write_nr50 s value
  else if address = io.NR51 then write_nr51 s value
  else if address = io.NR52 then write_nr52 s value
  else s

/-- `init_apu` (apu.c:987): the zeroed structure with the four names. -/
def init_apu : APU :=
  let ch (n : ChannelName) : Channel :=
    { name := n, dac_enabled := false, enabled := false, output := 0, phase := 0,
      volume_envelope_enabled := false, volume_envelope_timer := 0,
      length_timer_enabled := false, length_timer := 0, volume := 0, step := 0, timer := 0,
      divider := 0, lfsr := 0, nrx0 := 0, nrx1 := 0, nrx2 := 0, nrx3 := 0, nrx4 := 0 }
  { powered := false, frame := 0,
    ch := (fun c =>
      match c with
      | .ch1 => ch .PULSE_ONE
      | .ch2 => ch .PULSE_TWO
      | .ch3 => ch .WAVE
      | .ch4 => ch .NOISE),
    fsu := { calc_occured_negate_mode := false, negate_mode := false,
             freq_sweep_enabled := false, freq_sweep_thresh := 0, freq_sweep_timer := 0,
             shadow := 0 },
    nr50 := 0, nr51 := 0, nr52 := 0 }

/-- `link_apu` (apu.c:938): the register pointers. -/
def link_apu (io : ApuMap) (apu : APU) : APU :=
  { apu with
    ch := (fun c =>
      match c with
      | .ch1 => { apu.ch .ch1 with
          nrx0 := io.NR10, nrx1 := io.NR11, nrx2 := io.NR12, nrx3 := io.NR13, nrx4 := io.NR14 }
      | .ch2 => { apu.ch .ch2 with
          nrx0 := io.NR20, nrx1 := io.NR21, nrx2 := io.NR22, nrx3 := io.NR23, nrx4 := io.NR24 }
      | .ch3 => { apu.ch .ch3 with
          nrx0 := io.NR30, nrx1 := io.NR31, nrx2 := io.NR32, nrx3 := io.NR33, nrx4 := io.NR34 }
      | .ch4 => { apu.ch .ch4 with
          nrx0 := io.NR40, nrx1 := io.NR41, nrx2 := io.NR42, nrx3 := io.NR43, nrx4 := io.NR44 }),
    nr50 := io.NR50, nr51 := io.NR51, nr52 := io.NR52 }

/-- `read_wave_ram` (mmu.c:312); `address` is a `uint16_t`. -/
def read_wave_ram (io : ApuMap) (s : ApuSys) (address : Nat) : Nat :=
  s.wave_ram ((address + 65536 - io.WAVE_RAM_START % 65536) % 65536)

/-- `write_wave_ram` (mmu.c:318). -/
def write_wave_ram (io : ApuMap) (s : ApuSys) (address : Nat) (value : Nat) : ApuSys :=
  { s with wave_ram := fun a =>
      if a = (address + 65536 - io.WAVE_RAM_START % 65536) % 65536 then value % 256
      else s.wave_ram a }

/-- `write_audio` (mmu.c:307). -/
def write_audio (io : ApuMap) (s : ApuSys) (address : Nat) (value : Nat) : ApuSys :=
  write_audio_register io s address value

/-! ### The APU as a machine -/

/-- What reaches the APU after initialisation: a bus write to an audio register
(`write_audio`), a bus write to wave RAM (`write_wave_ram`), an event of the
DIV-APU counter (`div_apu_event`, from `check_apu_event` of timer.c), a dot
(`apu_dot`), and a store into `mem->memory` by another component. -/
inductive ApuEvent where
  | write (address : Nat) (value : Nat)
  | wave (address : Nat) (value : Nat)
  | div_apu
  | dot
  | other (address : Nat) (value : Nat)

/-- The effect of one event. -/
def apu_step (io : ApuMap) (s : ApuSys) (e : ApuEvent) : ApuSys :=
  match e with
  | .write address value => write_audio io s address value
  | .wave address value => write_wave_ram io s address value
  | .div_apu => div_apu_event s
  | .dot => apu_dot s
  | .other address value => store8 s address (value % 256)

/-- The effect of a sequence of events, first event first. -/
def apu_run (io : ApuMap) (s : ApuSys) (events : List ApuEvent) : ApuSys :=
  events.foldl (apu_step io) s

/-- The APU after `init_apu` and `link_apu`, over the given memory and wave
RAM, with `noise_period` at its initial value 8. -/
def apu_init (io : ApuMap) (memory wave_ram : Nat → Nat) : ApuSys :=
  { apu := link_apu io init_apu, memory := memory, wave_ram := wave_ram, noise_period := 8 }

/-- The hardware addresses of the audio registers (0xFF10 .. 0xFF26) and of
wave RAM (0xFF30), for evaluating the model. -/
def hwApu : ApuMap :=
  { NR10 := 0xFF10, NR11 := 0xFF11, NR12 := 0xFF12, NR13 := 0xFF13, NR14 := 0xFF14,
    NR20 := 0xFF15, NR21 := 0xFF16, NR22 := 0xFF17, NR23 := 0xFF18, NR24 := 0xFF19,
    NR30 := 0xFF1A, NR31 := 0xFF1B, NR32 := 0xFF1C, NR33 := 0xFF1D, NR34 := 0xFF1E,
    NR40 := 0xFF1F, NR41 := 0xFF20, NR42 := 0xFF21, NR43 := 0xFF22, NR44 := 0xFF23,
    NR50 := 0xFF24, NR51 := 0xFF25, NR52 := 0xFF26, WAVE_RAM_START := 0xFF30 }

/-- The state after `n` calls of `apu_dot`. -/
def apu_dots (n : Nat) (s : ApuSys) : ApuSys :=
  match n with
  | 0 => s
  | n + 1 => apu_dots n (apu_dot s)

/-- The number of DIV-APU events in a sequence of events. -/
def div_apu_count (events : List ApuEvent) : Nat :=
  (events.filter (fun e => match e with
    | .div_apu => true
    | _ => false)).length

/-! ### Invariants and frames of the APU -/

/-- What holds of every channel in every reachable state: a disabled channel
has output 0, a channel whose DAC is off is disabled, and volume and output
are 4-bit values. -/
def chan_ok (ch : Channel) : Prop :=
  (ch.enabled = false → ch.output = 0) ∧ (ch.dac_enabled = false → ch.enabled = false) ∧
    ch.volume ≤ 15 ∧ ch.output ≤ 15

/-- All four channels satisfy `chan_ok`. -/
def apu_ok (s : ApuSys) : Prop :=
  ∀ c, chan_ok (s.apu.ch c)

/-- The state `t` has the power flag and the sequencer step of `s`, and every
channel that satisfied `chan_ok` in `s` satisfies it in `t`. -/
def step_ok (s t : ApuSys) : Prop :=
  t.apu.powered = s.apu.powered ∧ t.apu.frame = s.apu.frame ∧
    ∀ x, chan_ok (s.apu.ch x) → chan_ok (t.apu.ch x)

/-- The state `t` differs from `s` at most in the channel `c`. -/
def only_ch (c : ChannelRef) (s t : ApuSys) : Prop :=
  t.memory = s.memory ∧ t.wave_ram = s.wave_ram ∧ t.noise_period = s.noise_period ∧
    t.apu.fsu = s.apu.fsu ∧ t.apu.powered = s.apu.powered ∧ t.apu.frame = s.apu.frame ∧
    ∀ x, x ≠ c → t.apu.ch x = s.apu.ch x

/-- The state `t` has the DAC flags of `s`, and every channel disabled in `s`
is disabled in `t`. -/
def dac_kept (s t : ApuSys) : Prop :=
  ∀ x, (t.apu.ch x).dac_enabled = (s.apu.ch x).dac_enabled ∧
    ((s.apu.ch x).enabled = false → (t.apu.ch x).enabled = false)

/-- What a step of the frame sequencer leaves alone in going from `s` to `t`:
the length counters when `len` is set, the volumes and the envelope timers
when `env` is set, the sweep timer when `swp` is set. -/
def seq_kept (len env swp : Bool) (s t : ApuSys) : Prop :=
  (swp = true → t.apu.fsu.freq_sweep_timer = s.apu.fsu.freq_sweep_timer) ∧
    ∀ x, (len = true → (t.apu.ch x).length_timer = (s.apu.ch x).length_timer) ∧
      (env = true → (t.apu.ch x).volume = (s.apu.ch x).volume ∧
        (t.apu.ch x).volume_envelope_timer = (s.apu.ch x).volume_envelope_timer)

/-- The state with the sequencer step advanced, as at the end of
`div_apu_event`. -/
def next_frame (s : ApuSys) : ApuSys :=
  { s with apu := { s.apu with frame := (s.apu.frame + 1) % 8 } }

/-- The event is not a bus write to the register at `address`. -/
def not_write_to (address : Nat) (e : ApuEvent) : Prop :=
  match e with
  | .write a _ => a ≠ address
  | _ => True

/-- The five register addresses of a channel, as `link_apu` assigns them. -/
def channel_regs (io : ApuMap) (c : ChannelRef) : List Nat :=
  match c with
  | .ch1 => [io.NR10, io.NR11, io.NR12, io.NR13, io.NR14]
  | .ch2 => [io.NR20, io.NR21, io.NR22, io.NR23, io.NR24]
  | .ch3 => [io.NR30, io.NR31, io.NR32, io.NR33, io.NR34]
  | .ch4 => [io.NR40, io.NR41, io.NR42, io.NR43, io.NR44]

/-- The addresses NR10 .. NR51: the registers of the four channels, NR50 and
NR51. -/
def audio_regs (io : ApuMap) : List Nat :=
  channel_regs io .ch1 ++ channel_regs io .ch2 ++ channel_regs io .ch3 ++
    channel_regs io .ch4 ++ [io.NR50, io.NR51]

/-- The register pointers of the state are those `link_apu` sets. -/
def apu_linked (io : ApuMap) (s : ApuSys) : Prop :=
  s.apu.nr50 = io.NR50 ∧ s.apu.nr51 = io.NR51 ∧ s.apu.nr52 = io.NR52 ∧
    ∀ c, [(s.apu.ch c).nrx0, (s.apu.ch c).nrx1, (s.apu.ch c).nrx2, (s.apu.ch c).nrx3,
      (s.apu.ch c).nrx4] = channel_regs io c

/-! ## PCM ring buffer (`include/util/ring_buffer.h`) -/

/-- `RING_BUFFER_CAPACITY` (ring_buffer.h:8). -/
abbrev RING_BUFFER_CAPACITY : Nat := 65536

/-- `RingBuffer` of ring_buffer.h; the samples are `int16_t`. -/
structure RingBuffer where
  data : Nat → Int
  read_pos : Nat
  write_pos : Nat
  size : Int

/-- `ring_buffer_empty` (ring_buffer.h:20). -/
def ring_buffer_empty (rb : RingBuffer) : Bool :=
  decide (rb.write_pos = rb.read_pos)

/-- `reset_ring_buffer` (ring_buffer.h:25). -/
def reset_ring_buffer (rb : RingBuffer) : RingBuffer :=
  { rb with write_pos := 0, read_pos := 0, size := 0 }

/-- `ring_buffer_write` (ring_buffer.h:32): the result and the buffer. -/
def ring_buffer_write (rb : RingBuffer) (sample : Int) : Bool × RingBuffer :=
  let next := (rb.write_pos + 1) % RING_BUFFER_CAPACITY
  if next = rb.read_pos then (false, rb)
  else
    (true, { rb with
      size := rb.size + 1
      data := fun i => if i = rb.write_pos then sample else rb.data i
      write_pos := next })

/-- `ring_buffer_read` (ring_buffer.h:46): the result, the sample stored
through the pointer (if any), and the buffer. -/
def ring_buffer_read (rb : RingBuffer) : Bool × Option Int × RingBuffer :=
  if ring_buffer_empty rb then (false, none, rb)
  else
    (true, some (rb.data rb.read_pos),
      { rb with size := rb.size - 1, read_pos := (rb.read_pos + 1) % RING_BUFFER_CAPACITY })

/-- The two stores at the end of `audio_sample_pulse` (gizmo.c:249-252): the
left sample, then the right one if the left one was stored. -/
def store_samples (rb : RingBuffer) (left_sample right_sample : Int) : Bool × RingBuffer :=
  let r := ring_buffer_write rb left_sample
  if r.1 then
    let r2 := ring_buffer_write r.2 right_sample
    (r.1 && r2.1, r2.2)
  else r

/-- The samples the buffer holds, oldest first: those at the positions from
`read_pos` up to `write_pos`, cyclically. -/
def ring_contents (rb : RingBuffer) : List Int :=
  (List.range ((rb.write_pos + RING_BUFFER_CAPACITY - rb.read_pos) % RING_BUFFER_CAPACITY)).map
    (fun i => rb.data ((rb.read_pos + i) % RING_BUFFER_CAPACITY))

/-- The buffer holds `RING_BUFFER_CAPACITY - 1` samples: a write finds no room. -/
def ring_full (rb : RingBuffer) : Prop :=
  (rb.write_pos + 1) % RING_BUFFER_CAPACITY = rb.read_pos

/-! ## Sorting the selected objects by X (specification of `sort_oam_by_xpos`) -/

/-- A list of objects is in ascending order of X. -/
def x_sorted (l : List OamObject) : Prop :=
  l.Pairwise (fun a b => a.x ≤ b.x)

/-- The objects of `l2` with a given X are those of `l1` with that X, in the
same order: objects of equal X keep their relative order. -/
def same_x_order (l1 l2 : List OamObject) : Prop :=
  ∀ v, l2.filter (fun o => decide (o.x = v)) = l1.filter (fun o => decide (o.x = v))

/-- Specification: the insertion step of a stable insertion sort by X. The
object goes behind every object that is not strictly to its right, that is
before the first object with a larger X. -/
def insert_by_x (o : OamObject) : List OamObject → List OamObject
  | [] => [o]
  | b :: l => if o.x < b.x then o :: b :: l else b :: insert_by_x o l

/-- Specification: stable insertion sort by X. The objects are inserted one by
one, from the first to the last, into the sorted list of their predecessors. -/
def stable_sort_by_x (l : List OamObject) : List OamObject :=
  l.foldl (fun acc o => insert_by_x o acc) []

/-! ## A machine with several interrupts pending -/

/-- A running machine at an instruction boundary with IME = 1, the byte `iflag`
in IF (0xFF0F) and the byte `ie` in IE (0xFFFF), PC = 0x0150 and SP = 0xFFFE. -/
def pendingCpu (iflag ie : Nat) : CPU Unit :=
  { bootCpu (poke (poke (memOf 0 []) 0xFF0F iflag) 0xFFFF ie) with
    ime := true
    reg := { (bootCpu (memOf 0 [])).reg with PC := 0x0150, SP := 0xFFFE } }

set_option linter.unusedTactic false
set_option linter.unreachableTactic false

/-! ## Frame lemmas

`F` keeps a zero low nibble through every primitive, and the interrupt-master
latches (`ime`, `ime_scheduled`, `ime_delay`) are only touched by `di`, `ei`,
`reti` and the sequencing code. -/

theorem and_F0_0F (v : Nat) : (v &&& 0xF0) &&& 0x0F = 0 := by
  rw [Nat.and_assoc]
  have h : (0xF0 &&& 0x0F : Nat) = 0 := by decide
  rw [h]; exact Nat.and_zero v

@[simp] theorem write_flag_reg_ime (cpu : CPU D) (v : Nat) :
    (write_flag_reg cpu v).ime = cpu.ime ∧ (write_flag_reg cpu v).ime_scheduled = cpu.ime_scheduled ∧
      (write_flag_reg cpu v).ime_delay = cpu.ime_delay := by
  simp [write_flag_reg]

@[simp] theorem write_flag_reg_F (cpu : CPU D) (v : Nat) :
    (write_flag_reg cpu v).reg.F &&& 0x0F = 0 := by
  simp only [write_flag_reg]; exact and_F0_0F v

@[simp] theorem set_flag_ime (cpu : CPU D) (b : Bool) (m : Nat) :
    (set_flag cpu b m).ime = cpu.ime ∧ (set_flag cpu b m).ime_scheduled = cpu.ime_scheduled ∧
      (set_flag cpu b m).ime_delay = cpu.ime_delay := by
  simp [set_flag]

@[simp] theorem set_flag_F (cpu : CPU D) (b : Bool) (m : Nat) :
    (set_flag cpu b m).reg.F &&& 0x0F = 0 := by
  simp [set_flag]

@[simp] theorem fetch_ime (t : MemoryTables D) (cpu : CPU D) :
    ((fetch t cpu).2).ime = cpu.ime ∧ ((fetch t cpu).2).ime_scheduled = cpu.ime_scheduled ∧
      ((fetch t cpu).2).ime_delay = cpu.ime_delay := by
  unfold fetch
  repeat' split
  all_goals simp

@[simp] theorem fetch_F (t : MemoryTables D) (cpu : CPU D) :
    ((fetch t cpu).2).reg.F = cpu.reg.F := by
  unfold fetch
  repeat' split
  all_goals simp

@[simp] theorem setDR_HL_ime (cpu : CPU D) (v : Nat) :
    (setDR cpu .HL_REG v).ime = cpu.ime ∧ (setDR cpu .HL_REG v).ime_scheduled = cpu.ime_scheduled ∧
      (setDR cpu .HL_REG v).ime_delay = cpu.ime_delay := by
  simp [setDR]

@[simp] theorem setDR_HL_F (cpu : CPU D) (v : Nat) :
    (setDR cpu .HL_REG v).reg.F = cpu.reg.F := by
  simp [setDR]

@[simp] theorem pop_stack_ime (t : MemoryTables D) (cpu : CPU D) :
    ((pop_stack t cpu).2).ime = cpu.ime ∧ ((pop_stack t cpu).2).ime_scheduled = cpu.ime_scheduled ∧
      ((pop_stack t cpu).2).ime_delay = cpu.ime_delay := by
  simp [pop_stack]

@[simp] theorem pop_stack_F (t : MemoryTables D) (cpu : CPU D) :
    ((pop_stack t cpu).2).reg.F = cpu.reg.F := by
  simp [pop_stack]

@[simp] theorem push_stack_ime (t : MemoryTables D) (cpu : CPU D) (v : Nat) :
    (push_stack t cpu v).ime = cpu.ime ∧ (push_stack t cpu v).ime_scheduled = cpu.ime_scheduled ∧
      (push_stack t cpu v).ime_delay = cpu.ime_delay := by
  simp [push_stack]

@[simp] theorem push_stack_F (t : MemoryTables D) (cpu : CPU D) (v : Nat) :
    (push_stack t cpu v).reg.F = cpu.reg.F := by
  simp [push_stack]

@[simp] theorem encode_interrupt_ime (cpu : CPU D) (p : Nat) :
    (encode_interrupt cpu p).ime = cpu.ime ∧ (encode_interrupt cpu p).ime_scheduled = cpu.ime_scheduled ∧
      (encode_interrupt cpu p).ime_delay = cpu.ime_delay := by
  unfold encode_interrupt
  repeat' split
  all_goals simp

@[simp] theorem encode_interrupt_F (cpu : CPU D) (p : Nat) :
    (encode_interrupt cpu p).reg.F = cpu.reg.F := by
  unfold encode_interrupt
  repeat' split
  all_goals simp

@[simp] theorem reg_inc_16_ime (cpu : CPU D) (dr : DualRegister) :
    (reg_inc_16 cpu dr).ime = cpu.ime ∧ (reg_inc_16 cpu dr).ime_scheduled = cpu.ime_scheduled ∧
      (reg_inc_16 cpu dr).ime_delay = cpu.ime_delay := by
  cases dr <;> simp [reg_inc_16] <;> (try split) <;> simp

@[simp] theorem reg_inc_16_F (cpu : CPU D) (dr : DualRegister) :
    (reg_inc_16 cpu dr).reg.F = cpu.reg.F := by
  cases dr <;> simp [reg_inc_16] <;> (try split) <;> simp

@[simp] theorem reg_dec_16_ime (cpu : CPU D) (dr : DualRegister) :
    (reg_dec_16 cpu dr).ime = cpu.ime ∧ (reg_dec_16 cpu dr).ime_scheduled = cpu.ime_scheduled ∧
      (reg_dec_16 cpu dr).ime_delay = cpu.ime_delay := by
  cases dr <;> simp [reg_dec_16] <;> (try split) <;> simp

@[simp] theorem reg_dec_16_F (cpu : CPU D) (dr : DualRegister) :
    (reg_dec_16 cpu dr).reg.F = cpu.reg.F := by
  cases dr <;> simp [reg_dec_16] <;> (try split) <;> simp

@[simp] theorem write_reg8_ime (cpu : CPU D) (r : Reg8) (v : Nat) :
    (write_reg8 cpu r v).ime = cpu.ime ∧ (write_reg8 cpu r v).ime_scheduled = cpu.ime_scheduled ∧
      (write_reg8 cpu r v).ime_delay = cpu.ime_delay := by
  cases r <;> simp [write_reg8] <;> (try split) <;> simp

@[simp] theorem write_reg8_F (cpu : CPU D) (r : Reg8) (v : Nat) :
    (write_reg8 cpu r v).reg.F = cpu.reg.F := by
  cases r <;> simp [write_reg8] <;> (try split) <;> simp

@[simp] theorem reg_inc_8_ime (cpu : CPU D) (r : Nat) :
    ((reg_inc_8 cpu r).2).ime = cpu.ime ∧ ((reg_inc_8 cpu r).2).ime_scheduled = cpu.ime_scheduled ∧
      ((reg_inc_8 cpu r).2).ime_delay = cpu.ime_delay := by
  simp [reg_inc_8]

@[simp] theorem reg_inc_8_F (cpu : CPU D) (r : Nat) :
    ((reg_inc_8 cpu r).2).reg.F &&& 0x0F = 0 := by
  simp [reg_inc_8]

@[simp] theorem reg_dec_8_ime (cpu : CPU D) (r : Nat) :
    ((reg_dec_8 cpu r).2).ime = cpu.ime ∧ ((reg_dec_8 cpu r).2).ime_scheduled = cpu.ime_scheduled ∧
      ((reg_dec_8 cpu r).2).ime_delay = cpu.ime_delay := by
  simp [reg_dec_8]

@[simp] theorem reg_dec_8_F (cpu : CPU D) (r : Nat) :
    ((reg_dec_8 cpu r).2).reg.F &&& 0x0F = 0 := by
  simp [reg_dec_8]

@[simp] theorem reg_add_16_ime (cpu : CPU D) (a b : Nat) :
    ((reg_add_16 cpu a b).2).ime = cpu.ime ∧ ((reg_add_16 cpu a b).2).ime_scheduled = cpu.ime_scheduled ∧
      ((reg_add_16 cpu a b).2).ime_delay = cpu.ime_delay := by
  simp [reg_add_16]

@[simp] theorem reg_add_16_F (cpu : CPU D) (a b : Nat) :
    ((reg_add_16 cpu a b).2).reg.F &&& 0x0F = 0 := by
  simp [reg_add_16]

@[simp] theorem reg_add_8_ime (cpu : CPU D) (a b : Nat) :
    ((reg_add_8 cpu a b).2).ime = cpu.ime ∧ ((reg_add_8 cpu a b).2).ime_scheduled = cpu.ime_scheduled ∧
      ((reg_add_8 cpu a b).2).ime_delay = cpu.ime_delay := by
  simp [reg_add_8]

@[simp] theorem reg_add_8_F (cpu : CPU D) (a b : Nat) :
    ((reg_add_8 cpu a b).2).reg.F &&& 0x0F = 0 := by
  simp [reg_add_8]

@[simp] theorem reg_adc_8_ime (cpu : CPU D) (a b : Nat) :
    ((reg_adc_8 cpu a b).2).ime = cpu.ime ∧ ((reg_adc_8 cpu a b).2).ime_scheduled = cpu.ime_scheduled ∧
      ((reg_adc_8 cpu a b).2).ime_delay = cpu.ime_delay := by
  simp [reg_adc_8]

@[simp] theorem reg_adc_8_F (cpu : CPU D) (a b : Nat) :
    ((reg_adc_8 cpu a b).2).reg.F &&& 0x0F = 0 := by
  simp [reg_adc_8]

@[simp] theorem reg_sub_8_ime (cpu : CPU D) (a b : Nat) :
    ((reg_sub_8 cpu a b).2).ime = cpu.ime ∧ ((reg_sub_8 cpu a b).2).ime_scheduled = cpu.ime_scheduled ∧
      ((reg_sub_8 cpu a b).2).ime_delay = cpu.ime_delay := by
  simp [reg_sub_8]

@[simp] theorem reg_sub_8_F (cpu : CPU D) (a b : Nat) :
    ((reg_sub_8 cpu a b).2).reg.F &&& 0x0F = 0 := by
  simp [reg_sub_8]

@[simp] theorem reg_sbc_8_ime (cpu : CPU D) (a b : Nat) :
    ((reg_sbc_8 cpu a b).2).ime = cpu.ime ∧ ((reg_sbc_8 cpu a b).2).ime_scheduled = cpu.ime_scheduled ∧
      ((reg_sbc_8 cpu a b).2).ime_delay = cpu.ime_delay := by
  simp [reg_sbc_8]

@[simp] theorem reg_sbc_8_F (cpu : CPU D) (a b : Nat) :
    ((reg_sbc_8 cpu a b).2).reg.F &&& 0x0F = 0 := by
  simp [reg_sbc_8]

@[simp] theorem reg_and_8_ime (cpu : CPU D) (a b : Nat) :
    ((reg_and_8 cpu a b).2).ime = cpu.ime ∧ ((reg_and_8 cpu a b).2).ime_scheduled = cpu.ime_scheduled ∧
      ((reg_and_8 cpu a b).2).ime_delay = cpu.ime_delay := by
  simp [reg_and_8]

@[simp] theorem reg_and_8_F (cpu : CPU D) (a b : Nat) :
    ((reg_and_8 cpu a b).2).reg.F &&& 0x0F = 0 := by
  simp [reg_and_8]

@[simp] theorem reg_xor_8_ime (cpu : CPU D) (a b : Nat) :
    ((reg_xor_8 cpu a b).2).ime = cpu.ime ∧ ((reg_xor_8 cpu a b).2).ime_scheduled = cpu.ime_scheduled ∧
      ((reg_xor_8 cpu a b).2).ime_delay = cpu.ime_delay := by
  simp [reg_xor_8]

@[simp] theorem reg_xor_8_F (cpu : CPU D) (a b : Nat) :
    ((reg_xor_8 cpu a b).2).reg.F &&& 0x0F = 0 := by
  simp [reg_xor_8]

@[simp] theorem reg_or_8_ime (cpu : CPU D) (a b : Nat) :
    ((reg_or_8 cpu a b).2).ime = cpu.ime ∧ ((reg_or_8 cpu a b).2).ime_scheduled = cpu.ime_scheduled ∧
      ((reg_or_8 cpu a b).2).ime_delay = cpu.ime_delay := by
  simp [reg_or_8]

@[simp] theorem reg_or_8_F (cpu : CPU D) (a b : Nat) :
    ((reg_or_8 cpu a b).2).reg.F &&& 0x0F = 0 := by
  simp [reg_or_8]

@[simp] theorem reg_cp_8_ime (cpu : CPU D) (a b : Nat) :
    (reg_cp_8 cpu a b).ime = cpu.ime ∧ (reg_cp_8 cpu a b).ime_scheduled = cpu.ime_scheduled ∧
      (reg_cp_8 cpu a b).ime_delay = cpu.ime_delay := by
  simp [reg_cp_8]

@[simp] theorem reg_cp_8_F (cpu : CPU D) (a b : Nat) :
    (reg_cp_8 cpu a b).reg.F &&& 0x0F = 0 := by
  simp [reg_cp_8]

@[simp] theorem reg_rlc_8_ime (cpu : CPU D) (r : Nat) :
    ((reg_rlc_8 cpu r).2).ime = cpu.ime ∧ ((reg_rlc_8 cpu r).2).ime_scheduled = cpu.ime_scheduled ∧
      ((reg_rlc_8 cpu r).2).ime_delay = cpu.ime_delay := by
  simp [reg_rlc_8]

@[simp] theorem reg_rlc_8_F (cpu : CPU D) (r : Nat) :
    ((reg_rlc_8 cpu r).2).reg.F &&& 0x0F = 0 := by
  simp [reg_rlc_8]

@[simp] theorem reg_rrc_8_ime (cpu : CPU D) (r : Nat) :
    ((reg_rrc_8 cpu r).2).ime = cpu.ime ∧ ((reg_rrc_8 cpu r).2).ime_scheduled = cpu.ime_scheduled ∧
      ((reg_rrc_8 cpu r).2).ime_delay = cpu.ime_delay := by
  simp [reg_rrc_8]

@[simp] theorem reg_rrc_8_F (cpu : CPU D) (r : Nat) :
    ((reg_rrc_8 cpu r).2).reg.F &&& 0x0F = 0 := by
  simp [reg_rrc_8]

@[simp] theorem reg_rl_8_ime (cpu : CPU D) (r : Nat) :
    ((reg_rl_8 cpu r).2).ime = cpu.ime ∧ ((reg_rl_8 cpu r).2).ime_scheduled = cpu.ime_scheduled ∧
      ((reg_rl_8 cpu r).2).ime_delay = cpu.ime_delay := by
  simp [reg_rl_8]

@[simp] theorem reg_rl_8_F (cpu : CPU D) (r : Nat) :
    ((reg_rl_8 cpu r).2).reg.F &&& 0x0F = 0 := by
  simp [reg_rl_8]

@[simp] theorem reg_rr_8_ime (cpu : CPU D) (r : Nat) :
    ((reg_rr_8 cpu r).2).ime = cpu.ime ∧ ((reg_rr_8 cpu r).2).ime_scheduled = cpu.ime_scheduled ∧
      ((reg_rr_8 cpu r).2).ime_delay = cpu.ime_delay := by
  simp [reg_rr_8]

@[simp] theorem reg_rr_8_F (cpu : CPU D) (r : Nat) :
    ((reg_rr_8 cpu r).2).reg.F &&& 0x0F = 0 := by
  simp [reg_rr_8]

@[simp] theorem reg_sla_8_ime (cpu : CPU D) (r : Nat) :
    ((reg_sla_8 cpu r).2).ime = cpu.ime ∧ ((reg_sla_8 cpu r).2).ime_scheduled = cpu.ime_scheduled ∧
      ((reg_sla_8 cpu r).2).ime_delay = cpu.ime_delay := by
  simp [reg_sla_8]

@[simp] theorem reg_sla_8_F (cpu : CPU D) (r : Nat) :
    ((reg_sla_8 cpu r).2).reg.F &&& 0x0F = 0 := by
  simp [reg_sla_8]

@[simp] theorem reg_sra_8_ime (cpu : CPU D) (r : Nat) :
    ((reg_sra_8 cpu r).2).ime = cpu.ime ∧ ((reg_sra_8 cpu r).2).ime_scheduled = cpu.ime_scheduled ∧
      ((reg_sra_8 cpu r).2).ime_delay = cpu.ime_delay := by
  simp [reg_sra_8]

@[simp] theorem reg_sra_8_F (cpu : CPU D) (r : Nat) :
    ((reg_sra_8 cpu r).2).reg.F &&& 0x0F = 0 := by
  simp [reg_sra_8]

@[simp] theorem reg_swap_8_ime (cpu : CPU D) (r : Nat) :
    ((reg_swap_8 cpu r).2).ime = cpu.ime ∧ ((reg_swap_8 cpu r).2).ime_scheduled = cpu.ime_scheduled ∧
      ((reg_swap_8 cpu r).2).ime_delay = cpu.ime_delay := by
  simp [reg_swap_8]

@[simp] theorem reg_swap_8_F (cpu : CPU D) (r : Nat) :
    ((reg_swap_8 cpu r).2).reg.F &&& 0x0F = 0 := by
  simp [reg_swap_8]

@[simp] theorem reg_srl_8_ime (cpu : CPU D) (r : Nat) :
    ((reg_srl_8 cpu r).2).ime = cpu.ime ∧ ((reg_srl_8 cpu r).2).ime_scheduled = cpu.ime_scheduled ∧
      ((reg_srl_8 cpu r).2).ime_delay = cpu.ime_delay := by
  simp [reg_srl_8]

@[simp] theorem reg_srl_8_F (cpu : CPU D) (r : Nat) :
    ((reg_srl_8 cpu r).2).reg.F &&& 0x0F = 0 := by
  simp [reg_srl_8]

@[simp] theorem reg_bit_x_ime (cpu : CPU D) (m r : Nat) :
    (reg_bit_x cpu m r).ime = cpu.ime ∧ (reg_bit_x cpu m r).ime_scheduled = cpu.ime_scheduled ∧
      (reg_bit_x cpu m r).ime_delay = cpu.ime_delay := by
  simp [reg_bit_x]

@[simp] theorem reg_bit_x_F (cpu : CPU D) (m r : Nat) :
    (reg_bit_x cpu m r).reg.F &&& 0x0F = 0 := by
  simp [reg_bit_x]

@[simp] theorem reg_inc_16_handler_ime (cpu : CPU D) (dr : DualRegister) :
    ((reg_inc_16_handler cpu dr).2).ime = cpu.ime ∧ ((reg_inc_16_handler cpu dr).2).ime_scheduled = cpu.ime_scheduled ∧
      ((reg_inc_16_handler cpu dr).2).ime_delay = cpu.ime_delay := by
  unfold reg_inc_16_handler
  repeat' split
  all_goals simp

@[simp] theorem reg_inc_16_handler_F (cpu : CPU D) (dr : DualRegister) (h : cpu.reg.F &&& 0x0F = 0) :
    ((reg_inc_16_handler cpu dr).2).reg.F &&& 0x0F = 0 := by
  unfold reg_inc_16_handler
  repeat' split
  all_goals simp [h]

@[simp] theorem reg_dec_16_handler_ime (cpu : CPU D) (dr : DualRegister) :
    ((reg_dec_16_handler cpu dr).2).ime = cpu.ime ∧ ((reg_dec_16_handler cpu dr).2).ime_scheduled = cpu.ime_scheduled ∧
      ((reg_dec_16_handler cpu dr).2).ime_delay = cpu.ime_delay := by
  unfold reg_dec_16_handler
  repeat' split
  all_goals simp

@[simp] theorem reg_dec_16_handler_F (cpu : CPU D) (dr : DualRegister) (h : cpu.reg.F &&& 0x0F = 0) :
    ((reg_dec_16_handler cpu dr).2).reg.F &&& 0x0F = 0 := by
  unfold reg_dec_16_handler
  repeat' split
  all_goals simp [h]

@[simp] theorem ld_hl_reg_ime (t : MemoryTables D) (cpu : CPU D) (v : Nat) :
    ((ld_hl_reg t cpu v).2).ime = cpu.ime ∧ ((ld_hl_reg t cpu v).2).ime_scheduled = cpu.ime_scheduled ∧
      ((ld_hl_reg t cpu v).2).ime_delay = cpu.ime_delay := by
  unfold ld_hl_reg
  repeat' split
  all_goals simp

@[simp] theorem ld_hl_reg_F (t : MemoryTables D) (cpu : CPU D) (v : Nat) (h : cpu.reg.F &&& 0x0F = 0) :
    ((ld_hl_reg t cpu v).2).reg.F &&& 0x0F = 0 := by
  unfold ld_hl_reg
  repeat' split
  all_goals simp [h]

@[simp] theorem reg_ld_n_8_ime (t : MemoryTables D) (cpu : CPU D) (r : Reg8) :
    ((reg_ld_n_8 t cpu r).2).ime = cpu.ime ∧ ((reg_ld_n_8 t cpu r).2).ime_scheduled = cpu.ime_scheduled ∧
      ((reg_ld_n_8 t cpu r).2).ime_delay = cpu.ime_delay := by
  unfold reg_ld_n_8
  repeat' split
  all_goals simp

@[simp] theorem reg_ld_n_8_F (t : MemoryTables D) (cpu : CPU D) (r : Reg8) (h : cpu.reg.F &&& 0x0F = 0) :
    ((reg_ld_n_8 t cpu r).2).reg.F &&& 0x0F = 0 := by
  unfold reg_ld_n_8
  repeat' split
  all_goals simp [h]

@[simp] theorem reg_add_16_handler_ime (cpu : CPU D) (dr : DualRegister) :
    ((reg_add_16_handler cpu dr).2).ime = cpu.ime ∧ ((reg_add_16_handler cpu dr).2).ime_scheduled = cpu.ime_scheduled ∧
      ((reg_add_16_handler cpu dr).2).ime_delay = cpu.ime_delay := by
  unfold reg_add_16_handler
  repeat' split
  all_goals simp

@[simp] theorem reg_add_16_handler_F (cpu : CPU D) (dr : DualRegister) (h : cpu.reg.F &&& 0x0F = 0) :
    ((reg_add_16_handler cpu dr).2).reg.F &&& 0x0F = 0 := by
  unfold reg_add_16_handler
  repeat' split
  all_goals simp [h]

@[simp] theorem return_handler_ime (t : MemoryTables D) (cpu : CPU D) (b : Bool) :
    ((return_handler t cpu b).2).ime = cpu.ime ∧ ((return_handler t cpu b).2).ime_scheduled = cpu.ime_scheduled ∧
      ((return_handler t cpu b).2).ime_delay = cpu.ime_delay := by
  unfold return_handler
  repeat' split
  all_goals simp

@[simp] theorem return_handler_F (t : MemoryTables D) (cpu : CPU D) (b : Bool) (h : cpu.reg.F &&& 0x0F = 0) :
    ((return_handler t cpu b).2).reg.F &&& 0x0F = 0 := by
  unfold return_handler
  repeat' split
  all_goals simp [h]

@[simp] theorem rst_handler_ime (t : MemoryTables D) (cpu : CPU D) (v : Nat) :
    ((rst_handler t cpu v).2).ime = cpu.ime ∧ ((rst_handler t cpu v).2).ime_scheduled = cpu.ime_scheduled ∧
      ((rst_handler t cpu v).2).ime_delay = cpu.ime_delay := by
  unfold rst_handler
  repeat' split
  all_goals simp

@[simp] theorem rst_handler_F (t : MemoryTables D) (cpu : CPU D) (v : Nat) (h : cpu.reg.F &&& 0x0F = 0) :
    ((rst_handler t cpu v).2).reg.F &&& 0x0F = 0 := by
  unfold rst_handler
  repeat' split
  all_goals simp [h]

@[simp] theorem call_handler_ime (t : MemoryTables D) (cpu : CPU D) (b : Bool) :
    ((call_handler t cpu b).2).ime = cpu.ime ∧ ((call_handler t cpu b).2).ime_scheduled = cpu.ime_scheduled ∧
      ((call_handler t cpu b).2).ime_delay = cpu.ime_delay := by
  unfold call_handler
  repeat' split
  all_goals simp

@[simp] theorem call_handler_F (t : MemoryTables D) (cpu : CPU D) (b : Bool) (h : cpu.reg.F &&& 0x0F = 0) :
    ((call_handler t cpu b).2).reg.F &&& 0x0F = 0 := by
  unfold call_handler
  repeat' split
  all_goals simp [h]

@[simp] theorem jump_relative_handler_ime (t : MemoryTables D) (cpu : CPU D) (b : Bool) :
    ((jump_relative_handler t cpu b).2).ime = cpu.ime ∧ ((jump_relative_handler t cpu b).2).ime_scheduled = cpu.ime_scheduled ∧
      ((jump_relative_handler t cpu b).2).ime_delay = cpu.ime_delay := by
  unfold jump_relative_handler
  repeat' split
  all_goals simp

@[simp] theorem jump_relative_handler_F (t : MemoryTables D) (cpu : CPU D) (b : Bool) (h : cpu.reg.F &&& 0x0F = 0) :
    ((jump_relative_handler t cpu b).2).reg.F &&& 0x0F = 0 := by
  unfold jump_relative_handler
  repeat' split
  all_goals simp [h]

@[simp] theorem jump_position_handler_ime (t : MemoryTables D) (cpu : CPU D) (b : Bool) :
    ((jump_position_handler t cpu b).2).ime = cpu.ime ∧ ((jump_position_handler t cpu b).2).ime_scheduled = cpu.ime_scheduled ∧
      ((jump_position_handler t cpu b).2).ime_delay = cpu.ime_delay := by
  unfold jump_position_handler
  repeat' split
  all_goals simp

@[simp] theorem jump_position_handler_F (t : MemoryTables D) (cpu : CPU D) (b : Bool) (h : cpu.reg.F &&& 0x0F = 0) :
    ((jump_position_handler t cpu b).2).reg.F &&& 0x0F = 0 := by
  unfold jump_position_handler
  repeat' split
  all_goals simp [h]

/-! ### One lemma pair per opcode handler -/

theorem nop_F (t : MemoryTables D) (cpu : CPU D) (h : cpu.reg.F &&& 0x0F = 0) :
    ((nop t cpu).2).reg.F &&& 0x0F = 0 := by
  unfold nop
  repeat' split
  all_goals simp [h]

theorem nop_ime (t : MemoryTables D) (cpu : CPU D) :
    ((nop t cpu).2).ime = cpu.ime ∧ ((nop t cpu).2).ime_scheduled = cpu.ime_scheduled ∧
      ((nop t cpu).2).ime_delay = cpu.ime_delay := by
  unfold nop
  repeat' split
  all_goals simp

theorem ld_bc_nn_F (t : MemoryTables D) (cpu : CPU D) (h : cpu.reg.F &&& 0x0F = 0) :
    ((ld_bc_nn t cpu).2).reg.F &&& 0x0F = 0 := by
  unfold ld_bc_nn
  repeat' split
  all_goals simp [h]

theorem ld_bc_nn_ime (t : MemoryTables D) (cpu : CPU D) :
    ((ld_bc_nn t cpu).2).ime = cpu.ime ∧ ((ld_bc_nn t cpu).2).ime_scheduled = cpu.ime_scheduled ∧
      ((ld_bc_nn t cpu).2).ime_delay = cpu.ime_delay := by
  unfold ld_bc_nn
  repeat' split
  all_goals simp

theorem ld_bc_a_F (t : MemoryTables D) (cpu : CPU D) (h : cpu.reg.F &&& 0x0F = 0) :
    ((ld_bc_a t cpu).2).reg.F &&& 0x0F = 0 := by
  unfold ld_bc_a
  repeat' split
  all_goals simp [h]

theorem ld_bc_a_ime (t : MemoryTables D) (cpu : CPU D) :
    ((ld_bc_a t cpu).2).ime = cpu.ime ∧ ((ld_bc_a t cpu).2).ime_scheduled = cpu.ime_scheduled ∧
      ((ld_bc_a t cpu).2).ime_delay = cpu.ime_delay := by
  unfold ld_bc_a
  repeat' split
  all_goals simp

theorem inc_bc_F (t : MemoryTables D) (cpu : CPU D) (h : cpu.reg.F &&& 0x0F = 0) :
    ((inc_bc t cpu).2).reg.F &&& 0x0F = 0 := by
  unfold inc_bc
  repeat' split
  all_goals simp [h]

theorem inc_bc_ime (t : MemoryTables D) (cpu : CPU D) :
    ((inc_bc t cpu).2).ime = cpu.ime ∧ ((inc_bc t cpu).2).ime_scheduled = cpu.ime_scheduled ∧
      ((inc_bc t cpu).2).ime_delay = cpu.ime_delay := by
  unfold inc_bc
  repeat' split
  all_goals simp

theorem inc_b_F (t : MemoryTables D) (cpu : CPU D) (h : cpu.reg.F &&& 0x0F = 0) :
    ((inc_b t cpu).2).reg.F &&& 0x0F = 0 := by
  unfold inc_b
  repeat' split
  all_goals simp [h]

theorem inc_b_ime (t : MemoryTables D) (cpu : CPU D) :
    ((inc_b t cpu).2).ime = cpu.ime ∧ ((inc_b t cpu).2).ime_scheduled = cpu.ime_scheduled ∧
      ((inc_b t cpu).2).ime_delay = cpu.ime_delay := by
  unfold inc_b
  repeat' split
  all_goals simp

theorem dec_b_F (t : MemoryTables D) (cpu : CPU D) (h : cpu.reg.F &&& 0x0F = 0) :
    ((dec_b t cpu).2).reg.F &&& 0x0F = 0 := by
  unfold dec_b
  repeat' split
  all_goals simp [h]

theorem dec_b_ime (t : MemoryTables D) (cpu : CPU D) :
    ((dec_b t cpu).2).ime = cpu.ime ∧ ((dec_b t cpu).2).ime_scheduled = cpu.ime_scheduled ∧
      ((dec_b t cpu).2).ime_delay = cpu.ime_delay := by
  unfold dec_b
  repeat' split
  all_goals simp

theorem ld_b_n_F (t : MemoryTables D) (cpu : CPU D) (h : cpu.reg.F &&& 0x0F = 0) :
    ((ld_b_n t cpu).2).reg.F &&& 0x0F = 0 := by
  unfold ld_b_n
  repeat' split
  all_goals simp [h]

theorem ld_b_n_ime (t : MemoryTables D) (cpu : CPU D) :
    ((ld_b_n t cpu).2).ime = cpu.ime ∧ ((ld_b_n t cpu).2).ime_scheduled = cpu.ime_scheduled ∧
      ((ld_b_n t cpu).2).ime_delay = cpu.ime_delay := by
  unfold ld_b_n
  repeat' split
  all_goals simp

theorem rlca_F (t : MemoryTables D) (cpu : CPU D) (h : cpu.reg.F &&& 0x0F = 0) :
    ((rlca t cpu).2).reg.F &&& 0x0F = 0 := by
  unfold rlca
  repeat' split
  all_goals simp [h]

theorem rlca_ime (t : MemoryTables D) (cpu : CPU D) :
    ((rlca t cpu).2).ime = cpu.ime ∧ ((rlca t cpu).2).ime_scheduled = cpu.ime_scheduled ∧
      ((rlca t cpu).2).ime_delay = cpu.ime_delay := by
  unfold rlca
  repeat' split
  all_goals simp

theorem ld_nn_sp_F (t : MemoryTables D) (cpu : CPU D) (h : cpu.reg.F &&& 0x0F = 0) :
    ((ld_nn_sp t cpu).2).reg.F &&& 0x0F = 0 := by
  unfold ld_nn_sp
  repeat' split
  all_goals simp [h]

theorem ld_nn_sp_ime (t : MemoryTables D) (cpu : CPU D) :
    ((ld_nn_sp t cpu).2).ime = cpu.ime ∧ ((ld_nn_sp t cpu).2).ime_scheduled = cpu.ime_scheduled ∧
      ((ld_nn_sp t cpu).2).ime_delay = cpu.ime_delay := by
  unfold ld_nn_sp
  repeat' split
  all_goals simp

theorem add_hl_bc_F (t : MemoryTables D) (cpu : CPU D) (h : cpu.reg.F &&& 0x0F = 0) :
    ((add_hl_bc t cpu).2).reg.F &&& 0x0F = 0 := by
  unfold add_hl_bc
  repeat' split
  all_goals simp [h]

theorem add_hl_bc_ime (t : MemoryTables D) (cpu : CPU D) :
    ((add_hl_bc t cpu).2).ime = cpu.ime ∧ ((add_hl_bc t cpu).2).ime_scheduled = cpu.ime_scheduled ∧
      ((add_hl_bc t cpu).2).ime_delay = cpu.ime_delay := by
  unfold add_hl_bc
  repeat' split
  all_goals simp

theorem ld_a_bc_F (t : MemoryTables D) (cpu : CPU D) (h : cpu.reg.F &&& 0x0F = 0) :
    ((ld_a_bc t cpu).2).reg.F &&& 0x0F = 0 := by
  unfold ld_a_bc
  repeat' split
  all_goals simp [h]

theorem ld_a_bc_ime (t : MemoryTables D) (cpu : CPU D) :
    ((ld_a_bc t cpu).2).ime = cpu.ime ∧ ((ld_a_bc t cpu).2).ime_scheduled = cpu.ime_scheduled ∧
      ((ld_a_bc t cpu).2).ime_delay = cpu.ime_delay := by
  unfold ld_a_bc
  repeat' split
  all_goals simp

theorem dec_bc_F (t : MemoryTables D) (cpu : CPU D) (h : cpu.reg.F &&& 0x0F = 0) :
    ((dec_bc t cpu).2).reg.F &&& 0x0F = 0 := by
  unfold dec_bc
  repeat' split
  all_goals simp [h]

theorem dec_bc_ime (t : MemoryTables D) (cpu : CPU D) :
    ((dec_bc t cpu).2).ime = cpu.ime ∧ ((dec_bc t cpu).2).ime_scheduled = cpu.ime_scheduled ∧
      ((dec_bc t cpu).2).ime_delay = cpu.ime_delay := by
  unfold dec_bc
  repeat' split
  all_goals simp

theorem inc_c_F (t : MemoryTables D) (cpu : CPU D) (h : cpu.reg.F &&& 0x0F = 0) :
    ((inc_c t cpu).2).reg.F &&& 0x0F = 0 := by
  unfold inc_c
  repeat' split
  all_goals simp [h]

theorem inc_c_ime (t : MemoryTables D) (cpu : CPU D) :
    ((inc_c t cpu).2).ime = cpu.ime ∧ ((inc_c t cpu).2).ime_scheduled = cpu.ime_scheduled ∧
      ((inc_c t cpu).2).ime_delay = cpu.ime_delay := by
  unfold inc_c
  repeat' split
  all_goals simp

theorem dec_c_F (t : MemoryTables D) (cpu : CPU D) (h : cpu.reg.F &&& 0x0F = 0) :
    ((dec_c t cpu).2).reg.F &&& 0x0F = 0 := by
  unfold dec_c
  repeat' split
  all_goals simp [h]

theorem dec_c_ime (t : MemoryTables D) (cpu : CPU D) :
    ((dec_c t cpu).2).ime = cpu.ime ∧ ((dec_c t cpu).2).ime_scheduled = cpu.ime_scheduled ∧
      ((dec_c t cpu).2).ime_delay = cpu.ime_delay := by
  unfold dec_c
  repeat' split
  all_goals simp

theorem ld_c_n_F (t : MemoryTables D) (cpu : CPU D) (h : cpu.reg.F &&& 0x0F = 0) :
    ((ld_c_n t cpu).2).reg.F &&& 0x0F = 0 := by
  unfold ld_c_n
  repeat' split
  all_goals simp [h]

theorem ld_c_n_ime (t : MemoryTables D) (cpu : CPU D) :
    ((ld_c_n t cpu).2).ime = cpu.ime ∧ ((ld_c_n t cpu).2).ime_scheduled = cpu.ime_scheduled ∧
      ((ld_c_n t cpu).2).ime_delay = cpu.ime_delay := by
  unfold ld_c_n
  repeat' split
  all_goals simp

theorem rrca_F (t : MemoryTables D) (cpu : CPU D) (h : cpu.reg.F &&& 0x0F = 0) :
    ((rrca t cpu).2).reg.F &&& 0x0F = 0 := by
  unfold rrca
  repeat' split
  all_goals simp [h]

theorem rrca_ime (t : MemoryTables D) (cpu : CPU D) :
    ((rrca t cpu).2).ime = cpu.ime ∧ ((rrca t cpu).2).ime_scheduled = cpu.ime_scheduled ∧
      ((rrca t cpu).2).ime_delay = cpu.ime_delay := by
  unfold rrca
  repeat' split
  all_goals simp

theorem stop_F (t : MemoryTables D) (cpu : CPU D) (h : cpu.reg.F &&& 0x0F = 0) :
    ((stop t cpu).2).reg.F &&& 0x0F = 0 := by
  unfold stop
  dsimp only
  repeat' split
  all_goals simp [h]

theorem stop_ime (t : MemoryTables D) (cpu : CPU D) :
    ((stop t cpu).2).ime = cpu.ime ∧ ((stop t cpu).2).ime_scheduled = cpu.ime_scheduled ∧
      ((stop t cpu).2).ime_delay = cpu.ime_delay := by
  unfold stop
  dsimp only
  repeat' split
  all_goals simp

theorem ld_de_nn_F (t : MemoryTables D) (cpu : CPU D) (h : cpu.reg.F &&& 0x0F = 0) :
    ((ld_de_nn t cpu).2).reg.F &&& 0x0F = 0 := by
  unfold ld_de_nn
  repeat' split
  all_goals simp [h]

theorem ld_de_nn_ime (t : MemoryTables D) (cpu : CPU D) :
    ((ld_de_nn t cpu).2).ime = cpu.ime ∧ ((ld_de_nn t cpu).2).ime_scheduled = cpu.ime_scheduled ∧
      ((ld_de_nn t cpu).2).ime_delay = cpu.ime_delay := by
  unfold ld_de_nn
  repeat' split
  all_goals simp

theorem ld_de_a_F (t : MemoryTables D) (cpu : CPU D) (h : cpu.reg.F &&& 0x0F = 0) :
    ((ld_de_a t cpu).2).reg.F &&& 0x0F = 0 := by
  unfold ld_de_a
  repeat' split
  all_goals simp [h]

theorem ld_de_a_ime (t : MemoryTables D) (cpu : CPU D) :
    ((ld_de_a t cpu).2).ime = cpu.ime ∧ ((ld_de_a t cpu).2).ime_scheduled = cpu.ime_scheduled ∧
      ((ld_de_a t cpu).2).ime_delay = cpu.ime_delay := by
  unfold ld_de_a
  repeat' split
  all_goals simp

theorem inc_de_F (t : MemoryTables D) (cpu : CPU D) (h : cpu.reg.F &&& 0x0F = 0) :
    ((inc_de t cpu).2).reg.F &&& 0x0F = 0 := by
  unfold inc_de
  repeat' split
  all_goals simp [h]

theorem inc_de_ime (t : MemoryTables D) (cpu : CPU D) :
    ((inc_de t cpu).2).ime = cpu.ime ∧ ((inc_de t cpu).2).ime_scheduled = cpu.ime_scheduled ∧
      ((inc_de t cpu).2).ime_delay = cpu.ime_delay := by
  unfold inc_de
  repeat' split
  all_goals simp

theorem inc_d_F (t : MemoryTables D) (cpu : CPU D) (h : cpu.reg.F &&& 0x0F = 0) :
    ((inc_d t cpu).2).reg.F &&& 0x0F = 0 := by
  unfold inc_d
  repeat' split
  all_goals simp [h]

theorem inc_d_ime (t : MemoryTables D) (cpu : CPU D) :
    ((inc_d t cpu).2).ime = cpu.ime ∧ ((inc_d t cpu).2).ime_scheduled = cpu.ime_scheduled ∧
      ((inc_d t cpu).2).ime_delay = cpu.ime_delay := by
  unfold inc_d
  repeat' split
  all_goals simp

theorem dec_d_F (t : MemoryTables D) (cpu : CPU D) (h : cpu.reg.F &&& 0x0F = 0) :
    ((dec_d t cpu).2).reg.F &&& 0x0F = 0 := by
  unfold dec_d
  repeat' split
  all_goals simp [h]

theorem dec_d_ime (t : MemoryTables D) (cpu : CPU D) :
    ((dec_d t cpu).2).ime = cpu.ime ∧ ((dec_d t cpu).2).ime_scheduled = cpu.ime_scheduled ∧
      ((dec_d t cpu).2).ime_delay = cpu.ime_delay := by
  unfold dec_d
  repeat' split
  all_goals simp

theorem ld_d_n_F (t : MemoryTables D) (cpu : CPU D) (h : cpu.reg.F &&& 0x0F = 0) :
    ((ld_d_n t cpu).2).reg.F &&& 0x0F = 0 := by
  unfold ld_d_n
  repeat' split
  all_goals simp [h]

theorem ld_d_n_ime (t : MemoryTables D) (cpu : CPU D) :
    ((ld_d_n t cpu).2).ime = cpu.ime ∧ ((ld_d_n t cpu).2).ime_scheduled = cpu.ime_scheduled ∧
      ((ld_d_n t cpu).2).ime_delay = cpu.ime_delay := by
  unfold ld_d_n
  repeat' split
  all_goals simp

theorem rla_F (t : MemoryTables D) (cpu : CPU D) (h : cpu.reg.F &&& 0x0F = 0) :
    ((rla t cpu).2).reg.F &&& 0x0F = 0 := by
  unfold rla
  repeat' split
  all_goals simp [h]

theorem rla_ime (t : MemoryTables D) (cpu : CPU D) :
    ((rla t cpu).2).ime = cpu.ime ∧ ((rla t cpu).2).ime_scheduled = cpu.ime_scheduled ∧
      ((rla t cpu).2).ime_delay = cpu.ime_delay := by
  unfold rla
  repeat' split
  all_goals simp

theorem jr_n_F (t : MemoryTables D) (cpu : CPU D) (h : cpu.reg.F &&& 0x0F = 0) :
    ((jr_n t cpu).2).reg.F &&& 0x0F = 0 := by
  unfold jr_n
  repeat' split
  all_goals simp [h]

theorem jr_n_ime (t : MemoryTables D) (cpu : CPU D) :
    ((jr_n t cpu).2).ime = cpu.ime ∧ ((jr_n t cpu).2).ime_scheduled = cpu.ime_scheduled ∧
      ((jr_n t cpu).2).ime_delay = cpu.ime_delay := by
  unfold jr_n
  repeat' split
  all_goals simp

theorem add_hl_de_F (t : MemoryTables D) (cpu : CPU D) (h : cpu.reg.F &&& 0x0F = 0) :
    ((add_hl_de t cpu).2).reg.F &&& 0x0F = 0 := by
  unfold add_hl_de
  repeat' split
  all_goals simp [h]

theorem add_hl_de_ime (t : MemoryTables D) (cpu : CPU D) :
    ((add_hl_de t cpu).2).ime = cpu.ime ∧ ((add_hl_de t cpu).2).ime_scheduled = cpu.ime_scheduled ∧
      ((add_hl_de t cpu).2).ime_delay = cpu.ime_delay := by
  unfold add_hl_de
  repeat' split
  all_goals simp

theorem ld_a_de_F (t : MemoryTables D) (cpu : CPU D) (h : cpu.reg.F &&& 0x0F = 0) :
    ((ld_a_de t cpu).2).reg.F &&& 0x0F = 0 := by
  unfold ld_a_de
  repeat' split
  all_goals simp [h]

theorem ld_a_de_ime (t : MemoryTables D) (cpu : CPU D) :
    ((ld_a_de t cpu).2).ime = cpu.ime ∧ ((ld_a_de t cpu).2).ime_scheduled = cpu.ime_scheduled ∧
      ((ld_a_de t cpu).2).ime_delay = cpu.ime_delay := by
  unfold ld_a_de
  repeat' split
  all_goals simp

theorem dec_de_F (t : MemoryTables D) (cpu : CPU D) (h : cpu.reg.F &&& 0x0F = 0) :
    ((dec_de t cpu).2).reg.F &&& 0x0F = 0 := by
  unfold dec_de
  repeat' split
  all_goals simp [h]

theorem dec_de_ime (t : MemoryTables D) (cpu : CPU D) :
    ((dec_de t cpu).2).ime = cpu.ime ∧ ((dec_de t cpu).2).ime_scheduled = cpu.ime_scheduled ∧
      ((dec_de t cpu).2).ime_delay = cpu.ime_delay := by
  unfold dec_de
  repeat' split
  all_goals simp

theorem inc_e_F (t : MemoryTables D) (cpu : CPU D) (h : cpu.reg.F &&& 0x0F = 0) :
    ((inc_e t cpu).2).reg.F &&& 0x0F = 0 := by
  unfold inc_e
  repeat' split
  all_goals simp [h]

theorem inc_e_ime (t : MemoryTables D) (cpu : CPU D) :
    ((inc_e t cpu).2).ime = cpu.ime ∧ ((inc_e t cpu).2).ime_scheduled = cpu.ime_scheduled ∧
      ((inc_e t cpu).2).ime_delay = cpu.ime_delay := by
  unfold inc_e
  repeat' split
  all_goals simp

theorem dec_e_F (t : MemoryTables D) (cpu : CPU D) (h : cpu.reg.F &&& 0x0F = 0) :
    ((dec_e t cpu).2).reg.F &&& 0x0F = 0 := by
  unfold dec_e
  repeat' split
  all_goals simp [h]

theorem dec_e_ime (t : MemoryTables D) (cpu : CPU D) :
    ((dec_e t cpu).2).ime = cpu.ime ∧ ((dec_e t cpu).2).ime_scheduled = cpu.ime_scheduled ∧
      ((dec_e t cpu).2).ime_delay = cpu.ime_delay := by
  unfold dec_e
  repeat' split
  all_goals simp

theorem ld_e_n_F (t : MemoryTables D) (cpu : CPU D) (h : cpu.reg.F &&& 0x0F = 0) :
    ((ld_e_n t cpu).2).reg.F &&& 0x0F = 0 := by
  unfold ld_e_n
  repeat' split
  all_goals simp [h]

theorem ld_e_n_ime (t : MemoryTables D) (cpu : CPU D) :
    ((ld_e_n t cpu).2).ime = cpu.ime ∧ ((ld_e_n t cpu).2).ime_scheduled = cpu.ime_scheduled ∧
      ((ld_e_n t cpu).2).ime_delay = cpu.ime_delay := by
  unfold ld_e_n
  repeat' split
  all_goals simp

theorem rra_F (t : MemoryTables D) (cpu : CPU D) (h : cpu.reg.F &&& 0x0F = 0) :
    ((rra t cpu).2).reg.F &&& 0x0F = 0 := by
  unfold rra
  repeat' split
  all_goals simp [h]

theorem rra_ime (t : MemoryTables D) (cpu : CPU D) :
    ((rra t cpu).2).ime = cpu.ime ∧ ((rra t cpu).2).ime_scheduled = cpu.ime_scheduled ∧
      ((rra t cpu).2).ime_delay = cpu.ime_delay := by
  unfold rra
  repeat' split
  all_goals simp

theorem jr_nz_n_F (t : MemoryTables D) (cpu : CPU D) (h : cpu.reg.F &&& 0x0F = 0) :
    ((jr_nz_n t cpu).2).reg.F &&& 0x0F = 0 := by
  unfold jr_nz_n
  repeat' split
  all_goals simp [h]

theorem jr_nz_n_ime (t : MemoryTables D) (cpu : CPU D) :
    ((jr_nz_n t cpu).2).ime = cpu.ime ∧ ((jr_nz_n t cpu).2).ime_scheduled = cpu.ime_scheduled ∧
      ((jr_nz_n t cpu).2).ime_delay = cpu.ime_delay := by
  unfold jr_nz_n
  repeat' split
  all_goals simp

theorem ld_hl_nn_F (t : MemoryTables D) (cpu : CPU D) (h : cpu.reg.F &&& 0x0F = 0) :
    ((ld_hl_nn t cpu).2).reg.F &&& 0x0F = 0 := by
  unfold ld_hl_nn
  repeat' split
  all_goals simp [h]

theorem ld_hl_nn_ime (t : MemoryTables D) (cpu : CPU D) :
    ((ld_hl_nn t cpu).2).ime = cpu.ime ∧ ((ld_hl_nn t cpu).2).ime_scheduled = cpu.ime_scheduled ∧
      ((ld_hl_nn t cpu).2).ime_delay = cpu.ime_delay := by
  unfold ld_hl_nn
  repeat' split
  all_goals simp

theorem ld_hli_a_F (t : MemoryTables D) (cpu : CPU D) (h : cpu.reg.F &&& 0x0F = 0) :
    ((ld_hli_a t cpu).2).reg.F &&& 0x0F = 0 := by
  unfold ld_hli_a
  repeat' split
  all_goals simp [h]

theorem ld_hli_a_ime (t : MemoryTables D) (cpu : CPU D) :
    ((ld_hli_a t cpu).2).ime = cpu.ime ∧ ((ld_hli_a t cpu).2).ime_scheduled = cpu.ime_scheduled ∧
      ((ld_hli_a t cpu).2).ime_delay = cpu.ime_delay := by
  unfold ld_hli_a
  repeat' split
  all_goals simp

theorem inc_hl_F (t : MemoryTables D) (cpu : CPU D) (h : cpu.reg.F &&& 0x0F = 0) :
    ((inc_hl t cpu).2).reg.F &&& 0x0F = 0 := by
  unfold inc_hl
  repeat' split
  all_goals simp [h]

theorem inc_hl_ime (t : MemoryTables D) (cpu : CPU D) :
    ((inc_hl t cpu).2).ime = cpu.ime ∧ ((inc_hl t cpu).2).ime_scheduled = cpu.ime_scheduled ∧
      ((inc_hl t cpu).2).ime_delay = cpu.ime_delay := by
  unfold inc_hl
  repeat' split
  all_goals simp

theorem inc_h_F (t : MemoryTables D) (cpu : CPU D) (h : cpu.reg.F &&& 0x0F = 0) :
    ((inc_h t cpu).2).reg.F &&& 0x0F = 0 := by
  unfold inc_h
  repeat' split
  all_goals simp [h]

theorem inc_h_ime (t : MemoryTables D) (cpu : CPU D) :
    ((inc_h t cpu).2).ime = cpu.ime ∧ ((inc_h t cpu).2).ime_scheduled = cpu.ime_scheduled ∧
      ((inc_h t cpu).2).ime_delay = cpu.ime_delay := by
  unfold inc_h
  repeat' split
  all_goals simp

theorem dec_h_F (t : MemoryTables D) (cpu : CPU D) (h : cpu.reg.F &&& 0x0F = 0) :
    ((dec_h t cpu).2).reg.F &&& 0x0F = 0 := by
  unfold dec_h
  repeat' split
  all_goals simp [h]

theorem dec_h_ime (t : MemoryTables D) (cpu : CPU D) :
    ((dec_h t cpu).2).ime = cpu.ime ∧ ((dec_h t cpu).2).ime_scheduled = cpu.ime_scheduled ∧
      ((dec_h t cpu).2).ime_delay = cpu.ime_delay := by
  unfold dec_h
  repeat' split
  all_goals simp

theorem ld_h_n_F (t : MemoryTables D) (cpu : CPU D) (h : cpu.reg.F &&& 0x0F = 0) :
    ((ld_h_n t cpu).2).reg.F &&& 0x0F = 0 := by
  unfold ld_h_n
  repeat' split
  all_goals simp [h]

theorem ld_h_n_ime (t : MemoryTables D) (cpu : CPU D) :
    ((ld_h_n t cpu).2).ime = cpu.ime ∧ ((ld_h_n t cpu).2).ime_scheduled = cpu.ime_scheduled ∧
      ((ld_h_n t cpu).2).ime_delay = cpu.ime_delay := by
  unfold ld_h_n
  repeat' split
  all_goals simp

theorem daa_F (t : MemoryTables D) (cpu : CPU D) (h : cpu.reg.F &&& 0x0F = 0) :
    ((daa t cpu).2).reg.F &&& 0x0F = 0 := by
  unfold daa
  dsimp only
  repeat' split
  all_goals simp [h]

theorem daa_ime (t : MemoryTables D) (cpu : CPU D) :
    ((daa t cpu).2).ime = cpu.ime ∧ ((daa t cpu).2).ime_scheduled = cpu.ime_scheduled ∧
      ((daa t cpu).2).ime_delay = cpu.ime_delay := by
  unfold daa
  dsimp only
  repeat' split
  all_goals simp

theorem jr_z_n_F (t : MemoryTables D) (cpu : CPU D) (h : cpu.reg.F &&& 0x0F = 0) :
    ((jr_z_n t cpu).2).reg.F &&& 0x0F = 0 := by
  unfold jr_z_n
  repeat' split
  all_goals simp [h]

theorem jr_z_n_ime (t : MemoryTables D) (cpu : CPU D) :
    ((jr_z_n t cpu).2).ime = cpu.ime ∧ ((jr_z_n t cpu).2).ime_scheduled = cpu.ime_scheduled ∧
      ((jr_z_n t cpu).2).ime_delay = cpu.ime_delay := by
  unfold jr_z_n
  repeat' split
  all_goals simp

theorem add_hl_hl_F (t : MemoryTables D) (cpu : CPU D) (h : cpu.reg.F &&& 0x0F = 0) :
    ((add_hl_hl t cpu).2).reg.F &&& 0x0F = 0 := by
  unfold add_hl_hl
  repeat' split
  all_goals simp [h]

theorem add_hl_hl_ime (t : MemoryTables D) (cpu : CPU D) :
    ((add_hl_hl t cpu).2).ime = cpu.ime ∧ ((add_hl_hl t cpu).2).ime_scheduled = cpu.ime_scheduled ∧
      ((add_hl_hl t cpu).2).ime_delay = cpu.ime_delay := by
  unfold add_hl_hl
  repeat' split
  all_goals simp

theorem ld_a_hli_F (t : MemoryTables D) (cpu : CPU D) (h : cpu.reg.F &&& 0x0F = 0) :
    ((ld_a_hli t cpu).2).reg.F &&& 0x0F = 0 := by
  unfold ld_a_hli
  repeat' split
  all_goals simp [h]

theorem ld_a_hli_ime (t : MemoryTables D) (cpu : CPU D) :
    ((ld_a_hli t cpu).2).ime = cpu.ime ∧ ((ld_a_hli t cpu).2).ime_scheduled = cpu.ime_scheduled ∧
      ((ld_a_hli t cpu).2).ime_delay = cpu.ime_delay := by
  unfold ld_a_hli
  repeat' split
  all_goals simp

theorem dec_hl_F (t : MemoryTables D) (cpu : CPU D) (h : cpu.reg.F &&& 0x0F = 0) :
    ((dec_hl t cpu).2).reg.F &&& 0x0F = 0 := by
  unfold dec_hl
  repeat' split
  all_goals simp [h]

theorem dec_hl_ime (t : MemoryTables D) (cpu : CPU D) :
    ((dec_hl t cpu).2).ime = cpu.ime ∧ ((dec_hl t cpu).2).ime_scheduled = cpu.ime_scheduled ∧
      ((dec_hl t cpu).2).ime_delay = cpu.ime_delay := by
  unfold dec_hl
  repeat' split
  all_goals simp

theorem inc_l_F (t : MemoryTables D) (cpu : CPU D) (h : cpu.reg.F &&& 0x0F = 0) :
    ((inc_l t cpu).2).reg.F &&& 0x0F = 0 := by
  unfold inc_l
  repeat' split
  all_goals simp [h]

theorem inc_l_ime (t : MemoryTables D) (cpu : CPU D) :
    ((inc_l t cpu).2).ime = cpu.ime ∧ ((inc_l t cpu).2).ime_scheduled = cpu.ime_scheduled ∧
      ((inc_l t cpu).2).ime_delay = cpu.ime_delay := by
  unfold inc_l
  repeat' split
  all_goals simp

theorem dec_l_F (t : MemoryTables D) (cpu : CPU D) (h : cpu.reg.F &&& 0x0F = 0) :
    ((dec_l t cpu).2).reg.F &&& 0x0F = 0 := by
  unfold dec_l
  repeat' split
  all_goals simp [h]

theorem dec_l_ime (t : MemoryTables D) (cpu : CPU D) :
    ((dec_l t cpu).2).ime = cpu.ime ∧ ((dec_l t cpu).2).ime_scheduled = cpu.ime_scheduled ∧
      ((dec_l t cpu).2).ime_delay = cpu.ime_delay := by
  unfold dec_l
  repeat' split
  all_goals simp

theorem ld_l_n_F (t : MemoryTables D) (cpu : CPU D) (h : cpu.reg.F &&& 0x0F = 0) :
    ((ld_l_n t cpu).2).reg.F &&& 0x0F = 0 := by
  unfold ld_l_n
  repeat' split
  all_goals simp [h]

theorem ld_l_n_ime (t : MemoryTables D) (cpu : CPU D) :
    ((ld_l_n t cpu).2).ime = cpu.ime ∧ ((ld_l_n t cpu).2).ime_scheduled = cpu.ime_scheduled ∧
      ((ld_l_n t cpu).2).ime_delay = cpu.ime_delay := by
  unfold ld_l_n
  repeat' split
  all_goals simp

theorem cpl_F (t : MemoryTables D) (cpu : CPU D) (h : cpu.reg.F &&& 0x0F = 0) :
    ((cpl t cpu).2).reg.F &&& 0x0F = 0 := by
  unfold cpl
  repeat' split
  all_goals simp [h]

theorem cpl_ime (t : MemoryTables D) (cpu : CPU D) :
    ((cpl t cpu).2).ime = cpu.ime ∧ ((cpl t cpu).2).ime_scheduled = cpu.ime_scheduled ∧
      ((cpl t cpu).2).ime_delay = cpu.ime_delay := by
  unfold cpl
  repeat' split
  all_goals simp

theorem jr_nc_n_F (t : MemoryTables D) (cpu : CPU D) (h : cpu.reg.F &&& 0x0F = 0) :
    ((jr_nc_n t cpu).2).reg.F &&& 0x0F = 0 := by
  unfold jr_nc_n
  repeat' split
  all_goals simp [h]

theorem jr_nc_n_ime (t : MemoryTables D) (cpu : CPU D) :
    ((jr_nc_n t cpu).2).ime = cpu.ime ∧ ((jr_nc_n t cpu).2).ime_scheduled = cpu.ime_scheduled ∧
      ((jr_nc_n t cpu).2).ime_delay = cpu.ime_delay := by
  unfold jr_nc_n
  repeat' split
  all_goals simp

theorem ld_sp_nn_F (t : MemoryTables D) (cpu : CPU D) (h : cpu.reg.F &&& 0x0F = 0) :
    ((ld_sp_nn t cpu).2).reg.F &&& 0x0F = 0 := by
  unfold ld_sp_nn
  repeat' split
  all_goals simp [h]

theorem ld_sp_nn_ime (t : MemoryTables D) (cpu : CPU D) :
    ((ld_sp_nn t cpu).2).ime = cpu.ime ∧ ((ld_sp_nn t cpu).2).ime_scheduled = cpu.ime_scheduled ∧
      ((ld_sp_nn t cpu).2).ime_delay = cpu.ime_delay := by
  unfold ld_sp_nn
  repeat' split
  all_goals simp

theorem ld_hld_a_F (t : MemoryTables D) (cpu : CPU D) (h : cpu.reg.F &&& 0x0F = 0) :
    ((ld_hld_a t cpu).2).reg.F &&& 0x0F = 0 := by
  unfold ld_hld_a
  repeat' split
  all_goals simp [h]

theorem ld_hld_a_ime (t : MemoryTables D) (cpu : CPU D) :
    ((ld_hld_a t cpu).2).ime = cpu.ime ∧ ((ld_hld_a t cpu).2).ime_scheduled = cpu.ime_scheduled ∧
      ((ld_hld_a t cpu).2).ime_delay = cpu.ime_delay := by
  unfold ld_hld_a
  repeat' split
  all_goals simp

theorem inc_sp_F (t : MemoryTables D) (cpu : CPU D) (h : cpu.reg.F &&& 0x0F = 0) :
    ((inc_sp t cpu).2).reg.F &&& 0x0F = 0 := by
  unfold inc_sp
  repeat' split
  all_goals simp [h]

theorem inc_sp_ime (t : MemoryTables D) (cpu : CPU D) :
    ((inc_sp t cpu).2).ime = cpu.ime ∧ ((inc_sp t cpu).2).ime_scheduled = cpu.ime_scheduled ∧
      ((inc_sp t cpu).2).ime_delay = cpu.ime_delay := by
  unfold inc_sp
  repeat' split
  all_goals simp

theorem inc_hl_mem_F (t : MemoryTables D) (cpu : CPU D) (h : cpu.reg.F &&& 0x0F = 0) :
    ((inc_hl_mem t cpu).2).reg.F &&& 0x0F = 0 := by
  unfold inc_hl_mem
  repeat' split
  all_goals simp [h]

theorem inc_hl_mem_ime (t : MemoryTables D) (cpu : CPU D) :
    ((inc_hl_mem t cpu).2).ime = cpu.ime ∧ ((inc_hl_mem t cpu).2).ime_scheduled = cpu.ime_scheduled ∧
      ((inc_hl_mem t cpu).2).ime_delay = cpu.ime_delay := by
  unfold inc_hl_mem
  repeat' split
  all_goals simp

theorem dec_hl_mem_F (t : MemoryTables D) (cpu : CPU D) (h : cpu.reg.F &&& 0x0F = 0) :
    ((dec_hl_mem t cpu).2).reg.F &&& 0x0F = 0 := by
  unfold dec_hl_mem
  repeat' split
  all_goals simp [h]

theorem dec_hl_mem_ime (t : MemoryTables D) (cpu : CPU D) :
    ((dec_hl_mem t cpu).2).ime = cpu.ime ∧ ((dec_hl_mem t cpu).2).ime_scheduled = cpu.ime_scheduled ∧
      ((dec_hl_mem t cpu).2).ime_delay = cpu.ime_delay := by
  unfold dec_hl_mem
  repeat' split
  all_goals simp

theorem ld_hl_n_F (t : MemoryTables D) (cpu : CPU D) (h : cpu.reg.F &&& 0x0F = 0) :
    ((ld_hl_n t cpu).2).reg.F &&& 0x0F = 0 := by
  unfold ld_hl_n
  repeat' split
  all_goals simp [h]

theorem ld_hl_n_ime (t : MemoryTables D) (cpu : CPU D) :
    ((ld_hl_n t cpu).2).ime = cpu.ime ∧ ((ld_hl_n t cpu).2).ime_scheduled = cpu.ime_scheduled ∧
      ((ld_hl_n t cpu).2).ime_delay = cpu.ime_delay := by
  unfold ld_hl_n
  repeat' split
  all_goals simp

theorem scf_F (t : MemoryTables D) (cpu : CPU D) (h : cpu.reg.F &&& 0x0F = 0) :
    ((scf t cpu).2).reg.F &&& 0x0F = 0 := by
  unfold scf
  repeat' split
  all_goals simp [h]

theorem scf_ime (t : MemoryTables D) (cpu : CPU D) :
    ((scf t cpu).2).ime = cpu.ime ∧ ((scf t cpu).2).ime_scheduled = cpu.ime_scheduled ∧
      ((scf t cpu).2).ime_delay = cpu.ime_delay := by
  unfold scf
  repeat' split
  all_goals simp

theorem jr_c_n_F (t : MemoryTables D) (cpu : CPU D) (h : cpu.reg.F &&& 0x0F = 0) :
    ((jr_c_n t cpu).2).reg.F &&& 0x0F = 0 := by
  unfold jr_c_n
  repeat' split
  all_goals simp [h]

theorem jr_c_n_ime (t : MemoryTables D) (cpu : CPU D) :
    ((jr_c_n t cpu).2).ime = cpu.ime ∧ ((jr_c_n t cpu).2).ime_scheduled = cpu.ime_scheduled ∧
      ((jr_c_n t cpu).2).ime_delay = cpu.ime_delay := by
  unfold jr_c_n
  repeat' split
  all_goals simp

theorem add_hl_sp_F (t : MemoryTables D) (cpu : CPU D) (h : cpu.reg.F &&& 0x0F = 0) :
    ((add_hl_sp t cpu).2).reg.F &&& 0x0F = 0 := by
  unfold add_hl_sp
  repeat' split
  all_goals simp [h]

theorem add_hl_sp_ime (t : MemoryTables D) (cpu : CPU D) :
    ((add_hl_sp t cpu).2).ime = cpu.ime ∧ ((add_hl_sp t cpu).2).ime_scheduled = cpu.ime_scheduled ∧
      ((add_hl_sp t cpu).2).ime_delay = cpu.ime_delay := by
  unfold add_hl_sp
  repeat' split
  all_goals simp

theorem ld_a_hld_F (t : MemoryTables D) (cpu : CPU D) (h : cpu.reg.F &&& 0x0F = 0) :
    ((ld_a_hld t cpu).2).reg.F &&& 0x0F = 0 := by
  unfold ld_a_hld
  repeat' split
  all_goals simp [h]

theorem ld_a_hld_ime (t : MemoryTables D) (cpu : CPU D) :
    ((ld_a_hld t cpu).2).ime = cpu.ime ∧ ((ld_a_hld t cpu).2).ime_scheduled = cpu.ime_scheduled ∧
      ((ld_a_hld t cpu).2).ime_delay = cpu.ime_delay := by
  unfold ld_a_hld
  repeat' split
  all_goals simp

theorem dec_sp_F (t : MemoryTables D) (cpu : CPU D) (h : cpu.reg.F &&& 0x0F = 0) :
    ((dec_sp t cpu).2).reg.F &&& 0x0F = 0 := by
  unfold dec_sp
  repeat' split
  all_goals simp [h]

theorem dec_sp_ime (t : MemoryTables D) (cpu : CPU D) :
    ((dec_sp t cpu).2).ime = cpu.ime ∧ ((dec_sp t cpu).2).ime_scheduled = cpu.ime_scheduled ∧
      ((dec_sp t cpu).2).ime_delay = cpu.ime_delay := by
  unfold dec_sp
  repeat' split
  all_goals simp

theorem inc_a_F (t : MemoryTables D) (cpu : CPU D) (h : cpu.reg.F &&& 0x0F = 0) :
    ((inc_a t cpu).2).reg.F &&& 0x0F = 0 := by
  unfold inc_a
  repeat' split
  all_goals simp [h]

theorem inc_a_ime (t : MemoryTables D) (cpu : CPU D) :
    ((inc_a t cpu).2).ime = cpu.ime ∧ ((inc_a t cpu).2).ime_scheduled = cpu.ime_scheduled ∧
      ((inc_a t cpu).2).ime_delay = cpu.ime_delay := by
  unfold inc_a
  repeat' split
  all_goals simp

theorem dec_a_F (t : MemoryTables D) (cpu : CPU D) (h : cpu.reg.F &&& 0x0F = 0) :
    ((dec_a t cpu).2).reg.F &&& 0x0F = 0 := by
  unfold dec_a
  repeat' split
  all_goals simp [h]

theorem dec_a_ime (t : MemoryTables D) (cpu : CPU D) :
    ((dec_a t cpu).2).ime = cpu.ime ∧ ((dec_a t cpu).2).ime_scheduled = cpu.ime_scheduled ∧
      ((dec_a t cpu).2).ime_delay = cpu.ime_delay := by
  unfold dec_a
  repeat' split
  all_goals simp

theorem ld_a_n_F (t : MemoryTables D) (cpu : CPU D) (h : cpu.reg.F &&& 0x0F = 0) :
    ((ld_a_n t cpu).2).reg.F &&& 0x0F = 0 := by
  unfold ld_a_n
  repeat' split
  all_goals simp [h]

theorem ld_a_n_ime (t : MemoryTables D) (cpu : CPU D) :
    ((ld_a_n t cpu).2).ime = cpu.ime ∧ ((ld_a_n t cpu).2).ime_scheduled = cpu.ime_scheduled ∧
      ((ld_a_n t cpu).2).ime_delay = cpu.ime_delay := by
  unfold ld_a_n
  repeat' split
  all_goals simp

theorem ccf_F (t : MemoryTables D) (cpu : CPU D) (h : cpu.reg.F &&& 0x0F = 0) :
    ((ccf t cpu).2).reg.F &&& 0x0F = 0 := by
  unfold ccf
  repeat' split
  all_goals simp [h]

theorem ccf_ime (t : MemoryTables D) (cpu : CPU D) :
    ((ccf t cpu).2).ime = cpu.ime ∧ ((ccf t cpu).2).ime_scheduled = cpu.ime_scheduled ∧
      ((ccf t cpu).2).ime_delay = cpu.ime_delay := by
  unfold ccf
  repeat' split
  all_goals simp

theorem ld_b_c_F (t : MemoryTables D) (cpu : CPU D) (h : cpu.reg.F &&& 0x0F = 0) :
    ((ld_b_c t cpu).2).reg.F &&& 0x0F = 0 := by
  unfold ld_b_c
  repeat' split
  all_goals simp [h]

theorem ld_b_c_ime (t : MemoryTables D) (cpu : CPU D) :
    ((ld_b_c t cpu).2).ime = cpu.ime ∧ ((ld_b_c t cpu).2).ime_scheduled = cpu.ime_scheduled ∧
      ((ld_b_c t cpu).2).ime_delay = cpu.ime_delay := by
  unfold ld_b_c
  repeat' split
  all_goals simp

theorem ld_b_d_F (t : MemoryTables D) (cpu : CPU D) (h : cpu.reg.F &&& 0x0F = 0) :
    ((ld_b_d t cpu).2).reg.F &&& 0x0F = 0 := by
  unfold ld_b_d
  repeat' split
  all_goals simp [h]

theorem ld_b_d_ime (t : MemoryTables D) (cpu : CPU D) :
    ((ld_b_d t cpu).2).ime = cpu.ime ∧ ((ld_b_d t cpu).2).ime_scheduled = cpu.ime_scheduled ∧
      ((ld_b_d t cpu).2).ime_delay = cpu.ime_delay := by
  unfold ld_b_d
  repeat' split
  all_goals simp

theorem ld_b_e_F (t : MemoryTables D) (cpu : CPU D) (h : cpu.reg.F &&& 0x0F = 0) :
    ((ld_b_e t cpu).2).reg.F &&& 0x0F = 0 := by
  unfold ld_b_e
  repeat' split
  all_goals simp [h]

theorem ld_b_e_ime (t : MemoryTables D) (cpu : CPU D) :
    ((ld_b_e t cpu).2).ime = cpu.ime ∧ ((ld_b_e t cpu).2).ime_scheduled = cpu.ime_scheduled ∧
      ((ld_b_e t cpu).2).ime_delay = cpu.ime_delay := by
  unfold ld_b_e
  repeat' split
  all_goals simp

theorem ld_b_h_F (t : MemoryTables D) (cpu : CPU D) (h : cpu.reg.F &&& 0x0F = 0) :
    ((ld_b_h t cpu).2).reg.F &&& 0x0F = 0 := by
  unfold ld_b_h
  repeat' split
  all_goals simp [h]

theorem ld_b_h_ime (t : MemoryTables D) (cpu : CPU D) :
    ((ld_b_h t cpu).2).ime = cpu.ime ∧ ((ld_b_h t cpu).2).ime_scheduled = cpu.ime_scheduled ∧
      ((ld_b_h t cpu).2).ime_delay = cpu.ime_delay := by
  unfold ld_b_h
  repeat' split
  all_goals simp

theorem ld_b_l_F (t : MemoryTables D) (cpu : CPU D) (h : cpu.reg.F &&& 0x0F = 0) :
    ((ld_b_l t cpu).2).reg.F &&& 0x0F = 0 := by
  unfold ld_b_l
  repeat' split
  all_goals simp [h]

theorem ld_b_l_ime (t : MemoryTables D) (cpu : CPU D) :
    ((ld_b_l t cpu).2).ime = cpu.ime ∧ ((ld_b_l t cpu).2).ime_scheduled = cpu.ime_scheduled ∧
      ((ld_b_l t cpu).2).ime_delay = cpu.ime_delay := by
  unfold ld_b_l
  repeat' split
  all_goals simp

theorem ld_b_hl_F (t : MemoryTables D) (cpu : CPU D) (h : cpu.reg.F &&& 0x0F = 0) :
    ((ld_b_hl t cpu).2).reg.F &&& 0x0F = 0 := by
  unfold ld_b_hl
  repeat' split
  all_goals simp [h]

theorem ld_b_hl_ime (t : MemoryTables D) (cpu : CPU D) :
    ((ld_b_hl t cpu).2).ime = cpu.ime ∧ ((ld_b_hl t cpu).2).ime_scheduled = cpu.ime_scheduled ∧
      ((ld_b_hl t cpu).2).ime_delay = cpu.ime_delay := by
  unfold ld_b_hl
  repeat' split
  all_goals simp

theorem ld_b_a_F (t : MemoryTables D) (cpu : CPU D) (h : cpu.reg.F &&& 0x0F = 0) :
    ((ld_b_a t cpu).2).reg.F &&& 0x0F = 0 := by
  unfold ld_b_a
  repeat' split
  all_goals simp [h]

theorem ld_b_a_ime (t : MemoryTables D) (cpu : CPU D) :
    ((ld_b_a t cpu).2).ime = cpu.ime ∧ ((ld_b_a t cpu).2).ime_scheduled = cpu.ime_scheduled ∧
      ((ld_b_a t cpu).2).ime_delay = cpu.ime_delay := by
  unfold ld_b_a
  repeat' split
  all_goals simp

theorem ld_c_b_F (t : MemoryTables D) (cpu : CPU D) (h : cpu.reg.F &&& 0x0F = 0) :
    ((ld_c_b t cpu).2).reg.F &&& 0x0F = 0 := by
  unfold ld_c_b
  repeat' split
  all_goals simp [h]

theorem ld_c_b_ime (t : MemoryTables D) (cpu : CPU D) :
    ((ld_c_b t cpu).2).ime = cpu.ime ∧ ((ld_c_b t cpu).2).ime_scheduled = cpu.ime_scheduled ∧
      ((ld_c_b t cpu).2).ime_delay = cpu.ime_delay := by
  unfold ld_c_b
  repeat' split
  all_goals simp

theorem ld_c_d_F (t : MemoryTables D) (cpu : CPU D) (h : cpu.reg.F &&& 0x0F = 0) :
    ((ld_c_d t cpu).2).reg.F &&& 0x0F = 0 := by
  unfold ld_c_d
  repeat' split
  all_goals simp [h]

theorem ld_c_d_ime (t : MemoryTables D) (cpu : CPU D) :
    ((ld_c_d t cpu).2).ime = cpu.ime ∧ ((ld_c_d t cpu).2).ime_scheduled = cpu.ime_scheduled ∧
      ((ld_c_d t cpu).2).ime_delay = cpu.ime_delay := by
  unfold ld_c_d
  repeat' split
  all_goals simp

theorem ld_c_e_F (t : MemoryTables D) (cpu : CPU D) (h : cpu.reg.F &&& 0x0F = 0) :
    ((ld_c_e t cpu).2).reg.F &&& 0x0F = 0 := by
  unfold ld_c_e
  repeat' split
  all_goals simp [h]

theorem ld_c_e_ime (t : MemoryTables D) (cpu : CPU D) :
    ((ld_c_e t cpu).2).ime = cpu.ime ∧ ((ld_c_e t cpu).2).ime_scheduled = cpu.ime_scheduled ∧
      ((ld_c_e t cpu).2).ime_delay = cpu.ime_delay := by
  unfold ld_c_e
  repeat' split
  all_goals simp

theorem ld_c_h_F (t : MemoryTables D) (cpu : CPU D) (h : cpu.reg.F &&& 0x0F = 0) :
    ((ld_c_h t cpu).2).reg.F &&& 0x0F = 0 := by
  unfold ld_c_h
  repeat' split
  all_goals simp [h]

theorem ld_c_h_ime (t : MemoryTables D) (cpu : CPU D) :
    ((ld_c_h t cpu).2).ime = cpu.ime ∧ ((ld_c_h t cpu).2).ime_scheduled = cpu.ime_scheduled ∧
      ((ld_c_h t cpu).2).ime_delay = cpu.ime_delay := by
  unfold ld_c_h
  repeat' split
  all_goals simp

theorem ld_c_l_F (t : MemoryTables D) (cpu : CPU D) (h : cpu.reg.F &&& 0x0F = 0) :
    ((ld_c_l t cpu).2).reg.F &&& 0x0F = 0 := by
  unfold ld_c_l
  repeat' split
  all_goals simp [h]

theorem ld_c_l_ime (t : MemoryTables D) (cpu : CPU D) :
    ((ld_c_l t cpu).2).ime = cpu.ime ∧ ((ld_c_l t cpu).2).ime_scheduled = cpu.ime_scheduled ∧
      ((ld_c_l t cpu).2).ime_delay = cpu.ime_delay := by
  unfold ld_c_l
  repeat' split
  all_goals simp

theorem ld_c_hl_F (t : MemoryTables D) (cpu : CPU D) (h : cpu.reg.F &&& 0x0F = 0) :
    ((ld_c_hl t cpu).2).reg.F &&& 0x0F = 0 := by
  unfold ld_c_hl
  repeat' split
  all_goals simp [h]

theorem ld_c_hl_ime (t : MemoryTables D) (cpu : CPU D) :
    ((ld_c_hl t cpu).2).ime = cpu.ime ∧ ((ld_c_hl t cpu).2).ime_scheduled = cpu.ime_scheduled ∧
      ((ld_c_hl t cpu).2).ime_delay = cpu.ime_delay := by
  unfold ld_c_hl
  repeat' split
  all_goals simp

theorem ld_c_a_F (t : MemoryTables D) (cpu : CPU D) (h : cpu.reg.F &&& 0x0F = 0) :
    ((ld_c_a t cpu).2).reg.F &&& 0x0F = 0 := by
  unfold ld_c_a
  repeat' split
  all_goals simp [h]

theorem ld_c_a_ime (t : MemoryTables D) (cpu : CPU D) :
    ((ld_c_a t cpu).2).ime = cpu.ime ∧ ((ld_c_a t cpu).2).ime_scheduled = cpu.ime_scheduled ∧
      ((ld_c_a t cpu).2).ime_delay = cpu.ime_delay := by
  unfold ld_c_a
  repeat' split
  all_goals simp

theorem ld_d_b_F (t : MemoryTables D) (cpu : CPU D) (h : cpu.reg.F &&& 0x0F = 0) :
    ((ld_d_b t cpu).2).reg.F &&& 0x0F = 0 := by
  unfold ld_d_b
  repeat' split
  all_goals simp [h]

theorem ld_d_b_ime (t : MemoryTables D) (cpu : CPU D) :
    ((ld_d_b t cpu).2).ime = cpu.ime ∧ ((ld_d_b t cpu).2).ime_scheduled = cpu.ime_scheduled ∧
      ((ld_d_b t cpu).2).ime_delay = cpu.ime_delay := by
  unfold ld_d_b
  repeat' split
  all_goals simp

theorem ld_d_c_F (t : MemoryTables D) (cpu : CPU D) (h : cpu.reg.F &&& 0x0F = 0) :
    ((ld_d_c t cpu).2).reg.F &&& 0x0F = 0 := by
  unfold ld_d_c
  repeat' split
  all_goals simp [h]

theorem ld_d_c_ime (t : MemoryTables D) (cpu : CPU D) :
    ((ld_d_c t cpu).2).ime = cpu.ime ∧ ((ld_d_c t cpu).2).ime_scheduled = cpu.ime_scheduled ∧
      ((ld_d_c t cpu).2).ime_delay = cpu.ime_delay := by
  unfold ld_d_c
  repeat' split
  all_goals simp

theorem ld_d_e_F (t : MemoryTables D) (cpu : CPU D) (h : cpu.reg.F &&& 0x0F = 0) :
    ((ld_d_e t cpu).2).reg.F &&& 0x0F = 0 := by
  unfold ld_d_e
  repeat' split
  all_goals simp [h]

theorem ld_d_e_ime (t : MemoryTables D) (cpu : CPU D) :
    ((ld_d_e t cpu).2).ime = cpu.ime ∧ ((ld_d_e t cpu).2).ime_scheduled = cpu.ime_scheduled ∧
      ((ld_d_e t cpu).2).ime_delay = cpu.ime_delay := by
  unfold ld_d_e
  repeat' split
  all_goals simp

theorem ld_d_h_F (t : MemoryTables D) (cpu : CPU D) (h : cpu.reg.F &&& 0x0F = 0) :
    ((ld_d_h t cpu).2).reg.F &&& 0x0F = 0 := by
  unfold ld_d_h
  repeat' split
  all_goals simp [h]

theorem ld_d_h_ime (t : MemoryTables D) (cpu : CPU D) :
    ((ld_d_h t cpu).2).ime = cpu.ime ∧ ((ld_d_h t cpu).2).ime_scheduled = cpu.ime_scheduled ∧
      ((ld_d_h t cpu).2).ime_delay = cpu.ime_delay := by
  unfold ld_d_h
  repeat' split
  all_goals simp

theorem ld_d_l_F (t : MemoryTables D) (cpu : CPU D) (h : cpu.reg.F &&& 0x0F = 0) :
    ((ld_d_l t cpu).2).reg.F &&& 0x0F = 0 := by
  unfold ld_d_l
  repeat' split
  all_goals simp [h]

theorem ld_d_l_ime (t : MemoryTables D) (cpu : CPU D) :
    ((ld_d_l t cpu).2).ime = cpu.ime ∧ ((ld_d_l t cpu).2).ime_scheduled = cpu.ime_scheduled ∧
      ((ld_d_l t cpu).2).ime_delay = cpu.ime_delay := by
  unfold ld_d_l
  repeat' split
  all_goals simp

theorem ld_d_hl_F (t : MemoryTables D) (cpu : CPU D) (h : cpu.reg.F &&& 0x0F = 0) :
    ((ld_d_hl t cpu).2).reg.F &&& 0x0F = 0 := by
  unfold ld_d_hl
  repeat' split
  all_goals simp [h]

theorem ld_d_hl_ime (t : MemoryTables D) (cpu : CPU D) :
    ((ld_d_hl t cpu).2).ime = cpu.ime ∧ ((ld_d_hl t cpu).2).ime_scheduled = cpu.ime_scheduled ∧
      ((ld_d_hl t cpu).2).ime_delay = cpu.ime_delay := by
  unfold ld_d_hl
  repeat' split
  all_goals simp

theorem ld_d_a_F (t : MemoryTables D) (cpu : CPU D) (h : cpu.reg.F &&& 0x0F = 0) :
    ((ld_d_a t cpu).2).reg.F &&& 0x0F = 0 := by
  unfold ld_d_a
  repeat' split
  all_goals simp [h]

theorem ld_d_a_ime (t : MemoryTables D) (cpu : CPU D) :
    ((ld_d_a t cpu).2).ime = cpu.ime ∧ ((ld_d_a t cpu).2).ime_scheduled = cpu.ime_scheduled ∧
      ((ld_d_a t cpu).2).ime_delay = cpu.ime_delay := by
  unfold ld_d_a
  repeat' split
  all_goals simp

theorem ld_e_b_F (t : MemoryTables D) (cpu : CPU D) (h : cpu.reg.F &&& 0x0F = 0) :
    ((ld_e_b t cpu).2).reg.F &&& 0x0F = 0 := by
  unfold ld_e_b
  repeat' split
  all_goals simp [h]

theorem ld_e_b_ime (t : MemoryTables D) (cpu : CPU D) :
    ((ld_e_b t cpu).2).ime = cpu.ime ∧ ((ld_e_b t cpu).2).ime_scheduled = cpu.ime_scheduled ∧
      ((ld_e_b t cpu).2).ime_delay = cpu.ime_delay := by
  unfold ld_e_b
  repeat' split
  all_goals simp

theorem ld_e_c_F (t : MemoryTables D) (cpu : CPU D) (h : cpu.reg.F &&& 0x0F = 0) :
    ((ld_e_c t cpu).2).reg.F &&& 0x0F = 0 := by
  unfold ld_e_c
  repeat' split
  all_goals simp [h]

theorem ld_e_c_ime (t : MemoryTables D) (cpu : CPU D) :
    ((ld_e_c t cpu).2).ime = cpu.ime ∧ ((ld_e_c t cpu).2).ime_scheduled = cpu.ime_scheduled ∧
      ((ld_e_c t cpu).2).ime_delay = cpu.ime_delay := by
  unfold ld_e_c
  repeat' split
  all_goals simp

theorem ld_e_d_F (t : MemoryTables D) (cpu : CPU D) (h : cpu.reg.F &&& 0x0F = 0) :
    ((ld_e_d t cpu).2).reg.F &&& 0x0F = 0 := by
  unfold ld_e_d
  repeat' split
  all_goals simp [h]

theorem ld_e_d_ime (t : MemoryTables D) (cpu : CPU D) :
    ((ld_e_d t cpu).2).ime = cpu.ime ∧ ((ld_e_d t cpu).2).ime_scheduled = cpu.ime_scheduled ∧
      ((ld_e_d t cpu).2).ime_delay = cpu.ime_delay := by
  unfold ld_e_d
  repeat' split
  all_goals simp

theorem ld_e_h_F (t : MemoryTables D) (cpu : CPU D) (h : cpu.reg.F &&& 0x0F = 0) :
    ((ld_e_h t cpu).2).reg.F &&& 0x0F = 0 := by
  unfold ld_e_h
  repeat' split
  all_goals simp [h]

theorem ld_e_h_ime (t : MemoryTables D) (cpu : CPU D) :
    ((ld_e_h t cpu).2).ime = cpu.ime ∧ ((ld_e_h t cpu).2).ime_scheduled = cpu.ime_scheduled ∧
      ((ld_e_h t cpu).2).ime_delay = cpu.ime_delay := by
  unfold ld_e_h
  repeat' split
  all_goals simp

theorem ld_e_l_F (t : MemoryTables D) (cpu : CPU D) (h : cpu.reg.F &&& 0x0F = 0) :
    ((ld_e_l t cpu).2).reg.F &&& 0x0F = 0 := by
  unfold ld_e_l
  repeat' split
  all_goals simp [h]

theorem ld_e_l_ime (t : MemoryTables D) (cpu : CPU D) :
    ((ld_e_l t cpu).2).ime = cpu.ime ∧ ((ld_e_l t cpu).2).ime_scheduled = cpu.ime_scheduled ∧
      ((ld_e_l t cpu).2).ime_delay = cpu.ime_delay := by
  unfold ld_e_l
  repeat' split
  all_goals simp

theorem ld_e_hl_F (t : MemoryTables D) (cpu : CPU D) (h : cpu.reg.F &&& 0x0F = 0) :
    ((ld_e_hl t cpu).2).reg.F &&& 0x0F = 0 := by
  unfold ld_e_hl
  repeat' split
  all_goals simp [h]

theorem ld_e_hl_ime (t : MemoryTables D) (cpu : CPU D) :
    ((ld_e_hl t cpu).2).ime = cpu.ime ∧ ((ld_e_hl t cpu).2).ime_scheduled = cpu.ime_scheduled ∧
      ((ld_e_hl t cpu).2).ime_delay = cpu.ime_delay := by
  unfold ld_e_hl
  repeat' split
  all_goals simp

theorem ld_e_a_F (t : MemoryTables D) (cpu : CPU D) (h : cpu.reg.F &&& 0x0F = 0) :
    ((ld_e_a t cpu).2).reg.F &&& 0x0F = 0 := by
  unfold ld_e_a
  repeat' split
  all_goals simp [h]

theorem ld_e_a_ime (t : MemoryTables D) (cpu : CPU D) :
    ((ld_e_a t cpu).2).ime = cpu.ime ∧ ((ld_e_a t cpu).2).ime_scheduled = cpu.ime_scheduled ∧
      ((ld_e_a t cpu).2).ime_delay = cpu.ime_delay := by
  unfold ld_e_a
  repeat' split
  all_goals simp

theorem ld_h_b_F (t : MemoryTables D) (cpu : CPU D) (h : cpu.reg.F &&& 0x0F = 0) :
    ((ld_h_b t cpu).2).reg.F &&& 0x0F = 0 := by
  unfold ld_h_b
  repeat' split
  all_goals simp [h]

theorem ld_h_b_ime (t : MemoryTables D) (cpu : CPU D) :
    ((ld_h_b t cpu).2).ime = cpu.ime ∧ ((ld_h_b t cpu).2).ime_scheduled = cpu.ime_scheduled ∧
      ((ld_h_b t cpu).2).ime_delay = cpu.ime_delay := by
  unfold ld_h_b
  repeat' split
  all_goals simp

theorem ld_h_c_F (t : MemoryTables D) (cpu : CPU D) (h : cpu.reg.F &&& 0x0F = 0) :
    ((ld_h_c t cpu).2).reg.F &&& 0x0F = 0 := by
  unfold ld_h_c
  repeat' split
  all_goals simp [h]

theorem ld_h_c_ime (t : MemoryTables D) (cpu : CPU D) :
    ((ld_h_c t cpu).2).ime = cpu.ime ∧ ((ld_h_c t cpu).2).ime_scheduled = cpu.ime_scheduled ∧
      ((ld_h_c t cpu).2).ime_delay = cpu.ime_delay := by
  unfold ld_h_c
  repeat' split
  all_goals simp

theorem ld_h_d_F (t : MemoryTables D) (cpu : CPU D) (h : cpu.reg.F &&& 0x0F = 0) :
    ((ld_h_d t cpu).2).reg.F &&& 0x0F = 0 := by
  unfold ld_h_d
  repeat' split
  all_goals simp [h]

theorem ld_h_d_ime (t : MemoryTables D) (cpu : CPU D) :
    ((ld_h_d t cpu).2).ime = cpu.ime ∧ ((ld_h_d t cpu).2).ime_scheduled = cpu.ime_scheduled ∧
      ((ld_h_d t cpu).2).ime_delay = cpu.ime_delay := by
  unfold ld_h_d
  repeat' split
  all_goals simp

theorem ld_h_e_F (t : MemoryTables D) (cpu : CPU D) (h : cpu.reg.F &&& 0x0F = 0) :
    ((ld_h_e t cpu).2).reg.F &&& 0x0F = 0 := by
  unfold ld_h_e
  repeat' split
  all_goals simp [h]

theorem ld_h_e_ime (t : MemoryTables D) (cpu : CPU D) :
    ((ld_h_e t cpu).2).ime = cpu.ime ∧ ((ld_h_e t cpu).2).ime_scheduled = cpu.ime_scheduled ∧
      ((ld_h_e t cpu).2).ime_delay = cpu.ime_delay := by
  unfold ld_h_e
  repeat' split
  all_goals simp

theorem ld_h_l_F (t : MemoryTables D) (cpu : CPU D) (h : cpu.reg.F &&& 0x0F = 0) :
    ((ld_h_l t cpu).2).reg.F &&& 0x0F = 0 := by
  unfold ld_h_l
  repeat' split
  all_goals simp [h]

theorem ld_h_l_ime (t : MemoryTables D) (cpu : CPU D) :
    ((ld_h_l t cpu).2).ime = cpu.ime ∧ ((ld_h_l t cpu).2).ime_scheduled = cpu.ime_scheduled ∧
      ((ld_h_l t cpu).2).ime_delay = cpu.ime_delay := by
  unfold ld_h_l
  repeat' split
  all_goals simp

theorem ld_h_hl_F (t : MemoryTables D) (cpu : CPU D) (h : cpu.reg.F &&& 0x0F = 0) :
    ((ld_h_hl t cpu).2).reg.F &&& 0x0F = 0 := by
  unfold ld_h_hl
  repeat' split
  all_goals simp [h]

theorem ld_h_hl_ime (t : MemoryTables D) (cpu : CPU D) :
    ((ld_h_hl t cpu).2).ime = cpu.ime ∧ ((ld_h_hl t cpu).2).ime_scheduled = cpu.ime_scheduled ∧
      ((ld_h_hl t cpu).2).ime_delay = cpu.ime_delay := by
  unfold ld_h_hl
  repeat' split
  all_goals simp

theorem ld_h_a_F (t : MemoryTables D) (cpu : CPU D) (h : cpu.reg.F &&& 0x0F = 0) :
    ((ld_h_a t cpu).2).reg.F &&& 0x0F = 0 := by
  unfold ld_h_a
  repeat' split
  all_goals simp [h]

theorem ld_h_a_ime (t : MemoryTables D) (cpu : CPU D) :
    ((ld_h_a t cpu).2).ime = cpu.ime ∧ ((ld_h_a t cpu).2).ime_scheduled = cpu.ime_scheduled ∧
      ((ld_h_a t cpu).2).ime_delay = cpu.ime_delay := by
  unfold ld_h_a
  repeat' split
  all_goals simp

theorem ld_l_b_F (t : MemoryTables D) (cpu : CPU D) (h : cpu.reg.F &&& 0x0F = 0) :
    ((ld_l_b t cpu).2).reg.F &&& 0x0F = 0 := by
  unfold ld_l_b
  repeat' split
  all_goals simp [h]

theorem ld_l_b_ime (t : MemoryTables D) (cpu : CPU D) :
    ((ld_l_b t cpu).2).ime = cpu.ime ∧ ((ld_l_b t cpu).2).ime_scheduled = cpu.ime_scheduled ∧
      ((ld_l_b t cpu).2).ime_delay = cpu.ime_delay := by
  unfold ld_l_b
  repeat' split
  all_goals simp

theorem ld_l_c_F (t : MemoryTables D) (cpu : CPU D) (h : cpu.reg.F &&& 0x0F = 0) :
    ((ld_l_c t cpu).2).reg.F &&& 0x0F = 0 := by
  unfold ld_l_c
  repeat' split
  all_goals simp [h]

theorem ld_l_c_ime (t : MemoryTables D) (cpu : CPU D) :
    ((ld_l_c t cpu).2).ime = cpu.ime ∧ ((ld_l_c t cpu).2).ime_scheduled = cpu.ime_scheduled ∧
      ((ld_l_c t cpu).2).ime_delay = cpu.ime_delay := by
  unfold ld_l_c
  repeat' split
  all_goals simp

theorem ld_l_d_F (t : MemoryTables D) (cpu : CPU D) (h : cpu.reg.F &&& 0x0F = 0) :
    ((ld_l_d t cpu).2).reg.F &&& 0x0F = 0 := by
  unfold ld_l_d
  repeat' split
  all_goals simp [h]

theorem ld_l_d_ime (t : MemoryTables D) (cpu : CPU D) :
    ((ld_l_d t cpu).2).ime = cpu.ime ∧ ((ld_l_d t cpu).2).ime_scheduled = cpu.ime_scheduled ∧
      ((ld_l_d t cpu).2).ime_delay = cpu.ime_delay := by
  unfold ld_l_d
  repeat' split
  all_goals simp

theorem ld_l_e_F (t : MemoryTables D) (cpu : CPU D) (h : cpu.reg.F &&& 0x0F = 0) :
    ((ld_l_e t cpu).2).reg.F &&& 0x0F = 0 := by
  unfold ld_l_e
  repeat' split
  all_goals simp [h]

theorem ld_l_e_ime (t : MemoryTables D) (cpu : CPU D) :
    ((ld_l_e t cpu).2).ime = cpu.ime ∧ ((ld_l_e t cpu).2).ime_scheduled = cpu.ime_scheduled ∧
      ((ld_l_e t cpu).2).ime_delay = cpu.ime_delay := by
  unfold ld_l_e
  repeat' split
  all_goals simp

theorem ld_l_h_F (t : MemoryTables D) (cpu : CPU D) (h : cpu.reg.F &&& 0x0F = 0) :
    ((ld_l_h t cpu).2).reg.F &&& 0x0F = 0 := by
  unfold ld_l_h
  repeat' split
  all_goals simp [h]

theorem ld_l_h_ime (t : MemoryTables D) (cpu : CPU D) :
    ((ld_l_h t cpu).2).ime = cpu.ime ∧ ((ld_l_h t cpu).2).ime_scheduled = cpu.ime_scheduled ∧
      ((ld_l_h t cpu).2).ime_delay = cpu.ime_delay := by
  unfold ld_l_h
  repeat' split
  all_goals simp

theorem ld_l_hl_F (t : MemoryTables D) (cpu : CPU D) (h : cpu.reg.F &&& 0x0F = 0) :
    ((ld_l_hl t cpu).2).reg.F &&& 0x0F = 0 := by
  unfold ld_l_hl
  repeat' split
  all_goals simp [h]

theorem ld_l_hl_ime (t : MemoryTables D) (cpu : CPU D) :
    ((ld_l_hl t cpu).2).ime = cpu.ime ∧ ((ld_l_hl t cpu).2).ime_scheduled = cpu.ime_scheduled ∧
      ((ld_l_hl t cpu).2).ime_delay = cpu.ime_delay := by
  unfold ld_l_hl
  repeat' split
  all_goals simp

theorem ld_l_a_F (t : MemoryTables D) (cpu : CPU D) (h : cpu.reg.F &&& 0x0F = 0) :
    ((ld_l_a t cpu).2).reg.F &&& 0x0F = 0 := by
  unfold ld_l_a
  repeat' split
  all_goals simp [h]

theorem ld_l_a_ime (t : MemoryTables D) (cpu : CPU D) :
    ((ld_l_a t cpu).2).ime = cpu.ime ∧ ((ld_l_a t cpu).2).ime_scheduled = cpu.ime_scheduled ∧
      ((ld_l_a t cpu).2).ime_delay = cpu.ime_delay := by
  unfold ld_l_a
  repeat' split
  all_goals simp

theorem ld_hl_b_F (t : MemoryTables D) (cpu : CPU D) (h : cpu.reg.F &&& 0x0F = 0) :
    ((ld_hl_b t cpu).2).reg.F &&& 0x0F = 0 := by
  unfold ld_hl_b
  repeat' split
  all_goals simp [h]

theorem ld_hl_b_ime (t : MemoryTables D) (cpu : CPU D) :
    ((ld_hl_b t cpu).2).ime = cpu.ime ∧ ((ld_hl_b t cpu).2).ime_scheduled = cpu.ime_scheduled ∧
      ((ld_hl_b t cpu).2).ime_delay = cpu.ime_delay := by
  unfold ld_hl_b
  repeat' split
  all_goals simp

theorem ld_hl_c_F (t : MemoryTables D) (cpu : CPU D) (h : cpu.reg.F &&& 0x0F = 0) :
    ((ld_hl_c t cpu).2).reg.F &&& 0x0F = 0 := by
  unfold ld_hl_c
  repeat' split
  all_goals simp [h]

theorem ld_hl_c_ime (t : MemoryTables D) (cpu : CPU D) :
    ((ld_hl_c t cpu).2).ime = cpu.ime ∧ ((ld_hl_c t cpu).2).ime_scheduled = cpu.ime_scheduled ∧
      ((ld_hl_c t cpu).2).ime_delay = cpu.ime_delay := by
  unfold ld_hl_c
  repeat' split
  all_goals simp

theorem ld_hl_d_F (t : MemoryTables D) (cpu : CPU D) (h : cpu.reg.F &&& 0x0F = 0) :
    ((ld_hl_d t cpu).2).reg.F &&& 0x0F = 0 := by
  unfold ld_hl_d
  repeat' split
  all_goals simp [h]

theorem ld_hl_d_ime (t : MemoryTables D) (cpu : CPU D) :
    ((ld_hl_d t cpu).2).ime = cpu.ime ∧ ((ld_hl_d t cpu).2).ime_scheduled = cpu.ime_scheduled ∧
      ((ld_hl_d t cpu).2).ime_delay = cpu.ime_delay := by
  unfold ld_hl_d
  repeat' split
  all_goals simp

theorem ld_hl_e_F (t : MemoryTables D) (cpu : CPU D) (h : cpu.reg.F &&& 0x0F = 0) :
    ((ld_hl_e t cpu).2).reg.F &&& 0x0F = 0 := by
  unfold ld_hl_e
  repeat' split
  all_goals simp [h]

theorem ld_hl_e_ime (t : MemoryTables D) (cpu : CPU D) :
    ((ld_hl_e t cpu).2).ime = cpu.ime ∧ ((ld_hl_e t cpu).2).ime_scheduled = cpu.ime_scheduled ∧
      ((ld_hl_e t cpu).2).ime_delay = cpu.ime_delay := by
  unfold ld_hl_e
  repeat' split
  all_goals simp

theorem ld_hl_h_F (t : MemoryTables D) (cpu : CPU D) (h : cpu.reg.F &&& 0x0F = 0) :
    ((ld_hl_h t cpu).2).reg.F &&& 0x0F = 0 := by
  unfold ld_hl_h
  repeat' split
  all_goals simp [h]

theorem ld_hl_h_ime (t : MemoryTables D) (cpu : CPU D) :
    ((ld_hl_h t cpu).2).ime = cpu.ime ∧ ((ld_hl_h t cpu).2).ime_scheduled = cpu.ime_scheduled ∧
      ((ld_hl_h t cpu).2).ime_delay = cpu.ime_delay := by
  unfold ld_hl_h
  repeat' split
  all_goals simp

theorem ld_hl_l_F (t : MemoryTables D) (cpu : CPU D) (h : cpu.reg.F &&& 0x0F = 0) :
    ((ld_hl_l t cpu).2).reg.F &&& 0x0F = 0 := by
  unfold ld_hl_l
  repeat' split
  all_goals simp [h]

theorem ld_hl_l_ime (t : MemoryTables D) (cpu : CPU D) :
    ((ld_hl_l t cpu).2).ime = cpu.ime ∧ ((ld_hl_l t cpu).2).ime_scheduled = cpu.ime_scheduled ∧
      ((ld_hl_l t cpu).2).ime_delay = cpu.ime_delay := by
  unfold ld_hl_l
  repeat' split
  all_goals simp

theorem halt_F (t : MemoryTables D) (cpu : CPU D) (h : cpu.reg.F &&& 0x0F = 0) :
    ((halt t cpu).2).reg.F &&& 0x0F = 0 := by
  unfold halt
  dsimp only
  repeat' split
  all_goals simp [h]

theorem halt_ime (t : MemoryTables D) (cpu : CPU D) :
    ((halt t cpu).2).ime = cpu.ime ∧ ((halt t cpu).2).ime_scheduled = cpu.ime_scheduled ∧
      ((halt t cpu).2).ime_delay = cpu.ime_delay := by
  unfold halt
  dsimp only
  repeat' split
  all_goals simp

theorem ld_hl_a_F (t : MemoryTables D) (cpu : CPU D) (h : cpu.reg.F &&& 0x0F = 0) :
    ((ld_hl_a t cpu).2).reg.F &&& 0x0F = 0 := by
  unfold ld_hl_a
  repeat' split
  all_goals simp [h]

theorem ld_hl_a_ime (t : MemoryTables D) (cpu : CPU D) :
    ((ld_hl_a t cpu).2).ime = cpu.ime ∧ ((ld_hl_a t cpu).2).ime_scheduled = cpu.ime_scheduled ∧
      ((ld_hl_a t cpu).2).ime_delay = cpu.ime_delay := by
  unfold ld_hl_a
  repeat' split
  all_goals simp

theorem ld_a_b_F (t : MemoryTables D) (cpu : CPU D) (h : cpu.reg.F &&& 0x0F = 0) :
    ((ld_a_b t cpu).2).reg.F &&& 0x0F = 0 := by
  unfold ld_a_b
  repeat' split
  all_goals simp [h]

theorem ld_a_b_ime (t : MemoryTables D) (cpu : CPU D) :
    ((ld_a_b t cpu).2).ime = cpu.ime ∧ ((ld_a_b t cpu).2).ime_scheduled = cpu.ime_scheduled ∧
      ((ld_a_b t cpu).2).ime_delay = cpu.ime_delay := by
  unfold ld_a_b
  repeat' split
  all_goals simp

theorem ld_a_c_F (t : MemoryTables D) (cpu : CPU D) (h : cpu.reg.F &&& 0x0F = 0) :
    ((ld_a_c t cpu).2).reg.F &&& 0x0F = 0 := by
  unfold ld_a_c
  repeat' split
  all_goals simp [h]

theorem ld_a_c_ime (t : MemoryTables D) (cpu : CPU D) :
    ((ld_a_c t cpu).2).ime = cpu.ime ∧ ((ld_a_c t cpu).2).ime_scheduled = cpu.ime_scheduled ∧
      ((ld_a_c t cpu).2).ime_delay = cpu.ime_delay := by
  unfold ld_a_c
  repeat' split
  all_goals simp

theorem ld_a_d_F (t : MemoryTables D) (cpu : CPU D) (h : cpu.reg.F &&& 0x0F = 0) :
    ((ld_a_d t cpu).2).reg.F &&& 0x0F = 0 := by
  unfold ld_a_d
  repeat' split
  all_goals simp [h]

theorem ld_a_d_ime (t : MemoryTables D) (cpu : CPU D) :
    ((ld_a_d t cpu).2).ime = cpu.ime ∧ ((ld_a_d t cpu).2).ime_scheduled = cpu.ime_scheduled ∧
      ((ld_a_d t cpu).2).ime_delay = cpu.ime_delay := by
  unfold ld_a_d
  repeat' split
  all_goals simp

theorem ld_a_e_F (t : MemoryTables D) (cpu : CPU D) (h : cpu.reg.F &&& 0x0F = 0) :
    ((ld_a_e t cpu).2).reg.F &&& 0x0F = 0 := by
  unfold ld_a_e
  repeat' split
  all_goals simp [h]

theorem ld_a_e_ime (t : MemoryTables D) (cpu : CPU D) :
    ((ld_a_e t cpu).2).ime = cpu.ime ∧ ((ld_a_e t cpu).2).ime_scheduled = cpu.ime_scheduled ∧
      ((ld_a_e t cpu).2).ime_delay = cpu.ime_delay := by
  unfold ld_a_e
  repeat' split
  all_goals simp

theorem ld_a_h_F (t : MemoryTables D) (cpu : CPU D) (h : cpu.reg.F &&& 0x0F = 0) :
    ((ld_a_h t cpu).2).reg.F &&& 0x0F = 0 := by
  unfold ld_a_h
  repeat' split
  all_goals simp [h]

theorem ld_a_h_ime (t : MemoryTables D) (cpu : CPU D) :
    ((ld_a_h t cpu).2).ime = cpu.ime ∧ ((ld_a_h t cpu).2).ime_scheduled = cpu.ime_scheduled ∧
      ((ld_a_h t cpu).2).ime_delay = cpu.ime_delay := by
  unfold ld_a_h
  repeat' split
  all_goals simp

theorem ld_a_l_F (t : MemoryTables D) (cpu : CPU D) (h : cpu.reg.F &&& 0x0F = 0) :
    ((ld_a_l t cpu).2).reg.F &&& 0x0F = 0 := by
  unfold ld_a_l
  repeat' split
  all_goals simp [h]

theorem ld_a_l_ime (t : MemoryTables D) (cpu : CPU D) :
    ((ld_a_l t cpu).2).ime = cpu.ime ∧ ((ld_a_l t cpu).2).ime_scheduled = cpu.ime_scheduled ∧
      ((ld_a_l t cpu).2).ime_delay = cpu.ime_delay := by
  unfold ld_a_l
  repeat' split
  all_goals simp

theorem ld_a_hl_F (t : MemoryTables D) (cpu : CPU D) (h : cpu.reg.F &&& 0x0F = 0) :
    ((ld_a_hl t cpu).2).reg.F &&& 0x0F = 0 := by
  unfold ld_a_hl
  repeat' split
  all_goals simp [h]

theorem ld_a_hl_ime (t : MemoryTables D) (cpu : CPU D) :
    ((ld_a_hl t cpu).2).ime = cpu.ime ∧ ((ld_a_hl t cpu).2).ime_scheduled = cpu.ime_scheduled ∧
      ((ld_a_hl t cpu).2).ime_delay = cpu.ime_delay := by
  unfold ld_a_hl
  repeat' split
  all_goals simp

theorem add_a_b_F (t : MemoryTables D) (cpu : CPU D) (h : cpu.reg.F &&& 0x0F = 0) :
    ((add_a_b t cpu).2).reg.F &&& 0x0F = 0 := by
  unfold add_a_b
  repeat' split
  all_goals simp [h]

theorem add_a_b_ime (t : MemoryTables D) (cpu : CPU D) :
    ((add_a_b t cpu).2).ime = cpu.ime ∧ ((add_a_b t cpu).2).ime_scheduled = cpu.ime_scheduled ∧
      ((add_a_b t cpu).2).ime_delay = cpu.ime_delay := by
  unfold add_a_b
  repeat' split
  all_goals simp

theorem add_a_c_F (t : MemoryTables D) (cpu : CPU D) (h : cpu.reg.F &&& 0x0F = 0) :
    ((add_a_c t cpu).2).reg.F &&& 0x0F = 0 := by
  unfold add_a_c
  repeat' split
  all_goals simp [h]

theorem add_a_c_ime (t : MemoryTables D) (cpu : CPU D) :
    ((add_a_c t cpu).2).ime = cpu.ime ∧ ((add_a_c t cpu).2).ime_scheduled = cpu.ime_scheduled ∧
      ((add_a_c t cpu).2).ime_delay = cpu.ime_delay := by
  unfold add_a_c
  repeat' split
  all_goals simp

theorem add_a_d_F (t : MemoryTables D) (cpu : CPU D) (h : cpu.reg.F &&& 0x0F = 0) :
    ((add_a_d t cpu).2).reg.F &&& 0x0F = 0 := by
  unfold add_a_d
  repeat' split
  all_goals simp [h]

theorem add_a_d_ime (t : MemoryTables D) (cpu : CPU D) :
    ((add_a_d t cpu).2).ime = cpu.ime ∧ ((add_a_d t cpu).2).ime_scheduled = cpu.ime_scheduled ∧
      ((add_a_d t cpu).2).ime_delay = cpu.ime_delay := by
  unfold add_a_d
  repeat' split
  all_goals simp

theorem add_a_e_F (t : MemoryTables D) (cpu : CPU D) (h : cpu.reg.F &&& 0x0F = 0) :
    ((add_a_e t cpu).2).reg.F &&& 0x0F = 0 := by
  unfold add_a_e
  repeat' split
  all_goals simp [h]

theorem add_a_e_ime (t : MemoryTables D) (cpu : CPU D) :
    ((add_a_e t cpu).2).ime = cpu.ime ∧ ((add_a_e t cpu).2).ime_scheduled = cpu.ime_scheduled ∧
      ((add_a_e t cpu).2).ime_delay = cpu.ime_delay := by
  unfold add_a_e
  repeat' split
  all_goals simp

theorem add_a_h_F (t : MemoryTables D) (cpu : CPU D) (h : cpu.reg.F &&& 0x0F = 0) :
    ((add_a_h t cpu).2).reg.F &&& 0x0F = 0 := by
  unfold add_a_h
  repeat' split
  all_goals simp [h]

theorem add_a_h_ime (t : MemoryTables D) (cpu : CPU D) :
    ((add_a_h t cpu).2).ime = cpu.ime ∧ ((add_a_h t cpu).2).ime_scheduled = cpu.ime_scheduled ∧
      ((add_a_h t cpu).2).ime_delay = cpu.ime_delay := by
  unfold add_a_h
  repeat' split
  all_goals simp

theorem add_a_l_F (t : MemoryTables D) (cpu : CPU D) (h : cpu.reg.F &&& 0x0F = 0) :
    ((add_a_l t cpu).2).reg.F &&& 0x0F = 0 := by
  unfold add_a_l
  repeat' split
  all_goals simp [h]

theorem add_a_l_ime (t : MemoryTables D) (cpu : CPU D) :
    ((add_a_l t cpu).2).ime = cpu.ime ∧ ((add_a_l t cpu).2).ime_scheduled = cpu.ime_scheduled ∧
      ((add_a_l t cpu).2).ime_delay = cpu.ime_delay := by
  unfold add_a_l
  repeat' split
  all_goals simp

theorem add_a_hl_F (t : MemoryTables D) (cpu : CPU D) (h : cpu.reg.F &&& 0x0F = 0) :
    ((add_a_hl t cpu).2).reg.F &&& 0x0F = 0 := by
  unfold add_a_hl
  repeat' split
  all_goals simp [h]

theorem add_a_hl_ime (t : MemoryTables D) (cpu : CPU D) :
    ((add_a_hl t cpu).2).ime = cpu.ime ∧ ((add_a_hl t cpu).2).ime_scheduled = cpu.ime_scheduled ∧
      ((add_a_hl t cpu).2).ime_delay = cpu.ime_delay := by
  unfold add_a_hl
  repeat' split
  all_goals simp

theorem add_a_a_F (t : MemoryTables D) (cpu : CPU D) (h : cpu.reg.F &&& 0x0F = 0) :
    ((add_a_a t cpu).2).reg.F &&& 0x0F = 0 := by
  unfold add_a_a
  repeat' split
  all_goals simp [h]

theorem add_a_a_ime (t : MemoryTables D) (cpu : CPU D) :
    ((add_a_a t cpu).2).ime = cpu.ime ∧ ((add_a_a t cpu).2).ime_scheduled = cpu.ime_scheduled ∧
      ((add_a_a t cpu).2).ime_delay = cpu.ime_delay := by
  unfold add_a_a
  repeat' split
  all_goals simp

theorem adc_a_b_F (t : MemoryTables D) (cpu : CPU D) (h : cpu.reg.F &&& 0x0F = 0) :
    ((adc_a_b t cpu).2).reg.F &&& 0x0F = 0 := by
  unfold adc_a_b
  repeat' split
  all_goals simp [h]

theorem adc_a_b_ime (t : MemoryTables D) (cpu : CPU D) :
    ((adc_a_b t cpu).2).ime = cpu.ime ∧ ((adc_a_b t cpu).2).ime_scheduled = cpu.ime_scheduled ∧
      ((adc_a_b t cpu).2).ime_delay = cpu.ime_delay := by
  unfold adc_a_b
  repeat' split
  all_goals simp

theorem adc_a_c_F (t : MemoryTables D) (cpu : CPU D) (h : cpu.reg.F &&& 0x0F = 0) :
    ((adc_a_c t cpu).2).reg.F &&& 0x0F = 0 := by
  unfold adc_a_c
  repeat' split
  all_goals simp [h]

theorem adc_a_c_ime (t : MemoryTables D) (cpu : CPU D) :
    ((adc_a_c t cpu).2).ime = cpu.ime ∧ ((adc_a_c t cpu).2).ime_scheduled = cpu.ime_scheduled ∧
      ((adc_a_c t cpu).2).ime_delay = cpu.ime_delay := by
  unfold adc_a_c
  repeat' split
  all_goals simp

theorem adc_a_d_F (t : MemoryTables D) (cpu : CPU D) (h : cpu.reg.F &&& 0x0F = 0) :
    ((adc_a_d t cpu).2).reg.F &&& 0x0F = 0 := by
  unfold adc_a_d
  repeat' split
  all_goals simp [h]

theorem adc_a_d_ime (t : MemoryTables D) (cpu : CPU D) :
    ((adc_a_d t cpu).2).ime = cpu.ime ∧ ((adc_a_d t cpu).2).ime_scheduled = cpu.ime_scheduled ∧
      ((adc_a_d t cpu).2).ime_delay = cpu.ime_delay := by
  unfold adc_a_d
  repeat' split
  all_goals simp

theorem adc_a_e_F (t : MemoryTables D) (cpu : CPU D) (h : cpu.reg.F &&& 0x0F = 0) :
    ((adc_a_e t cpu).2).reg.F &&& 0x0F = 0 := by
  unfold adc_a_e
  repeat' split
  all_goals simp [h]

theorem adc_a_e_ime (t : MemoryTables D) (cpu : CPU D) :
    ((adc_a_e t cpu).2).ime = cpu.ime ∧ ((adc_a_e t cpu).2).ime_scheduled = cpu.ime_scheduled ∧
      ((adc_a_e t cpu).2).ime_delay = cpu.ime_delay := by
  unfold adc_a_e
  repeat' split
  all_goals simp

theorem adc_a_h_F (t : MemoryTables D) (cpu : CPU D) (h : cpu.reg.F &&& 0x0F = 0) :
    ((adc_a_h t cpu).2).reg.F &&& 0x0F = 0 := by
  unfold adc_a_h
  repeat' split
  all_goals simp [h]

theorem adc_a_h_ime (t : MemoryTables D) (cpu : CPU D) :
    ((adc_a_h t cpu).2).ime = cpu.ime ∧ ((adc_a_h t cpu).2).ime_scheduled = cpu.ime_scheduled ∧
      ((adc_a_h t cpu).2).ime_delay = cpu.ime_delay := by
  unfold adc_a_h
  repeat' split
  all_goals simp

theorem adc_a_l_F (t : MemoryTables D) (cpu : CPU D) (h : cpu.reg.F &&& 0x0F = 0) :
    ((adc_a_l t cpu).2).reg.F &&& 0x0F = 0 := by
  unfold adc_a_l
  repeat' split
  all_goals simp [h]

theorem adc_a_l_ime (t : MemoryTables D) (cpu : CPU D) :
    ((adc_a_l t cpu).2).ime = cpu.ime ∧ ((adc_a_l t cpu).2).ime_scheduled = cpu.ime_scheduled ∧
      ((adc_a_l t cpu).2).ime_delay = cpu.ime_delay := by
  unfold adc_a_l
  repeat' split
  all_goals simp

theorem adc_a_hl_F (t : MemoryTables D) (cpu : CPU D) (h : cpu.reg.F &&& 0x0F = 0) :
    ((adc_a_hl t cpu).2).reg.F &&& 0x0F = 0 := by
  unfold adc_a_hl
  repeat' split
  all_goals simp [h]

theorem adc_a_hl_ime (t : MemoryTables D) (cpu : CPU D) :
    ((adc_a_hl t cpu).2).ime = cpu.ime ∧ ((adc_a_hl t cpu).2).ime_scheduled = cpu.ime_scheduled ∧
      ((adc_a_hl t cpu).2).ime_delay = cpu.ime_delay := by
  unfold adc_a_hl
  repeat' split
  all_goals simp

theorem adc_a_a_F (t : MemoryTables D) (cpu : CPU D) (h : cpu.reg.F &&& 0x0F = 0) :
    ((adc_a_a t cpu).2).reg.F &&& 0x0F = 0 := by
  unfold adc_a_a
  repeat' split
  all_goals simp [h]

theorem adc_a_a_ime (t : MemoryTables D) (cpu : CPU D) :
    ((adc_a_a t cpu).2).ime = cpu.ime ∧ ((adc_a_a t cpu).2).ime_scheduled = cpu.ime_scheduled ∧
      ((adc_a_a t cpu).2).ime_delay = cpu.ime_delay := by
  unfold adc_a_a
  repeat' split
  all_goals simp

theorem sub_a_b_F (t : MemoryTables D) (cpu : CPU D) (h : cpu.reg.F &&& 0x0F = 0) :
    ((sub_a_b t cpu).2).reg.F &&& 0x0F = 0 := by
  unfold sub_a_b
  repeat' split
  all_goals simp [h]

theorem sub_a_b_ime (t : MemoryTables D) (cpu : CPU D) :
    ((sub_a_b t cpu).2).ime = cpu.ime ∧ ((sub_a_b t cpu).2).ime_scheduled = cpu.ime_scheduled ∧
      ((sub_a_b t cpu).2).ime_delay = cpu.ime_delay := by
  unfold sub_a_b
  repeat' split
  all_goals simp

theorem sub_a_c_F (t : MemoryTables D) (cpu : CPU D) (h : cpu.reg.F &&& 0x0F = 0) :
    ((sub_a_c t cpu).2).reg.F &&& 0x0F = 0 := by
  unfold sub_a_c
  repeat' split
  all_goals simp [h]

theorem sub_a_c_ime (t : MemoryTables D) (cpu : CPU D) :
    ((sub_a_c t cpu).2).ime = cpu.ime ∧ ((sub_a_c t cpu).2).ime_scheduled = cpu.ime_scheduled ∧
      ((sub_a_c t cpu).2).ime_delay = cpu.ime_delay := by
  unfold sub_a_c
  repeat' split
  all_goals simp

theorem sub_a_d_F (t : MemoryTables D) (cpu : CPU D) (h : cpu.reg.F &&& 0x0F = 0) :
    ((sub_a_d t cpu).2).reg.F &&& 0x0F = 0 := by
  unfold sub_a_d
  repeat' split
  all_goals simp [h]

theorem sub_a_d_ime (t : MemoryTables D) (cpu : CPU D) :
    ((sub_a_d t cpu).2).ime = cpu.ime ∧ ((sub_a_d t cpu).2).ime_scheduled = cpu.ime_scheduled ∧
      ((sub_a_d t cpu).2).ime_delay = cpu.ime_delay := by
  unfold sub_a_d
  repeat' split
  all_goals simp

theorem sub_a_e_F (t : MemoryTables D) (cpu : CPU D) (h : cpu.reg.F &&& 0x0F = 0) :
    ((sub_a_e t cpu).2).reg.F &&& 0x0F = 0 := by
  unfold sub_a_e
  repeat' split
  all_goals simp [h]

theorem sub_a_e_ime (t : MemoryTables D) (cpu : CPU D) :
    ((sub_a_e t cpu).2).ime = cpu.ime ∧ ((sub_a_e t cpu).2).ime_scheduled = cpu.ime_scheduled ∧
      ((sub_a_e t cpu).2).ime_delay = cpu.ime_delay := by
  unfold sub_a_e
  repeat' split
  all_goals simp

theorem sub_a_h_F (t : MemoryTables D) (cpu : CPU D) (h : cpu.reg.F &&& 0x0F = 0) :
    ((sub_a_h t cpu).2).reg.F &&& 0x0F = 0 := by
  unfold sub_a_h
  repeat' split
  all_goals simp [h]

theorem sub_a_h_ime (t : MemoryTables D) (cpu : CPU D) :
    ((sub_a_h t cpu).2).ime = cpu.ime ∧ ((sub_a_h t cpu).2).ime_scheduled = cpu.ime_scheduled ∧
      ((sub_a_h t cpu).2).ime_delay = cpu.ime_delay := by
  unfold sub_a_h
  repeat' split
  all_goals simp

theorem sub_a_l_F (t : MemoryTables D) (cpu : CPU D) (h : cpu.reg.F &&& 0x0F = 0) :
    ((sub_a_l t cpu).2).reg.F &&& 0x0F = 0 := by
  unfold sub_a_l
  repeat' split
  all_goals simp [h]

theorem sub_a_l_ime (t : MemoryTables D) (cpu : CPU D) :
    ((sub_a_l t cpu).2).ime = cpu.ime ∧ ((sub_a_l t cpu).2).ime_scheduled = cpu.ime_scheduled ∧
      ((sub_a_l t cpu).2).ime_delay = cpu.ime_delay := by
  unfold sub_a_l
  repeat' split
  all_goals simp

theorem sub_a_hl_F (t : MemoryTables D) (cpu : CPU D) (h : cpu.reg.F &&& 0x0F = 0) :
    ((sub_a_hl t cpu).2).reg.F &&& 0x0F = 0 := by
  unfold sub_a_hl
  repeat' split
  all_goals simp [h]

theorem sub_a_hl_ime (t : MemoryTables D) (cpu : CPU D) :
    ((sub_a_hl t cpu).2).ime = cpu.ime ∧ ((sub_a_hl t cpu).2).ime_scheduled = cpu.ime_scheduled ∧
      ((sub_a_hl t cpu).2).ime_delay = cpu.ime_delay := by
  unfold sub_a_hl
  repeat' split
  all_goals simp

theorem sub_a_a_F (t : MemoryTables D) (cpu : CPU D) (h : cpu.reg.F &&& 0x0F = 0) :
    ((sub_a_a t cpu).2).reg.F &&& 0x0F = 0 := by
  unfold sub_a_a
  repeat' split
  all_goals simp [h]

theorem sub_a_a_ime (t : MemoryTables D) (cpu : CPU D) :
    ((sub_a_a t cpu).2).ime = cpu.ime ∧ ((sub_a_a t cpu).2).ime_scheduled = cpu.ime_scheduled ∧
      ((sub_a_a t cpu).2).ime_delay = cpu.ime_delay := by
  unfold sub_a_a
  repeat' split
  all_goals simp

theorem sbc_a_b_F (t : MemoryTables D) (cpu : CPU D) (h : cpu.reg.F &&& 0x0F = 0) :
    ((sbc_a_b t cpu).2).reg.F &&& 0x0F = 0 := by
  unfold sbc_a_b
  repeat' split
  all_goals simp [h]

theorem sbc_a_b_ime (t : MemoryTables D) (cpu : CPU D) :
    ((sbc_a_b t cpu).2).ime = cpu.ime ∧ ((sbc_a_b t cpu).2).ime_scheduled = cpu.ime_scheduled ∧
      ((sbc_a_b t cpu).2).ime_delay = cpu.ime_delay := by
  unfold sbc_a_b
  repeat' split
  all_goals simp

theorem sbc_a_c_F (t : MemoryTables D) (cpu : CPU D) (h : cpu.reg.F &&& 0x0F = 0) :
    ((sbc_a_c t cpu).2).reg.F &&& 0x0F = 0 := by
  unfold sbc_a_c
  repeat' split
  all_goals simp [h]

theorem sbc_a_c_ime (t : MemoryTables D) (cpu : CPU D) :
    ((sbc_a_c t cpu).2).ime = cpu.ime ∧ ((sbc_a_c t cpu).2).ime_scheduled = cpu.ime_scheduled ∧
      ((sbc_a_c t cpu).2).ime_delay = cpu.ime_delay := by
  unfold sbc_a_c
  repeat' split
  all_goals simp

theorem sbc_a_d_F (t : MemoryTables D) (cpu : CPU D) (h : cpu.reg.F &&& 0x0F = 0) :
    ((sbc_a_d t cpu).2).reg.F &&& 0x0F = 0 := by
  unfold sbc_a_d
  repeat' split
  all_goals simp [h]

theorem sbc_a_d_ime (t : MemoryTables D) (cpu : CPU D) :
    ((sbc_a_d t cpu).2).ime = cpu.ime ∧ ((sbc_a_d t cpu).2).ime_scheduled = cpu.ime_scheduled ∧
      ((sbc_a_d t cpu).2).ime_delay = cpu.ime_delay := by
  unfold sbc_a_d
  repeat' split
  all_goals simp

theorem sbc_a_e_F (t : MemoryTables D) (cpu : CPU D) (h : cpu.reg.F &&& 0x0F = 0) :
    ((sbc_a_e t cpu).2).reg.F &&& 0x0F = 0 := by
  unfold sbc_a_e
  repeat' split
  all_goals simp [h]

theorem sbc_a_e_ime (t : MemoryTables D) (cpu : CPU D) :
    ((sbc_a_e t cpu).2).ime = cpu.ime ∧ ((sbc_a_e t cpu).2).ime_scheduled = cpu.ime_scheduled ∧
      ((sbc_a_e t cpu).2).ime_delay = cpu.ime_delay := by
  unfold sbc_a_e
  repeat' split
  all_goals simp

theorem sbc_a_h_F (t : MemoryTables D) (cpu : CPU D) (h : cpu.reg.F &&& 0x0F = 0) :
    ((sbc_a_h t cpu).2).reg.F &&& 0x0F = 0 := by
  unfold sbc_a_h
  repeat' split
  all_goals simp [h]

theorem sbc_a_h_ime (t : MemoryTables D) (cpu : CPU D) :
    ((sbc_a_h t cpu).2).ime = cpu.ime ∧ ((sbc_a_h t cpu).2).ime_scheduled = cpu.ime_scheduled ∧
      ((sbc_a_h t cpu).2).ime_delay = cpu.ime_delay := by
  unfold sbc_a_h
  repeat' split
  all_goals simp

theorem sbc_a_l_F (t : MemoryTables D) (cpu : CPU D) (h : cpu.reg.F &&& 0x0F = 0) :
    ((sbc_a_l t cpu).2).reg.F &&& 0x0F = 0 := by
  unfold sbc_a_l
  repeat' split
  all_goals simp [h]

theorem sbc_a_l_ime (t : MemoryTables D) (cpu : CPU D) :
    ((sbc_a_l t cpu).2).ime = cpu.ime ∧ ((sbc_a_l t cpu).2).ime_scheduled = cpu.ime_scheduled ∧
      ((sbc_a_l t cpu).2).ime_delay = cpu.ime_delay := by
  unfold sbc_a_l
  repeat' split
  all_goals simp

theorem sbc_a_hl_F (t : MemoryTables D) (cpu : CPU D) (h : cpu.reg.F &&& 0x0F = 0) :
    ((sbc_a_hl t cpu).2).reg.F &&& 0x0F = 0 := by
  unfold sbc_a_hl
  repeat' split
  all_goals simp [h]

theorem sbc_a_hl_ime (t : MemoryTables D) (cpu : CPU D) :
    ((sbc_a_hl t cpu).2).ime = cpu.ime ∧ ((sbc_a_hl t cpu).2).ime_scheduled = cpu.ime_scheduled ∧
      ((sbc_a_hl t cpu).2).ime_delay = cpu.ime_delay := by
  unfold sbc_a_hl
  repeat' split
  all_goals simp

theorem sbc_a_a_F (t : MemoryTables D) (cpu : CPU D) (h : cpu.reg.F &&& 0x0F = 0) :
    ((sbc_a_a t cpu).2).reg.F &&& 0x0F = 0 := by
  unfold sbc_a_a
  repeat' split
  all_goals simp [h]

theorem sbc_a_a_ime (t : MemoryTables D) (cpu : CPU D) :
    ((sbc_a_a t cpu).2).ime = cpu.ime ∧ ((sbc_a_a t cpu).2).ime_scheduled = cpu.ime_scheduled ∧
      ((sbc_a_a t cpu).2).ime_delay = cpu.ime_delay := by
  unfold sbc_a_a
  repeat' split
  all_goals simp

theorem and_a_b_F (t : MemoryTables D) (cpu : CPU D) (h : cpu.reg.F &&& 0x0F = 0) :
    ((and_a_b t cpu).2).reg.F &&& 0x0F = 0 := by
  unfold and_a_b
  repeat' split
  all_goals simp [h]

theorem and_a_b_ime (t : MemoryTables D) (cpu : CPU D) :
    ((and_a_b t cpu).2).ime = cpu.ime ∧ ((and_a_b t cpu).2).ime_scheduled = cpu.ime_scheduled ∧
      ((and_a_b t cpu).2).ime_delay = cpu.ime_delay := by
  unfold and_a_b
  repeat' split
  all_goals simp

theorem and_a_c_F (t : MemoryTables D) (cpu : CPU D) (h : cpu.reg.F &&& 0x0F = 0) :
    ((and_a_c t cpu).2).reg.F &&& 0x0F = 0 := by
  unfold and_a_c
  repeat' split
  all_goals simp [h]

theorem and_a_c_ime (t : MemoryTables D) (cpu : CPU D) :
    ((and_a_c t cpu).2).ime = cpu.ime ∧ ((and_a_c t cpu).2).ime_scheduled = cpu.ime_scheduled ∧
      ((and_a_c t cpu).2).ime_delay = cpu.ime_delay := by
  unfold and_a_c
  repeat' split
  all_goals simp

theorem and_a_d_F (t : MemoryTables D) (cpu : CPU D) (h : cpu.reg.F &&& 0x0F = 0) :
    ((and_a_d t cpu).2).reg.F &&& 0x0F = 0 := by
  unfold and_a_d
  repeat' split
  all_goals simp [h]

theorem and_a_d_ime (t : MemoryTables D) (cpu : CPU D) :
    ((and_a_d t cpu).2).ime = cpu.ime ∧ ((and_a_d t cpu).2).ime_scheduled = cpu.ime_scheduled ∧
      ((and_a_d t cpu).2).ime_delay = cpu.ime_delay := by
  unfold and_a_d
  repeat' split
  all_goals simp

theorem and_a_e_F (t : MemoryTables D) (cpu : CPU D) (h : cpu.reg.F &&& 0x0F = 0) :
    ((and_a_e t cpu).2).reg.F &&& 0x0F = 0 := by
  unfold and_a_e
  repeat' split
  all_goals simp [h]

theorem and_a_e_ime (t : MemoryTables D) (cpu : CPU D) :
    ((and_a_e t cpu).2).ime = cpu.ime ∧ ((and_a_e t cpu).2).ime_scheduled = cpu.ime_scheduled ∧
      ((and_a_e t cpu).2).ime_delay = cpu.ime_delay := by
  unfold and_a_e
  repeat' split
  all_goals simp

theorem and_a_h_F (t : MemoryTables D) (cpu : CPU D) (h : cpu.reg.F &&& 0x0F = 0) :
    ((and_a_h t cpu).2).reg.F &&& 0x0F = 0 := by
  unfold and_a_h
  repeat' split
  all_goals simp [h]

theorem and_a_h_ime (t : MemoryTables D) (cpu : CPU D) :
    ((and_a_h t cpu).2).ime = cpu.ime ∧ ((and_a_h t cpu).2).ime_scheduled = cpu.ime_scheduled ∧
      ((and_a_h t cpu).2).ime_delay = cpu.ime_delay := by
  unfold and_a_h
  repeat' split
  all_goals simp

theorem and_a_l_F (t : MemoryTables D) (cpu : CPU D) (h : cpu.reg.F &&& 0x0F = 0) :
    ((and_a_l t cpu).2).reg.F &&& 0x0F = 0 := by
  unfold and_a_l
  repeat' split
  all_goals simp [h]

theorem and_a_l_ime (t : MemoryTables D) (cpu : CPU D) :
    ((and_a_l t cpu).2).ime = cpu.ime ∧ ((and_a_l t cpu).2).ime_scheduled = cpu.ime_scheduled ∧
      ((and_a_l t cpu).2).ime_delay = cpu.ime_delay := by
  unfold and_a_l
  repeat' split
  all_goals simp

theorem and_a_hl_F (t : MemoryTables D) (cpu : CPU D) (h : cpu.reg.F &&& 0x0F = 0) :
    ((and_a_hl t cpu).2).reg.F &&& 0x0F = 0 := by
  unfold and_a_hl
  repeat' split
  all_goals simp [h]

theorem and_a_hl_ime (t : MemoryTables D) (cpu : CPU D) :
    ((and_a_hl t cpu).2).ime = cpu.ime ∧ ((and_a_hl t cpu).2).ime_scheduled = cpu.ime_scheduled ∧
      ((and_a_hl t cpu).2).ime_delay = cpu.ime_delay := by
  unfold and_a_hl
  repeat' split
  all_goals simp

theorem and_a_a_F (t : MemoryTables D) (cpu : CPU D) (h : cpu.reg.F &&& 0x0F = 0) :
    ((and_a_a t cpu).2).reg.F &&& 0x0F = 0 := by
  unfold and_a_a
  repeat' split
  all_goals simp [h]

theorem and_a_a_ime (t : MemoryTables D) (cpu : CPU D) :
    ((and_a_a t cpu).2).ime = cpu.ime ∧ ((and_a_a t cpu).2).ime_scheduled = cpu.ime_scheduled ∧
      ((and_a_a t cpu).2).ime_delay = cpu.ime_delay := by
  unfold and_a_a
  repeat' split
  all_goals simp

theorem xor_a_b_F (t : MemoryTables D) (cpu : CPU D) (h : cpu.reg.F &&& 0x0F = 0) :
    ((xor_a_b t cpu).2).reg.F &&& 0x0F = 0 := by
  unfold xor_a_b
  repeat' split
  all_goals simp [h]

theorem xor_a_b_ime (t : MemoryTables D) (cpu : CPU D) :
    ((xor_a_b t cpu).2).ime = cpu.ime ∧ ((xor_a_b t cpu).2).ime_scheduled = cpu.ime_scheduled ∧
      ((xor_a_b t cpu).2).ime_delay = cpu.ime_delay := by
  unfold xor_a_b
  repeat' split
  all_goals simp

theorem xor_a_c_F (t : MemoryTables D) (cpu : CPU D) (h : cpu.reg.F &&& 0x0F = 0) :
    ((xor_a_c t cpu).2).reg.F &&& 0x0F = 0 := by
  unfold xor_a_c
  repeat' split
  all_goals simp [h]

theorem xor_a_c_ime (t : MemoryTables D) (cpu : CPU D) :
    ((xor_a_c t cpu).2).ime = cpu.ime ∧ ((xor_a_c t cpu).2).ime_scheduled = cpu.ime_scheduled ∧
      ((xor_a_c t cpu).2).ime_delay = cpu.ime_delay := by
  unfold xor_a_c
  repeat' split
  all_goals simp

theorem xor_a_d_F (t : MemoryTables D) (cpu : CPU D) (h : cpu.reg.F &&& 0x0F = 0) :
    ((xor_a_d t cpu).2).reg.F &&& 0x0F = 0 := by
  unfold xor_a_d
  repeat' split
  all_goals simp [h]

theorem xor_a_d_ime (t : MemoryTables D) (cpu : CPU D) :
    ((xor_a_d t cpu).2).ime = cpu.ime ∧ ((xor_a_d t cpu).2).ime_scheduled = cpu.ime_scheduled ∧
      ((xor_a_d t cpu).2).ime_delay = cpu.ime_delay := by
  unfold xor_a_d
  repeat' split
  all_goals simp

theorem xor_a_e_F (t : MemoryTables D) (cpu : CPU D) (h : cpu.reg.F &&& 0x0F = 0) :
    ((xor_a_e t cpu).2).reg.F &&& 0x0F = 0 := by
  unfold xor_a_e
  repeat' split
  all_goals simp [h]

theorem xor_a_e_ime (t : MemoryTables D) (cpu : CPU D) :
    ((xor_a_e t cpu).2).ime = cpu.ime ∧ ((xor_a_e t cpu).2).ime_scheduled = cpu.ime_scheduled ∧
      ((xor_a_e t cpu).2).ime_delay = cpu.ime_delay := by
  unfold xor_a_e
  repeat' split
  all_goals simp

theorem xor_a_h_F (t : MemoryTables D) (cpu : CPU D) (h : cpu.reg.F &&& 0x0F = 0) :
    ((xor_a_h t cpu).2).reg.F &&& 0x0F = 0 := by
  unfold xor_a_h
  repeat' split
  all_goals simp [h]

theorem xor_a_h_ime (t : MemoryTables D) (cpu : CPU D) :
    ((xor_a_h t cpu).2).ime = cpu.ime ∧ ((xor_a_h t cpu).2).ime_scheduled = cpu.ime_scheduled ∧
      ((xor_a_h t cpu).2).ime_delay = cpu.ime_delay := by
  unfold xor_a_h
  repeat' split
  all_goals simp

theorem xor_a_l_F (t : MemoryTables D) (cpu : CPU D) (h : cpu.reg.F &&& 0x0F = 0) :
    ((xor_a_l t cpu).2).reg.F &&& 0x0F = 0 := by
  unfold xor_a_l
  repeat' split
  all_goals simp [h]

theorem xor_a_l_ime (t : MemoryTables D) (cpu : CPU D) :
    ((xor_a_l t cpu).2).ime = cpu.ime ∧ ((xor_a_l t cpu).2).ime_scheduled = cpu.ime_scheduled ∧
      ((xor_a_l t cpu).2).ime_delay = cpu.ime_delay := by
  unfold xor_a_l
  repeat' split
  all_goals simp

theorem xor_a_hl_F (t : MemoryTables D) (cpu : CPU D) (h : cpu.reg.F &&& 0x0F = 0) :
    ((xor_a_hl t cpu).2).reg.F &&& 0x0F = 0 := by
  unfold xor_a_hl
  repeat' split
  all_goals simp [h]

theorem xor_a_hl_ime (t : MemoryTables D) (cpu : CPU D) :
    ((xor_a_hl t cpu).2).ime = cpu.ime ∧ ((xor_a_hl t cpu).2).ime_scheduled = cpu.ime_scheduled ∧
      ((xor_a_hl t cpu).2).ime_delay = cpu.ime_delay := by
  unfold xor_a_hl
  repeat' split
  all_goals simp

theorem xor_a_a_F (t : MemoryTables D) (cpu : CPU D) (h : cpu.reg.F &&& 0x0F = 0) :
    ((xor_a_a t cpu).2).reg.F &&& 0x0F = 0 := by
  unfold xor_a_a
  repeat' split
  all_goals simp [h]

theorem xor_a_a_ime (t : MemoryTables D) (cpu : CPU D) :
    ((xor_a_a t cpu).2).ime = cpu.ime ∧ ((xor_a_a t cpu).2).ime_scheduled = cpu.ime_scheduled ∧
      ((xor_a_a t cpu).2).ime_delay = cpu.ime_delay := by
  unfold xor_a_a
  repeat' split
  all_goals simp

theorem or_a_b_F (t : MemoryTables D) (cpu : CPU D) (h : cpu.reg.F &&& 0x0F = 0) :
    ((or_a_b t cpu).2).reg.F &&& 0x0F = 0 := by
  unfold or_a_b
  repeat' split
  all_goals simp [h]

theorem or_a_b_ime (t : MemoryTables D) (cpu : CPU D) :
    ((or_a_b t cpu).2).ime = cpu.ime ∧ ((or_a_b t cpu).2).ime_scheduled = cpu.ime_scheduled ∧
      ((or_a_b t cpu).2).ime_delay = cpu.ime_delay := by
  unfold or_a_b
  repeat' split
  all_goals simp

theorem or_a_c_F (t : MemoryTables D) (cpu : CPU D) (h : cpu.reg.F &&& 0x0F = 0) :
    ((or_a_c t cpu).2).reg.F &&& 0x0F = 0 := by
  unfold or_a_c
  repeat' split
  all_goals simp [h]

theorem or_a_c_ime (t : MemoryTables D) (cpu : CPU D) :
    ((or_a_c t cpu).2).ime = cpu.ime ∧ ((or_a_c t cpu).2).ime_scheduled = cpu.ime_scheduled ∧
      ((or_a_c t cpu).2).ime_delay = cpu.ime_delay := by
  unfold or_a_c
  repeat' split
  all_goals simp

theorem or_a_d_F (t : MemoryTables D) (cpu : CPU D) (h : cpu.reg.F &&& 0x0F = 0) :
    ((or_a_d t cpu).2).reg.F &&& 0x0F = 0 := by
  unfold or_a_d
  repeat' split
  all_goals simp [h]

theorem or_a_d_ime (t : MemoryTables D) (cpu : CPU D) :
    ((or_a_d t cpu).2).ime = cpu.ime ∧ ((or_a_d t cpu).2).ime_scheduled = cpu.ime_scheduled ∧
      ((or_a_d t cpu).2).ime_delay = cpu.ime_delay := by
  unfold or_a_d
  repeat' split
  all_goals simp

theorem or_a_e_F (t : MemoryTables D) (cpu : CPU D) (h : cpu.reg.F &&& 0x0F = 0) :
    ((or_a_e t cpu).2).reg.F &&& 0x0F = 0 := by
  unfold or_a_e
  repeat' split
  all_goals simp [h]

theorem or_a_e_ime (t : MemoryTables D) (cpu : CPU D) :
    ((or_a_e t cpu).2).ime = cpu.ime ∧ ((or_a_e t cpu).2).ime_scheduled = cpu.ime_scheduled ∧
      ((or_a_e t cpu).2).ime_delay = cpu.ime_delay := by
  unfold or_a_e
  repeat' split
  all_goals simp

theorem or_a_h_F (t : MemoryTables D) (cpu : CPU D) (h : cpu.reg.F &&& 0x0F = 0) :
    ((or_a_h t cpu).2).reg.F &&& 0x0F = 0 := by
  unfold or_a_h
  repeat' split
  all_goals simp [h]

theorem or_a_h_ime (t : MemoryTables D) (cpu : CPU D) :
    ((or_a_h t cpu).2).ime = cpu.ime ∧ ((or_a_h t cpu).2).ime_scheduled = cpu.ime_scheduled ∧
      ((or_a_h t cpu).2).ime_delay = cpu.ime_delay := by
  unfold or_a_h
  repeat' split
  all_goals simp

theorem or_a_l_F (t : MemoryTables D) (cpu : CPU D) (h : cpu.reg.F &&& 0x0F = 0) :
    ((or_a_l t cpu).2).reg.F &&& 0x0F = 0 := by
  unfold or_a_l
  repeat' split
  all_goals simp [h]

theorem or_a_l_ime (t : MemoryTables D) (cpu : CPU D) :
    ((or_a_l t cpu).2).ime = cpu.ime ∧ ((or_a_l t cpu).2).ime_scheduled = cpu.ime_scheduled ∧
      ((or_a_l t cpu).2).ime_delay = cpu.ime_delay := by
  unfold or_a_l
  repeat' split
  all_goals simp

theorem or_a_hl_F (t : MemoryTables D) (cpu : CPU D) (h : cpu.reg.F &&& 0x0F = 0) :
    ((or_a_hl t cpu).2).reg.F &&& 0x0F = 0 := by
  unfold or_a_hl
  repeat' split
  all_goals simp [h]

theorem or_a_hl_ime (t : MemoryTables D) (cpu : CPU D) :
    ((or_a_hl t cpu).2).ime = cpu.ime ∧ ((or_a_hl t cpu).2).ime_scheduled = cpu.ime_scheduled ∧
      ((or_a_hl t cpu).2).ime_delay = cpu.ime_delay := by
  unfold or_a_hl
  repeat' split
  all_goals simp

theorem or_a_a_F (t : MemoryTables D) (cpu : CPU D) (h : cpu.reg.F &&& 0x0F = 0) :
    ((or_a_a t cpu).2).reg.F &&& 0x0F = 0 := by
  unfold or_a_a
  repeat' split
  all_goals simp [h]

theorem or_a_a_ime (t : MemoryTables D) (cpu : CPU D) :
    ((or_a_a t cpu).2).ime = cpu.ime ∧ ((or_a_a t cpu).2).ime_scheduled = cpu.ime_scheduled ∧
      ((or_a_a t cpu).2).ime_delay = cpu.ime_delay := by
  unfold or_a_a
  repeat' split
  all_goals simp

theorem cp_a_b_F (t : MemoryTables D) (cpu : CPU D) (h : cpu.reg.F &&& 0x0F = 0) :
    ((cp_a_b t cpu).2).reg.F &&& 0x0F = 0 := by
  unfold cp_a_b
  repeat' split
  all_goals simp [h]

theorem cp_a_b_ime (t : MemoryTables D) (cpu : CPU D) :
    ((cp_a_b t cpu).2).ime = cpu.ime ∧ ((cp_a_b t cpu).2).ime_scheduled = cpu.ime_scheduled ∧
      ((cp_a_b t cpu).2).ime_delay = cpu.ime_delay := by
  unfold cp_a_b
  repeat' split
  all_goals simp

theorem cp_a_c_F (t : MemoryTables D) (cpu : CPU D) (h : cpu.reg.F &&& 0x0F = 0) :
    ((cp_a_c t cpu).2).reg.F &&& 0x0F = 0 := by
  unfold cp_a_c
  repeat' split
  all_goals simp [h]

theorem cp_a_c_ime (t : MemoryTables D) (cpu : CPU D) :
    ((cp_a_c t cpu).2).ime = cpu.ime ∧ ((cp_a_c t cpu).2).ime_scheduled = cpu.ime_scheduled ∧
      ((cp_a_c t cpu).2).ime_delay = cpu.ime_delay := by
  unfold cp_a_c
  repeat' split
  all_goals simp

theorem cp_a_d_F (t : MemoryTables D) (cpu : CPU D) (h : cpu.reg.F &&& 0x0F = 0) :
    ((cp_a_d t cpu).2).reg.F &&& 0x0F = 0 := by
  unfold cp_a_d
  repeat' split
  all_goals simp [h]

theorem cp_a_d_ime (t : MemoryTables D) (cpu : CPU D) :
    ((cp_a_d t cpu).2).ime = cpu.ime ∧ ((cp_a_d t cpu).2).ime_scheduled = cpu.ime_scheduled ∧
      ((cp_a_d t cpu).2).ime_delay = cpu.ime_delay := by
  unfold cp_a_d
  repeat' split
  all_goals simp

theorem cp_a_e_F (t : MemoryTables D) (cpu : CPU D) (h : cpu.reg.F &&& 0x0F = 0) :
    ((cp_a_e t cpu).2).reg.F &&& 0x0F = 0 := by
  unfold cp_a_e
  repeat' split
  all_goals simp [h]

theorem cp_a_e_ime (t : MemoryTables D) (cpu : CPU D) :
    ((cp_a_e t cpu).2).ime = cpu.ime ∧ ((cp_a_e t cpu).2).ime_scheduled = cpu.ime_scheduled ∧
      ((cp_a_e t cpu).2).ime_delay = cpu.ime_delay := by
  unfold cp_a_e
  repeat' split
  all_goals simp

theorem cp_a_h_F (t : MemoryTables D) (cpu : CPU D) (h : cpu.reg.F &&& 0x0F = 0) :
    ((cp_a_h t cpu).2).reg.F &&& 0x0F = 0 := by
  unfold cp_a_h
  repeat' split
  all_goals simp [h]

theorem cp_a_h_ime (t : MemoryTables D) (cpu : CPU D) :
    ((cp_a_h t cpu).2).ime = cpu.ime ∧ ((cp_a_h t cpu).2).ime_scheduled = cpu.ime_scheduled ∧
      ((cp_a_h t cpu).2).ime_delay = cpu.ime_delay := by
  unfold cp_a_h
  repeat' split
  all_goals simp

theorem cp_a_l_F (t : MemoryTables D) (cpu : CPU D) (h : cpu.reg.F &&& 0x0F = 0) :
    ((cp_a_l t cpu).2).reg.F &&& 0x0F = 0 := by
  unfold cp_a_l
  repeat' split
  all_goals simp [h]

theorem cp_a_l_ime (t : MemoryTables D) (cpu : CPU D) :
    ((cp_a_l t cpu).2).ime = cpu.ime ∧ ((cp_a_l t cpu).2).ime_scheduled = cpu.ime_scheduled ∧
      ((cp_a_l t cpu).2).ime_delay = cpu.ime_delay := by
  unfold cp_a_l
  repeat' split
  all_goals simp

theorem cp_a_hl_F (t : MemoryTables D) (cpu : CPU D) (h : cpu.reg.F &&& 0x0F = 0) :
    ((cp_a_hl t cpu).2).reg.F &&& 0x0F = 0 := by
  unfold cp_a_hl
  repeat' split
  all_goals simp [h]

theorem cp_a_hl_ime (t : MemoryTables D) (cpu : CPU D) :
    ((cp_a_hl t cpu).2).ime = cpu.ime ∧ ((cp_a_hl t cpu).2).ime_scheduled = cpu.ime_scheduled ∧
      ((cp_a_hl t cpu).2).ime_delay = cpu.ime_delay := by
  unfold cp_a_hl
  repeat' split
  all_goals simp

theorem cp_a_a_F (t : MemoryTables D) (cpu : CPU D) (h : cpu.reg.F &&& 0x0F = 0) :
    ((cp_a_a t cpu).2).reg.F &&& 0x0F = 0 := by
  unfold cp_a_a
  repeat' split
  all_goals simp [h]

theorem cp_a_a_ime (t : MemoryTables D) (cpu : CPU D) :
    ((cp_a_a t cpu).2).ime = cpu.ime ∧ ((cp_a_a t cpu).2).ime_scheduled = cpu.ime_scheduled ∧
      ((cp_a_a t cpu).2).ime_delay = cpu.ime_delay := by
  unfold cp_a_a
  repeat' split
  all_goals simp

theorem ret_nz_F (t : MemoryTables D) (cpu : CPU D) (h : cpu.reg.F &&& 0x0F = 0) :
    ((ret_nz t cpu).2).reg.F &&& 0x0F = 0 := by
  unfold ret_nz
  repeat' split
  all_goals simp [h]

theorem ret_nz_ime (t : MemoryTables D) (cpu : CPU D) :
    ((ret_nz t cpu).2).ime = cpu.ime ∧ ((ret_nz t cpu).2).ime_scheduled = cpu.ime_scheduled ∧
      ((ret_nz t cpu).2).ime_delay = cpu.ime_delay := by
  unfold ret_nz
  repeat' split
  all_goals simp

theorem pop_bc_F (t : MemoryTables D) (cpu : CPU D) (h : cpu.reg.F &&& 0x0F = 0) :
    ((pop_bc t cpu).2).reg.F &&& 0x0F = 0 := by
  unfold pop_bc
  repeat' split
  all_goals simp [h]

theorem pop_bc_ime (t : MemoryTables D) (cpu : CPU D) :
    ((pop_bc t cpu).2).ime = cpu.ime ∧ ((pop_bc t cpu).2).ime_scheduled = cpu.ime_scheduled ∧
      ((pop_bc t cpu).2).ime_delay = cpu.ime_delay := by
  unfold pop_bc
  repeat' split
  all_goals simp

theorem jp_nz_nn_F (t : MemoryTables D) (cpu : CPU D) (h : cpu.reg.F &&& 0x0F = 0) :
    ((jp_nz_nn t cpu).2).reg.F &&& 0x0F = 0 := by
  unfold jp_nz_nn
  repeat' split
  all_goals simp [h]

theorem jp_nz_nn_ime (t : MemoryTables D) (cpu : CPU D) :
    ((jp_nz_nn t cpu).2).ime = cpu.ime ∧ ((jp_nz_nn t cpu).2).ime_scheduled = cpu.ime_scheduled ∧
      ((jp_nz_nn t cpu).2).ime_delay = cpu.ime_delay := by
  unfold jp_nz_nn
  repeat' split
  all_goals simp

theorem jp_nn_F (t : MemoryTables D) (cpu : CPU D) (h : cpu.reg.F &&& 0x0F = 0) :
    ((jp_nn t cpu).2).reg.F &&& 0x0F = 0 := by
  unfold jp_nn
  repeat' split
  all_goals simp [h]

theorem jp_nn_ime (t : MemoryTables D) (cpu : CPU D) :
    ((jp_nn t cpu).2).ime = cpu.ime ∧ ((jp_nn t cpu).2).ime_scheduled = cpu.ime_scheduled ∧
      ((jp_nn t cpu).2).ime_delay = cpu.ime_delay := by
  unfold jp_nn
  repeat' split
  all_goals simp

theorem call_nz_nn_F (t : MemoryTables D) (cpu : CPU D) (h : cpu.reg.F &&& 0x0F = 0) :
    ((call_nz_nn t cpu).2).reg.F &&& 0x0F = 0 := by
  unfold call_nz_nn
  repeat' split
  all_goals simp [h]

theorem call_nz_nn_ime (t : MemoryTables D) (cpu : CPU D) :
    ((call_nz_nn t cpu).2).ime = cpu.ime ∧ ((call_nz_nn t cpu).2).ime_scheduled = cpu.ime_scheduled ∧
      ((call_nz_nn t cpu).2).ime_delay = cpu.ime_delay := by
  unfold call_nz_nn
  repeat' split
  all_goals simp

theorem push_bc_F (t : MemoryTables D) (cpu : CPU D) (h : cpu.reg.F &&& 0x0F = 0) :
    ((push_bc t cpu).2).reg.F &&& 0x0F = 0 := by
  unfold push_bc
  repeat' split
  all_goals simp [h]

theorem push_bc_ime (t : MemoryTables D) (cpu : CPU D) :
    ((push_bc t cpu).2).ime = cpu.ime ∧ ((push_bc t cpu).2).ime_scheduled = cpu.ime_scheduled ∧
      ((push_bc t cpu).2).ime_delay = cpu.ime_delay := by
  unfold push_bc
  repeat' split
  all_goals simp

theorem add_a_n_F (t : MemoryTables D) (cpu : CPU D) (h : cpu.reg.F &&& 0x0F = 0) :
    ((add_a_n t cpu).2).reg.F &&& 0x0F = 0 := by
  unfold add_a_n
  repeat' split
  all_goals simp [h]

theorem add_a_n_ime (t : MemoryTables D) (cpu : CPU D) :
    ((add_a_n t cpu).2).ime = cpu.ime ∧ ((add_a_n t cpu).2).ime_scheduled = cpu.ime_scheduled ∧
      ((add_a_n t cpu).2).ime_delay = cpu.ime_delay := by
  unfold add_a_n
  repeat' split
  all_goals simp

theorem rst_00_F (t : MemoryTables D) (cpu : CPU D) (h : cpu.reg.F &&& 0x0F = 0) :
    ((rst_00 t cpu).2).reg.F &&& 0x0F = 0 := by
  unfold rst_00
  repeat' split
  all_goals simp [h]

theorem rst_00_ime (t : MemoryTables D) (cpu : CPU D) :
    ((rst_00 t cpu).2).ime = cpu.ime ∧ ((rst_00 t cpu).2).ime_scheduled = cpu.ime_scheduled ∧
      ((rst_00 t cpu).2).ime_delay = cpu.ime_delay := by
  unfold rst_00
  repeat' split
  all_goals simp

theorem ret_z_F (t : MemoryTables D) (cpu : CPU D) (h : cpu.reg.F &&& 0x0F = 0) :
    ((ret_z t cpu).2).reg.F &&& 0x0F = 0 := by
  unfold ret_z
  repeat' split
  all_goals simp [h]

theorem ret_z_ime (t : MemoryTables D) (cpu : CPU D) :
    ((ret_z t cpu).2).ime = cpu.ime ∧ ((ret_z t cpu).2).ime_scheduled = cpu.ime_scheduled ∧
      ((ret_z t cpu).2).ime_delay = cpu.ime_delay := by
  unfold ret_z
  repeat' split
  all_goals simp

theorem ret_F (t : MemoryTables D) (cpu : CPU D) (h : cpu.reg.F &&& 0x0F = 0) :
    ((ret t cpu).2).reg.F &&& 0x0F = 0 := by
  unfold ret
  repeat' split
  all_goals simp [h]

theorem ret_ime (t : MemoryTables D) (cpu : CPU D) :
    ((ret t cpu).2).ime = cpu.ime ∧ ((ret t cpu).2).ime_scheduled = cpu.ime_scheduled ∧
      ((ret t cpu).2).ime_delay = cpu.ime_delay := by
  unfold ret
  repeat' split
  all_goals simp

theorem jp_z_nn_F (t : MemoryTables D) (cpu : CPU D) (h : cpu.reg.F &&& 0x0F = 0) :
    ((jp_z_nn t cpu).2).reg.F &&& 0x0F = 0 := by
  unfold jp_z_nn
  repeat' split
  all_goals simp [h]

theorem jp_z_nn_ime (t : MemoryTables D) (cpu : CPU D) :
    ((jp_z_nn t cpu).2).ime = cpu.ime ∧ ((jp_z_nn t cpu).2).ime_scheduled = cpu.ime_scheduled ∧
      ((jp_z_nn t cpu).2).ime_delay = cpu.ime_delay := by
  unfold jp_z_nn
  repeat' split
  all_goals simp

theorem cb_prefix_F (t : MemoryTables D) (cpu : CPU D) (h : cpu.reg.F &&& 0x0F = 0) :
    (( cb_prefix t cpu).2).reg.F &&& 0x0F = 0 := by
  unfold  cb_prefix
  repeat' split
  all_goals simp [h]

theorem cb_prefix_ime (t : MemoryTables D) (cpu : CPU D) :
    (( cb_prefix t cpu).2).ime = cpu.ime ∧ (( cb_prefix t cpu).2).ime_scheduled = cpu.ime_scheduled ∧
      (( cb_prefix t cpu).2).ime_delay = cpu.ime_delay := by
  unfold  cb_prefix
  repeat' split
  all_goals simp

theorem call_z_nn_F (t : MemoryTables D) (cpu : CPU D) (h : cpu.reg.F &&& 0x0F = 0) :
    ((call_z_nn t cpu).2).reg.F &&& 0x0F = 0 := by
  unfold call_z_nn
  repeat' split
  all_goals simp [h]

theorem call_z_nn_ime (t : MemoryTables D) (cpu : CPU D) :
    ((call_z_nn t cpu).2).ime = cpu.ime ∧ ((call_z_nn t cpu).2).ime_scheduled = cpu.ime_scheduled ∧
      ((call_z_nn t cpu).2).ime_delay = cpu.ime_delay := by
  unfold call_z_nn
  repeat' split
  all_goals simp

theorem call_nn_F (t : MemoryTables D) (cpu : CPU D) (h : cpu.reg.F &&& 0x0F = 0) :
    ((call_nn t cpu).2).reg.F &&& 0x0F = 0 := by
  unfold call_nn
  repeat' split
  all_goals simp [h]

theorem call_nn_ime (t : MemoryTables D) (cpu : CPU D) :
    ((call_nn t cpu).2).ime = cpu.ime ∧ ((call_nn t cpu).2).ime_scheduled = cpu.ime_scheduled ∧
      ((call_nn t cpu).2).ime_delay = cpu.ime_delay := by
  unfold call_nn
  repeat' split
  all_goals simp

theorem adc_a_n_F (t : MemoryTables D) (cpu : CPU D) (h : cpu.reg.F &&& 0x0F = 0) :
    ((adc_a_n t cpu).2).reg.F &&& 0x0F = 0 := by
  unfold adc_a_n
  repeat' split
  all_goals simp [h]

theorem adc_a_n_ime (t : MemoryTables D) (cpu : CPU D) :
    ((adc_a_n t cpu).2).ime = cpu.ime ∧ ((adc_a_n t cpu).2).ime_scheduled = cpu.ime_scheduled ∧
      ((adc_a_n t cpu).2).ime_delay = cpu.ime_delay := by
  unfold adc_a_n
  repeat' split
  all_goals simp

theorem rst_08_F (t : MemoryTables D) (cpu : CPU D) (h : cpu.reg.F &&& 0x0F = 0) :
    ((rst_08 t cpu).2).reg.F &&& 0x0F = 0 := by
  unfold rst_08
  repeat' split
  all_goals simp [h]

theorem rst_08_ime (t : MemoryTables D) (cpu : CPU D) :
    ((rst_08 t cpu).2).ime = cpu.ime ∧ ((rst_08 t cpu).2).ime_scheduled = cpu.ime_scheduled ∧
      ((rst_08 t cpu).2).ime_delay = cpu.ime_delay := by
  unfold rst_08
  repeat' split
  all_goals simp

theorem ret_nc_F (t : MemoryTables D) (cpu : CPU D) (h : cpu.reg.F &&& 0x0F = 0) :
    ((ret_nc t cpu).2).reg.F &&& 0x0F = 0 := by
  unfold ret_nc
  repeat' split
  all_goals simp [h]

theorem ret_nc_ime (t : MemoryTables D) (cpu : CPU D) :
    ((ret_nc t cpu).2).ime = cpu.ime ∧ ((ret_nc t cpu).2).ime_scheduled = cpu.ime_scheduled ∧
      ((ret_nc t cpu).2).ime_delay = cpu.ime_delay := by
  unfold ret_nc
  repeat' split
  all_goals simp

theorem pop_de_F (t : MemoryTables D) (cpu : CPU D) (h : cpu.reg.F &&& 0x0F = 0) :
    ((pop_de t cpu).2).reg.F &&& 0x0F = 0 := by
  unfold pop_de
  repeat' split
  all_goals simp [h]

theorem pop_de_ime (t : MemoryTables D) (cpu : CPU D) :
    ((pop_de t cpu).2).ime = cpu.ime ∧ ((pop_de t cpu).2).ime_scheduled = cpu.ime_scheduled ∧
      ((pop_de t cpu).2).ime_delay = cpu.ime_delay := by
  unfold pop_de
  repeat' split
  all_goals simp

theorem jp_nc_nn_F (t : MemoryTables D) (cpu : CPU D) (h : cpu.reg.F &&& 0x0F = 0) :
    ((jp_nc_nn t cpu).2).reg.F &&& 0x0F = 0 := by
  unfold jp_nc_nn
  repeat' split
  all_goals simp [h]

theorem jp_nc_nn_ime (t : MemoryTables D) (cpu : CPU D) :
    ((jp_nc_nn t cpu).2).ime = cpu.ime ∧ ((jp_nc_nn t cpu).2).ime_scheduled = cpu.ime_scheduled ∧
      ((jp_nc_nn t cpu).2).ime_delay = cpu.ime_delay := by
  unfold jp_nc_nn
  repeat' split
  all_goals simp

theorem call_nc_nn_F (t : MemoryTables D) (cpu : CPU D) (h : cpu.reg.F &&& 0x0F = 0) :
    ((call_nc_nn t cpu).2).reg.F &&& 0x0F = 0 := by
  unfold call_nc_nn
  repeat' split
  all_goals simp [h]

theorem call_nc_nn_ime (t : MemoryTables D) (cpu : CPU D) :
    ((call_nc_nn t cpu).2).ime = cpu.ime ∧ ((call_nc_nn t cpu).2).ime_scheduled = cpu.ime_scheduled ∧
      ((call_nc_nn t cpu).2).ime_delay = cpu.ime_delay := by
  unfold call_nc_nn
  repeat' split
  all_goals simp

theorem push_de_F (t : MemoryTables D) (cpu : CPU D) (h : cpu.reg.F &&& 0x0F = 0) :
    ((push_de t cpu).2).reg.F &&& 0x0F = 0 := by
  unfold push_de
  repeat' split
  all_goals simp [h]

theorem push_de_ime (t : MemoryTables D) (cpu : CPU D) :
    ((push_de t cpu).2).ime = cpu.ime ∧ ((push_de t cpu).2).ime_scheduled = cpu.ime_scheduled ∧
      ((push_de t cpu).2).ime_delay = cpu.ime_delay := by
  unfold push_de
  repeat' split
  all_goals simp

theorem sub_a_n_F (t : MemoryTables D) (cpu : CPU D) (h : cpu.reg.F &&& 0x0F = 0) :
    ((sub_a_n t cpu).2).reg.F &&& 0x0F = 0 := by
  unfold sub_a_n
  repeat' split
  all_goals simp [h]

theorem sub_a_n_ime (t : MemoryTables D) (cpu : CPU D) :
    ((sub_a_n t cpu).2).ime = cpu.ime ∧ ((sub_a_n t cpu).2).ime_scheduled = cpu.ime_scheduled ∧
      ((sub_a_n t cpu).2).ime_delay = cpu.ime_delay := by
  unfold sub_a_n
  repeat' split
  all_goals simp

theorem rst_10_F (t : MemoryTables D) (cpu : CPU D) (h : cpu.reg.F &&& 0x0F = 0) :
    ((rst_10 t cpu).2).reg.F &&& 0x0F = 0 := by
  unfold rst_10
  repeat' split
  all_goals simp [h]

theorem rst_10_ime (t : MemoryTables D) (cpu : CPU D) :
    ((rst_10 t cpu).2).ime = cpu.ime ∧ ((rst_10 t cpu).2).ime_scheduled = cpu.ime_scheduled ∧
      ((rst_10 t cpu).2).ime_delay = cpu.ime_delay := by
  unfold rst_10
  repeat' split
  all_goals simp

theorem ret_c_F (t : MemoryTables D) (cpu : CPU D) (h : cpu.reg.F &&& 0x0F = 0) :
    ((ret_c t cpu).2).reg.F &&& 0x0F = 0 := by
  unfold ret_c
  repeat' split
  all_goals simp [h]

theorem ret_c_ime (t : MemoryTables D) (cpu : CPU D) :
    ((ret_c t cpu).2).ime = cpu.ime ∧ ((ret_c t cpu).2).ime_scheduled = cpu.ime_scheduled ∧
      ((ret_c t cpu).2).ime_delay = cpu.ime_delay := by
  unfold ret_c
  repeat' split
  all_goals simp

theorem reti_F (t : MemoryTables D) (cpu : CPU D) (h : cpu.reg.F &&& 0x0F = 0) :
    ((reti t cpu).2).reg.F &&& 0x0F = 0 := by
  unfold reti
  dsimp only
  repeat' split
  all_goals simp [h]

theorem jp_c_nn_F (t : MemoryTables D) (cpu : CPU D) (h : cpu.reg.F &&& 0x0F = 0) :
    ((jp_c_nn t cpu).2).reg.F &&& 0x0F = 0 := by
  unfold jp_c_nn
  repeat' split
  all_goals simp [h]

theorem jp_c_nn_ime (t : MemoryTables D) (cpu : CPU D) :
    ((jp_c_nn t cpu).2).ime = cpu.ime ∧ ((jp_c_nn t cpu).2).ime_scheduled = cpu.ime_scheduled ∧
      ((jp_c_nn t cpu).2).ime_delay = cpu.ime_delay := by
  unfold jp_c_nn
  repeat' split
  all_goals simp

theorem call_c_nn_F (t : MemoryTables D) (cpu : CPU D) (h : cpu.reg.F &&& 0x0F = 0) :
    ((call_c_nn t cpu).2).reg.F &&& 0x0F = 0 := by
  unfold call_c_nn
  repeat' split
  all_goals simp [h]

theorem call_c_nn_ime (t : MemoryTables D) (cpu : CPU D) :
    ((call_c_nn t cpu).2).ime = cpu.ime ∧ ((call_c_nn t cpu).2).ime_scheduled = cpu.ime_scheduled ∧
      ((call_c_nn t cpu).2).ime_delay = cpu.ime_delay := by
  unfold call_c_nn
  repeat' split
  all_goals simp

theorem sbc_a_n_F (t : MemoryTables D) (cpu : CPU D) (h : cpu.reg.F &&& 0x0F = 0) :
    ((sbc_a_n t cpu).2).reg.F &&& 0x0F = 0 := by
  unfold sbc_a_n
  repeat' split
  all_goals simp [h]

theorem sbc_a_n_ime (t : MemoryTables D) (cpu : CPU D) :
    ((sbc_a_n t cpu).2).ime = cpu.ime ∧ ((sbc_a_n t cpu).2).ime_scheduled = cpu.ime_scheduled ∧
      ((sbc_a_n t cpu).2).ime_delay = cpu.ime_delay := by
  unfold sbc_a_n
  repeat' split
  all_goals simp

theorem rst_18_F (t : MemoryTables D) (cpu : CPU D) (h : cpu.reg.F &&& 0x0F = 0) :
    ((rst_18 t cpu).2).reg.F &&& 0x0F = 0 := by
  unfold rst_18
  repeat' split
  all_goals simp [h]

theorem rst_18_ime (t : MemoryTables D) (cpu : CPU D) :
    ((rst_18 t cpu).2).ime = cpu.ime ∧ ((rst_18 t cpu).2).ime_scheduled = cpu.ime_scheduled ∧
      ((rst_18 t cpu).2).ime_delay = cpu.ime_delay := by
  unfold rst_18
  repeat' split
  all_goals simp

theorem ldh_n_a_F (t : MemoryTables D) (cpu : CPU D) (h : cpu.reg.F &&& 0x0F = 0) :
    ((ldh_n_a t cpu).2).reg.F &&& 0x0F = 0 := by
  unfold ldh_n_a
  repeat' split
  all_goals simp [h]

theorem ldh_n_a_ime (t : MemoryTables D) (cpu : CPU D) :
    ((ldh_n_a t cpu).2).ime = cpu.ime ∧ ((ldh_n_a t cpu).2).ime_scheduled = cpu.ime_scheduled ∧
      ((ldh_n_a t cpu).2).ime_delay = cpu.ime_delay := by
  unfold ldh_n_a
  repeat' split
  all_goals simp

theorem pop_hl_F (t : MemoryTables D) (cpu : CPU D) (h : cpu.reg.F &&& 0x0F = 0) :
    ((pop_hl t cpu).2).reg.F &&& 0x0F = 0 := by
  unfold pop_hl
  repeat' split
  all_goals simp [h]

theorem pop_hl_ime (t : MemoryTables D) (cpu : CPU D) :
    ((pop_hl t cpu).2).ime = cpu.ime ∧ ((pop_hl t cpu).2).ime_scheduled = cpu.ime_scheduled ∧
      ((pop_hl t cpu).2).ime_delay = cpu.ime_delay := by
  unfold pop_hl
  repeat' split
  all_goals simp

theorem ldh_c_a_F (t : MemoryTables D) (cpu : CPU D) (h : cpu.reg.F &&& 0x0F = 0) :
    ((ldh_c_a t cpu).2).reg.F &&& 0x0F = 0 := by
  unfold ldh_c_a
  repeat' split
  all_goals simp [h]

theorem ldh_c_a_ime (t : MemoryTables D) (cpu : CPU D) :
    ((ldh_c_a t cpu).2).ime = cpu.ime ∧ ((ldh_c_a t cpu).2).ime_scheduled = cpu.ime_scheduled ∧
      ((ldh_c_a t cpu).2).ime_delay = cpu.ime_delay := by
  unfold ldh_c_a
  repeat' split
  all_goals simp

theorem push_hl_F (t : MemoryTables D) (cpu : CPU D) (h : cpu.reg.F &&& 0x0F = 0) :
    ((push_hl t cpu).2).reg.F &&& 0x0F = 0 := by
  unfold push_hl
  repeat' split
  all_goals simp [h]

theorem push_hl_ime (t : MemoryTables D) (cpu : CPU D) :
    ((push_hl t cpu).2).ime = cpu.ime ∧ ((push_hl t cpu).2).ime_scheduled = cpu.ime_scheduled ∧
      ((push_hl t cpu).2).ime_delay = cpu.ime_delay := by
  unfold push_hl
  repeat' split
  all_goals simp

theorem and_a_n_F (t : MemoryTables D) (cpu : CPU D) (h : cpu.reg.F &&& 0x0F = 0) :
    ((and_a_n t cpu).2).reg.F &&& 0x0F = 0 := by
  unfold and_a_n
  repeat' split
  all_goals simp [h]

theorem and_a_n_ime (t : MemoryTables D) (cpu : CPU D) :
    ((and_a_n t cpu).2).ime = cpu.ime ∧ ((and_a_n t cpu).2).ime_scheduled = cpu.ime_scheduled ∧
      ((and_a_n t cpu).2).ime_delay = cpu.ime_delay := by
  unfold and_a_n
  repeat' split
  all_goals simp

theorem rst_20_F (t : MemoryTables D) (cpu : CPU D) (h : cpu.reg.F &&& 0x0F = 0) :
    ((rst_20 t cpu).2).reg.F &&& 0x0F = 0 := by
  unfold rst_20
  repeat' split
  all_goals simp [h]

theorem rst_20_ime (t : MemoryTables D) (cpu : CPU D) :
    ((rst_20 t cpu).2).ime = cpu.ime ∧ ((rst_20 t cpu).2).ime_scheduled = cpu.ime_scheduled ∧
      ((rst_20 t cpu).2).ime_delay = cpu.ime_delay := by
  unfold rst_20
  repeat' split
  all_goals simp

theorem add_sp_n_F (t : MemoryTables D) (cpu : CPU D) (h : cpu.reg.F &&& 0x0F = 0) :
    ((add_sp_n t cpu).2).reg.F &&& 0x0F = 0 := by
  unfold add_sp_n
  repeat' split
  all_goals simp [h]

theorem add_sp_n_ime (t : MemoryTables D) (cpu : CPU D) :
    ((add_sp_n t cpu).2).ime = cpu.ime ∧ ((add_sp_n t cpu).2).ime_scheduled = cpu.ime_scheduled ∧
      ((add_sp_n t cpu).2).ime_delay = cpu.ime_delay := by
  unfold add_sp_n
  repeat' split
  all_goals simp

theorem jp_hl_F (t : MemoryTables D) (cpu : CPU D) (h : cpu.reg.F &&& 0x0F = 0) :
    ((jp_hl t cpu).2).reg.F &&& 0x0F = 0 := by
  unfold jp_hl
  repeat' split
  all_goals simp [h]

theorem jp_hl_ime (t : MemoryTables D) (cpu : CPU D) :
    ((jp_hl t cpu).2).ime = cpu.ime ∧ ((jp_hl t cpu).2).ime_scheduled = cpu.ime_scheduled ∧
      ((jp_hl t cpu).2).ime_delay = cpu.ime_delay := by
  unfold jp_hl
  repeat' split
  all_goals simp

theorem ld_nn_a_F (t : MemoryTables D) (cpu : CPU D) (h : cpu.reg.F &&& 0x0F = 0) :
    ((ld_nn_a t cpu).2).reg.F &&& 0x0F = 0 := by
  unfold ld_nn_a
  repeat' split
  all_goals simp [h]

theorem ld_nn_a_ime (t : MemoryTables D) (cpu : CPU D) :
    ((ld_nn_a t cpu).2).ime = cpu.ime ∧ ((ld_nn_a t cpu).2).ime_scheduled = cpu.ime_scheduled ∧
      ((ld_nn_a t cpu).2).ime_delay = cpu.ime_delay := by
  unfold ld_nn_a
  repeat' split
  all_goals simp

theorem xor_a_n_F (t : MemoryTables D) (cpu : CPU D) (h : cpu.reg.F &&& 0x0F = 0) :
    ((xor_a_n t cpu).2).reg.F &&& 0x0F = 0 := by
  unfold xor_a_n
  repeat' split
  all_goals simp [h]

theorem xor_a_n_ime (t : MemoryTables D) (cpu : CPU D) :
    ((xor_a_n t cpu).2).ime = cpu.ime ∧ ((xor_a_n t cpu).2).ime_scheduled = cpu.ime_scheduled ∧
      ((xor_a_n t cpu).2).ime_delay = cpu.ime_delay := by
  unfold xor_a_n
  repeat' split
  all_goals simp

theorem rst_28_F (t : MemoryTables D) (cpu : CPU D) (h : cpu.reg.F &&& 0x0F = 0) :
    ((rst_28 t cpu).2).reg.F &&& 0x0F = 0 := by
  unfold rst_28
  repeat' split
  all_goals simp [h]

theorem rst_28_ime (t : MemoryTables D) (cpu : CPU D) :
    ((rst_28 t cpu).2).ime = cpu.ime ∧ ((rst_28 t cpu).2).ime_scheduled = cpu.ime_scheduled ∧
      ((rst_28 t cpu).2).ime_delay = cpu.ime_delay := by
  unfold rst_28
  repeat' split
  all_goals simp

theorem ldh_a_n_F (t : MemoryTables D) (cpu : CPU D) (h : cpu.reg.F &&& 0x0F = 0) :
    ((ldh_a_n t cpu).2).reg.F &&& 0x0F = 0 := by
  unfold ldh_a_n
  repeat' split
  all_goals simp [h]

theorem ldh_a_n_ime (t : MemoryTables D) (cpu : CPU D) :
    ((ldh_a_n t cpu).2).ime = cpu.ime ∧ ((ldh_a_n t cpu).2).ime_scheduled = cpu.ime_scheduled ∧
      ((ldh_a_n t cpu).2).ime_delay = cpu.ime_delay := by
  unfold ldh_a_n
  repeat' split
  all_goals simp

theorem pop_af_F (t : MemoryTables D) (cpu : CPU D) (h : cpu.reg.F &&& 0x0F = 0) :
    ((pop_af t cpu).2).reg.F &&& 0x0F = 0 := by
  unfold pop_af
  repeat' split
  all_goals simp [h]

theorem pop_af_ime (t : MemoryTables D) (cpu : CPU D) :
    ((pop_af t cpu).2).ime = cpu.ime ∧ ((pop_af t cpu).2).ime_scheduled = cpu.ime_scheduled ∧
      ((pop_af t cpu).2).ime_delay = cpu.ime_delay := by
  unfold pop_af
  repeat' split
  all_goals simp

theorem ldh_a_c_F (t : MemoryTables D) (cpu : CPU D) (h : cpu.reg.F &&& 0x0F = 0) :
    ((ldh_a_c t cpu).2).reg.F &&& 0x0F = 0 := by
  unfold ldh_a_c
  repeat' split
  all_goals simp [h]

theorem ldh_a_c_ime (t : MemoryTables D) (cpu : CPU D) :
    ((ldh_a_c t cpu).2).ime = cpu.ime ∧ ((ldh_a_c t cpu).2).ime_scheduled = cpu.ime_scheduled ∧
      ((ldh_a_c t cpu).2).ime_delay = cpu.ime_delay := by
  unfold ldh_a_c
  repeat' split
  all_goals simp

theorem di_F (t : MemoryTables D) (cpu : CPU D) (h : cpu.reg.F &&& 0x0F = 0) :
    ((di t cpu).2).reg.F &&& 0x0F = 0 := by
  unfold di
  repeat' split
  all_goals simp [h]

theorem push_af_F (t : MemoryTables D) (cpu : CPU D) (h : cpu.reg.F &&& 0x0F = 0) :
    ((push_af t cpu).2).reg.F &&& 0x0F = 0 := by
  unfold push_af
  repeat' split
  all_goals simp [h]

theorem push_af_ime (t : MemoryTables D) (cpu : CPU D) :
    ((push_af t cpu).2).ime = cpu.ime ∧ ((push_af t cpu).2).ime_scheduled = cpu.ime_scheduled ∧
      ((push_af t cpu).2).ime_delay = cpu.ime_delay := by
  unfold push_af
  repeat' split
  all_goals simp

theorem or_a_n_F (t : MemoryTables D) (cpu : CPU D) (h : cpu.reg.F &&& 0x0F = 0) :
    ((or_a_n t cpu).2).reg.F &&& 0x0F = 0 := by
  unfold or_a_n
  repeat' split
  all_goals simp [h]

theorem or_a_n_ime (t : MemoryTables D) (cpu : CPU D) :
    ((or_a_n t cpu).2).ime = cpu.ime ∧ ((or_a_n t cpu).2).ime_scheduled = cpu.ime_scheduled ∧
      ((or_a_n t cpu).2).ime_delay = cpu.ime_delay := by
  unfold or_a_n
  repeat' split
  all_goals simp

theorem rst_30_F (t : MemoryTables D) (cpu : CPU D) (h : cpu.reg.F &&& 0x0F = 0) :
    ((rst_30 t cpu).2).reg.F &&& 0x0F = 0 := by
  unfold rst_30
  repeat' split
  all_goals simp [h]

theorem rst_30_ime (t : MemoryTables D) (cpu : CPU D) :
    ((rst_30 t cpu).2).ime = cpu.ime ∧ ((rst_30 t cpu).2).ime_scheduled = cpu.ime_scheduled ∧
      ((rst_30 t cpu).2).ime_delay = cpu.ime_delay := by
  unfold rst_30
  repeat' split
  all_goals simp

theorem ld_hl_sp_n_F (t : MemoryTables D) (cpu : CPU D) (h : cpu.reg.F &&& 0x0F = 0) :
    ((ld_hl_sp_n t cpu).2).reg.F &&& 0x0F = 0 := by
  unfold ld_hl_sp_n
  repeat' split
  all_goals simp [h]

theorem ld_hl_sp_n_ime (t : MemoryTables D) (cpu : CPU D) :
    ((ld_hl_sp_n t cpu).2).ime = cpu.ime ∧ ((ld_hl_sp_n t cpu).2).ime_scheduled = cpu.ime_scheduled ∧
      ((ld_hl_sp_n t cpu).2).ime_delay = cpu.ime_delay := by
  unfold ld_hl_sp_n
  repeat' split
  all_goals simp

theorem ld_sp_hl_F (t : MemoryTables D) (cpu : CPU D) (h : cpu.reg.F &&& 0x0F = 0) :
    ((ld_sp_hl t cpu).2).reg.F &&& 0x0F = 0 := by
  unfold ld_sp_hl
  repeat' split
  all_goals simp [h]

theorem ld_sp_hl_ime (t : MemoryTables D) (cpu : CPU D) :
    ((ld_sp_hl t cpu).2).ime = cpu.ime ∧ ((ld_sp_hl t cpu).2).ime_scheduled = cpu.ime_scheduled ∧
      ((ld_sp_hl t cpu).2).ime_delay = cpu.ime_delay := by
  unfold ld_sp_hl
  repeat' split
  all_goals simp

theorem ld_a_nn_F (t : MemoryTables D) (cpu : CPU D) (h : cpu.reg.F &&& 0x0F = 0) :
    ((ld_a_nn t cpu).2).reg.F &&& 0x0F = 0 := by
  unfold ld_a_nn
  repeat' split
  all_goals simp [h]

theorem ld_a_nn_ime (t : MemoryTables D) (cpu : CPU D) :
    ((ld_a_nn t cpu).2).ime = cpu.ime ∧ ((ld_a_nn t cpu).2).ime_scheduled = cpu.ime_scheduled ∧
      ((ld_a_nn t cpu).2).ime_delay = cpu.ime_delay := by
  unfold ld_a_nn
  repeat' split
  all_goals simp

theorem ei_F (t : MemoryTables D) (cpu : CPU D) (h : cpu.reg.F &&& 0x0F = 0) :
    ((ei t cpu).2).reg.F &&& 0x0F = 0 := by
  unfold ei
  repeat' split
  all_goals simp [h]

theorem cp_a_n_F (t : MemoryTables D) (cpu : CPU D) (h : cpu.reg.F &&& 0x0F = 0) :
    ((cp_a_n t cpu).2).reg.F &&& 0x0F = 0 := by
  unfold cp_a_n
  repeat' split
  all_goals simp [h]

theorem cp_a_n_ime (t : MemoryTables D) (cpu : CPU D) :
    ((cp_a_n t cpu).2).ime = cpu.ime ∧ ((cp_a_n t cpu).2).ime_scheduled = cpu.ime_scheduled ∧
      ((cp_a_n t cpu).2).ime_delay = cpu.ime_delay := by
  unfold cp_a_n
  repeat' split
  all_goals simp

theorem rst_38_F (t : MemoryTables D) (cpu : CPU D) (h : cpu.reg.F &&& 0x0F = 0) :
    ((rst_38 t cpu).2).reg.F &&& 0x0F = 0 := by
  unfold rst_38
  repeat' split
  all_goals simp [h]

theorem rst_38_ime (t : MemoryTables D) (cpu : CPU D) :
    ((rst_38 t cpu).2).ime = cpu.ime ∧ ((rst_38 t cpu).2).ime_scheduled = cpu.ime_scheduled ∧
      ((rst_38 t cpu).2).ime_delay = cpu.ime_delay := by
  unfold rst_38
  repeat' split
  all_goals simp

theorem rlc_b_F (t : MemoryTables D) (cpu : CPU D) (h : cpu.reg.F &&& 0x0F = 0) :
    ((rlc_b t cpu).2).reg.F &&& 0x0F = 0 := by
  unfold rlc_b
  repeat' split
  all_goals simp [h]

theorem rlc_b_ime (t : MemoryTables D) (cpu : CPU D) :
    ((rlc_b t cpu).2).ime = cpu.ime ∧ ((rlc_b t cpu).2).ime_scheduled = cpu.ime_scheduled ∧
      ((rlc_b t cpu).2).ime_delay = cpu.ime_delay := by
  unfold rlc_b
  repeat' split
  all_goals simp

theorem rlc_c_F (t : MemoryTables D) (cpu : CPU D) (h : cpu.reg.F &&& 0x0F = 0) :
    ((rlc_c t cpu).2).reg.F &&& 0x0F = 0 := by
  unfold rlc_c
  repeat' split
  all_goals simp [h]

theorem rlc_c_ime (t : MemoryTables D) (cpu : CPU D) :
    ((rlc_c t cpu).2).ime = cpu.ime ∧ ((rlc_c t cpu).2).ime_scheduled = cpu.ime_scheduled ∧
      ((rlc_c t cpu).2).ime_delay = cpu.ime_delay := by
  unfold rlc_c
  repeat' split
  all_goals simp

theorem rlc_d_F (t : MemoryTables D) (cpu : CPU D) (h : cpu.reg.F &&& 0x0F = 0) :
    ((rlc_d t cpu).2).reg.F &&& 0x0F = 0 := by
  unfold rlc_d
  repeat' split
  all_goals simp [h]

theorem rlc_d_ime (t : MemoryTables D) (cpu : CPU D) :
    ((rlc_d t cpu).2).ime = cpu.ime ∧ ((rlc_d t cpu).2).ime_scheduled = cpu.ime_scheduled ∧
      ((rlc_d t cpu).2).ime_delay = cpu.ime_delay := by
  unfold rlc_d
  repeat' split
  all_goals simp

theorem rlc_e_F (t : MemoryTables D) (cpu : CPU D) (h : cpu.reg.F &&& 0x0F = 0) :
    ((rlc_e t cpu).2).reg.F &&& 0x0F = 0 := by
  unfold rlc_e
  repeat' split
  all_goals simp [h]

theorem rlc_e_ime (t : MemoryTables D) (cpu : CPU D) :
    ((rlc_e t cpu).2).ime = cpu.ime ∧ ((rlc_e t cpu).2).ime_scheduled = cpu.ime_scheduled ∧
      ((rlc_e t cpu).2).ime_delay = cpu.ime_delay := by
  unfold rlc_e
  repeat' split
  all_goals simp

theorem rlc_h_F (t : MemoryTables D) (cpu : CPU D) (h : cpu.reg.F &&& 0x0F = 0) :
    ((rlc_h t cpu).2).reg.F &&& 0x0F = 0 := by
  unfold rlc_h
  repeat' split
  all_goals simp [h]

theorem rlc_h_ime (t : MemoryTables D) (cpu : CPU D) :
    ((rlc_h t cpu).2).ime = cpu.ime ∧ ((rlc_h t cpu).2).ime_scheduled = cpu.ime_scheduled ∧
      ((rlc_h t cpu).2).ime_delay = cpu.ime_delay := by
  unfold rlc_h
  repeat' split
  all_goals simp

theorem rlc_l_F (t : MemoryTables D) (cpu : CPU D) (h : cpu.reg.F &&& 0x0F = 0) :
    ((rlc_l t cpu).2).reg.F &&& 0x0F = 0 := by
  unfold rlc_l
  repeat' split
  all_goals simp [h]

theorem rlc_l_ime (t : MemoryTables D) (cpu : CPU D) :
    ((rlc_l t cpu).2).ime = cpu.ime ∧ ((rlc_l t cpu).2).ime_scheduled = cpu.ime_scheduled ∧
      ((rlc_l t cpu).2).ime_delay = cpu.ime_delay := by
  unfold rlc_l
  repeat' split
  all_goals simp

theorem rlc_hl_F (t : MemoryTables D) (cpu : CPU D) (h : cpu.reg.F &&& 0x0F = 0) :
    ((rlc_hl t cpu).2).reg.F &&& 0x0F = 0 := by
  unfold rlc_hl
  repeat' split
  all_goals simp [h]

theorem rlc_hl_ime (t : MemoryTables D) (cpu : CPU D) :
    ((rlc_hl t cpu).2).ime = cpu.ime ∧ ((rlc_hl t cpu).2).ime_scheduled = cpu.ime_scheduled ∧
      ((rlc_hl t cpu).2).ime_delay = cpu.ime_delay := by
  unfold rlc_hl
  repeat' split
  all_goals simp

theorem rlc_a_F (t : MemoryTables D) (cpu : CPU D) (h : cpu.reg.F &&& 0x0F = 0) :
    ((rlc_a t cpu).2).reg.F &&& 0x0F = 0 := by
  unfold rlc_a
  repeat' split
  all_goals simp [h]

theorem rlc_a_ime (t : MemoryTables D) (cpu : CPU D) :
    ((rlc_a t cpu).2).ime = cpu.ime ∧ ((rlc_a t cpu).2).ime_scheduled = cpu.ime_scheduled ∧
      ((rlc_a t cpu).2).ime_delay = cpu.ime_delay := by
  unfold rlc_a
  repeat' split
  all_goals simp

theorem rrc_b_F (t : MemoryTables D) (cpu : CPU D) (h : cpu.reg.F &&& 0x0F = 0) :
    ((rrc_b t cpu).2).reg.F &&& 0x0F = 0 := by
  unfold rrc_b
  repeat' split
  all_goals simp [h]

theorem rrc_b_ime (t : MemoryTables D) (cpu : CPU D) :
    ((rrc_b t cpu).2).ime = cpu.ime ∧ ((rrc_b t cpu).2).ime_scheduled = cpu.ime_scheduled ∧
      ((rrc_b t cpu).2).ime_delay = cpu.ime_delay := by
  unfold rrc_b
  repeat' split
  all_goals simp

theorem rrc_c_F (t : MemoryTables D) (cpu : CPU D) (h : cpu.reg.F &&& 0x0F = 0) :
    ((rrc_c t cpu).2).reg.F &&& 0x0F = 0 := by
  unfold rrc_c
  repeat' split
  all_goals simp [h]

theorem rrc_c_ime (t : MemoryTables D) (cpu : CPU D) :
    ((rrc_c t cpu).2).ime = cpu.ime ∧ ((rrc_c t cpu).2).ime_scheduled = cpu.ime_scheduled ∧
      ((rrc_c t cpu).2).ime_delay = cpu.ime_delay := by
  unfold rrc_c
  repeat' split
  all_goals simp

theorem rrc_d_F (t : MemoryTables D) (cpu : CPU D) (h : cpu.reg.F &&& 0x0F = 0) :
    ((rrc_d t cpu).2).reg.F &&& 0x0F = 0 := by
  unfold rrc_d
  repeat' split
  all_goals simp [h]

theorem rrc_d_ime (t : MemoryTables D) (cpu : CPU D) :
    ((rrc_d t cpu).2).ime = cpu.ime ∧ ((rrc_d t cpu).2).ime_scheduled = cpu.ime_scheduled ∧
      ((rrc_d t cpu).2).ime_delay = cpu.ime_delay := by
  unfold rrc_d
  repeat' split
  all_goals simp

theorem rrc_e_F (t : MemoryTables D) (cpu : CPU D) (h : cpu.reg.F &&& 0x0F = 0) :
    ((rrc_e t cpu).2).reg.F &&& 0x0F = 0 := by
  unfold rrc_e
  repeat' split
  all_goals simp [h]

theorem rrc_e_ime (t : MemoryTables D) (cpu : CPU D) :
    ((rrc_e t cpu).2).ime = cpu.ime ∧ ((rrc_e t cpu).2).ime_scheduled = cpu.ime_scheduled ∧
      ((rrc_e t cpu).2).ime_delay = cpu.ime_delay := by
  unfold rrc_e
  repeat' split
  all_goals simp

theorem rrc_h_F (t : MemoryTables D) (cpu : CPU D) (h : cpu.reg.F &&& 0x0F = 0) :
    ((rrc_h t cpu).2).reg.F &&& 0x0F = 0 := by
  unfold rrc_h
  repeat' split
  all_goals simp [h]

theorem rrc_h_ime (t : MemoryTables D) (cpu : CPU D) :
    ((rrc_h t cpu).2).ime = cpu.ime ∧ ((rrc_h t cpu).2).ime_scheduled = cpu.ime_scheduled ∧
      ((rrc_h t cpu).2).ime_delay = cpu.ime_delay := by
  unfold rrc_h
  repeat' split
  all_goals simp

theorem rrc_l_F (t : MemoryTables D) (cpu : CPU D) (h : cpu.reg.F &&& 0x0F = 0) :
    ((rrc_l t cpu).2).reg.F &&& 0x0F = 0 := by
  unfold rrc_l
  repeat' split
  all_goals simp [h]

theorem rrc_l_ime (t : MemoryTables D) (cpu : CPU D) :
    ((rrc_l t cpu).2).ime = cpu.ime ∧ ((rrc_l t cpu).2).ime_scheduled = cpu.ime_scheduled ∧
      ((rrc_l t cpu).2).ime_delay = cpu.ime_delay := by
  unfold rrc_l
  repeat' split
  all_goals simp

theorem rrc_hl_F (t : MemoryTables D) (cpu : CPU D) (h : cpu.reg.F &&& 0x0F = 0) :
    ((rrc_hl t cpu).2).reg.F &&& 0x0F = 0 := by
  unfold rrc_hl
  repeat' split
  all_goals simp [h]

theorem rrc_hl_ime (t : MemoryTables D) (cpu : CPU D) :
    ((rrc_hl t cpu).2).ime = cpu.ime ∧ ((rrc_hl t cpu).2).ime_scheduled = cpu.ime_scheduled ∧
      ((rrc_hl t cpu).2).ime_delay = cpu.ime_delay := by
  unfold rrc_hl
  repeat' split
  all_goals simp

theorem rrc_a_F (t : MemoryTables D) (cpu : CPU D) (h : cpu.reg.F &&& 0x0F = 0) :
    ((rrc_a t cpu).2).reg.F &&& 0x0F = 0 := by
  unfold rrc_a
  repeat' split
  all_goals simp [h]

theorem rrc_a_ime (t : MemoryTables D) (cpu : CPU D) :
    ((rrc_a t cpu).2).ime = cpu.ime ∧ ((rrc_a t cpu).2).ime_scheduled = cpu.ime_scheduled ∧
      ((rrc_a t cpu).2).ime_delay = cpu.ime_delay := by
  unfold rrc_a
  repeat' split
  all_goals simp

theorem rl_b_F (t : MemoryTables D) (cpu : CPU D) (h : cpu.reg.F &&& 0x0F = 0) :
    ((rl_b t cpu).2).reg.F &&& 0x0F = 0 := by
  unfold rl_b
  repeat' split
  all_goals simp [h]

theorem rl_b_ime (t : MemoryTables D) (cpu : CPU D) :
    ((rl_b t cpu).2).ime = cpu.ime ∧ ((rl_b t cpu).2).ime_scheduled = cpu.ime_scheduled ∧
      ((rl_b t cpu).2).ime_delay = cpu.ime_delay := by
  unfold rl_b
  repeat' split
  all_goals simp

theorem rl_c_F (t : MemoryTables D) (cpu : CPU D) (h : cpu.reg.F &&& 0x0F = 0) :
    ((rl_c t cpu).2).reg.F &&& 0x0F = 0 := by
  unfold rl_c
  repeat' split
  all_goals simp [h]

theorem rl_c_ime (t : MemoryTables D) (cpu : CPU D) :
    ((rl_c t cpu).2).ime = cpu.ime ∧ ((rl_c t cpu).2).ime_scheduled = cpu.ime_scheduled ∧
      ((rl_c t cpu).2).ime_delay = cpu.ime_delay := by
  unfold rl_c
  repeat' split
  all_goals simp

theorem rl_d_F (t : MemoryTables D) (cpu : CPU D) (h : cpu.reg.F &&& 0x0F = 0) :
    ((rl_d t cpu).2).reg.F &&& 0x0F = 0 := by
  unfold rl_d
  repeat' split
  all_goals simp [h]

theorem rl_d_ime (t : MemoryTables D) (cpu : CPU D) :
    ((rl_d t cpu).2).ime = cpu.ime ∧ ((rl_d t cpu).2).ime_scheduled = cpu.ime_scheduled ∧
      ((rl_d t cpu).2).ime_delay = cpu.ime_delay := by
  unfold rl_d
  repeat' split
  all_goals simp

theorem rl_e_F (t : MemoryTables D) (cpu : CPU D) (h : cpu.reg.F &&& 0x0F = 0) :
    ((rl_e t cpu).2).reg.F &&& 0x0F = 0 := by
  unfold rl_e
  repeat' split
  all_goals simp [h]

theorem rl_e_ime (t : MemoryTables D) (cpu : CPU D) :
    ((rl_e t cpu).2).ime = cpu.ime ∧ ((rl_e t cpu).2).ime_scheduled = cpu.ime_scheduled ∧
      ((rl_e t cpu).2).ime_delay = cpu.ime_delay := by
  unfold rl_e
  repeat' split
  all_goals simp

theorem rl_h_F (t : MemoryTables D) (cpu : CPU D) (h : cpu.reg.F &&& 0x0F = 0) :
    ((rl_h t cpu).2).reg.F &&& 0x0F = 0 := by
  unfold rl_h
  repeat' split
  all_goals simp [h]

theorem rl_h_ime (t : MemoryTables D) (cpu : CPU D) :
    ((rl_h t cpu).2).ime = cpu.ime ∧ ((rl_h t cpu).2).ime_scheduled = cpu.ime_scheduled ∧
      ((rl_h t cpu).2).ime_delay = cpu.ime_delay := by
  unfold rl_h
  repeat' split
  all_goals simp

theorem rl_l_F (t : MemoryTables D) (cpu : CPU D) (h : cpu.reg.F &&& 0x0F = 0) :
    ((rl_l t cpu).2).reg.F &&& 0x0F = 0 := by
  unfold rl_l
  repeat' split
  all_goals simp [h]

theorem rl_l_ime (t : MemoryTables D) (cpu : CPU D) :
    ((rl_l t cpu).2).ime = cpu.ime ∧ ((rl_l t cpu).2).ime_scheduled = cpu.ime_scheduled ∧
      ((rl_l t cpu).2).ime_delay = cpu.ime_delay := by
  unfold rl_l
  repeat' split
  all_goals simp

theorem rl_hl_F (t : MemoryTables D) (cpu : CPU D) (h : cpu.reg.F &&& 0x0F = 0) :
    ((rl_hl t cpu).2).reg.F &&& 0x0F = 0 := by
  unfold rl_hl
  repeat' split
  all_goals simp [h]

theorem rl_hl_ime (t : MemoryTables D) (cpu : CPU D) :
    ((rl_hl t cpu).2).ime = cpu.ime ∧ ((rl_hl t cpu).2).ime_scheduled = cpu.ime_scheduled ∧
      ((rl_hl t cpu).2).ime_delay = cpu.ime_delay := by
  unfold rl_hl
  repeat' split
  all_goals simp

theorem rl_a_F (t : MemoryTables D) (cpu : CPU D) (h : cpu.reg.F &&& 0x0F = 0) :
    ((rl_a t cpu).2).reg.F &&& 0x0F = 0 := by
  unfold rl_a
  repeat' split
  all_goals simp [h]

theorem rl_a_ime (t : MemoryTables D) (cpu : CPU D) :
    ((rl_a t cpu).2).ime = cpu.ime ∧ ((rl_a t cpu).2).ime_scheduled = cpu.ime_scheduled ∧
      ((rl_a t cpu).2).ime_delay = cpu.ime_delay := by
  unfold rl_a
  repeat' split
  all_goals simp

theorem rr_b_F (t : MemoryTables D) (cpu : CPU D) (h : cpu.reg.F &&& 0x0F = 0) :
    ((rr_b t cpu).2).reg.F &&& 0x0F = 0 := by
  unfold rr_b
  repeat' split
  all_goals simp [h]

theorem rr_b_ime (t : MemoryTables D) (cpu : CPU D) :
    ((rr_b t cpu).2).ime = cpu.ime ∧ ((rr_b t cpu).2).ime_scheduled = cpu.ime_scheduled ∧
      ((rr_b t cpu).2).ime_delay = cpu.ime_delay := by
  unfold rr_b
  repeat' split
  all_goals simp

theorem rr_c_F (t : MemoryTables D) (cpu : CPU D) (h : cpu.reg.F &&& 0x0F = 0) :
    ((rr_c t cpu).2).reg.F &&& 0x0F = 0 := by
  unfold rr_c
  repeat' split
  all_goals simp [h]

theorem rr_c_ime (t : MemoryTables D) (cpu : CPU D) :
    ((rr_c t cpu).2).ime = cpu.ime ∧ ((rr_c t cpu).2).ime_scheduled = cpu.ime_scheduled ∧
      ((rr_c t cpu).2).ime_delay = cpu.ime_delay := by
  unfold rr_c
  repeat' split
  all_goals simp

theorem rr_d_F (t : MemoryTables D) (cpu : CPU D) (h : cpu.reg.F &&& 0x0F = 0) :
    ((rr_d t cpu).2).reg.F &&& 0x0F = 0 := by
  unfold rr_d
  repeat' split
  all_goals simp [h]

theorem rr_d_ime (t : MemoryTables D) (cpu : CPU D) :
    ((rr_d t cpu).2).ime = cpu.ime ∧ ((rr_d t cpu).2).ime_scheduled = cpu.ime_scheduled ∧
      ((rr_d t cpu).2).ime_delay = cpu.ime_delay := by
  unfold rr_d
  repeat' split
  all_goals simp

theorem rr_e_F (t : MemoryTables D) (cpu : CPU D) (h : cpu.reg.F &&& 0x0F = 0) :
    ((rr_e t cpu).2).reg.F &&& 0x0F = 0 := by
  unfold rr_e
  repeat' split
  all_goals simp [h]

theorem rr_e_ime (t : MemoryTables D) (cpu : CPU D) :
    ((rr_e t cpu).2).ime = cpu.ime ∧ ((rr_e t cpu).2).ime_scheduled = cpu.ime_scheduled ∧
      ((rr_e t cpu).2).ime_delay = cpu.ime_delay := by
  unfold rr_e
  repeat' split
  all_goals simp

theorem rr_h_F (t : MemoryTables D) (cpu : CPU D) (h : cpu.reg.F &&& 0x0F = 0) :
    ((rr_h t cpu).2).reg.F &&& 0x0F = 0 := by
  unfold rr_h
  repeat' split
  all_goals simp [h]

theorem rr_h_ime (t : MemoryTables D) (cpu : CPU D) :
    ((rr_h t cpu).2).ime = cpu.ime ∧ ((rr_h t cpu).2).ime_scheduled = cpu.ime_scheduled ∧
      ((rr_h t cpu).2).ime_delay = cpu.ime_delay := by
  unfold rr_h
  repeat' split
  all_goals simp

theorem rr_l_F (t : MemoryTables D) (cpu : CPU D) (h : cpu.reg.F &&& 0x0F = 0) :
    ((rr_l t cpu).2).reg.F &&& 0x0F = 0 := by
  unfold rr_l
  repeat' split
  all_goals simp [h]

theorem rr_l_ime (t : MemoryTables D) (cpu : CPU D) :
    ((rr_l t cpu).2).ime = cpu.ime ∧ ((rr_l t cpu).2).ime_scheduled = cpu.ime_scheduled ∧
      ((rr_l t cpu).2).ime_delay = cpu.ime_delay := by
  unfold rr_l
  repeat' split
  all_goals simp

theorem rr_hl_F (t : MemoryTables D) (cpu : CPU D) (h : cpu.reg.F &&& 0x0F = 0) :
    ((rr_hl t cpu).2).reg.F &&& 0x0F = 0 := by
  unfold rr_hl
  repeat' split
  all_goals simp [h]

theorem rr_hl_ime (t : MemoryTables D) (cpu : CPU D) :
    ((rr_hl t cpu).2).ime = cpu.ime ∧ ((rr_hl t cpu).2).ime_scheduled = cpu.ime_scheduled ∧
      ((rr_hl t cpu).2).ime_delay = cpu.ime_delay := by
  unfold rr_hl
  repeat' split
  all_goals simp

theorem rr_a_F (t : MemoryTables D) (cpu : CPU D) (h : cpu.reg.F &&& 0x0F = 0) :
    ((rr_a t cpu).2).reg.F &&& 0x0F = 0 := by
  unfold rr_a
  repeat' split
  all_goals simp [h]

theorem rr_a_ime (t : MemoryTables D) (cpu : CPU D) :
    ((rr_a t cpu).2).ime = cpu.ime ∧ ((rr_a t cpu).2).ime_scheduled = cpu.ime_scheduled ∧
      ((rr_a t cpu).2).ime_delay = cpu.ime_delay := by
  unfold rr_a
  repeat' split
  all_goals simp

theorem sla_b_F (t : MemoryTables D) (cpu : CPU D) (h : cpu.reg.F &&& 0x0F = 0) :
    ((sla_b t cpu).2).reg.F &&& 0x0F = 0 := by
  unfold sla_b
  repeat' split
  all_goals simp [h]

theorem sla_b_ime (t : MemoryTables D) (cpu : CPU D) :
    ((sla_b t cpu).2).ime = cpu.ime ∧ ((sla_b t cpu).2).ime_scheduled = cpu.ime_scheduled ∧
      ((sla_b t cpu).2).ime_delay = cpu.ime_delay := by
  unfold sla_b
  repeat' split
  all_goals simp

theorem sla_c_F (t : MemoryTables D) (cpu : CPU D) (h : cpu.reg.F &&& 0x0F = 0) :
    ((sla_c t cpu).2).reg.F &&& 0x0F = 0 := by
  unfold sla_c
  repeat' split
  all_goals simp [h]

theorem sla_c_ime (t : MemoryTables D) (cpu : CPU D) :
    ((sla_c t cpu).2).ime = cpu.ime ∧ ((sla_c t cpu).2).ime_scheduled = cpu.ime_scheduled ∧
      ((sla_c t cpu).2).ime_delay = cpu.ime_delay := by
  unfold sla_c
  repeat' split
  all_goals simp

theorem sla_d_F (t : MemoryTables D) (cpu : CPU D) (h : cpu.reg.F &&& 0x0F = 0) :
    ((sla_d t cpu).2).reg.F &&& 0x0F = 0 := by
  unfold sla_d
  repeat' split
  all_goals simp [h]

theorem sla_d_ime (t : MemoryTables D) (cpu : CPU D) :
    ((sla_d t cpu).2).ime = cpu.ime ∧ ((sla_d t cpu).2).ime_scheduled = cpu.ime_scheduled ∧
      ((sla_d t cpu).2).ime_delay = cpu.ime_delay := by
  unfold sla_d
  repeat' split
  all_goals simp

theorem sla_e_F (t : MemoryTables D) (cpu : CPU D) (h : cpu.reg.F &&& 0x0F = 0) :
    ((sla_e t cpu).2).reg.F &&& 0x0F = 0 := by
  unfold sla_e
  repeat' split
  all_goals simp [h]

theorem sla_e_ime (t : MemoryTables D) (cpu : CPU D) :
    ((sla_e t cpu).2).ime = cpu.ime ∧ ((sla_e t cpu).2).ime_scheduled = cpu.ime_scheduled ∧
      ((sla_e t cpu).2).ime_delay = cpu.ime_delay := by
  unfold sla_e
  repeat' split
  all_goals simp

theorem sla_h_F (t : MemoryTables D) (cpu : CPU D) (h : cpu.reg.F &&& 0x0F = 0) :
    ((sla_h t cpu).2).reg.F &&& 0x0F = 0 := by
  unfold sla_h
  repeat' split
  all_goals simp [h]

theorem sla_h_ime (t : MemoryTables D) (cpu : CPU D) :
    ((sla_h t cpu).2).ime = cpu.ime ∧ ((sla_h t cpu).2).ime_scheduled = cpu.ime_scheduled ∧
      ((sla_h t cpu).2).ime_delay = cpu.ime_delay := by
  unfold sla_h
  repeat' split
  all_goals simp

theorem sla_l_F (t : MemoryTables D) (cpu : CPU D) (h : cpu.reg.F &&& 0x0F = 0) :
    ((sla_l t cpu).2).reg.F &&& 0x0F = 0 := by
  unfold sla_l
  repeat' split
  all_goals simp [h]

theorem sla_l_ime (t : MemoryTables D) (cpu : CPU D) :
    ((sla_l t cpu).2).ime = cpu.ime ∧ ((sla_l t cpu).2).ime_scheduled = cpu.ime_scheduled ∧
      ((sla_l t cpu).2).ime_delay = cpu.ime_delay := by
  unfold sla_l
  repeat' split
  all_goals simp

theorem sla_hl_F (t : MemoryTables D) (cpu : CPU D) (h : cpu.reg.F &&& 0x0F = 0) :
    ((sla_hl t cpu).2).reg.F &&& 0x0F = 0 := by
  unfold sla_hl
  repeat' split
  all_goals simp [h]

theorem sla_hl_ime (t : MemoryTables D) (cpu : CPU D) :
    ((sla_hl t cpu).2).ime = cpu.ime ∧ ((sla_hl t cpu).2).ime_scheduled = cpu.ime_scheduled ∧
      ((sla_hl t cpu).2).ime_delay = cpu.ime_delay := by
  unfold sla_hl
  repeat' split
  all_goals simp

theorem sla_a_F (t : MemoryTables D) (cpu : CPU D) (h : cpu.reg.F &&& 0x0F = 0) :
    ((sla_a t cpu).2).reg.F &&& 0x0F = 0 := by
  unfold sla_a
  repeat' split
  all_goals simp [h]

theorem sla_a_ime (t : MemoryTables D) (cpu : CPU D) :
    ((sla_a t cpu).2).ime = cpu.ime ∧ ((sla_a t cpu).2).ime_scheduled = cpu.ime_scheduled ∧
      ((sla_a t cpu).2).ime_delay = cpu.ime_delay := by
  unfold sla_a
  repeat' split
  all_goals simp

theorem sra_b_F (t : MemoryTables D) (cpu : CPU D) (h : cpu.reg.F &&& 0x0F = 0) :
    ((sra_b t cpu).2).reg.F &&& 0x0F = 0 := by
  unfold sra_b
  repeat' split
  all_goals simp [h]

theorem sra_b_ime (t : MemoryTables D) (cpu : CPU D) :
    ((sra_b t cpu).2).ime = cpu.ime ∧ ((sra_b t cpu).2).ime_scheduled = cpu.ime_scheduled ∧
      ((sra_b t cpu).2).ime_delay = cpu.ime_delay := by
  unfold sra_b
  repeat' split
  all_goals simp

theorem sra_c_F (t : MemoryTables D) (cpu : CPU D) (h : cpu.reg.F &&& 0x0F = 0) :
    ((sra_c t cpu).2).reg.F &&& 0x0F = 0 := by
  unfold sra_c
  repeat' split
  all_goals simp [h]

theorem sra_c_ime (t : MemoryTables D) (cpu : CPU D) :
    ((sra_c t cpu).2).ime = cpu.ime ∧ ((sra_c t cpu).2).ime_scheduled = cpu.ime_scheduled ∧
      ((sra_c t cpu).2).ime_delay = cpu.ime_delay := by
  unfold sra_c
  repeat' split
  all_goals simp

theorem sra_d_F (t : MemoryTables D) (cpu : CPU D) (h : cpu.reg.F &&& 0x0F = 0) :
    ((sra_d t cpu).2).reg.F &&& 0x0F = 0 := by
  unfold sra_d
  repeat' split
  all_goals simp [h]

theorem sra_d_ime (t : MemoryTables D) (cpu : CPU D) :
    ((sra_d t cpu).2).ime = cpu.ime ∧ ((sra_d t cpu).2).ime_scheduled = cpu.ime_scheduled ∧
      ((sra_d t cpu).2).ime_delay = cpu.ime_delay := by
  unfold sra_d
  repeat' split
  all_goals simp

theorem sra_e_F (t : MemoryTables D) (cpu : CPU D) (h : cpu.reg.F &&& 0x0F = 0) :
    ((sra_e t cpu).2).reg.F &&& 0x0F = 0 := by
  unfold sra_e
  repeat' split
  all_goals simp [h]

theorem sra_e_ime (t : MemoryTables D) (cpu : CPU D) :
    ((sra_e t cpu).2).ime = cpu.ime ∧ ((sra_e t cpu).2).ime_scheduled = cpu.ime_scheduled ∧
      ((sra_e t cpu).2).ime_delay = cpu.ime_delay := by
  unfold sra_e
  repeat' split
  all_goals simp

theorem sra_h_F (t : MemoryTables D) (cpu : CPU D) (h : cpu.reg.F &&& 0x0F = 0) :
    ((sra_h t cpu).2).reg.F &&& 0x0F = 0 := by
  unfold sra_h
  repeat' split
  all_goals simp [h]

theorem sra_h_ime (t : MemoryTables D) (cpu : CPU D) :
    ((sra_h t cpu).2).ime = cpu.ime ∧ ((sra_h t cpu).2).ime_scheduled = cpu.ime_scheduled ∧
      ((sra_h t cpu).2).ime_delay = cpu.ime_delay := by
  unfold sra_h
  repeat' split
  all_goals simp

theorem sra_l_F (t : MemoryTables D) (cpu : CPU D) (h : cpu.reg.F &&& 0x0F = 0) :
    ((sra_l t cpu).2).reg.F &&& 0x0F = 0 := by
  unfold sra_l
  repeat' split
  all_goals simp [h]

theorem sra_l_ime (t : MemoryTables D) (cpu : CPU D) :
    ((sra_l t cpu).2).ime = cpu.ime ∧ ((sra_l t cpu).2).ime_scheduled = cpu.ime_scheduled ∧
      ((sra_l t cpu).2).ime_delay = cpu.ime_delay := by
  unfold sra_l
  repeat' split
  all_goals simp

theorem sra_hl_F (t : MemoryTables D) (cpu : CPU D) (h : cpu.reg.F &&& 0x0F = 0) :
    ((sra_hl t cpu).2).reg.F &&& 0x0F = 0 := by
  unfold sra_hl
  repeat' split
  all_goals simp [h]

theorem sra_hl_ime (t : MemoryTables D) (cpu : CPU D) :
    ((sra_hl t cpu).2).ime = cpu.ime ∧ ((sra_hl t cpu).2).ime_scheduled = cpu.ime_scheduled ∧
      ((sra_hl t cpu).2).ime_delay = cpu.ime_delay := by
  unfold sra_hl
  repeat' split
  all_goals simp

theorem sra_a_F (t : MemoryTables D) (cpu : CPU D) (h : cpu.reg.F &&& 0x0F = 0) :
    ((sra_a t cpu).2).reg.F &&& 0x0F = 0 := by
  unfold sra_a
  repeat' split
  all_goals simp [h]

theorem sra_a_ime (t : MemoryTables D) (cpu : CPU D) :
    ((sra_a t cpu).2).ime = cpu.ime ∧ ((sra_a t cpu).2).ime_scheduled = cpu.ime_scheduled ∧
      ((sra_a t cpu).2).ime_delay = cpu.ime_delay := by
  unfold sra_a
  repeat' split
  all_goals simp

theorem swap_b_F (t : MemoryTables D) (cpu : CPU D) (h : cpu.reg.F &&& 0x0F = 0) :
    ((swap_b t cpu).2).reg.F &&& 0x0F = 0 := by
  unfold swap_b
  repeat' split
  all_goals simp [h]

theorem swap_b_ime (t : MemoryTables D) (cpu : CPU D) :
    ((swap_b t cpu).2).ime = cpu.ime ∧ ((swap_b t cpu).2).ime_scheduled = cpu.ime_scheduled ∧
      ((swap_b t cpu).2).ime_delay = cpu.ime_delay := by
  unfold swap_b
  repeat' split
  all_goals simp

theorem swap_c_F (t : MemoryTables D) (cpu : CPU D) (h : cpu.reg.F &&& 0x0F = 0) :
    ((swap_c t cpu).2).reg.F &&& 0x0F = 0 := by
  unfold swap_c
  repeat' split
  all_goals simp [h]

theorem swap_c_ime (t : MemoryTables D) (cpu : CPU D) :
    ((swap_c t cpu).2).ime = cpu.ime ∧ ((swap_c t cpu).2).ime_scheduled = cpu.ime_scheduled ∧
      ((swap_c t cpu).2).ime_delay = cpu.ime_delay := by
  unfold swap_c
  repeat' split
  all_goals simp

theorem swap_d_F (t : MemoryTables D) (cpu : CPU D) (h : cpu.reg.F &&& 0x0F = 0) :
    ((swap_d t cpu).2).reg.F &&& 0x0F = 0 := by
  unfold swap_d
  repeat' split
  all_goals simp [h]

theorem swap_d_ime (t : MemoryTables D) (cpu : CPU D) :
    ((swap_d t cpu).2).ime = cpu.ime ∧ ((swap_d t cpu).2).ime_scheduled = cpu.ime_scheduled ∧
      ((swap_d t cpu).2).ime_delay = cpu.ime_delay := by
  unfold swap_d
  repeat' split
  all_goals simp

theorem swap_e_F (t : MemoryTables D) (cpu : CPU D) (h : cpu.reg.F &&& 0x0F = 0) :
    ((swap_e t cpu).2).reg.F &&& 0x0F = 0 := by
  unfold swap_e
  repeat' split
  all_goals simp [h]

theorem swap_e_ime (t : MemoryTables D) (cpu : CPU D) :
    ((swap_e t cpu).2).ime = cpu.ime ∧ ((swap_e t cpu).2).ime_scheduled = cpu.ime_scheduled ∧
      ((swap_e t cpu).2).ime_delay = cpu.ime_delay := by
  unfold swap_e
  repeat' split
  all_goals simp

theorem swap_h_F (t : MemoryTables D) (cpu : CPU D) (h : cpu.reg.F &&& 0x0F = 0) :
    ((swap_h t cpu).2).reg.F &&& 0x0F = 0 := by
  unfold swap_h
  repeat' split
  all_goals simp [h]

theorem swap_h_ime (t : MemoryTables D) (cpu : CPU D) :
    ((swap_h t cpu).2).ime = cpu.ime ∧ ((swap_h t cpu).2).ime_scheduled = cpu.ime_scheduled ∧
      ((swap_h t cpu).2).ime_delay = cpu.ime_delay := by
  unfold swap_h
  repeat' split
  all_goals simp

theorem swap_l_F (t : MemoryTables D) (cpu : CPU D) (h : cpu.reg.F &&& 0x0F = 0) :
    ((swap_l t cpu).2).reg.F &&& 0x0F = 0 := by
  unfold swap_l
  repeat' split
  all_goals simp [h]

theorem swap_l_ime (t : MemoryTables D) (cpu : CPU D) :
    ((swap_l t cpu).2).ime = cpu.ime ∧ ((swap_l t cpu).2).ime_scheduled = cpu.ime_scheduled ∧
      ((swap_l t cpu).2).ime_delay = cpu.ime_delay := by
  unfold swap_l
  repeat' split
  all_goals simp

theorem swap_hl_F (t : MemoryTables D) (cpu : CPU D) (h : cpu.reg.F &&& 0x0F = 0) :
    ((swap_hl t cpu).2).reg.F &&& 0x0F = 0 := by
  unfold swap_hl
  repeat' split
  all_goals simp [h]

theorem swap_hl_ime (t : MemoryTables D) (cpu : CPU D) :
    ((swap_hl t cpu).2).ime = cpu.ime ∧ ((swap_hl t cpu).2).ime_scheduled = cpu.ime_scheduled ∧
      ((swap_hl t cpu).2).ime_delay = cpu.ime_delay := by
  unfold swap_hl
  repeat' split
  all_goals simp

theorem swap_a_F (t : MemoryTables D) (cpu : CPU D) (h : cpu.reg.F &&& 0x0F = 0) :
    ((swap_a t cpu).2).reg.F &&& 0x0F = 0 := by
  unfold swap_a
  repeat' split
  all_goals simp [h]

theorem swap_a_ime (t : MemoryTables D) (cpu : CPU D) :
    ((swap_a t cpu).2).ime = cpu.ime ∧ ((swap_a t cpu).2).ime_scheduled = cpu.ime_scheduled ∧
      ((swap_a t cpu).2).ime_delay = cpu.ime_delay := by
  unfold swap_a
  repeat' split
  all_goals simp

theorem srl_b_F (t : MemoryTables D) (cpu : CPU D) (h : cpu.reg.F &&& 0x0F = 0) :
    ((srl_b t cpu).2).reg.F &&& 0x0F = 0 := by
  unfold srl_b
  repeat' split
  all_goals simp [h]

theorem srl_b_ime (t : MemoryTables D) (cpu : CPU D) :
    ((srl_b t cpu).2).ime = cpu.ime ∧ ((srl_b t cpu).2).ime_scheduled = cpu.ime_scheduled ∧
      ((srl_b t cpu).2).ime_delay = cpu.ime_delay := by
  unfold srl_b
  repeat' split
  all_goals simp

theorem srl_c_F (t : MemoryTables D) (cpu : CPU D) (h : cpu.reg.F &&& 0x0F = 0) :
    ((srl_c t cpu).2).reg.F &&& 0x0F = 0 := by
  unfold srl_c
  repeat' split
  all_goals simp [h]

theorem srl_c_ime (t : MemoryTables D) (cpu : CPU D) :
    ((srl_c t cpu).2).ime = cpu.ime ∧ ((srl_c t cpu).2).ime_scheduled = cpu.ime_scheduled ∧
      ((srl_c t cpu).2).ime_delay = cpu.ime_delay := by
  unfold srl_c
  repeat' split
  all_goals simp

theorem srl_d_F (t : MemoryTables D) (cpu : CPU D) (h : cpu.reg.F &&& 0x0F = 0) :
    ((srl_d t cpu).2).reg.F &&& 0x0F = 0 := by
  unfold srl_d
  repeat' split
  all_goals simp [h]

theorem srl_d_ime (t : MemoryTables D) (cpu : CPU D) :
    ((srl_d t cpu).2).ime = cpu.ime ∧ ((srl_d t cpu).2).ime_scheduled = cpu.ime_scheduled ∧
      ((srl_d t cpu).2).ime_delay = cpu.ime_delay := by
  unfold srl_d
  repeat' split
  all_goals simp

theorem srl_e_F (t : MemoryTables D) (cpu : CPU D) (h : cpu.reg.F &&& 0x0F = 0) :
    ((srl_e t cpu).2).reg.F &&& 0x0F = 0 := by
  unfold srl_e
  repeat' split
  all_goals simp [h]

theorem srl_e_ime (t : MemoryTables D) (cpu : CPU D) :
    ((srl_e t cpu).2).ime = cpu.ime ∧ ((srl_e t cpu).2).ime_scheduled = cpu.ime_scheduled ∧
      ((srl_e t cpu).2).ime_delay = cpu.ime_delay := by
  unfold srl_e
  repeat' split
  all_goals simp

theorem srl_h_F (t : MemoryTables D) (cpu : CPU D) (h : cpu.reg.F &&& 0x0F = 0) :
    ((srl_h t cpu).2).reg.F &&& 0x0F = 0 := by
  unfold srl_h
  repeat' split
  all_goals simp [h]

theorem srl_h_ime (t : MemoryTables D) (cpu : CPU D) :
    ((srl_h t cpu).2).ime = cpu.ime ∧ ((srl_h t cpu).2).ime_scheduled = cpu.ime_scheduled ∧
      ((srl_h t cpu).2).ime_delay = cpu.ime_delay := by
  unfold srl_h
  repeat' split
  all_goals simp

theorem srl_l_F (t : MemoryTables D) (cpu : CPU D) (h : cpu.reg.F &&& 0x0F = 0) :
    ((srl_l t cpu).2).reg.F &&& 0x0F = 0 := by
  unfold srl_l
  repeat' split
  all_goals simp [h]

theorem srl_l_ime (t : MemoryTables D) (cpu : CPU D) :
    ((srl_l t cpu).2).ime = cpu.ime ∧ ((srl_l t cpu).2).ime_scheduled = cpu.ime_scheduled ∧
      ((srl_l t cpu).2).ime_delay = cpu.ime_delay := by
  unfold srl_l
  repeat' split
  all_goals simp

theorem srl_hl_F (t : MemoryTables D) (cpu : CPU D) (h : cpu.reg.F &&& 0x0F = 0) :
    ((srl_hl t cpu).2).reg.F &&& 0x0F = 0 := by
  unfold srl_hl
  repeat' split
  all_goals simp [h]

theorem srl_hl_ime (t : MemoryTables D) (cpu : CPU D) :
    ((srl_hl t cpu).2).ime = cpu.ime ∧ ((srl_hl t cpu).2).ime_scheduled = cpu.ime_scheduled ∧
      ((srl_hl t cpu).2).ime_delay = cpu.ime_delay := by
  unfold srl_hl
  repeat' split
  all_goals simp

theorem srl_a_F (t : MemoryTables D) (cpu : CPU D) (h : cpu.reg.F &&& 0x0F = 0) :
    ((srl_a t cpu).2).reg.F &&& 0x0F = 0 := by
  unfold srl_a
  repeat' split
  all_goals simp [h]

theorem srl_a_ime (t : MemoryTables D) (cpu : CPU D) :
    ((srl_a t cpu).2).ime = cpu.ime ∧ ((srl_a t cpu).2).ime_scheduled = cpu.ime_scheduled ∧
      ((srl_a t cpu).2).ime_delay = cpu.ime_delay := by
  unfold srl_a
  repeat' split
  all_goals simp

theorem bit_0_b_F (t : MemoryTables D) (cpu : CPU D) (h : cpu.reg.F &&& 0x0F = 0) :
    ((bit_0_b t cpu).2).reg.F &&& 0x0F = 0 := by
  unfold bit_0_b
  repeat' split
  all_goals simp [h]

theorem bit_0_b_ime (t : MemoryTables D) (cpu : CPU D) :
    ((bit_0_b t cpu).2).ime = cpu.ime ∧ ((bit_0_b t cpu).2).ime_scheduled = cpu.ime_scheduled ∧
      ((bit_0_b t cpu).2).ime_delay = cpu.ime_delay := by
  unfold bit_0_b
  repeat' split
  all_goals simp

theorem bit_0_c_F (t : MemoryTables D) (cpu : CPU D) (h : cpu.reg.F &&& 0x0F = 0) :
    ((bit_0_c t cpu).2).reg.F &&& 0x0F = 0 := by
  unfold bit_0_c
  repeat' split
  all_goals simp [h]

theorem bit_0_c_ime (t : MemoryTables D) (cpu : CPU D) :
    ((bit_0_c t cpu).2).ime = cpu.ime ∧ ((bit_0_c t cpu).2).ime_scheduled = cpu.ime_scheduled ∧
      ((bit_0_c t cpu).2).ime_delay = cpu.ime_delay := by
  unfold bit_0_c
  repeat' split
  all_goals simp

theorem bit_0_d_F (t : MemoryTables D) (cpu : CPU D) (h : cpu.reg.F &&& 0x0F = 0) :
    ((bit_0_d t cpu).2).reg.F &&& 0x0F = 0 := by
  unfold bit_0_d
  repeat' split
  all_goals simp [h]

theorem bit_0_d_ime (t : MemoryTables D) (cpu : CPU D) :
    ((bit_0_d t cpu).2).ime = cpu.ime ∧ ((bit_0_d t cpu).2).ime_scheduled = cpu.ime_scheduled ∧
      ((bit_0_d t cpu).2).ime_delay = cpu.ime_delay := by
  unfold bit_0_d
  repeat' split
  all_goals simp

theorem bit_0_e_F (t : MemoryTables D) (cpu : CPU D) (h : cpu.reg.F &&& 0x0F = 0) :
    ((bit_0_e t cpu).2).reg.F &&& 0x0F = 0 := by
  unfold bit_0_e
  repeat' split
  all_goals simp [h]

theorem bit_0_e_ime (t : MemoryTables D) (cpu : CPU D) :
    ((bit_0_e t cpu).2).ime = cpu.ime ∧ ((bit_0_e t cpu).2).ime_scheduled = cpu.ime_scheduled ∧
      ((bit_0_e t cpu).2).ime_delay = cpu.ime_delay := by
  unfold bit_0_e
  repeat' split
  all_goals simp

theorem bit_0_h_F (t : MemoryTables D) (cpu : CPU D) (h : cpu.reg.F &&& 0x0F = 0) :
    ((bit_0_h t cpu).2).reg.F &&& 0x0F = 0 := by
  unfold bit_0_h
  repeat' split
  all_goals simp [h]

theorem bit_0_h_ime (t : MemoryTables D) (cpu : CPU D) :
    ((bit_0_h t cpu).2).ime = cpu.ime ∧ ((bit_0_h t cpu).2).ime_scheduled = cpu.ime_scheduled ∧
      ((bit_0_h t cpu).2).ime_delay = cpu.ime_delay := by
  unfold bit_0_h
  repeat' split
  all_goals simp

theorem bit_0_l_F (t : MemoryTables D) (cpu : CPU D) (h : cpu.reg.F &&& 0x0F = 0) :
    ((bit_0_l t cpu).2).reg.F &&& 0x0F = 0 := by
  unfold bit_0_l
  repeat' split
  all_goals simp [h]

theorem bit_0_l_ime (t : MemoryTables D) (cpu : CPU D) :
    ((bit_0_l t cpu).2).ime = cpu.ime ∧ ((bit_0_l t cpu).2).ime_scheduled = cpu.ime_scheduled ∧
      ((bit_0_l t cpu).2).ime_delay = cpu.ime_delay := by
  unfold bit_0_l
  repeat' split
  all_goals simp

theorem bit_0_hl_F (t : MemoryTables D) (cpu : CPU D) (h : cpu.reg.F &&& 0x0F = 0) :
    ((bit_0_hl t cpu).2).reg.F &&& 0x0F = 0 := by
  unfold bit_0_hl
  repeat' split
  all_goals simp [h]

theorem bit_0_hl_ime (t : MemoryTables D) (cpu : CPU D) :
    ((bit_0_hl t cpu).2).ime = cpu.ime ∧ ((bit_0_hl t cpu).2).ime_scheduled = cpu.ime_scheduled ∧
      ((bit_0_hl t cpu).2).ime_delay = cpu.ime_delay := by
  unfold bit_0_hl
  repeat' split
  all_goals simp

theorem bit_0_a_F (t : MemoryTables D) (cpu : CPU D) (h : cpu.reg.F &&& 0x0F = 0) :
    ((bit_0_a t cpu).2).reg.F &&& 0x0F = 0 := by
  unfold bit_0_a
  repeat' split
  all_goals simp [h]

theorem bit_0_a_ime (t : MemoryTables D) (cpu : CPU D) :
    ((bit_0_a t cpu).2).ime = cpu.ime ∧ ((bit_0_a t cpu).2).ime_scheduled = cpu.ime_scheduled ∧
      ((bit_0_a t cpu).2).ime_delay = cpu.ime_delay := by
  unfold bit_0_a
  repeat' split
  all_goals simp

theorem bit_1_b_F (t : MemoryTables D) (cpu : CPU D) (h : cpu.reg.F &&& 0x0F = 0) :
    ((bit_1_b t cpu).2).reg.F &&& 0x0F = 0 := by
  unfold bit_1_b
  repeat' split
  all_goals simp [h]

theorem bit_1_b_ime (t : MemoryTables D) (cpu : CPU D) :
    ((bit_1_b t cpu).2).ime = cpu.ime ∧ ((bit_1_b t cpu).2).ime_scheduled = cpu.ime_scheduled ∧
      ((bit_1_b t cpu).2).ime_delay = cpu.ime_delay := by
  unfold bit_1_b
  repeat' split
  all_goals simp

theorem bit_1_c_F (t : MemoryTables D) (cpu : CPU D) (h : cpu.reg.F &&& 0x0F = 0) :
    ((bit_1_c t cpu).2).reg.F &&& 0x0F = 0 := by
  unfold bit_1_c
  repeat' split
  all_goals simp [h]

theorem bit_1_c_ime (t : MemoryTables D) (cpu : CPU D) :
    ((bit_1_c t cpu).2).ime = cpu.ime ∧ ((bit_1_c t cpu).2).ime_scheduled = cpu.ime_scheduled ∧
      ((bit_1_c t cpu).2).ime_delay = cpu.ime_delay := by
  unfold bit_1_c
  repeat' split
  all_goals simp

theorem bit_1_d_F (t : MemoryTables D) (cpu : CPU D) (h : cpu.reg.F &&& 0x0F = 0) :
    ((bit_1_d t cpu).2).reg.F &&& 0x0F = 0 := by
  unfold bit_1_d
  repeat' split
  all_goals simp [h]

theorem bit_1_d_ime (t : MemoryTables D) (cpu : CPU D) :
    ((bit_1_d t cpu).2).ime = cpu.ime ∧ ((bit_1_d t cpu).2).ime_scheduled = cpu.ime_scheduled ∧
      ((bit_1_d t cpu).2).ime_delay = cpu.ime_delay := by
  unfold bit_1_d
  repeat' split
  all_goals simp

theorem bit_1_e_F (t : MemoryTables D) (cpu : CPU D) (h : cpu.reg.F &&& 0x0F = 0) :
    ((bit_1_e t cpu).2).reg.F &&& 0x0F = 0 := by
  unfold bit_1_e
  repeat' split
  all_goals simp [h]

theorem bit_1_e_ime (t : MemoryTables D) (cpu : CPU D) :
    ((bit_1_e t cpu).2).ime = cpu.ime ∧ ((bit_1_e t cpu).2).ime_scheduled = cpu.ime_scheduled ∧
      ((bit_1_e t cpu).2).ime_delay = cpu.ime_delay := by
  unfold bit_1_e
  repeat' split
  all_goals simp

theorem bit_1_h_F (t : MemoryTables D) (cpu : CPU D) (h : cpu.reg.F &&& 0x0F = 0) :
    ((bit_1_h t cpu).2).reg.F &&& 0x0F = 0 := by
  unfold bit_1_h
  repeat' split
  all_goals simp [h]

theorem bit_1_h_ime (t : MemoryTables D) (cpu : CPU D) :
    ((bit_1_h t cpu).2).ime = cpu.ime ∧ ((bit_1_h t cpu).2).ime_scheduled = cpu.ime_scheduled ∧
      ((bit_1_h t cpu).2).ime_delay = cpu.ime_delay := by
  unfold bit_1_h
  repeat' split
  all_goals simp

theorem bit_1_l_F (t : MemoryTables D) (cpu : CPU D) (h : cpu.reg.F &&& 0x0F = 0) :
    ((bit_1_l t cpu).2).reg.F &&& 0x0F = 0 := by
  unfold bit_1_l
  repeat' split
  all_goals simp [h]

theorem bit_1_l_ime (t : MemoryTables D) (cpu : CPU D) :
    ((bit_1_l t cpu).2).ime = cpu.ime ∧ ((bit_1_l t cpu).2).ime_scheduled = cpu.ime_scheduled ∧
      ((bit_1_l t cpu).2).ime_delay = cpu.ime_delay := by
  unfold bit_1_l
  repeat' split
  all_goals simp

theorem bit_1_hl_F (t : MemoryTables D) (cpu : CPU D) (h : cpu.reg.F &&& 0x0F = 0) :
    ((bit_1_hl t cpu).2).reg.F &&& 0x0F = 0 := by
  unfold bit_1_hl
  repeat' split
  all_goals simp [h]

theorem bit_1_hl_ime (t : MemoryTables D) (cpu : CPU D) :
    ((bit_1_hl t cpu).2).ime = cpu.ime ∧ ((bit_1_hl t cpu).2).ime_scheduled = cpu.ime_scheduled ∧
      ((bit_1_hl t cpu).2).ime_delay = cpu.ime_delay := by
  unfold bit_1_hl
  repeat' split
  all_goals simp

theorem bit_1_a_F (t : MemoryTables D) (cpu : CPU D) (h : cpu.reg.F &&& 0x0F = 0) :
    ((bit_1_a t cpu).2).reg.F &&& 0x0F = 0 := by
  unfold bit_1_a
  repeat' split
  all_goals simp [h]

theorem bit_1_a_ime (t : MemoryTables D) (cpu : CPU D) :
    ((bit_1_a t cpu).2).ime = cpu.ime ∧ ((bit_1_a t cpu).2).ime_scheduled = cpu.ime_scheduled ∧
      ((bit_1_a t cpu).2).ime_delay = cpu.ime_delay := by
  unfold bit_1_a
  repeat' split
  all_goals simp

theorem bit_2_b_F (t : MemoryTables D) (cpu : CPU D) (h : cpu.reg.F &&& 0x0F = 0) :
    ((bit_2_b t cpu).2).reg.F &&& 0x0F = 0 := by
  unfold bit_2_b
  repeat' split
  all_goals simp [h]

theorem bit_2_b_ime (t : MemoryTables D) (cpu : CPU D) :
    ((bit_2_b t cpu).2).ime = cpu.ime ∧ ((bit_2_b t cpu).2).ime_scheduled = cpu.ime_scheduled ∧
      ((bit_2_b t cpu).2).ime_delay = cpu.ime_delay := by
  unfold bit_2_b
  repeat' split
  all_goals simp

theorem bit_2_c_F (t : MemoryTables D) (cpu : CPU D) (h : cpu.reg.F &&& 0x0F = 0) :
    ((bit_2_c t cpu).2).reg.F &&& 0x0F = 0 := by
  unfold bit_2_c
  repeat' split
  all_goals simp [h]

theorem bit_2_c_ime (t : MemoryTables D) (cpu : CPU D) :
    ((bit_2_c t cpu).2).ime = cpu.ime ∧ ((bit_2_c t cpu).2).ime_scheduled = cpu.ime_scheduled ∧
      ((bit_2_c t cpu).2).ime_delay = cpu.ime_delay := by
  unfold bit_2_c
  repeat' split
  all_goals simp

theorem bit_2_d_F (t : MemoryTables D) (cpu : CPU D) (h : cpu.reg.F &&& 0x0F = 0) :
    ((bit_2_d t cpu).2).reg.F &&& 0x0F = 0 := by
  unfold bit_2_d
  repeat' split
  all_goals simp [h]

theorem bit_2_d_ime (t : MemoryTables D) (cpu : CPU D) :
    ((bit_2_d t cpu).2).ime = cpu.ime ∧ ((bit_2_d t cpu).2).ime_scheduled = cpu.ime_scheduled ∧
      ((bit_2_d t cpu).2).ime_delay = cpu.ime_delay := by
  unfold bit_2_d
  repeat' split
  all_goals simp

theorem bit_2_e_F (t : MemoryTables D) (cpu : CPU D) (h : cpu.reg.F &&& 0x0F = 0) :
    ((bit_2_e t cpu).2).reg.F &&& 0x0F = 0 := by
  unfold bit_2_e
  repeat' split
  all_goals simp [h]

theorem bit_2_e_ime (t : MemoryTables D) (cpu : CPU D) :
    ((bit_2_e t cpu).2).ime = cpu.ime ∧ ((bit_2_e t cpu).2).ime_scheduled = cpu.ime_scheduled ∧
      ((bit_2_e t cpu).2).ime_delay = cpu.ime_delay := by
  unfold bit_2_e
  repeat' split
  all_goals simp

theorem bit_2_h_F (t : MemoryTables D) (cpu : CPU D) (h : cpu.reg.F &&& 0x0F = 0) :
    ((bit_2_h t cpu).2).reg.F &&& 0x0F = 0 := by
  unfold bit_2_h
  repeat' split
  all_goals simp [h]

theorem bit_2_h_ime (t : MemoryTables D) (cpu : CPU D) :
    ((bit_2_h t cpu).2).ime = cpu.ime ∧ ((bit_2_h t cpu).2).ime_scheduled = cpu.ime_scheduled ∧
      ((bit_2_h t cpu).2).ime_delay = cpu.ime_delay := by
  unfold bit_2_h
  repeat' split
  all_goals simp

theorem bit_2_l_F (t : MemoryTables D) (cpu : CPU D) (h : cpu.reg.F &&& 0x0F = 0) :
    ((bit_2_l t cpu).2).reg.F &&& 0x0F = 0 := by
  unfold bit_2_l
  repeat' split
  all_goals simp [h]

theorem bit_2_l_ime (t : MemoryTables D) (cpu : CPU D) :
    ((bit_2_l t cpu).2).ime = cpu.ime ∧ ((bit_2_l t cpu).2).ime_scheduled = cpu.ime_scheduled ∧
      ((bit_2_l t cpu).2).ime_delay = cpu.ime_delay := by
  unfold bit_2_l
  repeat' split
  all_goals simp

theorem bit_2_hl_F (t : MemoryTables D) (cpu : CPU D) (h : cpu.reg.F &&& 0x0F = 0) :
    ((bit_2_hl t cpu).2).reg.F &&& 0x0F = 0 := by
  unfold bit_2_hl
  repeat' split
  all_goals simp [h]

theorem bit_2_hl_ime (t : MemoryTables D) (cpu : CPU D) :
    ((bit_2_hl t cpu).2).ime = cpu.ime ∧ ((bit_2_hl t cpu).2).ime_scheduled = cpu.ime_scheduled ∧
      ((bit_2_hl t cpu).2).ime_delay = cpu.ime_delay := by
  unfold bit_2_hl
  repeat' split
  all_goals simp

theorem bit_2_a_F (t : MemoryTables D) (cpu : CPU D) (h : cpu.reg.F &&& 0x0F = 0) :
    ((bit_2_a t cpu).2).reg.F &&& 0x0F = 0 := by
  unfold bit_2_a
  repeat' split
  all_goals simp [h]

theorem bit_2_a_ime (t : MemoryTables D) (cpu : CPU D) :
    ((bit_2_a t cpu).2).ime = cpu.ime ∧ ((bit_2_a t cpu).2).ime_scheduled = cpu.ime_scheduled ∧
      ((bit_2_a t cpu).2).ime_delay = cpu.ime_delay := by
  unfold bit_2_a
  repeat' split
  all_goals simp

theorem bit_3_b_F (t : MemoryTables D) (cpu : CPU D) (h : cpu.reg.F &&& 0x0F = 0) :
    ((bit_3_b t cpu).2).reg.F &&& 0x0F = 0 := by
  unfold bit_3_b
  repeat' split
  all_goals simp [h]

theorem bit_3_b_ime (t : MemoryTables D) (cpu : CPU D) :
    ((bit_3_b t cpu).2).ime = cpu.ime ∧ ((bit_3_b t cpu).2).ime_scheduled = cpu.ime_scheduled ∧
      ((bit_3_b t cpu).2).ime_delay = cpu.ime_delay := by
  unfold bit_3_b
  repeat' split
  all_goals simp

theorem bit_3_c_F (t : MemoryTables D) (cpu : CPU D) (h : cpu.reg.F &&& 0x0F = 0) :
    ((bit_3_c t cpu).2).reg.F &&& 0x0F = 0 := by
  unfold bit_3_c
  repeat' split
  all_goals simp [h]

theorem bit_3_c_ime (t : MemoryTables D) (cpu : CPU D) :
    ((bit_3_c t cpu).2).ime = cpu.ime ∧ ((bit_3_c t cpu).2).ime_scheduled = cpu.ime_scheduled ∧
      ((bit_3_c t cpu).2).ime_delay = cpu.ime_delay := by
  unfold bit_3_c
  repeat' split
  all_goals simp

theorem bit_3_d_F (t : MemoryTables D) (cpu : CPU D) (h : cpu.reg.F &&& 0x0F = 0) :
    ((bit_3_d t cpu).2).reg.F &&& 0x0F = 0 := by
  unfold bit_3_d
  repeat' split
  all_goals simp [h]

theorem bit_3_d_ime (t : MemoryTables D) (cpu : CPU D) :
    ((bit_3_d t cpu).2).ime = cpu.ime ∧ ((bit_3_d t cpu).2).ime_scheduled = cpu.ime_scheduled ∧
      ((bit_3_d t cpu).2).ime_delay = cpu.ime_delay := by
  unfold bit_3_d
  repeat' split
  all_goals simp

theorem bit_3_e_F (t : MemoryTables D) (cpu : CPU D) (h : cpu.reg.F &&& 0x0F = 0) :
    ((bit_3_e t cpu).2).reg.F &&& 0x0F = 0 := by
  unfold bit_3_e
  repeat' split
  all_goals simp [h]

theorem bit_3_e_ime (t : MemoryTables D) (cpu : CPU D) :
    ((bit_3_e t cpu).2).ime = cpu.ime ∧ ((bit_3_e t cpu).2).ime_scheduled = cpu.ime_scheduled ∧
      ((bit_3_e t cpu).2).ime_delay = cpu.ime_delay := by
  unfold bit_3_e
  repeat' split
  all_goals simp

theorem bit_3_h_F (t : MemoryTables D) (cpu : CPU D) (h : cpu.reg.F &&& 0x0F = 0) :
    ((bit_3_h t cpu).2).reg.F &&& 0x0F = 0 := by
  unfold bit_3_h
  repeat' split
  all_goals simp [h]

theorem bit_3_h_ime (t : MemoryTables D) (cpu : CPU D) :
    ((bit_3_h t cpu).2).ime = cpu.ime ∧ ((bit_3_h t cpu).2).ime_scheduled = cpu.ime_scheduled ∧
      ((bit_3_h t cpu).2).ime_delay = cpu.ime_delay := by
  unfold bit_3_h
  repeat' split
  all_goals simp

theorem bit_3_l_F (t : MemoryTables D) (cpu : CPU D) (h : cpu.reg.F &&& 0x0F = 0) :
    ((bit_3_l t cpu).2).reg.F &&& 0x0F = 0 := by
  unfold bit_3_l
  repeat' split
  all_goals simp [h]

theorem bit_3_l_ime (t : MemoryTables D) (cpu : CPU D) :
    ((bit_3_l t cpu).2).ime = cpu.ime ∧ ((bit_3_l t cpu).2).ime_scheduled = cpu.ime_scheduled ∧
      ((bit_3_l t cpu).2).ime_delay = cpu.ime_delay := by
  unfold bit_3_l
  repeat' split
  all_goals simp

theorem bit_3_hl_F (t : MemoryTables D) (cpu : CPU D) (h : cpu.reg.F &&& 0x0F = 0) :
    ((bit_3_hl t cpu).2).reg.F &&& 0x0F = 0 := by
  unfold bit_3_hl
  repeat' split
  all_goals simp [h]

theorem bit_3_hl_ime (t : MemoryTables D) (cpu : CPU D) :
    ((bit_3_hl t cpu).2).ime = cpu.ime ∧ ((bit_3_hl t cpu).2).ime_scheduled = cpu.ime_scheduled ∧
      ((bit_3_hl t cpu).2).ime_delay = cpu.ime_delay := by
  unfold bit_3_hl
  repeat' split
  all_goals simp

theorem bit_3_a_F (t : MemoryTables D) (cpu : CPU D) (h : cpu.reg.F &&& 0x0F = 0) :
    ((bit_3_a t cpu).2).reg.F &&& 0x0F = 0 := by
  unfold bit_3_a
  repeat' split
  all_goals simp [h]

theorem bit_3_a_ime (t : MemoryTables D) (cpu : CPU D) :
    ((bit_3_a t cpu).2).ime = cpu.ime ∧ ((bit_3_a t cpu).2).ime_scheduled = cpu.ime_scheduled ∧
      ((bit_3_a t cpu).2).ime_delay = cpu.ime_delay := by
  unfold bit_3_a
  repeat' split
  all_goals simp

theorem bit_4_b_F (t : MemoryTables D) (cpu : CPU D) (h : cpu.reg.F &&& 0x0F = 0) :
    ((bit_4_b t cpu).2).reg.F &&& 0x0F = 0 := by
  unfold bit_4_b
  repeat' split
  all_goals simp [h]

theorem bit_4_b_ime (t : MemoryTables D) (cpu : CPU D) :
    ((bit_4_b t cpu).2).ime = cpu.ime ∧ ((bit_4_b t cpu).2).ime_scheduled = cpu.ime_scheduled ∧
      ((bit_4_b t cpu).2).ime_delay = cpu.ime_delay := by
  unfold bit_4_b
  repeat' split
  all_goals simp

theorem bit_4_c_F (t : MemoryTables D) (cpu : CPU D) (h : cpu.reg.F &&& 0x0F = 0) :
    ((bit_4_c t cpu).2).reg.F &&& 0x0F = 0 := by
  unfold bit_4_c
  repeat' split
  all_goals simp [h]

theorem bit_4_c_ime (t : MemoryTables D) (cpu : CPU D) :
    ((bit_4_c t cpu).2).ime = cpu.ime ∧ ((bit_4_c t cpu).2).ime_scheduled = cpu.ime_scheduled ∧
      ((bit_4_c t cpu).2).ime_delay = cpu.ime_delay := by
  unfold bit_4_c
  repeat' split
  all_goals simp

theorem bit_4_d_F (t : MemoryTables D) (cpu : CPU D) (h : cpu.reg.F &&& 0x0F = 0) :
    ((bit_4_d t cpu).2).reg.F &&& 0x0F = 0 := by
  unfold bit_4_d
  repeat' split
  all_goals simp [h]

theorem bit_4_d_ime (t : MemoryTables D) (cpu : CPU D) :
    ((bit_4_d t cpu).2).ime = cpu.ime ∧ ((bit_4_d t cpu).2).ime_scheduled = cpu.ime_scheduled ∧
      ((bit_4_d t cpu).2).ime_delay = cpu.ime_delay := by
  unfold bit_4_d
  repeat' split
  all_goals simp

theorem bit_4_e_F (t : MemoryTables D) (cpu : CPU D) (h : cpu.reg.F &&& 0x0F = 0) :
    ((bit_4_e t cpu).2).reg.F &&& 0x0F = 0 := by
  unfold bit_4_e
  repeat' split
  all_goals simp [h]

theorem bit_4_e_ime (t : MemoryTables D) (cpu : CPU D) :
    ((bit_4_e t cpu).2).ime = cpu.ime ∧ ((bit_4_e t cpu).2).ime_scheduled = cpu.ime_scheduled ∧
      ((bit_4_e t cpu).2).ime_delay = cpu.ime_delay := by
  unfold bit_4_e
  repeat' split
  all_goals simp

theorem bit_4_h_F (t : MemoryTables D) (cpu : CPU D) (h : cpu.reg.F &&& 0x0F = 0) :
    ((bit_4_h t cpu).2).reg.F &&& 0x0F = 0 := by
  unfold bit_4_h
  repeat' split
  all_goals simp [h]

theorem bit_4_h_ime (t : MemoryTables D) (cpu : CPU D) :
    ((bit_4_h t cpu).2).ime = cpu.ime ∧ ((bit_4_h t cpu).2).ime_scheduled = cpu.ime_scheduled ∧
      ((bit_4_h t cpu).2).ime_delay = cpu.ime_delay := by
  unfold bit_4_h
  repeat' split
  all_goals simp

theorem bit_4_l_F (t : MemoryTables D) (cpu : CPU D) (h : cpu.reg.F &&& 0x0F = 0) :
    ((bit_4_l t cpu).2).reg.F &&& 0x0F = 0 := by
  unfold bit_4_l
  repeat' split
  all_goals simp [h]

theorem bit_4_l_ime (t : MemoryTables D) (cpu : CPU D) :
    ((bit_4_l t cpu).2).ime = cpu.ime ∧ ((bit_4_l t cpu).2).ime_scheduled = cpu.ime_scheduled ∧
      ((bit_4_l t cpu).2).ime_delay = cpu.ime_delay := by
  unfold bit_4_l
  repeat' split
  all_goals simp

theorem bit_4_hl_F (t : MemoryTables D) (cpu : CPU D) (h : cpu.reg.F &&& 0x0F = 0) :
    ((bit_4_hl t cpu).2).reg.F &&& 0x0F = 0 := by
  unfold bit_4_hl
  repeat' split
  all_goals simp [h]

theorem bit_4_hl_ime (t : MemoryTables D) (cpu : CPU D) :
    ((bit_4_hl t cpu).2).ime = cpu.ime ∧ ((bit_4_hl t cpu).2).ime_scheduled = cpu.ime_scheduled ∧
      ((bit_4_hl t cpu).2).ime_delay = cpu.ime_delay := by
  unfold bit_4_hl
  repeat' split
  all_goals simp

theorem bit_4_a_F (t : MemoryTables D) (cpu : CPU D) (h : cpu.reg.F &&& 0x0F = 0) :
    ((bit_4_a t cpu).2).reg.F &&& 0x0F = 0 := by
  unfold bit_4_a
  repeat' split
  all_goals simp [h]

theorem bit_4_a_ime (t : MemoryTables D) (cpu : CPU D) :
    ((bit_4_a t cpu).2).ime = cpu.ime ∧ ((bit_4_a t cpu).2).ime_scheduled = cpu.ime_scheduled ∧
      ((bit_4_a t cpu).2).ime_delay = cpu.ime_delay := by
  unfold bit_4_a
  repeat' split
  all_goals simp

theorem bit_5_b_F (t : MemoryTables D) (cpu : CPU D) (h : cpu.reg.F &&& 0x0F = 0) :
    ((bit_5_b t cpu).2).reg.F &&& 0x0F = 0 := by
  unfold bit_5_b
  repeat' split
  all_goals simp [h]

theorem bit_5_b_ime (t : MemoryTables D) (cpu : CPU D) :
    ((bit_5_b t cpu).2).ime = cpu.ime ∧ ((bit_5_b t cpu).2).ime_scheduled = cpu.ime_scheduled ∧
      ((bit_5_b t cpu).2).ime_delay = cpu.ime_delay := by
  unfold bit_5_b
  repeat' split
  all_goals simp

theorem bit_5_c_F (t : MemoryTables D) (cpu : CPU D) (h : cpu.reg.F &&& 0x0F = 0) :
    ((bit_5_c t cpu).2).reg.F &&& 0x0F = 0 := by
  unfold bit_5_c
  repeat' split
  all_goals simp [h]

theorem bit_5_c_ime (t : MemoryTables D) (cpu : CPU D) :
    ((bit_5_c t cpu).2).ime = cpu.ime ∧ ((bit_5_c t cpu).2).ime_scheduled = cpu.ime_scheduled ∧
      ((bit_5_c t cpu).2).ime_delay = cpu.ime_delay := by
  unfold bit_5_c
  repeat' split
  all_goals simp

theorem bit_5_d_F (t : MemoryTables D) (cpu : CPU D) (h : cpu.reg.F &&& 0x0F = 0) :
    ((bit_5_d t cpu).2).reg.F &&& 0x0F = 0 := by
  unfold bit_5_d
  repeat' split
  all_goals simp [h]

theorem bit_5_d_ime (t : MemoryTables D) (cpu : CPU D) :
    ((bit_5_d t cpu).2).ime = cpu.ime ∧ ((bit_5_d t cpu).2).ime_scheduled = cpu.ime_scheduled ∧
      ((bit_5_d t cpu).2).ime_delay = cpu.ime_delay := by
  unfold bit_5_d
  repeat' split
  all_goals simp

theorem bit_5_e_F (t : MemoryTables D) (cpu : CPU D) (h : cpu.reg.F &&& 0x0F = 0) :
    ((bit_5_e t cpu).2).reg.F &&& 0x0F = 0 := by
  unfold bit_5_e
  repeat' split
  all_goals simp [h]

theorem bit_5_e_ime (t : MemoryTables D) (cpu : CPU D) :
    ((bit_5_e t cpu).2).ime = cpu.ime ∧ ((bit_5_e t cpu).2).ime_scheduled = cpu.ime_scheduled ∧
      ((bit_5_e t cpu).2).ime_delay = cpu.ime_delay := by
  unfold bit_5_e
  repeat' split
  all_goals simp

theorem bit_5_h_F (t : MemoryTables D) (cpu : CPU D) (h : cpu.reg.F &&& 0x0F = 0) :
    ((bit_5_h t cpu).2).reg.F &&& 0x0F = 0 := by
  unfold bit_5_h
  repeat' split
  all_goals simp [h]

theorem bit_5_h_ime (t : MemoryTables D) (cpu : CPU D) :
    ((bit_5_h t cpu).2).ime = cpu.ime ∧ ((bit_5_h t cpu).2).ime_scheduled = cpu.ime_scheduled ∧
      ((bit_5_h t cpu).2).ime_delay = cpu.ime_delay := by
  unfold bit_5_h
  repeat' split
  all_goals simp

theorem bit_5_l_F (t : MemoryTables D) (cpu : CPU D) (h : cpu.reg.F &&& 0x0F = 0) :
    ((bit_5_l t cpu).2).reg.F &&& 0x0F = 0 := by
  unfold bit_5_l
  repeat' split
  all_goals simp [h]

theorem bit_5_l_ime (t : MemoryTables D) (cpu : CPU D) :
    ((bit_5_l t cpu).2).ime = cpu.ime ∧ ((bit_5_l t cpu).2).ime_scheduled = cpu.ime_scheduled ∧
      ((bit_5_l t cpu).2).ime_delay = cpu.ime_delay := by
  unfold bit_5_l
  repeat' split
  all_goals simp

theorem bit_5_hl_F (t : MemoryTables D) (cpu : CPU D) (h : cpu.reg.F &&& 0x0F = 0) :
    ((bit_5_hl t cpu).2).reg.F &&& 0x0F = 0 := by
  unfold bit_5_hl
  repeat' split
  all_goals simp [h]

theorem bit_5_hl_ime (t : MemoryTables D) (cpu : CPU D) :
    ((bit_5_hl t cpu).2).ime = cpu.ime ∧ ((bit_5_hl t cpu).2).ime_scheduled = cpu.ime_scheduled ∧
      ((bit_5_hl t cpu).2).ime_delay = cpu.ime_delay := by
  unfold bit_5_hl
  repeat' split
  all_goals simp

theorem bit_5_a_F (t : MemoryTables D) (cpu : CPU D) (h : cpu.reg.F &&& 0x0F = 0) :
    ((bit_5_a t cpu).2).reg.F &&& 0x0F = 0 := by
  unfold bit_5_a
  repeat' split
  all_goals simp [h]

theorem bit_5_a_ime (t : MemoryTables D) (cpu : CPU D) :
    ((bit_5_a t cpu).2).ime = cpu.ime ∧ ((bit_5_a t cpu).2).ime_scheduled = cpu.ime_scheduled ∧
      ((bit_5_a t cpu).2).ime_delay = cpu.ime_delay := by
  unfold bit_5_a
  repeat' split
  all_goals simp

theorem bit_6_b_F (t : MemoryTables D) (cpu : CPU D) (h : cpu.reg.F &&& 0x0F = 0) :
    ((bit_6_b t cpu).2).reg.F &&& 0x0F = 0 := by
  unfold bit_6_b
  repeat' split
  all_goals simp [h]

theorem bit_6_b_ime (t : MemoryTables D) (cpu : CPU D) :
    ((bit_6_b t cpu).2).ime = cpu.ime ∧ ((bit_6_b t cpu).2).ime_scheduled = cpu.ime_scheduled ∧
      ((bit_6_b t cpu).2).ime_delay = cpu.ime_delay := by
  unfold bit_6_b
  repeat' split
  all_goals simp

theorem bit_6_c_F (t : MemoryTables D) (cpu : CPU D) (h : cpu.reg.F &&& 0x0F = 0) :
    ((bit_6_c t cpu).2).reg.F &&& 0x0F = 0 := by
  unfold bit_6_c
  repeat' split
  all_goals simp [h]

theorem bit_6_c_ime (t : MemoryTables D) (cpu : CPU D) :
    ((bit_6_c t cpu).2).ime = cpu.ime ∧ ((bit_6_c t cpu).2).ime_scheduled = cpu.ime_scheduled ∧
      ((bit_6_c t cpu).2).ime_delay = cpu.ime_delay := by
  unfold bit_6_c
  repeat' split
  all_goals simp

theorem bit_6_d_F (t : MemoryTables D) (cpu : CPU D) (h : cpu.reg.F &&& 0x0F = 0) :
    ((bit_6_d t cpu).2).reg.F &&& 0x0F = 0 := by
  unfold bit_6_d
  repeat' split
  all_goals simp [h]

theorem bit_6_d_ime (t : MemoryTables D) (cpu : CPU D) :
    ((bit_6_d t cpu).2).ime = cpu.ime ∧ ((bit_6_d t cpu).2).ime_scheduled = cpu.ime_scheduled ∧
      ((bit_6_d t cpu).2).ime_delay = cpu.ime_delay := by
  unfold bit_6_d
  repeat' split
  all_goals simp

theorem bit_6_e_F (t : MemoryTables D) (cpu : CPU D) (h : cpu.reg.F &&& 0x0F = 0) :
    ((bit_6_e t cpu).2).reg.F &&& 0x0F = 0 := by
  unfold bit_6_e
  repeat' split
  all_goals simp [h]

theorem bit_6_e_ime (t : MemoryTables D) (cpu : CPU D) :
    ((bit_6_e t cpu).2).ime = cpu.ime ∧ ((bit_6_e t cpu).2).ime_scheduled = cpu.ime_scheduled ∧
      ((bit_6_e t cpu).2).ime_delay = cpu.ime_delay := by
  unfold bit_6_e
  repeat' split
  all_goals simp

theorem bit_6_h_F (t : MemoryTables D) (cpu : CPU D) (h : cpu.reg.F &&& 0x0F = 0) :
    ((bit_6_h t cpu).2).reg.F &&& 0x0F = 0 := by
  unfold bit_6_h
  repeat' split
  all_goals simp [h]

theorem bit_6_h_ime (t : MemoryTables D) (cpu : CPU D) :
    ((bit_6_h t cpu).2).ime = cpu.ime ∧ ((bit_6_h t cpu).2).ime_scheduled = cpu.ime_scheduled ∧
      ((bit_6_h t cpu).2).ime_delay = cpu.ime_delay := by
  unfold bit_6_h
  repeat' split
  all_goals simp

theorem bit_6_l_F (t : MemoryTables D) (cpu : CPU D) (h : cpu.reg.F &&& 0x0F = 0) :
    ((bit_6_l t cpu).2).reg.F &&& 0x0F = 0 := by
  unfold bit_6_l
  repeat' split
  all_goals simp [h]

theorem bit_6_l_ime (t : MemoryTables D) (cpu : CPU D) :
    ((bit_6_l t cpu).2).ime = cpu.ime ∧ ((bit_6_l t cpu).2).ime_scheduled = cpu.ime_scheduled ∧
      ((bit_6_l t cpu).2).ime_delay = cpu.ime_delay := by
  unfold bit_6_l
  repeat' split
  all_goals simp

theorem bit_6_hl_F (t : MemoryTables D) (cpu : CPU D) (h : cpu.reg.F &&& 0x0F = 0) :
    ((bit_6_hl t cpu).2).reg.F &&& 0x0F = 0 := by
  unfold bit_6_hl
  repeat' split
  all_goals simp [h]

theorem bit_6_hl_ime (t : MemoryTables D) (cpu : CPU D) :
    ((bit_6_hl t cpu).2).ime = cpu.ime ∧ ((bit_6_hl t cpu).2).ime_scheduled = cpu.ime_scheduled ∧
      ((bit_6_hl t cpu).2).ime_delay = cpu.ime_delay := by
  unfold bit_6_hl
  repeat' split
  all_goals simp

theorem bit_6_a_F (t : MemoryTables D) (cpu : CPU D) (h : cpu.reg.F &&& 0x0F = 0) :
    ((bit_6_a t cpu).2).reg.F &&& 0x0F = 0 := by
  unfold bit_6_a
  repeat' split
  all_goals simp [h]

theorem bit_6_a_ime (t : MemoryTables D) (cpu : CPU D) :
    ((bit_6_a t cpu).2).ime = cpu.ime ∧ ((bit_6_a t cpu).2).ime_scheduled = cpu.ime_scheduled ∧
      ((bit_6_a t cpu).2).ime_delay = cpu.ime_delay := by
  unfold bit_6_a
  repeat' split
  all_goals simp

theorem bit_7_b_F (t : MemoryTables D) (cpu : CPU D) (h : cpu.reg.F &&& 0x0F = 0) :
    ((bit_7_b t cpu).2).reg.F &&& 0x0F = 0 := by
  unfold bit_7_b
  repeat' split
  all_goals simp [h]

theorem bit_7_b_ime (t : MemoryTables D) (cpu : CPU D) :
    ((bit_7_b t cpu).2).ime = cpu.ime ∧ ((bit_7_b t cpu).2).ime_scheduled = cpu.ime_scheduled ∧
      ((bit_7_b t cpu).2).ime_delay = cpu.ime_delay := by
  unfold bit_7_b
  repeat' split
  all_goals simp

theorem bit_7_c_F (t : MemoryTables D) (cpu : CPU D) (h : cpu.reg.F &&& 0x0F = 0) :
    ((bit_7_c t cpu).2).reg.F &&& 0x0F = 0 := by
  unfold bit_7_c
  repeat' split
  all_goals simp [h]

theorem bit_7_c_ime (t : MemoryTables D) (cpu : CPU D) :
    ((bit_7_c t cpu).2).ime = cpu.ime ∧ ((bit_7_c t cpu).2).ime_scheduled = cpu.ime_scheduled ∧
      ((bit_7_c t cpu).2).ime_delay = cpu.ime_delay := by
  unfold bit_7_c
  repeat' split
  all_goals simp

theorem bit_7_d_F (t : MemoryTables D) (cpu : CPU D) (h : cpu.reg.F &&& 0x0F = 0) :
    ((bit_7_d t cpu).2).reg.F &&& 0x0F = 0 := by
  unfold bit_7_d
  repeat' split
  all_goals simp [h]

theorem bit_7_d_ime (t : MemoryTables D) (cpu : CPU D) :
    ((bit_7_d t cpu).2).ime = cpu.ime ∧ ((bit_7_d t cpu).2).ime_scheduled = cpu.ime_scheduled ∧
      ((bit_7_d t cpu).2).ime_delay = cpu.ime_delay := by
  unfold bit_7_d
  repeat' split
  all_goals simp

theorem bit_7_e_F (t : MemoryTables D) (cpu : CPU D) (h : cpu.reg.F &&& 0x0F = 0) :
    ((bit_7_e t cpu).2).reg.F &&& 0x0F = 0 := by
  unfold bit_7_e
  repeat' split
  all_goals simp [h]

theorem bit_7_e_ime (t : MemoryTables D) (cpu : CPU D) :
    ((bit_7_e t cpu).2).ime = cpu.ime ∧ ((bit_7_e t cpu).2).ime_scheduled = cpu.ime_scheduled ∧
      ((bit_7_e t cpu).2).ime_delay = cpu.ime_delay := by
  unfold bit_7_e
  repeat' split
  all_goals simp

theorem bit_7_h_F (t : MemoryTables D) (cpu : CPU D) (h : cpu.reg.F &&& 0x0F = 0) :
    ((bit_7_h t cpu).2).reg.F &&& 0x0F = 0 := by
  unfold bit_7_h
  repeat' split
  all_goals simp [h]

theorem bit_7_h_ime (t : MemoryTables D) (cpu : CPU D) :
    ((bit_7_h t cpu).2).ime = cpu.ime ∧ ((bit_7_h t cpu).2).ime_scheduled = cpu.ime_scheduled ∧
      ((bit_7_h t cpu).2).ime_delay = cpu.ime_delay := by
  unfold bit_7_h
  repeat' split
  all_goals simp

theorem bit_7_l_F (t : MemoryTables D) (cpu : CPU D) (h : cpu.reg.F &&& 0x0F = 0) :
    ((bit_7_l t cpu).2).reg.F &&& 0x0F = 0 := by
  unfold bit_7_l
  repeat' split
  all_goals simp [h]

theorem bit_7_l_ime (t : MemoryTables D) (cpu : CPU D) :
    ((bit_7_l t cpu).2).ime = cpu.ime ∧ ((bit_7_l t cpu).2).ime_scheduled = cpu.ime_scheduled ∧
      ((bit_7_l t cpu).2).ime_delay = cpu.ime_delay := by
  unfold bit_7_l
  repeat' split
  all_goals simp

theorem bit_7_hl_F (t : MemoryTables D) (cpu : CPU D) (h : cpu.reg.F &&& 0x0F = 0) :
    ((bit_7_hl t cpu).2).reg.F &&& 0x0F = 0 := by
  unfold bit_7_hl
  repeat' split
  all_goals simp [h]

theorem bit_7_hl_ime (t : MemoryTables D) (cpu : CPU D) :
    ((bit_7_hl t cpu).2).ime = cpu.ime ∧ ((bit_7_hl t cpu).2).ime_scheduled = cpu.ime_scheduled ∧
      ((bit_7_hl t cpu).2).ime_delay = cpu.ime_delay := by
  unfold bit_7_hl
  repeat' split
  all_goals simp

theorem bit_7_a_F (t : MemoryTables D) (cpu : CPU D) (h : cpu.reg.F &&& 0x0F = 0) :
    ((bit_7_a t cpu).2).reg.F &&& 0x0F = 0 := by
  unfold bit_7_a
  repeat' split
  all_goals simp [h]

theorem bit_7_a_ime (t : MemoryTables D) (cpu : CPU D) :
    ((bit_7_a t cpu).2).ime = cpu.ime ∧ ((bit_7_a t cpu).2).ime_scheduled = cpu.ime_scheduled ∧
      ((bit_7_a t cpu).2).ime_delay = cpu.ime_delay := by
  unfold bit_7_a
  repeat' split
  all_goals simp

theorem res_0_b_F (t : MemoryTables D) (cpu : CPU D) (h : cpu.reg.F &&& 0x0F = 0) :
    ((res_0_b t cpu).2).reg.F &&& 0x0F = 0 := by
  unfold res_0_b
  repeat' split
  all_goals simp [h]

theorem res_0_b_ime (t : MemoryTables D) (cpu : CPU D) :
    ((res_0_b t cpu).2).ime = cpu.ime ∧ ((res_0_b t cpu).2).ime_scheduled = cpu.ime_scheduled ∧
      ((res_0_b t cpu).2).ime_delay = cpu.ime_delay := by
  unfold res_0_b
  repeat' split
  all_goals simp

theorem res_0_c_F (t : MemoryTables D) (cpu : CPU D) (h : cpu.reg.F &&& 0x0F = 0) :
    ((res_0_c t cpu).2).reg.F &&& 0x0F = 0 := by
  unfold res_0_c
  repeat' split
  all_goals simp [h]

theorem res_0_c_ime (t : MemoryTables D) (cpu : CPU D) :
    ((res_0_c t cpu).2).ime = cpu.ime ∧ ((res_0_c t cpu).2).ime_scheduled = cpu.ime_scheduled ∧
      ((res_0_c t cpu).2).ime_delay = cpu.ime_delay := by
  unfold res_0_c
  repeat' split
  all_goals simp

theorem res_0_d_F (t : MemoryTables D) (cpu : CPU D) (h : cpu.reg.F &&& 0x0F = 0) :
    ((res_0_d t cpu).2).reg.F &&& 0x0F = 0 := by
  unfold res_0_d
  repeat' split
  all_goals simp [h]

theorem res_0_d_ime (t : MemoryTables D) (cpu : CPU D) :
    ((res_0_d t cpu).2).ime = cpu.ime ∧ ((res_0_d t cpu).2).ime_scheduled = cpu.ime_scheduled ∧
      ((res_0_d t cpu).2).ime_delay = cpu.ime_delay := by
  unfold res_0_d
  repeat' split
  all_goals simp

theorem res_0_e_F (t : MemoryTables D) (cpu : CPU D) (h : cpu.reg.F &&& 0x0F = 0) :
    ((res_0_e t cpu).2).reg.F &&& 0x0F = 0 := by
  unfold res_0_e
  repeat' split
  all_goals simp [h]

theorem res_0_e_ime (t : MemoryTables D) (cpu : CPU D) :
    ((res_0_e t cpu).2).ime = cpu.ime ∧ ((res_0_e t cpu).2).ime_scheduled = cpu.ime_scheduled ∧
      ((res_0_e t cpu).2).ime_delay = cpu.ime_delay := by
  unfold res_0_e
  repeat' split
  all_goals simp

theorem res_0_h_F (t : MemoryTables D) (cpu : CPU D) (h : cpu.reg.F &&& 0x0F = 0) :
    ((res_0_h t cpu).2).reg.F &&& 0x0F = 0 := by
  unfold res_0_h
  repeat' split
  all_goals simp [h]

theorem res_0_h_ime (t : MemoryTables D) (cpu : CPU D) :
    ((res_0_h t cpu).2).ime = cpu.ime ∧ ((res_0_h t cpu).2).ime_scheduled = cpu.ime_scheduled ∧
      ((res_0_h t cpu).2).ime_delay = cpu.ime_delay := by
  unfold res_0_h
  repeat' split
  all_goals simp

theorem res_0_l_F (t : MemoryTables D) (cpu : CPU D) (h : cpu.reg.F &&& 0x0F = 0) :
    ((res_0_l t cpu).2).reg.F &&& 0x0F = 0 := by
  unfold res_0_l
  repeat' split
  all_goals simp [h]

theorem res_0_l_ime (t : MemoryTables D) (cpu : CPU D) :
    ((res_0_l t cpu).2).ime = cpu.ime ∧ ((res_0_l t cpu).2).ime_scheduled = cpu.ime_scheduled ∧
      ((res_0_l t cpu).2).ime_delay = cpu.ime_delay := by
  unfold res_0_l
  repeat' split
  all_goals simp

theorem res_0_hl_F (t : MemoryTables D) (cpu : CPU D) (h : cpu.reg.F &&& 0x0F = 0) :
    ((res_0_hl t cpu).2).reg.F &&& 0x0F = 0 := by
  unfold res_0_hl
  repeat' split
  all_goals simp [h]

theorem res_0_hl_ime (t : MemoryTables D) (cpu : CPU D) :
    ((res_0_hl t cpu).2).ime = cpu.ime ∧ ((res_0_hl t cpu).2).ime_scheduled = cpu.ime_scheduled ∧
      ((res_0_hl t cpu).2).ime_delay = cpu.ime_delay := by
  unfold res_0_hl
  repeat' split
  all_goals simp

theorem res_0_a_F (t : MemoryTables D) (cpu : CPU D) (h : cpu.reg.F &&& 0x0F = 0) :
    ((res_0_a t cpu).2).reg.F &&& 0x0F = 0 := by
  unfold res_0_a
  repeat' split
  all_goals simp [h]

theorem res_0_a_ime (t : MemoryTables D) (cpu : CPU D) :
    ((res_0_a t cpu).2).ime = cpu.ime ∧ ((res_0_a t cpu).2).ime_scheduled = cpu.ime_scheduled ∧
      ((res_0_a t cpu).2).ime_delay = cpu.ime_delay := by
  unfold res_0_a
  repeat' split
  all_goals simp

theorem res_1_b_F (t : MemoryTables D) (cpu : CPU D) (h : cpu.reg.F &&& 0x0F = 0) :
    ((res_1_b t cpu).2).reg.F &&& 0x0F = 0 := by
  unfold res_1_b
  repeat' split
  all_goals simp [h]

theorem res_1_b_ime (t : MemoryTables D) (cpu : CPU D) :
    ((res_1_b t cpu).2).ime = cpu.ime ∧ ((res_1_b t cpu).2).ime_scheduled = cpu.ime_scheduled ∧
      ((res_1_b t cpu).2).ime_delay = cpu.ime_delay := by
  unfold res_1_b
  repeat' split
  all_goals simp

theorem res_1_c_F (t : MemoryTables D) (cpu : CPU D) (h : cpu.reg.F &&& 0x0F = 0) :
    ((res_1_c t cpu).2).reg.F &&& 0x0F = 0 := by
  unfold res_1_c
  repeat' split
  all_goals simp [h]

theorem res_1_c_ime (t : MemoryTables D) (cpu : CPU D) :
    ((res_1_c t cpu).2).ime = cpu.ime ∧ ((res_1_c t cpu).2).ime_scheduled = cpu.ime_scheduled ∧
      ((res_1_c t cpu).2).ime_delay = cpu.ime_delay := by
  unfold res_1_c
  repeat' split
  all_goals simp

theorem res_1_d_F (t : MemoryTables D) (cpu : CPU D) (h : cpu.reg.F &&& 0x0F = 0) :
    ((res_1_d t cpu).2).reg.F &&& 0x0F = 0 := by
  unfold res_1_d
  repeat' split
  all_goals simp [h]

theorem res_1_d_ime (t : MemoryTables D) (cpu : CPU D) :
    ((res_1_d t cpu).2).ime = cpu.ime ∧ ((res_1_d t cpu).2).ime_scheduled = cpu.ime_scheduled ∧
      ((res_1_d t cpu).2).ime_delay = cpu.ime_delay := by
  unfold res_1_d
  repeat' split
  all_goals simp

theorem res_1_e_F (t : MemoryTables D) (cpu : CPU D) (h : cpu.reg.F &&& 0x0F = 0) :
    ((res_1_e t cpu).2).reg.F &&& 0x0F = 0 := by
  unfold res_1_e
  repeat' split
  all_goals simp [h]

theorem res_1_e_ime (t : MemoryTables D) (cpu : CPU D) :
    ((res_1_e t cpu).2).ime = cpu.ime ∧ ((res_1_e t cpu).2).ime_scheduled = cpu.ime_scheduled ∧
      ((res_1_e t cpu).2).ime_delay = cpu.ime_delay := by
  unfold res_1_e
  repeat' split
  all_goals simp

theorem res_1_h_F (t : MemoryTables D) (cpu : CPU D) (h : cpu.reg.F &&& 0x0F = 0) :
    ((res_1_h t cpu).2).reg.F &&& 0x0F = 0 := by
  unfold res_1_h
  repeat' split
  all_goals simp [h]

theorem res_1_h_ime (t : MemoryTables D) (cpu : CPU D) :
    ((res_1_h t cpu).2).ime = cpu.ime ∧ ((res_1_h t cpu).2).ime_scheduled = cpu.ime_scheduled ∧
      ((res_1_h t cpu).2).ime_delay = cpu.ime_delay := by
  unfold res_1_h
  repeat' split
  all_goals simp

theorem res_1_l_F (t : MemoryTables D) (cpu : CPU D) (h : cpu.reg.F &&& 0x0F = 0) :
    ((res_1_l t cpu).2).reg.F &&& 0x0F = 0 := by
  unfold res_1_l
  repeat' split
  all_goals simp [h]

theorem res_1_l_ime (t : MemoryTables D) (cpu : CPU D) :
    ((res_1_l t cpu).2).ime = cpu.ime ∧ ((res_1_l t cpu).2).ime_scheduled = cpu.ime_scheduled ∧
      ((res_1_l t cpu).2).ime_delay = cpu.ime_delay := by
  unfold res_1_l
  repeat' split
  all_goals simp

theorem res_1_hl_F (t : MemoryTables D) (cpu : CPU D) (h : cpu.reg.F &&& 0x0F = 0) :
    ((res_1_hl t cpu).2).reg.F &&& 0x0F = 0 := by
  unfold res_1_hl
  repeat' split
  all_goals simp [h]

theorem res_1_hl_ime (t : MemoryTables D) (cpu : CPU D) :
    ((res_1_hl t cpu).2).ime = cpu.ime ∧ ((res_1_hl t cpu).2).ime_scheduled = cpu.ime_scheduled ∧
      ((res_1_hl t cpu).2).ime_delay = cpu.ime_delay := by
  unfold res_1_hl
  repeat' split
  all_goals simp

theorem res_1_a_F (t : MemoryTables D) (cpu : CPU D) (h : cpu.reg.F &&& 0x0F = 0) :
    ((res_1_a t cpu).2).reg.F &&& 0x0F = 0 := by
  unfold res_1_a
  repeat' split
  all_goals simp [h]

theorem res_1_a_ime (t : MemoryTables D) (cpu : CPU D) :
    ((res_1_a t cpu).2).ime = cpu.ime ∧ ((res_1_a t cpu).2).ime_scheduled = cpu.ime_scheduled ∧
      ((res_1_a t cpu).2).ime_delay = cpu.ime_delay := by
  unfold res_1_a
  repeat' split
  all_goals simp

theorem res_2_b_F (t : MemoryTables D) (cpu : CPU D) (h : cpu.reg.F &&& 0x0F = 0) :
    ((res_2_b t cpu).2).reg.F &&& 0x0F = 0 := by
  unfold res_2_b
  repeat' split
  all_goals simp [h]

theorem res_2_b_ime (t : MemoryTables D) (cpu : CPU D) :
    ((res_2_b t cpu).2).ime = cpu.ime ∧ ((res_2_b t cpu).2).ime_scheduled = cpu.ime_scheduled ∧
      ((res_2_b t cpu).2).ime_delay = cpu.ime_delay := by
  unfold res_2_b
  repeat' split
  all_goals simp

theorem res_2_c_F (t : MemoryTables D) (cpu : CPU D) (h : cpu.reg.F &&& 0x0F = 0) :
    ((res_2_c t cpu).2).reg.F &&& 0x0F = 0 := by
  unfold res_2_c
  repeat' split
  all_goals simp [h]

theorem res_2_c_ime (t : MemoryTables D) (cpu : CPU D) :
    ((res_2_c t cpu).2).ime = cpu.ime ∧ ((res_2_c t cpu).2).ime_scheduled = cpu.ime_scheduled ∧
      ((res_2_c t cpu).2).ime_delay = cpu.ime_delay := by
  unfold res_2_c
  repeat' split
  all_goals simp

theorem res_2_d_F (t : MemoryTables D) (cpu : CPU D) (h : cpu.reg.F &&& 0x0F = 0) :
    ((res_2_d t cpu).2).reg.F &&& 0x0F = 0 := by
  unfold res_2_d
  repeat' split
  all_goals simp [h]

theorem res_2_d_ime (t : MemoryTables D) (cpu : CPU D) :
    ((res_2_d t cpu).2).ime = cpu.ime ∧ ((res_2_d t cpu).2).ime_scheduled = cpu.ime_scheduled ∧
      ((res_2_d t cpu).2).ime_delay = cpu.ime_delay := by
  unfold res_2_d
  repeat' split
  all_goals simp

theorem res_2_e_F (t : MemoryTables D) (cpu : CPU D) (h : cpu.reg.F &&& 0x0F = 0) :
    ((res_2_e t cpu).2).reg.F &&& 0x0F = 0 := by
  unfold res_2_e
  repeat' split
  all_goals simp [h]

theorem res_2_e_ime (t : MemoryTables D) (cpu : CPU D) :
    ((res_2_e t cpu).2).ime = cpu.ime ∧ ((res_2_e t cpu).2).ime_scheduled = cpu.ime_scheduled ∧
      ((res_2_e t cpu).2).ime_delay = cpu.ime_delay := by
  unfold res_2_e
  repeat' split
  all_goals simp

theorem res_2_h_F (t : MemoryTables D) (cpu : CPU D) (h : cpu.reg.F &&& 0x0F = 0) :
    ((res_2_h t cpu).2).reg.F &&& 0x0F = 0 := by
  unfold res_2_h
  repeat' split
  all_goals simp [h]

theorem res_2_h_ime (t : MemoryTables D) (cpu : CPU D) :
    ((res_2_h t cpu).2).ime = cpu.ime ∧ ((res_2_h t cpu).2).ime_scheduled = cpu.ime_scheduled ∧
      ((res_2_h t cpu).2).ime_delay = cpu.ime_delay := by
  unfold res_2_h
  repeat' split
  all_goals simp

theorem res_2_l_F (t : MemoryTables D) (cpu : CPU D) (h : cpu.reg.F &&& 0x0F = 0) :
    ((res_2_l t cpu).2).reg.F &&& 0x0F = 0 := by
  unfold res_2_l
  repeat' split
  all_goals simp [h]

theorem res_2_l_ime (t : MemoryTables D) (cpu : CPU D) :
    ((res_2_l t cpu).2).ime = cpu.ime ∧ ((res_2_l t cpu).2).ime_scheduled = cpu.ime_scheduled ∧
      ((res_2_l t cpu).2).ime_delay = cpu.ime_delay := by
  unfold res_2_l
  repeat' split
  all_goals simp

theorem res_2_hl_F (t : MemoryTables D) (cpu : CPU D) (h : cpu.reg.F &&& 0x0F = 0) :
    ((res_2_hl t cpu).2).reg.F &&& 0x0F = 0 := by
  unfold res_2_hl
  repeat' split
  all_goals simp [h]

theorem res_2_hl_ime (t : MemoryTables D) (cpu : CPU D) :
    ((res_2_hl t cpu).2).ime = cpu.ime ∧ ((res_2_hl t cpu).2).ime_scheduled = cpu.ime_scheduled ∧
      ((res_2_hl t cpu).2).ime_delay = cpu.ime_delay := by
  unfold res_2_hl
  repeat' split
  all_goals simp

theorem res_2_a_F (t : MemoryTables D) (cpu : CPU D) (h : cpu.reg.F &&& 0x0F = 0) :
    ((res_2_a t cpu).2).reg.F &&& 0x0F = 0 := by
  unfold res_2_a
  repeat' split
  all_goals simp [h]

theorem res_2_a_ime (t : MemoryTables D) (cpu : CPU D) :
    ((res_2_a t cpu).2).ime = cpu.ime ∧ ((res_2_a t cpu).2).ime_scheduled = cpu.ime_scheduled ∧
      ((res_2_a t cpu).2).ime_delay = cpu.ime_delay := by
  unfold res_2_a
  repeat' split
  all_goals simp

theorem res_3_b_F (t : MemoryTables D) (cpu : CPU D) (h : cpu.reg.F &&& 0x0F = 0) :
    ((res_3_b t cpu).2).reg.F &&& 0x0F = 0 := by
  unfold res_3_b
  repeat' split
  all_goals simp [h]

theorem res_3_b_ime (t : MemoryTables D) (cpu : CPU D) :
    ((res_3_b t cpu).2).ime = cpu.ime ∧ ((res_3_b t cpu).2).ime_scheduled = cpu.ime_scheduled ∧
      ((res_3_b t cpu).2).ime_delay = cpu.ime_delay := by
  unfold res_3_b
  repeat' split
  all_goals simp

theorem res_3_c_F (t : MemoryTables D) (cpu : CPU D) (h : cpu.reg.F &&& 0x0F = 0) :
    ((res_3_c t cpu).2).reg.F &&& 0x0F = 0 := by
  unfold res_3_c
  repeat' split
  all_goals simp [h]

theorem res_3_c_ime (t : MemoryTables D) (cpu : CPU D) :
    ((res_3_c t cpu).2).ime = cpu.ime ∧ ((res_3_c t cpu).2).ime_scheduled = cpu.ime_scheduled ∧
      ((res_3_c t cpu).2).ime_delay = cpu.ime_delay := by
  unfold res_3_c
  repeat' split
  all_goals simp

theorem res_3_d_F (t : MemoryTables D) (cpu : CPU D) (h : cpu.reg.F &&& 0x0F = 0) :
    ((res_3_d t cpu).2).reg.F &&& 0x0F = 0 := by
  unfold res_3_d
  repeat' split
  all_goals simp [h]

theorem res_3_d_ime (t : MemoryTables D) (cpu : CPU D) :
    ((res_3_d t cpu).2).ime = cpu.ime ∧ ((res_3_d t cpu).2).ime_scheduled = cpu.ime_scheduled ∧
      ((res_3_d t cpu).2).ime_delay = cpu.ime_delay := by
  unfold res_3_d
  repeat' split
  all_goals simp

theorem res_3_e_F (t : MemoryTables D) (cpu : CPU D) (h : cpu.reg.F &&& 0x0F = 0) :
    ((res_3_e t cpu).2).reg.F &&& 0x0F = 0 := by
  unfold res_3_e
  repeat' split
  all_goals simp [h]

theorem res_3_e_ime (t : MemoryTables D) (cpu : CPU D) :
    ((res_3_e t cpu).2).ime = cpu.ime ∧ ((res_3_e t cpu).2).ime_scheduled = cpu.ime_scheduled ∧
      ((res_3_e t cpu).2).ime_delay = cpu.ime_delay := by
  unfold res_3_e
  repeat' split
  all_goals simp

theorem res_3_h_F (t : MemoryTables D) (cpu : CPU D) (h : cpu.reg.F &&& 0x0F = 0) :
    ((res_3_h t cpu).2).reg.F &&& 0x0F = 0 := by
  unfold res_3_h
  repeat' split
  all_goals simp [h]

theorem res_3_h_ime (t : MemoryTables D) (cpu : CPU D) :
    ((res_3_h t cpu).2).ime = cpu.ime ∧ ((res_3_h t cpu).2).ime_scheduled = cpu.ime_scheduled ∧
      ((res_3_h t cpu).2).ime_delay = cpu.ime_delay := by
  unfold res_3_h
  repeat' split
  all_goals simp

theorem res_3_l_F (t : MemoryTables D) (cpu : CPU D) (h : cpu.reg.F &&& 0x0F = 0) :
    ((res_3_l t cpu).2).reg.F &&& 0x0F = 0 := by
  unfold res_3_l
  repeat' split
  all_goals simp [h]

theorem res_3_l_ime (t : MemoryTables D) (cpu : CPU D) :
    ((res_3_l t cpu).2).ime = cpu.ime ∧ ((res_3_l t cpu).2).ime_scheduled = cpu.ime_scheduled ∧
      ((res_3_l t cpu).2).ime_delay = cpu.ime_delay := by
  unfold res_3_l
  repeat' split
  all_goals simp

theorem res_3_hl_F (t : MemoryTables D) (cpu : CPU D) (h : cpu.reg.F &&& 0x0F = 0) :
    ((res_3_hl t cpu).2).reg.F &&& 0x0F = 0 := by
  unfold res_3_hl
  repeat' split
  all_goals simp [h]

theorem res_3_hl_ime (t : MemoryTables D) (cpu : CPU D) :
    ((res_3_hl t cpu).2).ime = cpu.ime ∧ ((res_3_hl t cpu).2).ime_scheduled = cpu.ime_scheduled ∧
      ((res_3_hl t cpu).2).ime_delay = cpu.ime_delay := by
  unfold res_3_hl
  repeat' split
  all_goals simp

theorem res_3_a_F (t : MemoryTables D) (cpu : CPU D) (h : cpu.reg.F &&& 0x0F = 0) :
    ((res_3_a t cpu).2).reg.F &&& 0x0F = 0 := by
  unfold res_3_a
  repeat' split
  all_goals simp [h]

theorem res_3_a_ime (t : MemoryTables D) (cpu : CPU D) :
    ((res_3_a t cpu).2).ime = cpu.ime ∧ ((res_3_a t cpu).2).ime_scheduled = cpu.ime_scheduled ∧
      ((res_3_a t cpu).2).ime_delay = cpu.ime_delay := by
  unfold res_3_a
  repeat' split
  all_goals simp

theorem res_4_b_F (t : MemoryTables D) (cpu : CPU D) (h : cpu.reg.F &&& 0x0F = 0) :
    ((res_4_b t cpu).2).reg.F &&& 0x0F = 0 := by
  unfold res_4_b
  repeat' split
  all_goals simp [h]

theorem res_4_b_ime (t : MemoryTables D) (cpu : CPU D) :
    ((res_4_b t cpu).2).ime = cpu.ime ∧ ((res_4_b t cpu).2).ime_scheduled = cpu.ime_scheduled ∧
      ((res_4_b t cpu).2).ime_delay = cpu.ime_delay := by
  unfold res_4_b
  repeat' split
  all_goals simp

theorem res_4_c_F (t : MemoryTables D) (cpu : CPU D) (h : cpu.reg.F &&& 0x0F = 0) :
    ((res_4_c t cpu).2).reg.F &&& 0x0F = 0 := by
  unfold res_4_c
  repeat' split
  all_goals simp [h]

theorem res_4_c_ime (t : MemoryTables D) (cpu : CPU D) :
    ((res_4_c t cpu).2).ime = cpu.ime ∧ ((res_4_c t cpu).2).ime_scheduled = cpu.ime_scheduled ∧
      ((res_4_c t cpu).2).ime_delay = cpu.ime_delay := by
  unfold res_4_c
  repeat' split
  all_goals simp

theorem res_4_d_F (t : MemoryTables D) (cpu : CPU D) (h : cpu.reg.F &&& 0x0F = 0) :
    ((res_4_d t cpu).2).reg.F &&& 0x0F = 0 := by
  unfold res_4_d
  repeat' split
  all_goals simp [h]

theorem res_4_d_ime (t : MemoryTables D) (cpu : CPU D) :
    ((res_4_d t cpu).2).ime = cpu.ime ∧ ((res_4_d t cpu).2).ime_scheduled = cpu.ime_scheduled ∧
      ((res_4_d t cpu).2).ime_delay = cpu.ime_delay := by
  unfold res_4_d
  repeat' split
  all_goals simp

theorem res_4_e_F (t : MemoryTables D) (cpu : CPU D) (h : cpu.reg.F &&& 0x0F = 0) :
    ((res_4_e t cpu).2).reg.F &&& 0x0F = 0 := by
  unfold res_4_e
  repeat' split
  all_goals simp [h]

theorem res_4_e_ime (t : MemoryTables D) (cpu : CPU D) :
    ((res_4_e t cpu).2).ime = cpu.ime ∧ ((res_4_e t cpu).2).ime_scheduled = cpu.ime_scheduled ∧
      ((res_4_e t cpu).2).ime_delay = cpu.ime_delay := by
  unfold res_4_e
  repeat' split
  all_goals simp

theorem res_4_h_F (t : MemoryTables D) (cpu : CPU D) (h : cpu.reg.F &&& 0x0F = 0) :
    ((res_4_h t cpu).2).reg.F &&& 0x0F = 0 := by
  unfold res_4_h
  repeat' split
  all_goals simp [h]

theorem res_4_h_ime (t : MemoryTables D) (cpu : CPU D) :
    ((res_4_h t cpu).2).ime = cpu.ime ∧ ((res_4_h t cpu).2).ime_scheduled = cpu.ime_scheduled ∧
      ((res_4_h t cpu).2).ime_delay = cpu.ime_delay := by
  unfold res_4_h
  repeat' split
  all_goals simp

theorem res_4_l_F (t : MemoryTables D) (cpu : CPU D) (h : cpu.reg.F &&& 0x0F = 0) :
    ((res_4_l t cpu).2).reg.F &&& 0x0F = 0 := by
  unfold res_4_l
  repeat' split
  all_goals simp [h]

theorem res_4_l_ime (t : MemoryTables D) (cpu : CPU D) :
    ((res_4_l t cpu).2).ime = cpu.ime ∧ ((res_4_l t cpu).2).ime_scheduled = cpu.ime_scheduled ∧
      ((res_4_l t cpu).2).ime_delay = cpu.ime_delay := by
  unfold res_4_l
  repeat' split
  all_goals simp

theorem res_4_hl_F (t : MemoryTables D) (cpu : CPU D) (h : cpu.reg.F &&& 0x0F = 0) :
    ((res_4_hl t cpu).2).reg.F &&& 0x0F = 0 := by
  unfold res_4_hl
  repeat' split
  all_goals simp [h]

theorem res_4_hl_ime (t : MemoryTables D) (cpu : CPU D) :
    ((res_4_hl t cpu).2).ime = cpu.ime ∧ ((res_4_hl t cpu).2).ime_scheduled = cpu.ime_scheduled ∧
      ((res_4_hl t cpu).2).ime_delay = cpu.ime_delay := by
  unfold res_4_hl
  repeat' split
  all_goals simp

theorem res_4_a_F (t : MemoryTables D) (cpu : CPU D) (h : cpu.reg.F &&& 0x0F = 0) :
    ((res_4_a t cpu).2).reg.F &&& 0x0F = 0 := by
  unfold res_4_a
  repeat' split
  all_goals simp [h]

theorem res_4_a_ime (t : MemoryTables D) (cpu : CPU D) :
    ((res_4_a t cpu).2).ime = cpu.ime ∧ ((res_4_a t cpu).2).ime_scheduled = cpu.ime_scheduled ∧
      ((res_4_a t cpu).2).ime_delay = cpu.ime_delay := by
  unfold res_4_a
  repeat' split
  all_goals simp

theorem res_5_b_F (t : MemoryTables D) (cpu : CPU D) (h : cpu.reg.F &&& 0x0F = 0) :
    ((res_5_b t cpu).2).reg.F &&& 0x0F = 0 := by
  unfold res_5_b
  repeat' split
  all_goals simp [h]

theorem res_5_b_ime (t : MemoryTables D) (cpu : CPU D) :
    ((res_5_b t cpu).2).ime = cpu.ime ∧ ((res_5_b t cpu).2).ime_scheduled = cpu.ime_scheduled ∧
      ((res_5_b t cpu).2).ime_delay = cpu.ime_delay := by
  unfold res_5_b
  repeat' split
  all_goals simp

theorem res_5_c_F (t : MemoryTables D) (cpu : CPU D) (h : cpu.reg.F &&& 0x0F = 0) :
    ((res_5_c t cpu).2).reg.F &&& 0x0F = 0 := by
  unfold res_5_c
  repeat' split
  all_goals simp [h]

theorem res_5_c_ime (t : MemoryTables D) (cpu : CPU D) :
    ((res_5_c t cpu).2).ime = cpu.ime ∧ ((res_5_c t cpu).2).ime_scheduled = cpu.ime_scheduled ∧
      ((res_5_c t cpu).2).ime_delay = cpu.ime_delay := by
  unfold res_5_c
  repeat' split
  all_goals simp

theorem res_5_d_F (t : MemoryTables D) (cpu : CPU D) (h : cpu.reg.F &&& 0x0F = 0) :
    ((res_5_d t cpu).2).reg.F &&& 0x0F = 0 := by
  unfold res_5_d
  repeat' split
  all_goals simp [h]

theorem res_5_d_ime (t : MemoryTables D) (cpu : CPU D) :
    ((res_5_d t cpu).2).ime = cpu.ime ∧ ((res_5_d t cpu).2).ime_scheduled = cpu.ime_scheduled ∧
      ((res_5_d t cpu).2).ime_delay = cpu.ime_delay := by
  unfold res_5_d
  repeat' split
  all_goals simp

theorem res_5_e_F (t : MemoryTables D) (cpu : CPU D) (h : cpu.reg.F &&& 0x0F = 0) :
    ((res_5_e t cpu).2).reg.F &&& 0x0F = 0 := by
  unfold res_5_e
  repeat' split
  all_goals simp [h]

theorem res_5_e_ime (t : MemoryTables D) (cpu : CPU D) :
    ((res_5_e t cpu).2).ime = cpu.ime ∧ ((res_5_e t cpu).2).ime_scheduled = cpu.ime_scheduled ∧
      ((res_5_e t cpu).2).ime_delay = cpu.ime_delay := by
  unfold res_5_e
  repeat' split
  all_goals simp

theorem res_5_h_F (t : MemoryTables D) (cpu : CPU D) (h : cpu.reg.F &&& 0x0F = 0) :
    ((res_5_h t cpu).2).reg.F &&& 0x0F = 0 := by
  unfold res_5_h
  repeat' split
  all_goals simp [h]

theorem res_5_h_ime (t : MemoryTables D) (cpu : CPU D) :
    ((res_5_h t cpu).2).ime = cpu.ime ∧ ((res_5_h t cpu).2).ime_scheduled = cpu.ime_scheduled ∧
      ((res_5_h t cpu).2).ime_delay = cpu.ime_delay := by
  unfold res_5_h
  repeat' split
  all_goals simp

theorem res_5_l_F (t : MemoryTables D) (cpu : CPU D) (h : cpu.reg.F &&& 0x0F = 0) :
    ((res_5_l t cpu).2).reg.F &&& 0x0F = 0 := by
  unfold res_5_l
  repeat' split
  all_goals simp [h]

theorem res_5_l_ime (t : MemoryTables D) (cpu : CPU D) :
    ((res_5_l t cpu).2).ime = cpu.ime ∧ ((res_5_l t cpu).2).ime_scheduled = cpu.ime_scheduled ∧
      ((res_5_l t cpu).2).ime_delay = cpu.ime_delay := by
  unfold res_5_l
  repeat' split
  all_goals simp

theorem res_5_hl_F (t : MemoryTables D) (cpu : CPU D) (h : cpu.reg.F &&& 0x0F = 0) :
    ((res_5_hl t cpu).2).reg.F &&& 0x0F = 0 := by
  unfold res_5_hl
  repeat' split
  all_goals simp [h]

theorem res_5_hl_ime (t : MemoryTables D) (cpu : CPU D) :
    ((res_5_hl t cpu).2).ime = cpu.ime ∧ ((res_5_hl t cpu).2).ime_scheduled = cpu.ime_scheduled ∧
      ((res_5_hl t cpu).2).ime_delay = cpu.ime_delay := by
  unfold res_5_hl
  repeat' split
  all_goals simp

theorem res_5_a_F (t : MemoryTables D) (cpu : CPU D) (h : cpu.reg.F &&& 0x0F = 0) :
    ((res_5_a t cpu).2).reg.F &&& 0x0F = 0 := by
  unfold res_5_a
  repeat' split
  all_goals simp [h]

theorem res_5_a_ime (t : MemoryTables D) (cpu : CPU D) :
    ((res_5_a t cpu).2).ime = cpu.ime ∧ ((res_5_a t cpu).2).ime_scheduled = cpu.ime_scheduled ∧
      ((res_5_a t cpu).2).ime_delay = cpu.ime_delay := by
  unfold res_5_a
  repeat' split
  all_goals simp

theorem res_6_b_F (t : MemoryTables D) (cpu : CPU D) (h : cpu.reg.F &&& 0x0F = 0) :
    ((res_6_b t cpu).2).reg.F &&& 0x0F = 0 := by
  unfold res_6_b
  repeat' split
  all_goals simp [h]

theorem res_6_b_ime (t : MemoryTables D) (cpu : CPU D) :
    ((res_6_b t cpu).2).ime = cpu.ime ∧ ((res_6_b t cpu).2).ime_scheduled = cpu.ime_scheduled ∧
      ((res_6_b t cpu).2).ime_delay = cpu.ime_delay := by
  unfold res_6_b
  repeat' split
  all_goals simp

theorem res_6_c_F (t : MemoryTables D) (cpu : CPU D) (h : cpu.reg.F &&& 0x0F = 0) :
    ((res_6_c t cpu).2).reg.F &&& 0x0F = 0 := by
  unfold res_6_c
  repeat' split
  all_goals simp [h]

theorem res_6_c_ime (t : MemoryTables D) (cpu : CPU D) :
    ((res_6_c t cpu).2).ime = cpu.ime ∧ ((res_6_c t cpu).2).ime_scheduled = cpu.ime_scheduled ∧
      ((res_6_c t cpu).2).ime_delay = cpu.ime_delay := by
  unfold res_6_c
  repeat' split
  all_goals simp

theorem res_6_d_F (t : MemoryTables D) (cpu : CPU D) (h : cpu.reg.F &&& 0x0F = 0) :
    ((res_6_d t cpu).2).reg.F &&& 0x0F = 0 := by
  unfold res_6_d
  repeat' split
  all_goals simp [h]

theorem res_6_d_ime (t : MemoryTables D) (cpu : CPU D) :
    ((res_6_d t cpu).2).ime = cpu.ime ∧ ((res_6_d t cpu).2).ime_scheduled = cpu.ime_scheduled ∧
      ((res_6_d t cpu).2).ime_delay = cpu.ime_delay := by
  unfold res_6_d
  repeat' split
  all_goals simp

theorem res_6_e_F (t : MemoryTables D) (cpu : CPU D) (h : cpu.reg.F &&& 0x0F = 0) :
    ((res_6_e t cpu).2).reg.F &&& 0x0F = 0 := by
  unfold res_6_e
  repeat' split
  all_goals simp [h]

theorem res_6_e_ime (t : MemoryTables D) (cpu : CPU D) :
    ((res_6_e t cpu).2).ime = cpu.ime ∧ ((res_6_e t cpu).2).ime_scheduled = cpu.ime_scheduled ∧
      ((res_6_e t cpu).2).ime_delay = cpu.ime_delay := by
  unfold res_6_e
  repeat' split
  all_goals simp

theorem res_6_h_F (t : MemoryTables D) (cpu : CPU D) (h : cpu.reg.F &&& 0x0F = 0) :
    ((res_6_h t cpu).2).reg.F &&& 0x0F = 0 := by
  unfold res_6_h
  repeat' split
  all_goals simp [h]

theorem res_6_h_ime (t : MemoryTables D) (cpu : CPU D) :
    ((res_6_h t cpu).2).ime = cpu.ime ∧ ((res_6_h t cpu).2).ime_scheduled = cpu.ime_scheduled ∧
      ((res_6_h t cpu).2).ime_delay = cpu.ime_delay := by
  unfold res_6_h
  repeat' split
  all_goals simp

theorem res_6_l_F (t : MemoryTables D) (cpu : CPU D) (h : cpu.reg.F &&& 0x0F = 0) :
    ((res_6_l t cpu).2).reg.F &&& 0x0F = 0 := by
  unfold res_6_l
  repeat' split
  all_goals simp [h]

theorem res_6_l_ime (t : MemoryTables D) (cpu : CPU D) :
    ((res_6_l t cpu).2).ime = cpu.ime ∧ ((res_6_l t cpu).2).ime_scheduled = cpu.ime_scheduled ∧
      ((res_6_l t cpu).2).ime_delay = cpu.ime_delay := by
  unfold res_6_l
  repeat' split
  all_goals simp

theorem res_6_hl_F (t : MemoryTables D) (cpu : CPU D) (h : cpu.reg.F &&& 0x0F = 0) :
    ((res_6_hl t cpu).2).reg.F &&& 0x0F = 0 := by
  unfold res_6_hl
  repeat' split
  all_goals simp [h]

theorem res_6_hl_ime (t : MemoryTables D) (cpu : CPU D) :
    ((res_6_hl t cpu).2).ime = cpu.ime ∧ ((res_6_hl t cpu).2).ime_scheduled = cpu.ime_scheduled ∧
      ((res_6_hl t cpu).2).ime_delay = cpu.ime_delay := by
  unfold res_6_hl
  repeat' split
  all_goals simp

theorem res_6_a_F (t : MemoryTables D) (cpu : CPU D) (h : cpu.reg.F &&& 0x0F = 0) :
    ((res_6_a t cpu).2).reg.F &&& 0x0F = 0 := by
  unfold res_6_a
  repeat' split
  all_goals simp [h]

theorem res_6_a_ime (t : MemoryTables D) (cpu : CPU D) :
    ((res_6_a t cpu).2).ime = cpu.ime ∧ ((res_6_a t cpu).2).ime_scheduled = cpu.ime_scheduled ∧
      ((res_6_a t cpu).2).ime_delay = cpu.ime_delay := by
  unfold res_6_a
  repeat' split
  all_goals simp

theorem res_7_b_F (t : MemoryTables D) (cpu : CPU D) (h : cpu.reg.F &&& 0x0F = 0) :
    ((res_7_b t cpu).2).reg.F &&& 0x0F = 0 := by
  unfold res_7_b
  repeat' split
  all_goals simp [h]

theorem res_7_b_ime (t : MemoryTables D) (cpu : CPU D) :
    ((res_7_b t cpu).2).ime = cpu.ime ∧ ((res_7_b t cpu).2).ime_scheduled = cpu.ime_scheduled ∧
      ((res_7_b t cpu).2).ime_delay = cpu.ime_delay := by
  unfold res_7_b
  repeat' split
  all_goals simp

theorem res_7_c_F (t : MemoryTables D) (cpu : CPU D) (h : cpu.reg.F &&& 0x0F = 0) :
    ((res_7_c t cpu).2).reg.F &&& 0x0F = 0 := by
  unfold res_7_c
  repeat' split
  all_goals simp [h]

theorem res_7_c_ime (t : MemoryTables D) (cpu : CPU D) :
    ((res_7_c t cpu).2).ime = cpu.ime ∧ ((res_7_c t cpu).2).ime_scheduled = cpu.ime_scheduled ∧
      ((res_7_c t cpu).2).ime_delay = cpu.ime_delay := by
  unfold res_7_c
  repeat' split
  all_goals simp

theorem res_7_d_F (t : MemoryTables D) (cpu : CPU D) (h : cpu.reg.F &&& 0x0F = 0) :
    ((res_7_d t cpu).2).reg.F &&& 0x0F = 0 := by
  unfold res_7_d
  repeat' split
  all_goals simp [h]

theorem res_7_d_ime (t : MemoryTables D) (cpu : CPU D) :
    ((res_7_d t cpu).2).ime = cpu.ime ∧ ((res_7_d t cpu).2).ime_scheduled = cpu.ime_scheduled ∧
      ((res_7_d t cpu).2).ime_delay = cpu.ime_delay := by
  unfold res_7_d
  repeat' split
  all_goals simp

theorem res_7_e_F (t : MemoryTables D) (cpu : CPU D) (h : cpu.reg.F &&& 0x0F = 0) :
    ((res_7_e t cpu).2).reg.F &&& 0x0F = 0 := by
  unfold res_7_e
  repeat' split
  all_goals simp [h]

theorem res_7_e_ime (t : MemoryTables D) (cpu : CPU D) :
    ((res_7_e t cpu).2).ime = cpu.ime ∧ ((res_7_e t cpu).2).ime_scheduled = cpu.ime_scheduled ∧
      ((res_7_e t cpu).2).ime_delay = cpu.ime_delay := by
  unfold res_7_e
  repeat' split
  all_goals simp

theorem res_7_h_F (t : MemoryTables D) (cpu : CPU D) (h : cpu.reg.F &&& 0x0F = 0) :
    ((res_7_h t cpu).2).reg.F &&& 0x0F = 0 := by
  unfold res_7_h
  repeat' split
  all_goals simp [h]

theorem res_7_h_ime (t : MemoryTables D) (cpu : CPU D) :
    ((res_7_h t cpu).2).ime = cpu.ime ∧ ((res_7_h t cpu).2).ime_scheduled = cpu.ime_scheduled ∧
      ((res_7_h t cpu).2).ime_delay = cpu.ime_delay := by
  unfold res_7_h
  repeat' split
  all_goals simp

theorem res_7_l_F (t : MemoryTables D) (cpu : CPU D) (h : cpu.reg.F &&& 0x0F = 0) :
    ((res_7_l t cpu).2).reg.F &&& 0x0F = 0 := by
  unfold res_7_l
  repeat' split
  all_goals simp [h]

theorem res_7_l_ime (t : MemoryTables D) (cpu : CPU D) :
    ((res_7_l t cpu).2).ime = cpu.ime ∧ ((res_7_l t cpu).2).ime_scheduled = cpu.ime_scheduled ∧
      ((res_7_l t cpu).2).ime_delay = cpu.ime_delay := by
  unfold res_7_l
  repeat' split
  all_goals simp

theorem res_7_hl_F (t : MemoryTables D) (cpu : CPU D) (h : cpu.reg.F &&& 0x0F = 0) :
    ((res_7_hl t cpu).2).reg.F &&& 0x0F = 0 := by
  unfold res_7_hl
  repeat' split
  all_goals simp [h]

theorem res_7_hl_ime (t : MemoryTables D) (cpu : CPU D) :
    ((res_7_hl t cpu).2).ime = cpu.ime ∧ ((res_7_hl t cpu).2).ime_scheduled = cpu.ime_scheduled ∧
      ((res_7_hl t cpu).2).ime_delay = cpu.ime_delay := by
  unfold res_7_hl
  repeat' split
  all_goals simp

theorem res_7_a_F (t : MemoryTables D) (cpu : CPU D) (h : cpu.reg.F &&& 0x0F = 0) :
    ((res_7_a t cpu).2).reg.F &&& 0x0F = 0 := by
  unfold res_7_a
  repeat' split
  all_goals simp [h]

theorem res_7_a_ime (t : MemoryTables D) (cpu : CPU D) :
    ((res_7_a t cpu).2).ime = cpu.ime ∧ ((res_7_a t cpu).2).ime_scheduled = cpu.ime_scheduled ∧
      ((res_7_a t cpu).2).ime_delay = cpu.ime_delay := by
  unfold res_7_a
  repeat' split
  all_goals simp

theorem set_0_b_F (t : MemoryTables D) (cpu : CPU D) (h : cpu.reg.F &&& 0x0F = 0) :
    ((set_0_b t cpu).2).reg.F &&& 0x0F = 0 := by
  unfold set_0_b
  repeat' split
  all_goals simp [h]

theorem set_0_b_ime (t : MemoryTables D) (cpu : CPU D) :
    ((set_0_b t cpu).2).ime = cpu.ime ∧ ((set_0_b t cpu).2).ime_scheduled = cpu.ime_scheduled ∧
      ((set_0_b t cpu).2).ime_delay = cpu.ime_delay := by
  unfold set_0_b
  repeat' split
  all_goals simp

theorem set_0_c_F (t : MemoryTables D) (cpu : CPU D) (h : cpu.reg.F &&& 0x0F = 0) :
    ((set_0_c t cpu).2).reg.F &&& 0x0F = 0 := by
  unfold set_0_c
  repeat' split
  all_goals simp [h]

theorem set_0_c_ime (t : MemoryTables D) (cpu : CPU D) :
    ((set_0_c t cpu).2).ime = cpu.ime ∧ ((set_0_c t cpu).2).ime_scheduled = cpu.ime_scheduled ∧
      ((set_0_c t cpu).2).ime_delay = cpu.ime_delay := by
  unfold set_0_c
  repeat' split
  all_goals simp

theorem set_0_d_F (t : MemoryTables D) (cpu : CPU D) (h : cpu.reg.F &&& 0x0F = 0) :
    ((set_0_d t cpu).2).reg.F &&& 0x0F = 0 := by
  unfold set_0_d
  repeat' split
  all_goals simp [h]

theorem set_0_d_ime (t : MemoryTables D) (cpu : CPU D) :
    ((set_0_d t cpu).2).ime = cpu.ime ∧ ((set_0_d t cpu).2).ime_scheduled = cpu.ime_scheduled ∧
      ((set_0_d t cpu).2).ime_delay = cpu.ime_delay := by
  unfold set_0_d
  repeat' split
  all_goals simp

theorem set_0_e_F (t : MemoryTables D) (cpu : CPU D) (h : cpu.reg.F &&& 0x0F = 0) :
    ((set_0_e t cpu).2).reg.F &&& 0x0F = 0 := by
  unfold set_0_e
  repeat' split
  all_goals simp [h]

theorem set_0_e_ime (t : MemoryTables D) (cpu : CPU D) :
    ((set_0_e t cpu).2).ime = cpu.ime ∧ ((set_0_e t cpu).2).ime_scheduled = cpu.ime_scheduled ∧
      ((set_0_e t cpu).2).ime_delay = cpu.ime_delay := by
  unfold set_0_e
  repeat' split
  all_goals simp

theorem set_0_h_F (t : MemoryTables D) (cpu : CPU D) (h : cpu.reg.F &&& 0x0F = 0) :
    ((set_0_h t cpu).2).reg.F &&& 0x0F = 0 := by
  unfold set_0_h
  repeat' split
  all_goals simp [h]

theorem set_0_h_ime (t : MemoryTables D) (cpu : CPU D) :
    ((set_0_h t cpu).2).ime = cpu.ime ∧ ((set_0_h t cpu).2).ime_scheduled = cpu.ime_scheduled ∧
      ((set_0_h t cpu).2).ime_delay = cpu.ime_delay := by
  unfold set_0_h
  repeat' split
  all_goals simp

theorem set_0_l_F (t : MemoryTables D) (cpu : CPU D) (h : cpu.reg.F &&& 0x0F = 0) :
    ((set_0_l t cpu).2).reg.F &&& 0x0F = 0 := by
  unfold set_0_l
  repeat' split
  all_goals simp [h]

theorem set_0_l_ime (t : MemoryTables D) (cpu : CPU D) :
    ((set_0_l t cpu).2).ime = cpu.ime ∧ ((set_0_l t cpu).2).ime_scheduled = cpu.ime_scheduled ∧
      ((set_0_l t cpu).2).ime_delay = cpu.ime_delay := by
  unfold set_0_l
  repeat' split
  all_goals simp

theorem set_0_hl_F (t : MemoryTables D) (cpu : CPU D) (h : cpu.reg.F &&& 0x0F = 0) :
    ((set_0_hl t cpu).2).reg.F &&& 0x0F = 0 := by
  unfold set_0_hl
  repeat' split
  all_goals simp [h]

theorem set_0_hl_ime (t : MemoryTables D) (cpu : CPU D) :
    ((set_0_hl t cpu).2).ime = cpu.ime ∧ ((set_0_hl t cpu).2).ime_scheduled = cpu.ime_scheduled ∧
      ((set_0_hl t cpu).2).ime_delay = cpu.ime_delay := by
  unfold set_0_hl
  repeat' split
  all_goals simp

theorem set_0_a_F (t : MemoryTables D) (cpu : CPU D) (h : cpu.reg.F &&& 0x0F = 0) :
    ((set_0_a t cpu).2).reg.F &&& 0x0F = 0 := by
  unfold set_0_a
  repeat' split
  all_goals simp [h]

theorem set_0_a_ime (t : MemoryTables D) (cpu : CPU D) :
    ((set_0_a t cpu).2).ime = cpu.ime ∧ ((set_0_a t cpu).2).ime_scheduled = cpu.ime_scheduled ∧
      ((set_0_a t cpu).2).ime_delay = cpu.ime_delay := by
  unfold set_0_a
  repeat' split
  all_goals simp

theorem set_1_b_F (t : MemoryTables D) (cpu : CPU D) (h : cpu.reg.F &&& 0x0F = 0) :
    ((set_1_b t cpu).2).reg.F &&& 0x0F = 0 := by
  unfold set_1_b
  repeat' split
  all_goals simp [h]

theorem set_1_b_ime (t : MemoryTables D) (cpu : CPU D) :
    ((set_1_b t cpu).2).ime = cpu.ime ∧ ((set_1_b t cpu).2).ime_scheduled = cpu.ime_scheduled ∧
      ((set_1_b t cpu).2).ime_delay = cpu.ime_delay := by
  unfold set_1_b
  repeat' split
  all_goals simp

theorem set_1_c_F (t : MemoryTables D) (cpu : CPU D) (h : cpu.reg.F &&& 0x0F = 0) :
    ((set_1_c t cpu).2).reg.F &&& 0x0F = 0 := by
  unfold set_1_c
  repeat' split
  all_goals simp [h]

theorem set_1_c_ime (t : MemoryTables D) (cpu : CPU D) :
    ((set_1_c t cpu).2).ime = cpu.ime ∧ ((set_1_c t cpu).2).ime_scheduled = cpu.ime_scheduled ∧
      ((set_1_c t cpu).2).ime_delay = cpu.ime_delay := by
  unfold set_1_c
  repeat' split
  all_goals simp

theorem set_1_d_F (t : MemoryTables D) (cpu : CPU D) (h : cpu.reg.F &&& 0x0F = 0) :
    ((set_1_d t cpu).2).reg.F &&& 0x0F = 0 := by
  unfold set_1_d
  repeat' split
  all_goals simp [h]

theorem set_1_d_ime (t : MemoryTables D) (cpu : CPU D) :
    ((set_1_d t cpu).2).ime = cpu.ime ∧ ((set_1_d t cpu).2).ime_scheduled = cpu.ime_scheduled ∧
      ((set_1_d t cpu).2).ime_delay = cpu.ime_delay := by
  unfold set_1_d
  repeat' split
  all_goals simp

theorem set_1_e_F (t : MemoryTables D) (cpu : CPU D) (h : cpu.reg.F &&& 0x0F = 0) :
    ((set_1_e t cpu).2).reg.F &&& 0x0F = 0 := by
  unfold set_1_e
  repeat' split
  all_goals simp [h]

theorem set_1_e_ime (t : MemoryTables D) (cpu : CPU D) :
    ((set_1_e t cpu).2).ime = cpu.ime ∧ ((set_1_e t cpu).2).ime_scheduled = cpu.ime_scheduled ∧
      ((set_1_e t cpu).2).ime_delay = cpu.ime_delay := by
  unfold set_1_e
  repeat' split
  all_goals simp

theorem set_1_h_F (t : MemoryTables D) (cpu : CPU D) (h : cpu.reg.F &&& 0x0F = 0) :
    ((set_1_h t cpu).2).reg.F &&& 0x0F = 0 := by
  unfold set_1_h
  repeat' split
  all_goals simp [h]

theorem set_1_h_ime (t : MemoryTables D) (cpu : CPU D) :
    ((set_1_h t cpu).2).ime = cpu.ime ∧ ((set_1_h t cpu).2).ime_scheduled = cpu.ime_scheduled ∧
      ((set_1_h t cpu).2).ime_delay = cpu.ime_delay := by
  unfold set_1_h
  repeat' split
  all_goals simp

theorem set_1_l_F (t : MemoryTables D) (cpu : CPU D) (h : cpu.reg.F &&& 0x0F = 0) :
    ((set_1_l t cpu).2).reg.F &&& 0x0F = 0 := by
  unfold set_1_l
  repeat' split
  all_goals simp [h]

theorem set_1_l_ime (t : MemoryTables D) (cpu : CPU D) :
    ((set_1_l t cpu).2).ime = cpu.ime ∧ ((set_1_l t cpu).2).ime_scheduled = cpu.ime_scheduled ∧
      ((set_1_l t cpu).2).ime_delay = cpu.ime_delay := by
  unfold set_1_l
  repeat' split
  all_goals simp

theorem set_1_hl_F (t : MemoryTables D) (cpu : CPU D) (h : cpu.reg.F &&& 0x0F = 0) :
    ((set_1_hl t cpu).2).reg.F &&& 0x0F = 0 := by
  unfold set_1_hl
  repeat' split
  all_goals simp [h]

theorem set_1_hl_ime (t : MemoryTables D) (cpu : CPU D) :
    ((set_1_hl t cpu).2).ime = cpu.ime ∧ ((set_1_hl t cpu).2).ime_scheduled = cpu.ime_scheduled ∧
      ((set_1_hl t cpu).2).ime_delay = cpu.ime_delay := by
  unfold set_1_hl
  repeat' split
  all_goals simp

theorem set_1_a_F (t : MemoryTables D) (cpu : CPU D) (h : cpu.reg.F &&& 0x0F = 0) :
    ((set_1_a t cpu).2).reg.F &&& 0x0F = 0 := by
  unfold set_1_a
  repeat' split
  all_goals simp [h]

theorem set_1_a_ime (t : MemoryTables D) (cpu : CPU D) :
    ((set_1_a t cpu).2).ime = cpu.ime ∧ ((set_1_a t cpu).2).ime_scheduled = cpu.ime_scheduled ∧
      ((set_1_a t cpu).2).ime_delay = cpu.ime_delay := by
  unfold set_1_a
  repeat' split
  all_goals simp

theorem set_2_b_F (t : MemoryTables D) (cpu : CPU D) (h : cpu.reg.F &&& 0x0F = 0) :
    ((set_2_b t cpu).2).reg.F &&& 0x0F = 0 := by
  unfold set_2_b
  repeat' split
  all_goals simp [h]

theorem set_2_b_ime (t : MemoryTables D) (cpu : CPU D) :
    ((set_2_b t cpu).2).ime = cpu.ime ∧ ((set_2_b t cpu).2).ime_scheduled = cpu.ime_scheduled ∧
      ((set_2_b t cpu).2).ime_delay = cpu.ime_delay := by
  unfold set_2_b
  repeat' split
  all_goals simp

theorem set_2_c_F (t : MemoryTables D) (cpu : CPU D) (h : cpu.reg.F &&& 0x0F = 0) :
    ((set_2_c t cpu).2).reg.F &&& 0x0F = 0 := by
  unfold set_2_c
  repeat' split
  all_goals simp [h]

theorem set_2_c_ime (t : MemoryTables D) (cpu : CPU D) :
    ((set_2_c t cpu).2).ime = cpu.ime ∧ ((set_2_c t cpu).2).ime_scheduled = cpu.ime_scheduled ∧
      ((set_2_c t cpu).2).ime_delay = cpu.ime_delay := by
  unfold set_2_c
  repeat' split
  all_goals simp

theorem set_2_d_F (t : MemoryTables D) (cpu : CPU D) (h : cpu.reg.F &&& 0x0F = 0) :
    ((set_2_d t cpu).2).reg.F &&& 0x0F = 0 := by
  unfold set_2_d
  repeat' split
  all_goals simp [h]

theorem set_2_d_ime (t : MemoryTables D) (cpu : CPU D) :
    ((set_2_d t cpu).2).ime = cpu.ime ∧ ((set_2_d t cpu).2).ime_scheduled = cpu.ime_scheduled ∧
      ((set_2_d t cpu).2).ime_delay = cpu.ime_delay := by
  unfold set_2_d
  repeat' split
  all_goals simp

theorem set_2_e_F (t : MemoryTables D) (cpu : CPU D) (h : cpu.reg.F &&& 0x0F = 0) :
    ((set_2_e t cpu).2).reg.F &&& 0x0F = 0 := by
  unfold set_2_e
  repeat' split
  all_goals simp [h]

theorem set_2_e_ime (t : MemoryTables D) (cpu : CPU D) :
    ((set_2_e t cpu).2).ime = cpu.ime ∧ ((set_2_e t cpu).2).ime_scheduled = cpu.ime_scheduled ∧
      ((set_2_e t cpu).2).ime_delay = cpu.ime_delay := by
  unfold set_2_e
  repeat' split
  all_goals simp

theorem set_2_h_F (t : MemoryTables D) (cpu : CPU D) (h : cpu.reg.F &&& 0x0F = 0) :
    ((set_2_h t cpu).2).reg.F &&& 0x0F = 0 := by
  unfold set_2_h
  repeat' split
  all_goals simp [h]

theorem set_2_h_ime (t : MemoryTables D) (cpu : CPU D) :
    ((set_2_h t cpu).2).ime = cpu.ime ∧ ((set_2_h t cpu).2).ime_scheduled = cpu.ime_scheduled ∧
      ((set_2_h t cpu).2).ime_delay = cpu.ime_delay := by
  unfold set_2_h
  repeat' split
  all_goals simp

theorem set_2_l_F (t : MemoryTables D) (cpu : CPU D) (h : cpu.reg.F &&& 0x0F = 0) :
    ((set_2_l t cpu).2).reg.F &&& 0x0F = 0 := by
  unfold set_2_l
  repeat' split
  all_goals simp [h]

theorem set_2_l_ime (t : MemoryTables D) (cpu : CPU D) :
    ((set_2_l t cpu).2).ime = cpu.ime ∧ ((set_2_l t cpu).2).ime_scheduled = cpu.ime_scheduled ∧
      ((set_2_l t cpu).2).ime_delay = cpu.ime_delay := by
  unfold set_2_l
  repeat' split
  all_goals simp

theorem set_2_hl_F (t : MemoryTables D) (cpu : CPU D) (h : cpu.reg.F &&& 0x0F = 0) :
    ((set_2_hl t cpu).2).reg.F &&& 0x0F = 0 := by
  unfold set_2_hl
  repeat' split
  all_goals simp [h]

theorem set_2_hl_ime (t : MemoryTables D) (cpu : CPU D) :
    ((set_2_hl t cpu).2).ime = cpu.ime ∧ ((set_2_hl t cpu).2).ime_scheduled = cpu.ime_scheduled ∧
      ((set_2_hl t cpu).2).ime_delay = cpu.ime_delay := by
  unfold set_2_hl
  repeat' split
  all_goals simp

theorem set_2_a_F (t : MemoryTables D) (cpu : CPU D) (h : cpu.reg.F &&& 0x0F = 0) :
    ((set_2_a t cpu).2).reg.F &&& 0x0F = 0 := by
  unfold set_2_a
  repeat' split
  all_goals simp [h]

theorem set_2_a_ime (t : MemoryTables D) (cpu : CPU D) :
    ((set_2_a t cpu).2).ime = cpu.ime ∧ ((set_2_a t cpu).2).ime_scheduled = cpu.ime_scheduled ∧
      ((set_2_a t cpu).2).ime_delay = cpu.ime_delay := by
  unfold set_2_a
  repeat' split
  all_goals simp

theorem set_3_b_F (t : MemoryTables D) (cpu : CPU D) (h : cpu.reg.F &&& 0x0F = 0) :
    ((set_3_b t cpu).2).reg.F &&& 0x0F = 0 := by
  unfold set_3_b
  repeat' split
  all_goals simp [h]

theorem set_3_b_ime (t : MemoryTables D) (cpu : CPU D) :
    ((set_3_b t cpu).2).ime = cpu.ime ∧ ((set_3_b t cpu).2).ime_scheduled = cpu.ime_scheduled ∧
      ((set_3_b t cpu).2).ime_delay = cpu.ime_delay := by
  unfold set_3_b
  repeat' split
  all_goals simp

theorem set_3_c_F (t : MemoryTables D) (cpu : CPU D) (h : cpu.reg.F &&& 0x0F = 0) :
    ((set_3_c t cpu).2).reg.F &&& 0x0F = 0 := by
  unfold set_3_c
  repeat' split
  all_goals simp [h]

theorem set_3_c_ime (t : MemoryTables D) (cpu : CPU D) :
    ((set_3_c t cpu).2).ime = cpu.ime ∧ ((set_3_c t cpu).2).ime_scheduled = cpu.ime_scheduled ∧
      ((set_3_c t cpu).2).ime_delay = cpu.ime_delay := by
  unfold set_3_c
  repeat' split
  all_goals simp

theorem set_3_d_F (t : MemoryTables D) (cpu : CPU D) (h : cpu.reg.F &&& 0x0F = 0) :
    ((set_3_d t cpu).2).reg.F &&& 0x0F = 0 := by
  unfold set_3_d
  repeat' split
  all_goals simp [h]

theorem set_3_d_ime (t : MemoryTables D) (cpu : CPU D) :
    ((set_3_d t cpu).2).ime = cpu.ime ∧ ((set_3_d t cpu).2).ime_scheduled = cpu.ime_scheduled ∧
      ((set_3_d t cpu).2).ime_delay = cpu.ime_delay := by
  unfold set_3_d
  repeat' split
  all_goals simp

theorem set_3_e_F (t : MemoryTables D) (cpu : CPU D) (h : cpu.reg.F &&& 0x0F = 0) :
    ((set_3_e t cpu).2).reg.F &&& 0x0F = 0 := by
  unfold set_3_e
  repeat' split
  all_goals simp [h]

theorem set_3_e_ime (t : MemoryTables D) (cpu : CPU D) :
    ((set_3_e t cpu).2).ime = cpu.ime ∧ ((set_3_e t cpu).2).ime_scheduled = cpu.ime_scheduled ∧
      ((set_3_e t cpu).2).ime_delay = cpu.ime_delay := by
  unfold set_3_e
  repeat' split
  all_goals simp

theorem set_3_h_F (t : MemoryTables D) (cpu : CPU D) (h : cpu.reg.F &&& 0x0F = 0) :
    ((set_3_h t cpu).2).reg.F &&& 0x0F = 0 := by
  unfold set_3_h
  repeat' split
  all_goals simp [h]

theorem set_3_h_ime (t : MemoryTables D) (cpu : CPU D) :
    ((set_3_h t cpu).2).ime = cpu.ime ∧ ((set_3_h t cpu).2).ime_scheduled = cpu.ime_scheduled ∧
      ((set_3_h t cpu).2).ime_delay = cpu.ime_delay := by
  unfold set_3_h
  repeat' split
  all_goals simp

theorem set_3_l_F (t : MemoryTables D) (cpu : CPU D) (h : cpu.reg.F &&& 0x0F = 0) :
    ((set_3_l t cpu).2).reg.F &&& 0x0F = 0 := by
  unfold set_3_l
  repeat' split
  all_goals simp [h]

theorem set_3_l_ime (t : MemoryTables D) (cpu : CPU D) :
    ((set_3_l t cpu).2).ime = cpu.ime ∧ ((set_3_l t cpu).2).ime_scheduled = cpu.ime_scheduled ∧
      ((set_3_l t cpu).2).ime_delay = cpu.ime_delay := by
  unfold set_3_l
  repeat' split
  all_goals simp

theorem set_3_hl_F (t : MemoryTables D) (cpu : CPU D) (h : cpu.reg.F &&& 0x0F = 0) :
    ((set_3_hl t cpu).2).reg.F &&& 0x0F = 0 := by
  unfold set_3_hl
  repeat' split
  all_goals simp [h]

theorem set_3_hl_ime (t : MemoryTables D) (cpu : CPU D) :
    ((set_3_hl t cpu).2).ime = cpu.ime ∧ ((set_3_hl t cpu).2).ime_scheduled = cpu.ime_scheduled ∧
      ((set_3_hl t cpu).2).ime_delay = cpu.ime_delay := by
  unfold set_3_hl
  repeat' split
  all_goals simp

theorem set_3_a_F (t : MemoryTables D) (cpu : CPU D) (h : cpu.reg.F &&& 0x0F = 0) :
    ((set_3_a t cpu).2).reg.F &&& 0x0F = 0 := by
  unfold set_3_a
  repeat' split
  all_goals simp [h]

theorem set_3_a_ime (t : MemoryTables D) (cpu : CPU D) :
    ((set_3_a t cpu).2).ime = cpu.ime ∧ ((set_3_a t cpu).2).ime_scheduled = cpu.ime_scheduled ∧
      ((set_3_a t cpu).2).ime_delay = cpu.ime_delay := by
  unfold set_3_a
  repeat' split
  all_goals simp

theorem set_4_b_F (t : MemoryTables D) (cpu : CPU D) (h : cpu.reg.F &&& 0x0F = 0) :
    ((set_4_b t cpu).2).reg.F &&& 0x0F = 0 := by
  unfold set_4_b
  repeat' split
  all_goals simp [h]

theorem set_4_b_ime (t : MemoryTables D) (cpu : CPU D) :
    ((set_4_b t cpu).2).ime = cpu.ime ∧ ((set_4_b t cpu).2).ime_scheduled = cpu.ime_scheduled ∧
      ((set_4_b t cpu).2).ime_delay = cpu.ime_delay := by
  unfold set_4_b
  repeat' split
  all_goals simp

theorem set_4_c_F (t : MemoryTables D) (cpu : CPU D) (h : cpu.reg.F &&& 0x0F = 0) :
    ((set_4_c t cpu).2).reg.F &&& 0x0F = 0 := by
  unfold set_4_c
  repeat' split
  all_goals simp [h]

theorem set_4_c_ime (t : MemoryTables D) (cpu : CPU D) :
    ((set_4_c t cpu).2).ime = cpu.ime ∧ ((set_4_c t cpu).2).ime_scheduled = cpu.ime_scheduled ∧
      ((set_4_c t cpu).2).ime_delay = cpu.ime_delay := by
  unfold set_4_c
  repeat' split
  all_goals simp

theorem set_4_d_F (t : MemoryTables D) (cpu : CPU D) (h : cpu.reg.F &&& 0x0F = 0) :
    ((set_4_d t cpu).2).reg.F &&& 0x0F = 0 := by
  unfold set_4_d
  repeat' split
  all_goals simp [h]

theorem set_4_d_ime (t : MemoryTables D) (cpu : CPU D) :
    ((set_4_d t cpu).2).ime = cpu.ime ∧ ((set_4_d t cpu).2).ime_scheduled = cpu.ime_scheduled ∧
      ((set_4_d t cpu).2).ime_delay = cpu.ime_delay := by
  unfold set_4_d
  repeat' split
  all_goals simp

theorem set_4_e_F (t : MemoryTables D) (cpu : CPU D) (h : cpu.reg.F &&& 0x0F = 0) :
    ((set_4_e t cpu).2).reg.F &&& 0x0F = 0 := by
  unfold set_4_e
  repeat' split
  all_goals simp [h]

theorem set_4_e_ime (t : MemoryTables D) (cpu : CPU D) :
    ((set_4_e t cpu).2).ime = cpu.ime ∧ ((set_4_e t cpu).2).ime_scheduled = cpu.ime_scheduled ∧
      ((set_4_e t cpu).2).ime_delay = cpu.ime_delay := by
  unfold set_4_e
  repeat' split
  all_goals simp

theorem set_4_h_F (t : MemoryTables D) (cpu : CPU D) (h : cpu.reg.F &&& 0x0F = 0) :
    ((set_4_h t cpu).2).reg.F &&& 0x0F = 0 := by
  unfold set_4_h
  repeat' split
  all_goals simp [h]

theorem set_4_h_ime (t : MemoryTables D) (cpu : CPU D) :
    ((set_4_h t cpu).2).ime = cpu.ime ∧ ((set_4_h t cpu).2).ime_scheduled = cpu.ime_scheduled ∧
      ((set_4_h t cpu).2).ime_delay = cpu.ime_delay := by
  unfold set_4_h
  repeat' split
  all_goals simp

theorem set_4_l_F (t : MemoryTables D) (cpu : CPU D) (h : cpu.reg.F &&& 0x0F = 0) :
    ((set_4_l t cpu).2).reg.F &&& 0x0F = 0 := by
  unfold set_4_l
  repeat' split
  all_goals simp [h]

theorem set_4_l_ime (t : MemoryTables D) (cpu : CPU D) :
    ((set_4_l t cpu).2).ime = cpu.ime ∧ ((set_4_l t cpu).2).ime_scheduled = cpu.ime_scheduled ∧
      ((set_4_l t cpu).2).ime_delay = cpu.ime_delay := by
  unfold set_4_l
  repeat' split
  all_goals simp

theorem set_4_hl_F (t : MemoryTables D) (cpu : CPU D) (h : cpu.reg.F &&& 0x0F = 0) :
    ((set_4_hl t cpu).2).reg.F &&& 0x0F = 0 := by
  unfold set_4_hl
  repeat' split
  all_goals simp [h]

theorem set_4_hl_ime (t : MemoryTables D) (cpu : CPU D) :
    ((set_4_hl t cpu).2).ime = cpu.ime ∧ ((set_4_hl t cpu).2).ime_scheduled = cpu.ime_scheduled ∧
      ((set_4_hl t cpu).2).ime_delay = cpu.ime_delay := by
  unfold set_4_hl
  repeat' split
  all_goals simp

theorem set_4_a_F (t : MemoryTables D) (cpu : CPU D) (h : cpu.reg.F &&& 0x0F = 0) :
    ((set_4_a t cpu).2).reg.F &&& 0x0F = 0 := by
  unfold set_4_a
  repeat' split
  all_goals simp [h]

theorem set_4_a_ime (t : MemoryTables D) (cpu : CPU D) :
    ((set_4_a t cpu).2).ime = cpu.ime ∧ ((set_4_a t cpu).2).ime_scheduled = cpu.ime_scheduled ∧
      ((set_4_a t cpu).2).ime_delay = cpu.ime_delay := by
  unfold set_4_a
  repeat' split
  all_goals simp

theorem set_5_b_F (t : MemoryTables D) (cpu : CPU D) (h : cpu.reg.F &&& 0x0F = 0) :
    ((set_5_b t cpu).2).reg.F &&& 0x0F = 0 := by
  unfold set_5_b
  repeat' split
  all_goals simp [h]

theorem set_5_b_ime (t : MemoryTables D) (cpu : CPU D) :
    ((set_5_b t cpu).2).ime = cpu.ime ∧ ((set_5_b t cpu).2).ime_scheduled = cpu.ime_scheduled ∧
      ((set_5_b t cpu).2).ime_delay = cpu.ime_delay := by
  unfold set_5_b
  repeat' split
  all_goals simp

theorem set_5_c_F (t : MemoryTables D) (cpu : CPU D) (h : cpu.reg.F &&& 0x0F = 0) :
    ((set_5_c t cpu).2).reg.F &&& 0x0F = 0 := by
  unfold set_5_c
  repeat' split
  all_goals simp [h]

theorem set_5_c_ime (t : MemoryTables D) (cpu : CPU D) :
    ((set_5_c t cpu).2).ime = cpu.ime ∧ ((set_5_c t cpu).2).ime_scheduled = cpu.ime_scheduled ∧
      ((set_5_c t cpu).2).ime_delay = cpu.ime_delay := by
  unfold set_5_c
  repeat' split
  all_goals simp

theorem set_5_d_F (t : MemoryTables D) (cpu : CPU D) (h : cpu.reg.F &&& 0x0F = 0) :
    ((set_5_d t cpu).2).reg.F &&& 0x0F = 0 := by
  unfold set_5_d
  repeat' split
  all_goals simp [h]

theorem set_5_d_ime (t : MemoryTables D) (cpu : CPU D) :
    ((set_5_d t cpu).2).ime = cpu.ime ∧ ((set_5_d t cpu).2).ime_scheduled = cpu.ime_scheduled ∧
      ((set_5_d t cpu).2).ime_delay = cpu.ime_delay := by
  unfold set_5_d
  repeat' split
  all_goals simp

theorem set_5_e_F (t : MemoryTables D) (cpu : CPU D) (h : cpu.reg.F &&& 0x0F = 0) :
    ((set_5_e t cpu).2).reg.F &&& 0x0F = 0 := by
  unfold set_5_e
  repeat' split
  all_goals simp [h]

theorem set_5_e_ime (t : MemoryTables D) (cpu : CPU D) :
    ((set_5_e t cpu).2).ime = cpu.ime ∧ ((set_5_e t cpu).2).ime_scheduled = cpu.ime_scheduled ∧
      ((set_5_e t cpu).2).ime_delay = cpu.ime_delay := by
  unfold set_5_e
  repeat' split
  all_goals simp

theorem set_5_h_F (t : MemoryTables D) (cpu : CPU D) (h : cpu.reg.F &&& 0x0F = 0) :
    ((set_5_h t cpu).2).reg.F &&& 0x0F = 0 := by
  unfold set_5_h
  repeat' split
  all_goals simp [h]

theorem set_5_h_ime (t : MemoryTables D) (cpu : CPU D) :
    ((set_5_h t cpu).2).ime = cpu.ime ∧ ((set_5_h t cpu).2).ime_scheduled = cpu.ime_scheduled ∧
      ((set_5_h t cpu).2).ime_delay = cpu.ime_delay := by
  unfold set_5_h
  repeat' split
  all_goals simp

theorem set_5_l_F (t : MemoryTables D) (cpu : CPU D) (h : cpu.reg.F &&& 0x0F = 0) :
    ((set_5_l t cpu).2).reg.F &&& 0x0F = 0 := by
  unfold set_5_l
  repeat' split
  all_goals simp [h]

theorem set_5_l_ime (t : MemoryTables D) (cpu : CPU D) :
    ((set_5_l t cpu).2).ime = cpu.ime ∧ ((set_5_l t cpu).2).ime_scheduled = cpu.ime_scheduled ∧
      ((set_5_l t cpu).2).ime_delay = cpu.ime_delay := by
  unfold set_5_l
  repeat' split
  all_goals simp

theorem set_5_hl_F (t : MemoryTables D) (cpu : CPU D) (h : cpu.reg.F &&& 0x0F = 0) :
    ((set_5_hl t cpu).2).reg.F &&& 0x0F = 0 := by
  unfold set_5_hl
  repeat' split
  all_goals simp [h]

theorem set_5_hl_ime (t : MemoryTables D) (cpu : CPU D) :
    ((set_5_hl t cpu).2).ime = cpu.ime ∧ ((set_5_hl t cpu).2).ime_scheduled = cpu.ime_scheduled ∧
      ((set_5_hl t cpu).2).ime_delay = cpu.ime_delay := by
  unfold set_5_hl
  repeat' split
  all_goals simp

theorem set_5_a_F (t : MemoryTables D) (cpu : CPU D) (h : cpu.reg.F &&& 0x0F = 0) :
    ((set_5_a t cpu).2).reg.F &&& 0x0F = 0 := by
  unfold set_5_a
  repeat' split
  all_goals simp [h]

theorem set_5_a_ime (t : MemoryTables D) (cpu : CPU D) :
    ((set_5_a t cpu).2).ime = cpu.ime ∧ ((set_5_a t cpu).2).ime_scheduled = cpu.ime_scheduled ∧
      ((set_5_a t cpu).2).ime_delay = cpu.ime_delay := by
  unfold set_5_a
  repeat' split
  all_goals simp

theorem set_6_b_F (t : MemoryTables D) (cpu : CPU D) (h : cpu.reg.F &&& 0x0F = 0) :
    ((set_6_b t cpu).2).reg.F &&& 0x0F = 0 := by
  unfold set_6_b
  repeat' split
  all_goals simp [h]

theorem set_6_b_ime (t : MemoryTables D) (cpu : CPU D) :
    ((set_6_b t cpu).2).ime = cpu.ime ∧ ((set_6_b t cpu).2).ime_scheduled = cpu.ime_scheduled ∧
      ((set_6_b t cpu).2).ime_delay = cpu.ime_delay := by
  unfold set_6_b
  repeat' split
  all_goals simp

theorem set_6_c_F (t : MemoryTables D) (cpu : CPU D) (h : cpu.reg.F &&& 0x0F = 0) :
    ((set_6_c t cpu).2).reg.F &&& 0x0F = 0 := by
  unfold set_6_c
  repeat' split
  all_goals simp [h]

theorem set_6_c_ime (t : MemoryTables D) (cpu : CPU D) :
    ((set_6_c t cpu).2).ime = cpu.ime ∧ ((set_6_c t cpu).2).ime_scheduled = cpu.ime_scheduled ∧
      ((set_6_c t cpu).2).ime_delay = cpu.ime_delay := by
  unfold set_6_c
  repeat' split
  all_goals simp

theorem set_6_d_F (t : MemoryTables D) (cpu : CPU D) (h : cpu.reg.F &&& 0x0F = 0) :
    ((set_6_d t cpu).2).reg.F &&& 0x0F = 0 := by
  unfold set_6_d
  repeat' split
  all_goals simp [h]

theorem set_6_d_ime (t : MemoryTables D) (cpu : CPU D) :
    ((set_6_d t cpu).2).ime = cpu.ime ∧ ((set_6_d t cpu).2).ime_scheduled = cpu.ime_scheduled ∧
      ((set_6_d t cpu).2).ime_delay = cpu.ime_delay := by
  unfold set_6_d
  repeat' split
  all_goals simp

theorem set_6_e_F (t : MemoryTables D) (cpu : CPU D) (h : cpu.reg.F &&& 0x0F = 0) :
    ((set_6_e t cpu).2).reg.F &&& 0x0F = 0 := by
  unfold set_6_e
  repeat' split
  all_goals simp [h]

theorem set_6_e_ime (t : MemoryTables D) (cpu : CPU D) :
    ((set_6_e t cpu).2).ime = cpu.ime ∧ ((set_6_e t cpu).2).ime_scheduled = cpu.ime_scheduled ∧
      ((set_6_e t cpu).2).ime_delay = cpu.ime_delay := by
  unfold set_6_e
  repeat' split
  all_goals simp

theorem set_6_h_F (t : MemoryTables D) (cpu : CPU D) (h : cpu.reg.F &&& 0x0F = 0) :
    ((set_6_h t cpu).2).reg.F &&& 0x0F = 0 := by
  unfold set_6_h
  repeat' split
  all_goals simp [h]

theorem set_6_h_ime (t : MemoryTables D) (cpu : CPU D) :
    ((set_6_h t cpu).2).ime = cpu.ime ∧ ((set_6_h t cpu).2).ime_scheduled = cpu.ime_scheduled ∧
      ((set_6_h t cpu).2).ime_delay = cpu.ime_delay := by
  unfold set_6_h
  repeat' split
  all_goals simp

theorem set_6_l_F (t : MemoryTables D) (cpu : CPU D) (h : cpu.reg.F &&& 0x0F = 0) :
    ((set_6_l t cpu).2).reg.F &&& 0x0F = 0 := by
  unfold set_6_l
  repeat' split
  all_goals simp [h]

theorem set_6_l_ime (t : MemoryTables D) (cpu : CPU D) :
    ((set_6_l t cpu).2).ime = cpu.ime ∧ ((set_6_l t cpu).2).ime_scheduled = cpu.ime_scheduled ∧
      ((set_6_l t cpu).2).ime_delay = cpu.ime_delay := by
  unfold set_6_l
  repeat' split
  all_goals simp

theorem set_6_hl_F (t : MemoryTables D) (cpu : CPU D) (h : cpu.reg.F &&& 0x0F = 0) :
    ((set_6_hl t cpu).2).reg.F &&& 0x0F = 0 := by
  unfold set_6_hl
  repeat' split
  all_goals simp [h]

theorem set_6_hl_ime (t : MemoryTables D) (cpu : CPU D) :
    ((set_6_hl t cpu).2).ime = cpu.ime ∧ ((set_6_hl t cpu).2).ime_scheduled = cpu.ime_scheduled ∧
      ((set_6_hl t cpu).2).ime_delay = cpu.ime_delay := by
  unfold set_6_hl
  repeat' split
  all_goals simp

theorem set_6_a_F (t : MemoryTables D) (cpu : CPU D) (h : cpu.reg.F &&& 0x0F = 0) :
    ((set_6_a t cpu).2).reg.F &&& 0x0F = 0 := by
  unfold set_6_a
  repeat' split
  all_goals simp [h]

theorem set_6_a_ime (t : MemoryTables D) (cpu : CPU D) :
    ((set_6_a t cpu).2).ime = cpu.ime ∧ ((set_6_a t cpu).2).ime_scheduled = cpu.ime_scheduled ∧
      ((set_6_a t cpu).2).ime_delay = cpu.ime_delay := by
  unfold set_6_a
  repeat' split
  all_goals simp

theorem set_7_b_F (t : MemoryTables D) (cpu : CPU D) (h : cpu.reg.F &&& 0x0F = 0) :
    ((set_7_b t cpu).2).reg.F &&& 0x0F = 0 := by
  unfold set_7_b
  repeat' split
  all_goals simp [h]

theorem set_7_b_ime (t : MemoryTables D) (cpu : CPU D) :
    ((set_7_b t cpu).2).ime = cpu.ime ∧ ((set_7_b t cpu).2).ime_scheduled = cpu.ime_scheduled ∧
      ((set_7_b t cpu).2).ime_delay = cpu.ime_delay := by
  unfold set_7_b
  repeat' split
  all_goals simp

theorem set_7_c_F (t : MemoryTables D) (cpu : CPU D) (h : cpu.reg.F &&& 0x0F = 0) :
    ((set_7_c t cpu).2).reg.F &&& 0x0F = 0 := by
  unfold set_7_c
  repeat' split
  all_goals simp [h]

theorem set_7_c_ime (t : MemoryTables D) (cpu : CPU D) :
    ((set_7_c t cpu).2).ime = cpu.ime ∧ ((set_7_c t cpu).2).ime_scheduled = cpu.ime_scheduled ∧
      ((set_7_c t cpu).2).ime_delay = cpu.ime_delay := by
  unfold set_7_c
  repeat' split
  all_goals simp

theorem set_7_d_F (t : MemoryTables D) (cpu : CPU D) (h : cpu.reg.F &&& 0x0F = 0) :
    ((set_7_d t cpu).2).reg.F &&& 0x0F = 0 := by
  unfold set_7_d
  repeat' split
  all_goals simp [h]

theorem set_7_d_ime (t : MemoryTables D) (cpu : CPU D) :
    ((set_7_d t cpu).2).ime = cpu.ime ∧ ((set_7_d t cpu).2).ime_scheduled = cpu.ime_scheduled ∧
      ((set_7_d t cpu).2).ime_delay = cpu.ime_delay := by
  unfold set_7_d
  repeat' split
  all_goals simp

theorem set_7_e_F (t : MemoryTables D) (cpu : CPU D) (h : cpu.reg.F &&& 0x0F = 0) :
    ((set_7_e t cpu).2).reg.F &&& 0x0F = 0 := by
  unfold set_7_e
  repeat' split
  all_goals simp [h]

theorem set_7_e_ime (t : MemoryTables D) (cpu : CPU D) :
    ((set_7_e t cpu).2).ime = cpu.ime ∧ ((set_7_e t cpu).2).ime_scheduled = cpu.ime_scheduled ∧
      ((set_7_e t cpu).2).ime_delay = cpu.ime_delay := by
  unfold set_7_e
  repeat' split
  all_goals simp

theorem set_7_h_F (t : MemoryTables D) (cpu : CPU D) (h : cpu.reg.F &&& 0x0F = 0) :
    ((set_7_h t cpu).2).reg.F &&& 0x0F = 0 := by
  unfold set_7_h
  repeat' split
  all_goals simp [h]

theorem set_7_h_ime (t : MemoryTables D) (cpu : CPU D) :
    ((set_7_h t cpu).2).ime = cpu.ime ∧ ((set_7_h t cpu).2).ime_scheduled = cpu.ime_scheduled ∧
      ((set_7_h t cpu).2).ime_delay = cpu.ime_delay := by
  unfold set_7_h
  repeat' split
  all_goals simp

theorem set_7_l_F (t : MemoryTables D) (cpu : CPU D) (h : cpu.reg.F &&& 0x0F = 0) :
    ((set_7_l t cpu).2).reg.F &&& 0x0F = 0 := by
  unfold set_7_l
  repeat' split
  all_goals simp [h]

theorem set_7_l_ime (t : MemoryTables D) (cpu : CPU D) :
    ((set_7_l t cpu).2).ime = cpu.ime ∧ ((set_7_l t cpu).2).ime_scheduled = cpu.ime_scheduled ∧
      ((set_7_l t cpu).2).ime_delay = cpu.ime_delay := by
  unfold set_7_l
  repeat' split
  all_goals simp

theorem set_7_hl_F (t : MemoryTables D) (cpu : CPU D) (h : cpu.reg.F &&& 0x0F = 0) :
    ((set_7_hl t cpu).2).reg.F &&& 0x0F = 0 := by
  unfold set_7_hl
  repeat' split
  all_goals simp [h]

theorem set_7_hl_ime (t : MemoryTables D) (cpu : CPU D) :
    ((set_7_hl t cpu).2).ime = cpu.ime ∧ ((set_7_hl t cpu).2).ime_scheduled = cpu.ime_scheduled ∧
      ((set_7_hl t cpu).2).ime_delay = cpu.ime_delay := by
  unfold set_7_hl
  repeat' split
  all_goals simp

theorem set_7_a_F (t : MemoryTables D) (cpu : CPU D) (h : cpu.reg.F &&& 0x0F = 0) :
    ((set_7_a t cpu).2).reg.F &&& 0x0F = 0 := by
  unfold set_7_a
  repeat' split
  all_goals simp [h]

theorem set_7_a_ime (t : MemoryTables D) (cpu : CPU D) :
    ((set_7_a t cpu).2).ime = cpu.ime ∧ ((set_7_a t cpu).2).ime_scheduled = cpu.ime_scheduled ∧
      ((set_7_a t cpu).2).ime_delay = cpu.ime_delay := by
  unfold set_7_a
  repeat' split
  all_goals simp

theorem int_exec_F (t : MemoryTables D) (cpu : CPU D) (h : cpu.reg.F &&& 0x0F = 0) :
    ((int_exec t cpu).2).reg.F &&& 0x0F = 0 := by
  unfold int_exec
  dsimp only
  repeat' split
  all_goals simp [h]

theorem int_exec_ime (t : MemoryTables D) (cpu : CPU D) :
    ((int_exec t cpu).2).ime = cpu.ime ∧ ((int_exec t cpu).2).ime_scheduled = cpu.ime_scheduled ∧
      ((int_exec t cpu).2).ime_delay = cpu.ime_delay := by
  unfold int_exec
  dsimp only
  repeat' split
  all_goals simp

/-! ### The two opcode tables -/

set_option maxRecDepth 20000 in
theorem opcode_table_F (t : MemoryTables D) (cpu : CPU D) (hF : cpu.reg.F &&& 0x0F = 0) :
    ∀ h ∈ opcode_table D, (h t cpu).2.reg.F &&& 0x0F = 0 := by
  simp only [opcode_table, List.forall_mem_cons, List.not_mem_nil, false_imp_iff, implies_true,
    and_true]
  exact ⟨nop_F t cpu hF, ld_bc_nn_F t cpu hF, ld_bc_a_F t cpu hF, inc_bc_F t cpu hF,
    inc_b_F t cpu hF, dec_b_F t cpu hF, ld_b_n_F t cpu hF, rlca_F t cpu hF,
    ld_nn_sp_F t cpu hF, add_hl_bc_F t cpu hF, ld_a_bc_F t cpu hF, dec_bc_F t cpu hF,
    inc_c_F t cpu hF, dec_c_F t cpu hF, ld_c_n_F t cpu hF, rrca_F t cpu hF,
    stop_F t cpu hF, ld_de_nn_F t cpu hF, ld_de_a_F t cpu hF, inc_de_F t cpu hF,
    inc_d_F t cpu hF, dec_d_F t cpu hF, ld_d_n_F t cpu hF, rla_F t cpu hF,
    jr_n_F t cpu hF, add_hl_de_F t cpu hF, ld_a_de_F t cpu hF, dec_de_F t cpu hF,
    inc_e_F t cpu hF, dec_e_F t cpu hF, ld_e_n_F t cpu hF, rra_F t cpu hF,
    jr_nz_n_F t cpu hF, ld_hl_nn_F t cpu hF, ld_hli_a_F t cpu hF, inc_hl_F t cpu hF,
    inc_h_F t cpu hF, dec_h_F t cpu hF, ld_h_n_F t cpu hF, daa_F t cpu hF,
    jr_z_n_F t cpu hF, add_hl_hl_F t cpu hF, ld_a_hli_F t cpu hF, dec_hl_F t cpu hF,
    inc_l_F t cpu hF, dec_l_F t cpu hF, ld_l_n_F t cpu hF, cpl_F t cpu hF,
    jr_nc_n_F t cpu hF, ld_sp_nn_F t cpu hF, ld_hld_a_F t cpu hF, inc_sp_F t cpu hF,
    inc_hl_mem_F t cpu hF, dec_hl_mem_F t cpu hF, ld_hl_n_F t cpu hF, scf_F t cpu hF,
    jr_c_n_F t cpu hF, add_hl_sp_F t cpu hF, ld_a_hld_F t cpu hF, dec_sp_F t cpu hF,
    inc_a_F t cpu hF, dec_a_F t cpu hF, ld_a_n_F t cpu hF, ccf_F t cpu hF,
    nop_F t cpu hF, ld_b_c_F t cpu hF, ld_b_d_F t cpu hF, ld_b_e_F t cpu hF,
    ld_b_h_F t cpu hF, ld_b_l_F t cpu hF, ld_b_hl_F t cpu hF, ld_b_a_F t cpu hF,
    ld_c_b_F t cpu hF, nop_F t cpu hF, ld_c_d_F t cpu hF, ld_c_e_F t cpu hF,
    ld_c_h_F t cpu hF, ld_c_l_F t cpu hF, ld_c_hl_F t cpu hF, ld_c_a_F t cpu hF,
    ld_d_b_F t cpu hF, ld_d_c_F t cpu hF, nop_F t cpu hF, ld_d_e_F t cpu hF,
    ld_d_h_F t cpu hF, ld_d_l_F t cpu hF, ld_d_hl_F t cpu hF, ld_d_a_F t cpu hF,
    ld_e_b_F t cpu hF, ld_e_c_F t cpu hF, ld_e_d_F t cpu hF, nop_F t cpu hF,
    ld_e_h_F t cpu hF, ld_e_l_F t cpu hF, ld_e_hl_F t cpu hF, ld_e_a_F t cpu hF,
    ld_h_b_F t cpu hF, ld_h_c_F t cpu hF, ld_h_d_F t cpu hF, ld_h_e_F t cpu hF,
    nop_F t cpu hF, ld_h_l_F t cpu hF, ld_h_hl_F t cpu hF, ld_h_a_F t cpu hF,
    ld_l_b_F t cpu hF, ld_l_c_F t cpu hF, ld_l_d_F t cpu hF, ld_l_e_F t cpu hF,
    ld_l_h_F t cpu hF, nop_F t cpu hF, ld_l_hl_F t cpu hF, ld_l_a_F t cpu hF,
    ld_hl_b_F t cpu hF, ld_hl_c_F t cpu hF, ld_hl_d_F t cpu hF, ld_hl_e_F t cpu hF,
    ld_hl_h_F t cpu hF, ld_hl_l_F t cpu hF, halt_F t cpu hF, ld_hl_a_F t cpu hF,
    ld_a_b_F t cpu hF, ld_a_c_F t cpu hF, ld_a_d_F t cpu hF, ld_a_e_F t cpu hF,
    ld_a_h_F t cpu hF, ld_a_l_F t cpu hF, ld_a_hl_F t cpu hF, nop_F t cpu hF,
    add_a_b_F t cpu hF, add_a_c_F t cpu hF, add_a_d_F t cpu hF, add_a_e_F t cpu hF,
    add_a_h_F t cpu hF, add_a_l_F t cpu hF, add_a_hl_F t cpu hF, add_a_a_F t cpu hF,
    adc_a_b_F t cpu hF, adc_a_c_F t cpu hF, adc_a_d_F t cpu hF, adc_a_e_F t cpu hF,
    adc_a_h_F t cpu hF, adc_a_l_F t cpu hF, adc_a_hl_F t cpu hF, adc_a_a_F t cpu hF,
    sub_a_b_F t cpu hF, sub_a_c_F t cpu hF, sub_a_d_F t cpu hF, sub_a_e_F t cpu hF,
    sub_a_h_F t cpu hF, sub_a_l_F t cpu hF, sub_a_hl_F t cpu hF, sub_a_a_F t cpu hF,
    sbc_a_b_F t cpu hF, sbc_a_c_F t cpu hF, sbc_a_d_F t cpu hF, sbc_a_e_F t cpu hF,
    sbc_a_h_F t cpu hF, sbc_a_l_F t cpu hF, sbc_a_hl_F t cpu hF, sbc_a_a_F t cpu hF,
    and_a_b_F t cpu hF, and_a_c_F t cpu hF, and_a_d_F t cpu hF, and_a_e_F t cpu hF,
    and_a_h_F t cpu hF, and_a_l_F t cpu hF, and_a_hl_F t cpu hF, and_a_a_F t cpu hF,
    xor_a_b_F t cpu hF, xor_a_c_F t cpu hF, xor_a_d_F t cpu hF, xor_a_e_F t cpu hF,
    xor_a_h_F t cpu hF, xor_a_l_F t cpu hF, xor_a_hl_F t cpu hF, xor_a_a_F t cpu hF,
    or_a_b_F t cpu hF, or_a_c_F t cpu hF, or_a_d_F t cpu hF, or_a_e_F t cpu hF,
    or_a_h_F t cpu hF, or_a_l_F t cpu hF, or_a_hl_F t cpu hF, or_a_a_F t cpu hF,
    cp_a_b_F t cpu hF, cp_a_c_F t cpu hF, cp_a_d_F t cpu hF, cp_a_e_F t cpu hF,
    cp_a_h_F t cpu hF, cp_a_l_F t cpu hF, cp_a_hl_F t cpu hF, cp_a_a_F t cpu hF,
    ret_nz_F t cpu hF, pop_bc_F t cpu hF, jp_nz_nn_F t cpu hF, jp_nn_F t cpu hF,
    call_nz_nn_F t cpu hF, push_bc_F t cpu hF, add_a_n_F t cpu hF, rst_00_F t cpu hF,
    ret_z_F t cpu hF, ret_F t cpu hF, jp_z_nn_F t cpu hF, cb_prefix_F t cpu hF,
    call_z_nn_F t cpu hF, call_nn_F t cpu hF, adc_a_n_F t cpu hF, rst_08_F t cpu hF,
    ret_nc_F t cpu hF, pop_de_F t cpu hF, jp_nc_nn_F t cpu hF, nop_F t cpu hF,
    call_nc_nn_F t cpu hF, push_de_F t cpu hF, sub_a_n_F t cpu hF, rst_10_F t cpu hF,
    ret_c_F t cpu hF, reti_F t cpu hF, jp_c_nn_F t cpu hF, nop_F t cpu hF,
    call_c_nn_F t cpu hF, nop_F t cpu hF, sbc_a_n_F t cpu hF, rst_18_F t cpu hF,
    ldh_n_a_F t cpu hF, pop_hl_F t cpu hF, ldh_c_a_F t cpu hF, nop_F t cpu hF,
    nop_F t cpu hF, push_hl_F t cpu hF, and_a_n_F t cpu hF, rst_20_F t cpu hF,
    add_sp_n_F t cpu hF, jp_hl_F t cpu hF, ld_nn_a_F t cpu hF, nop_F t cpu hF,
    nop_F t cpu hF, nop_F t cpu hF, xor_a_n_F t cpu hF, rst_28_F t cpu hF,
    ldh_a_n_F t cpu hF, pop_af_F t cpu hF, ldh_a_c_F t cpu hF, di_F t cpu hF,
    nop_F t cpu hF, push_af_F t cpu hF, or_a_n_F t cpu hF, rst_30_F t cpu hF,
    ld_hl_sp_n_F t cpu hF, ld_sp_hl_F t cpu hF, ld_a_nn_F t cpu hF, ei_F t cpu hF,
    nop_F t cpu hF, nop_F t cpu hF, cp_a_n_F t cpu hF, rst_38_F t cpu hF⟩

set_option maxRecDepth 20000 in
theorem prefix_opcode_table_F (t : MemoryTables D) (cpu : CPU D) (hF : cpu.reg.F &&& 0x0F = 0) :
    ∀ h ∈ prefix_opcode_table D, (h t cpu).2.reg.F &&& 0x0F = 0 := by
  simp only [prefix_opcode_table, List.forall_mem_cons, List.not_mem_nil, false_imp_iff, implies_true,
    and_true]
  exact ⟨rlc_b_F t cpu hF, rlc_c_F t cpu hF, rlc_d_F t cpu hF, rlc_e_F t cpu hF,
    rlc_h_F t cpu hF, rlc_l_F t cpu hF, rlc_hl_F t cpu hF, rlc_a_F t cpu hF,
    rrc_b_F t cpu hF, rrc_c_F t cpu hF, rrc_d_F t cpu hF, rrc_e_F t cpu hF,
    rrc_h_F t cpu hF, rrc_l_F t cpu hF, rrc_hl_F t cpu hF, rrc_a_F t cpu hF,
    rl_b_F t cpu hF, rl_c_F t cpu hF, rl_d_F t cpu hF, rl_e_F t cpu hF,
    rl_h_F t cpu hF, rl_l_F t cpu hF, rl_hl_F t cpu hF, rl_a_F t cpu hF,
    rr_b_F t cpu hF, rr_c_F t cpu hF, rr_d_F t cpu hF, rr_e_F t cpu hF,
    rr_h_F t cpu hF, rr_l_F t cpu hF, rr_hl_F t cpu hF, rr_a_F t cpu hF,
    sla_b_F t cpu hF, sla_c_F t cpu hF, sla_d_F t cpu hF, sla_e_F t cpu hF,
    sla_h_F t cpu hF, sla_l_F t cpu hF, sla_hl_F t cpu hF, sla_a_F t cpu hF,
    sra_b_F t cpu hF, sra_c_F t cpu hF, sra_d_F t cpu hF, sra_e_F t cpu hF,
    sra_h_F t cpu hF, sra_l_F t cpu hF, sra_hl_F t cpu hF, sra_a_F t cpu hF,
    swap_b_F t cpu hF, swap_c_F t cpu hF, swap_d_F t cpu hF, swap_e_F t cpu hF,
    swap_h_F t cpu hF, swap_l_F t cpu hF, swap_hl_F t cpu hF, swap_a_F t cpu hF,
    srl_b_F t cpu hF, srl_c_F t cpu hF, srl_d_F t cpu hF, srl_e_F t cpu hF,
    srl_h_F t cpu hF, srl_l_F t cpu hF, srl_hl_F t cpu hF, srl_a_F t cpu hF,
    bit_0_b_F t cpu hF, bit_0_c_F t cpu hF, bit_0_d_F t cpu hF, bit_0_e_F t cpu hF,
    bit_0_h_F t cpu hF, bit_0_l_F t cpu hF, bit_0_hl_F t cpu hF, bit_0_a_F t cpu hF,
    bit_1_b_F t cpu hF, bit_1_c_F t cpu hF, bit_1_d_F t cpu hF, bit_1_e_F t cpu hF,
    bit_1_h_F t cpu hF, bit_1_l_F t cpu hF, bit_1_hl_F t cpu hF, bit_1_a_F t cpu hF,
    bit_2_b_F t cpu hF, bit_2_c_F t cpu hF, bit_2_d_F t cpu hF, bit_2_e_F t cpu hF,
    bit_2_h_F t cpu hF, bit_2_l_F t cpu hF, bit_2_hl_F t cpu hF, bit_2_a_F t cpu hF,
    bit_3_b_F t cpu hF, bit_3_c_F t cpu hF, bit_3_d_F t cpu hF, bit_3_e_F t cpu hF,
    bit_3_h_F t cpu hF, bit_3_l_F t cpu hF, bit_3_hl_F t cpu hF, bit_3_a_F t cpu hF,
    bit_4_b_F t cpu hF, bit_4_c_F t cpu hF, bit_4_d_F t cpu hF, bit_4_e_F t cpu hF,
    bit_4_h_F t cpu hF, bit_4_l_F t cpu hF, bit_4_hl_F t cpu hF, bit_4_a_F t cpu hF,
    bit_5_b_F t cpu hF, bit_5_c_F t cpu hF, bit_5_d_F t cpu hF, bit_5_e_F t cpu hF,
    bit_5_h_F t cpu hF, bit_5_l_F t cpu hF, bit_5_hl_F t cpu hF, bit_5_a_F t cpu hF,
    bit_6_b_F t cpu hF, bit_6_c_F t cpu hF, bit_6_d_F t cpu hF, bit_6_e_F t cpu hF,
    bit_6_h_F t cpu hF, bit_6_l_F t cpu hF, bit_6_hl_F t cpu hF, bit_6_a_F t cpu hF,
    bit_7_b_F t cpu hF, bit_7_c_F t cpu hF, bit_7_d_F t cpu hF, bit_7_e_F t cpu hF,
    bit_7_h_F t cpu hF, bit_7_l_F t cpu hF, bit_7_hl_F t cpu hF, bit_7_a_F t cpu hF,
    res_0_b_F t cpu hF, res_0_c_F t cpu hF, res_0_d_F t cpu hF, res_0_e_F t cpu hF,
    res_0_h_F t cpu hF, res_0_l_F t cpu hF, res_0_hl_F t cpu hF, res_0_a_F t cpu hF,
    res_1_b_F t cpu hF, res_1_c_F t cpu hF, res_1_d_F t cpu hF, res_1_e_F t cpu hF,
    res_1_h_F t cpu hF, res_1_l_F t cpu hF, res_1_hl_F t cpu hF, res_1_a_F t cpu hF,
    res_2_b_F t cpu hF, res_2_c_F t cpu hF, res_2_d_F t cpu hF, res_2_e_F t cpu hF,
    res_2_h_F t cpu hF, res_2_l_F t cpu hF, res_2_hl_F t cpu hF, res_2_a_F t cpu hF,
    res_3_b_F t cpu hF, res_3_c_F t cpu hF, res_3_d_F t cpu hF, res_3_e_F t cpu hF,
    res_3_h_F t cpu hF, res_3_l_F t cpu hF, res_3_hl_F t cpu hF, res_3_a_F t cpu hF,
    res_4_b_F t cpu hF, res_4_c_F t cpu hF, res_4_d_F t cpu hF, res_4_e_F t cpu hF,
    res_4_h_F t cpu hF, res_4_l_F t cpu hF, res_4_hl_F t cpu hF, res_4_a_F t cpu hF,
    res_5_b_F t cpu hF, res_5_c_F t cpu hF, res_5_d_F t cpu hF, res_5_e_F t cpu hF,
    res_5_h_F t cpu hF, res_5_l_F t cpu hF, res_5_hl_F t cpu hF, res_5_a_F t cpu hF,
    res_6_b_F t cpu hF, res_6_c_F t cpu hF, res_6_d_F t cpu hF, res_6_e_F t cpu hF,
    res_6_h_F t cpu hF, res_6_l_F t cpu hF, res_6_hl_F t cpu hF, res_6_a_F t cpu hF,
    res_7_b_F t cpu hF, res_7_c_F t cpu hF, res_7_d_F t cpu hF, res_7_e_F t cpu hF,
    res_7_h_F t cpu hF, res_7_l_F t cpu hF, res_7_hl_F t cpu hF, res_7_a_F t cpu hF,
    set_0_b_F t cpu hF, set_0_c_F t cpu hF, set_0_d_F t cpu hF, set_0_e_F t cpu hF,
    set_0_h_F t cpu hF, set_0_l_F t cpu hF, set_0_hl_F t cpu hF, set_0_a_F t cpu hF,
    set_1_b_F t cpu hF, set_1_c_F t cpu hF, set_1_d_F t cpu hF, set_1_e_F t cpu hF,
    set_1_h_F t cpu hF, set_1_l_F t cpu hF, set_1_hl_F t cpu hF, set_1_a_F t cpu hF,
    set_2_b_F t cpu hF, set_2_c_F t cpu hF, set_2_d_F t cpu hF, set_2_e_F t cpu hF,
    set_2_h_F t cpu hF, set_2_l_F t cpu hF, set_2_hl_F t cpu hF, set_2_a_F t cpu hF,
    set_3_b_F t cpu hF, set_3_c_F t cpu hF, set_3_d_F t cpu hF, set_3_e_F t cpu hF,
    set_3_h_F t cpu hF, set_3_l_F t cpu hF, set_3_hl_F t cpu hF, set_3_a_F t cpu hF,
    set_4_b_F t cpu hF, set_4_c_F t cpu hF, set_4_d_F t cpu hF, set_4_e_F t cpu hF,
    set_4_h_F t cpu hF, set_4_l_F t cpu hF, set_4_hl_F t cpu hF, set_4_a_F t cpu hF,
    set_5_b_F t cpu hF, set_5_c_F t cpu hF, set_5_d_F t cpu hF, set_5_e_F t cpu hF,
    set_5_h_F t cpu hF, set_5_l_F t cpu hF, set_5_hl_F t cpu hF, set_5_a_F t cpu hF,
    set_6_b_F t cpu hF, set_6_c_F t cpu hF, set_6_d_F t cpu hF, set_6_e_F t cpu hF,
    set_6_h_F t cpu hF, set_6_l_F t cpu hF, set_6_hl_F t cpu hF, set_6_a_F t cpu hF,
    set_7_b_F t cpu hF, set_7_c_F t cpu hF, set_7_d_F t cpu hF, set_7_e_F t cpu hF,
    set_7_h_F t cpu hF, set_7_l_F t cpu hF, set_7_hl_F t cpu hF, set_7_a_F t cpu hF⟩

set_option maxRecDepth 20000 in
theorem prefix_opcode_table_ime (t : MemoryTables D) (cpu : CPU D) :
    ∀ h ∈ prefix_opcode_table D, (h t cpu).2.ime = cpu.ime ∧ (h t cpu).2.ime_scheduled = cpu.ime_scheduled ∧
      (h t cpu).2.ime_delay = cpu.ime_delay := by
  simp only [prefix_opcode_table, List.forall_mem_cons, List.not_mem_nil, false_imp_iff, implies_true,
    and_true]
  exact ⟨rlc_b_ime t cpu, rlc_c_ime t cpu, rlc_d_ime t cpu, rlc_e_ime t cpu,
    rlc_h_ime t cpu, rlc_l_ime t cpu, rlc_hl_ime t cpu, rlc_a_ime t cpu,
    rrc_b_ime t cpu, rrc_c_ime t cpu, rrc_d_ime t cpu, rrc_e_ime t cpu,
    rrc_h_ime t cpu, rrc_l_ime t cpu, rrc_hl_ime t cpu, rrc_a_ime t cpu,
    rl_b_ime t cpu, rl_c_ime t cpu, rl_d_ime t cpu, rl_e_ime t cpu,
    rl_h_ime t cpu, rl_l_ime t cpu, rl_hl_ime t cpu, rl_a_ime t cpu,
    rr_b_ime t cpu, rr_c_ime t cpu, rr_d_ime t cpu, rr_e_ime t cpu,
    rr_h_ime t cpu, rr_l_ime t cpu, rr_hl_ime t cpu, rr_a_ime t cpu,
    sla_b_ime t cpu, sla_c_ime t cpu, sla_d_ime t cpu, sla_e_ime t cpu,
    sla_h_ime t cpu, sla_l_ime t cpu, sla_hl_ime t cpu, sla_a_ime t cpu,
    sra_b_ime t cpu, sra_c_ime t cpu, sra_d_ime t cpu, sra_e_ime t cpu,
    sra_h_ime t cpu, sra_l_ime t cpu, sra_hl_ime t cpu, sra_a_ime t cpu,
    swap_b_ime t cpu, swap_c_ime t cpu, swap_d_ime t cpu, swap_e_ime t cpu,
    swap_h_ime t cpu, swap_l_ime t cpu, swap_hl_ime t cpu, swap_a_ime t cpu,
    srl_b_ime t cpu, srl_c_ime t cpu, srl_d_ime t cpu, srl_e_ime t cpu,
    srl_h_ime t cpu, srl_l_ime t cpu, srl_hl_ime t cpu, srl_a_ime t cpu,
    bit_0_b_ime t cpu, bit_0_c_ime t cpu, bit_0_d_ime t cpu, bit_0_e_ime t cpu,
    bit_0_h_ime t cpu, bit_0_l_ime t cpu, bit_0_hl_ime t cpu, bit_0_a_ime t cpu,
    bit_1_b_ime t cpu, bit_1_c_ime t cpu, bit_1_d_ime t cpu, bit_1_e_ime t cpu,
    bit_1_h_ime t cpu, bit_1_l_ime t cpu, bit_1_hl_ime t cpu, bit_1_a_ime t cpu,
    bit_2_b_ime t cpu, bit_2_c_ime t cpu, bit_2_d_ime t cpu, bit_2_e_ime t cpu,
    bit_2_h_ime t cpu, bit_2_l_ime t cpu, bit_2_hl_ime t cpu, bit_2_a_ime t cpu,
    bit_3_b_ime t cpu, bit_3_c_ime t cpu, bit_3_d_ime t cpu, bit_3_e_ime t cpu,
    bit_3_h_ime t cpu, bit_3_l_ime t cpu, bit_3_hl_ime t cpu, bit_3_a_ime t cpu,
    bit_4_b_ime t cpu, bit_4_c_ime t cpu, bit_4_d_ime t cpu, bit_4_e_ime t cpu,
    bit_4_h_ime t cpu, bit_4_l_ime t cpu, bit_4_hl_ime t cpu, bit_4_a_ime t cpu,
    bit_5_b_ime t cpu, bit_5_c_ime t cpu, bit_5_d_ime t cpu, bit_5_e_ime t cpu,
    bit_5_h_ime t cpu, bit_5_l_ime t cpu, bit_5_hl_ime t cpu, bit_5_a_ime t cpu,
    bit_6_b_ime t cpu, bit_6_c_ime t cpu, bit_6_d_ime t cpu, bit_6_e_ime t cpu,
    bit_6_h_ime t cpu, bit_6_l_ime t cpu, bit_6_hl_ime t cpu, bit_6_a_ime t cpu,
    bit_7_b_ime t cpu, bit_7_c_ime t cpu, bit_7_d_ime t cpu, bit_7_e_ime t cpu,
    bit_7_h_ime t cpu, bit_7_l_ime t cpu, bit_7_hl_ime t cpu, bit_7_a_ime t cpu,
    res_0_b_ime t cpu, res_0_c_ime t cpu, res_0_d_ime t cpu, res_0_e_ime t cpu,
    res_0_h_ime t cpu, res_0_l_ime t cpu, res_0_hl_ime t cpu, res_0_a_ime t cpu,
    res_1_b_ime t cpu, res_1_c_ime t cpu, res_1_d_ime t cpu, res_1_e_ime t cpu,
    res_1_h_ime t cpu, res_1_l_ime t cpu, res_1_hl_ime t cpu, res_1_a_ime t cpu,
    res_2_b_ime t cpu, res_2_c_ime t cpu, res_2_d_ime t cpu, res_2_e_ime t cpu,
    res_2_h_ime t cpu, res_2_l_ime t cpu, res_2_hl_ime t cpu, res_2_a_ime t cpu,
    res_3_b_ime t cpu, res_3_c_ime t cpu, res_3_d_ime t cpu, res_3_e_ime t cpu,
    res_3_h_ime t cpu, res_3_l_ime t cpu, res_3_hl_ime t cpu, res_3_a_ime t cpu,
    res_4_b_ime t cpu, res_4_c_ime t cpu, res_4_d_ime t cpu, res_4_e_ime t cpu,
    res_4_h_ime t cpu, res_4_l_ime t cpu, res_4_hl_ime t cpu, res_4_a_ime t cpu,
    res_5_b_ime t cpu, res_5_c_ime t cpu, res_5_d_ime t cpu, res_5_e_ime t cpu,
    res_5_h_ime t cpu, res_5_l_ime t cpu, res_5_hl_ime t cpu, res_5_a_ime t cpu,
    res_6_b_ime t cpu, res_6_c_ime t cpu, res_6_d_ime t cpu, res_6_e_ime t cpu,
    res_6_h_ime t cpu, res_6_l_ime t cpu, res_6_hl_ime t cpu, res_6_a_ime t cpu,
    res_7_b_ime t cpu, res_7_c_ime t cpu, res_7_d_ime t cpu, res_7_e_ime t cpu,
    res_7_h_ime t cpu, res_7_l_ime t cpu, res_7_hl_ime t cpu, res_7_a_ime t cpu,
    set_0_b_ime t cpu, set_0_c_ime t cpu, set_0_d_ime t cpu, set_0_e_ime t cpu,
    set_0_h_ime t cpu, set_0_l_ime t cpu, set_0_hl_ime t cpu, set_0_a_ime t cpu,
    set_1_b_ime t cpu, set_1_c_ime t cpu, set_1_d_ime t cpu, set_1_e_ime t cpu,
    set_1_h_ime t cpu, set_1_l_ime t cpu, set_1_hl_ime t cpu, set_1_a_ime t cpu,
    set_2_b_ime t cpu, set_2_c_ime t cpu, set_2_d_ime t cpu, set_2_e_ime t cpu,
    set_2_h_ime t cpu, set_2_l_ime t cpu, set_2_hl_ime t cpu, set_2_a_ime t cpu,
    set_3_b_ime t cpu, set_3_c_ime t cpu, set_3_d_ime t cpu, set_3_e_ime t cpu,
    set_3_h_ime t cpu, set_3_l_ime t cpu, set_3_hl_ime t cpu, set_3_a_ime t cpu,
    set_4_b_ime t cpu, set_4_c_ime t cpu, set_4_d_ime t cpu, set_4_e_ime t cpu,
    set_4_h_ime t cpu, set_4_l_ime t cpu, set_4_hl_ime t cpu, set_4_a_ime t cpu,
    set_5_b_ime t cpu, set_5_c_ime t cpu, set_5_d_ime t cpu, set_5_e_ime t cpu,
    set_5_h_ime t cpu, set_5_l_ime t cpu, set_5_hl_ime t cpu, set_5_a_ime t cpu,
    set_6_b_ime t cpu, set_6_c_ime t cpu, set_6_d_ime t cpu, set_6_e_ime t cpu,
    set_6_h_ime t cpu, set_6_l_ime t cpu, set_6_hl_ime t cpu, set_6_a_ime t cpu,
    set_7_b_ime t cpu, set_7_c_ime t cpu, set_7_d_ime t cpu, set_7_e_ime t cpu,
    set_7_h_ime t cpu, set_7_l_ime t cpu, set_7_hl_ime t cpu, set_7_a_ime t cpu⟩

theorem AllFrom_getD (P : Nat → OpcodeHandler D → Prop) (d : OpcodeHandler D) :
    ∀ (l : List (OpcodeHandler D)) (k : Nat), AllFrom P k l →
      ∀ i, i < l.length → P (k + i) (l.getD i d) := by
  intro l
  induction l with
  | nil => intro k _ i hi; exact absurd hi (Nat.not_lt_zero i)
  | cons h l ih =>
    intro k hall i hi
    cases i with
    | zero => exact hall.1
    | succ i =>
      have e : k + (i + 1) = (k + 1) + i := by omega
      rw [e]
      exact ih (k + 1) hall.2 i (Nat.lt_of_succ_lt_succ hi)

set_option maxRecDepth 20000 in
theorem opcode_table_ime_indexed (t : MemoryTables D) (cpu : CPU D) :
    AllFrom (fun k h => (k = 0xF3 ∨ k = 0xD9 ∨ k = 0xFB) ∨
      ((h t cpu).2.ime = cpu.ime ∧ (h t cpu).2.ime_scheduled = cpu.ime_scheduled ∧
        (h t cpu).2.ime_delay = cpu.ime_delay)) 0 (opcode_table D) := by
  simp only [opcode_table, AllFrom]
  exact ⟨Or.inr (nop_ime t cpu), Or.inr (ld_bc_nn_ime t cpu), Or.inr (ld_bc_a_ime t cpu), Or.inr (inc_bc_ime t cpu),
    Or.inr (inc_b_ime t cpu), Or.inr (dec_b_ime t cpu), Or.inr (ld_b_n_ime t cpu), Or.inr (rlca_ime t cpu),
    Or.inr (ld_nn_sp_ime t cpu), Or.inr (add_hl_bc_ime t cpu), Or.inr (ld_a_bc_ime t cpu), Or.inr (dec_bc_ime t cpu),
    Or.inr (inc_c_ime t cpu), Or.inr (dec_c_ime t cpu), Or.inr (ld_c_n_ime t cpu), Or.inr (rrca_ime t cpu),
    Or.inr (stop_ime t cpu), Or.inr (ld_de_nn_ime t cpu), Or.inr (ld_de_a_ime t cpu), Or.inr (inc_de_ime t cpu),
    Or.inr (inc_d_ime t cpu), Or.inr (dec_d_ime t cpu), Or.inr (ld_d_n_ime t cpu), Or.inr (rla_ime t cpu),
    Or.inr (jr_n_ime t cpu), Or.inr (add_hl_de_ime t cpu), Or.inr (ld_a_de_ime t cpu), Or.inr (dec_de_ime t cpu),
    Or.inr (inc_e_ime t cpu), Or.inr (dec_e_ime t cpu), Or.inr (ld_e_n_ime t cpu), Or.inr (rra_ime t cpu),
    Or.inr (jr_nz_n_ime t cpu), Or.inr (ld_hl_nn_ime t cpu), Or.inr (ld_hli_a_ime t cpu), Or.inr (inc_hl_ime t cpu),
    Or.inr (inc_h_ime t cpu), Or.inr (dec_h_ime t cpu), Or.inr (ld_h_n_ime t cpu), Or.inr (daa_ime t cpu),
    Or.inr (jr_z_n_ime t cpu), Or.inr (add_hl_hl_ime t cpu), Or.inr (ld_a_hli_ime t cpu), Or.inr (dec_hl_ime t cpu),
    Or.inr (inc_l_ime t cpu), Or.inr (dec_l_ime t cpu), Or.inr (ld_l_n_ime t cpu), Or.inr (cpl_ime t cpu),
    Or.inr (jr_nc_n_ime t cpu), Or.inr (ld_sp_nn_ime t cpu), Or.inr (ld_hld_a_ime t cpu), Or.inr (inc_sp_ime t cpu),
    Or.inr (inc_hl_mem_ime t cpu), Or.inr (dec_hl_mem_ime t cpu), Or.inr (ld_hl_n_ime t cpu), Or.inr (scf_ime t cpu),
    Or.inr (jr_c_n_ime t cpu), Or.inr (add_hl_sp_ime t cpu), Or.inr (ld_a_hld_ime t cpu), Or.inr (dec_sp_ime t cpu),
    Or.inr (inc_a_ime t cpu), Or.inr (dec_a_ime t cpu), Or.inr (ld_a_n_ime t cpu), Or.inr (ccf_ime t cpu),
    Or.inr (nop_ime t cpu), Or.inr (ld_b_c_ime t cpu), Or.inr (ld_b_d_ime t cpu), Or.inr (ld_b_e_ime t cpu),
    Or.inr (ld_b_h_ime t cpu), Or.inr (ld_b_l_ime t cpu), Or.inr (ld_b_hl_ime t cpu), Or.inr (ld_b_a_ime t cpu),
    Or.inr (ld_c_b_ime t cpu), Or.inr (nop_ime t cpu), Or.inr (ld_c_d_ime t cpu), Or.inr (ld_c_e_ime t cpu),
    Or.inr (ld_c_h_ime t cpu), Or.inr (ld_c_l_ime t cpu), Or.inr (ld_c_hl_ime t cpu), Or.inr (ld_c_a_ime t cpu),
    Or.inr (ld_d_b_ime t cpu), Or.inr (ld_d_c_ime t cpu), Or.inr (nop_ime t cpu), Or.inr (ld_d_e_ime t cpu),
    Or.inr (ld_d_h_ime t cpu), Or.inr (ld_d_l_ime t cpu), Or.inr (ld_d_hl_ime t cpu), Or.inr (ld_d_a_ime t cpu),
    Or.inr (ld_e_b_ime t cpu), Or.inr (ld_e_c_ime t cpu), Or.inr (ld_e_d_ime t cpu), Or.inr (nop_ime t cpu),
    Or.inr (ld_e_h_ime t cpu), Or.inr (ld_e_l_ime t cpu), Or.inr (ld_e_hl_ime t cpu), Or.inr (ld_e_a_ime t cpu),
    Or.inr (ld_h_b_ime t cpu), Or.inr (ld_h_c_ime t cpu), Or.inr (ld_h_d_ime t cpu), Or.inr (ld_h_e_ime t cpu),
    Or.inr (nop_ime t cpu), Or.inr (ld_h_l_ime t cpu), Or.inr (ld_h_hl_ime t cpu), Or.inr (ld_h_a_ime t cpu),
    Or.inr (ld_l_b_ime t cpu), Or.inr (ld_l_c_ime t cpu), Or.inr (ld_l_d_ime t cpu), Or.inr (ld_l_e_ime t cpu),
    Or.inr (ld_l_h_ime t cpu), Or.inr (nop_ime t cpu), Or.inr (ld_l_hl_ime t cpu), Or.inr (ld_l_a_ime t cpu),
    Or.inr (ld_hl_b_ime t cpu), Or.inr (ld_hl_c_ime t cpu), Or.inr (ld_hl_d_ime t cpu), Or.inr (ld_hl_e_ime t cpu),
    Or.inr (ld_hl_h_ime t cpu), Or.inr (ld_hl_l_ime t cpu), Or.inr (halt_ime t cpu), Or.inr (ld_hl_a_ime t cpu),
    Or.inr (ld_a_b_ime t cpu), Or.inr (ld_a_c_ime t cpu), Or.inr (ld_a_d_ime t cpu), Or.inr (ld_a_e_ime t cpu),
    Or.inr (ld_a_h_ime t cpu), Or.inr (ld_a_l_ime t cpu), Or.inr (ld_a_hl_ime t cpu), Or.inr (nop_ime t cpu),
    Or.inr (add_a_b_ime t cpu), Or.inr (add_a_c_ime t cpu), Or.inr (add_a_d_ime t cpu), Or.inr (add_a_e_ime t cpu),
    Or.inr (add_a_h_ime t cpu), Or.inr (add_a_l_ime t cpu), Or.inr (add_a_hl_ime t cpu), Or.inr (add_a_a_ime t cpu),
    Or.inr (adc_a_b_ime t cpu), Or.inr (adc_a_c_ime t cpu), Or.inr (adc_a_d_ime t cpu), Or.inr (adc_a_e_ime t cpu),
    Or.inr (adc_a_h_ime t cpu), Or.inr (adc_a_l_ime t cpu), Or.inr (adc_a_hl_ime t cpu), Or.inr (adc_a_a_ime t cpu),
    Or.inr (sub_a_b_ime t cpu), Or.inr (sub_a_c_ime t cpu), Or.inr (sub_a_d_ime t cpu), Or.inr (sub_a_e_ime t cpu),
    Or.inr (sub_a_h_ime t cpu), Or.inr (sub_a_l_ime t cpu), Or.inr (sub_a_hl_ime t cpu), Or.inr (sub_a_a_ime t cpu),
    Or.inr (sbc_a_b_ime t cpu), Or.inr (sbc_a_c_ime t cpu), Or.inr (sbc_a_d_ime t cpu), Or.inr (sbc_a_e_ime t cpu),
    Or.inr (sbc_a_h_ime t cpu), Or.inr (sbc_a_l_ime t cpu), Or.inr (sbc_a_hl_ime t cpu), Or.inr (sbc_a_a_ime t cpu),
    Or.inr (and_a_b_ime t cpu), Or.inr (and_a_c_ime t cpu), Or.inr (and_a_d_ime t cpu), Or.inr (and_a_e_ime t cpu),
    Or.inr (and_a_h_ime t cpu), Or.inr (and_a_l_ime t cpu), Or.inr (and_a_hl_ime t cpu), Or.inr (and_a_a_ime t cpu),
    Or.inr (xor_a_b_ime t cpu), Or.inr (xor_a_c_ime t cpu), Or.inr (xor_a_d_ime t cpu), Or.inr (xor_a_e_ime t cpu),
    Or.inr (xor_a_h_ime t cpu), Or.inr (xor_a_l_ime t cpu), Or.inr (xor_a_hl_ime t cpu), Or.inr (xor_a_a_ime t cpu),
    Or.inr (or_a_b_ime t cpu), Or.inr (or_a_c_ime t cpu), Or.inr (or_a_d_ime t cpu), Or.inr (or_a_e_ime t cpu),
    Or.inr (or_a_h_ime t cpu), Or.inr (or_a_l_ime t cpu), Or.inr (or_a_hl_ime t cpu), Or.inr (or_a_a_ime t cpu),
    Or.inr (cp_a_b_ime t cpu), Or.inr (cp_a_c_ime t cpu), Or.inr (cp_a_d_ime t cpu), Or.inr (cp_a_e_ime t cpu),
    Or.inr (cp_a_h_ime t cpu), Or.inr (cp_a_l_ime t cpu), Or.inr (cp_a_hl_ime t cpu), Or.inr (cp_a_a_ime t cpu),
    Or.inr (ret_nz_ime t cpu), Or.inr (pop_bc_ime t cpu), Or.inr (jp_nz_nn_ime t cpu), Or.inr (jp_nn_ime t cpu),
    Or.inr (call_nz_nn_ime t cpu), Or.inr (push_bc_ime t cpu), Or.inr (add_a_n_ime t cpu), Or.inr (rst_00_ime t cpu),
    Or.inr (ret_z_ime t cpu), Or.inr (ret_ime t cpu), Or.inr (jp_z_nn_ime t cpu), Or.inr (cb_prefix_ime t cpu),
    Or.inr (call_z_nn_ime t cpu), Or.inr (call_nn_ime t cpu), Or.inr (adc_a_n_ime t cpu), Or.inr (rst_08_ime t cpu),
    Or.inr (ret_nc_ime t cpu), Or.inr (pop_de_ime t cpu), Or.inr (jp_nc_nn_ime t cpu), Or.inr (nop_ime t cpu),
    Or.inr (call_nc_nn_ime t cpu), Or.inr (push_de_ime t cpu), Or.inr (sub_a_n_ime t cpu), Or.inr (rst_10_ime t cpu),
    Or.inr (ret_c_ime t cpu), Or.inl (by decide), Or.inr (jp_c_nn_ime t cpu), Or.inr (nop_ime t cpu),
    Or.inr (call_c_nn_ime t cpu), Or.inr (nop_ime t cpu), Or.inr (sbc_a_n_ime t cpu), Or.inr (rst_18_ime t cpu),
    Or.inr (ldh_n_a_ime t cpu), Or.inr (pop_hl_ime t cpu), Or.inr (ldh_c_a_ime t cpu), Or.inr (nop_ime t cpu),
    Or.inr (nop_ime t cpu), Or.inr (push_hl_ime t cpu), Or.inr (and_a_n_ime t cpu), Or.inr (rst_20_ime t cpu),
    Or.inr (add_sp_n_ime t cpu), Or.inr (jp_hl_ime t cpu), Or.inr (ld_nn_a_ime t cpu), Or.inr (nop_ime t cpu),
    Or.inr (nop_ime t cpu), Or.inr (nop_ime t cpu), Or.inr (xor_a_n_ime t cpu), Or.inr (rst_28_ime t cpu),
    Or.inr (ldh_a_n_ime t cpu), Or.inr (pop_af_ime t cpu), Or.inr (ldh_a_c_ime t cpu), Or.inl (by decide),
    Or.inr (nop_ime t cpu), Or.inr (push_af_ime t cpu), Or.inr (or_a_n_ime t cpu), Or.inr (rst_30_ime t cpu),
    Or.inr (ld_hl_sp_n_ime t cpu), Or.inr (ld_sp_hl_ime t cpu), Or.inr (ld_a_nn_ime t cpu), Or.inl (by decide),
    Or.inr (nop_ime t cpu), Or.inr (nop_ime t cpu), Or.inr (cp_a_n_ime t cpu), Or.inr (rst_38_ime t cpu), trivial⟩

/-! ## Sequencing code and the flag register -/

theorem dispatch_F (t : MemoryTables D) (cpu : CPU D) (hF : cpu.reg.F &&& 0x0F = 0)
    (r : HandlerRef) : (dispatch r t cpu).2.reg.F &&& 0x0F = 0 := by
  cases r with
  | main opcode =>
    simp only [dispatch, List.getD_eq_getElem?_getD]
    cases hq : (opcode_table D)[opcode]? with
    | none => simpa using nop_F t cpu hF
    | some h => exact opcode_table_F t cpu hF h (List.getElem?_mem hq)
  | cb opcode =>
    simp only [dispatch, List.getD_eq_getElem?_getD]
    cases hq : (prefix_opcode_table D)[opcode]? with
    | none => simpa using nop_F t cpu hF
    | some h => exact prefix_opcode_table_F t cpu hF h (List.getElem?_mem hq)
  | int_exec => exact int_exec_F t cpu hF

@[simp] theorem reset_ins_F (cpu : CPU D) : (reset_ins cpu).reg.F = cpu.reg.F := rfl

@[simp] theorem next_ins_F (t : MemoryTables D) (cpu : CPU D) :
    (next_ins t cpu).reg.F = cpu.reg.F := by
  unfold next_ins
  dsimp only
  split <;> simp

@[simp] theorem service_interrupts_F (t : MemoryTables D) (cpu : CPU D) :
    (service_interrupts t cpu).2.reg.F = cpu.reg.F := by
  unfold service_interrupts
  dsimp only
  split <;> simp

@[simp] theorem check_ins_F (t : MemoryTables D) (cpu : CPU D) :
    (check_ins t cpu).reg.F = cpu.reg.F := by
  unfold check_ins
  dsimp only
  repeat' split
  all_goals simp

@[simp] theorem check_pending_interrupts_F (t : MemoryTables D) (cpu : CPU D) :
    (check_pending_interrupts t cpu).reg.F = cpu.reg.F := by
  unfold check_pending_interrupts
  split <;> rfl

theorem execute_ins_reg (t : MemoryTables D) (cpu : CPU D) :
    (execute_ins t cpu).reg =
      (dispatch cpu.ins.handler t
        { cpu with ins := { cpu.ins with duration := (cpu.ins.duration + 1) % 256 } }).2.reg := by
  unfold execute_ins
  dsimp only
  repeat' split
  all_goals rfl

theorem execute_ins_F (t : MemoryTables D) (cpu : CPU D) (hF : cpu.reg.F &&& 0x0F = 0) :
    (execute_ins t cpu).reg.F &&& 0x0F = 0 := by
  rw [execute_ins_reg]
  exact dispatch_F t
    { cpu with ins := { cpu.ins with duration := (cpu.ins.duration + 1) % 256 } } hF _

theorem machine_cycle_F (t : MemoryTables D) (cpu : CPU D) (hF : cpu.reg.F &&& 0x0F = 0) :
    (machine_cycle t cpu).reg.F &&& 0x0F = 0 := by
  unfold machine_cycle
  dsimp only
  split
  · simpa using hF
  · exact execute_ins_F t _ (by simpa using hF)

/-! ## C1 -/

set_option maxRecDepth 20000 in
theorem opcode_table_length : (opcode_table D).length = 256 := rfl

set_option maxRecDepth 20000 in
theorem prefix_opcode_table_length : (prefix_opcode_table D).length = 256 := rfl

/-- C1: starting from a CPU state whose flag register has a zero low nibble
(as the one installed at load, `F = 0xB0`), every handler of the unprefixed
table and every handler of the 0xCB table, called at any m-cycle over any bus
contents, leaves `F & 0x0F = 0`; so does a whole `machine_cycle`.  POP AF
stores the popped byte masked with 0xF0. -/
theorem C1_flag_low_nibble_zero (t : MemoryTables D) (cpu : CPU D)
    (hF : cpu.reg.F &&& 0x0F = 0) :
    (∀ h ∈ opcode_table D, (h t cpu).2.reg.F &&& 0x0F = 0) ∧
    (∀ h ∈ prefix_opcode_table D, (h t cpu).2.reg.F &&& 0x0F = 0) ∧
    (opcode_table D).length = 256 ∧ (prefix_opcode_table D).length = 256 ∧
    (machine_cycle t cpu).reg.F &&& 0x0F = 0 ∧
    (cpu.ins.duration = 2 →
      (pop_af t cpu).2.reg.F = read_memory t cpu.mem cpu.reg.SP &&& 0xF0) ∧
    (dmg_bios_cpu_values t cpu).reg.F = 0xB0 := by
  refine ⟨opcode_table_F t cpu hF, prefix_opcode_table_F t cpu hF, ?_, ?_,
    machine_cycle_F t cpu hF, ?_, rfl⟩
  · exact opcode_table_length
  · exact prefix_opcode_table_length
  · intro hd
    simp [pop_af, hd, pop_stack, write_flag_reg]

/-- Witness for C1: the post-boot state (`F = 0xB0`) satisfies the premise, and
a machine cycle run on it (it fetches POP AF) keeps the low nibble of `F` at
zero. -/
theorem C1_flag_low_nibble_zero_witness :
    (bootCpu (memOf 0x100 [0xF1])).reg.F &&& 0x0F = 0 ∧
    (machine_cycle ioTables (bootCpu (memOf 0x100 [0xF1]))).reg.F &&& 0x0F = 0 :=
  ⟨by decide,
   (C1_flag_low_nibble_zero ioTables (bootCpu (memOf 0x100 [0xF1])) (by decide)).2.2.2.2.1⟩

/-! ## C2 -/

theorem or_and_self_right (a b : Nat) : a ||| (b &&& a) = a := by
  apply Nat.eq_of_testBit_eq
  intro i
  rw [Nat.testBit_or, Nat.testBit_and]
  cases a.testBit i <;> cases b.testBit i <;> rfl

theorem if_value_top (v : Nat) : (0xE0 ||| (v &&& LOWER_5_MASK)) &&& 0xE0 = 0xE0 := by
  rw [Nat.and_distrib_right, Nat.and_assoc]
  have h : (LOWER_5_MASK &&& 0xE0 : Nat) = 0 := by decide
  rw [h, Nat.and_zero, Nat.or_zero, Nat.and_self]

theorem top_bits_read (x k : Nat) (h : x &&& 0xE0 = 0xE0) :
    ((x ||| k) % 256) &&& 0xE0 = 0xE0 := by
  have h8 : (x ||| k) % 256 = (x ||| k) &&& 0xFF :=
    (Nat.and_pow_two_sub_one_eq_mod (x ||| k) 8).symm
  rw [h8, Nat.and_assoc]
  have hc : (0xFF &&& 0xE0 : Nat) = 0xE0 := by decide
  rw [hc, Nat.and_distrib_right, h]
  exact or_and_self_right _ _

theorem write_interrupt_flag_top (ifr : Nat) (mem : EmuMemory D) (a v : Nat) :
    (write_interrupt_flag ifr mem a v).memory ifr &&& 0xE0 = 0xE0 := by
  simp only [write_interrupt_flag, if_true]
  exact if_value_top v

theorem apply_if_event_top (t : MemoryTables D)
    (hw : t.memory_write_table t.IFR = write_interrupt_flag t.IFR)
    (cpu : CPU D) (e : IFEvent) (he : if_event_ok t e)
    (h : cpu.mem.memory t.IFR &&& 0xE0 = 0xE0) :
    (apply_if_event t cpu e).mem.memory t.IFR &&& 0xE0 = 0xE0 := by
  cases e with
  | guest_write value =>
    simp only [apply_if_event, write_memory, hw]
    exact write_interrupt_flag_top _ _ _ _
  | request interrupt =>
    simp only [apply_if_event, request_interrupt, write_memory, hw]
    exact write_interrupt_flag_top _ _ _ _
  | service low address =>
    simp only [apply_if_event, int_exec, write_memory, hw]
    exact write_interrupt_flag_top _ _ _ _
  | other_write address value =>
    simp only [apply_if_event, write_memory]
    rw [he]
    exact h

theorem run_if_events_top (t : MemoryTables D)
    (hw : t.memory_write_table t.IFR = write_interrupt_flag t.IFR)
    (events : List IFEvent) (hev : ∀ e ∈ events, if_event_ok t e) :
    ∀ cpu : CPU D, cpu.mem.memory t.IFR &&& 0xE0 = 0xE0 →
      (run_if_events t cpu events).mem.memory t.IFR &&& 0xE0 = 0xE0 := by
  induction events with
  | nil => intro cpu h; exact h
  | cons e es ih =>
    intro cpu h
    have hes : ∀ x ∈ es, if_event_ok t x := fun x hx => hev x (List.mem_cons_of_mem _ hx)
    exact ih hes _ (apply_if_event_top t hw cpu e (hev e (List.mem_cons_self _ _)) h)

/-- C2: after the start-up code has written IF through the bus, every read of
the interrupt-flag register, through `read_memory` as well as through the raw
pointer `reg.IFR`, has bits 5..7 set, whatever sequence of guest writes to IF,
interrupt requests, interrupt-service completions and bus writes to other
addresses (whose handlers leave the IF byte alone) has happened since.  The
hypotheses are the entries `init_tables` installs for IF: the write handler
`write_interrupt_flag` and the read handler `default_read`. -/
theorem C2_interrupt_flag_top_bits (t : MemoryTables D)
    (hw : t.memory_write_table t.IFR = write_interrupt_flag t.IFR)
    (hr : t.memory_read_table t.IFR = default_read)
    (cpu : CPU D) (events : List IFEvent) (hev : ∀ e ∈ events, if_event_ok t e) :
    read_memory t (run_if_events t (dmg_bios_cpu_values t cpu) events).mem t.IFR &&& 0xE0 = 0xE0 ∧
    (run_if_events t (dmg_bios_cpu_values t cpu) events).mem.memory t.IFR &&& 0xE0 = 0xE0 := by
  have h0 : (dmg_bios_cpu_values t cpu).mem.memory t.IFR &&& 0xE0 = 0xE0 := by
    simp only [dmg_bios_cpu_values, write_memory, hw]
    exact write_interrupt_flag_top _ _ _ _
  have h1 := run_if_events_top t hw events hev _ h0
  refine ⟨?_, h1⟩
  simp only [read_memory, hr, default_read]
  exact top_bits_read _ _ h1

/-- Witness for C2: on the concrete I/O-page tables, after load, a guest write
of 0x00 to IF, a timer request, a write to HRAM and the end of a VBlank service,
IF reads 0xE4. -/
theorem C2_interrupt_flag_top_bits_witness :
    read_memory ioTables
      (run_if_events ioTables (dmg_bios_cpu_values ioTables (bootCpu (memOf 0 [])))
        [.guest_write 0x00, .request TIMER_INTERRUPT_CODE, .other_write 0xFF80 0x12,
         .service VBLANK_INTERRUPT_CODE VBLANK_VECTOR]).mem ioTables.IFR &&& 0xE0 = 0xE0 :=
  (C2_interrupt_flag_top_bits ioTables rfl rfl (bootCpu (memOf 0 []))
    [.guest_write 0x00, .request TIMER_INTERRUPT_CODE, .other_write 0xFF80 0x12,
     .service VBLANK_INTERRUPT_CODE VBLANK_VECTOR]
    (by
      intro e he
      simp only [List.mem_cons, List.mem_singleton, List.not_mem_nil, or_false] at he
      rcases he with rfl | rfl | rfl | rfl
      · trivial
      · trivial
      · intro mem value
        simp [ioTables, default_write]
      · trivial)).1

/-! ## C3 -/

theorem set_flag_eq (cpu : CPU D) (b : Bool) (m : Nat) :
    set_flag cpu b m = { cpu with reg := { cpu.reg with F := flag_value cpu.reg.F b m } } := by
  simp [set_flag, write_flag_reg, flag_value]

theorem flag_value_upper (f : Nat) (b : Bool) (m : Nat) :
    flag_value f b m = flag_value (f &&& 0xF0) b m := by
  unfold flag_value
  cases b
  · simp only [Bool.false_eq_true, if_false]
    rw [Nat.and_assoc, Nat.and_assoc, Nat.and_assoc]
    congr 1
    rw [Nat.and_comm (0xFF ^^^ m) 0xF0, ← Nat.and_assoc 0xF0, Nat.and_self]
  · simp only [if_true]
    rw [Nat.and_distrib_right, Nat.and_distrib_right, Nat.and_assoc, Nat.and_self]

set_option maxRecDepth 100000 in
theorem four_flags_le : ∀ g, g ≤ 0xF0 → ∀ z n h c : Bool,
    flag_value (flag_value (flag_value (flag_value g z ZERO_FLAG) n SUBTRACT_FLAG) h
      HALF_CARRY_FLAG) c CARRY_FLAG = flags_byte z n h c := by
  decide

theorem four_flags (f : Nat) (z n h c : Bool) :
    flag_value (flag_value (flag_value (flag_value f z ZERO_FLAG) n SUBTRACT_FLAG) h
      HALF_CARRY_FLAG) c CARRY_FLAG = flags_byte z n h c := by
  rw [flag_value_upper f]
  exact four_flags_le _ Nat.and_le_right z n h c

theorem flags_byte_read (z n h c : Bool) :
    decide (flags_byte z n h c &&& ZERO_FLAG ≠ 0) = z ∧
    decide (flags_byte z n h c &&& SUBTRACT_FLAG ≠ 0) = n ∧
    decide (flags_byte z n h c &&& HALF_CARRY_FLAG ≠ 0) = h ∧
    decide (flags_byte z n h c &&& CARRY_FLAG ≠ 0) = c ∧
    flags_byte z n h c &&& 0x0F = 0 := by
  cases z <;> cases n <;> cases h <;> cases c <;> decide

theorem reg_add_8_flags (cpu : CPU D) (a b : Nat) :
    (reg_add_8 cpu a b).2.reg.F =
      flags_byte (decide ((a + b) % 256 = 0)) false
        (decide ((a &&& 0xF) + (b &&& 0xF) > 0xF)) (decide (a + b > 0xFF)) := by
  simp only [reg_add_8, set_flag_eq, four_flags]

theorem reg_adc_8_flags (cpu : CPU D) (a b : Nat) :
    (reg_adc_8 cpu a b).2.reg.F =
      flags_byte (decide ((a + b + b2n (is_flag_set cpu CARRY_FLAG)) % 256 = 0)) false
        (decide ((a &&& 0xF) + (b &&& 0xF) + b2n (is_flag_set cpu CARRY_FLAG) > 0xF))
        (decide (a + b + b2n (is_flag_set cpu CARRY_FLAG) > 0xFF)) := by
  simp only [reg_adc_8, set_flag_eq, four_flags, b2n]

theorem reg_sub_8_flags (cpu : CPU D) (a b : Nat) :
    (reg_sub_8 cpu a b).2.reg.F =
      flags_byte (decide ((a + 0x100 - b) % 256 = 0)) true
        (decide ((a &&& 0xF) < (b &&& 0xF))) (decide (a < b)) := by
  simp only [reg_sub_8, set_flag_eq, four_flags]

theorem reg_sbc_8_flags (cpu : CPU D) (a b : Nat) :
    (reg_sbc_8 cpu a b).2.reg.F =
      flags_byte (decide ((a + 0x200 - b - b2n (is_flag_set cpu CARRY_FLAG)) % 256 = 0)) true
        (decide ((a &&& 0xF) < (b &&& 0xF) + b2n (is_flag_set cpu CARRY_FLAG)))
        (decide (a < b + b2n (is_flag_set cpu CARRY_FLAG))) := by
  simp only [reg_sbc_8, set_flag_eq, four_flags, b2n]

theorem reg_cp_8_flags (cpu : CPU D) (a b : Nat) :
    (reg_cp_8 cpu a b).reg.F =
      flags_byte (decide (a = b)) true (decide ((a &&& 0xF) < (b &&& 0xF))) (decide (a < b)) := by
  simp only [reg_cp_8, set_flag_eq, four_flags]

/-- C3: for all bytes `a`, `b` and the incoming carry `c` (the C flag of the
state, 0 or 1): ADC returns `(a+b+c) mod 256` with Z iff the result is 0, N=0,
H iff `(a&0xF)+(b&0xF)+c > 0xF`, C iff `a+b+c > 0xFF`; ADD is the same with
`c = 0` whatever the incoming carry; SBC returns `(a-b-c) mod 256` with Z iff
the result is 0, N=1, H iff `(a&0xF) < (b&0xF)+c`, C iff `a < b+c`; SUB is the
same with `c = 0`; CP leaves exactly the flags of SUB (Z iff `a = b`) and
changes nothing but `F`.  The flag register ends as the byte made of exactly
these four flags. -/
theorem C3_add_sub_flag_semantics (cpu : CPU D) (a b : Nat) (ha : a < 256) (hb : b < 256) :
    ((reg_adc_8 cpu a b).1 = (a + b + b2n (is_flag_set cpu CARRY_FLAG)) % 256 ∧
     (reg_adc_8 cpu a b).2.reg.F =
       flags_byte (decide ((reg_adc_8 cpu a b).1 = 0)) false
         (decide ((a &&& 0xF) + (b &&& 0xF) + b2n (is_flag_set cpu CARRY_FLAG) > 0xF))
         (decide (a + b + b2n (is_flag_set cpu CARRY_FLAG) > 0xFF))) ∧
    ((reg_add_8 cpu a b).1 = (a + b) % 256 ∧
     (reg_add_8 cpu a b).2.reg.F =
       flags_byte (decide ((reg_add_8 cpu a b).1 = 0)) false
         (decide ((a &&& 0xF) + (b &&& 0xF) > 0xF)) (decide (a + b > 0xFF))) ∧
    ((((reg_sbc_8 cpu a b).1 : Nat) : Int) =
        ((a : Int) - (b : Int) - (b2n (is_flag_set cpu CARRY_FLAG) : Int)) % 256 ∧
     (reg_sbc_8 cpu a b).2.reg.F =
       flags_byte (decide ((reg_sbc_8 cpu a b).1 = 0)) true
         (decide ((a &&& 0xF) < (b &&& 0xF) + b2n (is_flag_set cpu CARRY_FLAG)))
         (decide (a < b + b2n (is_flag_set cpu CARRY_FLAG)))) ∧
    ((((reg_sub_8 cpu a b).1 : Nat) : Int) = ((a : Int) - (b : Int)) % 256 ∧
     (reg_sub_8 cpu a b).2.reg.F =
       flags_byte (decide ((reg_sub_8 cpu a b).1 = 0)) true
         (decide ((a &&& 0xF) < (b &&& 0xF))) (decide (a < b))) ∧
    ((reg_cp_8 cpu a b).reg.F = (reg_sub_8 cpu a b).2.reg.F ∧
     (reg_cp_8 cpu a b).reg.F =
       flags_byte (decide (a = b)) true (decide ((a &&& 0xF) < (b &&& 0xF))) (decide (a < b)) ∧
     reg_cp_8 cpu a b = { cpu with reg := { cpu.reg with F := (reg_cp_8 cpu a b).reg.F } }) := by
  have hc : b2n (is_flag_set cpu CARRY_FLAG) ≤ 1 := by
    unfold b2n; split <;> omega
  have hzsub : decide ((a + 0x100 - b) % 256 = 0) = decide (a = b) := by
    apply decide_eq_decide.mpr
    omega
  refine ⟨⟨?_, ?_⟩, ⟨?_, ?_⟩, ⟨?_, ?_⟩, ⟨?_, ?_⟩, ?_, ?_, ?_⟩
  · simp only [reg_adc_8, b2n]
  · rw [reg_adc_8_flags]; simp only [reg_adc_8, b2n]
  · simp only [reg_add_8]
  · rw [reg_add_8_flags]; simp only [reg_add_8]
  · have : (reg_sbc_8 cpu a b).1 = (a + 0x200 - b - b2n (is_flag_set cpu CARRY_FLAG)) % 256 := by
      simp only [reg_sbc_8, b2n]
    rw [this]; omega
  · rw [reg_sbc_8_flags]; simp only [reg_sbc_8, b2n]
  · have : (reg_sub_8 cpu a b).1 = (a + 0x100 - b) % 256 := by
      simp only [reg_sub_8]
    rw [this]; omega
  · rw [reg_sub_8_flags]; simp only [reg_sub_8]
  · rw [reg_cp_8_flags, reg_sub_8_flags, hzsub]
  · exact reg_cp_8_flags cpu a b
  · simp only [reg_cp_8, set_flag_eq]

/-- Witness for C3: ADC of 0x3A and 0xC5 with carry in (F = 0x10) wraps to 0x00
with Z, H and C set. -/
theorem C3_add_sub_flag_semantics_witness :
    (reg_adc_8 (set_flag (bootCpu (memOf 0 [])) true CARRY_FLAG) 0x3A 0xC5).1 = 0 ∧
    (reg_adc_8 (set_flag (bootCpu (memOf 0 [])) true CARRY_FLAG) 0x3A 0xC5).2.reg.F = 0xB0 := by
  have h := (C3_add_sub_flag_semantics (set_flag (bootCpu (memOf 0 [])) true CARRY_FLAG)
    0x3A 0xC5 (by decide) (by decide)).1
  refine ⟨h.1.trans (by decide), h.2.trans (by decide)⟩

/-! ## C4 -/

theorem flag_value_flags_byte (z n h c b : Bool) :
    flag_value (flags_byte z n h c) b ZERO_FLAG = flags_byte b n h c ∧
    flag_value (flags_byte z n h c) b SUBTRACT_FLAG = flags_byte z b h c ∧
    flag_value (flags_byte z n h c) b HALF_CARRY_FLAG = flags_byte z n b c ∧
    flag_value (flags_byte z n h c) b CARRY_FLAG = flags_byte z n h b := by
  cases z <;> cases n <;> cases h <;> cases c <;> cases b <;> decide

theorem daa_after_add (t : MemoryTables D) (cpu : CPU D) (z h c : Bool)
    (hf : cpu.reg.F = flags_byte z false h c) :
    (daa t cpu).2.reg.A =
      (cpu.reg.A + ((if h || decide (cpu.reg.A &&& 0x0F > 9) then 6 else 0) +
        (if c || decide (cpu.reg.A > 0x99) then 0x60 else 0))) % 256 ∧
    (daa t cpu).2.reg.F =
      flags_byte (decide ((daa t cpu).2.reg.A = 0)) false false
        (c || decide (cpu.reg.A > 0x99)) := by
  have rd := flags_byte_read z false h c
  have hA : (daa t cpu).2.reg.A =
      (cpu.reg.A + ((if h || decide (cpu.reg.A &&& 0x0F > 9) then 6 else 0) +
        (if c || decide (cpu.reg.A > 0x99) then 0x60 else 0))) % 256 := by
    unfold daa
    simp only [is_flag_set, set_flag_eq, hf, rd.1, rd.2.1, rd.2.2.1, rd.2.2.2.1]
    generalize decide (cpu.reg.A &&& 0x0F > 9) = p9
    generalize decide (cpu.reg.A > 0x99) = p99
    cases h <;> cases c <;> cases p9 <;> cases p99 <;> rfl
  refine ⟨hA, ?_⟩
  generalize hz : decide ((daa t cpu).2.reg.A = 0) = zA
  revert hz
  unfold daa
  simp only [is_flag_set, set_flag_eq, hf, rd.1, rd.2.1, rd.2.2.1, rd.2.2.2.1]
  generalize decide (cpu.reg.A &&& 0x0F > 9) = p9
  generalize decide (cpu.reg.A > 0x99) = p99
  cases h <;> cases c <;> cases p9 <;> cases p99 <;>
    (intro hz; simp only [Bool.not_false, Bool.or_false, Bool.or_true, Bool.false_or,
      Bool.true_or, if_true, if_false, Bool.false_eq_true] at hz ⊢
     rw [hz, (flag_value_flags_byte _ _ _ _ _).2.2.2, (flag_value_flags_byte _ _ _ _ _).1,
       (flag_value_flags_byte _ _ _ _ _).2.2.1])

theorem daa_after_sub (t : MemoryTables D) (cpu : CPU D) (z h c : Bool)
    (hf : cpu.reg.F = flags_byte z true h c) :
    (daa t cpu).2.reg.A =
      (cpu.reg.A + 0x100 - ((if h then 6 else 0) + (if c then 0x60 else 0))) % 256 ∧
    (daa t cpu).2.reg.F = flags_byte (decide ((daa t cpu).2.reg.A = 0)) true false c := by
  have rd := flags_byte_read z true h c
  have hA : (daa t cpu).2.reg.A =
      (cpu.reg.A + 0x100 - ((if h then 6 else 0) + (if c then 0x60 else 0))) % 256 := by
    unfold daa
    simp only [is_flag_set, set_flag_eq, hf, rd.1, rd.2.1, rd.2.2.1, rd.2.2.2.1]
    cases h <;> cases c <;> rfl
  refine ⟨hA, ?_⟩
  generalize hz : decide ((daa t cpu).2.reg.A = 0) = zA
  revert hz
  unfold daa
  simp only [is_flag_set, set_flag_eq, hf, rd.1, rd.2.1, rd.2.2.1, rd.2.2.2.1]
  cases h <;> cases c <;>
    (intro hz; simp only [Bool.not_true, if_true, if_false, Bool.false_eq_true] at hz ⊢
     rw [hz, (flag_value_flags_byte _ _ _ _ _).1, (flag_value_flags_byte _ _ _ _ _).2.2.1])

theorem and_15 (x : Nat) : x &&& 0x0F = x % 16 := Nat.and_pow_two_sub_one_eq_mod x 4

set_option maxRecDepth 100000 in
theorem bcd_add_digits : ∀ sl, sl ≤ 18 → ∀ sh, sh ≤ 18 →
    ((16 * sh + sl) % 256 +
        ((if (sl > 15) ∨ ((16 * sh + sl) % 256 % 16 > 9) then 6 else 0) +
         (if (16 * sh + sl > 255) ∨ ((16 * sh + sl) % 256 > 153) then 96 else 0))) % 256 =
      ((10 * sh + sl) % 100) / 10 * 16 + ((10 * sh + sl) % 100) % 10 ∧
    (((16 * sh + sl > 255) ∨ ((16 * sh + sl) % 256 > 153)) ↔ 10 * sh + sl ≥ 100) := by
  decide!

set_option maxRecDepth 100000 in
theorem bcd_sub_digits : ∀ dl, dl ≤ 18 → ∀ dh, dh ≤ 18 →
    ((16 * dh + dl + 103) % 256 + 256 -
        ((if dl < 9 then 6 else 0) + (if 16 * dh + dl < 153 then 96 else 0))) % 256 =
      ((10 * dh + dl + 1) % 100) / 10 * 16 + ((10 * dh + dl + 1) % 100) % 10 ∧
    ((16 * dh + dl < 153) ↔ 10 * dh + dl < 99) := by
  decide!

theorem bcd_add_arith (a b : Nat) (ha : valid_bcd a) (hb : valid_bcd b) :
    ((a + b) % 256 +
        ((if (a % 16 + b % 16 > 15) ∨ ((a + b) % 256 % 16 > 9) then 6 else 0) +
         (if (a + b > 255) ∨ ((a + b) % 256 > 153) then 96 else 0))) % 256 =
      to_bcd ((from_bcd a + from_bcd b) % 100) ∧
    (((a + b > 255) ∨ ((a + b) % 256 > 153)) ↔ from_bcd a + from_bcd b ≥ 100) := by
  obtain ⟨ha1, ha2⟩ := ha
  obtain ⟨hb1, hb2⟩ := hb
  unfold to_bcd from_bcd
  have h := bcd_add_digits (a % 16 + b % 16) (by omega) (a / 16 + b / 16) (by omega)
  have e1 : 16 * (a / 16 + b / 16) + (a % 16 + b % 16) = a + b := by omega
  have e2 : 10 * (a / 16 + b / 16) + (a % 16 + b % 16) =
      (a / 16 * 10 + a % 16) + (b / 16 * 10 + b % 16) := by omega
  rw [e1, e2] at h
  exact h

theorem bcd_sub_arith (a b : Nat) (ha : valid_bcd a) (hb : valid_bcd b) :
    ((a + 256 - b) % 256 + 256 -
        ((if (a % 16 < b % 16) then 6 else 0) + (if (a < b) then 96 else 0))) % 256 =
      to_bcd ((from_bcd a + 100 - from_bcd b) % 100) ∧
    ((a < b) ↔ from_bcd a < from_bcd b) := by
  obtain ⟨ha1, ha2⟩ := ha
  obtain ⟨hb1, hb2⟩ := hb
  unfold to_bcd from_bcd
  have h := bcd_sub_digits (a % 16 + 9 - b % 16) (by omega) (a / 16 + 9 - b / 16) (by omega)
  have e1 : 16 * (a / 16 + 9 - b / 16) + (a % 16 + 9 - b % 16) + 103 = a + 256 - b := by omega
  have e2 : 10 * (a / 16 + 9 - b / 16) + (a % 16 + 9 - b % 16) + 1 =
      (a / 16 * 10 + a % 16) + 100 - (b / 16 * 10 + b % 16) := by omega
  have e3 : (a % 16 + 9 - b % 16 < 9) ↔ (a % 16 < b % 16) := by omega
  have e4 : (16 * (a / 16 + 9 - b / 16) + (a % 16 + 9 - b % 16) < 153) ↔ (a < b) := by omega
  have e5 : (10 * (a / 16 + 9 - b / 16) + (a % 16 + 9 - b % 16) < 99) ↔
      (a / 16 * 10 + a % 16) < (b / 16 * 10 + b % 16) := by omega
  rw [e1, e2] at h
  simp only [e3, e4, e5] at h
  exact h

theorem is_flag_set_flags_byte (cpu : CPU D) (z n h c : Bool)
    (hf : cpu.reg.F = flags_byte z n h c) :
    is_flag_set cpu ZERO_FLAG = z ∧ is_flag_set cpu SUBTRACT_FLAG = n ∧
    is_flag_set cpu HALF_CARRY_FLAG = h ∧ is_flag_set cpu CARRY_FLAG = c := by
  have rd := flags_byte_read z n h c
  simp only [is_flag_set, hf]
  exact ⟨rd.1, rd.2.1, rd.2.2.1, rd.2.2.2.1⟩

theorem add_a_b_reg (t : MemoryTables D) (cpu : CPU D) :
    (add_a_b t cpu).2.reg.A = (cpu.reg.A + cpu.reg.B) % 256 ∧
    (add_a_b t cpu).2.reg.F =
      flags_byte (decide ((cpu.reg.A + cpu.reg.B) % 256 = 0)) false
        (decide ((cpu.reg.A &&& 0xF) + (cpu.reg.B &&& 0xF) > 0xF))
        (decide (cpu.reg.A + cpu.reg.B > 0xFF)) := by
  refine ⟨by simp only [add_a_b, reg_add_8], ?_⟩
  have h := reg_add_8_flags cpu cpu.reg.A cpu.reg.B
  simpa only [add_a_b] using h

theorem sub_a_b_reg (t : MemoryTables D) (cpu : CPU D) :
    (sub_a_b t cpu).2.reg.A = (cpu.reg.A + 0x100 - cpu.reg.B) % 256 ∧
    (sub_a_b t cpu).2.reg.F =
      flags_byte (decide ((cpu.reg.A + 0x100 - cpu.reg.B) % 256 = 0)) true
        (decide ((cpu.reg.A &&& 0xF) < (cpu.reg.B &&& 0xF)))
        (decide (cpu.reg.A < cpu.reg.B)) := by
  refine ⟨by simp only [sub_a_b, reg_sub_8], ?_⟩
  have h := reg_sub_8_flags cpu cpu.reg.A cpu.reg.B
  simpa only [sub_a_b] using h

theorem daa_add_bcd (t : MemoryTables D) (cpu : CPU D)
    (ha : valid_bcd cpu.reg.A) (hb : valid_bcd cpu.reg.B) :
    (daa t (add_a_b t cpu).2).2.reg.A =
      to_bcd ((from_bcd cpu.reg.A + from_bcd cpu.reg.B) % 100) ∧
    (daa t (add_a_b t cpu).2).2.reg.F =
      flags_byte (decide ((daa t (add_a_b t cpu).2).2.reg.A = 0)) false false
        (decide (from_bcd cpu.reg.A + from_bcd cpu.reg.B ≥ 100)) := by
  obtain ⟨hA1, hF1⟩ := add_a_b_reg t cpu
  obtain ⟨hA2, hF2⟩ := daa_after_add t (add_a_b t cpu).2 _ _ _ hF1
  obtain ⟨e1, e2⟩ := bcd_add_arith cpu.reg.A cpu.reg.B ha hb
  have hA : (daa t (add_a_b t cpu).2).2.reg.A =
      to_bcd ((from_bcd cpu.reg.A + from_bcd cpu.reg.B) % 100) := by
    rw [hA2, hA1, ← e1]
    simp only [and_15, Bool.or_eq_true, decide_eq_true_eq]
  refine ⟨hA, ?_⟩
  rw [hF2, hA1]
  congr 1
  rw [Bool.eq_iff_iff]
  simp only [Bool.or_eq_true, decide_eq_true_eq]
  exact e2

theorem daa_sub_bcd (t : MemoryTables D) (cpu : CPU D)
    (ha : valid_bcd cpu.reg.A) (hb : valid_bcd cpu.reg.B) :
    (daa t (sub_a_b t cpu).2).2.reg.A =
      to_bcd ((from_bcd cpu.reg.A + 100 - from_bcd cpu.reg.B) % 100) ∧
    (daa t (sub_a_b t cpu).2).2.reg.F =
      flags_byte (decide ((daa t (sub_a_b t cpu).2).2.reg.A = 0)) true false
        (decide (from_bcd cpu.reg.A < from_bcd cpu.reg.B)) := by
  obtain ⟨hA1, hF1⟩ := sub_a_b_reg t cpu
  obtain ⟨hA2, hF2⟩ := daa_after_sub t (sub_a_b t cpu).2 _ _ _ hF1
  obtain ⟨e1, e2⟩ := bcd_sub_arith cpu.reg.A cpu.reg.B ha hb
  have hA : (daa t (sub_a_b t cpu).2).2.reg.A =
      to_bcd ((from_bcd cpu.reg.A + 100 - from_bcd cpu.reg.B) % 100) := by
    rw [hA2, hA1, ← e1]
    simp only [and_15, decide_eq_true_eq]
  refine ⟨hA, ?_⟩
  rw [hF2]
  congr 1
  rw [Bool.eq_iff_iff]
  simp only [decide_eq_true_eq]
  exact e2

/-- C4: for packed-BCD bytes `a` in A and `b` in B (both nibbles at most 9),
ADD A,B followed by DAA leaves A equal to the packed BCD of
`(dec a + dec b) mod 100` with C set iff `dec a + dec b >= 100`, and SUB A,B
followed by DAA leaves A equal to the packed BCD of `(dec a - dec b) mod 100`
with C set iff `dec a < dec b`; in both cases Z is set iff A is 0, H is cleared
and DAA leaves N as the ADD / SUB set it. -/
theorem C4_daa_bcd_adjust (t : MemoryTables D) (cpu : CPU D)
    (ha : valid_bcd cpu.reg.A) (hb : valid_bcd cpu.reg.B) :
    ((daa t (add_a_b t cpu).2).2.reg.A =
        to_bcd ((from_bcd cpu.reg.A + from_bcd cpu.reg.B) % 100) ∧
     is_flag_set (daa t (add_a_b t cpu).2).2 CARRY_FLAG =
        decide (from_bcd cpu.reg.A + from_bcd cpu.reg.B ≥ 100) ∧
     is_flag_set (daa t (add_a_b t cpu).2).2 ZERO_FLAG =
        decide ((daa t (add_a_b t cpu).2).2.reg.A = 0) ∧
     is_flag_set (daa t (add_a_b t cpu).2).2 HALF_CARRY_FLAG = false ∧
     is_flag_set (daa t (add_a_b t cpu).2).2 SUBTRACT_FLAG =
        is_flag_set (add_a_b t cpu).2 SUBTRACT_FLAG) ∧
    ((daa t (sub_a_b t cpu).2).2.reg.A =
        to_bcd ((from_bcd cpu.reg.A + 100 - from_bcd cpu.reg.B) % 100) ∧
     is_flag_set (daa t (sub_a_b t cpu).2).2 CARRY_FLAG =
        decide (from_bcd cpu.reg.A < from_bcd cpu.reg.B) ∧
     is_flag_set (daa t (sub_a_b t cpu).2).2 ZERO_FLAG =
        decide ((daa t (sub_a_b t cpu).2).2.reg.A = 0) ∧
     is_flag_set (daa t (sub_a_b t cpu).2).2 HALF_CARRY_FLAG = false ∧
     is_flag_set (daa t (sub_a_b t cpu).2).2 SUBTRACT_FLAG =
        is_flag_set (sub_a_b t cpu).2 SUBTRACT_FLAG) := by
  obtain ⟨hA, hF⟩ := daa_add_bcd t cpu ha hb
  obtain ⟨hA', hF'⟩ := daa_sub_bcd t cpu ha hb
  obtain ⟨r1, r2, r3, r4⟩ := is_flag_set_flags_byte _ _ _ _ _ hF
  obtain ⟨s1, s2, s3, s4⟩ := is_flag_set_flags_byte _ _ _ _ _ hF'
  obtain ⟨_, n1, _, _⟩ := is_flag_set_flags_byte _ _ _ _ _ (add_a_b_reg t cpu).2
  obtain ⟨_, n2, _, _⟩ := is_flag_set_flags_byte _ _ _ _ _ (sub_a_b_reg t cpu).2
  exact ⟨⟨hA, r4, r1, r3, r2.trans n1.symm⟩, ⟨hA', s4, s1, s3, s2.trans n2.symm⟩⟩

/-- Witness for C4: with A = 0x58 and B = 0x67 (58 and 67), ADD then DAA gives
0x25 with carry (125), SUB then DAA gives 0x91 with borrow (58 - 67 = -9). -/
theorem C4_daa_bcd_adjust_witness :
    (daa ioTables (add_a_b ioTables { afCpu 0x58 0xB0 with
        reg := { (afCpu 0x58 0xB0).reg with B := 0x67 } }).2).2.reg.A = 0x25 ∧
    (daa ioTables (sub_a_b ioTables { afCpu 0x58 0xB0 with
        reg := { (afCpu 0x58 0xB0).reg with B := 0x67 } }).2).2.reg.A = 0x91 := by
  have h := C4_daa_bcd_adjust ioTables
    { afCpu 0x58 0xB0 with reg := { (afCpu 0x58 0xB0).reg with B := 0x67 } }
    (by unfold valid_bcd; decide) (by unfold valid_bcd; decide)
  exact ⟨h.1.1.trans (by decide), h.2.1.trans (by decide)⟩

/-! ## C5 -/

theorem shl_or_eq (hi lo : Nat) (hl : lo < 256) : (hi <<< 8) ||| lo = 256 * hi + lo := by
  have h : lo < 2 ^ 8 := hl
  have e := Nat.mul_add_lt_is_or h hi
  rw [Nat.shiftLeft_eq, Nat.mul_comm]
  exact e.symm

theorem and_255 (x : Nat) : x &&& 0xFF = x % 256 := Nat.and_pow_two_sub_one_eq_mod x 8

theorem machine_cycle_halted (t : MemoryTables D) (cpu : CPU D) (hh : cpu.halted = true)
    (hp : get_pending_interrupts t cpu = 0) : machine_cycle t cpu = cpu := by
  have e : check_pending_interrupts t cpu = cpu := by
    unfold check_pending_interrupts
    simp only [hh, if_true, hp, decide_True]
    rw [← hh]
  unfold machine_cycle
  simp only [e, hh, Bool.or_true, if_true]

theorem machine_cycles_halted (t : MemoryTables D) (cpu : CPU D) (hh : cpu.halted = true)
    (hp : get_pending_interrupts t cpu = 0) (n : Nat) : machine_cycles t n cpu = cpu := by
  induction n with
  | zero => rfl
  | succ n ih => rw [machine_cycles, machine_cycle_halted t cpu hh hp, ih]

/-- C6: HALT executed with IME = 0 and `IF & IE & 0x1F` non-zero completes
without halting and sets the halt-bug latch, leaving the registers alone; a
fetch with the latch set (the opcode fetch of `next_ins` included) returns the
byte at PC, leaves PC where it is and clears the latch, and a fetch with the
latch clear returns the byte at PC, increments PC and leaves the latch clear,
so the fetch following the latched one reads the same byte again and increments
PC. HALT executed with nothing pending halts the CPU without touching the
latch; while the CPU is halted and nothing is pending, any number of
`machine_cycle` calls leaves the whole CPU state unchanged, and once something
is pending `check_pending_interrupts` clears `halted`. -/
theorem C6_halt_bug (t : MemoryTables D) (cpu : CPU D) :
    (cpu.ime = false → get_pending_interrupts t cpu ≠ 0 →
      halt t cpu = (true, { cpu with halt_bug_active := true, halted := false })) ∧
    (cpu.halt_bug_active = true →
      (fetch t cpu).1 = read_memory t cpu.mem cpu.reg.PC ∧
      (fetch t cpu).2 = { cpu with halt_bug_active := false } ∧
      (next_ins t cpu).ins.opcode = read_memory t cpu.mem cpu.reg.PC ∧
      (next_ins t cpu).reg.PC = cpu.reg.PC ∧
      (next_ins t cpu).halt_bug_active = false ∧
      (fetch t (fetch t cpu).2).1 = read_memory t cpu.mem cpu.reg.PC ∧
      (fetch t (fetch t cpu).2).2.reg.PC = (cpu.reg.PC + 1) % 65536 ∧
      (fetch t (fetch t cpu).2).2.halt_bug_active = false) ∧
    (cpu.halt_bug_active = false →
      (fetch t cpu).1 = read_memory t cpu.mem cpu.reg.PC ∧
      (fetch t cpu).2.reg.PC = (cpu.reg.PC + 1) % 65536 ∧
      (fetch t cpu).2.halt_bug_active = false ∧
      (next_ins t cpu).reg.PC = (cpu.reg.PC + 1) % 65536 ∧
      (next_ins t cpu).halt_bug_active = false) ∧
    (get_pending_interrupts t cpu = 0 →
      halt t cpu = (true, { cpu with halted := true })) ∧
    (cpu.halted = true → get_pending_interrupts t cpu = 0 →
      ∀ n, machine_cycles t n cpu = cpu) ∧
    (cpu.halted = true → get_pending_interrupts t cpu ≠ 0 →
      (check_pending_interrupts t cpu).halted = false) := by
  refine ⟨?_, ?_, ?_, ?_, ?_, ?_⟩
  · intro hi hp
    unfold halt
    simp only [hi, hp, ne_eq, not_false_eq_true, and_self, if_true]
  · intro hl
    refine ⟨?_, ?_, ?_, ?_, ?_, ?_, ?_, ?_⟩ <;>
      simp [fetch, next_ins, reset_ins, hl] <;> split <;> simp
  · intro hl
    refine ⟨?_, ?_, ?_, ?_, ?_⟩ <;>
      simp [fetch, next_ins, reset_ins, hl] <;> split <;> simp
  · intro hp
    unfold halt
    simp only [hp, ne_eq, not_true_eq_false, and_false, if_false, decide_True]
  · intro hh hp n
    exact machine_cycles_halted t cpu hh hp n
  · intro hh hp
    unfold check_pending_interrupts
    simp only [hh, if_true, hp, decide_False]

/-- Witness for C6: on the program `HALT; INC A` with IME = 0 and a V-blank
interrupt pending, HALT sets the latch and the next opcode fetch leaves PC at
0x0101; run on the machine, INC A is executed twice (A goes from 1 to 3) while
PC advances once; a halted machine with nothing pending stays as it is. -/
theorem C6_halt_bug_witness :
    halt ioTables (check_ins ioTables haltProg) =
      (true, { check_ins ioTables haltProg with halt_bug_active := true, halted := false }) ∧
    (next_ins ioTables (machine_cycles ioTables 1 haltProg)).reg.PC = 0x0101 ∧
    (machine_cycles ioTables 1 haltProg).reg.PC = 0x0101 ∧
    (machine_cycles ioTables 2 haltProg).reg.PC = 0x0101 ∧
    (machine_cycles ioTables 3 haltProg).reg.PC = 0x0102 ∧
    (machine_cycles ioTables 3 haltProg).reg.A = 3 ∧
    machine_cycles ioTables 5 haltedCpu = haltedCpu :=
  ⟨(C6_halt_bug ioTables (check_ins ioTables haltProg)).1 (by decide!) (by decide!),
   ((C6_halt_bug ioTables (machine_cycles ioTables 1 haltProg)).2.1 (by decide!)).2.2.2.1.trans
     (by decide!),
   by decide!, by decide!, by decide!, by decide!,
   (C6_halt_bug ioTables haltedCpu).2.2.2.2.1 (by decide!) (by decide!) 5⟩

/-! ## C7 -/

theorem encode_interrupt_frame (cpu : CPU D) (p : Nat) :
    encode_interrupt cpu p =
      { cpu with ins := { cpu.ins with
          address := (encode_interrupt cpu p).ins.address,
          low := (encode_interrupt cpu p).ins.low } } := by
  unfold encode_interrupt
  repeat' split
  all_goals rfl

theorem service_interrupts_taken (t : MemoryTables D) (cpu : CPU D)
    (hime : cpu.ime = true) (hp : get_pending_interrupts t cpu ≠ 0) :
    (service_interrupts t cpu).1 = true ∧
    (service_interrupts t cpu).2 =
      { cpu with
        ime := false
        ins := { cpu.ins with
          address := (service_interrupts t cpu).2.ins.address
          duration := 0, length := 1
          low := (service_interrupts t cpu).2.ins.low
          high := 0, opcode := 0, executed := false, handler := .int_exec } } := by
  unfold service_interrupts
  simp only [hime, hp, Bool.not_true, Bool.false_or, decide_False, if_false, Bool.false_eq_true,
    true_and]
  rw [encode_interrupt_frame]
  simp [reset_ins]


theorem pending_zero_of_no_bit : ∀ p, p < 32 → (p &&& 1 = 0 ∧ p &&& 2 = 0 ∧ p &&& 4 = 0 ∧
    p &&& 8 = 0 ∧ p &&& 16 = 0) → p = 0 := by
  decide!

theorem get_pending_interrupts_lt (t : MemoryTables D) (cpu : CPU D) :
    get_pending_interrupts t cpu < 32 := by
  unfold get_pending_interrupts
  exact lt_of_le_of_lt (le_trans Nat.and_le_left Nat.and_le_right) (by decide)

theorem encode_interrupt_selects (cpu : CPU D) (p : Nat) (hlt : p < 32) (hp : p ≠ 0) :
    p &&& (encode_interrupt cpu p).ins.low ≠ 0 ∧
    ((encode_interrupt cpu p).ins.low, (encode_interrupt cpu p).ins.address) ∈
      [(VBLANK_INTERRUPT_CODE, VBLANK_VECTOR), (LCD_STAT_INTERRUPT_CODE, LCD_VECTOR),
       (TIMER_INTERRUPT_CODE, TIMER_VECTOR), (SERIAL_INTERRUPT_CODE, SERIAL_VECTOR),
       (JOYPAD_INTERRUPT_CODE, JOYPAD_VECTOR)] := by
  unfold encode_interrupt
  split
  · next h => exact ⟨h, by simp⟩
  split
  · next h => exact ⟨h, by simp⟩
  split
  · next h => exact ⟨h, by simp⟩
  split
  · next h => exact ⟨h, by simp⟩
  split
  · next h => exact ⟨h, by simp⟩
  · next h1 h2 h3 h4 h5 =>
    exact absurd (pending_zero_of_no_bit p hlt ⟨not_not.mp h1, not_not.mp h2, not_not.mp h3,
      not_not.mp h4, not_not.mp h5⟩) hp

set_option maxRecDepth 100000 in
theorem clear_serviced_bit : ∀ x, x < 256 → x &&& 0xE0 = 0xE0 →
    ∀ low ∈ [VBLANK_INTERRUPT_CODE, LCD_STAT_INTERRUPT_CODE, TIMER_INTERRUPT_CODE,
      SERIAL_INTERRUPT_CODE, JOYPAD_INTERRUPT_CODE],
    0xE0 ||| ((x &&& (0xFF ^^^ low)) &&& 0x1F) = x &&& (0xFF ^^^ low) := by
  decide!

theorem int_service_cycles (t : MemoryTables D) (cpu : CPU D)
    (hrun : cpu.running = true) (hh : cpu.halted = false)
    (hex : cpu.ins.executed = true) (hcb : cpu.ins.cb_prefixed = false)
    (hime : cpu.ime = true) (hsch : cpu.ime_scheduled = false)
    (hp : get_pending_interrupts t cpu ≠ 0) :
    machine_cycles t 1 cpu =
      { (service_interrupts t cpu).2 with
        ins := { (service_interrupts t cpu).2.ins with duration := 1 } } ∧
    machine_cycles t 2 cpu =
      { (service_interrupts t cpu).2 with
        ins := { (service_interrupts t cpu).2.ins with duration := 2 } } ∧
    (get_pending_interrupts t (push_stack t (service_interrupts t cpu).2
        ((cpu.reg.PC >>> BYTE) &&& LOWER_BYTE_MASK)) = 0 →
      machine_cycles t 3 cpu =
        { (service_interrupts t cpu).2 with
          reg := { cpu.reg with SP := dec16 cpu.reg.SP, PC := 0x0000 }
          mem := write_memory t cpu.mem (dec16 cpu.reg.SP)
            ((cpu.reg.PC >>> BYTE) &&& LOWER_BYTE_MASK)
          ins := { (service_interrupts t cpu).2.ins with duration := 3, executed := true } }) ∧
    (get_pending_interrupts t (push_stack t (service_interrupts t cpu).2
        ((cpu.reg.PC >>> BYTE) &&& LOWER_BYTE_MASK)) &&&
        (service_interrupts t cpu).2.ins.low ≠ 0 →
      machine_cycles t 3 cpu =
        { (service_interrupts t cpu).2 with
          reg := { cpu.reg with SP := dec16 cpu.reg.SP }
          mem := write_memory t cpu.mem (dec16 cpu.reg.SP)
            ((cpu.reg.PC >>> BYTE) &&& LOWER_BYTE_MASK)
          ins := { (service_interrupts t cpu).2.ins with duration := 3 } } ∧
      machine_cycles t 4 cpu =
        { (service_interrupts t cpu).2 with
          reg := { cpu.reg with SP := dec16 (dec16 cpu.reg.SP) }
          mem := write_memory t
            (write_memory t cpu.mem (dec16 cpu.reg.SP)
              ((cpu.reg.PC >>> BYTE) &&& LOWER_BYTE_MASK))
            (dec16 (dec16 cpu.reg.SP)) (cpu.reg.PC &&& LOWER_BYTE_MASK)
          ins := { (service_interrupts t cpu).2.ins with duration := 4 } } ∧
      machine_cycles t 5 cpu =
        { (service_interrupts t cpu).2 with
          reg := { cpu.reg with SP := dec16 (dec16 cpu.reg.SP),
                                PC := (service_interrupts t cpu).2.ins.address }
          mem := write_memory t (machine_cycles t 4 cpu).mem t.IFR
            ((machine_cycles t 4 cpu).mem.memory t.IFR &&&
              (0xFF ^^^ (service_interrupts t cpu).2.ins.low))
          ins := { (service_interrupts t cpu).2.ins with duration := 5, executed := true } }) := by
  obtain ⟨h1, h2⟩ := service_interrupts_taken t cpu hime hp
  generalize (service_interrupts t cpu).2.ins.address = va at h2 ⊢
  generalize (service_interrupts t cpu).2.ins.low = vl at h2 ⊢
  refine ⟨?_, ?_, ?_, ?_⟩
  · simp [machine_cycles, machine_cycle, check_pending_interrupts, check_ins, execute_ins,
      dispatch, int_exec, hrun, hh, hex, hcb, hsch, h1, h2]
  · simp [machine_cycles, machine_cycle, check_pending_interrupts, check_ins, execute_ins,
      dispatch, int_exec, hrun, hh, hex, hcb, hsch, h1, h2]
  · intro hp3
    simp only [get_pending_interrupts, push_stack, h2] at hp3
    simp [machine_cycles, machine_cycle, check_pending_interrupts, check_ins, execute_ins,
      dispatch, int_exec, hrun, hh, hex, hcb, hsch, h1, h2, push_stack, get_pending_interrupts,
      hp3]
  · intro hp3
    have hp3n : get_pending_interrupts t (push_stack t (service_interrupts t cpu).2
        ((cpu.reg.PC >>> BYTE) &&& LOWER_BYTE_MASK)) ≠ 0 := by
      intro h0
      rw [h0, Nat.zero_and] at hp3
      exact hp3 rfl
    simp only [get_pending_interrupts, push_stack, h2] at hp3 hp3n
    simp [machine_cycles, machine_cycle, check_pending_interrupts, check_ins, execute_ins,
      dispatch, int_exec, hrun, hh, hex, hcb, hsch, h1, h2, push_stack, get_pending_interrupts,
      hp3, hp3n]

/-- C7: let the CPU be running at an instruction boundary with IME = 1 and an
interrupt pending (no enable scheduled). `machine_cycle` then starts the
service of a pending interrupt, whose code and vector are latched in
`ins.low` / `ins.address`. The first two m-cycles do not complete; the third
pushes the high byte of PC. If `IF & IE & 0x1F` is zero once that byte has been
written, the service is complete after that third m-cycle with PC = 0x0000 and
IME = 0, SP decremented once, and the memory is the one left by that single
push (the low byte is not pushed and no write to IF is issued). If the latched
interrupt is still pending, the service completes after exactly five m-cycles:
PC high then PC low are pushed, PC is the vector, IME = 0, and the last m-cycle
writes `IF & ~code` to IF; through `write_interrupt_flag` the IF byte then
holds its low five bits with the serviced bit cleared under the top bits
0xE0, which for an IF byte that already had the top bits set is `IF & ~code`. -/
theorem C7_interrupt_service (t : MemoryTables D) (cpu : CPU D)
    (hrun : cpu.running = true) (hh : cpu.halted = false)
    (hex : cpu.ins.executed = true) (hcb : cpu.ins.cb_prefixed = false)
    (hime : cpu.ime = true) (hsch : cpu.ime_scheduled = false)
    (hp : get_pending_interrupts t cpu ≠ 0) :
    (get_pending_interrupts t cpu &&& (machine_cycles t 1 cpu).ins.low ≠ 0 ∧
     ((machine_cycles t 1 cpu).ins.low, (machine_cycles t 1 cpu).ins.address) ∈
       [(VBLANK_INTERRUPT_CODE, VBLANK_VECTOR), (LCD_STAT_INTERRUPT_CODE, LCD_VECTOR),
        (TIMER_INTERRUPT_CODE, TIMER_VECTOR), (SERIAL_INTERRUPT_CODE, SERIAL_VECTOR),
        (JOYPAD_INTERRUPT_CODE, JOYPAD_VECTOR)] ∧
     (machine_cycles t 1 cpu).ins.handler = .int_exec ∧
     (machine_cycles t 1 cpu).ins.executed = false ∧
     (machine_cycles t 2 cpu).ins.executed = false ∧
     (machine_cycles t 2 cpu).reg = cpu.reg ∧
     (machine_cycles t 2 cpu).mem = cpu.mem) ∧
    (get_pending_interrupts t { cpu with
        mem := write_memory t cpu.mem (dec16 cpu.reg.SP)
          ((cpu.reg.PC >>> BYTE) &&& LOWER_BYTE_MASK) } = 0 →
      (machine_cycles t 3 cpu).ins.executed = true ∧
      (machine_cycles t 3 cpu).reg.PC = 0x0000 ∧
      (machine_cycles t 3 cpu).ime = false ∧
      (machine_cycles t 3 cpu).reg.SP = dec16 cpu.reg.SP ∧
      (machine_cycles t 3 cpu).mem =
        write_memory t cpu.mem (dec16 cpu.reg.SP) ((cpu.reg.PC >>> BYTE) &&& LOWER_BYTE_MASK)) ∧
    (get_pending_interrupts t { cpu with
        mem := write_memory t cpu.mem (dec16 cpu.reg.SP)
          ((cpu.reg.PC >>> BYTE) &&& LOWER_BYTE_MASK) } &&&
        (machine_cycles t 1 cpu).ins.low ≠ 0 →
      (machine_cycles t 3 cpu).ins.executed = false ∧
      (machine_cycles t 4 cpu).ins.executed = false ∧
      (machine_cycles t 5 cpu).ins.executed = true ∧
      (machine_cycles t 4 cpu).mem =
        write_memory t
          (write_memory t cpu.mem (dec16 cpu.reg.SP) ((cpu.reg.PC >>> BYTE) &&& LOWER_BYTE_MASK))
          (dec16 (dec16 cpu.reg.SP)) (cpu.reg.PC &&& LOWER_BYTE_MASK) ∧
      (machine_cycles t 5 cpu).reg.PC = (machine_cycles t 1 cpu).ins.address ∧
      (machine_cycles t 5 cpu).reg.SP = dec16 (dec16 cpu.reg.SP) ∧
      (machine_cycles t 5 cpu).ime = false ∧
      (machine_cycles t 5 cpu).mem =
        write_memory t (machine_cycles t 4 cpu).mem t.IFR
          ((machine_cycles t 4 cpu).mem.memory t.IFR &&&
            (0xFF ^^^ (machine_cycles t 1 cpu).ins.low)) ∧
      (t.memory_write_table t.IFR = write_interrupt_flag t.IFR →
        (machine_cycles t 5 cpu).mem.memory t.IFR =
          0xE0 ||| (((machine_cycles t 4 cpu).mem.memory t.IFR &&&
            (0xFF ^^^ (machine_cycles t 1 cpu).ins.low)) &&& 0x1F) ∧
        ((machine_cycles t 4 cpu).mem.memory t.IFR < 256 →
         (machine_cycles t 4 cpu).mem.memory t.IFR &&& 0xE0 = 0xE0 →
          (machine_cycles t 5 cpu).mem.memory t.IFR =
            (machine_cycles t 4 cpu).mem.memory t.IFR &&&
              (0xFF ^^^ (machine_cycles t 1 cpu).ins.low)))) := by
  obtain ⟨c1, c2, c3, c4⟩ := int_service_cycles t cpu hrun hh hex hcb hime hsch hp
  obtain ⟨h1, h2⟩ := service_interrupts_taken t cpu hime hp
  have hsel : get_pending_interrupts t cpu &&& (service_interrupts t cpu).2.ins.low ≠ 0 ∧
      ((service_interrupts t cpu).2.ins.low, (service_interrupts t cpu).2.ins.address) ∈
        [(VBLANK_INTERRUPT_CODE, VBLANK_VECTOR), (LCD_STAT_INTERRUPT_CODE, LCD_VECTOR),
         (TIMER_INTERRUPT_CODE, TIMER_VECTOR), (SERIAL_INTERRUPT_CODE, SERIAL_VECTOR),
         (JOYPAD_INTERRUPT_CODE, JOYPAD_VECTOR)] := by
    have e : (service_interrupts t cpu).2 =
        encode_interrupt
          { reset_ins { cpu with ime := false } with
            ins := { (reset_ins { cpu with ime := false }).ins with handler := .int_exec } }
          (get_pending_interrupts t cpu) := by
      unfold service_interrupts
      simp only [hime, hp, Bool.not_true, Bool.false_or, decide_False, if_false,
        Bool.false_eq_true]
    rw [e]
    exact encode_interrupt_selects _ _ (get_pending_interrupts_lt t cpu) hp
  have e1low : (machine_cycles t 1 cpu).ins.low = (service_interrupts t cpu).2.ins.low := by
    rw [c1]
  have e1adr : (machine_cycles t 1 cpu).ins.address =
      (service_interrupts t cpu).2.ins.address := by
    rw [c1]
  have hpend : ∀ v, get_pending_interrupts t (push_stack t (service_interrupts t cpu).2 v) =
      get_pending_interrupts t
        { cpu with mem := write_memory t cpu.mem (dec16 cpu.reg.SP) v } := by
    intro v
    rw [h2]
    simp only [get_pending_interrupts, push_stack]
  rw [e1low, e1adr]
  refine ⟨⟨hsel.1, hsel.2, ?_, ?_, ?_, ?_, ?_⟩, ?_, ?_⟩
  · rw [c1, h2]
  · rw [c1, h2]
  · rw [c2, h2]
  · rw [c2, h2]
  · rw [c2, h2]
  · intro h0
    rw [← hpend] at h0
    rw [c3 h0]
    refine ⟨rfl, rfl, ?_, rfl, rfl⟩
    show (service_interrupts t cpu).2.ime = false
    rw [h2]
  · intro h0
    rw [← hpend] at h0
    obtain ⟨d3, d4, d5⟩ := c4 h0
    have e5 : (machine_cycles t 5 cpu).mem =
        write_memory t (machine_cycles t 4 cpu).mem t.IFR
          ((machine_cycles t 4 cpu).mem.memory t.IFR &&&
            (0xFF ^^^ (service_interrupts t cpu).2.ins.low)) := by
      rw [d5]
    refine ⟨?_, ?_, ?_, ?_, ?_, ?_, ?_, e5, ?_⟩
    · rw [d3, h2]
    · rw [d4, h2]
    · rw [d5]
    · rw [d4]
    · rw [d5]
    · rw [d5]
    · rw [d5]
      show (service_interrupts t cpu).2.ime = false
      rw [h2]
    · intro hw
      have e6 : (machine_cycles t 5 cpu).mem.memory t.IFR =
          0xE0 ||| (((machine_cycles t 4 cpu).mem.memory t.IFR &&&
            (0xFF ^^^ (service_interrupts t cpu).2.ins.low)) &&& 0x1F) := by
        rw [e5]
        simp only [write_memory, hw, write_interrupt_flag, if_true]
      refine ⟨e6, ?_⟩
      intro hlt htop
      rw [e6]
      refine clear_serviced_bit _ hlt htop _ ?_
      have hm := hsel.2
      simp only [List.mem_cons, Prod.mk.injEq, List.mem_nil_iff, or_false] at hm ⊢
      rcases hm with h | h | h | h | h
      · exact Or.inl h.1
      · exact Or.inr (Or.inl h.1)
      · exact Or.inr (Or.inr (Or.inl h.1))
      · exact Or.inr (Or.inr (Or.inr (Or.inl h.1)))
      · exact Or.inr (Or.inr (Or.inr (Or.inr h.1)))

/-- Witness for C7. With SP = 0x0000 and PC = 0x0234 the push of the high byte
0x02 lands on IE (0xFFFF) and leaves nothing pending: the service ends after
three m-cycles with PC = 0x0000, IME = 0 and IF still 0xE1. With SP = 0xFFFE the
V-blank service completes at the fifth m-cycle with PC = 0x0040, the return
address 0x0234 on the stack and IF = 0xE0. -/
theorem C7_interrupt_service_witness :
    ((machine_cycles ioTables 3 (serviceCpu 0x0234 0x0000)).ins.executed = true ∧
     (machine_cycles ioTables 3 (serviceCpu 0x0234 0x0000)).reg.PC = 0x0000 ∧
     (machine_cycles ioTables 3 (serviceCpu 0x0234 0x0000)).ime = false ∧
     (machine_cycles ioTables 3 (serviceCpu 0x0234 0x0000)).reg.SP = 0xFFFF ∧
     (machine_cycles ioTables 3 (serviceCpu 0x0234 0x0000)).mem.memory 0xFF0F = 0xE1) ∧
    ((machine_cycles ioTables 4 (serviceCpu 0x0234 0xFFFE)).ins.executed = false ∧
     (machine_cycles ioTables 5 (serviceCpu 0x0234 0xFFFE)).ins.executed = true ∧
     (machine_cycles ioTables 5 (serviceCpu 0x0234 0xFFFE)).reg.PC = 0x0040 ∧
     (machine_cycles ioTables 5 (serviceCpu 0x0234 0xFFFE)).reg.SP = 0xFFFC ∧
     (machine_cycles ioTables 5 (serviceCpu 0x0234 0xFFFE)).mem.memory 0xFFFD = 0x02 ∧
     (machine_cycles ioTables 5 (serviceCpu 0x0234 0xFFFE)).mem.memory 0xFFFC = 0x34 ∧
     (machine_cycles ioTables 5 (serviceCpu 0x0234 0xFFFE)).mem.memory 0xFF0F = 0xE0) := by
  have a := (C7_interrupt_service ioTables (serviceCpu 0x0234 0x0000) (by decide!) (by decide!)
    (by decide!) (by decide!) (by decide!) (by decide!) (by decide!)).2.1 (by decide!)
  have b := (C7_interrupt_service ioTables (serviceCpu 0x0234 0xFFFE) (by decide!) (by decide!)
    (by decide!) (by decide!) (by decide!) (by decide!) (by decide!)).2.2 (by decide!)
  exact ⟨⟨a.1, a.2.1, a.2.2.1, a.2.2.2.1.trans (by decide!), by decide!⟩,
    ⟨b.2.1, b.2.2.1, b.2.2.2.2.1.trans (by decide!), b.2.2.2.2.2.1.trans (by decide!),
     by decide!, by decide!, by decide!⟩⟩

/-! ## C8 -/

set_option maxRecDepth 20000 in
theorem opcode_table_di_ei_reti :
    (dispatch (.main 0xF3) : OpcodeHandler D) = di ∧
    (dispatch (.main 0xFB) : OpcodeHandler D) = ei ∧
    (dispatch (.main 0xD9) : OpcodeHandler D) = reti :=
  ⟨rfl, rfl, rfl⟩

theorem dispatch_ime (t : MemoryTables D) (cpu : CPU D) (r : HandlerRef)
    (h1 : r ≠ .main 0xF3) (h2 : r ≠ .main 0xD9) (h3 : r ≠ .main 0xFB) :
    (dispatch r t cpu).2.ime = cpu.ime ∧
    (dispatch r t cpu).2.ime_scheduled = cpu.ime_scheduled ∧
    (dispatch r t cpu).2.ime_delay = cpu.ime_delay := by
  cases r with
  | main opcode =>
    by_cases hlt : opcode < (opcode_table D).length
    · have h := AllFrom_getD _ nop (opcode_table D) 0 (opcode_table_ime_indexed t cpu) opcode hlt
      rw [Nat.zero_add] at h
      rcases h with h | h
      · rcases h with h | h | h
        · exact absurd (congrArg HandlerRef.main h) h1
        · exact absurd (congrArg HandlerRef.main h) h2
        · exact absurd (congrArg HandlerRef.main h) h3
      · exact h
    · have e : (opcode_table D).getD opcode nop = nop := by
        rw [List.getD_eq_getElem?_getD, List.getElem?_eq_none (Nat.le_of_not_lt hlt)]
        rfl
      simp only [dispatch, e]
      exact nop_ime t cpu
  | cb opcode =>
    simp only [dispatch, List.getD_eq_getElem?_getD]
    cases hq : (prefix_opcode_table D)[opcode]? with
    | none => simpa using nop_ime t cpu
    | some h => exact prefix_opcode_table_ime t cpu h (List.getElem?_mem hq)
  | int_exec => exact int_exec_ime t cpu

theorem machine_cycles_succ (t : MemoryTables D) (n : Nat) :
    ∀ cpu : CPU D, machine_cycles t (n + 1) cpu = machine_cycle t (machine_cycles t n cpu) := by
  induction n with
  | zero => intro cpu; rfl
  | succ n ih => intro cpu; rw [machine_cycles, ih (machine_cycle t cpu)]; rfl

theorem check_ins_ime_off (t : MemoryTables D) (cpu : CPU D) (hi : cpu.ime = false) :
    (check_ins t cpu).ime = false ∧
    (check_ins t cpu).ime_scheduled = cpu.ime_scheduled ∧
    (check_ins t cpu).ime_delay = cpu.ime_delay ∧
    (check_ins t cpu).running = cpu.running ∧
    (check_ins t cpu).halted = cpu.halted := by
  unfold check_ins service_interrupts next_ins
  simp only [hi, Bool.not_false, Bool.true_or, if_true]
  repeat' split
  all_goals simp [fetch, reset_ins, hi]
  all_goals (repeat' split)
  all_goals simp [hi]

theorem execute_ins_frame (t : MemoryTables D) (cpu : CPU D)
    (hf : (dispatch cpu.ins.handler t
        { cpu with ins := { cpu.ins with duration := (cpu.ins.duration + 1) % 256 } }).2.ime =
          cpu.ime ∧
      (dispatch cpu.ins.handler t
        { cpu with ins := { cpu.ins with duration := (cpu.ins.duration + 1) % 256 } }).2.ime_scheduled =
          cpu.ime_scheduled ∧
      (dispatch cpu.ins.handler t
        { cpu with ins := { cpu.ins with duration := (cpu.ins.duration + 1) % 256 } }).2.ime_delay =
          cpu.ime_delay) :
    (cpu.ime_scheduled = false →
      (execute_ins t cpu).ime = cpu.ime ∧ (execute_ins t cpu).ime_scheduled = false) ∧
    (cpu.ime_scheduled = true → cpu.ime_delay = 1 →
      ((execute_ins t cpu).ins.executed = false →
        (execute_ins t cpu).ime = cpu.ime ∧ (execute_ins t cpu).ime_scheduled = true ∧
        (execute_ins t cpu).ime_delay = 1) ∧
      ((execute_ins t cpu).ins.executed = true →
        (execute_ins t cpu).ime = true ∧ (execute_ins t cpu).ime_scheduled = false)) := by
  unfold execute_ins
  dsimp only
  generalize dispatch cpu.ins.handler t
    { cpu with ins := { cpu.ins with duration := (cpu.ins.duration + 1) % 256 } } = r at hf ⊢
  obtain ⟨b, c⟩ := r
  obtain ⟨f1, f2, f3⟩ := hf
  dsimp only at f1 f2 f3 ⊢
  refine ⟨?_, ?_⟩
  · intro hs
    rw [hs] at f2
    simp only [f1, f2, Bool.false_and, Bool.false_eq_true, if_false, and_self]
  · intro hs hd
    rw [hs] at f2
    rw [hd] at f3
    cases b <;> simp [f1, f2, f3]

theorem ei_scheduled (t : MemoryTables D) (cpu : CPU D) (hs : cpu.ime_scheduled = true) :
    ei t cpu = (true, cpu) := by
  unfold ei
  simp only [hs, Bool.or_true, if_true]

theorem enable_step (t : MemoryTables D) (cpu : CPU D)
    (hrun : cpu.running = true) (hh : cpu.halted = false)
    (hi : cpu.ime = false) (hs : cpu.ime_scheduled = true) (hd : cpu.ime_delay = 1)
    (hnd : (check_ins t cpu).ins.handler ≠ .main 0xF3)
    (hnr : (check_ins t cpu).ins.handler ≠ .main 0xD9) :
    ((machine_cycle t cpu).ins.executed = false →
      (machine_cycle t cpu).ime = false ∧ (machine_cycle t cpu).ime_scheduled = true ∧
      (machine_cycle t cpu).ime_delay = 1) ∧
    ((machine_cycle t cpu).ins.executed = true →
      (machine_cycle t cpu).ime = true ∧ (machine_cycle t cpu).ime_scheduled = false) := by
  obtain ⟨k1, k2, k3, k4, k5⟩ := check_ins_ime_off t cpu hi
  have e : machine_cycle t cpu = execute_ins t (check_ins t cpu) := by
    unfold machine_cycle check_pending_interrupts
    simp only [hh, hrun, Bool.false_eq_true, if_false, Bool.not_true, Bool.or_false]
  rw [e]
  have hf : (dispatch (check_ins t cpu).ins.handler t
        { check_ins t cpu with ins := { (check_ins t cpu).ins with
            duration := ((check_ins t cpu).ins.duration + 1) % 256 } }).2.ime =
          (check_ins t cpu).ime ∧
      (dispatch (check_ins t cpu).ins.handler t
        { check_ins t cpu with ins := { (check_ins t cpu).ins with
            duration := ((check_ins t cpu).ins.duration + 1) % 256 } }).2.ime_scheduled =
          (check_ins t cpu).ime_scheduled ∧
      (dispatch (check_ins t cpu).ins.handler t
        { check_ins t cpu with ins := { (check_ins t cpu).ins with
            duration := ((check_ins t cpu).ins.duration + 1) % 256 } }).2.ime_delay =
          (check_ins t cpu).ime_delay := by
    by_cases he : (check_ins t cpu).ins.handler = .main 0xFB
    · rw [he, opcode_table_di_ei_reti.2.1, ei_scheduled t _ (by rw [← hs, ← k2])]
      exact ⟨rfl, rfl, rfl⟩
    · exact dispatch_ime t _ _ hnd hnr he
  have h := (execute_ins_frame t (check_ins t cpu) hf).2 (by rw [k2, hs]) (by rw [k3, hd])
  rw [k1] at h
  exact h

theorem disable_step (t : MemoryTables D) (cpu : CPU D)
    (hi : cpu.ime = false) (hs : cpu.ime_scheduled = false)
    (hne : (check_ins t (check_pending_interrupts t cpu)).ins.handler ≠ .main 0xFB)
    (hnr : (check_ins t (check_pending_interrupts t cpu)).ins.handler ≠ .main 0xD9) :
    (machine_cycle t cpu).ime = false ∧ (machine_cycle t cpu).ime_scheduled = false := by
  have hstep : ∀ c : CPU D, c.ime = false → c.ime_scheduled = false →
      c.ins.handler ≠ .main 0xFB → c.ins.handler ≠ .main 0xD9 →
      (execute_ins t c).ime = false ∧ (execute_ins t c).ime_scheduled = false := by
    intro c ci cs cne cnr
    have hf : (dispatch c.ins.handler t
          { c with ins := { c.ins with duration := (c.ins.duration + 1) % 256 } }).2.ime =
            c.ime ∧
        (dispatch c.ins.handler t
          { c with ins := { c.ins with duration := (c.ins.duration + 1) % 256 } }).2.ime_scheduled =
            c.ime_scheduled ∧
        (dispatch c.ins.handler t
          { c with ins := { c.ins with duration := (c.ins.duration + 1) % 256 } }).2.ime_delay =
            c.ime_delay := by
      by_cases hd : c.ins.handler = .main 0xF3
      · rw [hd, opcode_table_di_ei_reti.1]
        simp only [di, ci, cs, and_self, true_and]
      · exact dispatch_ime t _ _ hd cnr cne
    have h := (execute_ins_frame t c hf).1 cs
    rw [ci] at h
    exact h
  have hc : (check_pending_interrupts t cpu).ime = false ∧
      (check_pending_interrupts t cpu).ime_scheduled = false := by
    unfold check_pending_interrupts
    split <;> exact ⟨hi, hs⟩
  unfold machine_cycle
  dsimp only
  split
  · exact hc
  · have h := check_ins_ime_off t _ hc.1
    exact hstep _ h.1 (by rw [h.2.1, hc.2]) hne hnr

theorem enable_run (t : MemoryTables D) (cpu : CPU D)
    (hi : cpu.ime = false) (hs : cpu.ime_scheduled = true) (hd : cpu.ime_delay = 1) (n : Nat) :
    (∀ k, k < n →
      (machine_cycles t k cpu).running = true ∧ (machine_cycles t k cpu).halted = false ∧
      (check_ins t (machine_cycles t k cpu)).ins.handler ≠ .main 0xF3 ∧
      (check_ins t (machine_cycles t k cpu)).ins.handler ≠ .main 0xD9 ∧
      (machine_cycles t (k + 1) cpu).ins.executed = false) →
    (machine_cycles t n cpu).ime = false ∧ (machine_cycles t n cpu).ime_scheduled = true ∧
    (machine_cycles t n cpu).ime_delay = 1 := by
  induction n with
  | zero => intro _; exact ⟨hi, hs, hd⟩
  | succ n ih =>
    intro hall
    obtain ⟨a1, a2, a3⟩ := ih (fun k hk => hall k (Nat.lt_succ_of_lt hk))
    obtain ⟨b1, b2, b3, b4, b5⟩ := hall n (Nat.lt_succ_self n)
    rw [machine_cycles_succ] at b5 ⊢
    exact (enable_step t _ b1 b2 a1 a2 a3 b3 b4).1 b5

theorem disable_run (t : MemoryTables D) (cpu : CPU D)
    (hi : cpu.ime = false) (hs : cpu.ime_scheduled = false) (n : Nat) :
    (∀ k, k < n →
      (check_ins t (check_pending_interrupts t (machine_cycles t k cpu))).ins.handler ≠
        .main 0xFB ∧
      (check_ins t (check_pending_interrupts t (machine_cycles t k cpu))).ins.handler ≠
        .main 0xD9) →
    (machine_cycles t n cpu).ime = false ∧ (machine_cycles t n cpu).ime_scheduled = false := by
  induction n with
  | zero => intro _; exact ⟨hi, hs⟩
  | succ n ih =>
    intro hall
    obtain ⟨a1, a2⟩ := ih (fun k hk => hall k (Nat.lt_succ_of_lt hk))
    obtain ⟨b1, b2⟩ := hall n (Nat.lt_succ_self n)
    rw [machine_cycles_succ]
    exact disable_step t _ a1 a2 b1 b2

/-- C8 (as amended). EI executed with IME = 0 and no enable already scheduled
completes with IME still false and the enable scheduled. From there, as long as
the machine runs, the handler of each m-cycle is neither DI nor RETI and the
following instruction (or its CB prefix byte) has not completed, IME stays
false and the enable stays scheduled; the m-cycle in which that handler
completes makes IME true and clears the schedule. No interrupt service starts
while IME is false, and none starts between a CB prefix and its operation. DI,
executed in any state (directly after EI included), completes with IME = 0 and
no enable scheduled, and from a state with IME = 0 and nothing scheduled IME
stays false for as long as no EI or RETI handler runs. -/
theorem C8_ei_di_timing (t : MemoryTables D) (cpu : CPU D) (n : Nat) :
    (cpu.ime = false → cpu.ime_scheduled = false → cpu.ins.handler = .main 0xFB →
      (execute_ins t cpu).ins.executed = true ∧ (execute_ins t cpu).ime = false ∧
      (execute_ins t cpu).ime_scheduled = true ∧ (execute_ins t cpu).ime_delay = 1) ∧
    (cpu.ime = false → cpu.ime_scheduled = true → cpu.ime_delay = 1 →
      (∀ k, k < n →
        (machine_cycles t k cpu).running = true ∧ (machine_cycles t k cpu).halted = false ∧
        (check_ins t (machine_cycles t k cpu)).ins.handler ≠ .main 0xF3 ∧
        (check_ins t (machine_cycles t k cpu)).ins.handler ≠ .main 0xD9 ∧
        (machine_cycles t (k + 1) cpu).ins.executed = false) →
      ((machine_cycles t n cpu).ime = false ∧ (machine_cycles t n cpu).ime_scheduled = true ∧
        (machine_cycles t n cpu).ime_delay = 1) ∧
      ((machine_cycles t n cpu).running = true → (machine_cycles t n cpu).halted = false →
        (check_ins t (machine_cycles t n cpu)).ins.handler ≠ .main 0xF3 →
        (check_ins t (machine_cycles t n cpu)).ins.handler ≠ .main 0xD9 →
        (machine_cycles t (n + 1) cpu).ins.executed = true →
        (machine_cycles t (n + 1) cpu).ime = true ∧
        (machine_cycles t (n + 1) cpu).ime_scheduled = false)) ∧
    ((cpu.ime = false → service_interrupts t cpu = (false, cpu)) ∧
     (cpu.ins.executed = true → cpu.ins.cb_prefixed = true →
        check_ins t cpu = next_ins t cpu)) ∧
    (cpu.ins.handler = .main 0xF3 →
      (execute_ins t cpu).ins.executed = true ∧ (execute_ins t cpu).ime = false ∧
      (execute_ins t cpu).ime_scheduled = false) ∧
    (cpu.ime = false → cpu.ime_scheduled = false →
      (∀ k, k < n →
        (check_ins t (check_pending_interrupts t (machine_cycles t k cpu))).ins.handler ≠
          .main 0xFB ∧
        (check_ins t (check_pending_interrupts t (machine_cycles t k cpu))).ins.handler ≠
          .main 0xD9) →
      (machine_cycles t n cpu).ime = false ∧ (machine_cycles t n cpu).ime_scheduled = false) := by
  refine ⟨?_, ?_, ⟨?_, ?_⟩, ?_, ?_⟩
  · intro hi hs hh
    unfold execute_ins
    dsimp only
    rw [hh, opcode_table_di_ei_reti.2.1]
    simp [ei, hi, hs]
  · intro hi hs hd hall
    have h := enable_run t cpu hi hs hd n hall
    refine ⟨h, ?_⟩
    intro b1 b2 b3 b4 b5
    rw [machine_cycles_succ] at b5 ⊢
    exact (enable_step t _ b1 b2 h.1 h.2.1 h.2.2 b3 b4).2 b5
  · intro hi
    unfold service_interrupts
    simp only [hi, Bool.not_false, Bool.true_or, if_true]
  · intro he hc
    unfold check_ins
    simp only [he, hc, if_true]
  · intro hh
    unfold execute_ins
    dsimp only
    rw [hh, opcode_table_di_ei_reti.1]
    simp [di]
  · intro hi hs hall
    exact disable_run t cpu hi hs n hall

/-- Witness for C8 on the programs `EI; LD BC,0x1234; NOP` and
`EI; DI; NOP; NOP` with an interrupt pending: EI completes with IME = 0, IME is
still 0 two m-cycles into LD BC,nn and is 1 once its third m-cycle completes,
after which the interrupt service starts; DI after EI leaves IME = 0 with
nothing scheduled, and it is still so two m-cycles later. -/
theorem C8_ei_di_timing_witness :
    ((machine_cycles ioTables 1 (progCpu [0xFB, 0x01, 0x34, 0x12, 0x00])).ime = false ∧
     (machine_cycles ioTables 3 (progCpu [0xFB, 0x01, 0x34, 0x12, 0x00])).ime = false ∧
     (machine_cycles ioTables 4 (progCpu [0xFB, 0x01, 0x34, 0x12, 0x00])).ime = true ∧
     (machine_cycles ioTables 5 (progCpu [0xFB, 0x01, 0x34, 0x12, 0x00])).ins.handler =
       .int_exec) ∧
    ((machine_cycles ioTables 2 (progCpu [0xFB, 0xF3, 0x00, 0x00])).ime = false ∧
     (machine_cycles ioTables 2 (progCpu [0xFB, 0xF3, 0x00, 0x00])).ime_scheduled = false ∧
     (machine_cycles ioTables 4 (progCpu [0xFB, 0xF3, 0x00, 0x00])).ime = false) := by
  have a := (C8_ei_di_timing ioTables
    (check_ins ioTables (progCpu [0xFB, 0x01, 0x34, 0x12, 0x00])) 0).1
    (by decide!) (by decide!) (by decide!)
  have b := (C8_ei_di_timing ioTables
    (machine_cycles ioTables 1 (progCpu [0xFB, 0x01, 0x34, 0x12, 0x00])) 2).2.1
    (by decide!) (by decide!) (by decide!) (by decide!)
  have c := b.2 (by decide!) (by decide!) (by decide!) (by decide!) (by decide!)
  have d := (C8_ei_di_timing ioTables
    (check_ins ioTables (machine_cycles ioTables 1 (progCpu [0xFB, 0xF3, 0x00, 0x00]))) 0).2.2.2.1
    (by decide!)
  have e := (C8_ei_di_timing ioTables
    (machine_cycles ioTables 2 (progCpu [0xFB, 0xF3, 0x00, 0x00])) 2).2.2.2.2
    (by decide!) (by decide!) (by decide!)
  exact ⟨⟨a.2.1, b.1.1, c.1, by decide!⟩, ⟨d.2.1, d.2.2, e.1⟩⟩

/-- Counterexample to C8 as stated. On `EI; EI` the second EI is fetched and
executed with IME = 0 and IME is true when it completes. On `EI; RETI` IME is
true after the third m-cycle of RETI, before RETI has completed. On
`EI; CB 00` IME is true after the m-cycle of the CB prefix, while the prefixed
operation has not run. -/
theorem C8_ei_di_timing_counterexample :
    ((machine_cycles ioTables 1 (progCpu [0xFB, 0xFB, 0x00])).ime = false ∧
     (check_ins ioTables (machine_cycles ioTables 1 (progCpu [0xFB, 0xFB, 0x00]))).ins.handler =
       .main 0xFB ∧
     (machine_cycles ioTables 2 (progCpu [0xFB, 0xFB, 0x00])).ins.executed = true ∧
     (machine_cycles ioTables 2 (progCpu [0xFB, 0xFB, 0x00])).ime = true) ∧
    ((machine_cycles ioTables 4 (progCpu [0xFB, 0xD9])).ins.handler = .main 0xD9 ∧
     (machine_cycles ioTables 4 (progCpu [0xFB, 0xD9])).ins.executed = false ∧
     (machine_cycles ioTables 4 (progCpu [0xFB, 0xD9])).ime = true) ∧
    ((machine_cycles ioTables 2 (progCpu [0xFB, 0xCB, 0x00])).ins.cb_prefixed = true ∧
     (machine_cycles ioTables 2 (progCpu [0xFB, 0xCB, 0x00])).ime = true) := by
  decide!

/-! ## C9 -/

/-- C9 (evaluation of `stop` on a CGB machine): STOP completes in one m-cycle
with PC two past the opcode address (the opcode and one extra byte). From
normal speed it toggles the speed and stores 0x80 in KEY1 when bit 0 of KEY1 is
set, and changes nothing when the bit is clear. From double speed it does the
opposite: with KEY1 = 0x81 (bit 0 set) the speed mode stays double and KEY1
still reads 0x81, and with KEY1 = 0x80 (bit 0 clear) the speed mode is toggled
to normal and KEY1 becomes 0x00. -/
theorem C9_stop_speed_switch_evaluation :
    ((machine_cycle ioTables (stopCpu false 0x01)).ins.executed = true ∧
     (machine_cycle ioTables (stopCpu false 0x01)).reg.PC = 0x0102 ∧
     (machine_cycle ioTables (stopCpu false 0x01)).speed_enabled = true ∧
     read_memory ioTables (machine_cycle ioTables (stopCpu false 0x01)).mem 0xFF4D = 0x80) ∧
    ((machine_cycle ioTables (stopCpu false 0x00)).reg.PC = 0x0102 ∧
     (machine_cycle ioTables (stopCpu false 0x00)).speed_enabled = false ∧
     read_memory ioTables (machine_cycle ioTables (stopCpu false 0x00)).mem 0xFF4D = 0x00) ∧
    ((machine_cycle ioTables (stopCpu true 0x81)).ins.executed = true ∧
     (machine_cycle ioTables (stopCpu true 0x81)).reg.PC = 0x0102 ∧
     (machine_cycle ioTables (stopCpu true 0x81)).speed_enabled = true ∧
     read_memory ioTables (machine_cycle ioTables (stopCpu true 0x81)).mem 0xFF4D = 0x81) ∧
    ((machine_cycle ioTables (stopCpu true 0x80)).reg.PC = 0x0102 ∧
     (machine_cycle ioTables (stopCpu true 0x80)).speed_enabled = false ∧
     read_memory ioTables (machine_cycle ioTables (stopCpu true 0x80)).mem 0xFF4D = 0x00) := by
  decide!

/-! ## C10 -/

theorem fetch_ins (t : MemoryTables D) (cpu : CPU D) : (fetch t cpu).2.ins = cpu.ins := by
  unfold fetch
  split <;> rfl

theorem pop_stack_ins (t : MemoryTables D) (cpu : CPU D) : (pop_stack t cpu).2.ins = cpu.ins := by
  simp [pop_stack]

theorem push_stack_ins (t : MemoryTables D) (cpu : CPU D) (v : Nat) :
    (push_stack t cpu v).ins = cpu.ins := by
  simp [push_stack]

theorem handler_cycles_step (h : OpcodeHandler D) (t : MemoryTables D) (fuel : Nat)
    (cpu : CPU D) (n : Nat) :
    handler_cycles h t (fuel + 1) cpu n =
      if (h t { cpu with ins := { cpu.ins with duration := (cpu.ins.duration + 1) % 256 } }).1
      then some (n + 1,
        (h t { cpu with ins := { cpu.ins with duration := (cpu.ins.duration + 1) % 256 } }).2)
      else handler_cycles h t fuel
        (h t { cpu with ins := { cpu.ins with duration := (cpu.ins.duration + 1) % 256 } }).2
        (n + 1) := rfl

theorem jump_relative_cycles (t : MemoryTables D) (c : CPU D → Bool)
    (hc : ∀ a b : CPU D, a.reg.F = b.reg.F → c a = c b)
    (cpu : CPU D) (hd : cpu.ins.duration = 0) (fuel : Nat) :
    (handler_cycles (fun t cpu => jump_relative_handler t cpu (c cpu)) t (fuel + 6) cpu 0).map
      Prod.fst = some (if c cpu then 3 else 2) := by
  have e1 : ∀ x : CPU D, x.reg.F = cpu.reg.F → c x = c cpu := fun x hx => hc x cpu hx
  rw [handler_cycles_step]
  simp only [hd, jump_relative_handler]
  rw [handler_cycles_step]
  simp only [jump_relative_handler, Nat.reduceAdd, Nat.reduceMod, Bool.false_eq_true, if_false,
    fetch_ins]
  rw [e1 _ (by simp)]
  cases hcc : c cpu
  · simp
  · simp only [Bool.not_true, Bool.false_eq_true, if_false]
    rw [handler_cycles_step]
    simp [jump_relative_handler, fetch_ins]

theorem jump_position_cycles (t : MemoryTables D) (c : CPU D → Bool)
    (hc : ∀ a b : CPU D, a.reg.F = b.reg.F → c a = c b)
    (cpu : CPU D) (hd : cpu.ins.duration = 0) (fuel : Nat) :
    (handler_cycles (fun t cpu => jump_position_handler t cpu (c cpu)) t (fuel + 6) cpu 0).map
      Prod.fst = some (if c cpu then 4 else 3) := by
  have e1 : ∀ x : CPU D, x.reg.F = cpu.reg.F → c x = c cpu := fun x hx => hc x cpu hx
  rw [handler_cycles_step]
  simp only [hd, jump_position_handler]
  rw [handler_cycles_step]
  simp only [jump_position_handler, Nat.reduceAdd, Nat.reduceMod, Bool.false_eq_true, if_false,
    fetch_ins]
  rw [handler_cycles_step]
  simp only [jump_position_handler, Nat.reduceAdd, Nat.reduceMod, Bool.false_eq_true, if_false,
    fetch_ins]
  rw [e1 _ (by simp)]
  cases hcc : c cpu
  · simp
  · simp only [Bool.not_true, Bool.false_eq_true, if_false]
    rw [handler_cycles_step]
    simp [jump_position_handler, fetch_ins]

theorem call_cycles (t : MemoryTables D) (c : CPU D → Bool)
    (hc : ∀ a b : CPU D, a.reg.F = b.reg.F → c a = c b)
    (cpu : CPU D) (hd : cpu.ins.duration = 0) (fuel : Nat) :
    (handler_cycles (fun t cpu => call_handler t cpu (c cpu)) t (fuel + 6) cpu 0).map
      Prod.fst = some (if c cpu then 6 else 3) := by
  have e1 : ∀ x : CPU D, x.reg.F = cpu.reg.F → c x = c cpu := fun x hx => hc x cpu hx
  rw [handler_cycles_step]
  simp only [hd, call_handler]
  rw [handler_cycles_step]
  simp only [call_handler, Nat.reduceAdd, Nat.reduceMod, Bool.false_eq_true, if_false,
    fetch_ins]
  rw [handler_cycles_step]
  simp only [call_handler, Nat.reduceAdd, Nat.reduceMod, Bool.false_eq_true, if_false,
    fetch_ins]
  rw [e1 _ (by simp)]
  cases hcc : c cpu
  · simp
  · simp only [Bool.not_true, Bool.false_eq_true, if_false]
    rw [handler_cycles_step]
    simp only [call_handler, Nat.reduceAdd, Nat.reduceMod, Bool.false_eq_true, if_false,
      fetch_ins]
    rw [handler_cycles_step]
    simp only [call_handler, Nat.reduceAdd, Nat.reduceMod, Bool.false_eq_true, if_false,
      fetch_ins]
    rw [handler_cycles_step]
    simp [call_handler, fetch_ins, push_stack_ins]

theorem return_cycles (t : MemoryTables D) (c : CPU D → Bool)
    (hc : ∀ a b : CPU D, a.reg.F = b.reg.F → c a = c b)
    (cpu : CPU D) (hd : cpu.ins.duration = 0) (fuel : Nat) :
    (handler_cycles (fun t cpu => return_handler t cpu (c cpu)) t (fuel + 6) cpu 0).map
      Prod.fst = some (if c cpu then 5 else 2) := by
  have e1 : ∀ x : CPU D, x.reg.F = cpu.reg.F → c x = c cpu := fun x hx => hc x cpu hx
  rw [handler_cycles_step]
  simp only [hd, return_handler]
  rw [handler_cycles_step]
  simp only [return_handler, Nat.reduceAdd, Nat.reduceMod, Bool.false_eq_true, if_false]
  rw [e1 _ (by simp)]
  cases hcc : c cpu
  · simp
  · simp only [Bool.not_true, Bool.false_eq_true, if_false]
    rw [handler_cycles_step]
    simp only [return_handler, Nat.reduceAdd, Nat.reduceMod, Bool.false_eq_true, if_false]
    rw [handler_cycles_step]
    simp only [return_handler, Nat.reduceAdd, Nat.reduceMod, Bool.false_eq_true, if_false,
      pop_stack_ins]
    rw [handler_cycles_step]
    simp [return_handler, pop_stack_ins]

/-- C10 (as amended): started on a fresh instruction (`ins.duration = 0`) in any
flag state, and given enough fuel, each conditional branch handler completes.
JR cc takes 3 m-cycles when the condition holds and 2 when it does not, JP cc
takes 4 and 3, CALL cc takes 6 and 3, RET cc takes 5 and 2: the not-taken case
is one m-cycle shorter for JR cc and JP cc and three m-cycles shorter for
CALL cc and RET cc. -/
theorem C10_conditional_branch_cycles (t : MemoryTables D) (cpu : CPU D)
    (hd : cpu.ins.duration = 0) (fuel : Nat) :
    (handler_cycles jr_nz_n t (fuel + 6) cpu 0).map Prod.fst =
      some (if !is_flag_set cpu ZERO_FLAG then 3 else 2) ∧
    (handler_cycles jr_z_n t (fuel + 6) cpu 0).map Prod.fst =
      some (if is_flag_set cpu ZERO_FLAG then 3 else 2) ∧
    (handler_cycles jr_nc_n t (fuel + 6) cpu 0).map Prod.fst =
      some (if !is_flag_set cpu CARRY_FLAG then 3 else 2) ∧
    (handler_cycles jr_c_n t (fuel + 6) cpu 0).map Prod.fst =
      some (if is_flag_set cpu CARRY_FLAG then 3 else 2) ∧
    (handler_cycles jp_nz_nn t (fuel + 6) cpu 0).map Prod.fst =
      some (if !is_flag_set cpu ZERO_FLAG then 4 else 3) ∧
    (handler_cycles jp_z_nn t (fuel + 6) cpu 0).map Prod.fst =
      some (if is_flag_set cpu ZERO_FLAG then 4 else 3) ∧
    (handler_cycles jp_nc_nn t (fuel + 6) cpu 0).map Prod.fst =
      some (if !is_flag_set cpu CARRY_FLAG then 4 else 3) ∧
    (handler_cycles jp_c_nn t (fuel + 6) cpu 0).map Prod.fst =
      some (if is_flag_set cpu CARRY_FLAG then 4 else 3) ∧
    (handler_cycles call_nz_nn t (fuel + 6) cpu 0).map Prod.fst =
      some (if !is_flag_set cpu ZERO_FLAG then 6 else 3) ∧
    (handler_cycles call_z_nn t (fuel + 6) cpu 0).map Prod.fst =
      some (if is_flag_set cpu ZERO_FLAG then 6 else 3) ∧
    (handler_cycles call_nc_nn t (fuel + 6) cpu 0).map Prod.fst =
      some (if !is_flag_set cpu CARRY_FLAG then 6 else 3) ∧
    (handler_cycles call_c_nn t (fuel + 6) cpu 0).map Prod.fst =
      some (if is_flag_set cpu CARRY_FLAG then 6 else 3) ∧
    (handler_cycles ret_nz t (fuel + 6) cpu 0).map Prod.fst =
      some (if !is_flag_set cpu ZERO_FLAG then 5 else 2) ∧
    (handler_cycles ret_z t (fuel + 6) cpu 0).map Prod.fst =
      some (if is_flag_set cpu ZERO_FLAG then 5 else 2) ∧
    (handler_cycles ret_nc t (fuel + 6) cpu 0).map Prod.fst =
      some (if !is_flag_set cpu CARRY_FLAG then 5 else 2) ∧
    (handler_cycles ret_c t (fuel + 6) cpu 0).map Prod.fst =
      some (if is_flag_set cpu CARRY_FLAG then 5 else 2) :=
  ⟨jump_relative_cycles t (fun x => !is_flag_set x ZERO_FLAG)
      (fun a b h => by simp only [is_flag_set, h]) cpu hd fuel,
    jump_relative_cycles t (fun x => is_flag_set x ZERO_FLAG)
      (fun a b h => by simp only [is_flag_set, h]) cpu hd fuel,
    jump_relative_cycles t (fun x => !is_flag_set x CARRY_FLAG)
      (fun a b h => by simp only [is_flag_set, h]) cpu hd fuel,
    jump_relative_cycles t (fun x => is_flag_set x CARRY_FLAG)
      (fun a b h => by simp only [is_flag_set, h]) cpu hd fuel,
    jump_position_cycles t (fun x => !is_flag_set x ZERO_FLAG)
      (fun a b h => by simp only [is_flag_set, h]) cpu hd fuel,
    jump_position_cycles t (fun x => is_flag_set x ZERO_FLAG)
      (fun a b h => by simp only [is_flag_set, h]) cpu hd fuel,
    jump_position_cycles t (fun x => !is_flag_set x CARRY_FLAG)
      (fun a b h => by simp only [is_flag_set, h]) cpu hd fuel,
    jump_position_cycles t (fun x => is_flag_set x CARRY_FLAG)
      (fun a b h => by simp only [is_flag_set, h]) cpu hd fuel,
    call_cycles t (fun x => !is_flag_set x ZERO_FLAG)
      (fun a b h => by simp only [is_flag_set, h]) cpu hd fuel,
    call_cycles t (fun x => is_flag_set x ZERO_FLAG)
      (fun a b h => by simp only [is_flag_set, h]) cpu hd fuel,
    call_cycles t (fun x => !is_flag_set x CARRY_FLAG)
      (fun a b h => by simp only [is_flag_set, h]) cpu hd fuel,
    call_cycles t (fun x => is_flag_set x CARRY_FLAG)
      (fun a b h => by simp only [is_flag_set, h]) cpu hd fuel,
    return_cycles t (fun x => !is_flag_set x ZERO_FLAG)
      (fun a b h => by simp only [is_flag_set, h]) cpu hd fuel,
    return_cycles t (fun x => is_flag_set x ZERO_FLAG)
      (fun a b h => by simp only [is_flag_set, h]) cpu hd fuel,
    return_cycles t (fun x => !is_flag_set x CARRY_FLAG)
      (fun a b h => by simp only [is_flag_set, h]) cpu hd fuel,
    return_cycles t (fun x => is_flag_set x CARRY_FLAG)
      (fun a b h => by simp only [is_flag_set, h]) cpu hd fuel⟩

/-- Witness for C10: the post-boot state with F = 0x80 (Z set, C clear), fuel 6. -/
theorem C10_conditional_branch_cycles_witness :
    (handler_cycles jr_nz_n ioTables 6 (afCpu 0x01 0x80) 0).map Prod.fst = some 2 ∧
    (handler_cycles jr_z_n ioTables 6 (afCpu 0x01 0x80) 0).map Prod.fst = some 3 ∧
    (handler_cycles call_nc_nn ioTables 6 (afCpu 0x01 0x80) 0).map Prod.fst = some 6 ∧
    (handler_cycles ret_c ioTables 6 (afCpu 0x01 0x80) 0).map Prod.fst = some 2 := by
  have h := C10_conditional_branch_cycles ioTables (afCpu 0x01 0x80) rfl 0
  exact ⟨h.1.trans (by decide), h.2.1.trans (by decide),
    h.2.2.2.2.2.2.2.2.2.2.1.trans (by decide),
    h.2.2.2.2.2.2.2.2.2.2.2.2.2.2.2.trans (by decide)⟩

/-- Counterexample to C10 as stated: CALL NZ takes 3 m-cycles with Z set (not
taken) and 6 with Z clear (taken), and RET NZ takes 2 and 5: the not-taken
case is three m-cycles shorter, not one. -/
theorem C10_conditional_branch_cycles_counterexample :
    (handler_cycles call_nz_nn ioTables 8 (afCpu 0x01 0x80) 0).map Prod.fst = some 3 ∧
    (handler_cycles call_nz_nn ioTables 8 (afCpu 0x01 0x00) 0).map Prod.fst = some 6 ∧
    (handler_cycles ret_nz ioTables 8 (afCpu 0x01 0x80) 0).map Prod.fst = some 2 ∧
    (handler_cycles ret_nz ioTables 8 (afCpu 0x01 0x00) 0).map Prod.fst = some 5 := by
  decide!

/-! ## C14: MBC1 ROM bank selection -/

theorem mod_256_and (x m : Nat) (hm : m < 256) : (x % 256) &&& m = x &&& m := by
  have h1 : (255 : Nat) &&& m = m := by
    rw [Nat.and_comm]
    have h8 : m < 2 ^ 8 := hm
    exact Nat.and_pow_two_sub_one_of_lt_two_pow h8
  rw [← and_255, Nat.and_assoc, h1]

theorem get_address_code_eq (address c : Nat) (hc : c < 8) (h1 : c * 0x2000 ≤ address)
    (h2 : address < (c + 1) * 0x2000) : get_address_code address = c := by
  unfold get_address_code
  rw [Nat.shiftRight_eq_div_pow, show (2 : Nat) ^ 13 = 8192 from rfl]
  omega

theorem sub_u16_of_le (a b : Nat) (h : b ≤ a) (ha : a < 65536) : sub_u16 a b = a - b := by
  unfold sub_u16
  rw [if_pos h]
  omega

theorem read_rom_eq (cart : Cartridge) (bank address : Nat) (hm : cart.rom_bank_mask < 256)
    (ha : address < 65536) :
    read_rom cart bank address = cart.rom ((bank &&& cart.rom_bank_mask) * 0x4000 + address) := by
  unfold read_rom
  have hb : bank &&& cart.rom_bank_mask < 256 := lt_of_le_of_lt Nat.and_le_right hm
  have e1 : ((bank &&& cart.rom_bank_mask) * ROM_BANK_SIZE) % 4294967296 =
      (bank &&& cart.rom_bank_mask) * 0x4000 := by
    show ((bank &&& cart.rom_bank_mask) * 0x4000) % 4294967296 = _
    omega
  simp only [e1]
  rw [Nat.mod_eq_of_lt (by omega)]

theorem read_cartridge_of (cart : Cartridge) (address : Nat) :
    (cart.cartridge_reader = .rom_only →
      read_cartridge cart address = some (read_rom_only cart address)) ∧
    (cart.cartridge_reader = .mbc1 → read_cartridge cart address = some (read_mbc1 cart address)) ∧
    (cart.cartridge_reader = .mbc2 → read_cartridge cart address = some (read_mbc2 cart address)) ∧
    (cart.cartridge_reader = .mbc3 → read_cartridge cart address = some (read_mbc3 cart address)) ∧
    (cart.cartridge_reader = .mbc5 → read_cartridge cart address = some (read_mbc5 cart address)) := by
  unfold read_cartridge
  refine ⟨?_, ?_, ?_, ?_, ?_⟩ <;> (intro h; rw [h])

theorem write_cartridge_of (cart : Cartridge) (address value : Nat) :
    (cart.cartridge_writer = .rom_only →
      write_cartridge cart address value = some (write_rom_only cart address value)) ∧
    (cart.cartridge_writer = .mbc1 →
      write_cartridge cart address value = some (write_mbc1 cart address value)) ∧
    (cart.cartridge_writer = .mbc2 →
      write_cartridge cart address value = some (write_mbc2 cart address value)) ∧
    (cart.cartridge_writer = .mbc3 →
      write_cartridge cart address value = some (write_mbc3 cart address value)) ∧
    (cart.cartridge_writer = .mbc5 →
      write_cartridge cart address value = some (write_mbc5 cart address value)) := by
  unfold write_cartridge
  refine ⟨?_, ?_, ?_, ?_, ?_⟩ <;> (intro h; rw [h])

theorem and_and_self (x m : Nat) : (x &&& m) &&& m = x &&& m := by
  rw [Nat.and_assoc, Nat.and_self]

theorem rom_bank_sel_mbc1_and (cart : Cartridge) (hm : cart.rom_bank_mask < 256) :
    rom_bank_sel_mbc1 cart &&& cart.rom_bank_mask =
      ((if cart.lower &&& 0x1F = 0 then 1 else cart.lower &&& 0x1F) ||| (cart.upper <<< 5)) &&&
        cart.rom_bank_mask := by
  unfold rom_bank_sel_mbc1
  dsimp only
  generalize ((if cart.lower &&& LOWER_5_MASK = 0 then 1 else cart.lower &&& LOWER_5_MASK) |||
    (cart.upper <<< 5)) = x
  have e := mod_256_and x _ hm
  split
  · rw [and_and_self, e]
  · exact e

theorem read_mbc1_switchable (cart : Cartridge) (hm : cart.rom_bank_mask < 256) (k : Nat)
    (hk : k < 0x4000) :
    read_mbc1 cart (0x4000 + k) =
      cart.rom ((((if cart.lower &&& 0x1F = 0 then 1 else cart.lower &&& 0x1F) |||
        (cart.upper <<< 5)) &&& cart.rom_bank_mask) * 0x4000 + k) := by
  have hs : sub_u16 (0x4000 + k) ROM_BANK_SIZE = k := by
    rw [sub_u16_of_le _ _ (by show 0x4000 ≤ 0x4000 + k; omega) (by omega)]
    show 0x4000 + k - 0x4000 = k
    omega
  by_cases h : k < 0x2000
  · have hc := get_address_code_eq (0x4000 + k) 2 (by decide) (by omega) (by omega)
    simp only [read_mbc1, hc, hs]
    rw [read_rom_eq cart _ k hm (by omega), rom_bank_sel_mbc1_and cart hm]
  · have hc := get_address_code_eq (0x4000 + k) 3 (by decide) (by omega) (by omega)
    simp only [read_mbc1, hc, hs]
    rw [read_rom_eq cart _ k hm (by omega), rom_bank_sel_mbc1_and cart hm]

theorem and_31_idem (v : Nat) : (v &&& 0x1F) &&& 0x1F = v &&& 0x1F :=
  and_and_self v 0x1F

/-- C14: on an MBC1 cartridge (both handlers are the MBC1 pair; the bank mask
is a byte), writing `v` to an address in 0x2000-0x3FFF and then reading
0x4000+k, k < 0x4000, returns the ROM byte at offset `b * 0x4000 + k` with
`b = ((v & 0x1F, 0 replaced by 1) | (upper << 5)) & rom_bank_mask`; with the
mask of a 32-bank cartridge and `upper = 0`, writing 0x05 reads bank 5 and
writing 0x00 reads bank 1. -/
theorem C14_mbc1_bank_selection (cart : Cartridge)
    (hr : cart.cartridge_reader = .mbc1) (hw : cart.cartridge_writer = .mbc1)
    (hm : cart.rom_bank_mask < 256) (a v k : Nat)
    (ha : 0x2000 ≤ a ∧ a ≤ 0x3FFF) (hk : k < 0x4000) :
    (write_cartridge cart a v).bind (fun c => read_cartridge c (0x4000 + k)) =
      some (cart.rom ((((if v &&& 0x1F = 0 then 1 else v &&& 0x1F) ||| (cart.upper <<< 5)) &&&
        cart.rom_bank_mask) * 0x4000 + k)) ∧
    (cart.rom_bank_mask = 31 → cart.upper = 0 →
      (write_cartridge cart a 0x05).bind (fun c => read_cartridge c (0x4000 + k)) =
        some (cart.rom (5 * 0x4000 + k)) ∧
      (write_cartridge cart a 0x00).bind (fun c => read_cartridge c (0x4000 + k)) =
        some (cart.rom (1 * 0x4000 + k))) := by
  have hc := get_address_code_eq a 1 (by decide) (by omega) (by omega)
  have key : ∀ w : Nat,
      (write_cartridge cart a w).bind (fun c => read_cartridge c (0x4000 + k)) =
        some (cart.rom ((((if w &&& 0x1F = 0 then 1 else w &&& 0x1F) ||| (cart.upper <<< 5)) &&&
          cart.rom_bank_mask) * 0x4000 + k)) := by
    intro w
    have e : write_cartridge cart a w = some { cart with lower := w &&& LOWER_5_MASK } := by
      rw [(write_cartridge_of cart a w).2.1 hw]
      simp only [write_mbc1, hc]
    rw [e, Option.some_bind,
      (read_cartridge_of { cart with lower := w &&& LOWER_5_MASK } (0x4000 + k)).2.1 hr,
      read_mbc1_switchable { cart with lower := w &&& LOWER_5_MASK } hm k hk]
    show some (cart.rom ((((if (w &&& 0x1F) &&& 0x1F = 0 then 1 else (w &&& 0x1F) &&& 0x1F) |||
      (cart.upper <<< 5)) &&& cart.rom_bank_mask) * 0x4000 + k)) = _
    rw [and_31_idem]
  refine ⟨key v, ?_⟩
  intro h31 hu
  refine ⟨?_, ?_⟩
  · rw [key 0x05, h31, hu]
    rfl
  · rw [key 0x00, h31, hu]
    rfl

/-- Witness for C14: the MBC1 cartridge built by `init_cartridge` from a
32-bank image (ROM-size code 0x04): its mask is 31, and after writing 0x05 to
0x2000 the byte read at 0x4000 is the one of bank 5. -/
theorem C14_mbc1_bank_selection_witness :
    (cartOf 0x01 0x04 0x00).rom_bank_mask = 31 ∧
    (write_cartridge (cartOf 0x01 0x04 0x00) 0x2000 0x05).bind
      (fun c => read_cartridge c (0x4000 + 0)) = some 5 ∧
    (write_cartridge (cartOf 0x01 0x04 0x00) 0x2000 0x00).bind
      (fun c => read_cartridge c (0x4000 + 0)) = some 1 := by
  have h := C14_mbc1_bank_selection (cartOf 0x01 0x04 0x00) (by decide!) (by decide!)
    (by decide!) 0x2000 0x05 0 (by decide) (by decide)
  have h2 := h.2 (by decide!) (by decide!)
  exact ⟨by decide!, h2.1.trans (by decide!), h2.2.trans (by decide!)⟩

/-! ## C15: the ROM bank mask -/

theorem compute_bank_mask_loop_fuel (n : Nat) :
    ∀ (fuel quantity mask r : Nat), compute_bank_mask_loop fuel quantity mask = some r →
      compute_bank_mask_loop (fuel + n) quantity mask = some r := by
  intro fuel
  induction fuel with
  | zero => intro quantity mask r h; simp [compute_bank_mask_loop] at h
  | succ fuel ih =>
    intro quantity mask r h
    rw [show fuel + 1 + n = (fuel + n) + 1 by omega]
    unfold compute_bank_mask_loop at h ⊢
    split
    · next hc => rw [if_pos hc] at h; exact ih _ _ _ h
    · next hc => rw [if_neg hc] at h; exact h

set_option maxRecDepth 100000 in
theorem compute_bank_mask_loop_nine : ∀ q, q < 256 →
    (compute_bank_mask_loop 9 q 0).isSome = true ∧
    ∀ m, compute_bank_mask_loop 9 q 0 = some m → q &&& m = q ∧ m < 256 := by
  decide!

theorem compute_bank_mask_ge (fuel : Nat) (hf : 9 ≤ fuel) (quantity : Nat) :
    compute_bank_mask fuel quantity = compute_bank_mask 9 quantity ∧
    (compute_bank_mask 9 quantity).isSome = true := by
  unfold compute_bank_mask
  dsimp only
  have hq : (quantity + 0xFF) % 256 < 256 := Nat.mod_lt _ (by decide)
  obtain ⟨h1, _⟩ := compute_bank_mask_loop_nine _ hq
  refine ⟨?_, h1⟩
  obtain ⟨r, hr⟩ := Option.isSome_iff_exists.mp h1
  have h2 := compute_bank_mask_loop_fuel (fuel - 9) 9 _ 0 r hr
  rw [show 9 + (fuel - 9) = fuel by omega] at h2
  rw [h2, hr]

theorem encode_cartridge_rom (fuel : Nat) (hf : 9 ≤ fuel) (cart : Cartridge) (q m : Nat)
    (hq : (encode_rom_settings
      { cart with header := encode_header cart.header cart.rom }).rom_bank_quantity = q)
    (hm : compute_bank_mask 9 (q % 256) = some m) :
    (encode_cartridge fuel cart).map (fun c => (c.rom_bank_quantity, c.rom_bank_mask)) =
      some (q, m) := by
  have e1 : (encode_ram_settings (encode_rom_settings
      { cart with header := encode_header cart.header cart.rom })).rom_bank_quantity = q := by
    rw [← hq]
    unfold encode_ram_settings
    split <;> rfl
  unfold encode_cartridge
  dsimp only
  rw [e1, (compute_bank_mask_ge fuel hf _).1, hm]
  dsimp only
  split <;> simp [e1]

/-- C15 (what `compute_bank_mask` yields at cartridge initialisation): with
enough fuel the loop returns for every input. For the ROM-size codes
0x00..0x07 the bank count is `2 << code` and the mask is the bank count minus
one; for code 0x08 the bank count is 512 and the mask is 0xFF, not 511: the
argument and the result of `compute_bank_mask` are bytes. -/
theorem C15_rom_bank_mask (cart : Cartridge) (fuel : Nat) (hf : 9 ≤ fuel) :
    (∀ quantity, (compute_bank_mask fuel quantity).isSome = true) ∧
    (∀ code, code ≤ 7 → cart.rom ROM_SETTINGS_ADDRESS = code →
      (encode_cartridge fuel cart).map (fun c => (c.rom_bank_quantity, c.rom_bank_mask)) =
        some (2 <<< code, (2 <<< code) - 1)) ∧
    (cart.rom ROM_SETTINGS_ADDRESS = 8 →
      (encode_cartridge fuel cart).map (fun c => (c.rom_bank_quantity, c.rom_bank_mask)) =
        some (512, 0xFF)) := by
  refine ⟨?_, ?_, ?_⟩
  · intro quantity
    rw [(compute_bank_mask_ge fuel hf quantity).1]
    exact (compute_bank_mask_ge fuel hf quantity).2
  · intro code hc hcode
    interval_cases code <;>
      exact encode_cartridge_rom fuel hf cart _ _
        (by simp only [encode_rom_settings, encode_header, hcode]; decide) (by decide)
  · intro hcode
    exact encode_cartridge_rom fuel hf cart _ _
      (by simp only [encode_rom_settings, encode_header, hcode]) (by decide)

/-- Witness for C15: the images with ROM-size codes 0x04 and 0x08. -/
theorem C15_rom_bank_mask_witness :
    (encode_cartridge 9 { blankCart with rom := romImage 0x19 0x04 0x00 }).map
      (fun c => (c.rom_bank_quantity, c.rom_bank_mask)) = some (32, 31) ∧
    (encode_cartridge 9 { blankCart with rom := romImage 0x19 0x08 0x00 }).map
      (fun c => (c.rom_bank_quantity, c.rom_bank_mask)) = some (512, 0xFF) :=
  ⟨(C15_rom_bank_mask { blankCart with rom := romImage 0x19 0x04 0x00 } 9 (by decide)).2.1 4
      (by decide) (by decide),
   (C15_rom_bank_mask { blankCart with rom := romImage 0x19 0x08 0x00 } 9 (by decide)).2.2
      (by decide)⟩

/-! ## C16: MBC5 ROM bank selection -/

theorem shl8_or_and (h lo m : Nat) (hlo : lo < 256) (hm : m < 256) :
    (((h <<< 8) ||| lo) % 65536) &&& m = lo &&& m := by
  rw [← mod_256_and _ m hm, shl_or_eq h lo hlo]
  have e : (256 * h + lo) % 65536 % 256 = lo := by omega
  rw [e]

theorem read_mbc5_switchable (cart : Cartridge) (hm : cart.rom_bank_mask < 256)
    (hl : cart.lower < 256) (k : Nat) (hk : k < 0x4000) :
    read_mbc5 cart (0x4000 + k) =
      cart.rom ((cart.lower &&& cart.rom_bank_mask) * 0x4000 + k) := by
  have hs : sub_u16 (0x4000 + k) ROM_BANK_SIZE = k := by
    rw [sub_u16_of_le _ _ (by show 0x4000 ≤ 0x4000 + k; omega) (by omega)]
    show 0x4000 + k - 0x4000 = k
    omega
  by_cases h : k < 0x2000
  · have hc := get_address_code_eq (0x4000 + k) 2 (by decide) (by omega) (by omega)
    simp only [read_mbc5, hc, hs]
    rw [read_rom_eq cart _ k hm (by omega), shl8_or_and _ _ _ hl hm]
  · have hc := get_address_code_eq (0x4000 + k) 3 (by decide) (by omega) (by omega)
    simp only [read_mbc5, hc, hs]
    rw [read_rom_eq cart _ k hm (by omega), shl8_or_and _ _ _ hl hm]

/-- C16 (what the MBC5 handlers do): on an MBC5 cartridge, after writing the
byte `lo` to an address in 0x2000-0x2FFF and `hi` to an address in
0x3000-0x3FFF, a read from 0x4000+k, k < 0x4000, returns the ROM byte at offset
`(lo & rom_bank_mask) * 0x4000 + k`: `read_rom` masks the 9-bit bank number
`((hi & 1) << 8) | lo` with the byte `rom_bank_mask`, so bit 8 never reaches
the offset. Bank 0 is selectable (`lo = 0` reads bank 0). -/
theorem C16_mbc5_bank_selection (cart : Cartridge)
    (hr : cart.cartridge_reader = .mbc5) (hw : cart.cartridge_writer = .mbc5)
    (hm : cart.rom_bank_mask < 256) (a1 a2 lo hi k : Nat)
    (h1 : 0x2000 ≤ a1 ∧ a1 ≤ 0x2FFF) (h2 : 0x3000 ≤ a2 ∧ a2 ≤ 0x3FFF)
    (hlo : lo < 256) (hk : k < 0x4000) :
    ((write_cartridge cart a1 lo).bind (fun c => write_cartridge c a2 hi)).bind
        (fun c => read_cartridge c (0x4000 + k)) =
      some (cart.rom ((lo &&& cart.rom_bank_mask) * 0x4000 + k)) ∧
    ((write_cartridge cart a1 0).bind (fun c => write_cartridge c a2 hi)).bind
        (fun c => read_cartridge c (0x4000 + k)) = some (cart.rom k) := by
  have hc1 := get_address_code_eq a1 1 (by decide) (by omega) (by omega)
  have hc2 := get_address_code_eq a2 1 (by decide) (by omega) (by omega)
  have key : ∀ w : Nat, w < 256 →
      ((write_cartridge cart a1 w).bind (fun c => write_cartridge c a2 hi)).bind
          (fun c => read_cartridge c (0x4000 + k)) =
        some (cart.rom ((w &&& cart.rom_bank_mask) * 0x4000 + k)) := by
    intro w hw'
    have e1 : write_cartridge cart a1 w = some { cart with lower := w } := by
      rw [(write_cartridge_of cart a1 w).2.2.2.2 hw]
      simp only [write_mbc5, hc1, if_pos h1.2]
    have e2 : write_cartridge { cart with lower := w } a2 hi =
        some { cart with lower := w, mbc5_upper := hi &&& BIT_0_MASK } := by
      rw [(write_cartridge_of { cart with lower := w } a2 hi).2.2.2.2 hw]
      simp only [write_mbc5, hc2, if_neg (show ¬ a2 ≤ 0x2FFF by omega)]
    rw [e1, Option.some_bind, e2, Option.some_bind,
      (read_cartridge_of { cart with lower := w, mbc5_upper := hi &&& BIT_0_MASK }
        (0x4000 + k)).2.2.2.2 hr,
      read_mbc5_switchable { cart with lower := w, mbc5_upper := hi &&& BIT_0_MASK } hm hw' k hk]
  refine ⟨key lo hlo, ?_⟩
  rw [key 0 (by decide), Nat.zero_and, Nat.zero_mul, Nat.zero_add]

/-- Witness for C16, on the MBC5 cartridge built from a 512-bank image
(ROM-size code 0x08, mask 0xFF): with `lo = 0` and `hi = 1` the read at 0x4000
returns the byte of bank 0 (0x00), while the byte at ROM offset
`256 * 0x4000`, the first byte of bank 256, is 0x05. -/
theorem C16_mbc5_bank_selection_witness :
    (cartOf 0x19 0x08 0x00).rom_bank_quantity = 512 ∧
    ((write_cartridge (cartOf 0x19 0x08 0x00) 0x2000 0x00).bind
        (fun c => write_cartridge c 0x3000 0x01)).bind
        (fun c => read_cartridge c (0x4000 + 0)) = some 0x00 ∧
    (cartOf 0x19 0x08 0x00).rom (256 * 0x4000 + 0) = 0x05 := by
  have h := (C16_mbc5_bank_selection (cartOf 0x19 0x08 0x00) (by decide!) (by decide!)
    (by decide!) 0x2000 0x3000 0x00 0x01 0 (by decide) (by decide) (by decide) (by decide)).1
  exact ⟨by decide!, h.trans (by decide!), by decide!⟩

/-! ## C17: the RAM enable gate -/

theorem ram_disabled_reads (cart : Cartridge) (hd : cart.ram_enabled = false) (a : Nat)
    (ha : 0xA000 ≤ a ∧ a ≤ 0xBFFF) :
    read_rom_only cart a = 0xFF ∧ read_mbc1 cart a = 0xFF ∧ read_mbc2 cart a = 0xFF ∧
    (cart.mode = RAM_MODE → read_mbc3 cart a = 0xFF) ∧ read_mbc5 cart a = 0xFF := by
  have hc := get_address_code_eq a 5 (by decide) (by omega) (by omega)
  refine ⟨?_, ?_, ?_, ?_, ?_⟩
  · simp only [read_rom_only, hc]
  · simp only [read_mbc1, hc, read_ram, hd, Bool.not_false, if_true]
  · simp only [read_mbc2, hc, read_ram_mbc2, hd, Bool.not_false, if_true]
  · intro hmode
    simp only [read_mbc3, hc, hmode, read_ram, hd, Bool.not_false, if_true]
  · simp only [read_mbc5, hc, read_ram, hd, Bool.not_false, if_true]

theorem ram_disabled_writes (cart : Cartridge) (hd : cart.ram_enabled = false) (a v : Nat)
    (ha : 0xA000 ≤ a ∧ a ≤ 0xBFFF) :
    write_rom_only cart a v = cart ∧ write_mbc1 cart a v = cart ∧ write_mbc2 cart a v = cart ∧
    write_mbc3 cart a v = cart ∧ write_mbc5 cart a v = cart := by
  have hc := get_address_code_eq a 5 (by decide) (by omega) (by omega)
  refine ⟨rfl, ?_, ?_, ?_, ?_⟩
  · simp only [write_mbc1, hc, write_ram, hd, Bool.not_false, if_true]
  · simp only [write_mbc2, hc, write_ram_mbc2, hd, Bool.not_false, if_true]
  · simp only [write_mbc3, hc, hd, Bool.not_false, if_true]
  · simp only [write_mbc5, hc, write_ram, hd, Bool.not_false, if_true]

theorem ram_enable_writes (cart : Cartridge) (a v : Nat) (ha : a ≤ 0x1FFF) :
    (write_mbc1 cart a v).ram_enabled = decide ((v &&& 0x0F) = 0x0A) ∧
    (write_mbc3 cart a v).ram_enabled = decide ((v &&& 0x0F) = 0x0A) ∧
    (write_mbc5 cart a v).ram_enabled = decide ((v &&& 0x0F) = 0x0A) := by
  have hc := get_address_code_eq a 0 (by decide) (by omega) (by omega)
  refine ⟨?_, ?_, ?_⟩
  · simp only [write_mbc1, hc]
  · simp only [write_mbc3, hc]
  · simp only [write_mbc5, hc]

theorem get_address_code_cases (a : Nat) (h1 : 0x2000 ≤ a) (h2 : a ≤ 0xFFFF) :
    get_address_code a = 1 ∨ get_address_code a = 2 ∨ get_address_code a = 3 ∨
    get_address_code a = 4 ∨ get_address_code a = 5 ∨ get_address_code a = 6 ∨
    get_address_code a = 7 := by
  unfold get_address_code
  rw [Nat.shiftRight_eq_div_pow, show (2 : Nat) ^ 13 = 8192 from rfl]
  omega

theorem write_ram_enabled (cart : Cartridge) (bank a v : Nat) :
    (write_ram cart bank a v).ram_enabled = cart.ram_enabled := by
  unfold write_ram
  split <;> rfl

theorem write_rtc_enabled (cart : Cartridge) (code v : Nat) :
    (write_rtc cart code v).ram_enabled = cart.ram_enabled := by
  unfold write_rtc
  split <;> rfl

theorem latch_clock_enabled (cart : Cartridge) (v : Nat) :
    (latch_clock cart v).ram_enabled = cart.ram_enabled := by
  unfold latch_clock
  dsimp only
  split <;> rfl

theorem ram_enable_other_writes (cart : Cartridge) (a v : Nat) (h1 : 0x2000 ≤ a)
    (h2 : a ≤ 0xFFFF) :
    (write_mbc1 cart a v).ram_enabled = cart.ram_enabled ∧
    (write_mbc3 cart a v).ram_enabled = cart.ram_enabled ∧
    (write_mbc5 cart a v).ram_enabled = cart.ram_enabled := by
  rcases get_address_code_cases a h1 h2 with h | h | h | h | h | h | h
  all_goals
    refine ⟨?_, ?_, ?_⟩
    · simp only [write_mbc1, h, write_ram_enabled]
    · simp only [write_mbc3, h, latch_clock_enabled]
      try (repeat' split)
      all_goals first | rfl | exact write_ram_enabled _ _ _ _ | exact write_rtc_enabled _ _ _
    · simp only [write_mbc5, h, write_ram_enabled]
      try (split <;> rfl)

theorem ram_enable_mbc2 (cart : Cartridge) (a v : Nat) (ha : a ≤ 0xFFFF) :
    (a ≤ 0x3FFF → a &&& 0x0100 = 0 →
      (write_mbc2 cart a v).ram_enabled = decide ((v &&& 0x0F) = 0x0A)) ∧
    (a ≤ 0x3FFF → a &&& 0x0100 ≠ 0 →
      (write_mbc2 cart a v).ram_enabled = cart.ram_enabled ∧
      (write_mbc2 cart a v).lower = v &&& 0x0F) ∧
    (0x4000 ≤ a → (write_mbc2 cart a v).ram_enabled = cart.ram_enabled) := by
  refine ⟨?_, ?_, ?_⟩
  · intro h hb
    by_cases h0 : a < 0x2000
    · have hc := get_address_code_eq a 0 (by decide) (by omega) (by omega)
      simp only [write_mbc2, hc, hb, if_true]
    · have hc := get_address_code_eq a 1 (by decide) (by omega) (by omega)
      simp only [write_mbc2, hc, hb, if_true]
  · intro h hb
    by_cases h0 : a < 0x2000
    · have hc := get_address_code_eq a 0 (by decide) (by omega) (by omega)
      simp only [write_mbc2, hc, hb, if_false, and_self]
    · have hc := get_address_code_eq a 1 (by decide) (by omega) (by omega)
      simp only [write_mbc2, hc, hb, if_false, and_self]
  · intro h
    rcases get_address_code_cases a (by omega) ha with hc | hc | hc | hc | hc | hc | hc
    · have : a < 0x4000 := by
        unfold get_address_code at hc
        rw [Nat.shiftRight_eq_div_pow, show (2 : Nat) ^ 13 = 8192 from rfl] at hc
        omega
      omega
    all_goals simp only [write_mbc2, hc]
    unfold write_ram_mbc2
    split <;> rfl

/-- C17 (as amended). While cartridge RAM is disabled, a read from
0xA000-0xBFFF returns 0xFF through the ROM-only, MBC1, MBC2 and MBC5 readers in
every latch state and through the MBC3 reader in RAM mode, and a write to that
range through any of the five writers leaves the whole cartridge state (the
external RAM and the RTC registers with it) unchanged. Through the MBC1, MBC3
and MBC5 writers a write to 0x0000-0x1FFF enables RAM exactly when the low
nibble of the value is 0x0A and disables it otherwise, and a write to any other
address leaves the enable as it was; through the MBC2 writer this holds for the
addresses in 0x0000-0x3FFF with bit 8 clear, while a write with bit 8 set
selects the ROM bank and leaves the enable as it was; the ROM-only writer
ignores every write. -/
theorem C17_ram_enable_gate (cart : Cartridge) (a v : Nat) :
    (cart.ram_enabled = false → 0xA000 ≤ a ∧ a ≤ 0xBFFF →
      (read_rom_only cart a = 0xFF ∧ read_mbc1 cart a = 0xFF ∧ read_mbc2 cart a = 0xFF ∧
        (cart.mode = RAM_MODE → read_mbc3 cart a = 0xFF) ∧ read_mbc5 cart a = 0xFF) ∧
      (write_rom_only cart a v = cart ∧ write_mbc1 cart a v = cart ∧
        write_mbc2 cart a v = cart ∧ write_mbc3 cart a v = cart ∧ write_mbc5 cart a v = cart)) ∧
    (a ≤ 0x1FFF →
      (write_mbc1 cart a v).ram_enabled = decide ((v &&& 0x0F) = 0x0A) ∧
      (write_mbc3 cart a v).ram_enabled = decide ((v &&& 0x0F) = 0x0A) ∧
      (write_mbc5 cart a v).ram_enabled = decide ((v &&& 0x0F) = 0x0A)) ∧
    (0x2000 ≤ a → a ≤ 0xFFFF →
      (write_mbc1 cart a v).ram_enabled = cart.ram_enabled ∧
      (write_mbc3 cart a v).ram_enabled = cart.ram_enabled ∧
      (write_mbc5 cart a v).ram_enabled = cart.ram_enabled) ∧
    (a ≤ 0x3FFF → a &&& 0x0100 = 0 →
      (write_mbc2 cart a v).ram_enabled = decide ((v &&& 0x0F) = 0x0A)) ∧
    (a ≤ 0x3FFF → a &&& 0x0100 ≠ 0 →
      (write_mbc2 cart a v).ram_enabled = cart.ram_enabled ∧
      (write_mbc2 cart a v).lower = v &&& 0x0F) ∧
    (0x4000 ≤ a → a ≤ 0xFFFF → (write_mbc2 cart a v).ram_enabled = cart.ram_enabled) ∧
    write_rom_only cart a v = cart := by
  refine ⟨?_, ?_, ?_, ?_, ?_, ?_, rfl⟩
  · intro hd ha
    exact ⟨ram_disabled_reads cart hd a ha, ram_disabled_writes cart hd a v ha⟩
  · exact ram_enable_writes cart a v
  · exact ram_enable_other_writes cart a v
  · intro h hb
    exact (ram_enable_mbc2 cart a v (by omega)).1 h hb
  · intro h hb
    exact (ram_enable_mbc2 cart a v (by omega)).2.1 h hb
  · intro h h'
    exact (ram_enable_mbc2 cart a v h').2.2 h

/-- Witness for C17: on the freshly initialised MBC1 cartridge (RAM disabled)
the read of 0xA000 gives 0xFF; writing 0x0A to 0x0000 enables RAM and writing
0x0B disables it; on the MBC2 cartridge writing 0x0A to 0x0000 enables RAM. -/
theorem C17_ram_enable_gate_witness :
    read_mbc1 (cartOf 0x03 0x00 0x02) 0xA000 = 0xFF ∧
    (write_mbc1 (cartOf 0x03 0x00 0x02) 0x0000 0x0A).ram_enabled = true ∧
    (write_mbc1 (cartOf 0x03 0x00 0x02) 0x0000 0x0B).ram_enabled = false ∧
    (write_mbc1 (cartOf 0x03 0x00 0x02) 0x2000 0x0A).ram_enabled = false ∧
    (write_mbc2 (cartOf 0x05 0x00 0x00) 0x0000 0x0A).ram_enabled = true ∧
    (write_mbc2 (cartOf 0x05 0x00 0x00) 0x0100 0x0A).lower = 0x0A ∧
    (write_mbc2 (cartOf 0x05 0x00 0x00) 0x4000 0x0A).ram_enabled = false :=
  ⟨((C17_ram_enable_gate (cartOf 0x03 0x00 0x02) 0xA000 0).1 (by decide!) (by decide)).1.2.1,
   ((C17_ram_enable_gate (cartOf 0x03 0x00 0x02) 0x0000 0x0A).2.1 (by decide)).1.trans
     (by decide),
   ((C17_ram_enable_gate (cartOf 0x03 0x00 0x02) 0x0000 0x0B).2.1 (by decide)).1.trans
     (by decide),
   ((C17_ram_enable_gate (cartOf 0x03 0x00 0x02) 0x2000 0x0A).2.2.1 (by decide)
     (by decide)).1.trans (by decide!),
   ((C17_ram_enable_gate (cartOf 0x05 0x00 0x00) 0x0000 0x0A).2.2.2.1 (by decide)
     (by decide)).trans (by decide),
   ((C17_ram_enable_gate (cartOf 0x05 0x00 0x00) 0x0100 0x0A).2.2.2.2.1 (by decide)
     (by decide)).2.trans (by decide),
   ((C17_ram_enable_gate (cartOf 0x05 0x00 0x00) 0x4000 0x0A).2.2.2.2.2.1 (by decide)
     (by decide)).trans (by decide!)⟩

/-- Counterexample to C17 as stated: on the MBC2 cartridge built by
`init_cartridge`, writing 0x0A to 0x0100 (inside 0x0000-0x1FFF, address bit 8
set) leaves RAM disabled, and writing 0x0A to 0x2000 (outside 0x0000-0x1FFF,
bit 8 clear) enables it; on the ROM-only cartridge writing 0x0A to 0x0000
leaves RAM disabled. -/
theorem C17_ram_enable_gate_counterexample :
    (cartOf 0x05 0x00 0x00).cartridge_writer = .mbc2 ∧
    (write_cartridge (cartOf 0x05 0x00 0x00) 0x0100 0x0A).map (fun c => c.ram_enabled) =
      some false ∧
    (write_cartridge (cartOf 0x05 0x00 0x00) 0x2000 0x0A).map (fun c => c.ram_enabled) =
      some true ∧
    (cartOf 0x00 0x00 0x00).cartridge_writer = .rom_only ∧
    (write_cartridge (cartOf 0x00 0x00 0x00) 0x0000 0x0A).map (fun c => c.ram_enabled) =
      some false := by
  decide!

/-! ## C18: external RAM round trip -/

theorem ram_round_trip (cart : Cartridge) (he : cart.ram_enabled = true) (bank a v : Nat)
    (hb : bank < 256) :
    read_ram (write_ram cart bank a v) bank a = v ∧
    (write_ram cart bank a v).ram
      (((sub_u32 a EXT_RAM_START + (bank * RAM_BANK_SIZE) % 4294967296) % 4294967296) %
        cart.ram_size) = v := by
  have e1 : bank % 65536 = bank := Nat.mod_eq_of_lt (by omega)
  have e2 : bank % 256 = bank := Nat.mod_eq_of_lt hb
  unfold read_ram write_ram
  simp only [he, Bool.not_true, Bool.false_eq_true, if_false, e1, e2, if_true, and_self]

theorem mbc_round_trip (cart : Cartridge) (he : cart.ram_enabled = true)
    (hu : cart.upper < 256) (a v : Nat) (ha : 0xA000 ≤ a ∧ a ≤ 0xBFFF) :
    read_mbc1 (write_mbc1 cart a v) a = v ∧
    read_mbc5 (write_mbc5 cart a v) a = v ∧
    (cart.mode = RAM_MODE → read_mbc3 (write_mbc3 cart a v) a = v) := by
  have hc := get_address_code_eq a 5 (by decide) (by omega) (by omega)
  have wm : ∀ bank, (write_ram cart bank a v).mode = cart.mode := by
    intro bank; unfold write_ram; split <;> rfl
  have wu : ∀ bank, (write_ram cart bank a v).upper = cart.upper := by
    intro bank; unfold write_ram; split <;> rfl
  refine ⟨?_, ?_, ?_⟩
  · simp only [read_mbc1, write_mbc1, hc, wm, wu]
    split
    · exact (ram_round_trip cart he _ a v hu).1
    · exact (ram_round_trip cart he _ a v (by decide)).1
  · simp only [read_mbc5, write_mbc5, hc, wu]
    exact (ram_round_trip cart he _ a v hu).1
  · intro hm
    simp only [read_mbc3, write_mbc3, hc, he, hm, Bool.not_true, Bool.false_eq_true, if_false,
      if_true, wm, wu]
    exact (ram_round_trip cart he _ a v hu).1

theorem mbc3_not_ram_mode (cart : Cartridge) (he : cart.ram_enabled = true)
    (hm : cart.mode ≠ RAM_MODE) (hu : cart.upper < 0x08) (a v : Nat)
    (ha : 0xA000 ≤ a ∧ a ≤ 0xBFFF) :
    write_mbc3 cart a v = cart ∧ read_mbc3 (write_mbc3 cart a v) a = 0xFF := by
  have hc := get_address_code_eq a 5 (by decide) (by omega) (by omega)
  have e : write_mbc3 cart a v = cart := by
    simp only [write_mbc3, hc, he, hm, Bool.not_true, Bool.false_eq_true, if_false]
    unfold write_rtc
    split <;> first | rfl | omega
  refine ⟨e, ?_⟩
  rw [e]
  simp only [read_mbc3, hc, hm, if_false]
  unfold read_rtc
  split <;> first | rfl | omega

theorem init_cartridge_latches (fuel : Nat) (blank : Cartridge) (rom : Nat → Nat)
    (file_size : Nat) (c : Cartridge) (h : init_cartridge fuel blank rom file_size = some c) :
    c.mode = ROM_MODE ∧ c.upper = 0 ∧ c.lower = 1 ∧ c.mbc5_upper = 0 ∧
    c.ram_enabled = false := by
  unfold init_cartridge at h
  dsimp only at h
  split at h
  · exact absurd h (by simp)
  · next c1 h1 =>
    have hc : c = init_rtcc (init_ram c1) := by
      simpa using h.symm
    have h2 : c1.mode = ROM_MODE ∧ c1.upper = 0 ∧ c1.lower = 1 ∧ c1.mbc5_upper = 0 ∧
        c1.ram_enabled = false := by
      unfold encode_cartridge at h1
      dsimp only at h1
      split at h1
      · exact absurd h1 (by simp)
      · split at h1
        · have e := (Option.some.inj h1).symm
          rw [e]
          exact ⟨rfl, rfl, rfl, rfl, rfl⟩
        · have e := (Option.some.inj h1).symm
          rw [e]
          exact ⟨rfl, rfl, rfl, rfl, rfl⟩
    rw [hc]
    exact h2

theorem cartOf_init (cart_code rom_code ram_code : Nat)
    (h : (init_cartridge 16 blankCart (romImage cart_code rom_code ram_code)
      ((2 <<< rom_code) * ROM_BANK_SIZE)).isSome = true) :
    init_cartridge 16 blankCart (romImage cart_code rom_code ram_code)
      ((2 <<< rom_code) * ROM_BANK_SIZE) = some (cartOf cart_code rom_code ram_code) := by
  unfold cartOf
  obtain ⟨c, hc⟩ := Option.isSome_iff_exists.mp h
  rw [hc]
  rfl

/-- C18 (what the RAM paths do). With RAM enabled and the bank latch a byte, a
byte written to an address in 0xA000-0xBFFF through the MBC1 writer, the MBC5
writer, or the MBC3 writer in RAM mode is stored in external RAM and returned by
the next read of that address. Through the MBC3 handlers in the latch state
`init_cartridge` leaves (`mode = ROM_MODE`, `upper = 0`), also after RAM has
been enabled by writing 0x0A to 0x0000, the write leaves the cartridge
unchanged and the read returns 0xFF: both handlers test `mode == RAM_MODE` and
otherwise take the RTC path, which knows no register 0. -/
theorem C18_external_ram_round_trip (cart : Cartridge) (a v : Nat)
    (ha : 0xA000 ≤ a ∧ a ≤ 0xBFFF) :
    (cart.ram_enabled = true → cart.upper < 256 →
      read_mbc1 (write_mbc1 cart a v) a = v ∧
      read_mbc5 (write_mbc5 cart a v) a = v ∧
      (cart.mode = RAM_MODE → read_mbc3 (write_mbc3 cart a v) a = v) ∧
      (write_ram cart cart.upper a v).ram
        (((sub_u32 a EXT_RAM_START + (cart.upper * RAM_BANK_SIZE) % 4294967296) %
          4294967296) % cart.ram_size) = v) ∧
    (∀ (fuel : Nat) (blank : Cartridge) (rom : Nat → Nat) (file_size : Nat) (c : Cartridge),
      init_cartridge fuel blank rom file_size = some c →
      (write_mbc3 c 0x0000 0x0A).ram_enabled = true ∧
      write_mbc3 (write_mbc3 c 0x0000 0x0A) a v = write_mbc3 c 0x0000 0x0A ∧
      read_mbc3 (write_mbc3 (write_mbc3 c 0x0000 0x0A) a v) a = 0xFF) := by
  refine ⟨?_, ?_⟩
  · intro he hu
    obtain ⟨h1, h5, h3⟩ := mbc_round_trip cart he hu a v ha
    exact ⟨h1, h5, h3, (ram_round_trip cart he _ a v hu).2⟩
  · intro fuel blank rom file_size c hc
    obtain ⟨hm, hu, _, _, _⟩ := init_cartridge_latches fuel blank rom file_size c hc
    have hc0 := get_address_code_eq 0x0000 0 (by decide) (by decide) (by decide)
    have e : write_mbc3 c 0x0000 0x0A = { c with ram_enabled := true } := by
      simp only [write_mbc3, hc0]
      rfl
    rw [e]
    have h := mbc3_not_ram_mode { c with ram_enabled := true } rfl
      (by show c.mode ≠ RAM_MODE; rw [hm]; decide) (by show c.upper < 8; rw [hu]; decide) a v ha
    exact ⟨rfl, h.1, h.2⟩

/-- Witness for C18: on the MBC1 cartridge with RAM enabled, 0x42 written to
0xA000 is read back; on the MBC3 cartridge as `init_cartridge` leaves it, with
RAM enabled, 0x42 written to 0xA000 is not stored and the read returns 0xFF. -/
theorem C18_external_ram_round_trip_witness :
    read_mbc1 (write_mbc1 (write_mbc1 (cartOf 0x03 0x00 0x02) 0x0000 0x0A) 0xA000 0x42)
      0xA000 = 0x42 ∧
    (cartOf 0x13 0x00 0x03).cartridge_reader = .mbc3 ∧
    read_mbc3 (write_mbc3 (write_mbc3 (cartOf 0x13 0x00 0x03) 0x0000 0x0A) 0xA000 0x42)
      0xA000 = 0xFF :=
  ⟨((C18_external_ram_round_trip (write_mbc1 (cartOf 0x03 0x00 0x02) 0x0000 0x0A) 0xA000 0x42
      (by decide)).1 (by decide!) (by decide!)).1,
   by decide!,
   ((C18_external_ram_round_trip blankCart 0xA000 0x42 (by decide)).2 16 blankCart
      (romImage 0x13 0x00 0x03) ((2 <<< 0x00) * ROM_BANK_SIZE) (cartOf 0x13 0x00 0x03)
      (cartOf_init 0x13 0x00 0x03 (by decide!))).2.2⟩

/-! ## C19: RTC latch -/

/-- C19 (what `latch_clock` does): through the MBC3 writer, writing 0x00 and
then 0x01 to addresses in 0x6000-0x7FFF copies the live seconds, minutes, hours
and day-low counters into the latched registers and leaves the latched
day-high register as it was (the live day-high counter is not copied); a write
of `v` that is not a 0 -> 1 transition (`v` is not 1, or the previous latch
value is not 0) leaves every latched register unchanged. -/
theorem C19_rtc_latch (cart : Cartridge) (a1 a2 v : Nat)
    (h1 : 0x6000 ≤ a1 ∧ a1 ≤ 0x7FFF) (h2 : 0x6000 ≤ a2 ∧ a2 ≤ 0x7FFF) :
    (write_mbc3 (write_mbc3 cart a1 0x00) a2 0x01).clock =
      { cart.clock with
        rtc_s := cart.clock.live_s, rtc_m := cart.clock.live_m,
        rtc_h := cart.clock.live_h, rtc_dl := cart.clock.live_dl,
        rtc_dh := cart.clock.rtc_dh } ∧
    (¬ (v = 0x01 ∧ cart.latch_prev = 0x00) → (write_mbc3 cart a1 v).clock = cart.clock) := by
  have hc1 := get_address_code_eq a1 3 (by decide) (by omega) (by omega)
  have hc2 := get_address_code_eq a2 3 (by decide) (by omega) (by omega)
  refine ⟨?_, ?_⟩
  · simp [write_mbc3, hc1, hc2, latch_clock]
  · intro hv
    simp only [write_mbc3, hc1, latch_clock]
    by_cases e1 : v = 0x01
    · have e2 : cart.latch_prev ≠ 0x00 := fun e => hv ⟨e1, e⟩
      simp [e1, e2]
    · simp [e1]

/-- Witness for C19: with live counters 15 s, 30 min, 12 h, day 0x134 (day-low
0x34, day-high 0x01) and all latched registers 0, the 0 -> 1 latch sequence
gives latched seconds 15 and day-low 0x34, and the latched day-high register
still reads 0x00 while the live one is 0x01. -/
theorem C19_rtc_latch_witness :
    read_rtc (write_mbc3 (write_mbc3 (clockCart 15 30 12 0x34 0x01) 0x6000 0x00) 0x6000 0x01)
      0x08 = 15 ∧
    read_rtc (write_mbc3 (write_mbc3 (clockCart 15 30 12 0x34 0x01) 0x6000 0x00) 0x6000 0x01)
      0x0B = 0x34 ∧
    read_rtc (write_mbc3 (write_mbc3 (clockCart 15 30 12 0x34 0x01) 0x6000 0x00) 0x6000 0x01)
      0x0C = 0x00 ∧
    (clockCart 15 30 12 0x34 0x01).clock.live_dh = 0x01 := by
  have h := (C19_rtc_latch (clockCart 15 30 12 0x34 0x01) 0x6000 0x6000 0 (by decide)
    (by decide)).1
  refine ⟨?_, ?_, ?_, by decide!⟩
  · show (write_mbc3 (write_mbc3 (clockCart 15 30 12 0x34 0x01) 0x6000 0x00) 0x6000
      0x01).clock.rtc_s = 15
    rw [h]; decide!
  · show (write_mbc3 (write_mbc3 (clockCart 15 30 12 0x34 0x01) 0x6000 0x00) 0x6000
      0x01).clock.rtc_dl = 0x34
    rw [h]; decide!
  · show (write_mbc3 (write_mbc3 (clockCart 15 30 12 0x34 0x01) 0x6000 0x00) 0x6000
      0x01).clock.rtc_dh = 0x00
    rw [h]; decide!

/-! ## C20: RTC tick chain -/

theorem with_live_time_self (cart : Cartridge) :
    with_live_time cart cart.clock.live_s cart.clock.live_m cart.clock.live_h = cart := rfl

theorem with_live_time_twice (cart : Cartridge) (s m h s2 m2 h2 : Nat) :
    with_live_time (with_live_time cart s m h) s2 m2 h2 = with_live_time cart s2 m2 h2 := rfl

theorem rtc_ticks_succ (n : Nat) : ∀ cart : Cartridge,
    rtc_ticks (n + 1) cart = rtc_tick_second (rtc_ticks n cart) := by
  induction n with
  | zero => intro cart; rfl
  | succ n ih =>
    intro cart
    show rtc_ticks (n + 1) (rtc_tick_second cart) = _
    rw [ih]; rfl

theorem rtc_ticks_add (a : Nat) (b : Nat) (cart : Cartridge) :
    rtc_ticks (a + b) cart = rtc_ticks b (rtc_ticks a cart) := by
  induction b with
  | zero => rfl
  | succ b ih =>
    rw [← Nat.add_assoc, rtc_ticks_succ, rtc_ticks_succ, ih]

/-- One tick without a day carry, on the time of day counted in seconds. -/
theorem rtc_tick_second_time (cart : Cartridge) (t : Nat)
    (hn : cart.clock.live_dh &&& BIT_6_MASK = 0) (ht : t + 1 < 86400) :
    rtc_tick_second (with_live_time cart (t % 60) (t / 60 % 60) (t / 3600)) =
      with_live_time cart ((t + 1) % 60) ((t + 1) / 60 % 60) ((t + 1) / 3600) := by
  have hh : t / 3600 < 24 := by omega
  by_cases e1 : t % 60 = 59
  · have a1 : (t + 1) % 60 = 0 := by omega
    by_cases e2 : t / 60 % 60 = 59
    · have a2 : (t + 1) / 60 % 60 = 0 := by omega
      have a3 : (t + 1) / 3600 = t / 3600 + 1 := by omega
      have a4 : (t / 3600 + 1) % 24 = t / 3600 + 1 := by omega
      have a5 : t / 3600 + 1 ≠ 0 := by omega
      rw [a1, a2, a3, e1, e2]
      simp [rtc_tick_second, rtc_tick_minute, rtc_tick_hour, with_live_time, hn, a4]
    · have a2 : (t + 1) / 60 % 60 = t / 60 % 60 + 1 := by omega
      have a3 : (t + 1) / 3600 = t / 3600 := by omega
      have a4 : (t / 60 % 60 + 1) % 60 = t / 60 % 60 + 1 := by omega
      rw [a1, a2, a3, e1]
      simp [rtc_tick_second, rtc_tick_minute, with_live_time, hn, a4]
  · have a1 : (t + 1) % 60 = t % 60 + 1 := by omega
    have a2 : (t + 1) / 60 % 60 = t / 60 % 60 := by omega
    have a3 : (t + 1) / 3600 = t / 3600 := by omega
    have a4 : (t % 60 + 1) % 60 = t % 60 + 1 := by omega
    rw [a1, a2, a3]
    simp [rtc_tick_second, with_live_time, hn, a4]

/-- The ticks of a run that does not reach midnight. -/
theorem rtc_ticks_time (cart : Cartridge) (hn : cart.clock.live_dh &&& BIT_6_MASK = 0)
    (k : Nat) : ∀ t : Nat, t + k < 86400 →
    rtc_ticks k (with_live_time cart (t % 60) (t / 60 % 60) (t / 3600)) =
      with_live_time cart ((t + k) % 60) ((t + k) / 60 % 60) ((t + k) / 3600) := by
  induction k with
  | zero => intro t _; rfl
  | succ k ih =>
    intro t ht
    rw [rtc_ticks_succ, ih t (by omega), ← Nat.add_assoc]
    exact rtc_tick_second_time cart (t + k) hn (by omega)

/-- The tick at 23:59:59 is the day step on the time 00:00:00. -/
theorem rtc_tick_second_midnight (cart : Cartridge)
    (hn : cart.clock.live_dh &&& BIT_6_MASK = 0) :
    rtc_tick_second (with_live_time cart 59 59 23) =
      with_live_time (rtc_tick_day cart) 0 0 0 := by
  simp only [rtc_tick_second, rtc_tick_minute, rtc_tick_hour, rtc_tick_day, with_live_time, hn]
  by_cases e : (cart.clock.live_dl + 1) % 256 = 0 <;> simp [e]

theorem or_and_64 (x : Nat) (m : Nat) (hm : m &&& 64 = 0) :
    ((x ||| m) % 256) &&& 64 = x &&& 64 := by
  rw [mod_256_and _ 64 (by decide), Nat.and_distrib_right, hm, Nat.or_zero]

theorem rtc_tick_day_time (cart : Cartridge) :
    (rtc_tick_day cart).clock.live_s = cart.clock.live_s ∧
    (rtc_tick_day cart).clock.live_m = cart.clock.live_m ∧
    (rtc_tick_day cart).clock.live_h = cart.clock.live_h := by
  unfold rtc_tick_day
  by_cases e : (cart.clock.live_dl + 1) % 256 = 0 <;> simp [e]

theorem rtc_tick_day_running (cart : Cartridge)
    (hn : cart.clock.live_dh &&& BIT_6_MASK = 0) :
    (rtc_tick_day cart).clock.live_dh &&& BIT_6_MASK = 0 := by
  have h1 := (or_and_64 cart.clock.live_dh 1 (by decide)).trans hn
  have h2 := (or_and_64 cart.clock.live_dh 128 (by decide)).trans hn
  unfold rtc_tick_day
  dsimp only
  split
  · exact hn
  · dsimp only
    split
    · exact h2
    · exact h1

theorem or_lt_256 (x : Nat) (m : Nat) (hx : x < 256) (hm : m < 256) : (x ||| m) < 256 := by
  have h1 : x < 2 ^ 8 := hx
  have h2 : m < 2 ^ 8 := hm
  exact Nat.or_lt_two_pow h1 h2

/-- The day registers after `rtc_tick_day`. -/
theorem rtc_tick_day_days (cart : Cartridge) (hdh : cart.clock.live_dh < 256) :
    (rtc_tick_day cart).clock.live_dl = (cart.clock.live_dl + 1) % 256 ∧
    (rtc_tick_day cart).clock.live_dh =
      (if (cart.clock.live_dl + 1) % 256 = 0
       then (if cart.clock.live_dh &&& 0x01 = 0 then cart.clock.live_dh ||| 0x01
             else cart.clock.live_dh ||| 0x80)
       else cart.clock.live_dh) := by
  have o1 : (cart.clock.live_dh ||| 0x01) % 256 = cart.clock.live_dh ||| 0x01 :=
    Nat.mod_eq_of_lt (or_lt_256 _ _ hdh (by decide))
  have o2 : (cart.clock.live_dh ||| 0x80) % 256 = cart.clock.live_dh ||| 0x80 :=
    Nat.mod_eq_of_lt (or_lt_256 _ _ hdh (by decide))
  unfold rtc_tick_day
  dsimp only
  by_cases e : (cart.clock.live_dl + 1) % 256 = 0
  · rw [if_neg (not_not.mpr e), if_pos e]
    refine ⟨e.symm ▸ rfl, ?_⟩
    dsimp only
    by_cases b : cart.clock.live_dh &&& 0x01 = 0
    · rw [if_pos b, if_neg (by simpa using b)]
      exact o1
    · rw [if_neg b, if_pos (by simpa using b)]
      exact o2
  · rw [if_pos e, if_neg e]
    exact ⟨rfl, rfl⟩

theorem or_one_and_one (x : Nat) (h : x &&& 1 = 0) : (x ||| 1) &&& 1 = 1 := by
  rw [Nat.and_distrib_right, h]; rfl

/-- C20 (RTC tick chain): for a running clock (day-high bit 6 clear) with
seconds < 60, minutes < 60, hours < 24 and byte-sized day registers, one
`rtc_tick_second` advances the time of day by exactly one second modulo a day:
seconds step modulo 60 and carry into minutes, minutes step modulo 60 and carry
into hours, hours step modulo 24 and carry into day-low, which steps modulo
256; the ranges and the running state are kept; on the tick where day-low
wraps from 0xFF to 0x00 day-high gets bit 0 set if it was clear and bit 7 set
if bit 0 was already set, and on every other tick day-high is unchanged.
Consequently 86400 ticks give exactly the state of one day step
(`rtc_tick_day`): the same seconds, minutes and hours and everything else of
the cartridge, with day-low incremented modulo 256 and day-high following the
rule above, so that the 9-bit day number grows by one unless it was 511. -/
theorem C20_rtc_tick_chain (cart : Cartridge)
    (hn : cart.clock.live_dh &&& BIT_6_MASK = 0)
    (hs : cart.clock.live_s < 60) (hm : cart.clock.live_m < 60) (hh : cart.clock.live_h < 24)
    (hdl : cart.clock.live_dl < 256) (hdh : cart.clock.live_dh < 256) :
    ((rtc_tick_second cart).clock.live_s = (cart.clock.live_s + 1) % 60 ∧
     (rtc_tick_second cart).clock.live_m =
       (if cart.clock.live_s = 59 then (cart.clock.live_m + 1) % 60 else cart.clock.live_m) ∧
     (rtc_tick_second cart).clock.live_h =
       (if cart.clock.live_s = 59 ∧ cart.clock.live_m = 59 then (cart.clock.live_h + 1) % 24
        else cart.clock.live_h) ∧
     (rtc_tick_second cart).clock.live_dl =
       (if cart.clock.live_s = 59 ∧ cart.clock.live_m = 59 ∧ cart.clock.live_h = 23
        then (cart.clock.live_dl + 1) % 256 else cart.clock.live_dl) ∧
     (rtc_tick_second cart).clock.live_dh =
       (if cart.clock.live_s = 59 ∧ cart.clock.live_m = 59 ∧ cart.clock.live_h = 23 ∧
           cart.clock.live_dl = 0xFF
        then (if cart.clock.live_dh &&& 0x01 = 0 then cart.clock.live_dh ||| 0x01
              else cart.clock.live_dh ||| 0x80)
        else cart.clock.live_dh) ∧
     (rtc_tick_second cart).clock.live_s + 60 * (rtc_tick_second cart).clock.live_m +
         3600 * (rtc_tick_second cart).clock.live_h =
       (cart.clock.live_s + 60 * cart.clock.live_m + 3600 * cart.clock.live_h + 1) % 86400 ∧
     (rtc_tick_second cart).clock.live_s < 60 ∧ (rtc_tick_second cart).clock.live_m < 60 ∧
     (rtc_tick_second cart).clock.live_h < 24 ∧ (rtc_tick_second cart).clock.live_dl < 256 ∧
     (rtc_tick_second cart).clock.live_dh < 256 ∧
     (rtc_tick_second cart).clock.live_dh &&& BIT_6_MASK = 0) ∧
    (rtc_ticks 86400 cart = rtc_tick_day cart ∧
     (rtc_ticks 86400 cart).clock.live_s = cart.clock.live_s ∧
     (rtc_ticks 86400 cart).clock.live_m = cart.clock.live_m ∧
     (rtc_ticks 86400 cart).clock.live_h = cart.clock.live_h ∧
     (rtc_ticks 86400 cart).clock.live_dl = (cart.clock.live_dl + 1) % 256 ∧
     (rtc_ticks 86400 cart).clock.live_dh =
       (if cart.clock.live_dl = 0xFF
        then (if cart.clock.live_dh &&& 0x01 = 0 then cart.clock.live_dh ||| 0x01
              else cart.clock.live_dh ||| 0x80)
        else cart.clock.live_dh) ∧
     (¬ (cart.clock.live_dl = 0xFF ∧ cart.clock.live_dh &&& 0x01 ≠ 0) →
       (rtc_ticks 86400 cart).clock.live_dl +
           256 * ((rtc_ticks 86400 cart).clock.live_dh &&& 0x01) =
         cart.clock.live_dl + 256 * (cart.clock.live_dh &&& 0x01) + 1)) := by
  have t1 : (cart.clock.live_s + 60 * cart.clock.live_m + 3600 * cart.clock.live_h) % 60 =
      cart.clock.live_s := by omega
  have t2 : (cart.clock.live_s + 60 * cart.clock.live_m + 3600 * cart.clock.live_h) / 60 % 60 =
      cart.clock.live_m := by omega
  have t3 : (cart.clock.live_s + 60 * cart.clock.live_m + 3600 * cart.clock.live_h) / 3600 =
      cart.clock.live_h := by omega
  obtain ⟨d1, d2⟩ := rtc_tick_day_days cart hdh
  obtain ⟨d3, d4, d5⟩ := rtc_tick_day_time cart
  have d6 := rtc_tick_day_running cart hn
  have dlt : (rtc_tick_day cart).clock.live_dh < 256 := by
    rw [d2]
    split
    · split
      · exact or_lt_256 _ _ hdh (by decide)
      · exact or_lt_256 _ _ hdh (by decide)
    · exact hdh
  have dw : (cart.clock.live_dl + 1) % 256 = 0 ↔ cart.clock.live_dl = 0xFF := by omega
  simp only [dw] at d2
  refine ⟨?_, ?_⟩
  · by_cases hT : cart.clock.live_s + 60 * cart.clock.live_m + 3600 * cart.clock.live_h + 1 < 86400
    · have ht : rtc_tick_second cart = with_live_time cart
          ((cart.clock.live_s + 60 * cart.clock.live_m + 3600 * cart.clock.live_h + 1) % 60)
          ((cart.clock.live_s + 60 * cart.clock.live_m + 3600 * cart.clock.live_h + 1) / 60 % 60)
          ((cart.clock.live_s + 60 * cart.clock.live_m + 3600 * cart.clock.live_h + 1) / 3600) := by
        have h := rtc_tick_second_time cart _ hn hT
        rw [t1, t2, t3] at h
        exact h
      rw [ht]
      simp only [with_live_time]
      refine ⟨by omega, by split <;> omega, by split <;> omega, ?_, ?_, by omega, by omega,
        by omega, by omega, hdl, hdh, hn⟩
      · rw [if_neg (by omega)]
      · rw [if_neg (by omega)]
    · have e1 : cart.clock.live_s = 59 := by omega
      have e2 : cart.clock.live_m = 59 := by omega
      have e3 : cart.clock.live_h = 23 := by omega
      have ht : rtc_tick_second cart = with_live_time (rtc_tick_day cart) 0 0 0 := by
        have h := rtc_tick_second_midnight cart hn
        have hc := with_live_time_self cart
        rw [e1, e2, e3] at hc
        rw [hc] at h
        exact h
      rw [ht]
      simp only [with_live_time, e1, e2, e3, d1, d2]
      refine ⟨by decide, by decide, by decide, by simp, by simp, by decide, by decide,
        by decide, by decide, by omega, ?_, ?_⟩
      · rw [← d2]; exact dlt
      · rw [← d2]; exact d6
  · have hday : rtc_ticks 86400 cart = rtc_tick_day cart := by
      have hsplit : 86400 =
          (86399 - (cart.clock.live_s + 60 * cart.clock.live_m + 3600 * cart.clock.live_h)) +
            1 + (cart.clock.live_s + 60 * cart.clock.live_m + 3600 * cart.clock.live_h) := by
        omega
      have r1 := rtc_ticks_time cart hn
        (86399 - (cart.clock.live_s + 60 * cart.clock.live_m + 3600 * cart.clock.live_h))
        (cart.clock.live_s + 60 * cart.clock.live_m + 3600 * cart.clock.live_h) (by omega)
      have e0 : cart.clock.live_s + 60 * cart.clock.live_m + 3600 * cart.clock.live_h +
          (86399 - (cart.clock.live_s + 60 * cart.clock.live_m + 3600 * cart.clock.live_h)) =
            86399 := by omega
      rw [t1, t2, t3, e0] at r1
      have r2 := rtc_tick_second_midnight cart hn
      have r3 := rtc_ticks_time (rtc_tick_day cart) d6
        (cart.clock.live_s + 60 * cart.clock.live_m + 3600 * cart.clock.live_h) 0 (by omega)
      rw [Nat.zero_add, t1, t2, t3] at r3
      rw [hsplit, rtc_ticks_add, rtc_ticks_succ]
      have r1b : rtc_ticks
          (86399 - (cart.clock.live_s + 60 * cart.clock.live_m + 3600 * cart.clock.live_h))
          cart = with_live_time cart 59 59 23 := r1
      rw [r1b, r2]
      have r3b : rtc_ticks
          (cart.clock.live_s + 60 * cart.clock.live_m + 3600 * cart.clock.live_h)
          (with_live_time (rtc_tick_day cart) 0 0 0) =
          with_live_time (rtc_tick_day cart) (rtc_tick_day cart).clock.live_s
            (rtc_tick_day cart).clock.live_m (rtc_tick_day cart).clock.live_h := by
        rw [d3, d4, d5]; exact r3
      rw [r3b]
      rfl
    rw [hday]
    refine ⟨rfl, d3, d4, d5, d1, d2, ?_⟩
    intro hq
    rw [d1, d2]
    by_cases e : cart.clock.live_dl = 0xFF
    · have b : cart.clock.live_dh &&& 0x01 = 0 := by
        by_contra hb
        exact hq ⟨e, hb⟩
      rw [if_pos e, if_pos b, or_one_and_one _ b, b, e]
    · rw [if_neg e]
      omega

/-- Witness for C20: a running clock at 23:59:58 on day 0x0FF. The first tick
gives 23:59:59, and 86400 ticks give 23:59:58 again with day-low 0x00 and
day-high bit 0 set (day 0x100). -/
theorem C20_rtc_tick_chain_witness :
    (rtc_tick_second (clockCart 58 59 23 0xFF 0x00)).clock.live_s = 59 ∧
    (rtc_ticks 86400 (clockCart 58 59 23 0xFF 0x00)).clock.live_s = 58 ∧
    (rtc_ticks 86400 (clockCart 58 59 23 0xFF 0x00)).clock.live_m = 59 ∧
    (rtc_ticks 86400 (clockCart 58 59 23 0xFF 0x00)).clock.live_h = 23 ∧
    (rtc_ticks 86400 (clockCart 58 59 23 0xFF 0x00)).clock.live_dl = 0x00 ∧
    (rtc_ticks 86400 (clockCart 58 59 23 0xFF 0x00)).clock.live_dh = 0x01 := by
  have h := C20_rtc_tick_chain (clockCart 58 59 23 0xFF 0x00) (by decide!) (by decide!)
    (by decide!) (by decide!) (by decide!) (by decide!)
  exact ⟨h.1.1.trans (by decide!), h.2.2.1.trans (by decide!), h.2.2.2.1.trans (by decide!),
    h.2.2.2.2.1.trans (by decide!), h.2.2.2.2.2.1.trans (by decide!),
    h.2.2.2.2.2.2.1.trans (by decide!)⟩

/-! ## C11: DIV write -/


theorem store_register_memory (emu : GbcEmu D) (a v b : Nat) :
    (store_register emu a v).cpu.mem.memory b = if b = a then v else emu.cpu.mem.memory b := rfl

theorem store_register_timer (emu : GbcEmu D) (a v : Nat) :
    (store_register emu a v).timer = emu.timer := rfl

theorem store_register_dots (emu : GbcEmu D) (a v : Nat) :
    (store_register emu a v).dots = emu.dots := rfl

theorem store_register_speed (emu : GbcEmu D) (a v : Nat) :
    (store_register emu a v).cpu.speed_enabled = emu.cpu.speed_enabled := rfl

theorem check_apu_event_timer (env : TimerEnv D) (emu : GbcEmu D) (c : Bool) :
    (check_apu_event env emu c).timer.sys = emu.timer.sys ∧
    (check_apu_event env emu c).timer.tofs = emu.timer.tofs ∧
    (check_apu_event env emu c).timer.prev_sys_bit = c ∧
    (check_apu_event env emu c).dots = emu.dots ∧
    (check_apu_event env emu c).cpu.speed_enabled = emu.cpu.speed_enabled := by
  unfold check_apu_event
  dsimp only
  split <;> exact ⟨rfl, rfl, rfl, rfl, rfl⟩

theorem check_apu_event_registers (env : TimerEnv D) (emu : GbcEmu D) (c : Bool)
    (hq : env_quiet env) :
    same_registers env emu.cpu.mem (check_apu_event env emu c).cpu.mem := by
  unfold check_apu_event
  dsimp only
  split
  · exact (hq emu.cpu.mem).1
  · exact ⟨rfl, rfl, rfl, rfl, rfl⟩

theorem timer_requested_store (env : TimerEnv D) (mem : EmuMemory D) (a v : Nat)
    (h : a ≠ env.bus.IFR) :
    timer_requested env (store_byte mem a v) = timer_requested env mem := by
  unfold timer_requested store_byte
  dsimp only
  rw [if_neg (Ne.symm h)]

/-- The result of `write_sys`, register by register. -/
theorem write_sys_spec (env : TimerEnv D) (emu : GbcEmu D) (value : Nat)
    (hw : timer_wired env) (hq : env_quiet env) :
    (write_sys env emu value).1 =
      (tac_enabled env emu && emu.timer.prev_sys_bit &&
        !decide (((value &&& LOWER_14_MASK) >>>
          sys_shift_table (emu.cpu.mem.memory env.TAC &&& LOWER_2_MASK)) &&& BIT_0_MASK ≠ 0) &&
        decide ((emu.cpu.mem.memory env.TIMA + 1) % 256 = 0)) ∧
    (write_sys env emu value).2.timer.sys = value &&& LOWER_14_MASK ∧
    (write_sys env emu value).2.timer.tofs = emu.timer.tofs ∧
    (write_sys env emu value).2.timer.prev_sys_bit =
      decide (((value &&& LOWER_14_MASK) >>>
        sys_shift_table (emu.cpu.mem.memory env.TAC &&& LOWER_2_MASK)) &&& BIT_0_MASK ≠ 0) ∧
    (write_sys env emu value).2.dots = emu.dots ∧
    (write_sys env emu value).2.cpu.speed_enabled = emu.cpu.speed_enabled ∧
    (write_sys env emu value).2.cpu.mem.memory env.DIV =
      ((value &&& LOWER_14_MASK) >>> 6) &&& LOWER_BYTE_MASK ∧
    (write_sys env emu value).2.cpu.mem.memory env.TIMA =
      (if (tac_enabled env emu && emu.timer.prev_sys_bit &&
          !decide (((value &&& LOWER_14_MASK) >>>
            sys_shift_table (emu.cpu.mem.memory env.TAC &&& LOWER_2_MASK)) &&& BIT_0_MASK ≠ 0))
       then (emu.cpu.mem.memory env.TIMA + 1) % 256 else emu.cpu.mem.memory env.TIMA) ∧
    (write_sys env emu value).2.cpu.mem.memory env.TMA = emu.cpu.mem.memory env.TMA ∧
    (write_sys env emu value).2.cpu.mem.memory env.TAC = emu.cpu.mem.memory env.TAC ∧
    timer_requested env (write_sys env emu value).2.cpu.mem =
      timer_requested env emu.cpu.mem := by
  obtain ⟨h1, h2, h3, h4, h5, h6, h7, h8, h9, h10, _⟩ := hw
  unfold write_sys
  dsimp only
  obtain ⟨a1, a2, a3, a4, a5⟩ := check_apu_event_timer env
    (if (tac_enabled env (sync_div env { emu with timer := { emu.timer with
              sys := value &&& LOWER_14_MASK } }) &&
          (sync_div env { emu with timer := { emu.timer with
              sys := value &&& LOWER_14_MASK } }).timer.prev_sys_bit &&
          !get_current_sys_bit env (sync_div env { emu with timer := { emu.timer with
              sys := value &&& LOWER_14_MASK } })) = true
      then inc_tima env (sync_div env { emu with timer := { emu.timer with
              sys := value &&& LOWER_14_MASK } })
      else (false, sync_div env { emu with timer := { emu.timer with
              sys := value &&& LOWER_14_MASK } })).2
    (get_current_sys_bit env (sync_div env { emu with timer := { emu.timer with
              sys := value &&& LOWER_14_MASK } }))
  obtain ⟨b1, b2, b3, b4, b5⟩ := check_apu_event_registers env
    (if (tac_enabled env (sync_div env { emu with timer := { emu.timer with
              sys := value &&& LOWER_14_MASK } }) &&
          (sync_div env { emu with timer := { emu.timer with
              sys := value &&& LOWER_14_MASK } }).timer.prev_sys_bit &&
          !get_current_sys_bit env (sync_div env { emu with timer := { emu.timer with
              sys := value &&& LOWER_14_MASK } })) = true
      then inc_tima env (sync_div env { emu with timer := { emu.timer with
              sys := value &&& LOWER_14_MASK } })
      else (false, sync_div env { emu with timer := { emu.timer with
              sys := value &&& LOWER_14_MASK } })).2
    (get_current_sys_bit env (sync_div env { emu with timer := { emu.timer with
              sys := value &&& LOWER_14_MASK } })) hq
  have e1 : tac_enabled env (sync_div env { emu with timer := { emu.timer with
      sys := value &&& LOWER_14_MASK } }) = tac_enabled env emu := by
    simp only [tac_enabled, sync_div, store_register_memory, if_neg h3.symm]
  have e2 : get_current_sys_bit env (sync_div env { emu with timer := { emu.timer with
      sys := value &&& LOWER_14_MASK } }) =
      decide (((value &&& LOWER_14_MASK) >>>
        sys_shift_table (emu.cpu.mem.memory env.TAC &&& LOWER_2_MASK)) &&& BIT_0_MASK ≠ 0) := by
    simp only [get_current_sys_bit, sync_div, store_register_memory, store_register_timer,
      if_neg h3.symm]
  have e3 : (sync_div env { emu with timer := { emu.timer with
      sys := value &&& LOWER_14_MASK } }).timer.prev_sys_bit = emu.timer.prev_sys_bit := rfl
  rw [b1, b2, b3, b4, b5, a1, a2, a4, a5]
  rw [e1, e2, e3]
  split
  · rename_i hc
    simp only [inc_tima, sync_div, store_register_memory, store_register_timer,
      store_register_dots, store_register_speed, if_neg h1.symm, if_neg h1, if_neg h5.symm,
      if_neg h6.symm, if_neg h2.symm, if_neg h3.symm, if_true, hc, Bool.true_and]
    refine ⟨trivial, trivial, trivial, trivial, trivial, trivial, trivial, trivial, trivial,
      trivial, ?_⟩
    simp only [store_register]
    rw [timer_requested_store env _ _ _ h7, timer_requested_store env _ _ _ h4]
  · rename_i hc
    have hc2 := Bool.eq_false_iff.mpr hc
    simp only [sync_div, store_register_memory, store_register_timer,
      store_register_dots, store_register_speed, if_neg h1.symm, if_neg h1, if_neg h5.symm,
      if_neg h6.symm, if_neg h2.symm, if_neg h3.symm, if_true, hc2, Bool.false_and]
    refine ⟨trivial, trivial, trivial, trivial, trivial, trivial, trivial, trivial, trivial,
      trivial, ?_⟩
    simp only [store_register]
    rw [timer_requested_store env _ _ _ h4]

theorem timerEnv_wired : timer_wired timerEnv :=
  ⟨by decide, by decide, by decide, by decide, by decide, by decide, by decide, by decide,
    by decide, by decide, rfl⟩

theorem timerEnv_quiet : env_quiet timerEnv :=
  fun _ => ⟨⟨rfl, rfl, rfl, rfl, rfl⟩, ⟨rfl, rfl, rfl, rfl, rfl⟩, ⟨rfl, rfl, rfl, rfl, rfl⟩,
    ⟨rfl, rfl, rfl, rfl, rfl⟩, ⟨rfl, rfl, rfl, rfl, rfl⟩⟩

theorem clear_sys_fields (env : TimerEnv D) (emu : GbcEmu D) :
    (clear_sys env emu).timer.sys = (write_sys env emu 0).2.timer.sys ∧
    (clear_sys env emu).timer.prev_sys_bit = (write_sys env emu 0).2.timer.prev_sys_bit ∧
    (clear_sys env emu).cpu = (write_sys env emu 0).2.cpu ∧
    (clear_sys env emu).timer.tofs =
      (if (write_sys env emu 0).1 then .CYCLE_B else (write_sys env emu 0).2.timer.tofs) := by
  unfold clear_sys
  dsimp only
  split <;> exact ⟨rfl, rfl, rfl, rfl⟩

theorem sys_bit_zero (k : Nat) : decide (((0 &&& LOWER_14_MASK) >>> k) &&& BIT_0_MASK ≠ 0) = false := by
  simp

theorem get_current_sys_bit_eq (env : TimerEnv D) (emu emu2 : GbcEmu D)
    (h1 : emu2.timer.sys = emu.timer.sys)
    (h2 : emu2.cpu.mem.memory env.TAC = emu.cpu.mem.memory env.TAC) :
    get_current_sys_bit env emu2 = get_current_sys_bit env emu := by
  unfold get_current_sys_bit
  rw [h1, h2]

/-- C11 (DIV write): with the five timer addresses distinct and the APU leaving
the timer registers alone, a write of any byte `v` to DIV sets `sys` to 0 and
the DIV byte to 0, and leaves TMA and TAC as they are. TIMA is incremented
(modulo 256) exactly when the timer is enabled (TAC bit 2) and the edge latch
`prev_sys_bit` is set, and is unchanged otherwise; the latch holds the
TAC-selected bit of `sys` after every `write_sys` (so after every m-cycle, and
after the DIV write itself), and in a state where it does, TIMA is incremented
exactly when the timer is enabled and the TAC-selected bit of `sys` was 1
before the write. -/
theorem C11_div_write (env : TimerEnv D) (emu : GbcEmu D) (v : Nat)
    (hw : timer_wired env) (hq : env_quiet env) :
    (write_timer_register env emu env.DIV v).timer.sys = 0 ∧
    (write_timer_register env emu env.DIV v).cpu.mem.memory env.DIV = 0 ∧
    (emu.timer.prev_sys_bit = get_current_sys_bit env emu →
      (write_timer_register env emu env.DIV v).cpu.mem.memory env.TIMA =
        (if tac_enabled env emu = true ∧ get_current_sys_bit env emu = true
         then (emu.cpu.mem.memory env.TIMA + 1) % 256 else emu.cpu.mem.memory env.TIMA)) ∧
    (write_timer_register env emu env.DIV v).cpu.mem.memory env.TIMA =
      (if tac_enabled env emu = true ∧ emu.timer.prev_sys_bit = true
       then (emu.cpu.mem.memory env.TIMA + 1) % 256 else emu.cpu.mem.memory env.TIMA) ∧
    (write_timer_register env emu env.DIV v).cpu.mem.memory env.TMA =
      emu.cpu.mem.memory env.TMA ∧
    (write_timer_register env emu env.DIV v).cpu.mem.memory env.TAC =
      emu.cpu.mem.memory env.TAC ∧
    (write_timer_register env emu env.DIV v).timer.prev_sys_bit =
      get_current_sys_bit env (write_timer_register env emu env.DIV v) ∧
    (inc_sys env emu).2.timer.prev_sys_bit = get_current_sys_bit env (inc_sys env emu).2 := by
  have hd : write_timer_register env emu env.DIV v = clear_sys env emu := by
    unfold write_timer_register
    rw [if_pos rfl]
  obtain ⟨c1, c2, c3, _⟩ := clear_sys_fields env emu
  obtain ⟨_, w2, _, w4, _, _, w7, w8, w9, w10, _⟩ := write_sys_spec env emu 0 hw hq
  have htima : (write_timer_register env emu env.DIV v).cpu.mem.memory env.TIMA =
      (if tac_enabled env emu = true ∧ emu.timer.prev_sys_bit = true
       then (emu.cpu.mem.memory env.TIMA + 1) % 256 else emu.cpu.mem.memory env.TIMA) := by
    rw [hd, c3, w8, sys_bit_zero]
    simp
  refine ⟨?_, ?_, ?_, htima, ?_, ?_, ?_, ?_⟩
  · rw [hd, c1, w2]; rfl
  · rw [hd, c3, w7]; rfl
  · intro hl
    rw [htima, hl]
  · rw [hd, c3, w9]
  · rw [hd, c3, w10]
  · rw [hd, c2, w4]
    unfold get_current_sys_bit
    rw [c1, c3, w2, w10]
  · obtain ⟨_, i2, _, i4, _, _, _, _, _, i10, _⟩ :=
      write_sys_spec env emu ((emu.timer.sys + 1) % 65536) hw hq
    unfold inc_sys
    rw [i4]
    unfold get_current_sys_bit
    rw [i2, i10]

/-- Witness for C11: on the concrete machine with the timer enabled at the
fastest rate (TAC = 0x05), `sys` = 3 (selected bit 1 set, latch set) and
TIMA = 0x10, a write of 0xAB to DIV gives `sys` = 0, DIV = 0 and TIMA = 0x11;
with the timer disabled (TAC = 0x01) TIMA stays 0x10. -/
theorem C11_div_write_witness :
    (write_timer_register timerEnv
      (timerEmu { init_timer with sys := 3, prev_sys_bit := true } 0x10 0x00 0x05)
      0xFF04 0xAB).timer.sys = 0 ∧
    (write_timer_register timerEnv
      (timerEmu { init_timer with sys := 3, prev_sys_bit := true } 0x10 0x00 0x05)
      0xFF04 0xAB).cpu.mem.memory 0xFF04 = 0 ∧
    (write_timer_register timerEnv
      (timerEmu { init_timer with sys := 3, prev_sys_bit := true } 0x10 0x00 0x05)
      0xFF04 0xAB).cpu.mem.memory 0xFF05 = 0x11 ∧
    (write_timer_register timerEnv
      (timerEmu { init_timer with sys := 3, prev_sys_bit := true } 0x10 0x00 0x01)
      0xFF04 0xAB).cpu.mem.memory 0xFF05 = 0x10 :=
  ⟨(C11_div_write timerEnv
      (timerEmu { init_timer with sys := 3, prev_sys_bit := true } 0x10 0x00 0x05) 0xAB
      timerEnv_wired timerEnv_quiet).1,
   (C11_div_write timerEnv
      (timerEmu { init_timer with sys := 3, prev_sys_bit := true } 0x10 0x00 0x05) 0xAB
      timerEnv_wired timerEnv_quiet).2.1,
   ((C11_div_write timerEnv
      (timerEmu { init_timer with sys := 3, prev_sys_bit := true } 0x10 0x00 0x05) 0xAB
      timerEnv_wired timerEnv_quiet).2.2.1 (by decide!)).trans (by decide!),
   ((C11_div_write timerEnv
      (timerEmu { init_timer with sys := 3, prev_sys_bit := true } 0x10 0x00 0x01) 0xAB
      timerEnv_wired timerEnv_quiet).2.2.1 (by decide!)).trans (by decide!)⟩

/-! ## Timer: the view of a pulse -/


theorem same_registers_refl (env : TimerEnv D) (m : EmuMemory D) : same_registers env m m :=
  ⟨rfl, rfl, rfl, rfl, rfl⟩

theorem same_registers_trans (env : TimerEnv D) (m1 m2 m3 : EmuMemory D)
    (h1 : same_registers env m1 m2) (h2 : same_registers env m2 m3) :
    same_registers env m1 m3 :=
  ⟨h2.1.trans h1.1, h2.2.1.trans h1.2.1, h2.2.2.1.trans h1.2.2.1, h2.2.2.2.1.trans h1.2.2.2.1,
    h2.2.2.2.2.trans h1.2.2.2.2⟩

/-- Equal timer fields and registers give equal views. -/
theorem timer_view_eq (env : TimerEnv D) (emu emu2 : GbcEmu D)
    (ht : emu2.timer.sys = emu.timer.sys ∧ emu2.timer.tofs = emu.timer.tofs ∧
      emu2.timer.prev_sys_bit = emu.timer.prev_sys_bit)
    (hd : emu2.dots = emu.dots) (hs : emu2.cpu.speed_enabled = emu.cpu.speed_enabled)
    (hm : same_registers env emu.cpu.mem emu2.cpu.mem) :
    timer_view env emu2 = timer_view env emu := by
  unfold timer_view
  rw [ht.1, ht.2.1, ht.2.2, hd, hs, hm.2.1, hm.2.2.1, hm.2.2.2.1, hm.2.2.2.2]

theorem timer_bit_requested (x : Nat) :
    (0xE0 ||| (((x ||| 4) % 256) &&& 0x1F)) &&& 4 ≠ 0 := by
  have hy : ((x ||| 4) % 2 ^ 8).testBit 2 = true := by
    rw [Nat.testBit_mod_two_pow, Nat.testBit_or]
    have h4 : Nat.testBit 4 2 = true := by decide
    rw [h4]
    simp
  have h1 : ((0xE0 ||| (((x ||| 4) % 2 ^ 8) &&& 0x1F)) &&& 4).testBit 2 = true := by
    rw [Nat.testBit_and, Nat.testBit_or, Nat.testBit_and, hy]
    decide
  intro h
  have e : (256 : Nat) = 2 ^ 8 := rfl
  rw [e] at h
  rw [h] at h1
  simp at h1


/-- The registers after `check_tima_overflow` in state CYCLE_B. -/
theorem request_timer_registers (env : TimerEnv D) (emu : GbcEmu D) (hw : timer_wired env) :
    (request_interrupt env.bus (store_register emu env.TIMA (emu.cpu.mem.memory env.TMA)).cpu
        TIMER_INTERRUPT_CODE).mem.memory env.TIMA = emu.cpu.mem.memory env.TMA ∧
    (request_interrupt env.bus (store_register emu env.TIMA (emu.cpu.mem.memory env.TMA)).cpu
        TIMER_INTERRUPT_CODE).mem.memory env.TMA = emu.cpu.mem.memory env.TMA ∧
    (request_interrupt env.bus (store_register emu env.TIMA (emu.cpu.mem.memory env.TMA)).cpu
        TIMER_INTERRUPT_CODE).mem.memory env.TAC = emu.cpu.mem.memory env.TAC ∧
    (request_interrupt env.bus (store_register emu env.TIMA (emu.cpu.mem.memory env.TMA)).cpu
        TIMER_INTERRUPT_CODE).mem.memory env.DIV = emu.cpu.mem.memory env.DIV ∧
    timer_requested env (request_interrupt env.bus
        (store_register emu env.TIMA (emu.cpu.mem.memory env.TMA)).cpu
        TIMER_INTERRUPT_CODE).mem = true ∧
    (request_interrupt env.bus (store_register emu env.TIMA (emu.cpu.mem.memory env.TMA)).cpu
        TIMER_INTERRUPT_CODE).speed_enabled = emu.cpu.speed_enabled := by
  obtain ⟨h1, h2, h3, h4, h5, h6, h7, h8, h9, h10, h11⟩ := hw
  unfold request_interrupt write_memory
  rw [h11]
  unfold write_interrupt_flag store_register store_byte timer_requested
  dsimp only
  refine ⟨?_, ?_, ?_, ?_, ?_, rfl⟩
  · rw [if_neg h7, if_pos rfl]
  · rw [if_neg h9, if_neg h5.symm]
  · rw [if_neg h10, if_neg h6.symm]
  · rw [if_neg h4, if_neg h1]
  · rw [if_pos rfl]
    exact decide_eq_true (timer_bit_requested _)

/-- The view after `check_tima_overflow` and the CYCLE_B reload. -/
theorem overflow_sim (env : TimerEnv D) (emu : GbcEmu D) (hw : timer_wired env) :
    timer_view env
      (if (check_tima_overflow env emu).timer.tofs = .CYCLE_B then
        store_register (check_tima_overflow env emu) env.TIMA
          ((check_tima_overflow env emu).cpu.mem.memory env.TMA)
       else check_tima_overflow env emu) = overflow_view (timer_view env emu) := by
  obtain ⟨r1, r2, r3, r4, r5, r6⟩ := request_timer_registers env emu hw
  obtain ⟨h1, h2, h3, h4, h5, h6, h7, h8, h9, h10, h11⟩ := hw
  cases ht : emu.timer.tofs
  · have hc : check_tima_overflow env emu =
        { emu with timer := { emu.timer with tofs := .CYCLE_A } } := by
      unfold check_tima_overflow; simp only [ht]
    rw [hc]
    dsimp only
    rw [if_neg (by intro h; cases h)]
    simp only [timer_view, overflow_view, ht]
  · have hc : check_tima_overflow env emu =
        { emu with timer := { emu.timer with tofs := .CYCLE_B } } := by
      unfold check_tima_overflow; simp only [ht]
    rw [hc]
    dsimp only
    rw [if_pos rfl]
    simp only [timer_view, overflow_view, ht, store_register_memory, store_register_timer,
      store_register_dots, store_register_speed, if_true, if_neg h5.symm, if_neg h6.symm]
    simp only [store_register]
    rw [timer_requested_store env _ _ _ h7]
  · have hc : check_tima_overflow env emu =
        { emu with
          cpu := request_interrupt env.bus
            (store_register emu env.TIMA (emu.cpu.mem.memory env.TMA)).cpu TIMER_INTERRUPT_CODE
          timer := { emu.timer with tofs := .NOT_OVERFLOWING } } := by
      unfold check_tima_overflow; simp only [ht]; rfl
    rw [hc]
    dsimp only
    rw [if_neg (by intro h; cases h)]
    simp only [timer_view, overflow_view, ht, r1, r2, r3, r5, r6]
  · have hc : check_tima_overflow env emu = emu := by
      unfold check_tima_overflow; simp only [ht]
    rw [hc]
    rw [if_neg (by rw [ht]; intro h; cases h)]
    simp only [timer_view, overflow_view, ht]

/-- The view after `inc_sys` and the PRE_CYCLE_A assignment. -/
theorem inc_sys_sim (env : TimerEnv D) (emu : GbcEmu D) (hw : timer_wired env)
    (hq : env_quiet env) :
    timer_view env
      (if (inc_sys env emu).1 = true then
        { (inc_sys env emu).2 with
          timer := { (inc_sys env emu).2.timer with tofs := .PRE_CYCLE_A } }
       else (inc_sys env emu).2) = inc_sys_view (timer_view env emu) := by
  obtain ⟨w1, w2, w3, w4, w5, w6, w7, w8, w9, w10, w11⟩ :=
    write_sys_spec env emu ((emu.timer.sys + 1) % 65536) hw hq
  unfold inc_sys
  unfold inc_sys_view
  simp only [timer_view]
  unfold tac_enabled at w1 w8
  generalize hcu : decide ((((emu.timer.sys + 1) % 65536 &&& LOWER_14_MASK) >>>
      sys_shift_table (emu.cpu.mem.memory env.TAC &&& LOWER_2_MASK)) &&& BIT_0_MASK ≠ 0) = curr
    at w1 w4 w8 ⊢
  generalize hen : decide (emu.cpu.mem.memory env.TAC &&& BIT_2_MASK ≠ 0) = en at w1 w8 ⊢
  generalize hp : emu.timer.prev_sys_bit = p at w1 w8 ⊢
  generalize hz : decide ((emu.cpu.mem.memory env.TIMA + 1) % 256 = 0) = z at w1 ⊢
  rw [w1]
  split
  · rename_i hc
    simp only [w2, w4, w5, w6, w8, w9, w10, w11]
    simp only [Bool.and_eq_true] at hc
    obtain ⟨⟨⟨c1, c2⟩, c3⟩, c4⟩ := hc
    subst c1 c2 c4
    rw [c3]
    have hz2 := of_decide_eq_true hz
    simp only [Bool.and_self, Bool.true_and, if_true, hz2, decide_True]
  · rename_i hc
    simp only [w2, w3, w4, w5, w6, w8, w9, w10, w11]
    cases hedge : (en && p && !curr)
    · simp
    · rw [hedge] at hc
      have hz1 : z = false := by simpa using hc
      subst hz1
      have hz2 := of_decide_eq_false hz
      simp [hz2]


/-- The view after the CPU's m-cycle, when the CPU leaves the timer alone. -/
theorem cpu_step_sim (env : TimerEnv D) (emu : GbcEmu D)
    (h : cpu_quiet env (emu.timer, emu.cpu)) :
    timer_view env { emu with timer := (env.machine_cycle (emu.timer, emu.cpu)).1,
                              cpu := (env.machine_cycle (emu.timer, emu.cpu)).2 } =
      timer_view env emu := by
  obtain ⟨h1, h2, h3⟩ := h
  apply timer_view_eq
  · dsimp only at h1 ⊢
    rw [h1]
    exact ⟨rfl, rfl, rfl⟩
  · rfl
  · exact h3
  · exact h2

/-- One pulse acts on the view as `pulse_view`. -/
theorem pulse_sim (env : TimerEnv D) (emu : GbcEmu D) (hw : timer_wired env)
    (hq : env_quiet env) (hp : pulse_quiet env emu) :
    timer_view env (system_clock_pulse env emu).2 = pulse_view (timer_view env emu) := by
  have q1 := (hq emu.cpu.mem).2.2.2.1
  have q2 := (hq (env.check_hdma_transfer emu.cpu.mem)).2.1
  have q3 := (hq (env.apu_dot (env.check_hdma_transfer emu.cpu.mem))).2.2.1
  have hm1 := same_registers_trans env _ _ _ (same_registers_trans env _ _ _ q1 q2) q3
  have hm2 := same_registers_trans env _ _ _ hm1
    (hq (env.ppu_dot (env.apu_dot (env.check_hdma_transfer emu.cpu.mem))).2).2.2.2.2
  unfold pulse_quiet machine_cycle_entry at hp
  unfold system_clock_pulse
  dsimp only at hp ⊢
  generalize (env.ppu_dot (env.apu_dot (env.check_hdma_transfer emu.cpu.mem))).2 = m1
    at hm1 hm2 hp ⊢
  generalize env.check_dma_transfer m1 = m2 at hm2 hp ⊢
  by_cases hd : (emu.dots + 0xFF) % 256 ≠ 0
  · have hv : pulse_view (timer_view env emu) =
        { timer_view env emu with dots := (emu.dots + 0xFF) % 256 } := by
      unfold pulse_view timer_view
      dsimp only
      rw [if_pos hd]
    rw [if_pos hd, hv]
    simp only [timer_view]
    rw [hm1.2.1, hm1.2.2.1, hm1.2.2.2.1, hm1.2.2.2.2]
  · have hv : pulse_view (timer_view env emu) =
        inc_sys_view (overflow_view
          { timer_view env emu with dots := if emu.cpu.speed_enabled then 2 else 4 }) := by
      unfold pulse_view timer_view
      dsimp only
      rw [if_neg hd]
    rw [if_neg hd] at hp ⊢
    rw [hv]
    dsimp only
    rw [inc_sys_sim env _ hw hq]
    have hB : timer_view env
        { timer := emu.timer, cpu := { emu.cpu with mem := m2 },
          dots := if emu.cpu.speed_enabled then 2 else 4 } =
        { timer_view env emu with dots := if emu.cpu.speed_enabled then 2 else 4 } := by
      simp only [timer_view]
      rw [hm2.2.1, hm2.2.2.1, hm2.2.2.2.1, hm2.2.2.2.2]
    rw [← hB, ← overflow_sim env _ hw]
    generalize (if (check_tima_overflow env
        { timer := emu.timer, cpu := { emu.cpu with mem := m2 },
          dots := if emu.cpu.speed_enabled then 2 else 4 }).timer.tofs = .CYCLE_B then
        store_register (check_tima_overflow env
          { timer := emu.timer, cpu := { emu.cpu with mem := m2 },
            dots := if emu.cpu.speed_enabled then 2 else 4 }) env.TIMA
          ((check_tima_overflow env
            { timer := emu.timer, cpu := { emu.cpu with mem := m2 },
              dots := if emu.cpu.speed_enabled then 2 else 4 }).cpu.mem.memory env.TMA)
       else check_tima_overflow env
        { timer := emu.timer, cpu := { emu.cpu with mem := m2 },
          dots := if emu.cpu.speed_enabled then 2 else 4 }) = R at hp ⊢
    congr 1
    by_cases hh : (!env.hdma_bytes_transferring R.cpu.mem) = true
    · rw [if_pos hh] at hp ⊢
      exact cpu_step_sim env _ (hp _ rfl)
    · rw [if_neg hh]


/-- A run of pulses acts on the view as `pulses_view`, when the CPU leaves the
timer alone in each of them. -/
theorem pulses_sim (env : TimerEnv D) (hw : timer_wired env) (hq : env_quiet env) (n : Nat) :
    ∀ emu : GbcEmu D, (∀ k, k < n → pulse_quiet env (system_clock_pulses env k emu)) →
      timer_view env (system_clock_pulses env n emu) = pulses_view n (timer_view env emu) := by
  induction n with
  | zero => intro emu _; rfl
  | succ n ih =>
    intro emu h
    show timer_view env (system_clock_pulses env n (system_clock_pulse env emu).2) =
      pulses_view n (pulse_view (timer_view env emu))
    rw [ih _ (fun k hk => h (k + 1) (by omega)), pulse_sim env emu hw hq (h 0 (by omega))]

/-! ## Timer: the overflow stages on the view -/


theorem next_sys_eq (x : Nat) : ((x + 1) % 65536) &&& LOWER_14_MASK = (x + 1) % 16384 := by
  have h := Nat.and_pow_two_sub_one_eq_mod ((x + 1) % 65536) 14
  have e : (2 : Nat) ^ 14 - 1 = LOWER_14_MASK := by decide
  rw [e] at h
  rw [h]
  have e2 : (2 : Nat) ^ 14 = 16384 := by decide
  rw [e2]
  omega

theorem sys_bit_eq (x k : Nat) : (x >>> k) &&& BIT_0_MASK = x / 2 ^ k % 2 := by
  rw [Nat.shiftRight_eq_div_pow]
  exact Nat.and_one_is_mod _

theorem sys_shift_table_cases (c : Nat) :
    sys_shift_table (c &&& LOWER_2_MASK) = 7 ∨ sys_shift_table (c &&& LOWER_2_MASK) = 1 ∨
    sys_shift_table (c &&& LOWER_2_MASK) = 3 ∨ sys_shift_table (c &&& LOWER_2_MASK) = 5 := by
  have h : c &&& LOWER_2_MASK ≤ 3 := Nat.and_le_right
  generalize c &&& LOWER_2_MASK = x at h
  interval_cases x <;> decide

/-- After a falling edge of the selected bit, the next three increments of
`sys` bring no falling edge. -/
theorem no_edge_after_edge (k s s1 s2 s3 s4 : Nat) (hk : k = 7 ∨ k = 1 ∨ k = 3 ∨ k = 5)
    (e1 : s1 = ((s + 1) % 65536) &&& LOWER_14_MASK)
    (e2 : s2 = ((s1 + 1) % 65536) &&& LOWER_14_MASK)
    (e3 : s3 = ((s2 + 1) % 65536) &&& LOWER_14_MASK)
    (e4 : s4 = ((s3 + 1) % 65536) &&& LOWER_14_MASK)
    (h1 : (s >>> k) &&& BIT_0_MASK ≠ 0) (h2 : (s1 >>> k) &&& BIT_0_MASK = 0) :
    ((s2 >>> k) &&& BIT_0_MASK ≠ 0 → (s3 >>> k) &&& BIT_0_MASK ≠ 0) ∧
    ((s3 >>> k) &&& BIT_0_MASK ≠ 0 → (s4 >>> k) &&& BIT_0_MASK ≠ 0) := by
  rw [next_sys_eq] at e1 e2 e3 e4
  simp only [sys_bit_eq] at h1 h2 ⊢
  rcases hk with e | e | e | e <;> subst e <;> norm_num at h1 h2 ⊢ <;> omega


theorem pulses_view_add (a : Nat) : ∀ (b : Nat) (v : TimerView),
    pulses_view (a + b) v = pulses_view b (pulses_view a v) := by
  induction a with
  | zero => intro b v; rw [Nat.zero_add]; rfl
  | succ a ih =>
    intro b v
    have e : a + 1 + b = (a + b) + 1 := by omega
    rw [e]
    show pulses_view (a + b) (pulse_view v) = pulses_view b (pulses_view a (pulse_view v))
    exact ih b (pulse_view v)

theorem pulse_view_idle (v : TimerView) (h1 : 1 < v.dots) (h2 : v.dots ≤ 256) :
    pulse_view v = { v with dots := v.dots - 1 } := by
  unfold pulse_view
  dsimp only
  have e : (v.dots + 0xFF) % 256 = v.dots - 1 := by omega
  rw [e, if_pos (by omega)]

theorem pulse_view_mcycle (v : TimerView) (h : v.dots = 1) :
    pulse_view v =
      inc_sys_view (overflow_view { v with dots := if v.speed then 2 else 4 }) := by
  unfold pulse_view
  dsimp only
  rw [h, if_neg (by decide)]

/-- One m-cycle of pulses, started right after an m-cycle. -/
theorem pulses_view_period (v : TimerView) (h : v.dots = if v.speed then 2 else 4) :
    pulses_view (if v.speed then 2 else 4) v = inc_sys_view (overflow_view v) := by
  obtain ⟨s, t, p, d, a, m, c, r, sp⟩ := v
  dsimp only at h
  subst h
  cases sp
  · show pulse_view (pulse_view (pulse_view (pulse_view ⟨s, t, p, 4, a, m, c, r, false⟩))) = _
    rw [pulse_view_idle ⟨s, t, p, 4, a, m, c, r, false⟩ (by dsimp only; omega)
      (by dsimp only; omega)]
    dsimp only
    rw [pulse_view_idle ⟨s, t, p, 3, a, m, c, r, false⟩ (by dsimp only; omega)
      (by dsimp only; omega)]
    dsimp only
    rw [pulse_view_idle ⟨s, t, p, 2, a, m, c, r, false⟩ (by dsimp only; omega)
      (by dsimp only; omega)]
    dsimp only
    rw [pulse_view_mcycle ⟨s, t, p, 1, a, m, c, r, false⟩ rfl]
  · show pulse_view (pulse_view ⟨s, t, p, 2, a, m, c, r, true⟩) = _
    rw [pulse_view_idle ⟨s, t, p, 2, a, m, c, r, true⟩ (by dsimp only; omega)
      (by dsimp only; omega)]
    dsimp only
    rw [pulse_view_mcycle ⟨s, t, p, 1, a, m, c, r, true⟩ rfl]

theorem stage_pre (s d m c : Nat) (sp : Bool) (rq : Bool)
    (hen : c &&& BIT_2_MASK ≠ 0)
    (hb : ((((s + 1) % 65536) &&& LOWER_14_MASK) >>> sys_shift_table (c &&& LOWER_2_MASK)) &&&
      BIT_0_MASK = 0) :
    inc_sys_view (overflow_view ⟨s, .NOT_OVERFLOWING, true, d, 0xFF, m, c, rq, sp⟩) =
      ⟨((s + 1) % 65536) &&& LOWER_14_MASK, .PRE_CYCLE_A, false, d, 0, m, c, rq, sp⟩ := by
  simp only [overflow_view, inc_sys_view, hb]
  simp [hen]

theorem stage_a (s d m c : Nat) (sp : Bool) (rq : Bool) :
    inc_sys_view (overflow_view ⟨s, .PRE_CYCLE_A, false, d, 0, m, c, rq, sp⟩) =
      ⟨((s + 1) % 65536) &&& LOWER_14_MASK, .CYCLE_A,
        decide (((((s + 1) % 65536) &&& LOWER_14_MASK) >>>
          sys_shift_table (c &&& LOWER_2_MASK)) &&& BIT_0_MASK ≠ 0), d, 0, m, c, rq, sp⟩ := by
  simp only [overflow_view, inc_sys_view]
  simp

theorem stage_b (s d m c : Nat) (p : Bool) (sp : Bool) (rq : Bool)
    (hne : p = true → decide (((((s + 1) % 65536) &&& LOWER_14_MASK) >>>
      sys_shift_table (c &&& LOWER_2_MASK)) &&& BIT_0_MASK ≠ 0) = true) :
    inc_sys_view (overflow_view ⟨s, .CYCLE_A, p, d, 0, m, c, rq, sp⟩) =
      ⟨((s + 1) % 65536) &&& LOWER_14_MASK, .CYCLE_B,
        decide (((((s + 1) % 65536) &&& LOWER_14_MASK) >>>
          sys_shift_table (c &&& LOWER_2_MASK)) &&& BIT_0_MASK ≠ 0), d, m, m, c, rq, sp⟩ := by
  simp only [overflow_view, inc_sys_view]
  generalize decide (((((s + 1) % 65536) &&& LOWER_14_MASK) >>>
      sys_shift_table (c &&& LOWER_2_MASK)) &&& BIT_0_MASK ≠ 0) = cur at hne ⊢
  cases p
  · simp
  · rw [hne rfl]
    simp

theorem stage_end (s d m c : Nat) (p : Bool) (sp : Bool) (rq : Bool)
    (hne : p = true → decide (((((s + 1) % 65536) &&& LOWER_14_MASK) >>>
      sys_shift_table (c &&& LOWER_2_MASK)) &&& BIT_0_MASK ≠ 0) = true) :
    inc_sys_view (overflow_view ⟨s, .CYCLE_B, p, d, m, m, c, rq, sp⟩) =
      ⟨((s + 1) % 65536) &&& LOWER_14_MASK, .NOT_OVERFLOWING,
        decide (((((s + 1) % 65536) &&& LOWER_14_MASK) >>>
          sys_shift_table (c &&& LOWER_2_MASK)) &&& BIT_0_MASK ≠ 0), d, m, m, c, true, sp⟩ := by
  simp only [overflow_view, inc_sys_view]
  generalize decide (((((s + 1) % 65536) &&& LOWER_14_MASK) >>>
      sys_shift_table (c &&& LOWER_2_MASK)) &&& BIT_0_MASK ≠ 0) = cur at hne ⊢
  cases p
  · simp
  · rw [hne rfl]
    simp


/-- The overflow automaton on the view: from a state at the last dot of an
m-cycle whose increment of `sys` overflows TIMA, the four stages at the next
four m-cycles. -/
theorem overflow_stages (v : TimerView) (hdots : v.dots = 1)
    (ht : v.tofs = .NOT_OVERFLOWING) (ha : v.tima = 0xFF) (hen : v.tac &&& BIT_2_MASK ≠ 0)
    (hp : v.prev_sys_bit = true)
    (hb : (v.sys >>> sys_shift_table (v.tac &&& LOWER_2_MASK)) &&& BIT_0_MASK ≠ 0)
    (hb1 : ((((v.sys + 1) % 65536) &&& LOWER_14_MASK) >>>
      sys_shift_table (v.tac &&& LOWER_2_MASK)) &&& BIT_0_MASK = 0) :
    ((pulses_view 1 v).tofs = .PRE_CYCLE_A ∧ (pulses_view 1 v).tima = 0x00 ∧
      (pulses_view 1 v).requested = v.requested) ∧
    ((pulses_view (1 + (if v.speed then 2 else 4)) v).tofs = .CYCLE_A ∧
      (pulses_view (1 + (if v.speed then 2 else 4)) v).tima = 0x00 ∧
      (pulses_view (1 + (if v.speed then 2 else 4)) v).requested = v.requested) ∧
    ((pulses_view (1 + 2 * (if v.speed then 2 else 4)) v).tofs = .CYCLE_B ∧
      (pulses_view (1 + 2 * (if v.speed then 2 else 4)) v).tima = v.tma ∧
      (pulses_view (1 + 2 * (if v.speed then 2 else 4)) v).requested = v.requested) ∧
    ((pulses_view (1 + 3 * (if v.speed then 2 else 4)) v).tofs = .NOT_OVERFLOWING ∧
      (pulses_view (1 + 3 * (if v.speed then 2 else 4)) v).tima = v.tma ∧
      (pulses_view (1 + 3 * (if v.speed then 2 else 4)) v).requested = true) := by
  obtain ⟨s, t, p, d, a, m, c, r, sp⟩ := v
  dsimp only at hdots ht ha hen hp hb hb1 ⊢
  subst hdots ht ha hp
  have e1 : pulses_view 1 ⟨s, .NOT_OVERFLOWING, true, 1, 0xFF, m, c, r, sp⟩ =
      ⟨((s + 1) % 65536) &&& LOWER_14_MASK, .PRE_CYCLE_A, false, if sp then 2 else 4, 0, m, c,
        r, sp⟩ := by
    show pulse_view _ = _
    rw [pulse_view_mcycle _ rfl]
    exact stage_pre s _ m c sp r hen hb1
  generalize hs1 : ((s + 1) % 65536) &&& LOWER_14_MASK = s1 at e1 hb1
  have e2 := pulses_view_period ⟨s1, .PRE_CYCLE_A, false, if sp then 2 else 4, 0, m, c, r, sp⟩
    rfl
  dsimp only at e2
  rw [stage_a] at e2
  generalize hs2 : ((s1 + 1) % 65536) &&& LOWER_14_MASK = s2 at e2
  generalize hs3 : ((s2 + 1) % 65536) &&& LOWER_14_MASK = s3
  obtain ⟨n1, n2⟩ := no_edge_after_edge (sys_shift_table (c &&& LOWER_2_MASK)) s s1 s2 s3
    (((s3 + 1) % 65536) &&& LOWER_14_MASK)
    (sys_shift_table_cases c) hs1.symm hs2.symm hs3.symm rfl hb hb1
  have e3 := pulses_view_period
    ⟨s2, .CYCLE_A,
      decide ((s2 >>> sys_shift_table (c &&& LOWER_2_MASK)) &&& BIT_0_MASK ≠ 0),
      if sp then 2 else 4, 0, m, c, r, sp⟩ rfl
  dsimp only at e3
  rw [stage_b, hs3] at e3
  · have e4 := pulses_view_period
      ⟨s3, .CYCLE_B,
        decide ((s3 >>> sys_shift_table (c &&& LOWER_2_MASK)) &&& BIT_0_MASK ≠ 0),
        if sp then 2 else 4, m, m, c, r, sp⟩ rfl
    dsimp only at e4
    rw [stage_end] at e4
    · have a2 : 1 + 2 * (if sp = true then 2 else 4) =
          1 + (if sp = true then 2 else 4) + (if sp = true then 2 else 4) := by omega
      have a3 : 1 + 3 * (if sp = true then 2 else 4) =
          1 + (if sp = true then 2 else 4) + (if sp = true then 2 else 4) +
            (if sp = true then 2 else 4) := by omega
      rw [a2, a3]
      simp only [pulses_view_add, e1, e2, e3, e4, and_self]
    · intro h
      exact decide_eq_true (n2 (of_decide_eq_true h))
  · intro h
    rw [hs3]
    exact decide_eq_true (n1 (of_decide_eq_true h))

/-! ## C12: TIMA overflow automaton -/


theorem write_tima_register (env : TimerEnv D) (emu : GbcEmu D) (value : Nat)
    (hw : timer_wired env) :
    write_timer_register env emu env.TIMA value = write_tima env emu value := by
  unfold write_timer_register
  rw [if_neg (Ne.symm hw.1), if_pos rfl]

theorem write_tac_register (env : TimerEnv D) (emu : GbcEmu D) (value : Nat)
    (hw : timer_wired env) :
    write_timer_register env emu env.TAC value = write_tac env emu value := by
  obtain ⟨h1, h2, h3, h4, h5, h6, h7, h8, h9, h10, h11⟩ := hw
  unfold write_timer_register
  rw [if_neg (Ne.symm h3), if_neg (Ne.symm h6), if_neg (Ne.symm h8), if_pos rfl]

/-- C12 (TIMA overflow automaton, as the code runs it), with the timer wired
and the APU, PPU and DMA steps leaving the timer registers alone.
(1) Overflow by the m-cycle increment of `sys`: let the state be at the last dot
of an m-cycle, not overflowing, TIMA = 0xFF, the timer enabled, the edge latch
set and equal to the TAC-selected bit of `sys`, and that bit clear in `sys` + 1,
and let the CPU leave the timer alone for the next three m-cycles (4 pulses
each, 2 in double speed). Then after this pulse the timer is in PRE_CYCLE_A
with TIMA = 0x00; one m-cycle later it is in CYCLE_A, TIMA still 0x00 and the
TIMER bit of IF as before; one m-cycle later it is in CYCLE_B and TIMA holds
TMA, the TIMER bit still as before; one m-cycle later the TIMER bit of IF is
set, TIMA holds TMA and the timer is in NOT_OVERFLOWING.
(2) A write to TIMA in CYCLE_A stores the value and puts the timer in
NOT_OVERFLOWING, where `check_tima_overflow` does nothing, so neither reload
nor interrupt follows; a write in CYCLE_B changes nothing; in the two other
states it stores the value.
(3) Overflow by a register write: when the timer is enabled, the latch is set
and TIMA = 0xFF, a write to DIV, or a write to TAC that clears the enable bit,
takes TIMA to 0x00 and puts the timer in CYCLE_B directly. -/
theorem C12_tima_overflow_automaton (env : TimerEnv D) (emu : GbcEmu D) (value : Nat)
    (hw : timer_wired env) (hq : env_quiet env) :
    (emu.dots = 1 → emu.timer.tofs = .NOT_OVERFLOWING → emu.cpu.mem.memory env.TIMA = 0xFF →
      tac_enabled env emu = true → emu.timer.prev_sys_bit = true →
      get_current_sys_bit env emu = true →
      get_current_sys_bit env { emu with timer := { emu.timer with
        sys := ((emu.timer.sys + 1) % 65536) &&& LOWER_14_MASK } } = false →
      (∀ k, k < 1 + 3 * (if emu.cpu.speed_enabled then 2 else 4) →
        pulse_quiet env (system_clock_pulses env k emu)) →
      ((system_clock_pulses env 1 emu).timer.tofs = .PRE_CYCLE_A ∧
        (system_clock_pulses env 1 emu).cpu.mem.memory env.TIMA = 0x00 ∧
        timer_requested env (system_clock_pulses env 1 emu).cpu.mem =
          timer_requested env emu.cpu.mem) ∧
      ((system_clock_pulses env (1 + (if emu.cpu.speed_enabled then 2 else 4))
          emu).timer.tofs = .CYCLE_A ∧
        (system_clock_pulses env (1 + (if emu.cpu.speed_enabled then 2 else 4))
          emu).cpu.mem.memory env.TIMA = 0x00 ∧
        timer_requested env (system_clock_pulses env
          (1 + (if emu.cpu.speed_enabled then 2 else 4)) emu).cpu.mem =
          timer_requested env emu.cpu.mem) ∧
      ((system_clock_pulses env (1 + 2 * (if emu.cpu.speed_enabled then 2 else 4))
          emu).timer.tofs = .CYCLE_B ∧
        (system_clock_pulses env (1 + 2 * (if emu.cpu.speed_enabled then 2 else 4))
          emu).cpu.mem.memory env.TIMA = emu.cpu.mem.memory env.TMA ∧
        timer_requested env (system_clock_pulses env
          (1 + 2 * (if emu.cpu.speed_enabled then 2 else 4)) emu).cpu.mem =
          timer_requested env emu.cpu.mem) ∧
      ((system_clock_pulses env (1 + 3 * (if emu.cpu.speed_enabled then 2 else 4))
          emu).timer.tofs = .NOT_OVERFLOWING ∧
        (system_clock_pulses env (1 + 3 * (if emu.cpu.speed_enabled then 2 else 4))
          emu).cpu.mem.memory env.TIMA = emu.cpu.mem.memory env.TMA ∧
        timer_requested env (system_clock_pulses env
          (1 + 3 * (if emu.cpu.speed_enabled then 2 else 4)) emu).cpu.mem = true)) ∧
    (emu.timer.tofs = .CYCLE_A →
      (write_timer_register env emu env.TIMA value).timer.tofs = .NOT_OVERFLOWING ∧
      (write_timer_register env emu env.TIMA value).cpu.mem.memory env.TIMA = value ∧
      timer_requested env (write_timer_register env emu env.TIMA value).cpu.mem =
        timer_requested env emu.cpu.mem ∧
      check_tima_overflow env (write_timer_register env emu env.TIMA value) =
        write_timer_register env emu env.TIMA value) ∧
    (emu.timer.tofs = .CYCLE_B → write_timer_register env emu env.TIMA value = emu) ∧
    (emu.timer.tofs ≠ .CYCLE_A → emu.timer.tofs ≠ .CYCLE_B →
      (write_timer_register env emu env.TIMA value).timer.tofs = emu.timer.tofs ∧
      (write_timer_register env emu env.TIMA value).cpu.mem.memory env.TIMA = value) ∧
    (tac_enabled env emu = true → emu.timer.prev_sys_bit = true →
      emu.cpu.mem.memory env.TIMA = 0xFF →
      (write_timer_register env emu env.DIV value).timer.tofs = .CYCLE_B ∧
      (write_timer_register env emu env.DIV value).cpu.mem.memory env.TIMA = 0x00) ∧
    (tac_enabled env emu = true → emu.timer.prev_sys_bit = true →
      emu.cpu.mem.memory env.TIMA = 0xFF → value &&& BIT_2_MASK = 0 →
      (write_timer_register env emu env.TAC value).timer.tofs = .CYCLE_B ∧
      (write_timer_register env emu env.TAC value).cpu.mem.memory env.TIMA = 0x00) := by
  refine ⟨?_, ?_, ?_, ?_, ?_, ?_⟩
  · intro hdots ht ha hen hp hb hb1 hrun
    have hs := overflow_stages (timer_view env emu) hdots ht ha
      (of_decide_eq_true hen) hp (of_decide_eq_true hb) (by
        have := of_decide_eq_false hb1
        exact not_not.mp this)
    have hsp : (timer_view env emu).speed = emu.cpu.speed_enabled := rfl
    have hrq : (timer_view env emu).requested = timer_requested env emu.cpu.mem := rfl
    have hma : (timer_view env emu).tma = emu.cpu.mem.memory env.TMA := rfl
    rw [hsp, hrq, hma] at hs
    generalize (if emu.cpu.speed_enabled = true then 2 else 4 : Nat) = P at hs hrun ⊢
    have r1 := pulses_sim env hw hq 1 emu (fun k hk => hrun k (by omega))
    have r2 := pulses_sim env hw hq (1 + P) emu (fun k hk => hrun k (by omega))
    have r3 := pulses_sim env hw hq (1 + 2 * P) emu (fun k hk => hrun k (by omega))
    have r4 := pulses_sim env hw hq (1 + 3 * P) emu hrun
    have f1 := congrArg TimerView.tofs r1
    have f2 := congrArg TimerView.tima r1
    have f3 := congrArg TimerView.requested r1
    have g1 := congrArg TimerView.tofs r2
    have g2 := congrArg TimerView.tima r2
    have g3 := congrArg TimerView.requested r2
    have i1 := congrArg TimerView.tofs r3
    have i2 := congrArg TimerView.tima r3
    have i3 := congrArg TimerView.requested r3
    have j1 := congrArg TimerView.tofs r4
    have j2 := congrArg TimerView.tima r4
    have j3 := congrArg TimerView.requested r4
    exact ⟨⟨f1.trans hs.1.1, f2.trans hs.1.2.1, f3.trans hs.1.2.2⟩,
      ⟨g1.trans hs.2.1.1, g2.trans hs.2.1.2.1, g3.trans hs.2.1.2.2⟩,
      ⟨i1.trans hs.2.2.1.1, i2.trans hs.2.2.1.2.1, i3.trans hs.2.2.1.2.2⟩,
      ⟨j1.trans hs.2.2.2.1, j2.trans hs.2.2.2.2.1, j3.trans hs.2.2.2.2.2⟩⟩
  · intro ht
    rw [write_tima_register env emu value hw]
    unfold write_tima
    rw [if_pos ht]
    refine ⟨rfl, ?_, ?_, ?_⟩
    · simp [store_register, store_byte]
    · simp only [store_register]
      exact timer_requested_store env _ _ _ hw.2.2.2.2.2.2.1
    · unfold check_tima_overflow
      rfl
  · intro ht
    rw [write_tima_register env emu value hw]
    unfold write_tima
    rw [if_neg (by rw [ht]; intro h; cases h), if_pos ht]
  · intro ht1 ht2
    rw [write_tima_register env emu value hw]
    unfold write_tima
    rw [if_neg ht1, if_neg ht2]
    refine ⟨rfl, ?_⟩
    simp [store_register, store_byte]
  · intro hen hp ha
    have hd : write_timer_register env emu env.DIV value = clear_sys env emu := by
      unfold write_timer_register
      rw [if_pos rfl]
    obtain ⟨_, _, c3, c4⟩ := clear_sys_fields env emu
    obtain ⟨w1, _, _, _, _, _, _, w8, _, _, _⟩ := write_sys_spec env emu 0 hw hq
    rw [hd, c4, c3, w8, w1, hen, hp, ha, sys_bit_zero]
    exact ⟨rfl, rfl⟩
  · intro hen hp ha hv
    rw [write_tac_register env emu value hw]
    obtain ⟨h1, h2, h3, h4, h5, h6, h7, h8, h9, h10, h11⟩ := hw
    unfold write_tac
    have e1 : tac_enabled env (store_register emu env.TAC value) = false := by
      unfold tac_enabled
      rw [store_register_memory, if_pos rfl, hv]
      rfl
    dsimp only
    rw [hen, e1, store_register_timer, hp]
    simp only [Bool.and_self, Bool.not_false, Bool.true_or, if_true]
    unfold inc_tima
    dsimp only
    simp only [store_register_memory, if_neg h6, if_pos, ha, store_register_timer]
    simp [store_register_memory]


set_option maxRecDepth 100000 in
/-- Witness for C12: the concrete machine at the last dot of an m-cycle with
TAC = 0x05, `sys` = 3, the latch set, TIMA = 0xFF and TMA = 0x42. After this
pulse the timer is in PRE_CYCLE_A with TIMA = 0x00, and 12 pulses later the
TIMER bit of IF is set, TIMA holds 0x42 and the timer is in NOT_OVERFLOWING. -/
theorem C12_tima_overflow_automaton_witness :
    (system_clock_pulses timerEnv 1
      { timerEmu ⟨3, .NOT_OVERFLOWING, true, false⟩ 0xFF 0x42 0x05 with dots := 1 }).timer.tofs =
        .PRE_CYCLE_A ∧
    (system_clock_pulses timerEnv 1
      { timerEmu ⟨3, .NOT_OVERFLOWING, true, false⟩ 0xFF 0x42 0x05 with
        dots := 1 }).cpu.mem.memory 0xFF05 = 0x00 ∧
    (system_clock_pulses timerEnv 13
      { timerEmu ⟨3, .NOT_OVERFLOWING, true, false⟩ 0xFF 0x42 0x05 with dots := 1 }).timer.tofs =
        .NOT_OVERFLOWING ∧
    (system_clock_pulses timerEnv 13
      { timerEmu ⟨3, .NOT_OVERFLOWING, true, false⟩ 0xFF 0x42 0x05 with
        dots := 1 }).cpu.mem.memory 0xFF05 = 0x42 ∧
    timer_requested timerEnv (system_clock_pulses timerEnv 13
      { timerEmu ⟨3, .NOT_OVERFLOWING, true, false⟩ 0xFF 0x42 0x05 with
        dots := 1 }).cpu.mem = true := by
  have h := (C12_tima_overflow_automaton timerEnv
    { timerEmu ⟨3, .NOT_OVERFLOWING, true, false⟩ 0xFF 0x42 0x05 with dots := 1 } 0
    timerEnv_wired timerEnv_quiet).1 (by decide!) (by decide!) (by decide!) (by decide!)
    (by decide!) (by decide!) (by decide!) (by decide!)
  exact ⟨h.1.1, h.1.2.1, h.2.2.2.1, h.2.2.2.2.1, h.2.2.2.2.2⟩

set_option maxRecDepth 100000 in
/-- Counterexample for C12: on the concrete machine with TAC = 0x05, `sys` = 3,
the latch set and TIMA = 0xFF, a write to DIV takes TIMA from 0xFF to 0x00 and
the timer is in CYCLE_B, not in PRE_CYCLE_A; at the next m-cycle (4 pulses
later) the TIMER bit of IF is set and TIMA holds TMA, without a CYCLE_A. -/
theorem C12_tima_overflow_automaton_counterexample :
    (timerEmu ⟨3, .NOT_OVERFLOWING, true, false⟩ 0xFF 0x42 0x05).cpu.mem.memory 0xFF05 = 0xFF ∧
    (write_timer_register timerEnv (timerEmu ⟨3, .NOT_OVERFLOWING, true, false⟩ 0xFF 0x42 0x05)
      0xFF04 0x00).cpu.mem.memory 0xFF05 = 0x00 ∧
    (write_timer_register timerEnv (timerEmu ⟨3, .NOT_OVERFLOWING, true, false⟩ 0xFF 0x42 0x05)
      0xFF04 0x00).timer.tofs = .CYCLE_B ∧
    (write_timer_register timerEnv (timerEmu ⟨3, .NOT_OVERFLOWING, true, false⟩ 0xFF 0x42 0x05)
      0xFF04 0x00).timer.tofs ≠ .PRE_CYCLE_A ∧
    (system_clock_pulses timerEnv 4 (write_timer_register timerEnv
      (timerEmu ⟨3, .NOT_OVERFLOWING, true, false⟩ 0xFF 0x42 0x05) 0xFF04 0x00)).timer.tofs =
        .NOT_OVERFLOWING ∧
    timer_requested timerEnv (system_clock_pulses timerEnv 4 (write_timer_register timerEnv
      (timerEmu ⟨3, .NOT_OVERFLOWING, true, false⟩ 0xFF 0x42 0x05) 0xFF04 0x00)).cpu.mem =
        true := by
  decide!

/-! ## C13: TIMA at the fastest rate -/


/-- C13 (TIMA at the fastest rate, as the code runs it): with the timer wired
and nothing but the timer touching its registers for 28 pulses, start from
TAC = 0x05, TIMA = 0xFF, TMA = 0x42, `sys` = 0, no edge pending, no overflow in
progress, the TIMER bit of IF clear, single speed and the pulse counter at its
initial value 4. The CPU's m-cycles run at pulses 4, 8, 12, ..., each followed
by one increment of `sys`. After 12 pulses TIMA is still 0xFF. After 16 pulses
TIMA has overflowed to 0x00, the timer is in PRE_CYCLE_A and the TIMER bit of
IF is clear. After 20 pulses the timer is in CYCLE_A with TIMA = 0x00. After 24
pulses it is in CYCLE_B and TIMA holds 0x42, the TIMER bit still clear. After
28 pulses the TIMER bit of IF is set, TIMA holds 0x42 and the timer is back in
NOT_OVERFLOWING. -/
theorem C13_tima_fastest_rate (env : TimerEnv D) (emu : GbcEmu D)
    (hw : timer_wired env) (hq : env_quiet env)
    (hcpu : ∀ k, k < 28 → pulse_quiet env (system_clock_pulses env k emu))
    (htac : emu.cpu.mem.memory env.TAC = 0x05) (htima : emu.cpu.mem.memory env.TIMA = 0xFF)
    (htma : emu.cpu.mem.memory env.TMA = 0x42) (hsys : emu.timer.sys = 0)
    (hedge : emu.timer.prev_sys_bit = false) (htofs : emu.timer.tofs = .NOT_OVERFLOWING)
    (hif : timer_requested env emu.cpu.mem = false) (hspeed : emu.cpu.speed_enabled = false)
    (hdots : emu.dots = 4) :
    timer_view env (system_clock_pulses env 12 emu) =
      { sys := 3, tofs := .NOT_OVERFLOWING, prev_sys_bit := true, dots := 4, tima := 0xFF,
        tma := 0x42, tac := 0x05, requested := false, speed := false } ∧
    timer_view env (system_clock_pulses env 16 emu) =
      { sys := 4, tofs := .PRE_CYCLE_A, prev_sys_bit := false, dots := 4, tima := 0x00,
        tma := 0x42, tac := 0x05, requested := false, speed := false } ∧
    timer_view env (system_clock_pulses env 20 emu) =
      { sys := 5, tofs := .CYCLE_A, prev_sys_bit := false, dots := 4, tima := 0x00,
        tma := 0x42, tac := 0x05, requested := false, speed := false } ∧
    timer_view env (system_clock_pulses env 24 emu) =
      { sys := 6, tofs := .CYCLE_B, prev_sys_bit := true, dots := 4, tima := 0x42,
        tma := 0x42, tac := 0x05, requested := false, speed := false } ∧
    timer_view env (system_clock_pulses env 28 emu) =
      { sys := 7, tofs := .NOT_OVERFLOWING, prev_sys_bit := true, dots := 4, tima := 0x42,
        tma := 0x42, tac := 0x05, requested := true, speed := false } := by
  have h0 : timer_view env emu =
      { sys := 0, tofs := .NOT_OVERFLOWING, prev_sys_bit := false, dots := 4, tima := 0xFF,
        tma := 0x42, tac := 0x05, requested := false, speed := false } := by
    unfold timer_view
    rw [htac, htima, htma, hsys, hedge, htofs, hif, hspeed, hdots]
  refine ⟨?_, ?_, ?_, ?_, ?_⟩
  · rw [pulses_sim env hw hq 12 emu (fun k hk => hcpu k (by omega)), h0]; decide!
  · rw [pulses_sim env hw hq 16 emu (fun k hk => hcpu k (by omega)), h0]; decide!
  · rw [pulses_sim env hw hq 20 emu (fun k hk => hcpu k (by omega)), h0]; decide!
  · rw [pulses_sim env hw hq 24 emu (fun k hk => hcpu k (by omega)), h0]; decide!
  · rw [pulses_sim env hw hq 28 emu hcpu, h0]; decide!

set_option maxRecDepth 100000 in
/-- Witness for C13: the concrete machine with the CPU of this model running
NOPs satisfies the hypotheses, so after 16 pulses its TIMA byte is 0x00 and
after 28 pulses its TIMA byte is 0x42 and the TIMER bit of IF is set. -/
theorem C13_tima_fastest_rate_witness :
    (timer_view timerEnv (system_clock_pulses timerEnv 16
      (timerEmu init_timer 0xFF 0x42 0x05))).tima = 0x00 ∧
    (timer_view timerEnv (system_clock_pulses timerEnv 28
      (timerEmu init_timer 0xFF 0x42 0x05))).tima = 0x42 ∧
    (timer_view timerEnv (system_clock_pulses timerEnv 28
      (timerEmu init_timer 0xFF 0x42 0x05))).requested = true := by
  have h := C13_tima_fastest_rate timerEnv (timerEmu init_timer 0xFF 0x42 0x05)
    timerEnv_wired timerEnv_quiet (by decide!) (by decide!) (by decide!) (by decide!)
    (by decide!) (by decide!) (by decide!) (by decide!) (by decide!) (by decide!)
  exact ⟨by rw [h.2.1], by rw [h.2.2.2.2], by rw [h.2.2.2.2]⟩

set_option maxRecDepth 100000 in
/-- Counterexample for C13: on the concrete machine started with TAC = 0x05,
TIMA = 0xFF, TMA = 0x42, `sys` = 0, after 16 calls of `system_clock_pulse` the
TIMA byte is 0x00, not 0x42, and bit 2 of IF is clear. -/
theorem C13_tima_fastest_rate_counterexample :
    (system_clock_pulses timerEnv 16
      (timerEmu init_timer 0xFF 0x42 0x05)).cpu.mem.memory 0xFF05 = 0x00 ∧
    (system_clock_pulses timerEnv 16
      (timerEmu init_timer 0xFF 0x42 0x05)).cpu.mem.memory 0xFF0F &&& 0x04 = 0 ∧
    (system_clock_pulses timerEnv 16
      (timerEmu init_timer 0xFF 0x42 0x05)).timer.tofs = .PRE_CYCLE_A ∧
    (timerEmu init_timer 0xFF 0x42 0x05).cpu.mem.memory 0xFF07 = 0x05 ∧
    (timerEmu init_timer 0xFF 0x42 0x05).cpu.mem.memory 0xFF05 = 0xFF ∧
    (timerEmu init_timer 0xFF 0x42 0x05).cpu.mem.memory 0xFF06 = 0x42 ∧
    (timerEmu init_timer 0xFF 0x42 0x05).timer.sys = 0 := by
  decide!


/-! ## C21: RTC halt -/

/-- C21 (what a guest write to the RTC day-high register does): through the
MBC3 writer with RAM enabled, selecting register 0x0C by a write to
0x4000-0x5FFF and then writing `v` to 0xA000-0xBFFF stores `v & 0xC1` in the
latched register `rtc_dh` and changes nothing else of the clock, the live
counters and `live_dh` included; `rtc_tick_second` tests bit 6 of `live_dh`, so
after the write it still advances the live seconds when `live_dh` has bit 6
clear, whatever `v` is, and it leaves the cartridge unchanged exactly when bit 6
of `live_dh` is set. -/
theorem C21_rtc_halt (cart : Cartridge) (a1 a2 v : Nat)
    (h1 : 0x4000 ≤ a1 ∧ a1 ≤ 0x5FFF) (h2 : 0xA000 ≤ a2 ∧ a2 ≤ 0xBFFF)
    (hen : cart.ram_enabled = true) :
    (write_mbc3 (write_mbc3 cart a1 0x0C) a2 v).clock =
      { cart.clock with rtc_dh := v &&& 0xC1 } ∧
    (cart.clock.live_dh &&& BIT_6_MASK = 0 →
      (rtc_tick_second (write_mbc3 (write_mbc3 cart a1 0x0C) a2 v)).clock.live_s =
        (cart.clock.live_s + 1) % 60) ∧
    (cart.clock.live_dh &&& BIT_6_MASK ≠ 0 → rtc_tick_second cart = cart) := by
  have hc1 := get_address_code_eq a1 2 (by decide) (by omega) (by omega)
  have hc2 := get_address_code_eq a2 5 (by decide) (by omega) (by omega)
  have hw : (write_mbc3 (write_mbc3 cart a1 0x0C) a2 v).clock =
      { cart.clock with rtc_dh := v &&& 0xC1 } := by
    simp [write_mbc3, hc1, hc2, hen, write_rtc]
  refine ⟨hw, ?_, ?_⟩
  · intro hl
    have hl2 : (write_mbc3 (write_mbc3 cart a1 0x0C) a2 v).clock.live_dh &&& BIT_6_MASK = 0 := by
      rw [hw]; exact hl
    have hs : (write_mbc3 (write_mbc3 cart a1 0x0C) a2 v).clock.live_s = cart.clock.live_s := by
      rw [hw]
    unfold rtc_tick_second
    simp only [hl2, ne_eq, not_true_eq_false, decide_False, Bool.false_eq_true, if_false, hs]
    split
    · rename_i h0
      simp only [rtc_tick_minute] at h0 ⊢
      split
      · simp only [rtc_tick_hour]
        split
        · simp only [rtc_tick_day]
          split <;> exact h0 ▸ rfl
        · exact h0 ▸ rfl
      · exact h0 ▸ rfl
    · rfl
  · intro hl
    unfold rtc_tick_second
    simp only [ne_eq, hl, not_false_eq_true, decide_True, if_true]

/-- Witness for C21: on the MBC3 cartridge with live time 00:00:10, RAM enabled
and the clock running, the guest writes 0x40 (halt) to RTC register 0x0C; the
latched register holds 0x40, the live day-high counter is still 0 and the next
tick advances the seconds to 11. -/
theorem C21_rtc_halt_witness :
    (write_mbc3 (write_mbc3 (write_mbc3 (clockCart 10 0 0 0 0) 0x0000 0x0A) 0x4000 0x0C)
      0xA000 0x40).clock.rtc_dh = 0x40 ∧
    (write_mbc3 (write_mbc3 (write_mbc3 (clockCart 10 0 0 0 0) 0x0000 0x0A) 0x4000 0x0C)
      0xA000 0x40).clock.live_dh = 0 ∧
    (rtc_tick_second (write_mbc3 (write_mbc3 (write_mbc3 (clockCart 10 0 0 0 0) 0x0000 0x0A)
      0x4000 0x0C) 0xA000 0x40)).clock.live_s = 11 := by
  have h := C21_rtc_halt (write_mbc3 (clockCart 10 0 0 0 0) 0x0000 0x0A) 0x4000 0xA000 0x40
    (by decide) (by decide) (by decide!)
  refine ⟨?_, ?_, ?_⟩
  · rw [h.1]; decide
  · rw [h.1]; decide!
  · rw [h.2.1 (by decide!)]; decide!

/-! ## C26: pixel priority -/


/-- The table `merge_obj_bgw` implements, for either kind of cartridge: for two
non-transparent pixels the BG pixel is output when the cartridge is a CGB one,
LCDC bit 0 is 1 and at least one of the OBJ and BG priority bits is 1; in every
other case the OBJ pixel is output (on a DMG cartridge `master_prio` is false,
so the OBJ priority bit is not looked at). -/
theorem merge_obj_bgw_table (env : PpuEnv X) (s : PpuSys X) (bgw obj : GbcPixel)
    (ho : obj.color ≠ 0) (hb : bgw.color ≠ 0) :
    merge_obj_bgw env s bgw obj =
      if (s.cpu.mem.dev.cart_is_gbc = true ∧ ppu_reg s env.io.LCDC &&& BIT_0_MASK ≠ 0) ∧
          (obj.priority = true ∨ bgw.priority = true)
      then get_bgw_pixel_color env s bgw
      else get_obj_pixel_color env s obj := by
  unfold merge_obj_bgw
  rw [if_neg ho, if_neg hb]
  by_cases hl : ppu_reg s env.io.LCDC &&& BIT_0_MASK = 0
  · have hm : decide (ppu_reg s env.io.LCDC &&& BIT_0_MASK ≠ 0) = false := by
      simp only [ne_eq, hl, not_true_eq_false, decide_False]
    simp only [hm]
    have hl2 := hl
    simp at hl2
    cases hg : s.cpu.mem.dev.cart_is_gbc <;> cases hp : obj.priority <;>
      cases hq : bgw.priority <;> simp [hl2, Bool.toNat]
  · have hm : decide (ppu_reg s env.io.LCDC &&& BIT_0_MASK ≠ 0) = true := by
      simp only [ne_eq, hl, not_false_eq_true, decide_True]
    simp only [hm]
    have hl2 := hl
    simp at hl2
    cases hg : s.cpu.mem.dev.cart_is_gbc <;> cases hp : obj.priority <;>
      cases hq : bgw.priority <;> simp [hl2, Bool.toNat]

/-- C26 (the priority table on a CGB cartridge): for two non-transparent pixels
`merge_obj_bgw` outputs the OBJ pixel when the OBJ and BG priority bits are
both 0, for either value of LCDC bit 0; when exactly one of the two bits is 1,
or both are, it outputs the BG pixel with LCDC bit 0 = 1 and the OBJ pixel with
LCDC bit 0 = 0. -/
theorem C26_pixel_priority (env : PpuEnv X) (s : PpuSys X) (bgw obj : GbcPixel)
    (hg : s.cpu.mem.dev.cart_is_gbc = true) (ho : obj.color ≠ 0) (hb : bgw.color ≠ 0) :
    (obj.priority = false → bgw.priority = false →
      merge_obj_bgw env s bgw obj = get_obj_pixel_color env s obj) ∧
    ((obj.priority = true ∨ bgw.priority = true) → ppu_reg s env.io.LCDC &&& BIT_0_MASK ≠ 0 →
      merge_obj_bgw env s bgw obj = get_bgw_pixel_color env s bgw) ∧
    (ppu_reg s env.io.LCDC &&& BIT_0_MASK = 0 →
      merge_obj_bgw env s bgw obj = get_obj_pixel_color env s obj) := by
  rw [merge_obj_bgw_table env s bgw obj ho hb]
  refine ⟨fun h1 h2 => ?_, fun h1 h2 => ?_, fun h1 => ?_⟩
  · rw [if_neg]
    rw [h1, h2]
    simp
  · rw [if_pos ⟨⟨hg, h2⟩, h1⟩]
  · rw [if_neg]
    exact fun h => h.1.2 h1

/-- Witness for C26: a CGB machine with LCDC bit 0 set, OBJ priority bit 0 and
BG priority bit 1, both colours 1: the BG pixel is output. -/
theorem C26_pixel_priority_witness :
    merge_obj_bgw hwEnv (lcdSys (mmuMem (regMem [(0xFF40, 0x81)]) (fun _ => 0) true) .DRAWING 100)
      { color := 1, dmg_palette := 0, cgb_palette := 0, priority := true }
      { color := 1, dmg_palette := 0, cgb_palette := 0, priority := false } =
    get_bgw_pixel_color hwEnv
      (lcdSys (mmuMem (regMem [(0xFF40, 0x81)]) (fun _ => 0) true) .DRAWING 100)
      { color := 1, dmg_palette := 0, cgb_palette := 0, priority := true } :=
  (C26_pixel_priority hwEnv
    (lcdSys (mmuMem (regMem [(0xFF40, 0x81)]) (fun _ => 0) true) .DRAWING 100)
    { color := 1, dmg_palette := 0, cgb_palette := 0, priority := true }
    { color := 1, dmg_palette := 0, cgb_palette := 0, priority := false }
    (by decide) (by decide) (by decide)).2.1 (Or.inr rfl) (by decide)

/-- Counterexample to C26 as stated: a CGB machine with LCDC = 0x90 (bit 0
clear), OBJ priority bit 1 and BG priority bit 0 (exactly one of the two is 1),
both colours 1; in palette RAM colour 1 of OBJ palette 0 is red (0x001F) and
colour 1 of BG palette 0 is blue (0x7C00). The output is the OBJ colour
0xFFF80000, not the BG colour 0xFF0000F8. -/
theorem C26_pixel_priority_counterexample :
    merge_obj_bgw hwEnv
      (lcdSys (cramMem (regMem [(0xFF40, 0x90)]) (regMem [(0x42, 0x1F), (0x03, 0x7C)]))
        .DRAWING 100)
      { color := 1, dmg_palette := 0, cgb_palette := 0, priority := false }
      { color := 1, dmg_palette := 0, cgb_palette := 0, priority := true } = 0xFFF80000 ∧
    get_bgw_pixel_color hwEnv
      (lcdSys (cramMem (regMem [(0xFF40, 0x90)]) (regMem [(0x42, 0x1F), (0x03, 0x7C)]))
        .DRAWING 100)
      { color := 1, dmg_palette := 0, cgb_palette := 0, priority := false } = 0xFF0000F8 ∧
    (lcdSys (cramMem (regMem [(0xFF40, 0x90)]) (regMem [(0x42, 0x1F), (0x03, 0x7C)]))
        .DRAWING 100).cpu.mem.dev.cart_is_gbc = true := by
  refine ⟨by decide, by decide, by decide⟩

/-! ## C27: STAT interrupt edge -/


/-! ### The STAT interrupt line -/

theorem stat_low_bits (a v : Nat) : ((a &&& 0x87) ||| (v &&& 0x78)) &&& 0x07 = a &&& 0x07 := by
  apply Nat.eq_of_testBit_eq
  intro i
  simp only [Nat.testBit_and, Nat.testBit_or]
  by_cases h : i < 8
  · interval_cases i <;> simp [Nat.testBit]
  · have h7 : Nat.testBit 7 i = false :=
      Nat.testBit_lt_two_pow (lt_of_lt_of_le (by norm_num)
        (Nat.pow_le_pow_right (by norm_num) (not_lt.mp h)))
    simp [h7]

theorem request_interrupt_wired (env : PpuEnv X) (hw : ppu_wired env) (cpu : CPU (MmuDev X))
    (i : Nat) :
    request_interrupt env.bus cpu i =
      { cpu with
        mem := write_interrupt_flag env.bus.IFR cpu.mem env.bus.IFR
                 ((cpu.mem.memory env.bus.IFR ||| i) % 256) } := by
  unfold request_interrupt write_memory
  rw [hw.1]

/-- `check_stat_irq` for one of the three modes with an enable bit `bit`. -/
theorem check_stat_irq_source (env : PpuEnv X) (s : PpuSys X) (mode : PpuMode) (bit : Nat)
    (hm : (mode = .HBLANK ∧ bit = BIT_3_MASK) ∨ (mode = .VBLANK ∧ bit = BIT_4_MASK) ∨
      (mode = .OAM_SCAN ∧ bit = BIT_5_MASK)) :
    check_stat_irq env s mode =
      if ppu_reg s env.io.STAT &&& bit ≠ 0 ∧ s.ppu.stat_irq_line = false then
        { set_ppu_reg s env.io.STAT (ppu_reg s env.io.STAT) with
          ppu := { s.ppu with stat_irq_line := true },
          cpu := request_interrupt env.bus
            (set_ppu_reg s env.io.STAT (ppu_reg s env.io.STAT)).cpu LCD_STAT_INTERRUPT_CODE }
      else set_ppu_reg s env.io.STAT (ppu_reg s env.io.STAT) := by
  rcases hm with ⟨rfl, rfl⟩ | ⟨rfl, rfl⟩ | ⟨rfl, rfl⟩
  · unfold check_stat_irq
    by_cases h1 : ppu_reg s env.io.STAT &&& BIT_3_MASK ≠ 0 <;>
      cases h2 : s.ppu.stat_irq_line <;>
      simp [h1, h2, set_ppu_reg]
  · unfold check_stat_irq
    by_cases h1 : ppu_reg s env.io.STAT &&& BIT_4_MASK ≠ 0 <;>
      cases h2 : s.ppu.stat_irq_line <;>
      simp [h1, h2, set_ppu_reg]
  · unfold check_stat_irq
    by_cases h1 : ppu_reg s env.io.STAT &&& BIT_5_MASK ≠ 0 <;>
      cases h2 : s.ppu.stat_irq_line <;>
      simp [h1, h2, set_ppu_reg]

/-- `check_stat_irq` for the mode DRAWING. -/
theorem check_stat_irq_drawing (env : PpuEnv X) (s : PpuSys X) :
    check_stat_irq env s .DRAWING =
      set_ppu_reg { s with ppu := { s.ppu with stat_irq_line := s.ppu.lyc_irq } } env.io.STAT
        (ppu_reg s env.io.STAT) := by
  unfold check_stat_irq
  simp [set_ppu_reg]

/-- `check_stat_irq` for the pseudo-mode COINCIDENCE. -/
theorem check_stat_irq_coincidence (env : PpuEnv X) (s : PpuSys X) :
    check_stat_irq env s .COINCIDENCE =
      if (ppu_reg s env.io.STAT &&& BIT_6_MASK ≠ 0 ∧ ppu_reg s env.io.LY = ppu_reg s env.io.LYC ∧
          s.ppu.lyc_irq = false) ∧ s.ppu.stat_irq_line = false then
        { set_ppu_reg s env.io.STAT ((ppu_reg s env.io.STAT &&& 0xFB) ||| (1 <<< 2)) with
          ppu := { s.ppu with lyc_irq := true, stat_irq_line := true },
          cpu := request_interrupt env.bus
            (set_ppu_reg s env.io.STAT ((ppu_reg s env.io.STAT &&& 0xFB) ||| (1 <<< 2))).cpu
            LCD_STAT_INTERRUPT_CODE }
      else
        set_ppu_reg { s with ppu := { s.ppu with
            lyc_irq := decide (ppu_reg s env.io.LY = ppu_reg s env.io.LYC) } } env.io.STAT
          ((ppu_reg s env.io.STAT &&& 0xFB) |||
            ((decide (ppu_reg s env.io.LY = ppu_reg s env.io.LYC)).toNat <<< 2)) := by
  unfold check_stat_irq
  by_cases h1 : ppu_reg s env.io.STAT &&& BIT_6_MASK ≠ 0 <;>
    by_cases h2 : ppu_reg s env.io.LY = ppu_reg s env.io.LYC <;>
    cases h3 : s.ppu.lyc_irq <;>
    cases h4 : s.ppu.stat_irq_line <;>
    simp [h1, h2, h3, h4, set_ppu_reg, Bool.toNat]

theorem and_bit_ne_zero (x i : Nat) : x &&& 2 ^ i ≠ 0 ↔ x.testBit i = true := by
  rw [Nat.and_two_pow]
  cases x.testBit i <;> simp

theorem stat_enable_bit (a v i : Nat) (hi : 3 ≤ i ∧ i ≤ 6) :
    ((a &&& 0x87) ||| (v &&& 0x78)) &&& 2 ^ i ≠ 0 ↔ v &&& 2 ^ i ≠ 0 := by
  rw [and_bit_ne_zero, and_bit_ne_zero]
  simp only [Nat.testBit_and, Nat.testBit_or]
  have hi1 := hi.1
  have hi2 := hi.2
  interval_cases i <;> simp [Nat.testBit]

theorem ppu_reg_set (s : PpuSys X) (a v b : Nat) :
    ppu_reg (set_ppu_reg s a v) b = if b = a then v else ppu_reg s b := rfl

/-- What `write_stat` comes to when the mode field holds one of the four
modes: the STAT byte is rebuilt, and the check of the mode's source requests
the interrupt exactly when the source is enabled and the line is low. -/
theorem write_stat_eq (env : PpuEnv X) (s : PpuSys X) (value : Nat)
    (hmode : s.ppu.mode ≠ .COINCIDENCE) :
    ∃ bit : Nat, ∃ line : Bool,
      ((s.ppu.mode = .HBLANK ∧ bit = BIT_3_MASK ∧ line = s.ppu.stat_irq_line) ∨
       (s.ppu.mode = .VBLANK ∧ bit = BIT_4_MASK ∧ line = s.ppu.stat_irq_line) ∨
       (s.ppu.mode = .OAM_SCAN ∧ bit = BIT_5_MASK ∧ line = s.ppu.stat_irq_line) ∨
       (s.ppu.mode = .DRAWING ∧ bit = 0 ∧ line = s.ppu.lyc_irq)) ∧
      write_stat env s value =
        if ((ppu_reg s env.io.STAT &&& 0x87) ||| (value &&& 0x78)) &&& bit ≠ 0 ∧
            s.ppu.stat_irq_line = false then
          { set_ppu_reg s env.io.STAT ((ppu_reg s env.io.STAT &&& 0x87) ||| (value &&& 0x78)) with
            ppu := { s.ppu with stat_irq_line := true },
            cpu := request_interrupt env.bus
              (set_ppu_reg s env.io.STAT
                ((ppu_reg s env.io.STAT &&& 0x87) ||| (value &&& 0x78))).cpu
              LCD_STAT_INTERRUPT_CODE }
        else
          { set_ppu_reg s env.io.STAT ((ppu_reg s env.io.STAT &&& 0x87) ||| (value &&& 0x78)) with
            ppu := { s.ppu with stat_irq_line := line } } := by
  have hset : ∀ v w : Nat, set_ppu_reg (set_ppu_reg s env.io.STAT v) env.io.STAT w =
      set_ppu_reg s env.io.STAT w := by
    intro v w
    unfold set_ppu_reg
    simp only
    congr 3
    funext a
    by_cases h : a = env.io.STAT <;> simp [h]
  have hws : write_stat env s value = check_stat_irq env
      (set_ppu_reg s env.io.STAT ((ppu_reg s env.io.STAT &&& 0x87) ||| (value &&& 0x78)))
      s.ppu.mode := by
    unfold write_stat
    simp only [hset, ppu_reg_set, if_true]
    rfl
  rw [hws]
  cases hm : s.ppu.mode
  · refine ⟨BIT_3_MASK, s.ppu.stat_irq_line, Or.inl ⟨rfl, rfl, rfl⟩, ?_⟩
    rw [check_stat_irq_source env _ .HBLANK BIT_3_MASK (Or.inl ⟨rfl, rfl⟩)]
    simp only [hset, ppu_reg_set, if_true]
    rfl
  · refine ⟨BIT_4_MASK, s.ppu.stat_irq_line, Or.inr (Or.inl ⟨rfl, rfl, rfl⟩), ?_⟩
    rw [check_stat_irq_source env _ .VBLANK BIT_4_MASK (Or.inr (Or.inl ⟨rfl, rfl⟩))]
    simp only [hset, ppu_reg_set, if_true]
    rfl
  · refine ⟨BIT_5_MASK, s.ppu.stat_irq_line, Or.inr (Or.inr (Or.inl ⟨rfl, rfl, rfl⟩)), ?_⟩
    rw [check_stat_irq_source env _ .OAM_SCAN BIT_5_MASK (Or.inr (Or.inr ⟨rfl, rfl⟩))]
    simp only [hset, ppu_reg_set, if_true]
    rfl
  · refine ⟨0, s.ppu.lyc_irq, Or.inr (Or.inr (Or.inr ⟨rfl, rfl, rfl⟩)), ?_⟩
    rw [check_stat_irq_drawing]
    simp only [hset, ppu_reg_set, if_true, Nat.and_zero, ne_eq, not_true_eq_false, false_and,
      if_false]
    unfold set_ppu_reg
    simp only [PpuSys.mk.injEq, CPU.mk.injEq, EmuMemory.mk.injEq, and_true, true_and]
    funext a
    by_cases h : a = env.io.STAT <;> simp [h]
  · exact absurd hm hmode

/-- C27: a write to STAT (with the mode field holding one of the four modes)
stores `(STAT & 0x87) | (value & 0x78)`, so bits 0..2 are unchanged; if the STAT
interrupt line is already high the write leaves the IF byte as it was; whenever
the write changes the IF byte, the line was low before the write and is high
after it; and with the line low, enabling the source of the current mode
(HBLANK, VBLANK or OAM_SCAN) raises the line and requests LCD_STAT (IF bit 1). -/
theorem C27_stat_irq_edge (env : PpuEnv X) (s : PpuSys X) (value : Nat)
    (hw : ppu_wired env) (hmode : s.ppu.mode ≠ .COINCIDENCE) :
    ppu_reg (write_stat env s value) env.io.STAT =
      (ppu_reg s env.io.STAT &&& 0x87) ||| (value &&& 0x78) ∧
    ppu_reg (write_stat env s value) env.io.STAT &&& 0x07 = ppu_reg s env.io.STAT &&& 0x07 ∧
    (s.ppu.stat_irq_line = true →
      ppu_reg (write_stat env s value) env.bus.IFR = ppu_reg s env.bus.IFR) ∧
    (ppu_reg (write_stat env s value) env.bus.IFR ≠ ppu_reg s env.bus.IFR →
      s.ppu.stat_irq_line = false ∧ (write_stat env s value).ppu.stat_irq_line = true) ∧
    (s.ppu.stat_irq_line = false →
      ((s.ppu.mode = .HBLANK ∧ value &&& BIT_3_MASK ≠ 0) ∨
       (s.ppu.mode = .VBLANK ∧ value &&& BIT_4_MASK ≠ 0) ∨
       (s.ppu.mode = .OAM_SCAN ∧ value &&& BIT_5_MASK ≠ 0)) →
      (write_stat env s value).ppu.stat_irq_line = true ∧
      ppu_reg (write_stat env s value) env.bus.IFR =
        0xE0 ||| (((ppu_reg s env.bus.IFR ||| LCD_STAT_INTERRUPT_CODE) % 256) &&&
          LOWER_5_MASK)) := by
  obtain ⟨bit, line, hcase, heq⟩ := write_stat_eq env s value hmode
  have hne : env.bus.IFR ≠ env.io.STAT := hw.2.1
  have hne2 : env.io.STAT ≠ env.bus.IFR := fun h => hne h.symm
  have hstat : ppu_reg (write_stat env s value) env.io.STAT =
      (ppu_reg s env.io.STAT &&& 0x87) ||| (value &&& 0x78) := by
    rw [heq]
    split
    · unfold ppu_reg
      simp only [request_interrupt_wired env hw]
      simp [write_interrupt_flag, set_ppu_reg, hne2]
    · simp [ppu_reg, set_ppu_reg]
  have hreq : ((ppu_reg s env.io.STAT &&& 0x87) ||| (value &&& 0x78)) &&& bit ≠ 0 ∧
      s.ppu.stat_irq_line = false →
      (write_stat env s value).ppu.stat_irq_line = true ∧
      ppu_reg (write_stat env s value) env.bus.IFR =
        0xE0 ||| (((ppu_reg s env.bus.IFR ||| LCD_STAT_INTERRUPT_CODE) % 256) &&&
          LOWER_5_MASK) := by
    intro hc
    rw [heq, if_pos hc]
    refine ⟨rfl, ?_⟩
    unfold ppu_reg
    simp only [request_interrupt_wired env hw]
    simp [write_interrupt_flag, set_ppu_reg, hne]
  have hno : ¬ (((ppu_reg s env.io.STAT &&& 0x87) ||| (value &&& 0x78)) &&& bit ≠ 0 ∧
      s.ppu.stat_irq_line = false) →
      ppu_reg (write_stat env s value) env.bus.IFR = ppu_reg s env.bus.IFR := by
    intro hc
    rw [heq, if_neg hc]
    simp [ppu_reg, set_ppu_reg, hne]
  refine ⟨hstat, ?_, ?_, ?_, ?_⟩
  · rw [hstat]
    exact stat_low_bits _ _
  · intro hl
    apply hno
    intro hc
    rw [hl] at hc
    exact absurd hc.2 (by decide)
  · intro hch
    by_cases hc : ((ppu_reg s env.io.STAT &&& 0x87) ||| (value &&& 0x78)) &&& bit ≠ 0 ∧
        s.ppu.stat_irq_line = false
    · exact ⟨hc.2, (hreq hc).1⟩
    · exact absurd (hno hc) hch
  · intro hl hsrc
    apply hreq
    refine ⟨?_, hl⟩
    rcases hsrc with ⟨hm, hv⟩ | ⟨hm, hv⟩ | ⟨hm, hv⟩ <;>
      rcases hcase with ⟨hm2, hb, -⟩ | ⟨hm2, hb, -⟩ | ⟨hm2, hb, -⟩ | ⟨hm2, hb, -⟩ <;>
      first
      | exact absurd (hm.symm.trans hm2) (by decide)
      | (rw [hb]
         first
         | exact (stat_enable_bit _ value 3 (by decide)).mpr hv
         | exact (stat_enable_bit _ value 4 (by decide)).mpr hv
         | exact (stat_enable_bit _ value 5 (by decide)).mpr hv)

/-- Witness for C27: in HBLANK with STAT = 0x08 (HBlank source enabled) and the
line high, writing 0x08 again leaves IF at 0xE0; with the line low the same
write raises the line and sets IF bit 1. -/
theorem C27_stat_irq_edge_witness :
    ppu_reg (write_stat hwEnv
      { lcdSys (mmuMem (regMem [(0xFF41, 0x08), (0xFF0F, 0xE0)]) (fun _ => 0) false) .HBLANK
          300 with
        ppu := { (lcdSys (mmuMem (regMem [(0xFF41, 0x08), (0xFF0F, 0xE0)]) (fun _ => 0) false)
          .HBLANK 300).ppu with stat_irq_line := true } } 0x08) 0xFF0F = 0xE0 ∧
    ppu_reg (write_stat hwEnv
      (lcdSys (mmuMem (regMem [(0xFF41, 0x08), (0xFF0F, 0xE0)]) (fun _ => 0) false) .HBLANK
        300) 0x08) 0xFF0F = 0xE2 := by
  constructor
  · exact (C27_stat_irq_edge hwEnv
      { lcdSys (mmuMem (regMem [(0xFF41, 0x08), (0xFF0F, 0xE0)]) (fun _ => 0) false) .HBLANK
          300 with
        ppu := { (lcdSys (mmuMem (regMem [(0xFF41, 0x08), (0xFF0F, 0xE0)]) (fun _ => 0) false)
          .HBLANK 300).ppu with stat_irq_line := true } } 0x08
      ⟨rfl, by decide, by decide, by decide, by decide, by decide, by decide⟩
      (by decide)).2.2.1 rfl
  · exact ((C27_stat_irq_edge hwEnv
      (lcdSys (mmuMem (regMem [(0xFF41, 0x08), (0xFF0F, 0xE0)]) (fun _ => 0) false) .HBLANK
        300) 0x08
      ⟨rfl, by decide, by decide, by decide, by decide, by decide, by decide⟩
      (by decide)).2.2.2.2 rfl (Or.inl ⟨rfl, by decide⟩)).2

/-! ## C22, C23: the OAM DMA engine -/


/-! ### The OAM DMA engine -/

theorem dma_cycles_succ (t : MemoryTables (MmuDev X)) (n : Nat) :
    ∀ mem : EmuMemory (MmuDev X),
      dma_cycles t (n + 1) mem = check_dma_transfer t (dma_cycles t n mem) := by
  induction n with
  | zero => intro mem; rfl
  | succ n ih =>
    intro mem
    show dma_cycles t (n + 1) (check_dma_transfer t mem) = _
    rw [ih]
    rfl

/-- The page `dma_handler` takes the source from. -/
theorem dma_page_lt (p : Nat) (hp : p < 256) :
    (if (if p = 0xFF then 0xDF else p) = 0xFE then 0xE0 else (if p = 0xFF then 0xDF else p)) =
      (if p = 0xFF then 0xDF else if p = 0xFE then 0xE0 else p) ∧
    (if p = 0xFF then 0xDF else if p = 0xFE then 0xE0 else p) ≤ 0xFD := by
  by_cases h1 : p = 0xFF
  · subst h1; decide
  · by_cases h2 : p = 0xFE
    · subst h2; decide
    · refine ⟨by simp only [h1, h2, if_false], ?_⟩
      simp only [h1, h2, if_false]
      omega

/-- The state `dma_handler` leaves. -/
theorem dma_handler_state (dma : Nat) (mem : EmuMemory (MmuDev X)) (address p : Nat)
    (hp : p < 256) :
    (dma_handler dma mem address p).dev.dma =
      { active := true, src := (if p = 0xFF then 0xDF else if p = 0xFE then 0xE0 else p) * 256,
        dst := OAM_START, length := DMA_DURATION } ∧
    (dma_handler dma mem address p).dev.oam_read_blocked = mem.dev.dma.active ∧
    (dma_handler dma mem address p).dev.oam_write_blocked = mem.dev.dma.active ∧
    (dma_handler dma mem address p).dev.oam = mem.dev.oam ∧
    (dma_handler dma mem address p).memory dma =
      (if p = 0xFF then 0xDF else if p = 0xFE then 0xE0 else p) := by
  have h := dma_page_lt p hp
  have h2 := h.2
  have e : (if p = 0xFF then 0xDF else if p = 0xFE then 0xE0 else p) * 256 % 65536 =
      (if p = 0xFF then 0xDF else if p = 0xFE then 0xE0 else p) * 256 := by omega
  unfold dma_handler
  refine ⟨?_, ?_, ?_, ?_, ?_⟩
  · simp only [h.1, DmaState.mk.injEq, true_and, and_true]
    exact e
  · rfl
  · rfl
  · rfl
  · simp only [h.1, if_true]

/-- The startup cycle of the engine: the length goes from `DMA_DURATION` to 160
and nothing else changes. -/
theorem dma_delay_step (t : MemoryTables (MmuDev X)) (mem : EmuMemory (MmuDev X))
    (hact : mem.dev.dma.active = true) (hlen : mem.dev.dma.length = DMA_DURATION) :
    check_dma_transfer t mem =
      { mem with dev := { mem.dev with dma := { mem.dev.dma with length := 160 } } } := by
  unfold check_dma_transfer
  simp [hact, hlen, show (DMA_DURATION + 65535) % 65536 = 160 from rfl]

/-- A copy cycle of the engine with `L` bytes left. -/
theorem dma_copy_step (t : MemoryTables (MmuDev X)) (mem : EmuMemory (MmuDev X)) (L : Nat)
    (hact : mem.dev.dma.active = true) (hlen : mem.dev.dma.length = L) (h1 : 1 ≤ L)
    (h2 : L ≤ 160) :
    (check_dma_transfer t mem).dev.dma =
      { active := decide (L ≠ 1), src := (mem.dev.dma.src + 1) % 65536,
        dst := (mem.dev.dma.dst + 1) % 65536, length := L - 1 } ∧
    (check_dma_transfer t mem).dev.oam_read_blocked =
      (if L = 1 then false else if L = 160 then true else mem.dev.oam_read_blocked) ∧
    (check_dma_transfer t mem).dev.oam_write_blocked =
      (if L = 1 then false else if L = 160 then true else mem.dev.oam_write_blocked) ∧
    (∀ i, (check_dma_transfer t mem).dev.oam i =
      if i = sub_u16 mem.dev.dma.dst OAM_START then
        read_memory t (if L = 160 then lock_oam mem else mem) mem.dev.dma.src
      else mem.dev.oam i) ∧
    (check_dma_transfer t mem).memory = mem.memory := by
  have e1 : (L + 65535) % 65536 = L - 1 := by omega
  have e2 : ¬ L > 160 := by omega
  by_cases c1 : L = 1
  · subst c1
    unfold check_dma_transfer
    simp [hact, hlen]
  · by_cases c2 : L = 160
    · subst c2
      unfold check_dma_transfer
      simp [hact, hlen, lock_oam]
    · have e3 : ¬ L - 1 = 0 := by omega
      unfold check_dma_transfer
      simp [hact, hlen, c1, c2, e1, e2, e3]

theorem lock_oam_of_blocked (mem : EmuMemory (MmuDev X))
    (h1 : mem.dev.oam_read_blocked = true) (h2 : mem.dev.oam_write_blocked = true) :
    lock_oam mem = mem := by
  obtain ⟨memory, dev⟩ := mem
  obtain ⟨a1, a2, a3, a4, a5, a6, a7, a8, a9, a10, a11⟩ := dev
  simp only at h1 h2
  subst h1
  subst h2
  rfl

/-- The state of the engine `1 + k` cycles after the write of `p` to the DMA
register (`k ≤ 160`): `k` bytes are copied, each one the byte the bus returned
in its copy cycle. -/
theorem dma_run_state (t : MemoryTables (MmuDev X)) (dma : Nat) (mem : EmuMemory (MmuDev X))
    (address p page : Nat) (hp : p < 256)
    (hpage : page = if p = 0xFF then 0xDF else if p = 0xFE then 0xE0 else p) :
    ∀ k, k ≤ 160 →
      (dma_cycles t (1 + k) (dma_handler dma mem address p)).dev.dma =
        { active := decide (k < 160), src := page * 256 + k, dst := OAM_START + k,
          length := 160 - k } ∧
      (dma_cycles t (1 + k) (dma_handler dma mem address p)).dev.oam_read_blocked =
        (decide (k < 160) && (decide (0 < k) || mem.dev.dma.active)) ∧
      (dma_cycles t (1 + k) (dma_handler dma mem address p)).dev.oam_write_blocked =
        (decide (k < 160) && (decide (0 < k) || mem.dev.dma.active)) ∧
      (∀ i, i < k → (dma_cycles t (1 + k) (dma_handler dma mem address p)).dev.oam i =
        read_memory t (lock_oam (dma_cycles t (1 + i) (dma_handler dma mem address p)))
          (page * 256 + i)) ∧
      (∀ i, k ≤ i → (dma_cycles t (1 + k) (dma_handler dma mem address p)).dev.oam i =
        mem.dev.oam i) ∧
      (dma_cycles t (1 + k) (dma_handler dma mem address p)).memory =
        (dma_handler dma mem address p).memory := by
  have hpl : page ≤ 0xFD := by rw [hpage]; exact (dma_page_lt p hp).2
  have h0 := dma_handler_state dma mem address p hp
  rw [← hpage] at h0
  intro k
  induction k with
  | zero =>
    intro _
    have hd : dma_cycles t (1 + 0) (dma_handler dma mem address p) =
        check_dma_transfer t (dma_handler dma mem address p) := rfl
    rw [hd, dma_delay_step t _ (by rw [h0.1]) (by rw [h0.1])]
    refine ⟨?_, ?_, ?_, ?_, ?_, rfl⟩
    · simp only [h0.1]
      simp
    · simp only [h0.2.1]
      simp
    · simp only [h0.2.2.1]
      simp
    · intro i hi
      exact absurd hi (Nat.not_lt_zero i)
    · intro i _
      simp only [h0.2.2.2.1]
  | succ k ih =>
    intro hk
    obtain ⟨i1, i2, i3, i4, i5, i6⟩ := ih (by omega)
    have hd : dma_cycles t (1 + (k + 1)) (dma_handler dma mem address p) =
        check_dma_transfer t (dma_cycles t (1 + k) (dma_handler dma mem address p)) := by
      rw [show 1 + (k + 1) = (1 + k) + 1 by omega, dma_cycles_succ]
    have hklt : decide (k < 160) = true := by simp; omega
    have hs := dma_copy_step t (dma_cycles t (1 + k) (dma_handler dma mem address p)) (160 - k)
      (by rw [i1, hklt]) (by rw [i1]) (by omega) (by omega)
    rw [hd]
    obtain ⟨s1, s2, s3, s4, s5⟩ := hs
    have hsub : sub_u16 (OAM_START + k) OAM_START = k := by
      rw [sub_u16_of_le _ _ (by omega) (by simp only [OAM_START]; omega)]
      omega
    refine ⟨?_, ?_, ?_, ?_, ?_, ?_⟩
    · rw [s1, i1]
      simp only [DmaState.mk.injEq, OAM_START]
      refine ⟨?_, ?_, ?_, ?_⟩
      · simp only [decide_eq_decide]; omega
      · omega
      · omega
      · omega
    · rw [s2, i2]
      by_cases c1 : 160 - k = 1
      · have : ¬ k + 1 < 160 := by omega
        simp [c1, this]
      · by_cases c2 : 160 - k = 160
        · have : k = 0 := by omega
          subst this
          simp
        · have a1 : k + 1 < 160 := by omega
          have a2 : k < 160 := by omega
          have a3 : 0 < k := by omega
          simp [c1, c2, a1, a2, a3]
    · rw [s3, i3]
      by_cases c1 : 160 - k = 1
      · have : ¬ k + 1 < 160 := by omega
        simp [c1, this]
      · by_cases c2 : 160 - k = 160
        · have : k = 0 := by omega
          subst this
          simp
        · have a1 : k + 1 < 160 := by omega
          have a2 : k < 160 := by omega
          have a3 : 0 < k := by omega
          simp [c1, c2, a1, a2, a3]
    · intro i hi
      rw [s4 i, i1]
      simp only [hsub]
      by_cases c : i = k
      · subst c
        rw [if_pos rfl]
        by_cases c2 : 160 - i = 160
        · rw [if_pos c2]
        · rw [if_neg c2, lock_oam_of_blocked]
          · rw [i2]; simp; omega
          · rw [i3]; simp; omega
      · rw [if_neg c]
        exact i4 i (by omega)
    · intro i hi
      rw [s4 i, i1]
      simp only [hsub]
      rw [if_neg (by omega)]
      exact i5 i (by omega)
    · rw [s5, i6]

/-- C22: after a write of the byte `p` to the DMA register with no transfer
running, let `p'` be `p` with 0xFF mapped to 0xDF and 0xFE to 0xE0. After the
startup cycle and `k` further cycles (`k ≤ 160`) the engine has copied exactly
the bytes `0 .. k-1`: OAM byte `i < k` is the byte the bus returned for address
`p' * 256 + i` in its copy cycle (cycle `i + 2`, with OAM blocked), the OAM
bytes from `k` on are untouched, and source, destination and remaining length
are `p' * 256 + k`, `0xFE00 + k` and `160 - k`. After 161 cycles the 160 bytes
are copied, the engine is inactive and OAM reads and writes are unblocked. -/
theorem C22_oam_dma_burst (t : MemoryTables (MmuDev X)) (dma : Nat)
    (mem : EmuMemory (MmuDev X)) (address p : Nat) (hp : p < 256)
    (hidle : mem.dev.dma.active = false) :
    (∀ k, k ≤ 160 →
      (dma_cycles t (1 + k) (dma_handler dma mem address p)).dev.dma.src =
        (if p = 0xFF then 0xDF else if p = 0xFE then 0xE0 else p) * 256 + k ∧
      (dma_cycles t (1 + k) (dma_handler dma mem address p)).dev.dma.dst = OAM_START + k ∧
      (dma_cycles t (1 + k) (dma_handler dma mem address p)).dev.dma.length = 160 - k ∧
      (dma_cycles t (1 + k) (dma_handler dma mem address p)).dev.dma.active = decide (k < 160) ∧
      (∀ i, i < k → (dma_cycles t (1 + k) (dma_handler dma mem address p)).dev.oam i =
        read_memory t (lock_oam (dma_cycles t (1 + i) (dma_handler dma mem address p)))
          ((if p = 0xFF then 0xDF else if p = 0xFE then 0xE0 else p) * 256 + i)) ∧
      (∀ i, k ≤ i → (dma_cycles t (1 + k) (dma_handler dma mem address p)).dev.oam i =
        mem.dev.oam i)) ∧
    ((dma_cycles t 161 (dma_handler dma mem address p)).dev.dma.active = false ∧
     (dma_cycles t 161 (dma_handler dma mem address p)).dev.oam_read_blocked = false ∧
     (dma_cycles t 161 (dma_handler dma mem address p)).dev.oam_write_blocked = false ∧
     ∀ i, i < 160 → (dma_cycles t 161 (dma_handler dma mem address p)).dev.oam i =
        read_memory t (lock_oam (dma_cycles t (1 + i) (dma_handler dma mem address p)))
          ((if p = 0xFF then 0xDF else if p = 0xFE then 0xE0 else p) * 256 + i)) := by
  have h := dma_run_state t dma mem address p _ hp rfl
  constructor
  · intro k hk
    obtain ⟨i1, i2, i3, i4, i5, i6⟩ := h k hk
    rw [i1]
    exact ⟨rfl, rfl, rfl, rfl, i4, i5⟩
  · obtain ⟨i1, i2, i3, i4, i5, i6⟩ := h 160 (le_refl _)
    have e : (1 + 160 : Nat) = 161 := rfl
    rw [e] at i1 i2 i3 i4
    refine ⟨by rw [i1]; rfl, by rw [i2]; rfl, by rw [i3]; rfl, i4⟩

/-- Witness for C22: the bus of `mmuTables`, memory holding 0x5A at 0xC000, page
0xC0 written to the DMA register 0xFF46: after 161 cycles the engine is
inactive, OAM is unblocked and OAM byte 0 is 0x5A. -/
theorem C22_oam_dma_burst_witness :
    (dma_cycles mmuTables 161 (dma_handler 0xFF46
      (mmuMem (regMem [(0xC000, 0x5A)]) (fun _ => 0) false) 0xFF46 0xC0)).dev.dma.active = false ∧
    (dma_cycles mmuTables 161 (dma_handler 0xFF46
      (mmuMem (regMem [(0xC000, 0x5A)]) (fun _ => 0) false) 0xFF46 0xC0)).dev.oam_read_blocked =
        false ∧
    (dma_cycles mmuTables 161 (dma_handler 0xFF46
      (mmuMem (regMem [(0xC000, 0x5A)]) (fun _ => 0) false) 0xFF46 0xC0)).dev.oam 0 = 0x5A := by
  have h := (C22_oam_dma_burst mmuTables 0xFF46
    (mmuMem (regMem [(0xC000, 0x5A)]) (fun _ => 0) false) 0xFF46 0xC0 (by decide) rfl).2
  refine ⟨h.1, h.2.1, ?_⟩
  rw [h.2.2.2 0 (by decide)]
  decide

/-! ### The OAM locks in the running machine -/

/-- With the LCD on (LCDC = 0x91) the lock is shared with the PPU: two machine
cycles into a transfer a read of 0xFE10 returns 0xFF, and the dot on which the
PPU enters HBlank (`unlock_oam` in `enter_hblank_mode`) releases the lock while
the engine is still active, so that the same read returns the OAM byte 0x12. -/
theorem oam_lock_released_by_hblank :
    read_oam (dma_cycles mmuTables 2 (write_memory mmuTables
      (mmuMem (regMem [(0xFF40, 0x91)]) (fun _ => 0x12) false) 0xFF46 0xC0)) 0xFE10 = 0xFF ∧
    (ppu_dot hwEnv 128 (lcdSys (dma_cycles mmuTables 2 (write_memory mmuTables
      (mmuMem (regMem [(0xFF40, 0x91)]) (fun _ => 0x12) false) 0xFF46 0xC0)) .DRAWING 252)).map
      (fun r => (r.2.ppu.mode, r.2.cpu.mem.dev.dma.active, read_oam r.2.cpu.mem 0xFE10)) =
      some (.HBLANK, true, 0x12) := by
  constructor <;> decide

/-! ## C24: HDMA5 read-back -/


/-! ### The HDMA engine -/

theorem hdma_mode_eq (v : Nat) (hv : v < 256) :
    (v >>> 7) &&& BIT_0_MASK = if v < 128 then 0 else 1 := by
  rw [Nat.shiftRight_eq_div_pow]
  have h : v / 2 ^ 7 = 0 ∨ v / 2 ^ 7 = 1 := by
    have : v / 2 ^ 7 < 2 := by
      rw [Nat.div_lt_iff_lt_mul (by norm_num)]
      omega
    omega
  split
  · rename_i h1
    have : v / 2 ^ 7 = 0 := by
      rw [Nat.div_eq_zero_iff (by norm_num)]
      norm_num
      exact h1
    rw [this]
    rfl
  · rename_i h1
    have : v / 2 ^ 7 = 1 := by
      rcases h with h | h
      · rw [Nat.div_eq_zero_iff (by norm_num)] at h
        norm_num at h
        omega
      · exact h
    rw [this]
    rfl

theorem hdma_dst_range (a b : Nat) :
    0x8000 ≤ (VRAM_START ||| ((a &&& LOWER_5_MASK) <<< BYTE) ||| (b &&& UPPER_4_MASK)) % 65536 ∧
    (VRAM_START ||| ((a &&& LOWER_5_MASK) <<< BYTE) ||| (b &&& UPPER_4_MASK)) % 65536 ≤ 0x9FF0 ∧
    (VRAM_START ||| ((a &&& LOWER_5_MASK) <<< BYTE) ||| (b &&& UPPER_4_MASK)) % 65536 % 0x10 = 0 := by
  have ha : a &&& LOWER_5_MASK < 32 := Nat.lt_succ_of_le Nat.and_le_right
  have hb : b &&& UPPER_4_MASK ≤ 0xF0 := Nat.and_le_right
  have hb2 : (b &&& UPPER_4_MASK) % 16 = 0 := by
    have h : b &&& UPPER_4_MASK = ((b &&& UPPER_4_MASK) >>> 4) <<< 4 := by
      apply Nat.eq_of_testBit_eq
      intro i
      simp only [Nat.testBit_shiftLeft, Nat.testBit_shiftRight, Nat.testBit_and]
      by_cases hi : 4 ≤ i
      · simp [hi, Nat.add_sub_cancel' hi]
      · have : i < 4 := by omega
        interval_cases i <;> simp [Nat.testBit]
    rw [h, Nat.shiftLeft_eq]
    omega
  generalize a &&& LOWER_5_MASK = x at ha
  generalize b &&& UPPER_4_MASK = y at hb hb2
  have hy : y = 16 * (y / 16) := by omega
  have e1 : VRAM_START ||| x <<< BYTE = 0x8000 + x * 256 := by
    interval_cases x <;> rfl
  rw [e1]
  have e2 : (0x8000 + x * 256) ||| y = 0x8000 + x * 256 + y := by
    have hyl : y / 16 < 16 := by omega
    rw [hy]
    generalize y / 16 = z at hyl
    interval_cases x <;> interval_cases z <;> rfl
  rw [e2]
  omega

theorem write_vram_frame (vbk : Nat) (m : EmuMemory (MmuDev X)) (a v : Nat) :
    (write_vram vbk m a v).memory = m.memory ∧ (write_vram vbk m a v).dev.hdma = m.dev.hdma := by
  unfold write_vram
  split <;> exact ⟨rfl, rfl⟩

/-- The call of `check_hdma_transfer` that moves a byte (the second call since
the last byte): the transfer ends with HDMA5 = 0xFF when the length reaches 0
or the destination leaves VRAM, and otherwise the HDMA5 byte keeps its bit 7
and gets `(length / 0x10) - 1` of the new length in bits 0..6. -/
theorem hdma_byte_step (t : MemoryTables (MmuDev X)) (io : IoMap) (m : EmuMemory (MmuDev X))
    (hact : m.dev.hdma.active = true) (htr : m.dev.hdma.bytes_transferring = true)
    (hcnt : m.dev.hdma.counter = 1)
    (hw : t.memory_write_table m.dev.hdma.dst = write_vram io.VBK) :
    (((m.dev.hdma.length + 0xFFFF) % 65536 = 0 ∨ (m.dev.hdma.dst + 1) % 65536 > VRAM_END) →
      (check_hdma_transfer t io.HDMA5 m).dev.hdma.active = false ∧
      (check_hdma_transfer t io.HDMA5 m).memory io.HDMA5 = 0xFF) ∧
    (¬ ((m.dev.hdma.length + 0xFFFF) % 65536 = 0 ∨ (m.dev.hdma.dst + 1) % 65536 > VRAM_END) →
      (check_hdma_transfer t io.HDMA5 m).dev.hdma.active = true ∧
      (check_hdma_transfer t io.HDMA5 m).dev.hdma.length = (m.dev.hdma.length + 0xFFFF) % 65536 ∧
      (check_hdma_transfer t io.HDMA5 m).memory io.HDMA5 =
        ((m.memory io.HDMA5 &&& BIT_7_MASK) |||
          ((((m.dev.hdma.length + 0xFFFF) % 65536 / 0x10 + 0xFFFFFFFF) % 0x100000000) &&&
            LOWER_7_MASK)) % 256) := by
  have hf := fun (m2 : EmuMemory (MmuDev X)) (v : Nat) => write_vram_frame io.VBK m2 m.dev.hdma.dst v
  constructor
  · intro hc
    unfold check_hdma_transfer
    simp only [hact, htr, hcnt, Bool.not_true, Bool.or_self, Bool.false_eq_true, if_false,
      write_memory, hw]
    simp only [show ¬ ((1 + 1) % 256 < 2) by decide, if_false, (hf _ _).1, (hf _ _).2]
    simp [hc]
  · intro hc
    unfold check_hdma_transfer
    simp only [hact, htr, hcnt, Bool.not_true, Bool.or_self, Bool.false_eq_true, if_false,
      write_memory, hw]
    simp only [show ¬ ((1 + 1) % 256 < 2) by decide, if_false, (hf _ _).1, (hf _ _).2]
    simp [hc]
    split <;> simp [hact]

/-- C24 (what the HDMA5 byte holds): on a CGB cartridge, with the bus reading
HDMA5 by `default_read` without mask, a write of the byte `v` to HDMA5 that
starts a transfer (`v` has bit 7 set, or no transfer is active) leaves the
transfer active with length `((v & 0x7F) + 1) * 0x10` and a destination in
0x8000-0x9FF0 with the low nibble clear, and a read of HDMA5 returns `v`
itself: bit 7 of the read-back is bit 7 of `v`, so it is 0 for a general
transfer and 1 for an hblank transfer that is in progress. Each later call of
`check_hdma_transfer` that moves a byte (to a VRAM address handled by
`write_vram`) either ends the transfer with HDMA5 = 0xFF, or leaves it active,
keeps bit 7 of the HDMA5 byte and stores `(length / 0x10) - 1` of the
remaining length in bits 0..6. -/
theorem C24_hdma5_readback (t : MemoryTables (MmuDev X)) (io : IoMap)
    (mem : EmuMemory (MmuDev X)) (address v : Nat) (hv : v < 256)
    (hgbc : mem.dev.cart_is_gbc = true) (hnew : v < 128 → mem.dev.hdma.active = false)
    (hread : t.memory_read_table io.HDMA5 = default_read ∧ t.memory_mask_table io.HDMA5 = 0) :
    ((hdma_handler io mem address v).dev.hdma.active = true ∧
     (hdma_handler io mem address v).dev.hdma.length = ((v &&& 0x7F) + 1) * 0x10 ∧
     0x8000 ≤ (hdma_handler io mem address v).dev.hdma.dst ∧
     (hdma_handler io mem address v).dev.hdma.dst ≤ 0x9FF0 ∧
     (hdma_handler io mem address v).dev.hdma.dst % 0x10 = 0 ∧
     (hdma_handler io mem address v).dev.hdma.mode = (if v < 128 then GENERAL_HDMA else HBLANK_HDMA) ∧
     read_memory t (hdma_handler io mem address v) io.HDMA5 = v) ∧
    (∀ m : EmuMemory (MmuDev X), m.dev.hdma.active = true →
      m.dev.hdma.bytes_transferring = true → m.dev.hdma.counter = 1 →
      t.memory_write_table m.dev.hdma.dst = write_vram io.VBK →
      (((m.dev.hdma.length + 0xFFFF) % 65536 = 0 ∨ (m.dev.hdma.dst + 1) % 65536 > VRAM_END) →
        (check_hdma_transfer t io.HDMA5 m).dev.hdma.active = false ∧
        read_memory t (check_hdma_transfer t io.HDMA5 m) io.HDMA5 = 0xFF) ∧
      (¬ ((m.dev.hdma.length + 0xFFFF) % 65536 = 0 ∨
          (m.dev.hdma.dst + 1) % 65536 > VRAM_END) →
        (check_hdma_transfer t io.HDMA5 m).dev.hdma.active = true ∧
        (check_hdma_transfer t io.HDMA5 m).dev.hdma.length =
          (m.dev.hdma.length + 0xFFFF) % 65536 ∧
        read_memory t (check_hdma_transfer t io.HDMA5 m) io.HDMA5 =
          ((m.memory io.HDMA5 &&& BIT_7_MASK) |||
            ((((m.dev.hdma.length + 0xFFFF) % 65536 / 0x10 + 0xFFFFFFFF) % 0x100000000) &&&
              LOWER_7_MASK)) % 256)) := by
  have hrd : ∀ m : EmuMemory (MmuDev X), read_memory t m io.HDMA5 = m.memory io.HDMA5 % 256 := by
    intro m
    unfold read_memory
    rw [hread.1, hread.2]
    simp [default_read]
  constructor
  · have hmode := hdma_mode_eq v hv
    have hd := hdma_dst_range (mem.memory io.HDMA3) (mem.memory io.HDMA4)
    have hlen : ((v &&& LOWER_7_MASK) + 1) * 0x10 % 65536 = ((v &&& 0x7F) + 1) * 0x10 := by
      have : v &&& LOWER_7_MASK ≤ 0x7F := Nat.and_le_right
      show ((v &&& 0x7F) + 1) * 0x10 % 65536 = _
      have h2 : v &&& 0x7F ≤ 0x7F := this
      omega
    have hcancel : ¬ ((v >>> 7) &&& BIT_0_MASK = 0 ∧ mem.dev.hdma.active = true) := by
      rw [hmode]
      intro hc
      by_cases h128 : v < 128
      · rw [hnew h128] at hc
        exact absurd hc.2 (by decide)
      · rw [if_neg h128] at hc
        exact absurd hc.1 (by decide)
    have hstate : hdma_handler io mem address v =
        { memory := fun a => if a = io.HDMA5 then v else mem.memory a,
          dev := { mem.dev with
            hdma := { active := true,
                      src := (((mem.memory io.HDMA1) <<< BYTE) |||
                        (mem.memory io.HDMA2 &&& UPPER_4_MASK)) % 65536,
                      dst := (VRAM_START ||| ((mem.memory io.HDMA3 &&& LOWER_5_MASK) <<< BYTE) |||
                        (mem.memory io.HDMA4 &&& UPPER_4_MASK)) % 65536,
                      length := (((v &&& LOWER_7_MASK) + 1) * 0x10) % 65536,
                      bytes_transferring := decide ((v >>> 7) &&& BIT_0_MASK = GENERAL_HDMA),
                      mode := (v >>> 7) &&& BIT_0_MASK, counter := 0,
                      bytes_transferred := 0 } } } := by
      unfold hdma_handler
      rw [hgbc]
      simp only [Bool.not_true, Bool.false_eq_true, if_false]
      rw [if_neg (by simpa using hcancel)]
    rw [hstate]
    refine ⟨rfl, hlen, hd.1, hd.2.1, hd.2.2, hmode, ?_⟩
    rw [hrd]
    simp only [if_true]
    omega
  · intro m hact htr hcnt hw
    have hs := hdma_byte_step t io m hact htr hcnt hw
    constructor
    · intro hc
      refine ⟨(hs.1 hc).1, ?_⟩
      rw [hrd, (hs.1 hc).2]
    · intro hc
      refine ⟨(hs.2 hc).1, (hs.2 hc).2.1, ?_⟩
      rw [hrd, (hs.2 hc).2.2]
      simp

/-- Witness for C24 (the failing input): CGB machine on the bus of `mmuTables`,
no transfer active; the guest writes 0x81 to HDMA5 (hblank mode, two blocks).
The transfer is active with length 0x20, and a read of HDMA5 returns 0x81, with
bit 7 = 1. -/
theorem C24_hdma5_readback_witness :
    (write_memory mmuTables (mmuMem (fun _ => 0) (fun _ => 0) true) 0xFF55
      0x81).dev.hdma.active = true ∧
    (write_memory mmuTables (mmuMem (fun _ => 0) (fun _ => 0) true) 0xFF55
      0x81).dev.hdma.length = 0x20 ∧
    read_memory mmuTables (write_memory mmuTables (mmuMem (fun _ => 0) (fun _ => 0) true)
      0xFF55 0x81) 0xFF55 = 0x81 ∧
    read_memory mmuTables (write_memory mmuTables (mmuMem (fun _ => 0) (fun _ => 0) true)
      0xFF55 0x81) 0xFF55 &&& 0x80 = 0x80 := by
  have h := (C24_hdma5_readback mmuTables hwIo (mmuMem (fun _ => 0) (fun _ => 0) true) 0xFF55
    0x81 (by decide) rfl (by decide) ⟨rfl, rfl⟩).1
  have e : write_memory mmuTables (mmuMem (fun _ => 0) (fun _ => 0) true) 0xFF55 0x81 =
      hdma_handler hwIo (mmuMem (fun _ => 0) (fun _ => 0) true) 0xFF55 0x81 := rfl
  rw [e]
  have h7 : read_memory mmuTables (hdma_handler hwIo (mmuMem (fun _ => 0) (fun _ => 0) true)
      0xFF55 0x81) 0xFF55 = 0x81 := h.2.2.2.2.2.2
  refine ⟨h.1, h.2.1, h7, ?_⟩
  rw [h7]
  decide

/-! ## The sort of the scanned objects -/


/-! ### The sort of the scanned objects -/

theorem swap_adjacent (l : List OamObject) : ∀ j, j + 1 < l.length →
    l = l.take j ++ l.getD j default :: l.getD (j + 1) default :: l.drop (j + 2) ∧
    (l.set j (l.getD (j + 1) default)).set (j + 1) (l.getD j default) =
      l.take j ++ l.getD (j + 1) default :: l.getD j default :: l.drop (j + 2) := by
  induction l with
  | nil => intro j h; simp at h
  | cons c l ih =>
    intro j h
    cases j with
    | zero =>
      cases l with
      | nil => simp at h
      | cons d q => simp
    | succ j =>
      have h2 : j + 1 < l.length := by simpa using h
      obtain ⟨e1, e2⟩ := ih j h2
      constructor
      · simp only [List.take_succ_cons, List.getD_cons_succ, List.drop_succ_cons, List.cons_append]
        rw [← e1]
      · simp only [List.take_succ_cons, List.getD_cons_succ, List.drop_succ_cons, List.cons_append,
          List.set_cons_succ]
        rw [e2]

theorem x_inversions_swap (a b : OamObject) (q : List OamObject) (h : a.x > b.x) :
    ∀ p : List OamObject,
      x_inversions (p ++ b :: a :: q) + 1 = x_inversions (p ++ a :: b :: q) := by
  intro p
  induction p with
  | nil =>
    have h1 : decide (a.x > b.x) = true := by simpa using h
    have h2 : decide (b.x > a.x) = false := by simp; omega
    simp only [List.nil_append, x_inversions, List.filter_cons, h1, h2, if_true,
      List.length_cons]
    simp only [Bool.false_eq_true, if_false]
    omega
  | cons c p ih =>
    have e : ∀ r : List OamObject, x_inversions (c :: r) =
        (r.filter (fun b => decide (c.x > b.x))).length + x_inversions r := fun r => rfl
    rw [List.cons_append, List.cons_append, e, e, ← ih]
    simp only [List.filter_append, List.length_append, List.filter_cons]
    split <;> split <;> (try simp only [List.length_cons]) <;> omega

theorem x_inversions_bound (l : List OamObject) : 2 * x_inversions l ≤ l.length * l.length := by
  induction l with
  | nil => simp [x_inversions]
  | cons a l ih =>
    have h := List.length_filter_le (fun b => decide (a.x > b.x)) l
    simp only [x_inversions, List.length_cons]
    nlinarith

theorem drop_swap_eq (x y : OamObject) (q : List OamObject) :
    ∀ (p : List OamObject) (n : Nat), p.length + 2 ≤ n →
      (p ++ x :: y :: q).drop n = (p ++ y :: x :: q).drop n := by
  intro p
  induction p with
  | nil =>
    intro n hn
    obtain ⟨m, rfl⟩ : ∃ m, n = m + 2 := ⟨n - 2, by simp at hn; omega⟩
    simp
  | cons c p ih =>
    intro n hn
    obtain ⟨m, rfl⟩ : ∃ m, n = m + 1 := ⟨n - 1, by simp at hn; omega⟩
    simp only [List.cons_append, List.drop_succ_cons]
    exact ih m (by simp at hn; omega)

/-- One round of the loop of `sort_oam_by_xpos` at an index `j + 1 < size`. -/
theorem sort_oam_loop_step (fuel : Nat) (items : List OamObject) (size j : Nat) :
    sort_oam_loop (fuel + 1) items size (j + 1) =
      if j + 1 < size then
        if (items.getD j default).x > (items.getD (j + 1) default).x then
          sort_oam_loop fuel
            ((items.set j (items.getD (j + 1) default)).set (j + 1) (items.getD j default))
            size ((j + 1 + 0xFF) % 256)
        else sort_oam_loop fuel items size ((j + 1 + 1) % 256)
      else some items := by
  rw [sort_oam_loop]
  simp only [Nat.add_one_ne_zero, if_false, Nat.add_sub_cancel]

/-- The loop of `sort_oam_by_xpos` returns: with more fuel than twice the number
of inversions plus the distance of the index from `size`, the result is a
permutation of the slots that leaves the slots from `size` on alone. -/
theorem sort_oam_loop_total (size : Nat) (hs2 : 2 ≤ size) (hs : size ≤ 255) :
    ∀ (fuel : Nat) (items : List OamObject) (index : Nat),
      size ≤ items.length → index ≤ size →
      2 * x_inversions items + (size - max index 1) < fuel →
      ∃ items', sort_oam_loop fuel items size index = some items' ∧ items'.Perm items ∧
        items'.drop size = items.drop size ∧ items'.length = items.length := by
  intro fuel
  induction fuel with
  | zero => intro items index _ _ h; omega
  | succ fuel ih =>
    intro items index hlen hidx hm
    -- the guard `index == 0` of the loop
    have hguard : sort_oam_loop (fuel + 1) items size index =
        sort_oam_loop (fuel + 1) items size (max index 1) := by
      by_cases h0 : index = 0
      · subst h0
        rw [sort_oam_loop, sort_oam_loop]
        simp only [show (0 : Nat) < size by omega, show (1 : Nat) < size by omega, if_true,
          Nat.zero_max]
        rfl
      · rw [max_eq_left (by omega)]
    rw [hguard]
    obtain ⟨j, hj⟩ : ∃ j, max index 1 = j + 1 := ⟨max index 1 - 1, by omega⟩
    have hmax : max index 1 ≤ size := by omega
    rw [hj] at hm hmax ⊢
    rw [sort_oam_loop_step]
    by_cases hlt : j + 1 < size
    · rw [if_pos hlt]
      obtain ⟨e1, e2⟩ := swap_adjacent items j (by omega)
      by_cases hx : (items.getD j default).x > (items.getD (j + 1) default).x
      · rw [if_pos hx]
        have hinv := x_inversions_swap _ _ (items.drop (j + 2)) hx (items.take j)
        rw [← e1, ← e2] at hinv
        have hidx2 : (j + 1 + 0xFF) % 256 = j := by omega
        rw [hidx2]
        obtain ⟨items', r1, r2, r3, r4⟩ := ih
          ((items.set j (items.getD (j + 1) default)).set (j + 1) (items.getD j default)) j
          (by simp only [List.length_set]; exact hlen) (by omega) (by
            have : max j 1 ≥ j := le_max_left _ _
            have : max j 1 ≤ j + 1 := by omega
            omega)
        refine ⟨items', r1, ?_, ?_, ?_⟩
        · refine r2.trans ?_
          rw [e2]
          conv_rhs => rw [e1]
          exact List.Perm.append_left _ (List.Perm.swap _ _ _)
        · rw [r3, e2]
          conv_rhs => rw [e1]
          have hl : (items.take j).length + 2 ≤ size := by
            rw [List.length_take]
            omega
          exact (drop_swap_eq _ _ _ _ size hl).symm
        · rw [r4]
          simp only [List.length_set]
      · rw [if_neg hx]
        have hidx2 : (j + 1 + 1) % 256 = j + 2 := by omega
        rw [hidx2]
        exact ih items (j + 2) hlen (by omega) (by
          have : max (j + 2) 1 = j + 2 := by omega
          omega)
    · rw [if_neg hlt]
      exact ⟨items, rfl, List.Perm.refl _, rfl, rfl⟩

/-- `sort_oam_by_xpos` returns on a queue of at most 10 objects in 10 slots. -/
theorem sort_oam_by_xpos_total (fuel : Nat) (hfuel : 128 ≤ fuel) (queue : Queue OamObject)
    (hlen : queue.items.length = 10) (hsize : queue.size ≤ 10) :
    ∃ items', sort_oam_by_xpos fuel queue = some { queue with items := items' } ∧
      (items'.take queue.size).Perm (queue.items.take queue.size) ∧
      items'.length = 10 := by
  unfold sort_oam_by_xpos
  by_cases h2 : queue.size < 2
  · rw [if_pos h2]
    exact ⟨queue.items, rfl, List.Perm.refl _, hlen⟩
  · rw [if_neg h2]
    have hb := x_inversions_bound queue.items
    rw [hlen] at hb
    obtain ⟨items', r1, r2, r3, r4⟩ := sort_oam_loop_total queue.size (by omega) (by omega) fuel
      queue.items 1 (by omega) (by omega) (by
        have : max 1 1 = 1 := rfl
        omega)
    rw [r1]
    refine ⟨items', rfl, ?_, by rw [r4, hlen]⟩
    have h1 : (items'.take queue.size ++ items'.drop queue.size).Perm
        (queue.items.take queue.size ++ queue.items.drop queue.size) := by
      rw [List.take_append_drop, List.take_append_drop]
      exact r2
    rw [r3] at h1
    exact (List.perm_append_right_iff _).mp h1

/-! ## C25: OAM scan -/


/-! ### The OAM scan -/

/-- `enqueue` on a queue of 10 slots filled from slot 0. -/
theorem enqueue_scan (q : Queue OamObject) (o : OamObject) (m : Nat) (hm : m < 10)
    (hcap : q.capacity = 10) (hsize : q.size = m) (hrear : q.rear = (m : Int) - 1) :
    enqueue q o =
      { items := q.items.set m o, front := if q.front = -1 then 0 else q.front,
        rear := (m : Int), size := m + 1, capacity := 10 } := by
  obtain ⟨items, front, rear, size, capacity⟩ := q
  simp only at hcap hsize hrear
  subst hcap
  subst hsize
  subst hrear
  have e1 : ((size : Int) - 1 + 1) % ((10 : Nat) : Int) = (size : Int) := by
    have : (size : Int) < 10 := by exact_mod_cast hm
    have : (0 : Int) ≤ (size : Int) := Int.natCast_nonneg _
    omega
  have hne : ¬ size = 10 := by omega
  unfold enqueue is_full
  simp only [hne, decide_False, Bool.false_eq_true, if_false, e1, Int.toNat_ofNat]
  split <;> rfl

theorem take_set_succ (l : List OamObject) (o : OamObject) (m : Nat) (h : m < l.length) :
    (l.set m o).take (m + 1) = l.take m ++ [o] := by
  induction l generalizing m with
  | nil => simp at h
  | cons c l ih =>
    cases m with
    | zero => simp
    | succ m =>
      simp only [List.set_cons_succ, List.take_succ_cons, List.cons_append]
      rw [ih m (by simpa using h)]

theorem filter_range_succ (p : Nat → Bool) (i : Nat) :
    (List.range (i + 1)).filter p = (List.range i).filter p ++ (if p i then [i] else []) := by
  rw [List.range_succ, List.filter_append]
  cases h : p i <;> simp [h]

theorem take_filter_range_initial (p : Nat → Bool) (i n : Nat)
    (h : 10 ≤ ((List.range i).filter p).length) :
    ((List.range (i + n)).filter p).take 10 = ((List.range i).filter p).take 10 := by
  rw [List.range_add, List.filter_append, List.take_append_of_le_length h]

/-- The loop of `oam_scan` from entry `i` on, for a test `p` of the entries:
it returns with the first at most 10 entries passing `p` in the slots
`0 .. size - 1`, in OAM order, and changes nothing but the queue. -/
theorem oam_scan_loop_spec (env : PpuEnv X) (stacked : Bool) (mem0 : EmuMemory (MmuDev X))
    (p : Nat → Bool)
    (hp : ∀ (s : PpuSys X) (i : Nat), s.cpu.mem = mem0 → i < 40 →
      oam_scan_entry env s (OAM_START + 4 * i) stacked =
        if p i then { s with oam_fifo := enqueue s.oam_fifo (oam_entry env mem0 i) } else s) :
    ∀ (n i fuel : Nat) (s : PpuSys X), i + n = 40 → n < fuel → s.cpu.mem = mem0 →
      s.oam_fifo.capacity = 10 → s.oam_fifo.items.length = 10 →
      s.oam_fifo.size = (((List.range i).filter p).take 10).length →
      s.oam_fifo.rear = (s.oam_fifo.size : Int) - 1 →
      (0 < s.oam_fifo.size → s.oam_fifo.front = 0) →
      (s.oam_fifo.size = 0 → s.oam_fifo.front = -1) →
      s.oam_fifo.items.take s.oam_fifo.size =
        (((List.range i).filter p).take 10).map (oam_entry env mem0) →
      ∃ q : Queue OamObject,
        oam_scan_loop env fuel s (OAM_START + 4 * i) stacked = some { s with oam_fifo := q } ∧
        q.capacity = 10 ∧ q.items.length = 10 ∧
        q.size = (((List.range 40).filter p).take 10).length ∧
        (0 < q.size → q.front = 0) ∧
        q.items.take q.size = (((List.range 40).filter p).take 10).map (oam_entry env mem0) := by
  intro n
  induction n with
  | zero =>
    intro i fuel s hi hf hmem hcap hlen hsize hrear hfront hfront0 hitems
    have hi40 : i = 40 := by omega
    subst hi40
    obtain ⟨f, rfl⟩ : ∃ f, fuel = f + 1 := ⟨fuel - 1, by omega⟩
    rw [oam_scan_loop]
    rw [if_neg (by simp only [OAM_START, OAM_END]; omega)]
    exact ⟨s.oam_fifo, rfl, hcap, hlen, hsize, hfront, by rw [hitems]⟩
  | succ n ih =>
    intro i fuel s hi hf hmem hcap hlen hsize hrear hfront hfront0 hitems
    obtain ⟨f, rfl⟩ : ∃ f, fuel = f + 1 := ⟨fuel - 1, by omega⟩
    have hi40 : i < 40 := by omega
    rw [oam_scan_loop]
    by_cases hfull : s.oam_fifo.size < 10
    · rw [if_pos ⟨by simp only [OAM_START, OAM_END]; omega, hfull⟩]
      have hadr : (OAM_START + 4 * i + OAM_ENTRY_SIZE) % 65536 = OAM_START + 4 * (i + 1) := by
        simp only [OAM_START, OAM_ENTRY_SIZE]
        omega
      rw [hadr, hp s i hmem hi40]
      -- fewer than 10 entries passed so far, so none was cut off
      have hF : ((List.range i).filter p).length < 10 := by
        rw [hsize, List.length_take] at hfull
        omega
      have hacc : ((List.range i).filter p).take 10 = (List.range i).filter p :=
        List.take_of_length_le (by omega)
      rw [hacc] at hsize hitems
      cases hpi : p i
      · -- the entry is not on the line
        simp only [Bool.false_eq_true, if_false]
        have hnext : (List.range (i + 1)).filter p = (List.range i).filter p := by
          rw [filter_range_succ, hpi]
          simp
        have hacc2 : ((List.range (i + 1)).filter p).take 10 = (List.range i).filter p := by
          rw [hnext]
          exact List.take_of_length_le (by omega)
        exact ih (i + 1) f s (by omega) (by omega) hmem hcap hlen (by rw [hacc2]; exact hsize)
          hrear hfront hfront0 (by rw [hacc2]; exact hitems)
      · -- the entry is queued in slot `size`
        simp only [if_true]
        have henq := enqueue_scan s.oam_fifo (oam_entry env mem0 i) s.oam_fifo.size hfull hcap
          rfl hrear
        have hnext : (List.range (i + 1)).filter p = (List.range i).filter p ++ [i] := by
          rw [filter_range_succ, hpi]
          simp
        have hacc2 : ((List.range (i + 1)).filter p).take 10 =
            (List.range i).filter p ++ [i] := by
          rw [hnext]
          exact List.take_of_length_le (by rw [List.length_append]; simp; omega)
        obtain ⟨q, r1, r2⟩ := ih (i + 1) f
          { s with oam_fifo := enqueue s.oam_fifo (oam_entry env mem0 i) } (by omega) (by omega)
          hmem (by rw [henq]) (by rw [henq]; simp only [List.length_set]; exact hlen)
          (by rw [henq, hacc2, List.length_append, ← hsize]; rfl)
          (by rw [henq]; simp)
          (by
            intro _
            rw [henq]
            simp only
            by_cases h0 : s.oam_fifo.size = 0
            · rw [hfront0 h0]; rfl
            · rw [hfront (by omega)]; rfl)
          (by rw [henq]; intro h; simp at h)
          (by
            rw [henq, hacc2]
            simp only
            rw [take_set_succ _ _ _ (by omega), hitems, List.map_append]
            rfl)
        exact ⟨q, r1, r2⟩
    · -- ten objects are queued
      rw [if_neg (by intro h; exact hfull h.2)]
      have h10 : 10 ≤ ((List.range i).filter p).length := by
        rw [hsize, List.length_take] at hfull
        omega
      have hpre := take_filter_range_initial p i (n + 1) h10
      rw [hi] at hpre
      exact ⟨s.oam_fifo, rfl, hcap, hlen, by rw [hpre]; exact hsize, hfront,
        by rw [hpre]; exact hitems⟩

/-- The round of the loop of `oam_scan` at entry `i`, on a line `LY < 240`. -/
theorem oam_scan_entry_eq (env : PpuEnv X) (stacked : Bool) (s : PpuSys X) (i : Nat)
    (hi : i < 40) (hly : ppu_reg s env.io.LY < 240) :
    oam_scan_entry env s (OAM_START + 4 * i) stacked =
      if decide ((oam_entry env s.cpu.mem i).y ≤ ppu_reg s env.io.LY + 16 ∧
          ppu_reg s env.io.LY + 16 < (oam_entry env s.cpu.mem i).y + (if stacked then 16 else 8))
      then { s with oam_fifo := enqueue s.oam_fifo (oam_entry env s.cpu.mem i) } else s := by
  have e1 : (OAM_START + 4 * i + 1) % 65536 = OAM_START + 4 * i + 1 := by
    simp only [OAM_START]; omega
  have e2 : (OAM_START + 4 * i + 2) % 65536 = OAM_START + 4 * i + 2 := by
    simp only [OAM_START]; omega
  have e3 : (OAM_START + 4 * i + 3) % 65536 = OAM_START + 4 * i + 3 := by
    simp only [OAM_START]; omega
  have e4 : (ppu_reg s env.io.LY + 16) % 256 = ppu_reg s env.io.LY + 16 := by omega
  have ey : (oam_entry env s.cpu.mem i).y = read_memory env.bus s.cpu.mem (OAM_START + 4 * i) :=
    rfl
  unfold oam_scan_entry
  simp only [e1, e2, e3, e4, ey]
  have hc : (decide (ppu_reg s env.io.LY + 16 ≥ read_memory env.bus s.cpu.mem (OAM_START + 4 * i)) &&
      decide (ppu_reg s env.io.LY + 16 - read_memory env.bus s.cpu.mem (OAM_START + 4 * i) <
        if stacked = true then 16 else 8)) =
      decide (read_memory env.bus s.cpu.mem (OAM_START + 4 * i) ≤ ppu_reg s env.io.LY + 16 ∧
        ppu_reg s env.io.LY + 16 < read_memory env.bus s.cpu.mem (OAM_START + 4 * i) +
          (if stacked = true then 16 else 8)) := by
    generalize read_memory env.bus s.cpu.mem (OAM_START + 4 * i) = y
    generalize ppu_reg s env.io.LY = l
    cases stacked <;> simp only [Bool.false_eq_true, if_false, if_true] <;>
      by_cases h1 : y ≤ l + 16 <;> by_cases h2 : l + 16 < y + 16 <;>
      by_cases h3 : l + 16 < y + 8 <;> simp [h1, h2, h3] <;> omega
  rw [hc]
  rfl

/-- On a queue of 10 slots (`init_pipeline`) and a line `LY < 144`,
`oam_scan` returns (with fuel 128) and changes nothing but the queue; the
queue then holds, in its slots `0 .. size - 1`, a rearrangement of the objects
of the first at most 10 of the 40 OAM entries (in address order) whose Y byte
satisfies `Y ≤ LY + 16 < Y + height`, with height 16 when LCDC bit 2 is set and
8 otherwise; at most 10 objects are queued and each of them satisfies the
condition. The entry bytes are the bytes the bus returns for
`0xFE00 + 4 * i .. 0xFE00 + 4 * i + 3`. -/
theorem oam_scan_spec (env : PpuEnv X) (fuel : Nat) (s : PpuSys X) (hfuel : 128 ≤ fuel)
    (hcap : s.oam_fifo.capacity = 10) (hlen : s.oam_fifo.items.length = 10)
    (hly : ppu_reg s env.io.LY < 144) :
    ∃ q : Queue OamObject,
      oam_scan env fuel s = some { s with oam_fifo := q } ∧
      q.capacity = 10 ∧ q.items.length = 10 ∧
      q.size ≤ 10 ∧
      q.size = (((List.range 40).filter (fun i =>
        decide ((oam_entry env s.cpu.mem i).y ≤ ppu_reg s env.io.LY + 16 ∧
          ppu_reg s env.io.LY + 16 < (oam_entry env s.cpu.mem i).y +
            (if ppu_reg s env.io.LCDC &&& BIT_2_MASK ≠ 0 then 16 else 8)))).take 10).length ∧
      (q.items.take q.size).Perm ((((List.range 40).filter (fun i =>
        decide ((oam_entry env s.cpu.mem i).y ≤ ppu_reg s env.io.LY + 16 ∧
          ppu_reg s env.io.LY + 16 < (oam_entry env s.cpu.mem i).y +
            (if ppu_reg s env.io.LCDC &&& BIT_2_MASK ≠ 0 then 16 else 8)))).take 10).map
        (oam_entry env s.cpu.mem)) ∧
      (∀ o ∈ q.items.take q.size, o.y ≤ ppu_reg s env.io.LY + 16 ∧
        ppu_reg s env.io.LY + 16 < o.y +
          (if ppu_reg s env.io.LCDC &&& BIT_2_MASK ≠ 0 then 16 else 8)) := by
  generalize hp : (fun i =>
    decide ((oam_entry env s.cpu.mem i).y ≤ ppu_reg s env.io.LY + 16 ∧
      ppu_reg s env.io.LY + 16 < (oam_entry env s.cpu.mem i).y +
        (if ppu_reg s env.io.LCDC &&& BIT_2_MASK ≠ 0 then 16 else 8))) = p
  have hpi : ∀ i, p i = decide ((oam_entry env s.cpu.mem i).y ≤ ppu_reg s env.io.LY + 16 ∧
      ppu_reg s env.io.LY + 16 < (oam_entry env s.cpu.mem i).y +
        (if ppu_reg s env.io.LCDC &&& BIT_2_MASK ≠ 0 then 16 else 8)) := by
    intro i; rw [← hp]
  have hentry : ∀ (s2 : PpuSys X) (i : Nat), s2.cpu.mem = s.cpu.mem → i < 40 →
      oam_scan_entry env s2 (OAM_START + 4 * i)
        (decide (ppu_reg s env.io.LCDC &&& BIT_2_MASK ≠ 0)) =
        if p i then { s2 with oam_fifo := enqueue s2.oam_fifo (oam_entry env s.cpu.mem i) }
        else s2 := by
    intro s2 i hm hi
    have hly2 : ppu_reg s2 env.io.LY = ppu_reg s env.io.LY := by
      unfold ppu_reg; rw [hm]
    rw [oam_scan_entry_eq env _ s2 i hi (by rw [hly2]; omega), hm, hly2, hpi]
    simp only [decide_eq_true_eq]
  obtain ⟨q, r1, r2, r3, r4, r5, r6⟩ := oam_scan_loop_spec env
    (decide (ppu_reg s env.io.LCDC &&& BIT_2_MASK ≠ 0)) s.cpu.mem p hentry 40 0 fuel
    { s with oam_fifo := reset_queue s.oam_fifo } rfl (by omega) rfl hcap hlen rfl rfl
    (by intro h; exact absurd h (Nat.lt_irrefl 0)) (by intro _; rfl) rfl
  have hq10 : q.size ≤ 10 := by
    rw [r4, List.length_take]
    omega
  obtain ⟨items', t1, t2, t3⟩ := sort_oam_by_xpos_total fuel hfuel q r3 hq10
  refine ⟨{ q with items := items' }, ?_, r2, t3, hq10, r4, ?_, ?_⟩
  · unfold oam_scan
    simp only
    have r1b : oam_scan_loop env fuel { s with oam_fifo := reset_queue s.oam_fifo } OAM_START
        (decide (ppu_reg s env.io.LCDC &&& BIT_2_MASK ≠ 0)) =
        some { s with oam_fifo := q } := r1
    have hl : ppu_reg { s with oam_fifo := reset_queue s.oam_fifo } env.io.LCDC =
        ppu_reg s env.io.LCDC := rfl
    rw [hl, r1b]
    simp only [t1]
  · exact t2.trans (by rw [r6])
  · intro o ho
    have ho2 : o ∈ (((List.range 40).filter p).take 10).map (oam_entry env s.cpu.mem) := by
      rw [← r6]
      exact t2.subset ho
    obtain ⟨i, hi1, hi2⟩ := List.mem_map.mp ho2
    have hi3 : p i = true := (List.mem_filter.mp (List.mem_of_mem_take hi1)).2
    rw [hpi] at hi3
    rw [← hi2]
    exact of_decide_eq_true hi3

/-- C25: on a queue of 10 slots (`init_pipeline`) and a line `LY < 144`,
`oam_scan` returns (with fuel 128) and changes nothing but the queue; the
queue then holds, in its slots `0 .. size - 1`, a rearrangement of the objects
of the first at most 10 of the 40 OAM entries (in address order) whose Y byte
satisfies `Y ≤ LY + 16 < Y + height`, with height 16 when LCDC bit 2 is set and
8 otherwise; at most 10 objects are queued and each of them satisfies the
condition. The entry bytes are the bytes the bus returns for
`0xFE00 + 4 * i .. 0xFE00 + 4 * i + 3`. -/
theorem C25_oam_scan (env : PpuEnv X) (fuel : Nat) (s : PpuSys X) (hfuel : 128 ≤ fuel)
    (hcap : s.oam_fifo.capacity = 10) (hlen : s.oam_fifo.items.length = 10)
    (hly : ppu_reg s env.io.LY < 144) :
    ∃ q : Queue OamObject,
      oam_scan env fuel s = some { s with oam_fifo := q } ∧
      q.size ≤ 10 ∧
      q.size = (((List.range 40).filter (fun i =>
        decide ((oam_entry env s.cpu.mem i).y ≤ ppu_reg s env.io.LY + 16 ∧
          ppu_reg s env.io.LY + 16 < (oam_entry env s.cpu.mem i).y +
            (if ppu_reg s env.io.LCDC &&& BIT_2_MASK ≠ 0 then 16 else 8)))).take 10).length ∧
      (q.items.take q.size).Perm ((((List.range 40).filter (fun i =>
        decide ((oam_entry env s.cpu.mem i).y ≤ ppu_reg s env.io.LY + 16 ∧
          ppu_reg s env.io.LY + 16 < (oam_entry env s.cpu.mem i).y +
            (if ppu_reg s env.io.LCDC &&& BIT_2_MASK ≠ 0 then 16 else 8)))).take 10).map
        (oam_entry env s.cpu.mem)) ∧
      (∀ o ∈ q.items.take q.size, o.y ≤ ppu_reg s env.io.LY + 16 ∧
        ppu_reg s env.io.LY + 16 < o.y +
          (if ppu_reg s env.io.LCDC &&& BIT_2_MASK ≠ 0 then 16 else 8)) := by
  obtain ⟨q, h1, _, _, h2, h3, h4, h5⟩ := oam_scan_spec env fuel s hfuel hcap hlen hly
  exact ⟨q, h1, h2, h3, h4, h5⟩

/-- Witness for C25: line 0 on the bus of `mmuTables`, 8-pixel objects, twelve
OAM entries (0 .. 11) with Y = 16 and the others with Y = 0: the scan returns
with 10 objects queued. -/
theorem C25_oam_scan_witness :
    ∃ q : Queue OamObject,
      oam_scan hwEnv 128
        (lcdSys (mmuMem (fun _ => 0) (fun a => if a < 48 ∧ a % 4 = 0 then 16 else 0) false)
          .HBLANK 0) =
        some { lcdSys (mmuMem (fun _ => 0) (fun a => if a < 48 ∧ a % 4 = 0 then 16 else 0)
          false) .HBLANK 0 with oam_fifo := q } ∧
      q.size = 10 := by
  obtain ⟨q, h1, h2, h3, h4⟩ := C25_oam_scan hwEnv 128
    (lcdSys (mmuMem (fun _ => 0) (fun a => if a < 48 ∧ a % 4 = 0 then 16 else 0) false)
      .HBLANK 0) (by decide) rfl rfl (by decide)
  refine ⟨q, h1, ?_⟩
  rw [h3]
  decide

/-! ## C28: LYC coincidence -/


/-! ### What the mode changes leave alone -/

theorem ppu_reg_check_stat_irq (env : PpuEnv X) (hw : ppu_wired env) (s : PpuSys X)
    (mode : PpuMode) (a : Nat) (h1 : a ≠ env.io.STAT) (h2 : a ≠ env.bus.IFR) :
    ppu_reg (check_stat_irq env s mode) a = ppu_reg s a := by
  cases mode
  · rw [check_stat_irq_source env s .HBLANK BIT_3_MASK (Or.inl ⟨rfl, rfl⟩)]
    split <;> simp [ppu_reg, set_ppu_reg, request_interrupt_wired env hw, write_interrupt_flag,
      h1, h2]
  · rw [check_stat_irq_source env s .VBLANK BIT_4_MASK (Or.inr (Or.inl ⟨rfl, rfl⟩))]
    split <;> simp [ppu_reg, set_ppu_reg, request_interrupt_wired env hw, write_interrupt_flag,
      h1, h2]
  · rw [check_stat_irq_source env s .OAM_SCAN BIT_5_MASK (Or.inr (Or.inr ⟨rfl, rfl⟩))]
    split <;> simp [ppu_reg, set_ppu_reg, request_interrupt_wired env hw, write_interrupt_flag,
      h1, h2]
  · rw [check_stat_irq_drawing]
    simp [ppu_reg, set_ppu_reg, h1]
  · rw [check_stat_irq_coincidence]
    split <;> simp [ppu_reg, set_ppu_reg, request_interrupt_wired env hw, write_interrupt_flag,
      h1, h2]

/-- The STAT byte after the coincidence check. -/
theorem stat_check_coincidence (env : PpuEnv X) (hw : ppu_wired env) (s : PpuSys X) :
    ppu_reg (check_stat_irq env s .COINCIDENCE) env.io.STAT =
      (ppu_reg s env.io.STAT &&& 0xFB) |||
        ((decide (ppu_reg s env.io.LY = ppu_reg s env.io.LYC)).toNat <<< 2) := by
  have hne : env.io.STAT ≠ env.bus.IFR := fun h => hw.2.1 h.symm
  rw [check_stat_irq_coincidence]
  split
  · rename_i h
    have hm : decide (ppu_reg s env.io.LY = ppu_reg s env.io.LYC) = true := by
      simp only [h.1.2.1, decide_True]
    rw [hm]
    simp [ppu_reg, set_ppu_reg, request_interrupt_wired env hw, write_interrupt_flag, hne,
      Bool.toNat]
  · simp [ppu_reg, set_ppu_reg]

theorem coincidence_bit (x : Nat) (b : Bool) :
    ((x &&& 0xFB) ||| (b.toNat <<< 2)) &&& BIT_2_MASK = if b then 4 else 0 := by
  apply Nat.eq_of_testBit_eq
  intro i
  have h4 : Nat.testBit 4 i = decide (2 = i) := by
    rw [show (4 : Nat) = 2 ^ 2 by norm_num, Nat.testBit_two_pow]
  have hFB : i = 2 → Nat.testBit 0xFB i = false := by
    intro h; subst h; rfl
  cases b
  · simp only [Bool.toNat, cond_false, Nat.zero_shiftLeft, Nat.or_zero, Bool.false_eq_true,
      if_false, Nat.testBit_and, Nat.zero_testBit, h4]
    by_cases hi : i = 2
    · subst hi; simp [hFB]
    · have : ¬ 2 = i := fun h => hi h.symm
      simp [this]
  · simp only [Bool.toNat, cond_true, if_true, Nat.testBit_and, Nat.testBit_or, h4]
    by_cases hi : i = 2
    · subst hi
      have e1 : Nat.testBit (1 <<< 2) 2 = true := rfl
      rw [e1]
      simp
    · have : ¬ 2 = i := fun h => hi h.symm
      simp [this]

/-- The interrupt request of the coincidence check. -/
theorem coincidence_request (env : PpuEnv X) (hw : ppu_wired env) (s : PpuSys X)
    (h6 : ppu_reg s env.io.STAT &&& BIT_6_MASK ≠ 0)
    (hm : ppu_reg s env.io.LY = ppu_reg s env.io.LYC) (hl : s.ppu.lyc_irq = false)
    (hline : s.ppu.stat_irq_line = false) :
    (check_stat_irq env s .COINCIDENCE).ppu.stat_irq_line = true ∧
    ppu_reg (check_stat_irq env s .COINCIDENCE) env.bus.IFR =
      0xE0 ||| (((ppu_reg s env.bus.IFR ||| LCD_STAT_INTERRUPT_CODE) % 256) &&& LOWER_5_MASK) := by
  rw [check_stat_irq_coincidence, if_pos ⟨⟨h6, hm, hl⟩, hline⟩]
  refine ⟨rfl, ?_⟩
  simp [ppu_reg, set_ppu_reg, request_interrupt_wired env hw, write_interrupt_flag, hw.2.1]

theorem lcd_core_check_stat_irq (env : PpuEnv X) (hw : ppu_wired env) (s : PpuSys X)
    (mode : PpuMode) : lcd_core env (check_stat_irq env s mode) = lcd_core env s := by
  have hly := ppu_reg_check_stat_irq env hw s mode env.io.LY (fun h => hw.2.2.2.2.1 h.symm)
    (fun h => hw.2.2.1 h.symm)
  unfold lcd_core
  rw [hly]
  cases mode
  · rw [check_stat_irq_source env s .HBLANK BIT_3_MASK (Or.inl ⟨rfl, rfl⟩)]
    split <;> rfl
  · rw [check_stat_irq_source env s .VBLANK BIT_4_MASK (Or.inr (Or.inl ⟨rfl, rfl⟩))]
    split <;> rfl
  · rw [check_stat_irq_source env s .OAM_SCAN BIT_5_MASK (Or.inr (Or.inr ⟨rfl, rfl⟩))]
    split <;> rfl
  · rw [check_stat_irq_drawing]
    rfl
  · rw [check_stat_irq_coincidence]
    split <;> rfl

theorem ppu_reg_set_ppu_mode (env : PpuEnv X) (s : PpuSys X) (mode : PpuMode) (a : Nat)
    (h1 : a ≠ env.io.STAT) : ppu_reg (set_ppu_mode env s mode) a = ppu_reg s a := by
  simp [set_ppu_mode, ppu_reg, set_ppu_reg, h1]

theorem lcd_core_set_ppu_mode (env : PpuEnv X) (hw : ppu_wired env) (s : PpuSys X)
    (mode : PpuMode) :
    lcd_core env (set_ppu_mode env s mode) = { lcd_core env s with mode := mode } := by
  have hly := ppu_reg_set_ppu_mode env s mode env.io.LY (fun h => hw.2.2.2.2.1 h.symm)
  unfold lcd_core
  rw [hly]
  rfl

theorem lcd_core_with_mem (env : PpuEnv X) (s : PpuSys X)
    (f : EmuMemory (MmuDev X) → EmuMemory (MmuDev X))
    (hf : (f s.cpu.mem).memory = s.cpu.mem.memory) :
    lcd_core env (with_mem s f) = lcd_core env s ∧
    ∀ a, ppu_reg (with_mem s f) a = ppu_reg s a := by
  have h : ∀ a, ppu_reg (with_mem s f) a = ppu_reg s a := by
    intro a
    unfold ppu_reg with_mem
    simp only [hf]
  refine ⟨?_, h⟩
  unfold lcd_core
  rw [h]
  rfl

theorem lcd_core_request_interrupt (env : PpuEnv X) (hw : ppu_wired env) (s : PpuSys X)
    (i : Nat) :
    lcd_core env { s with cpu := request_interrupt env.bus s.cpu i } = lcd_core env s ∧
    ∀ a, a ≠ env.bus.IFR →
      ppu_reg { s with cpu := request_interrupt env.bus s.cpu i } a = ppu_reg s a := by
  have h : ∀ a, a ≠ env.bus.IFR →
      ppu_reg { s with cpu := request_interrupt env.bus s.cpu i } a = ppu_reg s a := by
    intro a ha
    simp [ppu_reg, request_interrupt_wired env hw, write_interrupt_flag, ha]
  refine ⟨?_, h⟩
  unfold lcd_core
  rw [h _ (fun e => hw.2.2.1 e.symm)]

theorem penalty_check_stat_irq (env : PpuEnv X) (s : PpuSys X) (mode : PpuMode) :
    (check_stat_irq env s mode).ppu.penalty = s.ppu.penalty := by
  cases mode
  · rw [check_stat_irq_source env s .HBLANK BIT_3_MASK (Or.inl ⟨rfl, rfl⟩)]
    split <;> rfl
  · rw [check_stat_irq_source env s .VBLANK BIT_4_MASK (Or.inr (Or.inl ⟨rfl, rfl⟩))]
    split <;> rfl
  · rw [check_stat_irq_source env s .OAM_SCAN BIT_5_MASK (Or.inr (Or.inr ⟨rfl, rfl⟩))]
    split <;> rfl
  · rw [check_stat_irq_drawing]
    rfl
  · rw [check_stat_irq_coincidence]
    split <;> rfl

/-- `enter_oam_mode` on a visible line returns; it replaces the OAM queue by the
scanned one, sets the mode and leaves the registers other than STAT and IF
alone. -/
theorem enter_oam_mode_spec (env : PpuEnv X) (hw : ppu_wired env) (fuel : Nat)
    (hfuel : 128 ≤ fuel) (s : PpuSys X) (hcap : s.oam_fifo.capacity = 10)
    (hlen : s.oam_fifo.items.length = 10) (hly : ppu_reg s env.io.LY < 144) :
    ∃ (s1 : PpuSys X) (q : Queue OamObject),
      enter_oam_mode env fuel s = some s1 ∧
      lcd_core env s1 = { lcd_core env s with oam_fifo := q, mode := .OAM_SCAN } ∧
      q.capacity = 10 ∧ q.items.length = 10 ∧ q.size ≤ 10 ∧
      (∀ a, a ≠ env.io.STAT → a ≠ env.bus.IFR → ppu_reg s1 a = ppu_reg s a) ∧
      s1.ppu.penalty = s.ppu.penalty := by
  obtain ⟨q, h1, h2, h3, h4, -⟩ := oam_scan_spec env fuel (with_mem s unlock_oam) hfuel hcap hlen
    hly
  unfold enter_oam_mode
  simp only [h1]
  refine ⟨_, q, rfl, ?_, h2, h3, h4, ?_, ?_⟩
  · rw [lcd_core_set_ppu_mode env hw, lcd_core_check_stat_irq env hw,
      (lcd_core_with_mem env _ lock_oam rfl).1]
    rfl
  · intro a ha1 ha2
    rw [ppu_reg_set_ppu_mode env _ _ a ha1, ppu_reg_check_stat_irq env hw _ _ a ha1 ha2]
    rfl
  · show (check_stat_irq env _ .OAM_SCAN).ppu.penalty = _
    rw [penalty_check_stat_irq]
    rfl

/-- `check_mode` at dot 0 of a visible line: the OAM scan mode is entered and
the coincidence is checked. -/
theorem check_mode_dot0 (env : PpuEnv X) (hw : ppu_wired env) (fuel : Nat)
    (hfuel : 128 ≤ fuel) (s : PpuSys X) (hdot : s.ppu.sc_dot = 0)
    (hly : ppu_reg s env.io.LY < 144) (hcap : s.oam_fifo.capacity = 10)
    (hlen : s.oam_fifo.items.length = 10) :
    ∃ (s1 : PpuSys X) (q : Queue OamObject),
      enter_oam_mode env fuel s = some s1 ∧
      check_mode env fuel s = some (check_stat_irq env s1 .COINCIDENCE) ∧
      lcd_core env s1 = { lcd_core env s with oam_fifo := q, mode := .OAM_SCAN } ∧
      q.capacity = 10 ∧ q.items.length = 10 ∧ q.size ≤ 10 ∧
      (∀ a, a ≠ env.io.STAT → a ≠ env.bus.IFR → ppu_reg s1 a = ppu_reg s a) := by
  obtain ⟨s1, q, h1, h2, h3, h4, h5, h6, h7⟩ := enter_oam_mode_spec env hw fuel hfuel s hcap hlen
    hly
  refine ⟨s1, q, h1, ?_, h2, h3, h4, h5, h6⟩
  unfold check_mode
  simp only [hdot, hly, if_true, h1]
  rw [if_neg (by omega)]

/-- C28 (when the LY = LYC match is recomputed): with the bus wired as
`init_tables` does, (a) a write to LYC while the LCD runs stores the value and
leaves STAT bit 2 equal to (LY == LYC), and with STAT bit 6 set, a match, the
match latch `lyc_irq` false and the STAT line low it raises the line and
requests LCD_STAT; (b) at a scanline boundary `next_scanline` sets LY to
(LY + 1) mod 154 and recomputes the match only if STAT bit 2 is set: then bit 2
becomes (LY == LYC) for the new LY, otherwise STAT is left as it is; (c) at dot
0 of a visible line (LY < 144) `check_mode` returns and leaves STAT bit 2 equal
to (LY == LYC), LY and LYC unchanged. -/
theorem C28_lyc_coincidence (env : PpuEnv X) (hw : ppu_wired env) (fuel : Nat)
    (hfuel : 128 ≤ fuel) (s : PpuSys X) (value : Nat) :
    (s.ppu.running = true →
      ppu_reg (write_lyc env s value) env.io.LYC = value ∧
      ppu_reg (write_lyc env s value) env.io.LY = ppu_reg s env.io.LY ∧
      ppu_reg (write_lyc env s value) env.io.STAT &&& BIT_2_MASK =
        (if ppu_reg s env.io.LY = value then 4 else 0) ∧
      (ppu_reg s env.io.STAT &&& BIT_6_MASK ≠ 0 → ppu_reg s env.io.LY = value →
        s.ppu.lyc_irq = false → s.ppu.stat_irq_line = false →
        (write_lyc env s value).ppu.stat_irq_line = true ∧
        ppu_reg (write_lyc env s value) env.bus.IFR =
          0xE0 ||| (((ppu_reg s env.bus.IFR ||| LCD_STAT_INTERRUPT_CODE) % 256) &&&
            LOWER_5_MASK))) ∧
    (ppu_reg (next_scanline env s).2 env.io.LY =
        (ppu_reg s env.io.LY + 1) % SCAN_LINE_QUANTITY % 256 ∧
      (ppu_reg s env.io.STAT &&& BIT_2_MASK ≠ 0 →
        ppu_reg (next_scanline env s).2 env.io.STAT &&& BIT_2_MASK =
          (if (ppu_reg s env.io.LY + 1) % SCAN_LINE_QUANTITY % 256 = ppu_reg s env.io.LYC then 4
           else 0)) ∧
      (ppu_reg s env.io.STAT &&& BIT_2_MASK = 0 →
        ppu_reg (next_scanline env s).2 env.io.STAT = ppu_reg s env.io.STAT)) ∧
    (s.ppu.sc_dot = 0 → ppu_reg s env.io.LY < 144 → s.oam_fifo.capacity = 10 →
      s.oam_fifo.items.length = 10 →
      ∃ s1 : PpuSys X, check_mode env fuel s = some s1 ∧
        ppu_reg s1 env.io.LY = ppu_reg s env.io.LY ∧
        ppu_reg s1 env.io.LYC = ppu_reg s env.io.LYC ∧
        ppu_reg s1 env.io.STAT &&& BIT_2_MASK =
          (if ppu_reg s env.io.LY = ppu_reg s env.io.LYC then 4 else 0)) := by
  obtain ⟨w1, w2, w3, w4, w5, w6, w7⟩ := hw
  have hw : ppu_wired env := ⟨w1, w2, w3, w4, w5, w6, w7⟩
  have hbit : ∀ (x : Nat) (P : Prop) [Decidable P],
      ((x &&& 0xFB) ||| ((decide P).toNat <<< 2)) &&& BIT_2_MASK = if P then 4 else 0 := by
    intro x P _
    rw [coincidence_bit]
    by_cases hP : P <;> simp [hP]
  refine ⟨?_, ?_, ?_⟩
  · intro hrun
    have hwl : write_lyc env s value =
        check_stat_irq env (set_ppu_reg s env.io.LYC value) .COINCIDENCE := by
      unfold write_lyc
      simp only
      rw [if_pos (by exact hrun)]
    have hly : ppu_reg (set_ppu_reg s env.io.LYC value) env.io.LY = ppu_reg s env.io.LY := by
      rw [ppu_reg_set, if_neg w7]
    have hlyc : ppu_reg (set_ppu_reg s env.io.LYC value) env.io.LYC = value := by
      rw [ppu_reg_set, if_pos rfl]
    have hstat : ppu_reg (set_ppu_reg s env.io.LYC value) env.io.STAT =
        ppu_reg s env.io.STAT := by
      rw [ppu_reg_set, if_neg w6]
    have hifr : ppu_reg (set_ppu_reg s env.io.LYC value) env.bus.IFR = ppu_reg s env.bus.IFR := by
      rw [ppu_reg_set, if_neg w4]
    rw [hwl]
    refine ⟨?_, ?_, ?_, ?_⟩
    · rw [ppu_reg_check_stat_irq env hw _ _ _ (fun h => w6 h.symm) (fun h => w4 h.symm), hlyc]
    · rw [ppu_reg_check_stat_irq env hw _ _ _ (fun h => w5 h.symm) (fun h => w3 h.symm), hly]
    · rw [stat_check_coincidence env hw, hly, hlyc, hbit]
    · intro h6 hm hl hline
      have := coincidence_request env hw (set_ppu_reg s env.io.LYC value) (by rw [hstat]; exact h6)
        (by rw [hly, hlyc]; exact hm) hl hline
      rw [hifr] at this
      exact this
  · have hN : (next_scanline env s).2 =
        if ppu_reg s env.io.STAT &&& BIT_2_MASK ≠ 0 then
          check_stat_irq env
            (set_ppu_reg { s with ppu := { s.ppu with sc_dot := 0 } } env.io.LY
              ((ppu_reg s env.io.LY + 1) % SCAN_LINE_QUANTITY % 256)) .COINCIDENCE
        else
          set_ppu_reg { s with ppu := { s.ppu with sc_dot := 0 } } env.io.LY
            ((ppu_reg s env.io.LY + 1) % SCAN_LINE_QUANTITY % 256) := by
      unfold next_scanline
      simp only
      have e : ppu_reg (set_ppu_reg { s with ppu := { s.ppu with sc_dot := 0 } } env.io.LY
          ((ppu_reg { s with ppu := { s.ppu with sc_dot := 0 } } env.io.LY + 1) %
            SCAN_LINE_QUANTITY % 256)) env.io.STAT = ppu_reg s env.io.STAT := by
        rw [ppu_reg_set, if_neg w5]
        rfl
      rw [e]
      split <;> split <;> rfl
    have hly : ppu_reg (set_ppu_reg { s with ppu := { s.ppu with sc_dot := 0 } } env.io.LY
        ((ppu_reg s env.io.LY + 1) % SCAN_LINE_QUANTITY % 256)) env.io.LY =
        (ppu_reg s env.io.LY + 1) % SCAN_LINE_QUANTITY % 256 := by
      rw [ppu_reg_set, if_pos rfl]
    have hlyc : ppu_reg (set_ppu_reg { s with ppu := { s.ppu with sc_dot := 0 } } env.io.LY
        ((ppu_reg s env.io.LY + 1) % SCAN_LINE_QUANTITY % 256)) env.io.LYC =
        ppu_reg s env.io.LYC := by
      rw [ppu_reg_set, if_neg (fun h => w7 h.symm)]
      rfl
    have hstat : ppu_reg (set_ppu_reg { s with ppu := { s.ppu with sc_dot := 0 } } env.io.LY
        ((ppu_reg s env.io.LY + 1) % SCAN_LINE_QUANTITY % 256)) env.io.STAT =
        ppu_reg s env.io.STAT := by
      rw [ppu_reg_set, if_neg w5]
      rfl
    rw [hN]
    refine ⟨?_, ?_, ?_⟩
    · split
      · rw [ppu_reg_check_stat_irq env hw _ _ _ (fun h => w5 h.symm) (fun h => w3 h.symm), hly]
      · exact hly
    · intro h2
      rw [if_pos h2, stat_check_coincidence env hw, hly, hlyc, hbit]
    · intro h2
      rw [if_neg (by intro h; exact h h2), hstat]
  · intro hdot hly hcap hlen
    obtain ⟨s1, q, h1, h2, h3, h4, h5, h6, h7⟩ := check_mode_dot0 env hw fuel hfuel s hdot hly hcap
      hlen
    have e1 : ppu_reg s1 env.io.LY = ppu_reg s env.io.LY :=
      h7 _ (fun h => w5 h.symm) (fun h => w3 h.symm)
    have e2 : ppu_reg s1 env.io.LYC = ppu_reg s env.io.LYC :=
      h7 _ (fun h => w6 h.symm) (fun h => w4 h.symm)
    refine ⟨_, h2, ?_, ?_, ?_⟩
    · rw [ppu_reg_check_stat_irq env hw _ _ _ (fun h => w5 h.symm) (fun h => w3 h.symm), e1]
    · rw [ppu_reg_check_stat_irq env hw _ _ _ (fun h => w6 h.symm) (fun h => w4 h.symm), e2]
    · rw [stat_check_coincidence env hw, e1, e2, hbit]

/-- Witness for C28: LCD running with LY = 5, STAT = 0x40 (LYC source enabled),
IF = 0xE0, line low: writing 5 to LYC sets STAT bit 2 and requests LCD_STAT. -/
theorem C28_lyc_coincidence_witness :
    ppu_reg (write_lyc hwEnv
      (lcdSys (mmuMem (regMem [(0xFF44, 5), (0xFF41, 0x40), (0xFF0F, 0xE0)]) (fun _ => 0) false)
        .HBLANK 300) 5) 0xFF41 &&& 0x04 = 4 ∧
    ppu_reg (write_lyc hwEnv
      (lcdSys (mmuMem (regMem [(0xFF44, 5), (0xFF41, 0x40), (0xFF0F, 0xE0)]) (fun _ => 0) false)
        .HBLANK 300) 5) 0xFF0F = 0xE2 := by
  have h := (C28_lyc_coincidence hwEnv
    ⟨rfl, by decide, by decide, by decide, by decide, by decide, by decide⟩ 128 (by decide)
    (lcdSys (mmuMem (regMem [(0xFF44, 5), (0xFF41, 0x40), (0xFF0F, 0xE0)]) (fun _ => 0) false)
      .HBLANK 300) 5).1 rfl
  exact ⟨h.2.2.1, (h.2.2.2 (by decide) rfl rfl rfl).2⟩

/-- Counterexample to C28 as stated: LCD running at dot 455 of line 9 in HBLANK
with LYC = 10 and STAT = 0x40. The call of `ppu_dot` changes LY to 10, which
equals LYC, and returns with STAT bit 2 still 0 and IF unchanged. -/
theorem C28_lyc_coincidence_counterexample :
    (ppu_dot hwEnv 128
      (lcdSys (mmuMem (regMem [(0xFF40, 0x80), (0xFF44, 9), (0xFF45, 10), (0xFF41, 0x40),
        (0xFF0F, 0xE0)]) (fun _ => 0) false) .HBLANK 455)).map
      (fun r => (ppu_reg r.2 0xFF44, ppu_reg r.2 0xFF45, ppu_reg r.2 0xFF41 &&& 0x04,
        ppu_reg r.2 0xFF0F)) = some (10, 10, 0, 0xE0) := by
  decide

/-! ## The pixel pipeline -/


/-! ### The queues of the pixel pipeline -/

theorem enqueue_shape {α : Type} (q : Queue α) (x : α) :
    (enqueue q x).capacity = q.capacity ∧ (enqueue q x).items.length = q.items.length ∧
    q.size ≤ (enqueue q x).size ∧ (q.size ≠ q.capacity → (enqueue q x).size = q.size + 1) := by
  unfold enqueue is_full
  by_cases h : q.size = q.capacity
  · simp [h]
  · simp only [h, decide_False, Bool.false_eq_true, if_false]
    split <;> simp

theorem dequeue_shape {α : Type} [Inhabited α] (q : Queue α) :
    (dequeue q).2.capacity = q.capacity ∧ (dequeue q).2.items = q.items ∧
    (dequeue q).2.size = q.size - 1 ∧ (q.size ≠ 0 → ∃ x, (dequeue q).1 = some x) := by
  unfold dequeue is_empty
  by_cases h : q.size = 0
  · simp [h]
  · simp [h]

theorem pad_obj_fifo_total (pixel : GbcPixel) :
    ∀ (fuel : Nat) (q : Queue GbcPixel), 8 ≤ q.capacity → 8 - q.size < fuel →
      ∃ q', pad_obj_fifo fuel q pixel = some q' ∧ q'.capacity = q.capacity ∧ 8 ≤ q'.size := by
  intro fuel
  induction fuel with
  | zero => intro q _ h; omega
  | succ fuel ih =>
    intro q hcap hf
    rw [pad_obj_fifo]
    by_cases h : q.size < TILE_SIZE
    · rw [if_pos h]
      obtain ⟨e1, e2, e3, e4⟩ := enqueue_shape q pixel
      have h8 : q.size < 8 := h
      have e5 := e4 (by omega)
      obtain ⟨q', r1, r2, r3⟩ := ih (enqueue q pixel) (by rw [e1]; exact hcap) (by omega)
      exact ⟨q', r1, by rw [r2, e1], r3⟩
    · rw [if_neg h]
      have h8 : ¬ q.size < 8 := h
      exact ⟨q, rfl, rfl, by omega⟩

theorem replace_obj_pixels_total (tile : Tile) (obj : OamObject) :
    ∀ (n : Nat) (q : Queue GbcPixel), 1 ≤ q.size → 1 ≤ q.capacity →
      ∃ q', replace_obj_pixels tile obj n q = some q' ∧ q'.capacity = q.capacity := by
  intro n
  induction n with
  | zero => intro q _ _; exact ⟨q, rfl, rfl⟩
  | succ n ih =>
    intro q hs hc
    obtain ⟨d1, d2, d3, d4⟩ := dequeue_shape q
    obtain ⟨x, hx⟩ := d4 (by omega)
    rw [replace_obj_pixels]
    simp only [hx]
    obtain ⟨e1, e2, e3, e4⟩ := enqueue_shape (dequeue q).2
      (if x.color = 0 then
        { color := get_tile_pixel_color tile (TILE_SIZE - (n + 1)) obj.x_flip,
          priority := obj.priority, dmg_palette := obj.dmg_palette,
          cgb_palette := obj.cgb_palette } else x)
    have hsz : 1 ≤ (enqueue (dequeue q).2
        (if x.color = 0 then
          { color := get_tile_pixel_color tile (TILE_SIZE - (n + 1)) obj.x_flip,
            priority := obj.priority, dmg_palette := obj.dmg_palette,
            cgb_palette := obj.cgb_palette } else x)).size := by
      by_cases hfull : (dequeue q).2.size = (dequeue q).2.capacity
      · rw [d1] at hfull
        omega
      · rw [e4 hfull]
        omega
    obtain ⟨q', r1, r2⟩ := ih _ hsz (by rw [e1, d1]; exact hc)
    exact ⟨q', r1, by rw [r2, e1, d1]⟩

theorem chop_obj_fifo_capacity : ∀ (n : Nat) (q : Queue GbcPixel),
    (chop_obj_fifo n q).capacity = q.capacity := by
  intro n
  induction n with
  | zero => intro q; rfl
  | succ n ih =>
    intro q
    rw [chop_obj_fifo, ih, (dequeue_shape q).1]

theorem push_bgw_row_shape (tile : Tile) (q : Queue GbcPixel) (offset : Nat) :
    (push_bgw_row tile q offset).capacity = q.capacity ∧
    (offset < 8 → q.size = 0 → 1 ≤ q.capacity → 1 ≤ (push_bgw_row tile q offset).size) := by
  have hfold : ∀ (l : List Nat) (f : Nat → GbcPixel) (q : Queue GbcPixel),
      (l.foldl (fun fifo i => enqueue fifo (f i)) q).capacity = q.capacity ∧
      q.size ≤ (l.foldl (fun fifo i => enqueue fifo (f i)) q).size := by
    intro l f
    induction l with
    | nil => intro q; exact ⟨rfl, le_refl _⟩
    | cons a l ih =>
      intro q
      obtain ⟨e1, e2, e3, e4⟩ := enqueue_shape q (f a)
      obtain ⟨i1, i2⟩ := ih (enqueue q (f a))
      simp only [List.foldl_cons]
      exact ⟨by rw [i1, e1], by omega⟩
  have hmain : ∀ (f : Nat → GbcPixel),
      ((List.range' offset (TILE_SIZE - offset)).foldl (fun fifo i => enqueue fifo (f i))
        q).capacity = q.capacity ∧
      (offset < 8 → q.size = 0 → 1 ≤ q.capacity →
        1 ≤ ((List.range' offset (TILE_SIZE - offset)).foldl
          (fun fifo i => enqueue fifo (f i)) q).size) := by
    intro f
    refine ⟨(hfold _ f q).1, ?_⟩
    intro ho hs hc
    obtain ⟨m, hm⟩ : ∃ m, TILE_SIZE - offset = m + 1 := ⟨TILE_SIZE - offset - 1, by
      simp only [TILE_SIZE]; omega⟩
    rw [hm, List.range'_succ, List.foldl_cons]
    obtain ⟨e1, e2, e3, e4⟩ := enqueue_shape q (f offset)
    have h2 := (hfold (List.range' (offset + 1) m) f (enqueue q (f offset))).2
    have e5 := e4 (by omega)
    omega
  exact hmain _

/-! ### The pixel pipeline -/

theorem obj_penalty_frame (ppu : PPU) (obj : OamObject) :
    (obj_penalty ppu obj).2 =
      { ppu with tile_considered := (obj_penalty ppu obj).2.tile_considered } := by
  unfold obj_penalty
  split
  · rfl
  · simp only
    split
    · rfl
    · split <;> rfl

/-- `push_obj_row` returns when the OAM queue is not empty: it takes one object
off the OAM queue and rebuilds the object FIFO. -/
theorem push_obj_row_spec (env : PpuEnv X) (fuel : Nat) (hfuel : 9 ≤ fuel) (s : PpuSys X)
    (tile : Tile) (hsize : s.oam_fifo.size ≠ 0) (hcap : s.obj_fifo.capacity = 8)
    (hlx : s.ppu.lx < 160) :
    ∃ (s1 : PpuSys X) (q : Queue GbcPixel),
      push_obj_row fuel s tile = some s1 ∧
      lcd_core env s1 =
        { lcd_core env s with oam_fifo := (dequeue s.oam_fifo).2, obj_fifo := q } ∧
      q.capacity = 8 ∧ s1.cpu = s.cpu := by
  obtain ⟨d1, d2, d3, d4⟩ := dequeue_shape s.oam_fifo
  obtain ⟨obj, hobj⟩ := d4 hsize
  obtain ⟨q1, p1, p2, p3⟩ := pad_obj_fifo_total
    { color := 0, dmg_palette := 0, cgb_palette := 0, priority := false } fuel s.obj_fifo
    (by omega) (by omega)
  obtain ⟨q2, r1, r2⟩ := replace_obj_pixels_total tile obj TILE_SIZE q1 (by omega) (by omega)
  have hcount : ¬ (((s.ppu.lx + 8 : Nat) : Int) - ((obj.x : Nat) : Int) > 255) := by
    have : ((s.ppu.lx + 8 : Nat) : Int) < 168 := by exact_mod_cast (by omega : s.ppu.lx + 8 < 168)
    have : (0 : Int) ≤ ((obj.x : Nat) : Int) := Int.natCast_nonneg _
    omega
  have hpen := obj_penalty_frame s.ppu obj
  unfold push_obj_row
  simp only [hobj, p1, r1]
  have hlx2 : (obj_penalty s.ppu obj).2.lx = s.ppu.lx := by rw [hpen]
  simp only [hlx2]
  rw [if_neg hcount]
  refine ⟨_, chop_obj_fifo (((s.ppu.lx + 8 : Nat) : Int) - ((obj.x : Nat) : Int)).toNat q2, rfl,
    ?_, ?_, rfl⟩
  · unfold lcd_core
    simp only [LcdCore.mk.injEq, and_true, true_and]
    rw [hpen]
    repeat' constructor
  · rw [chop_obj_fifo_capacity, r2, p2, hcap]

/-- The object loop of `pixel_pipeline_step` returns: every round takes an
object off the OAM queue. -/
theorem obj_rendering_loop_total (env : PpuEnv X) (fuel : Nat) (hfuel : 9 ≤ fuel) :
    ∀ (n : Nat) (s : PpuSys X), s.oam_fifo.size < n → s.obj_fifo.capacity = 8 →
      s.ppu.lx < 160 →
      ∃ (s1 : PpuSys X) (q1 : Queue OamObject) (q2 : Queue GbcPixel),
        obj_rendering_loop env fuel n s = some s1 ∧
        lcd_core env s1 = { lcd_core env s with oam_fifo := q1, obj_fifo := q2 } ∧
        q1.capacity = s.oam_fifo.capacity ∧ q1.items.length = s.oam_fifo.items.length ∧
        q1.size ≤ s.oam_fifo.size ∧ q2.capacity = 8 ∧ s1.cpu = s.cpu := by
  intro n
  induction n with
  | zero => intro s h; omega
  | succ n ih =>
    intro s hn hcap hlx
    rw [obj_rendering_loop]
    by_cases ht : obj_rendering_triggered env s = true
    · rw [if_pos ht]
      have hsize : s.oam_fifo.size ≠ 0 := by
        intro h0
        unfold obj_rendering_triggered peek at ht
        simp [h0] at ht
      have htile : ∃ tile, get_obj_tile env s = some tile := by
        unfold get_obj_tile peek
        simp [hsize]
      obtain ⟨tile, htile⟩ := htile
      obtain ⟨s1, q, p1, p2, p3, p4⟩ := push_obj_row_spec env fuel hfuel s tile hsize hcap hlx
      obtain ⟨d1, d2, d3, d4⟩ := dequeue_shape s.oam_fifo
      have hoam : s1.oam_fifo = (dequeue s.oam_fifo).2 := congrArg LcdCore.oam_fifo p2
      have hobj : s1.obj_fifo = q := congrArg LcdCore.obj_fifo p2
      have hlx1 : s1.ppu.lx = s.ppu.lx := congrArg LcdCore.lx p2
      obtain ⟨s2, q1, q2, r1, r2, r3, r4, r5, r6, r7⟩ := ih s1 (by rw [hoam, d3]; omega)
        (by rw [hobj, p3]) (by rw [hlx1]; exact hlx)
      simp only [htile, p1]
      refine ⟨s2, q1, q2, r1, ?_, ?_, ?_, ?_, r6, by rw [r7, p4]⟩
      · rw [r2, p2]
      · rw [r3, hoam, d1]
      · rw [r4, hoam, d2]
      · rw [hoam, d3] at r5
        omega
    · rw [if_neg ht]
      exact ⟨s, s.oam_fifo, s.obj_fifo, rfl, rfl, rfl, rfl, le_refl _, hcap, rfl⟩

/-- `draw_pixel_lcd` with a pixel in the background FIFO: one store at
`LY * 160 + lx`, and `lx` advances. -/
theorem draw_pixel_lcd_spec (env : PpuEnv X) (s : PpuSys X) (hb : s.bgw_fifo.size ≠ 0)
    (hlx : s.ppu.lx < 160) :
    ∃ (s1 : PpuSys X) (qb qo : Queue GbcPixel),
      draw_pixel_lcd env s = some s1 ∧
      lcd_core env s1 =
        { lcd_core env s with
          bgw_fifo := qb, obj_fifo := qo, lx := s.ppu.lx + 1,
          sc_rendering := (if s.ppu.lx + 1 ≥ 160 then false else s.ppu.sc_rendering),
          stores := s.stores ++ [ppu_reg s env.io.LY * GBC_WIDTH + s.ppu.lx] } ∧
      qb.capacity = s.bgw_fifo.capacity ∧ qo.capacity = s.obj_fifo.capacity ∧
      s1.cpu = s.cpu := by
  obtain ⟨b1, b2, b3, b4⟩ := dequeue_shape s.bgw_fifo
  obtain ⟨o1, o2, o3, o4⟩ := dequeue_shape s.obj_fifo
  obtain ⟨bgw, hbgw⟩ := b4 hb
  have hlx1 : (s.ppu.lx + 1) % 256 = s.ppu.lx + 1 := by omega
  have hbe : is_empty s.bgw_fifo = false := by
    unfold is_empty
    simp [hb]
  cases h : draw_pixel_lcd env s with
  | none =>
    exfalso
    unfold draw_pixel_lcd at h
    by_cases ho : s.obj_fifo.size = 0
    · have hoe : is_empty s.obj_fifo = true := by
        unfold is_empty
        simp [ho]
      simp only [hbe, hoe, Bool.not_false, Bool.not_true, Bool.and_false, Bool.false_eq_true,
        if_false, if_true, hbgw] at h
      split at h <;> exact absurd h (by simp)
    · obtain ⟨obj, hobj⟩ := o4 ho
      have hoe : is_empty s.obj_fifo = false := by
        unfold is_empty
        simp [ho]
      simp only [hbe, hoe, Bool.not_false, Bool.and_self, if_true, hbgw, hobj] at h
      split at h <;> exact absurd h (by simp)
  | some s1 =>
    refine ⟨s1, s1.bgw_fifo, s1.obj_fifo, rfl, ?_⟩
    unfold draw_pixel_lcd at h
    by_cases ho : s.obj_fifo.size = 0
    · have hoe : is_empty s.obj_fifo = true := by
        unfold is_empty
        simp [ho]
      simp only [hbe, hoe, Bool.not_false, Bool.not_true, Bool.and_false, Bool.false_eq_true,
        if_false, if_true, hbgw] at h
      split at h
      · rename_i hc
        have hc2 : s.ppu.lx + 1 ≥ 160 := by
          simp only [store_lcd, hlx1, GBC_WIDTH] at hc
          exact hc
        injection h with h
        subst h
        refine ⟨?_, b1, rfl, rfl⟩
        simp only [lcd_core, store_lcd, hlx1, if_pos hc2, ppu_reg]
      · rename_i hc
        have hc2 : ¬ s.ppu.lx + 1 ≥ 160 := by
          simp only [store_lcd, hlx1, GBC_WIDTH] at hc
          exact hc
        injection h with h
        subst h
        refine ⟨?_, b1, rfl, rfl⟩
        simp only [lcd_core, store_lcd, hlx1, if_neg hc2, ppu_reg]
    · obtain ⟨obj, hobj⟩ := o4 ho
      have hoe : is_empty s.obj_fifo = false := by
        unfold is_empty
        simp [ho]
      simp only [hbe, hoe, Bool.not_false, Bool.and_self, if_true, hbgw, hobj] at h
      split at h
      · rename_i hc
        have hc2 : s.ppu.lx + 1 ≥ 160 := by
          simp only [store_lcd, hlx1, GBC_WIDTH] at hc
          exact hc
        injection h with h
        subst h
        refine ⟨?_, b1, o1, rfl⟩
        simp only [lcd_core, store_lcd, hlx1, if_pos hc2, ppu_reg]
      · rename_i hc
        have hc2 : ¬ s.ppu.lx + 1 ≥ 160 := by
          simp only [store_lcd, hlx1, GBC_WIDTH] at hc
          exact hc
        injection h with h
        subst h
        refine ⟨?_, b1, o1, rfl⟩
        simp only [lcd_core, store_lcd, hlx1, if_neg hc2, ppu_reg]

/-- `pixel_pipeline_step` returns on queues of the shape `init_pipeline` gives
them and `lx < 160`: it makes exactly one store, at `LY * 160 + lx`, and
advances `lx`. -/
theorem pixel_pipeline_step_spec (env : PpuEnv X) (fuel : Nat) (hfuel : 12 ≤ fuel)
    (s : PpuSys X) (hoam : s.oam_fifo.size ≤ 10) (hobj : s.obj_fifo.capacity = 8)
    (hbgw : s.bgw_fifo.capacity = 16) (hlx : s.ppu.lx < 160) :
    ∃ (s1 : PpuSys X) (q1 : Queue OamObject) (qb qo : Queue GbcPixel),
      pixel_pipeline_step env fuel s = some s1 ∧
      lcd_core env s1 =
        { lcd_core env s with
          oam_fifo := q1, bgw_fifo := qb, obj_fifo := qo, lx := s.ppu.lx + 1,
          sc_rendering := (if s.ppu.lx + 1 ≥ 160 then false else s.ppu.sc_rendering),
          stores := s.stores ++ [ppu_reg s env.io.LY * GBC_WIDTH + s.ppu.lx] } ∧
      q1.capacity = s.oam_fifo.capacity ∧ q1.items.length = s.oam_fifo.items.length ∧
      q1.size ≤ s.oam_fifo.size ∧ qb.capacity = 16 ∧ qo.capacity = 8 ∧ s1.cpu = s.cpu := by
  obtain ⟨sa, q1, q2, a1, a2, a3, a4, a5, a6, a7⟩ := obj_rendering_loop_total env fuel
    (by omega) fuel s (by omega) hobj hlx
  have hlxa : sa.ppu.lx = s.ppu.lx := congrArg LcdCore.lx a2
  have hbgwa : sa.bgw_fifo = s.bgw_fifo := congrArg LcdCore.bgw_fifo a2
  have hobja : sa.obj_fifo = q2 := congrArg LcdCore.obj_fifo a2
  have hscra : sa.ppu.sc_rendering = s.ppu.sc_rendering := congrArg LcdCore.sc_rendering a2
  have hstoa : sa.stores = s.stores := congrArg LcdCore.stores a2
  have hlya : ppu_reg sa env.io.LY = ppu_reg s env.io.LY := congrArg LcdCore.ly a2
  unfold pixel_pipeline_step
  simp only [a1]
  -- the window trigger
  generalize hB : (if (drawing_window env sa && !sa.ppu.win_rendering) = true then
      ({ sa with
          bgw_fifo := reset_queue sa.bgw_fifo,
          ppu := { sa.ppu with penalty := (sa.ppu.penalty + 6) % 256, win_rendering := true } } :
        PpuSys X)
    else sa) = sb
  have hsb : lcd_core env sb = { lcd_core env sa with bgw_fifo := sb.bgw_fifo } ∧
      sb.bgw_fifo.capacity = 16 ∧ sb.cpu = sa.cpu := by
    rw [← hB]
    split
    · exact ⟨rfl, by show sa.bgw_fifo.capacity = 16; rw [hbgwa, hbgw], rfl⟩
    · exact ⟨rfl, by rw [hbgwa, hbgw], rfl⟩
  -- the refill of the background FIFO
  generalize hC : (if is_empty sb.bgw_fifo = true then
      ({ sb with
          bgw_fifo := push_bgw_row
            (if sb.ppu.win_rendering = true then get_win_tile env sb else get_bg_tile env sb)
            sb.bgw_fifo
            (if (decide (sb.ppu.sc_tile = 0) && !sb.ppu.win_rendering) = true then
              ppu_reg sb env.io.SCX % 8 else 0),
          ppu := { sb.ppu with sc_tile := (sb.ppu.sc_tile + 1) % 256 } } : PpuSys X)
    else sb) = sc
  have hsc : lcd_core env sc = { lcd_core env sb with bgw_fifo := sc.bgw_fifo } ∧
      sc.bgw_fifo.capacity = 16 ∧ sc.bgw_fifo.size ≠ 0 ∧ sc.cpu = sb.cpu := by
    rw [← hC]
    by_cases he : is_empty sb.bgw_fifo = true
    · rw [if_pos he]
      have hsz : sb.bgw_fifo.size = 0 := by
        unfold is_empty at he
        simpa using he
      have hoff : (if (decide (sb.ppu.sc_tile = 0) && !sb.ppu.win_rendering) = true then
          ppu_reg sb env.io.SCX % 8 else 0) < 8 := by
        split
        · omega
        · omega
      obtain ⟨p1, p2⟩ := push_bgw_row_shape
        (if sb.ppu.win_rendering = true then get_win_tile env sb else get_bg_tile env sb)
        sb.bgw_fifo
        (if (decide (sb.ppu.sc_tile = 0) && !sb.ppu.win_rendering) = true then
          ppu_reg sb env.io.SCX % 8 else 0)
      have p3 := p2 hoff hsz (by rw [hsb.2.1]; omega)
      refine ⟨rfl, by show (push_bgw_row _ _ _).capacity = 16; rw [p1, hsb.2.1], ?_, rfl⟩
      show (push_bgw_row _ _ _).size ≠ 0
      omega
    · rw [if_neg he]
      refine ⟨rfl, hsb.2.1, ?_, rfl⟩
      unfold is_empty at he
      simpa using he
  have hB2 : (if (drawing_window env sa && !sa.ppu.win_rendering) = true then
      ({ ppu := { sa.ppu with penalty := (sa.ppu.penalty + 6) % 256, win_rendering := true },
         cpu := sa.cpu, oam_fifo := sa.oam_fifo, bgw_fifo := reset_queue sa.bgw_fifo,
         obj_fifo := sa.obj_fifo, gbc_lcd := sa.gbc_lcd, stores := sa.stores } : PpuSys X)
    else sa) = sb := hB
  obtain ⟨c1, c2, c3, c4⟩ := hsc
  obtain ⟨b1, b2, b3⟩ := hsb
  have hlxc : sc.ppu.lx = s.ppu.lx := by
    have := congrArg LcdCore.lx c1
    have h2 := congrArg LcdCore.lx b1
    simp only [lcd_core] at this h2
    rw [this, h2, hlxa]
  have hobjc : sc.obj_fifo = q2 := by
    have := congrArg LcdCore.obj_fifo c1
    have h2 := congrArg LcdCore.obj_fifo b1
    simp only [lcd_core] at this h2
    rw [this, h2, hobja]
  obtain ⟨s1, qb, qo, d1, d2, d3, d4, d5⟩ := draw_pixel_lcd_spec env sc c3 (by rw [hlxc]; exact hlx)
  refine ⟨s1, q1, qb, qo, ?_, ?_, a3, a4, a5, by rw [d3, c2], by rw [d4, hobjc, a6],
    by rw [d5, c4, b3, a7]⟩
  · rw [← d1, ← hC, ← hB]
  · rw [d2, c1, b1, a2]
    have e1 : sc.ppu.sc_rendering = s.ppu.sc_rendering := by
      have := congrArg LcdCore.sc_rendering c1
      have h2 := congrArg LcdCore.sc_rendering b1
      simp only [lcd_core] at this h2
      rw [this, h2, hscra]
    have e2 : sc.stores = s.stores := by
      have := congrArg LcdCore.stores c1
      have h2 := congrArg LcdCore.stores b1
      simp only [lcd_core] at this h2
      rw [this, h2, hstoa]
    have e3 : ppu_reg sc env.io.LY = ppu_reg s env.io.LY := by
      have := congrArg LcdCore.ly c1
      have h2 := congrArg LcdCore.ly b1
      simp only [lcd_core] at this h2
      rw [this, h2, hlya]
    rw [hlxc, e1, e2, e3]

/-! ## One dot of the PPU -/


/-! ### One dot of the PPU -/

theorem lcd_core_enter_hblank_mode (env : PpuEnv X) (hw : ppu_wired env) (s : PpuSys X) :
    lcd_core env (enter_hblank_mode env s) = { lcd_core env s with mode := .HBLANK } := by
  unfold enter_hblank_mode
  simp only
  rw [lcd_core_set_ppu_mode env hw, lcd_core_check_stat_irq env hw]
  have h1 := (lcd_core_with_mem env s unlock_oam rfl).1
  have h2 := (lcd_core_with_mem env (with_mem s unlock_oam) unlock_vram rfl).1
  have h3 := (lcd_core_with_mem env (with_mem (with_mem s unlock_oam) unlock_vram)
    check_hdma_trigger (by
      unfold check_hdma_trigger
      split <;> rfl)).1
  rw [h3, h2, h1]

theorem lcd_core_enter_vblank_mode (env : PpuEnv X) (hw : ppu_wired env) (s : PpuSys X) :
    lcd_core env (enter_vblank_mode env s) = { lcd_core env s with mode := .VBLANK } := by
  unfold enter_vblank_mode
  simp only
  rw [lcd_core_set_ppu_mode env hw, lcd_core_check_stat_irq env hw,
    lcd_core_check_stat_irq env hw, (lcd_core_request_interrupt env hw s _).1]

theorem lcd_core_enter_drawing_mode (env : PpuEnv X) (hw : ppu_wired env) (s : PpuSys X) :
    lcd_core env (enter_drawing_mode env s) =
      { lcd_core env s with
        bgw_fifo := reset_queue s.bgw_fifo, obj_fifo := reset_queue s.obj_fifo, lx := 0,
        sc_rendering := true, mode := .DRAWING } := by
  unfold enter_drawing_mode
  simp only
  rw [lcd_core_set_ppu_mode env hw, lcd_core_check_stat_irq env hw]
  rfl

theorem penalty_enter_drawing_mode (env : PpuEnv X) (s : PpuSys X) :
    (enter_drawing_mode env s).ppu.penalty ≤ 8 := by
  unfold enter_drawing_mode
  simp only
  show (check_stat_irq env _ .DRAWING).ppu.penalty ≤ 8
  rw [penalty_check_stat_irq]
  show scx_penalty env _ ≤ 8
  unfold scx_penalty
  simp only
  split
  · omega
  · split <;> omega

theorem lcd_core_next_scanline (env : PpuEnv X) (hw : ppu_wired env) (s : PpuSys X) :
    lcd_core env (next_scanline env s).2 =
      { lcd_core env s with
        sc_dot := 0, ly := (ppu_reg s env.io.LY + 1) % SCAN_LINE_QUANTITY % 256 } ∧
    (next_scanline env s).1 =
      decide ((ppu_reg s env.io.LY + 1) % SCAN_LINE_QUANTITY % 256 = 0) := by
  have hly : ∀ t : PpuSys X, t = set_ppu_reg { s with ppu := { s.ppu with sc_dot := 0 } } env.io.LY
      ((ppu_reg s env.io.LY + 1) % SCAN_LINE_QUANTITY % 256) →
      lcd_core env t = { lcd_core env s with
        sc_dot := 0, ly := (ppu_reg s env.io.LY + 1) % SCAN_LINE_QUANTITY % 256 } := by
    intro t ht
    subst ht
    unfold lcd_core
    rw [ppu_reg_set, if_pos rfl]
    rfl
  have hc := lcd_core_check_stat_irq env hw
    (set_ppu_reg { s with ppu := { s.ppu with sc_dot := 0 } } env.io.LY
      ((ppu_reg s env.io.LY + 1) % SCAN_LINE_QUANTITY % 256)) .COINCIDENCE
  unfold next_scanline
  simp only
  have e0 : ppu_reg { s with ppu := { s.ppu with sc_dot := 0 } } env.io.LY =
      ppu_reg s env.io.LY := rfl
  rw [e0]
  split
  · have hl : ppu_reg (check_stat_irq env
        (set_ppu_reg { s with ppu := { s.ppu with sc_dot := 0 } } env.io.LY
          ((ppu_reg s env.io.LY + 1) % SCAN_LINE_QUANTITY % 256)) .COINCIDENCE) env.io.LY =
        (ppu_reg s env.io.LY + 1) % SCAN_LINE_QUANTITY % 256 := by
      have := congrArg LcdCore.ly (hc.trans (hly _ rfl))
      exact this
    rw [hl]
    split
    · rename_i h0
      exact ⟨hc.trans (hly _ rfl), by simp [h0]⟩
    · rename_i h0
      exact ⟨hc.trans (hly _ rfl), by simp [h0]⟩
  · have hl : ppu_reg (set_ppu_reg { s with ppu := { s.ppu with sc_dot := 0 } } env.io.LY
        ((ppu_reg s env.io.LY + 1) % SCAN_LINE_QUANTITY % 256)) env.io.LY =
        (ppu_reg s env.io.LY + 1) % SCAN_LINE_QUANTITY % 256 := by
      rw [ppu_reg_set, if_pos rfl]
    rw [hl]
    split
    · rename_i h0
      exact ⟨hly _ rfl, by simp [h0]⟩
    · rename_i h0
      exact ⟨hly _ rfl, by simp [h0]⟩

/-- `check_mode` returns on a queue of the shape `init_pipeline` gives it; what
it does to the core of the state depends on the line and the dot: the scan at
dot 0 and the start of the drawing at dot 80 of a visible line, and a possible
change of mode otherwise. -/
theorem check_mode_spec (env : PpuEnv X) (hw : ppu_wired env) (fuel : Nat)
    (hfuel : 128 ≤ fuel) (s : PpuSys X) (hcap : s.oam_fifo.capacity = 10)
    (hlen : s.oam_fifo.items.length = 10) :
    ∃ s1 : PpuSys X, check_mode env fuel s = some s1 ∧
      ((ppu_reg s env.io.LY < 144 ∧ s.ppu.sc_dot = 0 ∧
          ∃ q : Queue OamObject,
            lcd_core env s1 = { lcd_core env s with oam_fifo := q, mode := .OAM_SCAN } ∧
            q.capacity = 10 ∧ q.items.length = 10 ∧ q.size ≤ 10) ∨
       (ppu_reg s env.io.LY < 144 ∧ s.ppu.sc_dot = 80 ∧
          lcd_core env s1 =
            { lcd_core env s with
              bgw_fifo := reset_queue s.bgw_fifo, obj_fifo := reset_queue s.obj_fifo, lx := 0,
              sc_rendering := true, mode := .DRAWING }) ∨
       (¬ (ppu_reg s env.io.LY < 144 ∧ (s.ppu.sc_dot = 0 ∨ s.ppu.sc_dot = 80)) ∧
          ∃ m : PpuMode, lcd_core env s1 = { lcd_core env s with mode := m } ∧
            (ppu_reg s env.io.LY < 144 → s.ppu.sc_dot < 252 → m = s.ppu.mode))) := by
  by_cases hly : ppu_reg s env.io.LY < 144
  · by_cases h0 : s.ppu.sc_dot = 0
    · obtain ⟨s1, q, h1, h2, h3, h4, h5, h6, h7⟩ := check_mode_dot0 env hw fuel hfuel s h0 hly hcap
        hlen
      refine ⟨_, h2, Or.inl ⟨hly, h0, q, ?_, h4, h5, h6⟩⟩
      rw [lcd_core_check_stat_irq env hw, h3]
    · by_cases h80 : s.ppu.sc_dot = 80
      · refine ⟨enter_drawing_mode env s, ?_, Or.inr (Or.inl ⟨hly, h80,
          lcd_core_enter_drawing_mode env hw s⟩)⟩
        unfold check_mode
        have hp := penalty_enter_drawing_mode env s
        simp only [hly, h80, if_true, GBC_HEIGHT]
        show (if 80 = 252 + (enter_drawing_mode env s).ppu.penalty then _ else _) = _
        rw [if_neg (by omega)]
      · have hnot : ¬ (ppu_reg s env.io.LY < 144 ∧ (s.ppu.sc_dot = 0 ∨ s.ppu.sc_dot = 80)) := by
          intro h
          rcases h.2 with h | h
          · exact h0 h
          · exact h80 h
        by_cases h79 : s.ppu.sc_dot = 79
        · -- only block flags change
          have hc1 := (lcd_core_with_mem env s
            (fun mem => { mem with dev := { mem.dev with oam_write_blocked := false } }) rfl).1
          have hc2 := (lcd_core_with_mem env
            (with_mem s fun mem => { mem with dev := { mem.dev with oam_write_blocked := false } })
            (fun mem => { mem with dev := { mem.dev with vram_read_blocked := !s.ppu.init_sc } })
            rfl).1
          refine ⟨_, ?_, Or.inr (Or.inr ⟨hnot, s.ppu.mode, hc2.trans hc1, fun _ _ => rfl⟩)⟩
          unfold check_mode
          simp only [hly, h79, if_true, GBC_HEIGHT]
          show (if 79 = 252 + _ then _ else _) = _
          rw [if_neg (by omega)]
          rfl
        · by_cases h455 : s.ppu.sc_dot = 455
          · have hc1 := (lcd_core_with_mem env { s with ppu := { s.ppu with init_sc := false } }
              (fun mem => { mem with dev := { mem.dev with oam_read_blocked := true } }) rfl).1
            have hcm : check_mode env fuel s =
                if 455 = 252 + s.ppu.penalty then
                  some (enter_hblank_mode env
                    (with_mem { s with ppu := { s.ppu with init_sc := false } }
                      fun mem => { mem with dev := { mem.dev with oam_read_blocked := true } }))
                else
                  some (with_mem { s with ppu := { s.ppu with init_sc := false } }
                    fun mem => { mem with dev := { mem.dev with oam_read_blocked := true } }) := by
              unfold check_mode
              simp only [hly, h455, if_true, GBC_HEIGHT]
              rfl
            rw [hcm]
            split
            · refine ⟨_, rfl, Or.inr (Or.inr ⟨hnot, .HBLANK, ?_, fun _ h => by omega⟩)⟩
              rw [lcd_core_enter_hblank_mode env hw, hc1]
              rfl
            · refine ⟨_, rfl, Or.inr (Or.inr ⟨hnot, s.ppu.mode, ?_, fun _ _ => rfl⟩)⟩
              rw [hc1]
              rfl
          · have hcm : check_mode env fuel s =
                if s.ppu.sc_dot = 252 + s.ppu.penalty then some (enter_hblank_mode env s)
                else some s := by
              unfold check_mode
              simp only [hly, if_true, GBC_HEIGHT]
              rw [if_neg h0, if_neg h79, if_neg h80, if_neg h455]
            rw [hcm]
            split
            · rename_i hh
              refine ⟨_, rfl, Or.inr (Or.inr ⟨hnot, .HBLANK, ?_, fun _ h => by omega⟩)⟩
              rw [lcd_core_enter_hblank_mode env hw]
            · exact ⟨_, rfl, Or.inr (Or.inr ⟨hnot, s.ppu.mode, rfl, fun _ _ => rfl⟩)⟩
  · have hnot : ¬ (ppu_reg s env.io.LY < 144 ∧ (s.ppu.sc_dot = 0 ∨ s.ppu.sc_dot = 80)) :=
      fun h => hly h.1
    have hcm : check_mode env fuel s =
        if ppu_reg s env.io.LY = GBC_HEIGHT ∧ s.ppu.sc_dot = 0 then
          some (enter_vblank_mode env s)
        else some s := by
      unfold check_mode
      simp only
      rw [if_neg (by simpa [GBC_HEIGHT] using hly)]
    rw [hcm]
    split
    · refine ⟨_, rfl, Or.inr (Or.inr ⟨hnot, .VBLANK, ?_, fun h _ => absurd h hly⟩)⟩
      rw [lcd_core_enter_vblank_mode env hw]
    · exact ⟨_, rfl, Or.inr (Or.inr ⟨hnot, s.ppu.mode, rfl, fun _ _ => rfl⟩)⟩

/-- The part of `ppu_dot` after `check_mode`: the dot counter advances, at dot
456 the next line starts, and the pixel pipeline makes one step when the mode
is DRAWING and the line is being rendered. -/
theorem ppu_dot_after_check (env : PpuEnv X) (hw : ppu_wired env) (fuel : Nat)
    (hfuel : 128 ≤ fuel) (s sa : PpuSys X) (hrun : s.ppu.running = true)
    (hcm : check_mode env fuel s = some sa)
    (hdot : sa.ppu.sc_dot < 456) (hly : ppu_reg sa env.io.LY < 154)
    (hsize : sa.oam_fifo.size ≤ 10) (hobj : sa.obj_fifo.capacity = 8)
    (hbgw : sa.bgw_fifo.capacity = 16) (hlx : sa.ppu.sc_rendering = true → sa.ppu.lx < 160) :
    ∃ (fr : Bool) (s1 : PpuSys X) (q1 : Queue OamObject) (qb qo : Queue GbcPixel),
      ppu_dot env fuel s = some (fr, s1) ∧
      fr = decide (sa.ppu.sc_dot = 455 ∧ ppu_reg sa env.io.LY = 153) ∧
      q1.capacity = sa.oam_fifo.capacity ∧ q1.items.length = sa.oam_fifo.items.length ∧
      q1.size ≤ sa.oam_fifo.size ∧ qb.capacity = 16 ∧ qo.capacity = 8 ∧
      lcd_core env s1 =
        { lcd_core env sa with
          sc_dot := (sa.ppu.sc_dot + 1) % 456,
          ly := (if sa.ppu.sc_dot = 455 then (ppu_reg sa env.io.LY + 1) % 154
                 else ppu_reg sa env.io.LY),
          oam_fifo := q1, bgw_fifo := qb, obj_fifo := qo,
          lx := (if sa.ppu.mode = .DRAWING ∧ sa.ppu.sc_rendering = true then sa.ppu.lx + 1
                 else sa.ppu.lx),
          sc_rendering := (if sa.ppu.mode = .DRAWING ∧ sa.ppu.sc_rendering = true then
                             decide (sa.ppu.lx + 1 < 160) else sa.ppu.sc_rendering),
          stores := (if sa.ppu.mode = .DRAWING ∧ sa.ppu.sc_rendering = true then
                       sa.stores ++ [(if sa.ppu.sc_dot = 455 then (ppu_reg sa env.io.LY + 1) % 154
                         else ppu_reg sa env.io.LY) * 160 + sa.ppu.lx]
                     else sa.stores) } := by
  have hd1 : (sa.ppu.sc_dot + 1) % 65536 = sa.ppu.sc_dot + 1 := by omega
  -- the state after the increment of the dot counter and the change of line
  generalize hR : (if (sa.ppu.sc_dot + 1) % 65536 = DOTS_PER_SCANLINE then
      next_scanline env { sa with ppu := { sa.ppu with sc_dot := (sa.ppu.sc_dot + 1) % 65536 } }
    else (false, { sa with ppu := { sa.ppu with sc_dot := (sa.ppu.sc_dot + 1) % 65536 } })) = r
  have hr : r.1 = decide (sa.ppu.sc_dot = 455 ∧ ppu_reg sa env.io.LY = 153) ∧
      lcd_core env r.2 = { lcd_core env sa with
        sc_dot := (sa.ppu.sc_dot + 1) % 456,
        ly := (if sa.ppu.sc_dot = 455 then (ppu_reg sa env.io.LY + 1) % 154
               else ppu_reg sa env.io.LY) } := by
    rw [← hR, hd1]
    by_cases h455 : sa.ppu.sc_dot = 455
    · rw [if_pos (by rw [h455]), if_pos h455]
      obtain ⟨n1, n2⟩ := lcd_core_next_scanline env hw
        { sa with ppu := { sa.ppu with sc_dot := sa.ppu.sc_dot + 1 } }
      have e1 : ppu_reg { sa with ppu := { sa.ppu with sc_dot := sa.ppu.sc_dot + 1 } } env.io.LY =
          ppu_reg sa env.io.LY := rfl
      rw [e1] at n1 n2
      have e2 : (ppu_reg sa env.io.LY + 1) % SCAN_LINE_QUANTITY % 256 =
          (ppu_reg sa env.io.LY + 1) % 154 := by
        simp only [SCAN_LINE_QUANTITY]
        omega
      rw [e2] at n1 n2
      refine ⟨?_, ?_⟩
      · rw [n2]
        simp only [h455, true_and, decide_eq_decide]
        omega
      · rw [n1, h455]
        rfl
    · rw [if_neg (by simp only [DOTS_PER_SCANLINE]; omega), if_neg h455]
      refine ⟨?_, ?_⟩
      · simp [h455]
      · have : (sa.ppu.sc_dot + 1) % 456 = sa.ppu.sc_dot + 1 := by omega
        rw [this]
        rfl
  obtain ⟨hr1, hr2⟩ := hr
  have hmode : r.2.ppu.mode = sa.ppu.mode := congrArg LcdCore.mode hr2
  have hscr : r.2.ppu.sc_rendering = sa.ppu.sc_rendering := congrArg LcdCore.sc_rendering hr2
  have hlxr : r.2.ppu.lx = sa.ppu.lx := congrArg LcdCore.lx hr2
  have hoamr : r.2.oam_fifo = sa.oam_fifo := congrArg LcdCore.oam_fifo hr2
  have hobjr : r.2.obj_fifo = sa.obj_fifo := congrArg LcdCore.obj_fifo hr2
  have hbgwr : r.2.bgw_fifo = sa.bgw_fifo := congrArg LcdCore.bgw_fifo hr2
  have hstor : r.2.stores = sa.stores := congrArg LcdCore.stores hr2
  have hlyr : ppu_reg r.2 env.io.LY = (if sa.ppu.sc_dot = 455 then
      (ppu_reg sa env.io.LY + 1) % 154 else ppu_reg sa env.io.LY) := congrArg LcdCore.ly hr2
  have hpd : ppu_dot env fuel s =
      if (decide (r.2.ppu.mode = .DRAWING) && r.2.ppu.sc_rendering) = true then
        match pixel_pipeline_step env fuel r.2 with
        | none => none
        | some s2 => some (r.1, s2)
      else some (r.1, r.2) := by
    rw [← hR]
    unfold ppu_dot
    simp only [hrun, Bool.not_true, Bool.false_eq_true, if_false, hcm] <;> rfl
  rw [hpd]
  by_cases hdraw : sa.ppu.mode = .DRAWING ∧ sa.ppu.sc_rendering = true
  · have hc : (decide (r.2.ppu.mode = .DRAWING) && r.2.ppu.sc_rendering) = true := by
      rw [hmode, hscr, hdraw.1, hdraw.2]
      rfl
    rw [if_pos hc]
    obtain ⟨s2, q1, qb, qo, p1, p2, p3, p4, p5, p6, p7, p8⟩ := pixel_pipeline_step_spec env fuel
      (by omega) r.2 (by rw [hoamr]; exact hsize) (by rw [hobjr]; exact hobj)
      (by rw [hbgwr]; exact hbgw) (by rw [hlxr]; exact hlx hdraw.2)
    rw [p1]
    refine ⟨r.1, s2, q1, qb, qo, rfl, hr1, by rw [p3, hoamr], by rw [p4, hoamr],
      by rw [hoamr] at p5; exact p5, p6, p7, ?_⟩
    rw [p2, hr2, if_pos hdraw, if_pos hdraw, if_pos hdraw, hlxr, hscr, hstor, hlyr, hdraw.2]
    have hl := hlx hdraw.2
    by_cases h160 : sa.ppu.lx + 1 ≥ 160
    · rw [if_pos h160]
      have : decide (sa.ppu.lx + 1 < 160) = false := by simp; omega
      rw [this]
    · rw [if_neg h160]
      have : decide (sa.ppu.lx + 1 < 160) = true := by simp; omega
      rw [this]
  · have hc : ¬ (decide (r.2.ppu.mode = .DRAWING) && r.2.ppu.sc_rendering) = true := by
      rw [hmode, hscr]
      intro h
      simp only [Bool.and_eq_true, decide_eq_true_eq] at h
      exact hdraw h
    rw [if_neg hc]
    refine ⟨r.1, r.2, sa.oam_fifo, sa.bgw_fifo, sa.obj_fifo, rfl, hr1, rfl, rfl, le_refl _, hbgw,
      hobj, ?_⟩
    rw [hr2, if_neg hdraw, if_neg hdraw, if_neg hdraw]
    rfl

theorem next_ly_lt (d ly : Nat) (h : ly < 154) :
    (if d = 455 then (ly + 1) % 154 else ly) < 154 := by
  split
  · exact Nat.mod_lt _ (by decide)
  · exact h

theorem next_dot_lt (d : Nat) : (d + 1) % 456 < 456 := Nat.mod_lt _ (by decide)

/-- One call of `ppu_dot` on a running LCD with the queues of `init_pipeline`:
it returns, keeps the invariant, advances the dot counter modulo 456 and the
line modulo 154, reports a frame exactly when line 153 ends, and stores into
the frame buffer exactly when a line is being rendered in mode DRAWING. -/
theorem ppu_dot_spec (env : PpuEnv X) (hw : ppu_wired env) (fuel : Nat) (hfuel : 128 ≤ fuel)
    (s : PpuSys X) (hinv : lcd_inv (lcd_core env s)) :
    ∃ (fr : Bool) (s1 : PpuSys X),
      ppu_dot env fuel s = some (fr, s1) ∧ lcd_inv (lcd_core env s1) ∧
      s1.ppu.sc_dot = (s.ppu.sc_dot + 1) % 456 ∧
      ppu_reg s1 env.io.LY =
        (if s.ppu.sc_dot = 455 then (ppu_reg s env.io.LY + 1) % 154 else ppu_reg s env.io.LY) ∧
      fr = decide (s.ppu.sc_dot = 455 ∧ ppu_reg s env.io.LY = 153) ∧
      (ppu_reg s env.io.LY < 144 ∧ s.ppu.sc_dot = 80 →
        s1.stores = s.stores ++ [ppu_reg s env.io.LY * 160] ∧ s1.ppu.lx = 1 ∧
        s1.ppu.sc_rendering = true ∧ s1.ppu.mode = .DRAWING) ∧
      (ppu_reg s env.io.LY < 144 ∧ 80 < s.ppu.sc_dot ∧ s.ppu.sc_dot < 252 ∧
          s.ppu.mode = .DRAWING ∧ s.ppu.sc_rendering = true →
        s1.stores = s.stores ++ [ppu_reg s env.io.LY * 160 + s.ppu.lx] ∧
        s1.ppu.lx = s.ppu.lx + 1 ∧
        s1.ppu.sc_rendering = decide (s.ppu.lx + 1 < 160) ∧ s1.ppu.mode = .DRAWING) ∧
      (¬ (ppu_reg s env.io.LY < 144 ∧ s.ppu.sc_dot = 80) ∧ s.ppu.sc_rendering = false →
        s1.stores = s.stores ∧ s1.ppu.sc_rendering = false) := by
  obtain ⟨hrun, hdot, hly, hcap, hlen, hsize, hobj, hbgw, hlx⟩ := hinv
  have hrun : s.ppu.running = true := hrun
  have hdot : s.ppu.sc_dot < 456 := hdot
  have hly : ppu_reg s env.io.LY < 154 := hly
  have hcap : s.oam_fifo.capacity = 10 := hcap
  have hlen : s.oam_fifo.items.length = 10 := hlen
  have hsize : s.oam_fifo.size ≤ 10 := hsize
  have hobj : s.obj_fifo.capacity = 8 := hobj
  have hbgw : s.bgw_fifo.capacity = 16 := hbgw
  have hlx : s.ppu.sc_rendering = true → s.ppu.lx < 160 := hlx
  obtain ⟨sa, hcm, hcase⟩ := check_mode_spec env hw fuel hfuel s hcap hlen
  rcases hcase with ⟨hl, h0, q, hc, c1, c2, c3⟩ | ⟨hl, h80, hc⟩ | ⟨hnot, m, hc, hm⟩
  · -- dot 0 of a visible line: the scan, no pixel
    have a1 : sa.ppu.sc_dot = s.ppu.sc_dot := congrArg LcdCore.sc_dot hc
    have a2 : ppu_reg sa env.io.LY = ppu_reg s env.io.LY := congrArg LcdCore.ly hc
    have a3 : sa.oam_fifo = q := congrArg LcdCore.oam_fifo hc
    have a4 : sa.obj_fifo = s.obj_fifo := congrArg LcdCore.obj_fifo hc
    have a5 : sa.bgw_fifo = s.bgw_fifo := congrArg LcdCore.bgw_fifo hc
    have a6 : sa.ppu.sc_rendering = s.ppu.sc_rendering := congrArg LcdCore.sc_rendering hc
    have a7 : sa.ppu.lx = s.ppu.lx := congrArg LcdCore.lx hc
    have a8 : sa.ppu.mode = .OAM_SCAN := congrArg LcdCore.mode hc
    have a9 : sa.stores = s.stores := congrArg LcdCore.stores hc
    have a10 : sa.ppu.running = s.ppu.running := congrArg LcdCore.running hc
    obtain ⟨fr, s1, q1, qb, qo, p1, p2, p3, p4, p5, p6, p7, p8⟩ := ppu_dot_after_check env hw fuel
      hfuel s sa hrun hcm (by rw [a1]; exact hdot) (by rw [a2]; exact hly)
      (by rw [a3]; exact c3) (by rw [a4]; exact hobj) (by rw [a5]; exact hbgw)
      (by rw [a6, a7]; exact hlx)
    have hnd : ¬ (sa.ppu.mode = .DRAWING ∧ sa.ppu.sc_rendering = true) := by
      rw [a8]
      intro h
      exact absurd h.1 (by decide)
    rw [if_neg hnd, if_neg hnd, if_neg hnd, a1, a2] at p8
    rw [a3] at p3 p4 p5
    have b1 : s1.ppu.sc_dot = (s.ppu.sc_dot + 1) % 456 := congrArg LcdCore.sc_dot p8
    have b2 : ppu_reg s1 env.io.LY = _ := congrArg LcdCore.ly p8
    have b3 : s1.oam_fifo = q1 := congrArg LcdCore.oam_fifo p8
    have b4 : s1.obj_fifo = qo := congrArg LcdCore.obj_fifo p8
    have b5 : s1.bgw_fifo = qb := congrArg LcdCore.bgw_fifo p8
    have b6 : s1.ppu.sc_rendering = sa.ppu.sc_rendering := congrArg LcdCore.sc_rendering p8
    have b7 : s1.ppu.lx = sa.ppu.lx := congrArg LcdCore.lx p8
    have b9 : s1.stores = sa.stores := congrArg LcdCore.stores p8
    have b10 : s1.ppu.running = sa.ppu.running := congrArg LcdCore.running p8
    refine ⟨fr, s1, p1, ?_, b1, b2, by rw [p2, a1, a2], ?_, ?_, ?_⟩
    · refine ⟨by show s1.ppu.running = true; rw [b10, a10]; exact hrun,
        by show s1.ppu.sc_dot < 456; rw [b1]; exact next_dot_lt _,
        by show ppu_reg s1 env.io.LY < 154; rw [b2]; exact next_ly_lt _ _ hly,
        by show s1.oam_fifo.capacity = 10; rw [b3, p3]; exact c1,
        by show s1.oam_fifo.items.length = 10; rw [b3, p4]; exact c2,
        by show s1.oam_fifo.size ≤ 10; rw [b3]; exact le_trans p5 c3,
        by show s1.obj_fifo.capacity = 8; rw [b4]; exact p7,
        by show s1.bgw_fifo.capacity = 16; rw [b5]; exact p6, ?_⟩
      show s1.ppu.sc_rendering = true → s1.ppu.lx < 160
      rw [b6, b7, a6, a7]
      exact hlx
    · intro h
      omega
    · intro h
      omega
    · intro h
      rw [b9, a9, b6, a6]
      exact ⟨rfl, h.2⟩
  · -- dot 80 of a visible line: the drawing starts with the pixel at lx = 0
    have a1 : sa.ppu.sc_dot = s.ppu.sc_dot := congrArg LcdCore.sc_dot hc
    have a2 : ppu_reg sa env.io.LY = ppu_reg s env.io.LY := congrArg LcdCore.ly hc
    have a3 : sa.oam_fifo = s.oam_fifo := congrArg LcdCore.oam_fifo hc
    have a4 : sa.obj_fifo = reset_queue s.obj_fifo := congrArg LcdCore.obj_fifo hc
    have a5 : sa.bgw_fifo = reset_queue s.bgw_fifo := congrArg LcdCore.bgw_fifo hc
    have a6 : sa.ppu.sc_rendering = true := congrArg LcdCore.sc_rendering hc
    have a7 : sa.ppu.lx = 0 := congrArg LcdCore.lx hc
    have a8 : sa.ppu.mode = .DRAWING := congrArg LcdCore.mode hc
    have a9 : sa.stores = s.stores := congrArg LcdCore.stores hc
    have a10 : sa.ppu.running = s.ppu.running := congrArg LcdCore.running hc
    obtain ⟨fr, s1, q1, qb, qo, p1, p2, p3, p4, p5, p6, p7, p8⟩ := ppu_dot_after_check env hw fuel
      hfuel s sa hrun hcm (by rw [a1]; exact hdot) (by rw [a2]; exact hly)
      (by rw [a3]; exact hsize) (by rw [a4]; exact hobj) (by rw [a5]; exact hbgw)
      (by intro _; rw [a7]; decide)
    have hd : sa.ppu.mode = .DRAWING ∧ sa.ppu.sc_rendering = true := ⟨a8, a6⟩
    have h455 : ¬ s.ppu.sc_dot = 455 := by omega
    rw [if_pos hd, if_pos hd, if_pos hd, a1, a2, a7, a9, if_neg h455] at p8
    rw [a3] at p3 p4 p5
    have b1 : s1.ppu.sc_dot = (s.ppu.sc_dot + 1) % 456 := congrArg LcdCore.sc_dot p8
    have b2 : ppu_reg s1 env.io.LY = ppu_reg s env.io.LY := congrArg LcdCore.ly p8
    have b3 : s1.oam_fifo = q1 := congrArg LcdCore.oam_fifo p8
    have b4 : s1.obj_fifo = qo := congrArg LcdCore.obj_fifo p8
    have b5 : s1.bgw_fifo = qb := congrArg LcdCore.bgw_fifo p8
    have b6 : s1.ppu.sc_rendering = decide (0 + 1 < 160) := congrArg LcdCore.sc_rendering p8
    have b7 : s1.ppu.lx = 0 + 1 := congrArg LcdCore.lx p8
    have b8 : s1.ppu.mode = sa.ppu.mode := congrArg LcdCore.mode p8
    have b9 : s1.stores = s.stores ++ [ppu_reg s env.io.LY * 160 + 0] :=
      congrArg LcdCore.stores p8
    have b10 : s1.ppu.running = sa.ppu.running := congrArg LcdCore.running p8
    refine ⟨fr, s1, p1, ?_, b1, by rw [b2, if_neg h455], by rw [p2, a1, a2], ?_, ?_, ?_⟩
    · refine ⟨by show s1.ppu.running = true; rw [b10, a10]; exact hrun,
        by show s1.ppu.sc_dot < 456; rw [b1]; exact next_dot_lt _,
        by show ppu_reg s1 env.io.LY < 154; rw [b2]; exact hly,
        by show s1.oam_fifo.capacity = 10; rw [b3, p3]; exact hcap,
        by show s1.oam_fifo.items.length = 10; rw [b3, p4]; exact hlen,
        by show s1.oam_fifo.size ≤ 10; rw [b3]; exact le_trans p5 hsize,
        by show s1.obj_fifo.capacity = 8; rw [b4]; exact p7,
        by show s1.bgw_fifo.capacity = 16; rw [b5]; exact p6, ?_⟩
      show s1.ppu.sc_rendering = true → s1.ppu.lx < 160
      rw [b7]
      intro _
      decide
    · intro _
      exact ⟨b9, b7, by rw [b6]; rfl, by rw [b8, a8]⟩
    · intro h
      omega
    · intro h
      exact absurd ⟨hl, h80⟩ h.1
  · -- any other dot: a possible change of mode, and a pixel when drawing
    have a1 : sa.ppu.sc_dot = s.ppu.sc_dot := congrArg LcdCore.sc_dot hc
    have a2 : ppu_reg sa env.io.LY = ppu_reg s env.io.LY := congrArg LcdCore.ly hc
    have a3 : sa.oam_fifo = s.oam_fifo := congrArg LcdCore.oam_fifo hc
    have a4 : sa.obj_fifo = s.obj_fifo := congrArg LcdCore.obj_fifo hc
    have a5 : sa.bgw_fifo = s.bgw_fifo := congrArg LcdCore.bgw_fifo hc
    have a6 : sa.ppu.sc_rendering = s.ppu.sc_rendering := congrArg LcdCore.sc_rendering hc
    have a7 : sa.ppu.lx = s.ppu.lx := congrArg LcdCore.lx hc
    have a8 : sa.ppu.mode = m := congrArg LcdCore.mode hc
    have a9 : sa.stores = s.stores := congrArg LcdCore.stores hc
    have a10 : sa.ppu.running = s.ppu.running := congrArg LcdCore.running hc
    obtain ⟨fr, s1, q1, qb, qo, p1, p2, p3, p4, p5, p6, p7, p8⟩ := ppu_dot_after_check env hw fuel
      hfuel s sa hrun hcm (by rw [a1]; exact hdot) (by rw [a2]; exact hly)
      (by rw [a3]; exact hsize) (by rw [a4]; exact hobj) (by rw [a5]; exact hbgw)
      (by rw [a6, a7]; exact hlx)
    rw [a1, a2, a6, a7, a8, a9] at p8
    rw [a3] at p3 p4 p5
    by_cases hd : m = .DRAWING ∧ s.ppu.sc_rendering = true
    · simp only [if_pos hd] at p8
      have b1 : s1.ppu.sc_dot = (s.ppu.sc_dot + 1) % 456 := congrArg LcdCore.sc_dot p8
      have b2 : ppu_reg s1 env.io.LY = (if s.ppu.sc_dot = 455 then
          (ppu_reg s env.io.LY + 1) % 154 else ppu_reg s env.io.LY) := congrArg LcdCore.ly p8
      have b3 : s1.oam_fifo = q1 := congrArg LcdCore.oam_fifo p8
      have b4 : s1.obj_fifo = qo := congrArg LcdCore.obj_fifo p8
      have b5 : s1.bgw_fifo = qb := congrArg LcdCore.bgw_fifo p8
      have b6 : s1.ppu.sc_rendering = decide (s.ppu.lx + 1 < 160) :=
        congrArg LcdCore.sc_rendering p8
      have b7 : s1.ppu.lx = s.ppu.lx + 1 := congrArg LcdCore.lx p8
      have b8 : s1.ppu.mode = sa.ppu.mode := congrArg LcdCore.mode p8
      have b9 : s1.stores = s.stores ++ [(if s.ppu.sc_dot = 455 then
          (ppu_reg s env.io.LY + 1) % 154 else ppu_reg s env.io.LY) * 160 + s.ppu.lx] :=
        congrArg LcdCore.stores p8
      have b10 : s1.ppu.running = sa.ppu.running := congrArg LcdCore.running p8
      refine ⟨fr, s1, p1, ?_, b1, b2, by rw [p2, a1, a2], ?_, ?_, ?_⟩
      · refine ⟨by show s1.ppu.running = true; rw [b10, a10]; exact hrun,
          by show s1.ppu.sc_dot < 456; rw [b1]; exact next_dot_lt _,
          by show ppu_reg s1 env.io.LY < 154; rw [b2]; exact next_ly_lt _ _ hly,
          by show s1.oam_fifo.capacity = 10; rw [b3, p3]; exact hcap,
          by show s1.oam_fifo.items.length = 10; rw [b3, p4]; exact hlen,
          by show s1.oam_fifo.size ≤ 10; rw [b3]; exact le_trans p5 hsize,
          by show s1.obj_fifo.capacity = 8; rw [b4]; exact p7,
          by show s1.bgw_fifo.capacity = 16; rw [b5]; exact p6, ?_⟩
        show s1.ppu.sc_rendering = true → s1.ppu.lx < 160
        rw [b6, b7]
        intro h
        exact of_decide_eq_true h
      · intro h
        exact absurd ⟨h.1, Or.inr h.2⟩ hnot
      · intro h
        have h455 : ¬ s.ppu.sc_dot = 455 := by
          intro e
          have := h.2.2.1
          rw [e] at this
          exact absurd this (by decide)
        rw [if_neg h455] at b9
        exact ⟨b9, b7, b6, by rw [b8, a8, hd.1]⟩
      · intro h
        rw [h.2] at hd
        exact absurd hd.2 (by decide)
    · simp only [if_neg hd] at p8
      have b1 : s1.ppu.sc_dot = (s.ppu.sc_dot + 1) % 456 := congrArg LcdCore.sc_dot p8
      have b2 : ppu_reg s1 env.io.LY = (if s.ppu.sc_dot = 455 then
          (ppu_reg s env.io.LY + 1) % 154 else ppu_reg s env.io.LY) := congrArg LcdCore.ly p8
      have b3 : s1.oam_fifo = q1 := congrArg LcdCore.oam_fifo p8
      have b4 : s1.obj_fifo = qo := congrArg LcdCore.obj_fifo p8
      have b5 : s1.bgw_fifo = qb := congrArg LcdCore.bgw_fifo p8
      have b6 : s1.ppu.sc_rendering = s.ppu.sc_rendering := congrArg LcdCore.sc_rendering p8
      have b7 : s1.ppu.lx = s.ppu.lx := congrArg LcdCore.lx p8
      have b9 : s1.stores = s.stores := congrArg LcdCore.stores p8
      have b10 : s1.ppu.running = sa.ppu.running := congrArg LcdCore.running p8
      refine ⟨fr, s1, p1, ?_, b1, b2, by rw [p2, a1, a2], ?_, ?_, ?_⟩
      · refine ⟨by show s1.ppu.running = true; rw [b10, a10]; exact hrun,
          by show s1.ppu.sc_dot < 456; rw [b1]; exact next_dot_lt _,
          by show ppu_reg s1 env.io.LY < 154; rw [b2]; exact next_ly_lt _ _ hly,
          by show s1.oam_fifo.capacity = 10; rw [b3, p3]; exact hcap,
          by show s1.oam_fifo.items.length = 10; rw [b3, p4]; exact hlen,
          by show s1.oam_fifo.size ≤ 10; rw [b3]; exact le_trans p5 hsize,
          by show s1.obj_fifo.capacity = 8; rw [b4]; exact p7,
          by show s1.bgw_fifo.capacity = 16; rw [b5]; exact p6, ?_⟩
        show s1.ppu.sc_rendering = true → s1.ppu.lx < 160
        rw [b6, b7]
        exact hlx
      · intro h
        exact absurd ⟨h.1, Or.inr h.2⟩ hnot
      · intro h
        have hmm : m = .DRAWING := by rw [hm h.1 h.2.2.1]; exact h.2.2.2.1
        exact absurd ⟨hmm, h.2.2.2.2⟩ hd
      · intro h
        exact ⟨b9, by rw [b6]; exact h.2⟩

/-! ## C29: frame timing -/


/-! ### Runs of the PPU -/

theorem ppu_dots_succ (env : PpuEnv X) (fuel n : Nat) (s : PpuSys X) (fr : Bool)
    (s1 : PpuSys X) (rs : List Bool) (s2 : PpuSys X) (h1 : ppu_dot env fuel s = some (fr, s1))
    (h2 : ppu_dots env fuel n s1 = some (rs, s2)) :
    ppu_dots env fuel (n + 1) s = some (fr :: rs, s2) := by
  rw [ppu_dots]
  simp only [h1, h2]

theorem ppu_dots_add (env : PpuEnv X) (fuel : Nat) :
    ∀ (a b : Nat) (s s1 s2 : PpuSys X) (r1 r2 : List Bool),
      ppu_dots env fuel a s = some (r1, s1) → ppu_dots env fuel b s1 = some (r2, s2) →
      ppu_dots env fuel (a + b) s = some (r1 ++ r2, s2) := by
  intro a
  induction a with
  | zero =>
    intro b s s1 s2 r1 r2 h1 h2
    rw [ppu_dots] at h1
    injection h1 with h1
    injection h1 with e1 e2
    subst e1
    subst e2
    rw [Nat.zero_add]
    exact h2
  | succ a ih =>
    intro b s s1 s2 r1 r2 h1 h2
    rw [ppu_dots] at h1
    cases hd : ppu_dot env fuel s with
    | none => rw [hd] at h1; exact absurd h1 (by simp)
    | some r =>
      rw [hd] at h1
      simp only at h1
      cases hr : ppu_dots env fuel a r.2 with
      | none => rw [hr] at h1; exact absurd h1 (by simp)
      | some rr =>
        rw [hr] at h1
        simp only at h1
        injection h1 with h1
        injection h1 with e1 e2
        subst e1
        subst e2
        have := ih b r.2 rr.2 s2 rr.1 r2 (by rw [hr]) h2
        rw [show a + 1 + b = (a + b) + 1 by omega]
        exact ppu_dots_succ env fuel (a + b) s r.1 r.2 (rr.1 ++ r2) s2 (by rw [hd]) this

/-- Runs of `ppu_dot` on a running LCD return; the position in the frame
(`LY * 456 + sc_dot`) advances by one per call modulo 70224, and a call returns
true exactly when the position wraps to 0. -/
theorem ppu_dots_timing (env : PpuEnv X) (hw : ppu_wired env) (fuel : Nat)
    (hfuel : 128 ≤ fuel) :
    ∀ (n : Nat) (s : PpuSys X), lcd_inv (lcd_core env s) →
      ∃ (rs : List Bool) (s1 : PpuSys X),
        ppu_dots env fuel n s = some (rs, s1) ∧ lcd_inv (lcd_core env s1) ∧
        rs.length = n ∧
        (∀ i, i < n → rs.getD i false =
          decide ((ppu_reg s env.io.LY * 456 + s.ppu.sc_dot + i + 1) % 70224 = 0)) ∧
        s1.ppu.sc_dot = (ppu_reg s env.io.LY * 456 + s.ppu.sc_dot + n) % 456 ∧
        ppu_reg s1 env.io.LY = (ppu_reg s env.io.LY * 456 + s.ppu.sc_dot + n) / 456 % 154 := by
  intro n
  induction n with
  | zero =>
    intro s hinv
    have hd : s.ppu.sc_dot < 456 := hinv.2.1
    have hl : ppu_reg s env.io.LY < 154 := hinv.2.2.1
    refine ⟨[], s, rfl, hinv, rfl, fun i hi => absurd hi (Nat.not_lt_zero i), ?_, ?_⟩
    · generalize ppu_reg s env.io.LY = l at hl
      generalize s.ppu.sc_dot = d at hd
      omega
    · generalize ppu_reg s env.io.LY = l at hl
      generalize s.ppu.sc_dot = d at hd
      omega
  | succ n ih =>
    intro s hinv
    have hd : s.ppu.sc_dot < 456 := hinv.2.1
    have hl : ppu_reg s env.io.LY < 154 := hinv.2.2.1
    obtain ⟨fr, s1, h1, h2, h3, h4, h5, -⟩ := ppu_dot_spec env hw fuel hfuel s hinv
    obtain ⟨rs, s2, r1, r2, r3, r4, r5, r6⟩ := ih s1 h2
    refine ⟨fr :: rs, s2, ppu_dots_succ env fuel n s fr s1 rs s2 h1 r1, r2, by simp [r3], ?_, ?_,
      ?_⟩
    · intro i hi
      cases i with
      | zero =>
        rw [List.getD_cons_zero, h5]
        generalize ppu_reg s env.io.LY = l at hl
        generalize s.ppu.sc_dot = d at hd
        simp only [decide_eq_decide]
        omega
      | succ i =>
        rw [List.getD_cons_succ, r4 i (by omega), h3, h4]
        generalize ppu_reg s env.io.LY = l at hl
        generalize s.ppu.sc_dot = d at hd
        simp only [decide_eq_decide]
        by_cases e : d = 455
        · rw [if_pos e]
          omega
        · rw [if_neg e]
          omega
    · rw [r5, h3, h4]
      generalize ppu_reg s env.io.LY = l at hl
      generalize s.ppu.sc_dot = d at hd
      by_cases e : d = 455
      · rw [if_pos e]
        omega
      · rw [if_neg e]
        omega
    · rw [r6, h3, h4]
      generalize ppu_reg s env.io.LY = l at hl
      generalize s.ppu.sc_dot = d at hd
      by_cases e : d = 455
      · rw [if_pos e]
        omega
      · rw [if_neg e]
        omega

/-- C29: with the LCD running, the queues as `init_pipeline` makes them and the
bus wired as `init_tables` does, start at LY = 0 and scanline dot 0. Every run
of `n` calls of `ppu_dot` returns (with fuel 128); call number `k` (counted
from 1) returns true exactly when `k` is a multiple of 70224; after the `n`
calls the dot counter is `n mod 456` and LY is `(n / 456) mod 154`, so the dot
counter stays in 0..455, LY in 0..153, and LY advances once every 456 calls. -/
theorem C29_frame_timing (env : PpuEnv X) (hw : ppu_wired env) (fuel : Nat)
    (hfuel : 128 ≤ fuel) (s : PpuSys X) (hinv : lcd_inv (lcd_core env s))
    (hdot : s.ppu.sc_dot = 0) (hly : ppu_reg s env.io.LY = 0) (n : Nat) :
    ∃ (rs : List Bool) (s1 : PpuSys X),
      ppu_dots env fuel n s = some (rs, s1) ∧ rs.length = n ∧
      (∀ i, i < n → rs.getD i false = decide ((i + 1) % DOT_PER_FRAME = 0)) ∧
      s1.ppu.sc_dot = n % DOTS_PER_SCANLINE ∧
      ppu_reg s1 env.io.LY = n / DOTS_PER_SCANLINE % SCAN_LINE_QUANTITY ∧
      s1.ppu.sc_dot < DOTS_PER_SCANLINE ∧ ppu_reg s1 env.io.LY < SCAN_LINE_QUANTITY ∧
      s1.ppu.running = true := by
  obtain ⟨rs, s1, r1, r2, r3, r4, r5, r6⟩ := ppu_dots_timing env hw fuel hfuel n s hinv
  rw [hdot, hly] at r5 r6
  simp only [Nat.zero_mul, Nat.zero_add] at r5 r6
  refine ⟨rs, s1, r1, r3, ?_, r5, r6, r2.2.1, r2.2.2.1, r2.1⟩
  intro i hi
  rw [r4 i hi, hdot, hly]
  simp only [Nat.zero_mul, Nat.zero_add]

/-- Witness for C29: the PPU after `init_ppu` and `init_pipeline`, LCD on
(LCDC = 0x80), at dot 0 of line 0 on the bus of `mmuTables`: 70224 calls of
`ppu_dot` return, the last one returns true, and the PPU is back at dot 0 of
line 0. -/
theorem C29_frame_timing_witness :
    ∃ (rs : List Bool) (s1 : PpuSys Unit),
      ppu_dots hwEnv 128 70224
        (lcdSys (mmuMem (regMem [(0xFF40, 0x80)]) (fun _ => 0) false) .HBLANK 0) =
        some (rs, s1) ∧
      rs.getD 70223 false = true ∧ rs.getD 0 false = false ∧
      s1.ppu.sc_dot = 0 ∧ ppu_reg s1 0xFF44 = 0 := by
  obtain ⟨rs, s1, h1, h2, h3, h4, h5, -⟩ := C29_frame_timing hwEnv
    ⟨rfl, by decide, by decide, by decide, by decide, by decide, by decide⟩ 128 (by decide)
    (lcdSys (mmuMem (regMem [(0xFF40, 0x80)]) (fun _ => 0) false) .HBLANK 0)
    ⟨rfl, by decide, by decide, rfl, rfl, by decide, rfl, rfl, by intro h; cases h⟩ rfl rfl 70224
  exact ⟨rs, s1, h1, by rw [h3 70223 (by decide)]; decide, by rw [h3 0 (by decide)]; decide,
    h4, h5⟩

/-! ## C30: frame size -/


/-! ### The stores into the frame buffer -/

/-- Dots on which nothing is rendered: the line is not being rendered and the
run does not reach dot 80 of a visible line. -/
theorem idle_dots (env : PpuEnv X) (hw : ppu_wired env) (fuel : Nat) (hfuel : 128 ≤ fuel) :
    ∀ (n : Nat) (s : PpuSys X), lcd_inv (lcd_core env s) → s.ppu.sc_rendering = false →
      s.ppu.sc_dot + n ≤ 456 →
      (144 ≤ ppu_reg s env.io.LY ∨ 80 < s.ppu.sc_dot ∨ s.ppu.sc_dot + n ≤ 80) →
      ∃ (rs : List Bool) (s1 : PpuSys X),
        ppu_dots env fuel n s = some (rs, s1) ∧ lcd_inv (lcd_core env s1) ∧
        s1.ppu.sc_rendering = false ∧ s1.stores = s.stores ∧
        s1.ppu.sc_dot = (s.ppu.sc_dot + n) % 456 ∧
        ppu_reg s1 env.io.LY =
          (if s.ppu.sc_dot + n = 456 then (ppu_reg s env.io.LY + 1) % 154
           else ppu_reg s env.io.LY) := by
  intro n
  induction n with
  | zero =>
    intro s hinv hscr hn hc
    have hd : s.ppu.sc_dot < 456 := hinv.2.1
    refine ⟨[], s, rfl, hinv, hscr, rfl, ?_, ?_⟩
    · rw [Nat.add_zero, Nat.mod_eq_of_lt hd]
    · rw [if_neg (by omega)]
  | succ n ih =>
    intro s hinv hscr hn hc
    have hd : s.ppu.sc_dot < 456 := hinv.2.1
    obtain ⟨fr, s1, h1, h2, h3, h4, h5, -, -, h8⟩ := ppu_dot_spec env hw fuel hfuel s hinv
    have hnot : ¬ (ppu_reg s env.io.LY < 144 ∧ s.ppu.sc_dot = 80) := by
      intro h
      rcases hc with hc | hc | hc
      · exact absurd h.1 (by omega)
      · rw [h.2] at hc
        exact absurd hc (by decide)
      · rw [h.2] at hc
        omega
    obtain ⟨g1, g2⟩ := h8 ⟨hnot, hscr⟩
    cases n with
    | zero =>
      refine ⟨[fr], s1, ppu_dots_succ env fuel 0 s fr s1 [] s1 h1 rfl, h2, g2, g1, h3, ?_⟩
      rw [h4]
      by_cases e : s.ppu.sc_dot = 455
      · rw [if_pos e, if_pos (by omega)]
      · rw [if_neg e, if_neg (by omega)]
    | succ n =>
      have e : ¬ s.ppu.sc_dot = 455 := by omega
      rw [if_neg e] at h4
      have h3b : s1.ppu.sc_dot = s.ppu.sc_dot + 1 := by
        rw [h3]
        omega
      obtain ⟨rs, s2, r1, r2, r3, r4, r5, r6⟩ := ih s1 h2 g2 (by rw [h3b]; omega) (by
        rw [h3b, h4]
        rcases hc with hc | hc | hc
        · exact Or.inl hc
        · exact Or.inr (Or.inl (by omega))
        · exact Or.inr (Or.inr (by omega)))
      refine ⟨fr :: rs, s2, ppu_dots_succ env fuel (n + 1) s fr s1 rs s2 h1 r1, r2, r3,
        by rw [r4, g1], ?_, ?_⟩
      · rw [r5, h3b]
        congr 1
        omega
      · rw [r6, h3b, h4]
        by_cases e2 : s.ppu.sc_dot + 1 + (n + 1) = 456
        · rw [if_pos e2, if_pos (by omega)]
        · rw [if_neg e2, if_neg (by omega)]

/-- Dots on which the line is rendered: from `lx = j` at dot `80 + j`, `k` calls
store the pixels `j .. j + k - 1` of the line, in order. -/
theorem drawing_dots (env : PpuEnv X) (hw : ppu_wired env) (fuel : Nat) (hfuel : 128 ≤ fuel) :
    ∀ (k j : Nat) (s : PpuSys X), lcd_inv (lcd_core env s) → ppu_reg s env.io.LY < 144 →
      1 ≤ j → j + k ≤ 160 → s.ppu.sc_dot = 80 + j → s.ppu.lx = j →
      s.ppu.mode = .DRAWING → s.ppu.sc_rendering = decide (j < 160) →
      ∃ (rs : List Bool) (s1 : PpuSys X),
        ppu_dots env fuel k s = some (rs, s1) ∧ lcd_inv (lcd_core env s1) ∧
        s1.stores = s.stores ++ (List.range' j k).map (fun x => ppu_reg s env.io.LY * 160 + x) ∧
        s1.ppu.sc_dot = 80 + j + k ∧ s1.ppu.lx = j + k ∧ s1.ppu.mode = .DRAWING ∧
        s1.ppu.sc_rendering = decide (j + k < 160) ∧
        ppu_reg s1 env.io.LY = ppu_reg s env.io.LY := by
  intro k
  induction k with
  | zero =>
    intro j s hinv hly hj hjk hd hlx hm hscr
    exact ⟨[], s, rfl, hinv, by simp, hd, hlx, hm, hscr, rfl⟩
  | succ k ih =>
    intro j s hinv hly hj hjk hd hlx hm hscr
    have hj160 : j < 160 := by omega
    have hscr2 : s.ppu.sc_rendering = true := by
      rw [hscr]
      simp only [decide_eq_true_eq]
      exact hj160
    obtain ⟨fr, s1, h1, h2, h3, h4, h5, -, h7, -⟩ := ppu_dot_spec env hw fuel hfuel s hinv
    obtain ⟨g1, g2, g3, g4⟩ := h7 ⟨hly, by omega, by omega, hm, hscr2⟩
    have e : ¬ s.ppu.sc_dot = 455 := by omega
    rw [if_neg e] at h4
    have h3b : s1.ppu.sc_dot = 80 + (j + 1) := by
      rw [h3, hd]
      omega
    obtain ⟨rs, s2, r1, r2, r3, r4, r5, r6, r7, r8⟩ := ih (j + 1) s1 h2 (by rw [h4]; exact hly)
      (by omega) (by omega) h3b (by rw [g2, hlx]) g4 (by rw [g3, hlx])
    refine ⟨fr :: rs, s2, ppu_dots_succ env fuel k s fr s1 rs s2 h1 r1, r2, ?_, ?_, ?_, r6, ?_,
      by rw [r8, h4]⟩
    · rw [r3, g1, h4, hlx, List.range'_succ, List.map_cons, List.append_assoc]
      rfl
    · rw [r4]
      omega
    · rw [r5]
      omega
    · rw [r7]
      congr 1
      simp only [eq_iff_iff]
      omega

/-- A visible line from its dot 0, with no line being rendered: after `n ≤ 456`
calls the stores made are those of the pixels `0 .. min (n - 80) 160 - 1` of the
line, in order; after the 456 calls the next line is at its dot 0. -/
theorem visible_line (env : PpuEnv X) (hw : ppu_wired env) (fuel : Nat) (hfuel : 128 ≤ fuel)
    (s : PpuSys X) (hinv : lcd_inv (lcd_core env s)) (hscr : s.ppu.sc_rendering = false)
    (hd : s.ppu.sc_dot = 0) (hly : ppu_reg s env.io.LY < 144) (n : Nat) (hn : n ≤ 456) :
    ∃ (rs : List Bool) (s1 : PpuSys X),
      ppu_dots env fuel n s = some (rs, s1) ∧
      s1.stores = s.stores ++
        (List.range (min (n - 80) 160)).map (fun x => ppu_reg s env.io.LY * 160 + x) ∧
      (n = 456 → lcd_inv (lcd_core env s1) ∧ s1.ppu.sc_rendering = false ∧
        s1.ppu.sc_dot = 0 ∧ ppu_reg s1 env.io.LY = ppu_reg s env.io.LY + 1) := by
  by_cases h80 : n ≤ 80
  · obtain ⟨rs, s1, r1, r2, r3, r4, r5, r6⟩ := idle_dots env hw fuel hfuel n s hinv hscr
      (by omega) (Or.inr (Or.inr (by omega)))
    refine ⟨rs, s1, r1, ?_, fun h => by omega⟩
    rw [r4, show min (n - 80) 160 = 0 by omega]
    simp
  · -- the 80 dots before the drawing
    obtain ⟨ra, sa, a1, a2, a3, a4, a5, a6⟩ := idle_dots env hw fuel hfuel 80 s hinv hscr
      (by omega) (Or.inr (Or.inr (by omega)))
    rw [hd] at a5 a6
    rw [if_neg (by decide)] at a6
    have a5b : sa.ppu.sc_dot = 80 := a5
    -- dot 80: the first pixel
    obtain ⟨fb, sb, b1, b2, b3, b4, b5, b6, -, -⟩ := ppu_dot_spec env hw fuel hfuel sa a2
    obtain ⟨g1, g2, g3, g4⟩ := b6 ⟨by rw [a6]; exact hly, a5b⟩
    rw [a5b] at b3 b4
    rw [if_neg (by decide)] at b4
    have b3b : sb.ppu.sc_dot = 80 + 1 := b3
    have hone : ppu_dots env fuel 1 sa = some ([fb], sb) :=
      ppu_dots_succ env fuel 0 sa fb sb [] sb b1 rfl
    have h81 := ppu_dots_add env fuel 80 1 s sa sb ra [fb] a1 hone
    by_cases h240 : n ≤ 240
    · obtain ⟨rc, sc, c1, c2, c3, c4, c5, c6, c7, c8⟩ := drawing_dots env hw fuel hfuel (n - 81) 1
        sb b2 (by rw [b4, a6]; exact hly) (le_refl _) (by omega) b3b g2 g4 (by rw [g3]; rfl)
      have htot := ppu_dots_add env fuel (80 + 1) (n - 81) s sb sc _ rc h81 c1
      rw [show 80 + 1 + (n - 81) = n by omega] at htot
      refine ⟨_, sc, htot, ?_, fun h => by omega⟩
      rw [c3, g1, a4, b4, a6, show min (n - 80) 160 = (n - 81) + 1 by omega, List.range_eq_range',
        List.range'_succ, List.map_cons, List.append_assoc]
      rfl
    · obtain ⟨rc, sc, c1, c2, c3, c4, c5, c6, c7, c8⟩ := drawing_dots env hw fuel hfuel 159 1
        sb b2 (by rw [b4, a6]; exact hly) (le_refl _) (by decide) b3b g2 g4 (by rw [g3]; rfl)
      have h240b := ppu_dots_add env fuel (80 + 1) 159 s sb sc _ rc h81 c1
      have c4b : sc.ppu.sc_dot = 240 := c4
      have c7b : sc.ppu.sc_rendering = false := c7
      obtain ⟨re, se, e1, e2, e3, e4, e5, e6⟩ := idle_dots env hw fuel hfuel (n - 240) sc c2 c7b
        (by rw [c4b]; omega) (Or.inr (Or.inl (by rw [c4b]; decide)))
      have htot := ppu_dots_add env fuel (80 + 1 + 159) (n - 240) s sc se _ re h240b e1
      rw [show 80 + 1 + 159 + (n - 240) = n by omega] at htot
      refine ⟨_, se, htot, ?_, ?_⟩
      · rw [e4, c3, g1, a4, b4, a6, show min (n - 80) 160 = 159 + 1 by omega,
          List.range_eq_range', List.range'_succ, List.map_cons, List.append_assoc]
        rfl
      · intro h
        subst h
        rw [c4b] at e5 e6
        rw [if_pos (by decide), c8, b4, a6] at e6
        refine ⟨e2, e3, e5, ?_⟩
        rw [e6]
        exact Nat.mod_eq_of_lt (by omega)

/-- The lines of a frame from dot 0 of line 0: after `L ≤ 154` lines the stores
made are those of the indices `0 .. 160 * min L 144 - 1`, in order. -/
theorem frame_lines (env : PpuEnv X) (hw : ppu_wired env) (fuel : Nat) (hfuel : 128 ≤ fuel)
    (s : PpuSys X) (hinv : lcd_inv (lcd_core env s)) (hscr : s.ppu.sc_rendering = false)
    (hd : s.ppu.sc_dot = 0) (hly : ppu_reg s env.io.LY = 0) :
    ∀ L, L ≤ 154 →
      ∃ (rs : List Bool) (s1 : PpuSys X),
        ppu_dots env fuel (L * 456) s = some (rs, s1) ∧ lcd_inv (lcd_core env s1) ∧
        s1.ppu.sc_rendering = false ∧ s1.ppu.sc_dot = 0 ∧ ppu_reg s1 env.io.LY = L % 154 ∧
        s1.stores = s.stores ++ List.range (160 * min L 144) := by
  intro L
  induction L with
  | zero =>
    intro _
    exact ⟨[], s, rfl, hinv, hscr, hd, hly, by simp⟩
  | succ L ih =>
    intro hL
    obtain ⟨ra, sa, a1, a2, a3, a4, a5, a6⟩ := ih (by omega)
    have a5b : ppu_reg sa env.io.LY = L := by
      rw [a5]
      exact Nat.mod_eq_of_lt (by omega)
    by_cases hv : L < 144
    · obtain ⟨rb, sb, b1, b2, b3⟩ := visible_line env hw fuel hfuel sa a2 a3 a4
        (by rw [a5b]; exact hv) 456 (le_refl _)
      obtain ⟨c1, c2, c3, c4⟩ := b3 rfl
      have htot := ppu_dots_add env fuel (L * 456) 456 s sa sb ra rb a1 b1
      rw [show L * 456 + 456 = (L + 1) * 456 by ring] at htot
      refine ⟨_, sb, htot, c1, c2, c3, ?_, ?_⟩
      · rw [c4, a5b]
        exact (Nat.mod_eq_of_lt (by omega)).symm
      · rw [b2, a6, a5b, List.append_assoc, show min (456 - 80) 160 = 160 by decide,
          show min L 144 = L by omega, show min (L + 1) 144 = L + 1 by omega,
          show 160 * (L + 1) = 160 * L + 160 by ring, List.range_add]
        congr 2
        apply List.map_congr_left
        intro x _
        ring
    · obtain ⟨rb, sb, b1, b2, b3, b4, b5, b6⟩ := idle_dots env hw fuel hfuel 456 sa a2 a3
        (by rw [a4]) (Or.inl (by rw [a5b]; omega))
      have htot := ppu_dots_add env fuel (L * 456) 456 s sa sb ra rb a1 b1
      rw [show L * 456 + 456 = (L + 1) * 456 by ring] at htot
      rw [a4] at b5 b6
      refine ⟨_, sb, htot, b2, b3, b5, ?_, ?_⟩
      · rw [b6, if_pos (by decide), a5b]
      · rw [b4, a6, show min L 144 = 144 by omega, show min (L + 1) 144 = 144 by omega]

/-- C30: with the LCD running, the queues as `init_pipeline` makes them and the
bus wired as `init_tables` does, start at dot 0 of a line with no line being
rendered. On a visible line (LY < 144) every run of `n ≤ 456` calls of `ppu_dot`
returns (with fuel 128), and the stores into the frame buffer it makes are
exactly those at the indices `LY * 160 + lx` for `lx = 0, 1, ...,
min (n - 80) 160 - 1`, in this order: one store per call from the call at dot
80 on, 160 stores in all, none after the call at dot 239; every such index is
below 160 * 144. From line 0, the 70224 calls of a frame make exactly the
stores at the indices 0, 1, ..., 160 * 144 - 1, in order. -/
theorem C30_frame_size (env : PpuEnv X) (hw : ppu_wired env) (fuel : Nat)
    (hfuel : 128 ≤ fuel) (s : PpuSys X) (hinv : lcd_inv (lcd_core env s))
    (hscr : s.ppu.sc_rendering = false) (hd : s.ppu.sc_dot = 0) :
    (ppu_reg s env.io.LY < GBC_HEIGHT →
      (∀ n, n ≤ DOTS_PER_SCANLINE →
        ∃ (rs : List Bool) (s1 : PpuSys X),
          ppu_dots env fuel n s = some (rs, s1) ∧
          s1.stores = s.stores ++
            (List.range (min (n - 80) GBC_WIDTH)).map
              (fun lx => ppu_reg s env.io.LY * GBC_WIDTH + lx)) ∧
      (∀ lx, lx < GBC_WIDTH → ppu_reg s env.io.LY * GBC_WIDTH + lx < GBC_WIDTH * GBC_HEIGHT)) ∧
    (ppu_reg s env.io.LY = 0 →
      ∃ (rs : List Bool) (s1 : PpuSys X),
        ppu_dots env fuel DOT_PER_FRAME s = some (rs, s1) ∧
        s1.stores = s.stores ++ List.range (GBC_WIDTH * GBC_HEIGHT)) := by
  constructor
  · intro hly
    constructor
    · intro n hn
      obtain ⟨rs, s1, r1, r2, -⟩ := visible_line env hw fuel hfuel s hinv hscr hd hly n hn
      exact ⟨rs, s1, r1, r2⟩
    · intro lx hlx
      have h1 : ppu_reg s env.io.LY < 144 := hly
      have h2 : lx < 160 := hlx
      show ppu_reg s env.io.LY * 160 + lx < 160 * 144
      omega
  · intro hly
    obtain ⟨rs, s1, r1, r2, r3, r4, r5, r6⟩ := frame_lines env hw fuel hfuel s hinv hscr hd hly
      154 (le_refl _)
    exact ⟨rs, s1, r1, r6⟩

/-- Witness for C30: the PPU after `init_ppu` and `init_pipeline`, LCD on, at
dot 0 of line 0 on the bus of `mmuTables`: the 70224 calls of a frame return
and make exactly the stores at the indices 0 .. 23039 in order, and 100 calls
make the stores of the first 20 pixels of line 0. -/
theorem C30_frame_size_witness :
    (∃ (rs : List Bool) (s1 : PpuSys Unit),
      ppu_dots hwEnv 128 70224
        (lcdSys (mmuMem (regMem [(0xFF40, 0x80)]) (fun _ => 0) false) .HBLANK 0) =
        some (rs, s1) ∧
      s1.stores = List.range 23040) ∧
    (∃ (rs : List Bool) (s1 : PpuSys Unit),
      ppu_dots hwEnv 128 100
        (lcdSys (mmuMem (regMem [(0xFF40, 0x80)]) (fun _ => 0) false) .HBLANK 0) =
        some (rs, s1) ∧
      s1.stores = List.range 20) := by
  have h := C30_frame_size hwEnv
    ⟨rfl, by decide, by decide, by decide, by decide, by decide, by decide⟩ 128 (by decide)
    (lcdSys (mmuMem (regMem [(0xFF40, 0x80)]) (fun _ => 0) false) .HBLANK 0)
    ⟨rfl, by decide, by decide, rfl, rfl, by decide, rfl, rfl, by intro h; cases h⟩ rfl rfl
  constructor
  · obtain ⟨rs, s1, r1, r2⟩ := h.2 rfl
    exact ⟨rs, s1, r1, by rw [r2]; exact List.nil_append _⟩
  · obtain ⟨rs, s1, r1, r2⟩ := (h.1 (by decide)).1 100 (by decide)
    refine ⟨rs, s1, r1, ?_⟩
    rw [r2]
    exact List.nil_append _


/-! ## C36: the LFSR of channel 4 -/

@[simp] theorem with_ch_same (s : ApuSys) (c : ChannelRef) (f : Channel → Channel) :
    (with_ch s c f).apu.ch c = f (s.apu.ch c) := by
  simp [with_ch]

theorem with_ch_other (s : ApuSys) (c x : ChannelRef) (f : Channel → Channel) (h : x ≠ c) :
    (with_ch s c f).apu.ch x = s.apu.ch x := by
  simp [with_ch, h]

@[simp] theorem with_ch_memory (s : ApuSys) (c : ChannelRef) (f : Channel → Channel) :
    (with_ch s c f).memory = s.memory := rfl

@[simp] theorem with_ch_wave_ram (s : ApuSys) (c : ChannelRef) (f : Channel → Channel) :
    (with_ch s c f).wave_ram = s.wave_ram := rfl

@[simp] theorem with_ch_noise_period (s : ApuSys) (c : ChannelRef) (f : Channel → Channel) :
    (with_ch s c f).noise_period = s.noise_period := rfl

@[simp] theorem with_ch_powered (s : ApuSys) (c : ChannelRef) (f : Channel → Channel) :
    (with_ch s c f).apu.powered = s.apu.powered := rfl

@[simp] theorem with_ch_frame (s : ApuSys) (c : ChannelRef) (f : Channel → Channel) :
    (with_ch s c f).apu.frame = s.apu.frame := rfl

@[simp] theorem with_ch_fsu (s : ApuSys) (c : ChannelRef) (f : Channel → Channel) :
    (with_ch s c f).apu.fsu = s.apu.fsu := rfl

@[simp] theorem with_ch_reg8 (s : ApuSys) (c : ChannelRef) (f : Channel → Channel) (p : Nat) :
    reg8 (with_ch s c f) p = reg8 s p := rfl

theorem testBit_zero_and (l : Nat) : decide (l &&& BIT_0_MASK ≠ 0) = l.testBit 0 := by
  rw [Nat.testBit_zero]
  show decide (l &&& 1 ≠ 0) = _
  rw [Nat.and_one_is_mod]
  rcases Nat.mod_two_eq_zero_or_one l with h | h <;> simp [h]

theorem testBit_one_and (l : Nat) : decide ((l >>> 1) &&& BIT_0_MASK ≠ 0) = l.testBit 1 := by
  rw [testBit_zero_and, Nat.testBit_shiftRight]

theorem shift_testBit_zero (l : Nat) : (l >>> 1).testBit 0 = l.testBit 1 := by
  rw [Nat.testBit_shiftRight]

theorem feedback_eq (a b : Bool) :
    (0xFFFF ^^^ (b2n a ^^^ b2n b)) &&& BIT_0_MASK = if a = b then 1 else 0 := by
  cases a <;> cases b <;> decide

theorem lfsr_word (l fb : Nat) (hfb : fb ≤ 1) :
    (l &&& 0x7FFF) ||| (fb <<< 15) < 65536 ∧
    (((l &&& 0x7FFF) ||| (fb <<< 15)) &&& 0xFF7F) ||| (fb <<< 7) < 65536 := by
  have h1 : l &&& 0x7FFF < 2 ^ 16 := lt_of_le_of_lt Nat.and_le_right (by decide)
  have h2 : fb <<< 15 < 2 ^ 16 := by
    rcases Nat.le_one_iff_eq_zero_or_eq_one.mp hfb with h | h <;> subst h <;> decide
  have h3 : fb <<< 7 < 2 ^ 16 := by
    rcases Nat.le_one_iff_eq_zero_or_eq_one.mp hfb with h | h <;> subst h <;> decide
  have h4 := Nat.or_lt_two_pow h1 h2
  exact ⟨h4, Nat.or_lt_two_pow (lt_of_le_of_lt Nat.and_le_left h4) h3⟩

theorem clock_lfsr_lfsr (s : ApuSys) (c : ChannelRef) :
    ((clock_lfsr s c).apu.ch c).lfsr =
      (if reg8 s (s.apu.ch c).nrx4 &&& BIT_3_MASK ≠ 0 then
        ((((s.apu.ch c).lfsr &&& 0x7FFF) |||
            ((if ((s.apu.ch c).lfsr).testBit 0 = ((s.apu.ch c).lfsr).testBit 1 then 1 else 0)
              <<< 15)) &&& 0xFF7F) |||
          ((if ((s.apu.ch c).lfsr).testBit 0 = ((s.apu.ch c).lfsr).testBit 1 then 1 else 0)
            <<< 7)
       else
        ((s.apu.ch c).lfsr &&& 0x7FFF) |||
          ((if ((s.apu.ch c).lfsr).testBit 0 = ((s.apu.ch c).lfsr).testBit 1 then 1 else 0)
            <<< 15)) >>> 1 ∧
    ((clock_lfsr s c).apu.ch c).output =
      (if ((s.apu.ch c).lfsr).testBit 0 = ((s.apu.ch c).lfsr).testBit 1 then (s.apu.ch c).volume
       else 0) := by
  have hfb : (if ((s.apu.ch c).lfsr).testBit 0 = ((s.apu.ch c).lfsr).testBit 1 then 1 else 0)
      ≤ 1 := by split <;> decide
  obtain ⟨w1, w2⟩ := lfsr_word (s.apu.ch c).lfsr _ hfb
  unfold clock_lfsr
  simp only [with_ch_same, testBit_zero_and, shift_testBit_zero, feedback_eq,
    Nat.mod_eq_of_lt w1]
  constructor
  · by_cases h : reg8 s (s.apu.ch c).nrx4 &&& BIT_3_MASK ≠ 0
    · simp only [if_pos h, Nat.mod_eq_of_lt w2]
    · simp only [if_neg h]
  · by_cases h : ((s.apu.ch c).lfsr).testBit 0 = ((s.apu.ch c).lfsr).testBit 1
    · simp [h]
    · simp [h]

/-- C36 (what one clock of the LFSR does): with `fb = ~(bit0 ^ bit1) & 1` of the
current value, `clock_lfsr` puts `fb` into bit 15, copies it into bit 7
exactly when bit 3 of the byte behind `ch->nrx4` is set, shifts right by one
(so `fb` is bit 14 of the result, which is below 2^15) and sets the output to
the volume if `fb` is 1 and to 0 otherwise. For channel 4 `link_apu` makes
`nrx4` the address NR44 and `nrx3` the address NR43: with NR43 = 0x08 and
NR44 = 0x80 the clock from LFSR 0 gives 0x4000 (no copy into bit 7), and with
NR43 = 0x00 and NR44 = 0x88 it gives 0x4040 (copy). -/
theorem C36_lfsr_clock (s : ApuSys) (c : ChannelRef) (io : ApuMap) (apu : APU) :
    ((clock_lfsr s c).apu.ch c).lfsr =
      (if reg8 s (s.apu.ch c).nrx4 &&& BIT_3_MASK ≠ 0 then
        ((((s.apu.ch c).lfsr &&& 0x7FFF) |||
            ((if ((s.apu.ch c).lfsr).testBit 0 = ((s.apu.ch c).lfsr).testBit 1 then 1 else 0)
              <<< 15)) &&& 0xFF7F) |||
          ((if ((s.apu.ch c).lfsr).testBit 0 = ((s.apu.ch c).lfsr).testBit 1 then 1 else 0)
            <<< 7)
       else
        ((s.apu.ch c).lfsr &&& 0x7FFF) |||
          ((if ((s.apu.ch c).lfsr).testBit 0 = ((s.apu.ch c).lfsr).testBit 1 then 1 else 0)
            <<< 15)) >>> 1 ∧
    ((clock_lfsr s c).apu.ch c).lfsr < 2 ^ 15 ∧
    (((clock_lfsr s c).apu.ch c).lfsr).testBit 14 =
      decide (((s.apu.ch c).lfsr).testBit 0 = ((s.apu.ch c).lfsr).testBit 1) ∧
    ((clock_lfsr s c).apu.ch c).output =
      (if ((s.apu.ch c).lfsr).testBit 0 = ((s.apu.ch c).lfsr).testBit 1 then (s.apu.ch c).volume
       else 0) ∧
    ((link_apu io apu).ch .ch4).nrx4 = io.NR44 ∧
    ((link_apu io apu).ch .ch4).nrx3 = io.NR43 ∧
    ((clock_lfsr (apu_init hwApu (regMem [(0xFF22, 0x08), (0xFF23, 0x80)]) (fun _ => 0))
      .ch4).apu.ch .ch4).lfsr = 0x4000 ∧
    ((clock_lfsr (apu_init hwApu (regMem [(0xFF22, 0x00), (0xFF23, 0x88)]) (fun _ => 0))
      .ch4).apu.ch .ch4).lfsr = 0x4040 := by
  obtain ⟨h1, h2⟩ := clock_lfsr_lfsr s c
  have hfb : (if ((s.apu.ch c).lfsr).testBit 0 = ((s.apu.ch c).lfsr).testBit 1 then 1 else 0)
      ≤ 1 := by split <;> decide
  obtain ⟨w1, w2⟩ := lfsr_word (s.apu.ch c).lfsr _ hfb
  refine ⟨h1, ?_, ?_, h2, rfl, rfl, by decide, by decide⟩
  · rw [h1, Nat.shiftRight_eq_div_pow]
    split <;> omega
  · have t1 : Nat.testBit 32767 15 = false := by decide
    have t2 : Nat.testBit 32768 15 = true := by decide
    have t3 : Nat.testBit 65407 15 = true := by decide
    have t4 : Nat.testBit 128 15 = false := by decide
    rw [h1, Nat.testBit_shiftRight]
    by_cases hb : ((s.apu.ch c).lfsr).testBit 0 = ((s.apu.ch c).lfsr).testBit 1
    · simp only [hb, if_true, decide_True]
      split <;> simp [Nat.testBit_or, Nat.testBit_and, Nat.testBit_shiftLeft, t1, t2, t3, t4]
    · simp only [hb, if_false, decide_False]
      split <;> simp [Nat.testBit_or, Nat.testBit_and, Nat.testBit_shiftLeft, t1, t2, t3, t4]

/-! ## The APU: frames and invariants -/

theorem only_ch_refl (c : ChannelRef) (s : ApuSys) : only_ch c s s :=
  ⟨rfl, rfl, rfl, rfl, rfl, rfl, fun _ _ => rfl⟩

theorem only_ch_trans {c : ChannelRef} {s t u : ApuSys} (h1 : only_ch c s t)
    (h2 : only_ch c t u) : only_ch c s u := by
  obtain ⟨a1, a2, a3, a4, a5, a6, a7⟩ := h1
  obtain ⟨b1, b2, b3, b4, b5, b6, b7⟩ := h2
  exact ⟨b1.trans a1, b2.trans a2, b3.trans a3, b4.trans a4, b5.trans a5, b6.trans a6,
    fun x hx => (b7 x hx).trans (a7 x hx)⟩

theorem only_ch_with_ch {c : ChannelRef} {s t : ApuSys} (f : Channel → Channel)
    (h : only_ch c s t) : only_ch c s (with_ch t c f) :=
  only_ch_trans h ⟨rfl, rfl, rfl, rfl, rfl, rfl, fun x hx => with_ch_other t c x f hx⟩

theorem clock_pulse_divider_only (s : ApuSys) (c : ChannelRef) :
    only_ch c s (clock_pulse_divider s c) := by
  unfold clock_pulse_divider
  dsimp only
  split_ifs <;> repeat' first | with_reducible exact only_ch_refl _ _ | with_reducible apply only_ch_with_ch

theorem clock_pulse_timer_only (s : ApuSys) (c : ChannelRef) :
    only_ch c s (clock_pulse_timer s c) := by
  unfold clock_pulse_timer
  dsimp only
  split_ifs <;> repeat' first
    | with_reducible apply only_ch_trans _ (clock_pulse_divider_only _ _)
    | with_reducible exact only_ch_refl _ _
    | with_reducible apply only_ch_with_ch

theorem apply_coarse_wave_volume_only (s : ApuSys) (c : ChannelRef) :
    only_ch c s (apply_coarse_wave_volume s c) := by
  unfold apply_coarse_wave_volume
  split <;> repeat' first | with_reducible exact only_ch_refl _ _ | with_reducible apply only_ch_with_ch

theorem advance_general_waveform_only (s : ApuSys) (c : ChannelRef) :
    only_ch c s (advance_general_waveform s c) := by
  unfold advance_general_waveform
  dsimp only
  repeat' first
    | with_reducible apply only_ch_trans _ (apply_coarse_wave_volume_only _ _)
    | with_reducible exact only_ch_refl _ _
    | with_reducible apply only_ch_with_ch

theorem clock_wave_divider_only (s : ApuSys) (c : ChannelRef) :
    only_ch c s (clock_wave_divider s c) := by
  unfold clock_wave_divider
  dsimp only
  split_ifs <;> repeat' first
    | with_reducible apply only_ch_trans _ (advance_general_waveform_only _ _)
    | with_reducible exact only_ch_refl _ _
    | with_reducible apply only_ch_with_ch

theorem clock_wave_timer_only (s : ApuSys) : only_ch .ch3 s (clock_wave_timer s) := by
  unfold clock_wave_timer
  dsimp only
  split_ifs <;> repeat' first
    | with_reducible apply only_ch_trans _ (clock_wave_divider_only _ _)
    | with_reducible exact only_ch_refl _ _
    | with_reducible apply only_ch_with_ch

theorem clock_lfsr_only (s : ApuSys) (c : ChannelRef) : only_ch c s (clock_lfsr s c) := by
  unfold clock_lfsr
  dsimp only
  repeat' first | with_reducible exact only_ch_refl _ _ | with_reducible apply only_ch_with_ch

theorem clock_noise_timer_only (s : ApuSys) : only_ch .ch4 s (clock_noise_timer s) := by
  unfold clock_noise_timer
  dsimp only
  split_ifs <;> repeat' first
    | with_reducible apply only_ch_trans _ (clock_lfsr_only _ _)
    | with_reducible exact only_ch_refl _ _
    | with_reducible apply only_ch_with_ch
theorem step_ok_refl (s : ApuSys) : step_ok s s :=
  ⟨rfl, rfl, fun _ h => h⟩

theorem step_ok_trans {s t u : ApuSys} (h1 : step_ok s t) (h2 : step_ok t u) : step_ok s u :=
  ⟨h2.1.trans h1.1, h2.2.1.trans h1.2.1, fun x h => h2.2.2 x (h1.2.2 x h)⟩

theorem step_ok_with_ch {s t : ApuSys} {c : ChannelRef} {f : Channel → Channel}
    (h : step_ok s t) (hf : chan_ok (t.apu.ch c) → chan_ok (f (t.apu.ch c))) :
    step_ok s (with_ch t c f) := by
  refine ⟨h.1, h.2.1, fun x hx => ?_⟩
  by_cases hxc : x = c
  · subst hxc
    rw [with_ch_same]
    exact hf (h.2.2 x hx)
  · rw [with_ch_other _ _ _ _ hxc]
    exact h.2.2 x hx

theorem step_ok_store8 {s t : ApuSys} {p v : Nat} (h : step_ok s t) : step_ok s (store8 t p v) :=
  h

theorem step_ok_with_fsu {s t : ApuSys} {f : FrequencySweepUnit → FrequencySweepUnit}
    (h : step_ok s t) : step_ok s (with_fsu t f) :=
  h

theorem sync_nr52_ok (s : ApuSys) : step_ok s (sync_nr52 s) :=
  step_ok_store8 (step_ok_refl s)

theorem disable_fsu_ok (s : ApuSys) : step_ok s (disable_fsu s) :=
  step_ok_with_fsu (step_ok_refl s)

theorem enable_fsu_ok (s : ApuSys) : step_ok s (enable_fsu s) :=
  step_ok_with_fsu (step_ok_refl s)

/-- What `disable_channel` does to the channels. -/
theorem disable_channel_ch (s : ApuSys) (c x : ChannelRef) :
    (disable_channel s c).apu.ch x =
      if x = c then
        { s.apu.ch c with output := 0, enabled := false, volume_envelope_enabled := false }
      else s.apu.ch x := by
  unfold disable_channel
  dsimp only
  split_ifs <;> simp [sync_nr52, store8, disable_fsu, with_fsu, with_ch, *]

theorem disable_channel_clock (s : ApuSys) (c : ChannelRef) :
    (disable_channel s c).apu.powered = s.apu.powered ∧
    (disable_channel s c).apu.frame = s.apu.frame := by
  unfold disable_channel
  dsimp only
  split_ifs <;> exact ⟨rfl, rfl⟩

/-- After `disable_channel` the channel is in order whenever its volume is. -/
theorem disable_channel_fixes (s : ApuSys) (c : ChannelRef) (h : (s.apu.ch c).volume ≤ 15) :
    chan_ok ((disable_channel s c).apu.ch c) := by
  rw [disable_channel_ch, if_pos rfl]
  exact ⟨fun _ => rfl, fun _ => rfl, h, Nat.zero_le _⟩

theorem disable_channel_ok (s : ApuSys) (c : ChannelRef) : step_ok s (disable_channel s c) := by
  refine ⟨(disable_channel_clock s c).1, (disable_channel_clock s c).2, fun x hx => ?_⟩
  by_cases hxc : x = c
  · subst hxc
    exact disable_channel_fixes s x hx.2.2.1
  · rw [disable_channel_ch, if_neg hxc]
    exact hx

theorem set_period_ok (s : ApuSys) (c : ChannelRef) (p : Nat) : step_ok s (set_period s c p) :=
  step_ok_store8 (step_ok_store8 (step_ok_refl s))

theorem length_timer_ok (s : ApuSys) (c : ChannelRef) : step_ok s (length_timer s c) := by
  unfold length_timer
  dsimp only
  split_ifs <;> repeat' first
    | with_reducible apply step_ok_trans _ (disable_channel_ok _ _)
    | with_reducible exact step_ok_refl _
    | with_reducible apply step_ok_with_ch
    | exact fun h => h

theorem volume_envelope_ok (s : ApuSys) (c : ChannelRef) : step_ok s (volume_envelope s c) := by
  unfold volume_envelope
  dsimp only
  split_ifs with h1 h2 h3 h4 h5
  · exact step_ok_refl _
  · exact step_ok_refl _
  · exact step_ok_with_ch (step_ok_refl _) (fun h => h)
  · simp only [with_ch_same] at h4
    refine step_ok_with_ch (step_ok_with_ch (step_ok_with_ch (step_ok_with_ch (step_ok_refl _)
      (fun h => h)) (fun h => h)) ?_) (fun h => h)
    simp only [with_ch_same]
    intro h
    refine ⟨h.1, h.2.1, ?_, h.2.2.2⟩
    show ((s.apu.ch c).volume + 1) % 256 ≤ 15
    have hv : (s.apu.ch c).volume < 15 := h4.2
    omega
  · simp only [with_ch_same] at h5
    refine step_ok_with_ch (step_ok_with_ch (step_ok_with_ch (step_ok_with_ch (step_ok_refl _)
      (fun h => h)) (fun h => h)) ?_) (fun h => h)
    simp only [with_ch_same]
    intro h
    refine ⟨h.1, h.2.1, ?_, h.2.2.2⟩
    show (s.apu.ch c).volume - 1 ≤ 15
    have hv : (s.apu.ch c).volume ≤ 15 := h.2.2.1
    omega
  · exact step_ok_with_ch (step_ok_with_ch (step_ok_refl _) (fun h => h)) (fun h => h)

theorem check_negate_latch_set_ok (s : ApuSys) : step_ok s (check_negate_latch_set s) := by
  unfold check_negate_latch_set
  split_ifs <;> first | exact step_ok_refl _ | exact step_ok_with_fsu (step_ok_refl _)

theorem check_negate_transition_ok (s : ApuSys) : step_ok s (check_negate_transition s) := by
  unfold check_negate_transition
  dsimp only
  split_ifs <;> repeat' first
    | with_reducible apply step_ok_trans _ (disable_channel_ok _ _)
    | with_reducible apply step_ok_trans _ (disable_fsu_ok _)
    | with_reducible exact step_ok_refl _
    | with_reducible apply step_ok_with_fsu

theorem calc_overflow_check_ok (s : ApuSys) (step : Nat) :
    step_ok s (calc_overflow_check s step) := by
  unfold calc_overflow_check
  dsimp only
  split_ifs <;> repeat' first
    | with_reducible apply step_ok_trans _ (disable_channel_ok _ _)
    | with_reducible apply step_ok_trans _ (disable_fsu_ok _)
    | with_reducible apply step_ok_trans _ (set_period_ok _ _ _)
    | with_reducible apply step_ok_trans _ (check_negate_latch_set_ok _)
    | with_reducible exact step_ok_refl _
    | with_reducible apply step_ok_with_fsu

theorem freq_sweep_ok (s : ApuSys) : step_ok s (freq_sweep s) := by
  unfold freq_sweep
  dsimp only
  split_ifs <;> repeat' first
    | with_reducible apply step_ok_trans _ (calc_overflow_check_ok _ _)
    | with_reducible apply step_ok_trans _ (disable_channel_ok _ _)
    | with_reducible apply step_ok_trans _ (disable_fsu_ok _)
    | with_reducible exact step_ok_refl _
    | with_reducible apply step_ok_with_fsu

theorem clock_volume_envelopes_ok (s : ApuSys) : step_ok s (clock_volume_envelopes s) :=
  step_ok_trans (step_ok_trans (volume_envelope_ok _ _) (volume_envelope_ok _ _))
    (volume_envelope_ok _ _)

theorem clock_length_timers_ok (s : ApuSys) : step_ok s (clock_length_timers s) :=
  step_ok_trans (step_ok_trans (step_ok_trans (length_timer_ok _ _) (length_timer_ok _ _))
    (length_timer_ok _ _)) (length_timer_ok _ _)

/-! ## The APU: the waveform clocks keep the invariant -/

theorem with_ch_with_ch (s : ApuSys) (c : ChannelRef) (f g : Channel → Channel) :
    with_ch (with_ch s c f) c g = with_ch s c (fun ch => g (f ch)) := by
  unfold with_ch
  simp only [if_true]
  congr 2
  funext x
  by_cases h : x = c <;> simp [h]

theorem chan_ok_output (ch : Channel) (v : Nat) (h : chan_ok ch) (he : ch.enabled = true)
    (hv : v ≤ 15) : chan_ok { ch with output := v } :=
  ⟨fun h0 => absurd (he.symm.trans h0) (by decide), h.2.1, h.2.2.1, hv⟩

theorem clock_pulse_divider_ok (s : ApuSys) (c : ChannelRef) (he : (s.apu.ch c).enabled = true) :
    step_ok s (clock_pulse_divider s c) := by
  unfold clock_pulse_divider
  dsimp only
  split_ifs <;> (try simp only [with_ch_with_ch]) <;>
    refine step_ok_with_ch (step_ok_refl _) (fun hk => ?_) <;>
    first
    | exact hk
    | exact chan_ok_output _ _ hk he hk.2.2.1
    | exact chan_ok_output _ _ hk he (Nat.zero_le _)

theorem clock_pulse_timer_ok (s : ApuSys) (c : ChannelRef) :
    step_ok s (clock_pulse_timer s c) := by
  unfold clock_pulse_timer
  dsimp only
  split_ifs with h1 h2
  · exact step_ok_refl _
  · exact step_ok_with_ch (step_ok_refl _) (fun h => h)
  · refine step_ok_trans (step_ok_with_ch (step_ok_with_ch (step_ok_refl _) (fun h => h))
      (fun h => h)) (clock_pulse_divider_ok _ _ ?_)
    simp only [with_ch_same]
    simpa using h1

theorem and_15_le (x : Nat) : x &&& LOWER_4_MASK ≤ 15 :=
  Nat.and_le_right

theorem apply_coarse_wave_volume_ok (s : ApuSys) (c : ChannelRef)
    (he : (s.apu.ch c).enabled = true) : step_ok s (apply_coarse_wave_volume s c) := by
  unfold apply_coarse_wave_volume
  split
  · refine step_ok_with_ch (step_ok_refl _) (fun hk => chan_ok_output _ _ hk he ?_)
    simp
  · refine step_ok_with_ch (step_ok_refl _) (fun hk => chan_ok_output _ _ hk he ?_)
    have := hk.2.2.2
    omega
  · refine step_ok_with_ch (step_ok_refl _) (fun hk => chan_ok_output _ _ hk he ?_)
    have := hk.2.2.2
    rw [Nat.shiftRight_eq_div_pow]
    omega
  · refine step_ok_with_ch (step_ok_refl _) (fun hk => chan_ok_output _ _ hk he ?_)
    have := hk.2.2.2
    rw [Nat.shiftRight_eq_div_pow]
    omega
  · exact step_ok_refl _

theorem advance_general_waveform_ok (s : ApuSys) (c : ChannelRef)
    (he : (s.apu.ch c).enabled = true) : step_ok s (advance_general_waveform s c) := by
  unfold advance_general_waveform
  dsimp only
  refine step_ok_with_ch (step_ok_trans ?_ (apply_coarse_wave_volume_ok _ _ ?_)) (fun h => h)
  · simp only [with_ch_with_ch]
    refine step_ok_with_ch (step_ok_refl _) (fun hk => chan_ok_output _ _ hk he ?_)
    exact and_15_le _
  · simp only [with_ch_same]
    exact he

theorem clock_wave_divider_ok (s : ApuSys) (c : ChannelRef) (he : (s.apu.ch c).enabled = true) :
    step_ok s (clock_wave_divider s c) := by
  unfold clock_wave_divider
  dsimp only
  split_ifs
  · refine step_ok_trans (step_ok_with_ch (step_ok_with_ch (step_ok_refl _) (fun h => h))
      (fun h => h)) (advance_general_waveform_ok _ _ ?_)
    simp only [with_ch_same]
    exact he
  · exact step_ok_with_ch (step_ok_refl _) (fun h => h)

theorem clock_wave_timer_ok (s : ApuSys) : step_ok s (clock_wave_timer s) := by
  unfold clock_wave_timer
  dsimp only
  split_ifs with h1 h2 h3
  · exact step_ok_refl _
  · exact step_ok_with_ch (step_ok_refl _) (fun h => h)
  · exact step_ok_with_ch (step_ok_refl _) (fun h => h)
  · refine step_ok_trans (step_ok_with_ch (step_ok_with_ch (step_ok_refl _) (fun h => h))
      (fun h => h)) (clock_wave_divider_ok _ _ ?_)
    simp only [with_ch_same]
    simpa using h1

theorem clock_lfsr_ok (s : ApuSys) (c : ChannelRef) (he : (s.apu.ch c).enabled = true) :
    step_ok s (clock_lfsr s c) := by
  unfold clock_lfsr
  dsimp only
  simp only [with_ch_with_ch]
  refine step_ok_with_ch (step_ok_refl _) (fun hk => ?_)
  refine ⟨fun h0 => absurd (he.symm.trans h0) (by decide), hk.2.1, hk.2.2.1, ?_⟩
  dsimp only
  split
  · exact Nat.zero_le _
  · exact hk.2.2.1

theorem clock_noise_timer_ok (s : ApuSys) : step_ok s (clock_noise_timer s) := by
  unfold clock_noise_timer
  dsimp only
  split_ifs with h1 h2
  · exact step_ok_refl _
  · exact step_ok_with_ch (step_ok_refl _) (fun h => h)
  · refine step_ok_trans (step_ok_with_ch (step_ok_with_ch (step_ok_refl _) (fun h => h))
      (fun h => h)) (clock_lfsr_ok _ _ ?_)
    simp only [with_ch_same]
    simpa using h1

theorem apu_dot_ok (s : ApuSys) : step_ok s (apu_dot s) :=
  step_ok_trans (step_ok_trans (step_ok_trans (clock_pulse_timer_ok _ _)
    (clock_pulse_timer_ok _ _)) (clock_wave_timer_ok _)) (clock_noise_timer_ok _)

/-! ## The APU: register writes and events keep the invariant -/

/-- An update of a channel that keeps `enabled`, `dac_enabled`, `output` and
`volume` keeps the invariant. -/
theorem step_ok_keep {s t : ApuSys} {c : ChannelRef} {f : Channel → Channel}
    (h : step_ok s t)
    (hf : ∀ ch, (f ch).enabled = ch.enabled ∧ (f ch).dac_enabled = ch.dac_enabled ∧
      (f ch).output = ch.output ∧ (f ch).volume = ch.volume) :
    step_ok s (with_ch t c f) := by
  refine step_ok_with_ch h (fun hk => ?_)
  obtain ⟨e1, e2, e3, e4⟩ := hf (t.apu.ch c)
  unfold chan_ok
  rw [e1, e2, e3, e4]
  exact hk

/-- An update of a channel under which `chan_ok` is kept. -/
theorem step_ok_chans {s t : ApuSys} (h : step_ok s t) (x : ChannelRef)
    (hx : chan_ok (s.apu.ch x)) : chan_ok (t.apu.ch x) :=
  h.2.2 x hx

theorem step_ok_upd {s t : ApuSys} {c : ChannelRef} {f : Channel → Channel}
    (h : step_ok s t) (hf : ∀ ch, chan_ok ch → chan_ok (f ch)) :
    step_ok s (with_ch t c f) :=
  step_ok_with_ch h (hf _)

theorem check_length_trigger_ok (s : ApuSys) (c : ChannelRef) :
    step_ok s (check_length_trigger s c) := by
  unfold check_length_trigger
  dsimp only
  split_ifs <;> repeat' first
    | with_reducible exact step_ok_refl _
    | with_reducible refine step_ok_trans ?_ (length_timer_ok _ _)
    | with_reducible refine step_ok_keep ?_ (fun _ => ⟨rfl, rfl, rfl, rfl⟩)

theorem reset_length_timer_ok (s : ApuSys) (c : ChannelRef) :
    step_ok s (reset_length_timer s c) := by
  unfold reset_length_timer
  dsimp only
  repeat' first
    | with_reducible exact step_ok_refl _
    | with_reducible refine step_ok_trans ?_ (check_length_trigger_ok _ _)
    | with_reducible refine step_ok_keep ?_ (fun _ => ⟨rfl, rfl, rfl, rfl⟩)

theorem init_volume_le (s : ApuSys) (c : ChannelRef) : init_volume s c ≤ 15 := by
  unfold init_volume
  split
  · exact le_trans Nat.and_le_right (by decide)
  · exact Nat.and_le_right

theorem check_channel_trigger_ok (s : ApuSys) (c : ChannelRef) :
    step_ok s (check_channel_trigger s c) := by
  have h1 : step_ok s (with_ch s c (fun ch => { ch with enabled := ch.dac_enabled })) :=
    step_ok_upd (step_ok_refl _)
      (fun ch hk => ⟨fun h0 => hk.1 (hk.2.1 h0), fun h0 => h0, hk.2.2.1, hk.2.2.2⟩)
  unfold check_channel_trigger
  dsimp only
  generalize with_ch s c (fun ch => { ch with enabled := ch.dac_enabled }) = u at h1 ⊢
  split_ifs <;> repeat' first
    | with_reducible exact step_ok_refl _
    | with_reducible exact h1
    | with_reducible refine step_ok_trans ?_ (sync_nr52_ok _)
    | with_reducible refine step_ok_trans ?_ (reset_length_timer_ok _ _)
    | with_reducible refine step_ok_keep ?_ (fun _ => ⟨rfl, rfl, rfl, rfl⟩)
    | refine step_ok_upd ?_ (fun ch hk => ⟨hk.1, hk.2.1, init_volume_le _ _, hk.2.2.2⟩)

theorem write_nr10_ok (s : ApuSys) (v : Nat) : step_ok s (write_nr10 s v) :=
  step_ok_trans (step_ok_store8 (step_ok_refl _)) (check_negate_transition_ok _)

theorem write_nrx0_ok (s : ApuSys) (c : ChannelRef) (v : Nat) : step_ok s (write_nrx0 s c v) :=
  step_ok_store8 (step_ok_refl _)

theorem write_nrx1_ok (s : ApuSys) (c : ChannelRef) (v : Nat) : step_ok s (write_nrx1 s c v) := by
  unfold write_nrx1
  dsimp only
  with_reducible refine step_ok_keep ?_ (fun _ => ⟨rfl, rfl, rfl, rfl⟩)
  exact step_ok_store8 (step_ok_refl _)

theorem write_nrx3_ok (s : ApuSys) (c : ChannelRef) (v : Nat) : step_ok s (write_nrx3 s c v) :=
  step_ok_store8 (step_ok_refl _)

theorem write_nr32_ok (s : ApuSys) (v : Nat) : step_ok s (write_nr32 s v) :=
  step_ok_store8 (step_ok_refl _)

theorem write_nr50_ok (s : ApuSys) (v : Nat) : step_ok s (write_nr50 s v) :=
  step_ok_store8 (step_ok_refl _)

theorem write_nr51_ok (s : ApuSys) (v : Nat) : step_ok s (write_nr51 s v) :=
  step_ok_store8 (step_ok_refl _)

/-- A store of the DAC flag followed by the `disable_channel` of the register
writers keeps the invariant. -/
theorem dac_store_ok (s : ApuSys) (c : ChannelRef) (d : Bool) :
    step_ok s
      (if ((with_ch s c (fun ch => { ch with dac_enabled := d })).apu.ch c).dac_enabled = false ∧
          ((with_ch s c (fun ch => { ch with dac_enabled := d })).apu.ch c).enabled = true then
        disable_channel (with_ch s c (fun ch => { ch with dac_enabled := d })) c
      else with_ch s c (fun ch => { ch with dac_enabled := d })) := by
  split_ifs with h
  · have hc := disable_channel_clock (with_ch s c (fun ch => { ch with dac_enabled := d })) c
    refine ⟨hc.1, hc.2, fun x hx => ?_⟩
    by_cases hxc : x = c
    · subst hxc
      refine disable_channel_fixes _ x ?_
      rw [with_ch_same]
      exact hx.2.2.1
    · rw [disable_channel_ch, if_neg hxc, with_ch_other _ _ _ _ hxc]
      exact hx
  · refine step_ok_with_ch (step_ok_refl _) (fun hk => ⟨hk.1, fun h0 => ?_, hk.2.2.1, hk.2.2.2⟩)
    simp only [with_ch_same] at h
    cases he : (s.apu.ch c).enabled
    · rfl
    · exact absurd ⟨h0, he⟩ h

theorem write_nrx2_ok (s : ApuSys) (c : ChannelRef) (v : Nat) : step_ok s (write_nrx2 s c v) := by
  unfold write_nrx2
  dsimp only
  with_reducible exact step_ok_trans (step_ok_store8 (step_ok_refl _)) (dac_store_ok _ c _)

theorem write_nr30_ok (s : ApuSys) (v : Nat) : step_ok s (write_nr30 s v) := by
  unfold write_nr30
  dsimp only
  with_reducible exact step_ok_trans (step_ok_store8 (step_ok_refl _)) (dac_store_ok _ .ch3 _)

theorem write_nrx4_ok (s : ApuSys) (c : ChannelRef) (v : Nat) : step_ok s (write_nrx4 s c v) :=
  step_ok_trans (step_ok_trans (step_ok_store8 (step_ok_refl _)) (check_length_trigger_ok _ _))
    (check_channel_trigger_ok _ _)

theorem write_nr44_ok (s : ApuSys) (v : Nat) : step_ok s (write_nr44 s v) := by
  unfold write_nr44
  dsimp only
  with_reducible refine step_ok_keep ?_ (fun _ => ⟨rfl, rfl, rfl, rfl⟩)
  exact step_ok_trans (step_ok_trans (step_ok_store8 (step_ok_refl _))
    (check_length_trigger_ok _ _)) (check_channel_trigger_ok _ _)

theorem write_nr43_ok (s : ApuSys) (v : Nat) : step_ok s (write_nr43 s v) :=
  ⟨rfl, rfl, fun _ h => h⟩

theorem write_nr14_ok (s : ApuSys) (v : Nat) : step_ok s (write_nr14 s v) := by
  have h0 : step_ok s (check_channel_trigger (check_length_trigger
      (store8 s (s.apu.ch .ch1).nrx4 v) .ch1) .ch1) :=
    step_ok_trans (step_ok_trans (step_ok_store8 (step_ok_refl _))
      (check_length_trigger_ok _ _)) (check_channel_trigger_ok _ _)
  unfold write_nr14
  dsimp only
  generalize check_channel_trigger (check_length_trigger
      (store8 s (s.apu.ch .ch1).nrx4 v) .ch1) .ch1 = u at h0 ⊢
  split_ifs <;> repeat' first
    | with_reducible exact h0
    | with_reducible apply step_ok_trans _ (disable_channel_ok _ _)
    | with_reducible apply step_ok_trans _ (disable_fsu_ok _)
    | with_reducible apply step_ok_trans _ (enable_fsu_ok _)
    | with_reducible apply step_ok_trans _ (check_negate_latch_set_ok _)
    | with_reducible apply step_ok_with_fsu

/-- What `clear_channel` does to the channels. -/
theorem clear_channel_ch (s : ApuSys) (c x : ChannelRef) :
    (clear_channel s c).apu.ch x =
      if x = c then
        { s.apu.ch c with
          volume_envelope_enabled := false, length_timer_enabled := false, dac_enabled := false }
      else s.apu.ch x := by
  unfold clear_channel
  dsimp only
  by_cases hxc : x = c
  · subst hxc
    simp [store8]
  · simp [with_ch_other _ _ _ _ hxc, hxc, store8]

/-- The `clear_channel` and `disable_channel` pair of `power_apu_off`. -/
theorem clear_disable_ok (s : ApuSys) (c : ChannelRef) :
    step_ok s (disable_channel (clear_channel s c) c) := by
  have hc := disable_channel_clock (clear_channel s c) c
  have hd : (clear_channel s c).apu.powered = s.apu.powered ∧
      (clear_channel s c).apu.frame = s.apu.frame := ⟨rfl, rfl⟩
  refine ⟨hc.1.trans hd.1, hc.2.trans hd.2, fun x hx => ?_⟩
  by_cases hxc : x = c
  · subst hxc
    refine disable_channel_fixes _ x ?_
    rw [clear_channel_ch, if_pos rfl]
    exact hx.2.2.1
  · rw [disable_channel_ch, if_neg hxc, clear_channel_ch, if_neg hxc]
    exact hx

theorem power_apu_off_ok (s : ApuSys) : step_ok s (power_apu_off s) :=
  step_ok_store8 (step_ok_store8 (step_ok_trans (step_ok_trans (step_ok_trans
    (clear_disable_ok _ _) (clear_disable_ok _ _)) (clear_disable_ok _ _))
    (clear_disable_ok _ _)))

/-- `power_apu_on` keeps `chan_ok` of every channel. -/
theorem power_apu_on_chans (s : ApuSys) (x : ChannelRef) (h : chan_ok (s.apu.ch x)) :
    chan_ok ((power_apu_on s).apu.ch x) := by
  have h0 : step_ok { s with apu := { s.apu with powered := true, frame := 0 } }
      (power_apu_on s) := by
    unfold power_apu_on
    dsimp only
    repeat' first
      | with_reducible exact step_ok_refl _
      | with_reducible refine step_ok_keep ?_ (fun _ => ⟨rfl, rfl, rfl, rfl⟩)
  exact h0.2.2 x h

theorem write_nr52_chans (s : ApuSys) (v : Nat) (x : ChannelRef) (h : chan_ok (s.apu.ch x)) :
    chan_ok ((write_nr52 s v).apu.ch x) := by
  unfold write_nr52
  dsimp only
  with_reducible refine step_ok_chans (sync_nr52_ok _) x ?_
  split_ifs
  · with_reducible refine step_ok_chans (power_apu_off_ok _) x ?_
    exact power_apu_on_chans _ x h
  · exact power_apu_on_chans _ x h
  · with_reducible refine step_ok_chans (power_apu_off_ok _) x ?_
    exact h
  · exact h
/-- Both consequences of `step_ok` for a register write. -/
theorem step_ok_both {s t : ApuSys} (h : step_ok s t) (P : Prop) :
    (∀ x, chan_ok (s.apu.ch x) → chan_ok (t.apu.ch x)) ∧
    (P → t.apu.powered = s.apu.powered ∧ t.apu.frame = s.apu.frame) :=
  ⟨h.2.2, fun _ => ⟨h.1, h.2.1⟩⟩

/-- A write to an audio register keeps the invariant; a write to a register
other than NR52 keeps the power flag and the sequencer step as well. -/
theorem write_audio_register_cases (io : ApuMap) (s : ApuSys) (a v : Nat) :
    (∀ x, chan_ok (s.apu.ch x) → chan_ok ((write_audio_register io s a v).apu.ch x)) ∧
    (a ≠ io.NR52 → (write_audio_register io s a v).apu.powered = s.apu.powered ∧
      (write_audio_register io s a v).apu.frame = s.apu.frame) := by
  unfold write_audio_register
  dsimp only
  by_cases h0 : s.apu.powered = false ∧ a ≠ io.NR52
  · rw [if_pos h0]
    exact step_ok_both (step_ok_refl s) _
  rw [if_neg h0]
  by_cases hNR10 : a = io.NR10
  · rw [if_pos hNR10]
    exact step_ok_both (write_nr10_ok _ _) _
  rw [if_neg hNR10]
  by_cases hNR11 : a = io.NR11
  · rw [if_pos hNR11]
    exact step_ok_both (write_nrx1_ok _ _ _) _
  rw [if_neg hNR11]
  by_cases hNR12 : a = io.NR12
  · rw [if_pos hNR12]
    exact step_ok_both (write_nrx2_ok _ _ _) _
  rw [if_neg hNR12]
  by_cases hNR13 : a = io.NR13
  · rw [if_pos hNR13]
    exact step_ok_both (write_nrx3_ok _ _ _) _
  rw [if_neg hNR13]
  by_cases hNR14 : a = io.NR14
  · rw [if_pos hNR14]
    exact step_ok_both (write_nr14_ok _ _) _
  rw [if_neg hNR14]
  by_cases hNR20 : a = io.NR20
  · rw [if_pos hNR20]
    exact step_ok_both (write_nrx0_ok _ _ _) _
  rw [if_neg hNR20]
  by_cases hNR21 : a = io.NR21
  · rw [if_pos hNR21]
    exact step_ok_both (write_nrx1_ok _ _ _) _
  rw [if_neg hNR21]
  by_cases hNR22 : a = io.NR22
  · rw [if_pos hNR22]
    exact step_ok_both (write_nrx2_ok _ _ _) _
  rw [if_neg hNR22]
  by_cases hNR23 : a = io.NR23
  · rw [if_pos hNR23]
    exact step_ok_both (write_nrx3_ok _ _ _) _
  rw [if_neg hNR23]
  by_cases hNR24 : a = io.NR24
  · rw [if_pos hNR24]
    exact step_ok_both (write_nrx4_ok _ _ _) _
  rw [if_neg hNR24]
  by_cases hNR30 : a = io.NR30
  · rw [if_pos hNR30]
    exact step_ok_both (write_nr30_ok _ _) _
  rw [if_neg hNR30]
  by_cases hNR31 : a = io.NR31
  · rw [if_pos hNR31]
    exact step_ok_both (write_nrx1_ok _ _ _) _
  rw [if_neg hNR31]
  by_cases hNR32 : a = io.NR32
  · rw [if_pos hNR32]
    exact step_ok_both (write_nr32_ok _ _) _
  rw [if_neg hNR32]
  by_cases hNR33 : a = io.NR33
  · rw [if_pos hNR33]
    exact step_ok_both (write_nrx3_ok _ _ _) _
  rw [if_neg hNR33]
  by_cases hNR34 : a = io.NR34
  · rw [if_pos hNR34]
    exact step_ok_both (write_nrx4_ok _ _ _) _
  rw [if_neg hNR34]
  by_cases hNR40 : a = io.NR40
  · rw [if_pos hNR40]
    exact step_ok_both (write_nrx0_ok _ _ _) _
  rw [if_neg hNR40]
  by_cases hNR41 : a = io.NR41
  · rw [if_pos hNR41]
    exact step_ok_both (write_nrx1_ok _ _ _) _
  rw [if_neg hNR41]
  by_cases hNR42 : a = io.NR42
  · rw [if_pos hNR42]
    exact step_ok_both (write_nrx2_ok _ _ _) _
  rw [if_neg hNR42]
  by_cases hNR43 : a = io.NR43
  · rw [if_pos hNR43]
    exact step_ok_both (write_nr43_ok _ _) _
  rw [if_neg hNR43]
  by_cases hNR44 : a = io.NR44
  · rw [if_pos hNR44]
    exact step_ok_both (write_nr44_ok _ _) _
  rw [if_neg hNR44]
  by_cases hNR50 : a = io.NR50
  · rw [if_pos hNR50]
    exact step_ok_both (write_nr50_ok _ _) _
  rw [if_neg hNR50]
  by_cases hNR51 : a = io.NR51
  · rw [if_pos hNR51]
    exact step_ok_both (write_nr51_ok _ _) _
  rw [if_neg hNR51]
  by_cases hNR52 : a = io.NR52
  · rw [if_pos hNR52]
    exact ⟨fun x h => write_nr52_chans _ _ x h, fun h => absurd hNR52 h⟩
  rw [if_neg hNR52]
  exact step_ok_both (step_ok_refl s) _

/-- What `div_apu_event` does to the power flag, the step and the invariant. -/
theorem div_apu_event_ok (s : ApuSys) :
    (div_apu_event s).apu.powered = s.apu.powered ∧
    (div_apu_event s).apu.frame =
      (if s.apu.powered = true then (s.apu.frame + 1) % 8 else s.apu.frame) ∧
    ∀ x, chan_ok (s.apu.ch x) → chan_ok ((div_apu_event s).apu.ch x) := by
  have h0 := step_ok_refl s
  have h1 := clock_length_timers_ok s
  have h2 := step_ok_trans (freq_sweep_ok s) (clock_length_timers_ok _)
  have h3 := clock_volume_envelopes_ok s
  have key : ∀ t : ApuSys, step_ok s t → s.apu.powered = true →
      ({ t with apu := { t.apu with frame := (t.apu.frame + 1) % 8 } } : ApuSys).apu.powered =
        s.apu.powered ∧
      ({ t with apu := { t.apu with frame := (t.apu.frame + 1) % 8 } } : ApuSys).apu.frame =
        (if s.apu.powered = true then (s.apu.frame + 1) % 8 else s.apu.frame) ∧
      ∀ x, chan_ok (s.apu.ch x) →
        chan_ok (({ t with apu := { t.apu with frame := (t.apu.frame + 1) % 8 } } :
          ApuSys).apu.ch x) := by
    intro t ht hp
    refine ⟨ht.1, ?_, ht.2.2⟩
    rw [if_pos hp]
    exact congrArg (fun n => (n + 1) % 8) ht.2.1
  unfold div_apu_event
  by_cases hp : s.apu.powered = true
  · rw [if_neg (by rw [hp]; decide)]
    dsimp only
    split
    · exact key _ h1 hp
    · exact key _ h0 hp
    · exact key _ h2 hp
    · exact key _ h0 hp
    · exact key _ h1 hp
    · exact key _ h0 hp
    · exact key _ h2 hp
    · exact key _ h3 hp
    · exact key _ h0 hp
  · have hp2 : s.apu.powered = false := by simpa using hp
    rw [if_pos hp2, if_neg hp]
    exact ⟨rfl, rfl, fun _ h => h⟩

theorem apu_step_chans (io : ApuMap) (s : ApuSys) (e : ApuEvent) (x : ChannelRef)
    (h : chan_ok (s.apu.ch x)) : chan_ok ((apu_step io s e).apu.ch x) := by
  cases e with
  | write a v => exact (write_audio_register_cases io s a v).1 x h
  | wave a v => exact h
  | div_apu => exact (div_apu_event_ok s).2.2 x h
  | dot => exact step_ok_chans (apu_dot_ok s) x h
  | other a v => exact h

theorem apu_init_ok (io : ApuMap) (memory wave_ram : Nat → Nat) :
    apu_ok (apu_init io memory wave_ram) := by
  intro c
  cases c <;> exact ⟨fun _ => rfl, fun _ => rfl, Nat.zero_le _, Nat.zero_le _⟩

/-- The invariant holds in every state the APU reaches from a state that
satisfies it. -/
theorem apu_run_ok (io : ApuMap) (events : List ApuEvent) :
    ∀ s, apu_ok s → apu_ok (apu_run io s events) := by
  induction events with
  | nil => exact fun s h => h
  | cons e es ih =>
    intro s h
    exact ih (apu_step io s e) (fun x => apu_step_chans io s e x (h x))

/-! ## C32: a disabled channel is silent -/

theorem dac_kept_refl (s : ApuSys) : dac_kept s s :=
  fun _ => ⟨rfl, fun h => h⟩

theorem dac_kept_trans {s t u : ApuSys} (h1 : dac_kept s t) (h2 : dac_kept t u) :
    dac_kept s u :=
  fun x => ⟨(h2 x).1.trans (h1 x).1, fun h => (h2 x).2 ((h1 x).2 h)⟩

theorem dac_kept_with_ch {s t : ApuSys} {c : ChannelRef} {f : Channel → Channel}
    (h : dac_kept s t)
    (hf : ∀ ch, (f ch).dac_enabled = ch.dac_enabled ∧ (ch.enabled = false → (f ch).enabled = false)) :
    dac_kept s (with_ch t c f) := by
  intro x
  by_cases hxc : x = c
  · subst hxc
    rw [with_ch_same]
    exact ⟨(hf _).1.trans (h x).1, fun h0 => (hf _).2 ((h x).2 h0)⟩
  · rw [with_ch_other _ _ _ _ hxc]
    exact h x

theorem dac_kept_store8 {s t : ApuSys} {p v : Nat} (h : dac_kept s t) :
    dac_kept s (store8 t p v) :=
  h

theorem disable_channel_kept (s : ApuSys) (c : ChannelRef) : dac_kept s (disable_channel s c) := by
  intro x
  rw [disable_channel_ch]
  split_ifs with h
  · subst h
    exact ⟨rfl, fun _ => rfl⟩
  · exact ⟨rfl, fun h => h⟩

theorem length_timer_kept (s : ApuSys) (c : ChannelRef) : dac_kept s (length_timer s c) := by
  unfold length_timer
  dsimp only
  split_ifs <;> repeat' first
    | with_reducible exact dac_kept_refl _
    | with_reducible refine dac_kept_trans ?_ (disable_channel_kept _ _)
    | with_reducible refine dac_kept_with_ch ?_ (fun _ => ⟨rfl, fun h => h⟩)

theorem check_length_trigger_kept (s : ApuSys) (c : ChannelRef) :
    dac_kept s (check_length_trigger s c) := by
  unfold check_length_trigger
  dsimp only
  split_ifs <;> repeat' first
    | with_reducible exact dac_kept_refl _
    | with_reducible refine dac_kept_trans ?_ (length_timer_kept _ _)
    | with_reducible refine dac_kept_with_ch ?_ (fun _ => ⟨rfl, fun h => h⟩)

theorem reset_length_timer_kept (s : ApuSys) (c : ChannelRef) :
    dac_kept s (reset_length_timer s c) := by
  unfold reset_length_timer
  dsimp only
  repeat' first
    | with_reducible exact dac_kept_refl _
    | with_reducible refine dac_kept_trans ?_ (check_length_trigger_kept _ _)
    | with_reducible refine dac_kept_with_ch ?_ (fun _ => ⟨rfl, fun h => h⟩)

theorem sync_nr52_kept (s : ApuSys) : dac_kept s (sync_nr52 s) :=
  dac_kept_store8 (dac_kept_refl s)

theorem dac_kept_off {u t : ApuSys} {c : ChannelRef} (k : dac_kept u t)
    (hd : (u.apu.ch c).dac_enabled = false) (he : (u.apu.ch c).enabled = false) :
    (t.apu.ch c).dac_enabled = false ∧ (t.apu.ch c).enabled = false :=
  ⟨(k c).1.trans hd, (k c).2 he⟩

/-- A trigger of a channel whose DAC is off leaves the DAC off and the channel
disabled. -/
theorem check_channel_trigger_dac_off (s : ApuSys) (c : ChannelRef)
    (hd : (s.apu.ch c).dac_enabled = false) (he : (s.apu.ch c).enabled = false) :
    ((check_channel_trigger s c).apu.ch c).dac_enabled = false ∧
    ((check_channel_trigger s c).apu.ch c).enabled = false := by
  have hud : ((with_ch s c (fun ch => { ch with enabled := ch.dac_enabled })).apu.ch
      c).dac_enabled = false := by
    rw [with_ch_same]
    exact hd
  have hue : ((with_ch s c (fun ch => { ch with enabled := ch.dac_enabled })).apu.ch
      c).enabled = false := by
    rw [with_ch_same]
    exact hd
  unfold check_channel_trigger
  dsimp only
  generalize with_ch s c (fun ch => { ch with enabled := ch.dac_enabled }) = u at hud hue ⊢
  split_ifs
  · exact ⟨hd, he⟩
  · refine dac_kept_off ?_ hud hue
    repeat' first
      | with_reducible exact dac_kept_refl _
      | with_reducible refine dac_kept_trans ?_ (sync_nr52_kept _)
      | with_reducible refine dac_kept_trans ?_ (reset_length_timer_kept _ _)
      | with_reducible refine dac_kept_with_ch ?_ (fun _ => ⟨rfl, fun h => h⟩)
  · refine dac_kept_off ?_ hud hue
    repeat' first
      | with_reducible exact dac_kept_refl _
      | with_reducible refine dac_kept_trans ?_ (sync_nr52_kept _)
      | with_reducible refine dac_kept_with_ch ?_ (fun _ => ⟨rfl, fun h => h⟩)

/-- A write of the DAC flag `false` leaves the channel disabled. -/
theorem dac_store_off (s : ApuSys) (c : ChannelRef) :
    ((if ((with_ch s c (fun ch => { ch with dac_enabled := false })).apu.ch c).dac_enabled =
          false ∧
          ((with_ch s c (fun ch => { ch with dac_enabled := false })).apu.ch c).enabled = true then
        disable_channel (with_ch s c (fun ch => { ch with dac_enabled := false })) c
      else with_ch s c (fun ch => { ch with dac_enabled := false })).apu.ch c).dac_enabled =
      false ∧
    ((if ((with_ch s c (fun ch => { ch with dac_enabled := false })).apu.ch c).dac_enabled =
          false ∧
          ((with_ch s c (fun ch => { ch with dac_enabled := false })).apu.ch c).enabled = true then
        disable_channel (with_ch s c (fun ch => { ch with dac_enabled := false })) c
      else with_ch s c (fun ch => { ch with dac_enabled := false })).apu.ch c).enabled =
      false := by
  split_ifs with h
  · rw [disable_channel_ch, if_pos rfl]
    exact ⟨by rw [with_ch_same], rfl⟩
  · rw [with_ch_same] at h ⊢
    refine ⟨rfl, ?_⟩
    cases he : (s.apu.ch c).enabled
    · rfl
    · exact absurd ⟨rfl, he⟩ h

theorem write_nrx2_dac_off (s : ApuSys) (c : ChannelRef) (v : Nat)
    (hv : v &&& UPPER_5_MASK = 0) :
    ((write_nrx2 s c v).apu.ch c).dac_enabled = false ∧
    ((write_nrx2 s c v).apu.ch c).enabled = false := by
  have hd : decide (v &&& UPPER_5_MASK ≠ 0) = false := by simp [hv]
  unfold write_nrx2
  dsimp only
  rw [hd]
  exact dac_store_off (store8 s (s.apu.ch c).nrx2 v) c

theorem write_nr30_dac_off (s : ApuSys) (v : Nat) (hv : v &&& BIT_7_MASK = 0) :
    ((write_nr30 s v).apu.ch .ch3).dac_enabled = false ∧
    ((write_nr30 s v).apu.ch .ch3).enabled = false := by
  have hd : decide (v &&& BIT_7_MASK ≠ 0) = false := by simp [hv]
  unfold write_nr30
  dsimp only
  rw [hd]
  exact dac_store_off (store8 s (s.apu.ch .ch3).nrx0 v) .ch3
theorem write_nrx4_dac_off (s : ApuSys) (c : ChannelRef) (v : Nat)
    (hd : (s.apu.ch c).dac_enabled = false) (he : (s.apu.ch c).enabled = false) :
    ((write_nrx4 s c v).apu.ch c).dac_enabled = false ∧
    ((write_nrx4 s c v).apu.ch c).enabled = false := by
  have k := dac_kept_off (check_length_trigger_kept (store8 s (s.apu.ch c).nrx4 v) c) hd he
  exact check_channel_trigger_dac_off _ c k.1 k.2

/-- C32: in every state `s` the APU reaches from `init_apu` / `link_apu` by
writes to audio registers, writes to wave RAM, DIV-APU events, dots and stores
of other components into the memory array, a channel that is disabled has
output level 0 (a fact about the channel alone, so whatever NR50 and NR51
hold) and a channel whose DAC is off is disabled. In such a state a trigger
(`check_channel_trigger`, and the whole NRx4 write `write_nrx4` for any value)
of a channel whose DAC is off leaves the DAC off and the channel disabled, a
write to NRx2 with bits 3..7 clear leaves the channel disabled with its DAC
off, and so does a write to NR30 with bit 7 clear for the wave channel. -/
theorem C32_disabled_channel_silent (io : ApuMap) (memory wave_ram : Nat → Nat)
    (events : List ApuEvent) (s : ApuSys)
    (hs : s = apu_run io (apu_init io memory wave_ram) events) (c : ChannelRef) (v : Nat) :
    ((s.apu.ch c).enabled = false → (s.apu.ch c).output = 0) ∧
    ((s.apu.ch c).dac_enabled = false → (s.apu.ch c).enabled = false) ∧
    ((s.apu.ch c).dac_enabled = false →
      ((check_channel_trigger s c).apu.ch c).dac_enabled = false ∧
      ((check_channel_trigger s c).apu.ch c).enabled = false ∧
      ((write_nrx4 s c v).apu.ch c).dac_enabled = false ∧
      ((write_nrx4 s c v).apu.ch c).enabled = false) ∧
    (v &&& UPPER_5_MASK = 0 →
      ((write_nrx2 s c v).apu.ch c).dac_enabled = false ∧
      ((write_nrx2 s c v).apu.ch c).enabled = false ∧
      ((write_nrx2 s c v).apu.ch c).output = 0) ∧
    (v &&& BIT_7_MASK = 0 →
      ((write_nr30 s v).apu.ch .ch3).dac_enabled = false ∧
      ((write_nr30 s v).apu.ch .ch3).enabled = false ∧
      ((write_nr30 s v).apu.ch .ch3).output = 0) := by
  have hok : apu_ok s := by
    rw [hs]
    exact apu_run_ok io events _ (apu_init_ok io memory wave_ram)
  refine ⟨(hok c).1, (hok c).2.1, fun hd => ?_, fun hv => ?_, fun hv => ?_⟩
  · have h1 := check_channel_trigger_dac_off s c hd ((hok c).2.1 hd)
    have h2 := write_nrx4_dac_off s c v hd ((hok c).2.1 hd)
    exact ⟨h1.1, h1.2, h2.1, h2.2⟩
  · have h1 := write_nrx2_dac_off s c v hv
    exact ⟨h1.1, h1.2, (step_ok_chans (write_nrx2_ok s c v) c (hok c)).1 h1.2⟩
  · have h1 := write_nr30_dac_off s v hv
    exact ⟨h1.1, h1.2, (step_ok_chans (write_nr30_ok s v) .ch3 (hok .ch3)).1 h1.2⟩

/-- Witness for C32: the APU is powered on, the DAC of channel 1 is switched on
(NR12 = 0xF0), the channel is triggered (NR14 = 0x80) and the DAC is switched
off again (NR12 = 0x00): the channel is disabled with output 0, and a further
trigger leaves it disabled. -/
theorem C32_disabled_channel_silent_witness :
    ((apu_run hwApu (apu_init hwApu (fun _ => 0) (fun _ => 0))
      [.write 0xFF26 0x80, .write 0xFF12 0xF0, .write 0xFF14 0x80, .write 0xFF12 0x00]).apu.ch
        .ch1).dac_enabled = false ∧
    ((apu_run hwApu (apu_init hwApu (fun _ => 0) (fun _ => 0))
      [.write 0xFF26 0x80, .write 0xFF12 0xF0, .write 0xFF14 0x80, .write 0xFF12 0x00]).apu.ch
        .ch1).enabled = false ∧
    ((apu_run hwApu (apu_init hwApu (fun _ => 0) (fun _ => 0))
      [.write 0xFF26 0x80, .write 0xFF12 0xF0, .write 0xFF14 0x80, .write 0xFF12 0x00]).apu.ch
        .ch1).output = 0 ∧
    ((check_channel_trigger (apu_run hwApu (apu_init hwApu (fun _ => 0) (fun _ => 0))
      [.write 0xFF26 0x80, .write 0xFF12 0xF0, .write 0xFF14 0x80, .write 0xFF12 0x00])
        .ch1).apu.ch .ch1).enabled = false := by
  have hd : ((apu_run hwApu (apu_init hwApu (fun _ => 0) (fun _ => 0))
      [.write 0xFF26 0x80, .write 0xFF12 0xF0, .write 0xFF14 0x80, .write 0xFF12 0x00]).apu.ch
        .ch1).dac_enabled = false := by decide
  have h := C32_disabled_channel_silent hwApu (fun _ => 0) (fun _ => 0)
    [.write 0xFF26 0x80, .write 0xFF12 0xF0, .write 0xFF14 0x80, .write 0xFF12 0x00] _ rfl
    .ch1 0
  exact ⟨hd, h.2.1 hd, h.1 (h.2.1 hd), (h.2.2.1 hd).2.1⟩

/-! ## C40: the mixer -/

/-- Truncating division keeps a bound that the dividend satisfies per unit of
the divisor. -/
theorem tdiv_bounds (a b lo hi : Int) (hb : 0 < b) (hlo : lo ≤ 0) (hhi : 0 ≤ hi)
    (h1 : lo * b ≤ a) (h2 : a ≤ hi * b) : lo ≤ a.tdiv b ∧ a.tdiv b ≤ hi := by
  rcases Int.le_total 0 a with ha | ha
  · rw [Int.tdiv_eq_ediv ha (Int.le_of_lt hb)]
    exact ⟨le_trans hlo (Int.ediv_nonneg ha (Int.le_of_lt hb)), Int.ediv_le_of_le_mul hb h2⟩
  · have hn : 0 ≤ -a := Int.neg_nonneg.mpr ha
    have e : a.tdiv b = -((-a) / b) := by
      rw [← Int.tdiv_eq_ediv hn (Int.le_of_lt hb), Int.neg_tdiv, Int.neg_neg]
    rw [e]
    have k1 : (-a) / b ≤ -lo := Int.ediv_le_of_le_mul hb (by rw [Int.neg_mul]; omega)
    have k2 : 0 ≤ (-a) / b := Int.ediv_nonneg hn (Int.le_of_lt hb)
    omega

theorem volume_table_bounds (vol : Nat) (h : vol ≤ 7) :
    1 ≤ volume_table.getD vol 0 ∧ volume_table.getD vol 0 ≤ 8 := by
  interval_cases vol <;> exact ⟨by decide, by decide⟩

theorem mix_value_bounds (o : Int) (n vol : Nat) (hn : 1 ≤ n) (hv : vol ≤ 7)
    (h1 : -32768 * (n : Int) ≤ o) (h2 : o ≤ 32767 * (n : Int)) :
    -32768 ≤ mix_value o n vol ∧ mix_value o n vol ≤ 32767 := by
  obtain ⟨q1, q2⟩ := tdiv_bounds o n (-32768) 32767 (by omega) (by decide) (by decide) h1 h2
  obtain ⟨k1, k2⟩ := volume_table_bounds vol hv
  unfold mix_value
  generalize Int.tdiv o (n : Int) = q at q1 q2 ⊢
  generalize volume_table.getD vol 0 = k at k1 k2 ⊢
  refine tdiv_bounds (q * k) 8 (-32768) 32767 (by decide) (by decide) (by decide) ?_ ?_
  · nlinarith
  · nlinarith

theorem to_int16_id (x : Int) (h1 : -32768 ≤ x) (h2 : x ≤ 32767) : to_int16 x = x := by
  unfold to_int16
  omega

/-- The value the samplers return: no conversion loss. -/
theorem mix_output_eq (o : Int) (n vol : Nat) (hv : vol ≤ 7)
    (h1 : -32768 * (n : Int) ≤ o) (h2 : o ≤ 32767 * (n : Int)) :
    mix_output o n vol = (if n = 0 then 0 else mix_value o n vol) ∧
    -32768 ≤ mix_output o n vol ∧ mix_output o n vol ≤ 32767 := by
  unfold mix_output
  by_cases hn : n = 0
  · simp [hn]
  · obtain ⟨b1, b2⟩ := mix_value_bounds o n vol (by omega) hv h1 h2
    simp only [hn, if_false]
    have e : to_int16 (Int.tdiv (Int.tdiv o (n : Int) * volume_table.getD vol 0) 8) =
        mix_value o n vol := to_int16_id _ b1 b2
    rw [e]
    exact ⟨rfl, b1, b2⟩

theorem dac_table_bounds (i : Nat) (h : i ≤ 15) :
    ∃ v, dac_table.get? i = some v ∧ -32768 ≤ v ∧ v ≤ 32767 := by
  interval_cases i <;> exact ⟨_, rfl, by decide, by decide⟩

/-- One block of a sampler on a channel whose output is a 4-bit value. -/
theorem mix_channel_spec (s : ApuSys) (c : ChannelRef) (panning mask : Nat) (acc : Int × Nat)
    (ho : (s.apu.ch c).output ≤ 15)
    (h1 : -32768 * (acc.2 : Int) ≤ acc.1) (h2 : acc.1 ≤ 32767 * (acc.2 : Int)) :
    ∃ r, mix_channel s c panning mask acc = some r ∧
      -32768 * (r.2 : Int) ≤ r.1 ∧ r.1 ≤ 32767 * (r.2 : Int) ∧
      (ch_out_active s c panning mask = false → r = acc) := by
  unfold mix_channel
  by_cases ha : ch_out_active s c panning mask = true
  · obtain ⟨v, e, v1, v2⟩ := dac_table_bounds _ ho
    rw [if_pos ha, e]
    refine ⟨_, rfl, ?_, ?_, fun h => absurd (ha.symm.trans h) (by decide)⟩
    · show -32768 * ((acc.2 + 1 : Nat) : Int) ≤ acc.1 + v
      push_cast
      omega
    · show acc.1 + v ≤ 32767 * ((acc.2 + 1 : Nat) : Int)
      push_cast
      omega
  · rw [if_neg ha]
    exact ⟨acc, rfl, h1, h2, fun _ => rfl⟩
theorem and_7_le (x : Nat) : x &&& LOWER_3_MASK ≤ 7 :=
  Nat.and_le_right

theorem sample_left_channel_spec (s : ApuSys) (ho : ∀ c, (s.apu.ch c).output ≤ 15) :
    ∃ (o : Int) (n : Nat),
      sample_left_channel s =
        some (if n = 0 then 0
          else mix_value o n ((reg8 s s.apu.nr50 >>> 4) &&& LOWER_3_MASK)) ∧
      ((ch_out_active s .ch1 (reg8 s s.apu.nr51) BIT_4_MASK = false ∧
        ch_out_active s .ch2 (reg8 s s.apu.nr51) BIT_5_MASK = false ∧
        ch_out_active s .ch3 (reg8 s s.apu.nr51) BIT_6_MASK = false ∧
        ch_out_active s .ch4 (reg8 s s.apu.nr51) BIT_7_MASK = false) → n = 0) ∧
      -32768 ≤ (if n = 0 then 0
          else mix_value o n ((reg8 s s.apu.nr50 >>> 4) &&& LOWER_3_MASK)) ∧
      (if n = 0 then 0
          else mix_value o n ((reg8 s s.apu.nr50 >>> 4) &&& LOWER_3_MASK)) ≤ 32767 := by
  obtain ⟨r1, e1, a1, b1, z1⟩ := mix_channel_spec s .ch1 (reg8 s s.apu.nr51) BIT_4_MASK (0, 0)
    (ho _) (by decide) (by decide)
  obtain ⟨r2, e2, a2, b2, z2⟩ := mix_channel_spec s .ch2 (reg8 s s.apu.nr51) BIT_5_MASK r1
    (ho _) a1 b1
  obtain ⟨r3, e3, a3, b3, z3⟩ := mix_channel_spec s .ch3 (reg8 s s.apu.nr51) BIT_6_MASK r2
    (ho _) a2 b2
  obtain ⟨r4, e4, a4, b4, z4⟩ := mix_channel_spec s .ch4 (reg8 s s.apu.nr51) BIT_7_MASK r3
    (ho _) a3 b3
  obtain ⟨m1, m2, m3⟩ := mix_output_eq r4.1 r4.2 _ (and_7_le (reg8 s s.apu.nr50 >>> 4)) a4 b4
  refine ⟨r4.1, r4.2, ?_, ?_, ?_, ?_⟩
  · unfold sample_left_channel
    dsimp only
    rw [e1]
    dsimp only
    rw [e2]
    dsimp only
    rw [e3]
    dsimp only
    rw [e4]
    dsimp only
    rw [m1]
  · intro h
    rw [z4 h.2.2.2, z3 h.2.2.1, z2 h.2.1, z1 h.1]
  · rw [← m1]
    exact m2
  · rw [← m1]
    exact m3

theorem sample_right_channel_spec (s : ApuSys) (ho : ∀ c, (s.apu.ch c).output ≤ 15) :
    ∃ (o : Int) (n : Nat),
      sample_right_channel s =
        some (if n = 0 then 0 else mix_value o n (reg8 s s.apu.nr50 &&& LOWER_3_MASK)) ∧
      ((ch_out_active s .ch1 (reg8 s s.apu.nr51) BIT_0_MASK = false ∧
        ch_out_active s .ch2 (reg8 s s.apu.nr51) BIT_1_MASK = false ∧
        ch_out_active s .ch3 (reg8 s s.apu.nr51) BIT_2_MASK = false ∧
        ch_out_active s .ch4 (reg8 s s.apu.nr51) BIT_3_MASK = false) → n = 0) ∧
      -32768 ≤ (if n = 0 then 0 else mix_value o n (reg8 s s.apu.nr50 &&& LOWER_3_MASK)) ∧
      (if n = 0 then 0 else mix_value o n (reg8 s s.apu.nr50 &&& LOWER_3_MASK)) ≤ 32767 := by
  obtain ⟨r1, e1, a1, b1, z1⟩ := mix_channel_spec s .ch1 (reg8 s s.apu.nr51) BIT_0_MASK (0, 0)
    (ho _) (by decide) (by decide)
  obtain ⟨r2, e2, a2, b2, z2⟩ := mix_channel_spec s .ch2 (reg8 s s.apu.nr51) BIT_1_MASK r1
    (ho _) a1 b1
  obtain ⟨r3, e3, a3, b3, z3⟩ := mix_channel_spec s .ch3 (reg8 s s.apu.nr51) BIT_2_MASK r2
    (ho _) a2 b2
  obtain ⟨r4, e4, a4, b4, z4⟩ := mix_channel_spec s .ch4 (reg8 s s.apu.nr51) BIT_3_MASK r3
    (ho _) a3 b3
  obtain ⟨m1, m2, m3⟩ := mix_output_eq r4.1 r4.2 _ (and_7_le (reg8 s s.apu.nr50)) a4 b4
  refine ⟨r4.1, r4.2, ?_, ?_, ?_, ?_⟩
  · unfold sample_right_channel
    dsimp only
    rw [e1]
    dsimp only
    rw [e2]
    dsimp only
    rw [e3]
    dsimp only
    rw [e4]
    dsimp only
    rw [m1]
  · intro h
    rw [z4 h.2.2.2, z3 h.2.2.1, z2 h.2.1, z1 h.1]
  · rw [← m1]
    exact m2
  · rw [← m1]
    exact m3

/-- C40: in every state `s` the APU reaches from `init_apu` / `link_apu` (by
register writes, wave RAM writes, DIV-APU events, dots and stores of other
components), the volume and the output of each channel are at most 15, so the
index `ch->output` of every `dac_table` lookup is inside the 16 entries; both
samplers return (no lookup is out of bounds), the value they return is the
mixed value itself (the conversion to `int16_t` changes nothing) and lies in
-32768 .. 32767, and it is 0 when no channel with its DAC on has its NR51 bit
for that side set. -/
theorem C40_mixer_range (io : ApuMap) (memory wave_ram : Nat → Nat) (events : List ApuEvent)
    (s : ApuSys) (hs : s = apu_run io (apu_init io memory wave_ram) events) :
    (∀ c, (s.apu.ch c).volume ≤ 15 ∧ (s.apu.ch c).output ≤ 15 ∧
      (s.apu.ch c).output < dac_table.length) ∧
    (∃ (o : Int) (n : Nat),
      sample_left_channel s =
        some (if n = 0 then 0
          else mix_value o n ((reg8 s s.apu.nr50 >>> 4) &&& LOWER_3_MASK)) ∧
      ((ch_out_active s .ch1 (reg8 s s.apu.nr51) BIT_4_MASK = false ∧
        ch_out_active s .ch2 (reg8 s s.apu.nr51) BIT_5_MASK = false ∧
        ch_out_active s .ch3 (reg8 s s.apu.nr51) BIT_6_MASK = false ∧
        ch_out_active s .ch4 (reg8 s s.apu.nr51) BIT_7_MASK = false) → n = 0) ∧
      -32768 ≤ (if n = 0 then 0
          else mix_value o n ((reg8 s s.apu.nr50 >>> 4) &&& LOWER_3_MASK)) ∧
      (if n = 0 then 0
          else mix_value o n ((reg8 s s.apu.nr50 >>> 4) &&& LOWER_3_MASK)) ≤ 32767) ∧
    (∃ (o : Int) (n : Nat),
      sample_right_channel s =
        some (if n = 0 then 0 else mix_value o n (reg8 s s.apu.nr50 &&& LOWER_3_MASK)) ∧
      ((ch_out_active s .ch1 (reg8 s s.apu.nr51) BIT_0_MASK = false ∧
        ch_out_active s .ch2 (reg8 s s.apu.nr51) BIT_1_MASK = false ∧
        ch_out_active s .ch3 (reg8 s s.apu.nr51) BIT_2_MASK = false ∧
        ch_out_active s .ch4 (reg8 s s.apu.nr51) BIT_3_MASK = false) → n = 0) ∧
      -32768 ≤ (if n = 0 then 0 else mix_value o n (reg8 s s.apu.nr50 &&& LOWER_3_MASK)) ∧
      (if n = 0 then 0 else mix_value o n (reg8 s s.apu.nr50 &&& LOWER_3_MASK)) ≤ 32767) := by
  have hok : apu_ok s := by
    rw [hs]
    exact apu_run_ok io events _ (apu_init_ok io memory wave_ram)
  have ho : ∀ c, (s.apu.ch c).output ≤ 15 := fun c => (hok c).2.2.2
  refine ⟨fun c => ⟨(hok c).2.2.1, ho c, ?_⟩, sample_left_channel_spec s ho,
    sample_right_channel_spec s ho⟩
  have := ho c
  show (s.apu.ch c).output < 16
  omega

/-- Witness for C40: power on, NR50 = 0x77, NR51 = 0xFF, DAC of channel 2 on
with volume 15 (NR22 = 0xF0), trigger (NR24 = 0x87), four dots: every output
is at most 15, and the left sampler returns 32767, the level of output 0 of the
single routed DAC at master volume 8/8. -/
theorem C40_mixer_range_witness :
    (∀ c, ((apu_run hwApu (apu_init hwApu (fun _ => 0) (fun _ => 0))
      [.write 0xFF26 0x80, .write 0xFF24 0x77, .write 0xFF25 0xFF, .write 0xFF17 0xF0,
       .write 0xFF19 0x87, .dot, .dot, .dot, .dot]).apu.ch c).output ≤ 15) ∧
    sample_left_channel (apu_run hwApu (apu_init hwApu (fun _ => 0) (fun _ => 0))
      [.write 0xFF26 0x80, .write 0xFF24 0x77, .write 0xFF25 0xFF, .write 0xFF17 0xF0,
       .write 0xFF19 0x87, .dot, .dot, .dot, .dot]) = some 32767 := by
  have h := C40_mixer_range hwApu (fun _ => 0) (fun _ => 0)
    [.write 0xFF26 0x80, .write 0xFF24 0x77, .write 0xFF25 0xFF, .write 0xFF17 0xF0,
     .write 0xFF19 0x87, .dot, .dot, .dot, .dot] _ rfl
  exact ⟨fun c => (h.1 c).2.1, by decide⟩

/-! ## C31: the frame sequencer -/

theorem seq_kept_refl (len env swp : Bool) (s : ApuSys) : seq_kept len env swp s s :=
  ⟨fun _ => rfl, fun _ => ⟨fun _ => rfl, fun _ => ⟨rfl, rfl⟩⟩⟩

theorem seq_kept_trans {len env swp : Bool} {s t u : ApuSys} (h1 : seq_kept len env swp s t)
    (h2 : seq_kept len env swp t u) : seq_kept len env swp s u :=
  ⟨fun h => (h2.1 h).trans (h1.1 h), fun x =>
    ⟨fun h => ((h2.2 x).1 h).trans ((h1.2 x).1 h),
     fun h => ⟨((h2.2 x).2 h).1.trans ((h1.2 x).2 h).1, ((h2.2 x).2 h).2.trans ((h1.2 x).2 h).2⟩⟩⟩

theorem seq_kept_with_ch {len env swp : Bool} {s t : ApuSys} {c : ChannelRef}
    {f : Channel → Channel} (h : seq_kept len env swp s t)
    (hf : ∀ ch, (len = true → (f ch).length_timer = ch.length_timer) ∧
      (env = true → (f ch).volume = ch.volume ∧
        (f ch).volume_envelope_timer = ch.volume_envelope_timer)) :
    seq_kept len env swp s (with_ch t c f) := by
  refine ⟨h.1, fun x => ?_⟩
  by_cases hxc : x = c
  · subst hxc
    rw [with_ch_same]
    exact ⟨fun hl => ((hf _).1 hl).trans ((h.2 x).1 hl),
      fun he => ⟨((hf _).2 he).1.trans ((h.2 x).2 he).1, ((hf _).2 he).2.trans ((h.2 x).2 he).2⟩⟩
  · rw [with_ch_other _ _ _ _ hxc]
    exact h.2 x

theorem seq_kept_store8 {len env swp : Bool} {s t : ApuSys} {p v : Nat}
    (h : seq_kept len env swp s t) : seq_kept len env swp s (store8 t p v) :=
  h

theorem seq_kept_with_fsu {len env swp : Bool} {s t : ApuSys}
    {f : FrequencySweepUnit → FrequencySweepUnit} (h : seq_kept len env swp s t)
    (hf : ∀ fsu, swp = true → (f fsu).freq_sweep_timer = fsu.freq_sweep_timer) :
    seq_kept len env swp s (with_fsu t f) :=
  ⟨fun hs => (hf _ hs).trans (h.1 hs), h.2⟩

theorem sync_nr52_seq (len env swp : Bool) (s : ApuSys) :
    seq_kept len env swp s (sync_nr52 s) :=
  seq_kept_store8 (seq_kept_refl _ _ _ s)

theorem disable_fsu_seq (len env swp : Bool) (s : ApuSys) :
    seq_kept len env swp s (disable_fsu s) :=
  seq_kept_with_fsu (seq_kept_refl _ _ _ s) (fun _ _ => rfl)

theorem disable_channel_seq (len env swp : Bool) (s : ApuSys) (c : ChannelRef) :
    seq_kept len env swp s (disable_channel s c) := by
  unfold disable_channel
  dsimp only
  split_ifs <;> repeat' first
    | with_reducible exact seq_kept_refl _ _ _ _
    | with_reducible refine seq_kept_trans ?_ (sync_nr52_seq _ _ _ _)
    | with_reducible refine seq_kept_trans ?_ (disable_fsu_seq _ _ _ _)
    | with_reducible refine seq_kept_with_ch ?_ (fun _ => ⟨fun _ => rfl, fun _ => ⟨rfl, rfl⟩⟩)

theorem length_timer_seq (env swp : Bool) (s : ApuSys) (c : ChannelRef) :
    seq_kept false env swp s (length_timer s c) := by
  unfold length_timer
  dsimp only
  split_ifs <;> repeat' first
    | with_reducible exact seq_kept_refl _ _ _ _
    | with_reducible refine seq_kept_trans ?_ (disable_channel_seq _ _ _ _ _)
    | with_reducible refine seq_kept_with_ch ?_ (fun _ => ⟨fun h => Bool.noConfusion h, fun _ => ⟨rfl, rfl⟩⟩)

theorem clock_length_timers_seq (env swp : Bool) (s : ApuSys) :
    seq_kept false env swp s (clock_length_timers s) :=
  seq_kept_trans (seq_kept_trans (seq_kept_trans (length_timer_seq _ _ _ _)
    (length_timer_seq _ _ _ _)) (length_timer_seq _ _ _ _)) (length_timer_seq _ _ _ _)

theorem volume_envelope_seq (len swp : Bool) (s : ApuSys) (c : ChannelRef) :
    seq_kept len false swp s (volume_envelope s c) := by
  unfold volume_envelope
  dsimp only
  split_ifs <;> repeat' first
    | with_reducible exact seq_kept_refl _ _ _ _
    | with_reducible refine seq_kept_with_ch ?_ (fun _ => ⟨fun _ => rfl, fun h => Bool.noConfusion h⟩)

/-- The envelopes are clocked on channels 1, 2 and 4: channel 3 is left as it
is. -/
theorem volume_envelope_other (s : ApuSys) (c x : ChannelRef) (h : x ≠ c) :
    (volume_envelope s c).apu.ch x = s.apu.ch x := by
  unfold volume_envelope
  dsimp only
  split_ifs <;> simp only [with_ch_with_ch, with_ch_other _ _ _ _ h]

theorem clock_volume_envelopes_seq (len swp : Bool) (s : ApuSys) :
    seq_kept len false swp s (clock_volume_envelopes s) ∧
    (clock_volume_envelopes s).apu.ch .ch3 = s.apu.ch .ch3 := by
  refine ⟨seq_kept_trans (seq_kept_trans (volume_envelope_seq _ _ _ _)
    (volume_envelope_seq _ _ _ _)) (volume_envelope_seq _ _ _ _), ?_⟩
  unfold clock_volume_envelopes
  dsimp only
  rw [volume_envelope_other _ _ _ (by decide), volume_envelope_other _ _ _ (by decide),
    volume_envelope_other _ _ _ (by decide)]

theorem set_period_seq (len env swp : Bool) (s : ApuSys) (c : ChannelRef) (p : Nat) :
    seq_kept len env swp s (set_period s c p) :=
  seq_kept_store8 (seq_kept_store8 (seq_kept_refl _ _ _ s))

theorem check_negate_latch_set_seq (len env swp : Bool) (s : ApuSys) :
    seq_kept len env swp s (check_negate_latch_set s) := by
  unfold check_negate_latch_set
  split_ifs
  · exact seq_kept_with_fsu (seq_kept_refl _ _ _ s) (fun _ _ => rfl)
  · exact seq_kept_refl _ _ _ s

theorem calc_overflow_check_seq (len env swp : Bool) (s : ApuSys) (step : Nat) :
    seq_kept len env swp s (calc_overflow_check s step) := by
  unfold calc_overflow_check
  dsimp only
  split_ifs <;> repeat' first
    | with_reducible exact seq_kept_refl _ _ _ _
    | with_reducible refine seq_kept_trans ?_ (disable_channel_seq _ _ _ _ _)
    | with_reducible refine seq_kept_trans ?_ (disable_fsu_seq _ _ _ _)
    | with_reducible refine seq_kept_trans ?_ (set_period_seq _ _ _ _ _ _)
    | with_reducible refine seq_kept_trans ?_ (check_negate_latch_set_seq _ _ _ _)
    | with_reducible refine seq_kept_with_fsu ?_ (fun _ _ => rfl)

theorem freq_sweep_seq (len env : Bool) (s : ApuSys) :
    seq_kept len env false s (freq_sweep s) := by
  unfold freq_sweep
  dsimp only
  split_ifs <;> repeat' first
    | with_reducible exact seq_kept_refl _ _ _ _
    | with_reducible refine seq_kept_trans ?_ (calc_overflow_check_seq _ _ _ _ _)
    | with_reducible refine seq_kept_trans ?_ (disable_channel_seq _ _ _ _ _)
    | with_reducible refine seq_kept_trans ?_ (disable_fsu_seq _ _ _ _)
    | with_reducible refine seq_kept_with_fsu ?_ (fun _ h => Bool.noConfusion h)
theorem div_apu_event_steps (s : ApuSys) (hp : s.apu.powered = true) :
    ((s.apu.frame = 0 ∨ s.apu.frame = 4) →
      div_apu_event s = next_frame (clock_length_timers s)) ∧
    ((s.apu.frame = 2 ∨ s.apu.frame = 6) →
      div_apu_event s = next_frame (clock_length_timers (freq_sweep s))) ∧
    (s.apu.frame = 7 → div_apu_event s = next_frame (clock_volume_envelopes s)) ∧
    ((s.apu.frame = 1 ∨ s.apu.frame = 3 ∨ s.apu.frame = 5) →
      div_apu_event s = next_frame s) := by
  have hn : ¬ s.apu.powered = false := by rw [hp]; decide
  unfold div_apu_event
  rw [if_neg hn]
  refine ⟨?_, ?_, ?_, ?_⟩
  · rintro (h | h) <;> simp only [h] <;> rfl
  · rintro (h | h) <;> simp only [h] <;> rfl
  · intro h
    simp only [h]
    rfl
  · rintro (h | h | h) <;> simp only [h, next_frame]

theorem write_nr52_power_on (s : ApuSys) (v : Nat) (hp : s.apu.powered = false)
    (hv : v &&& BIT_7_MASK ≠ 0) :
    (write_nr52 s v).apu.powered = true ∧ (write_nr52 s v).apu.frame = 0 := by
  have hd : decide (v &&& BIT_7_MASK ≠ 0) = true := by simpa using hv
  have e : (store8 s s.apu.nr52 v).apu.powered = false := hp
  unfold write_nr52
  dsimp only
  rw [hd, e]
  simp only [and_self, if_true, Bool.true_eq_false, false_and, if_false]
  exact ⟨rfl, rfl⟩

theorem apu_step_clock (io : ApuMap) (s : ApuSys) (e : ApuEvent)
    (hn : not_write_to io.NR52 e) (hp : s.apu.powered = true) :
    (apu_step io s e).apu.powered = true ∧
    (apu_step io s e).apu.frame =
      (s.apu.frame + div_apu_count [e]) % 8 ∨
    (apu_step io s e).apu.powered = true ∧ div_apu_count [e] = 0 ∧
      (apu_step io s e).apu.frame = s.apu.frame := by
  cases e with
  | write a v =>
    right
    obtain ⟨h1, h2⟩ := (write_audio_register_cases io s a v).2 hn
    exact ⟨h1.trans hp, rfl, h2⟩
  | wave a v => exact Or.inr ⟨hp, rfl, rfl⟩
  | div_apu =>
    left
    obtain ⟨h1, h2, -⟩ := div_apu_event_ok s
    rw [if_pos hp] at h2
    exact ⟨h1.trans hp, h2⟩
  | dot =>
    right
    exact ⟨(apu_dot_ok s).1.trans hp, rfl, (apu_dot_ok s).2.1⟩
  | other a v => exact Or.inr ⟨hp, rfl, rfl⟩

theorem div_apu_count_cons (e : ApuEvent) (es : List ApuEvent) :
    div_apu_count (e :: es) = div_apu_count [e] + div_apu_count es := by
  unfold div_apu_count
  cases e <;> simp <;> omega

theorem apu_run_clock (io : ApuMap) (events : List ApuEvent) :
    ∀ s, s.apu.powered = true → s.apu.frame < 8 →
      (∀ e ∈ events, not_write_to io.NR52 e) →
      (apu_run io s events).apu.powered = true ∧
      (apu_run io s events).apu.frame = (s.apu.frame + div_apu_count events) % 8 := by
  induction events with
  | nil =>
    intro s hp hf _
    exact ⟨hp, (Nat.mod_eq_of_lt hf).symm⟩
  | cons e es ih =>
    intro s hp hf hn
    have he := hn e (List.mem_cons_self _ _)
    have hes : ∀ x ∈ es, not_write_to io.NR52 x := fun x hx => hn x (List.mem_cons_of_mem _ hx)
    rw [div_apu_count_cons]
    show (apu_run io (apu_step io s e) es).apu.powered = true ∧
      (apu_run io (apu_step io s e) es).apu.frame = _
    rcases apu_step_clock io s e he hp with ⟨h1, h2⟩ | ⟨h1, h2, h3⟩
    · obtain ⟨k1, k2⟩ := ih _ h1 (by rw [h2]; exact Nat.mod_lt _ (by decide)) hes
      refine ⟨k1, ?_⟩
      rw [k2, h2]
      omega
    · obtain ⟨k1, k2⟩ := ih _ h1 (by rw [h3]; exact hf) hes
      refine ⟨k1, ?_⟩
      rw [k2, h3, h2]
      omega

/-- C31: (a) while the APU is powered off, `div_apu_event` changes nothing;
(b) a write to NR52 with bit 7 set powers the APU on with the sequencer at
step 0; (c) from a powered state with step below 8, after any sequence of
events without a write to NR52 the APU is still powered and the step is the
old step plus the number of DIV-APU events, modulo 8: counted from power-on,
DIV-APU event number n finds step n mod 8; (d) a DIV-APU event of a powered APU
with step f runs `clock_length_timers` (the `length_timer` of channels 1 to 4)
exactly when f is 0, 2, 4 or 6, before it `freq_sweep` exactly when f is 2 or
6, `clock_volume_envelopes` (the `volume_envelope` of channels 1, 2 and 4)
exactly when f is 7, nothing when f is 1, 3 or 5, and then advances the step;
(e) the length clock leaves volumes, envelope timers and the sweep timer as
they are, the sweep leaves length counters, volumes and envelope timers, and
the envelope clock leaves the length counters, the sweep timer and channel 3. -/
theorem C31_frame_sequencer (io : ApuMap) (s : ApuSys) (v : Nat) (events : List ApuEvent) :
    (s.apu.powered = false → div_apu_event s = s) ∧
    (s.apu.powered = false → v &&& BIT_7_MASK ≠ 0 →
      (write_nr52 s v).apu.powered = true ∧ (write_nr52 s v).apu.frame = 0) ∧
    (s.apu.powered = true → s.apu.frame < 8 → (∀ e ∈ events, not_write_to io.NR52 e) →
      (apu_run io s events).apu.powered = true ∧
      (apu_run io s events).apu.frame = (s.apu.frame + div_apu_count events) % 8) ∧
    (s.apu.powered = true →
      ((s.apu.frame = 0 ∨ s.apu.frame = 4) →
        div_apu_event s = next_frame (clock_length_timers s)) ∧
      ((s.apu.frame = 2 ∨ s.apu.frame = 6) →
        div_apu_event s = next_frame (clock_length_timers (freq_sweep s))) ∧
      (s.apu.frame = 7 → div_apu_event s = next_frame (clock_volume_envelopes s)) ∧
      ((s.apu.frame = 1 ∨ s.apu.frame = 3 ∨ s.apu.frame = 5) →
        div_apu_event s = next_frame s)) ∧
    clock_length_timers s =
      length_timer (length_timer (length_timer (length_timer s .ch1) .ch2) .ch3) .ch4 ∧
    clock_volume_envelopes s =
      volume_envelope (volume_envelope (volume_envelope s .ch1) .ch2) .ch4 ∧
    seq_kept false true true s (clock_length_timers s) ∧
    seq_kept true true false s (freq_sweep s) ∧
    seq_kept true false true s (clock_volume_envelopes s) ∧
    (clock_volume_envelopes s).apu.ch .ch3 = s.apu.ch .ch3 := by
  refine ⟨fun hp => ?_, write_nr52_power_on s v, fun hp hf hn => apu_run_clock io events s hp hf hn,
    div_apu_event_steps s, rfl, rfl, clock_length_timers_seq _ _ s, freq_sweep_seq _ _ s,
    (clock_volume_envelopes_seq _ _ s).1, (clock_volume_envelopes_seq true true s).2⟩
  unfold div_apu_event
  rw [if_pos hp]

/-- Witness for C31: the APU is powered on by a write of 0x80 to NR52; after
three DIV-APU events mixed with a dot and a register write the sequencer is at
step 3, and the first DIV-APU event after power-on runs the length clock. -/
theorem C31_frame_sequencer_witness :
    (apu_run hwApu (write_nr52 (apu_init hwApu (fun _ => 0) (fun _ => 0)) 0x80)
      [.div_apu, .dot, .write 0xFF12 0xF0, .div_apu, .div_apu]).apu.frame = 3 ∧
    div_apu_event (write_nr52 (apu_init hwApu (fun _ => 0) (fun _ => 0)) 0x80) =
      next_frame (clock_length_timers (write_nr52 (apu_init hwApu (fun _ => 0) (fun _ => 0))
        0x80)) := by
  have h := C31_frame_sequencer hwApu (write_nr52 (apu_init hwApu (fun _ => 0) (fun _ => 0)) 0x80)
    0 [.div_apu, .dot, .write 0xFF12 0xF0, .div_apu, .div_apu]
  have hp : (write_nr52 (apu_init hwApu (fun _ => 0) (fun _ => 0)) 0x80).apu.powered = true := by
    decide
  have hf : (write_nr52 (apu_init hwApu (fun _ => 0) (fun _ => 0)) 0x80).apu.frame = 0 := by
    decide
  refine ⟨?_, (h.2.2.2.1 hp).1 (Or.inl hf)⟩
  have h3 := (h.2.2.1 hp (by rw [hf]; decide) (by
    intro e he
    simp only [List.mem_cons, List.mem_singleton, List.not_mem_nil, or_false] at he
    rcases he with rfl | rfl | rfl | rfl | rfl <;> simp [not_write_to, hwApu])).2
  rw [h3, hf]
  rfl

/-! ## C33: APU power-off -/

theorem store8_memory (s : ApuSys) (p v r : Nat) :
    (store8 s p v).memory r = if r = p then v else s.memory r :=
  rfl

theorem and_bit7_cases (x : Nat) : x &&& BIT_7_MASK = 0 ∨ x &&& BIT_7_MASK = 0x80 := by
  have e : x &&& 2 ^ 7 = (x.testBit 7).toNat * 2 ^ 7 := Nat.and_two_pow x 7
  cases h : x.testBit 7
  · left
    rw [h] at e
    exact e
  · right
    rw [h] at e
    exact e

theorem sync_nr52_memory (s : ApuSys) (r : Nat) (h : r ≠ s.apu.nr52) :
    (sync_nr52 s).memory r = s.memory r := by
  unfold sync_nr52
  dsimp only
  rw [store8_memory, if_neg h]

theorem sync_nr52_bit7 (s : ApuSys) :
    reg8 (sync_nr52 s) s.apu.nr52 &&& BIT_7_MASK = reg8 s s.apu.nr52 &&& BIT_7_MASK := by
  unfold sync_nr52 reg8
  dsimp only
  rw [store8_memory, if_pos rfl]
  rcases and_bit7_cases (s.memory s.apu.nr52 % 256) with h | h <;> rw [h] <;>
    cases (s.apu.ch .ch1).enabled <;> cases (s.apu.ch .ch2).enabled <;>
    cases (s.apu.ch .ch3).enabled <;> cases (s.apu.ch .ch4).enabled <;> decide

theorem sync_nr52_clear (s : ApuSys) (h : ∀ c, (s.apu.ch c).enabled = false) :
    (sync_nr52 s).memory s.apu.nr52 = reg8 s s.apu.nr52 &&& BIT_7_MASK := by
  unfold sync_nr52
  dsimp only
  rw [store8_memory, if_pos rfl, h, h, h, h]
  rfl
theorem disable_channel_memory (s : ApuSys) (c : ChannelRef) (r : Nat) (h : r ≠ s.apu.nr52) :
    (disable_channel s c).memory r = s.memory r := by
  unfold disable_channel
  dsimp only
  split_ifs
  · exact sync_nr52_memory (disable_fsu (with_ch s c _)) r h
  · exact sync_nr52_memory (with_ch s c _) r h

theorem disable_channel_bit7 (s : ApuSys) (c : ChannelRef) :
    reg8 (disable_channel s c) s.apu.nr52 &&& BIT_7_MASK = reg8 s s.apu.nr52 &&& BIT_7_MASK := by
  unfold disable_channel
  dsimp only
  split_ifs
  · exact sync_nr52_bit7 (disable_fsu (with_ch s c _))
  · exact sync_nr52_bit7 (with_ch s c _)

theorem disable_channel_pointers (s : ApuSys) (c : ChannelRef) :
    (disable_channel s c).apu.nr50 = s.apu.nr50 ∧ (disable_channel s c).apu.nr51 = s.apu.nr51 ∧
    (disable_channel s c).apu.nr52 = s.apu.nr52 := by
  unfold disable_channel
  dsimp only
  split_ifs <;> exact ⟨rfl, rfl, rfl⟩

theorem clear_channel_memory (s : ApuSys) (c : ChannelRef) (r : Nat) :
    (clear_channel s c).memory r =
      if r ∈ [(s.apu.ch c).nrx0, (s.apu.ch c).nrx1, (s.apu.ch c).nrx2, (s.apu.ch c).nrx3,
          (s.apu.ch c).nrx4] then 0
      else s.memory r := by
  unfold clear_channel
  dsimp only
  rw [with_ch_memory]
  simp only [store8_memory, store8, List.mem_cons, List.mem_singleton, List.not_mem_nil, or_false]
  split_ifs <;> simp_all

/-- One channel of `power_apu_off`: the registers of the channel are cleared,
the channel is disabled with its DAC off, the other channels and the zeroes
already stored are kept. -/
theorem clear_disable_stage (io : ApuMap) (s : ApuSys) (c : ChannelRef) (l : List Nat)
    (hl : apu_linked io s) (hd : io.NR52 ∉ channel_regs io c) (hn : io.NR52 ∉ l)
    (hz : ∀ r ∈ l, s.memory r = 0) :
    apu_linked io (disable_channel (clear_channel s c) c) ∧
    (∀ r ∈ l ++ channel_regs io c, (disable_channel (clear_channel s c) c).memory r = 0) ∧
    (∀ x, x ≠ c → (disable_channel (clear_channel s c) c).apu.ch x = s.apu.ch x) ∧
    ((disable_channel (clear_channel s c) c).apu.ch c).enabled = false ∧
    ((disable_channel (clear_channel s c) c).apu.ch c).dac_enabled = false ∧
    reg8 (disable_channel (clear_channel s c) c) io.NR52 &&& BIT_7_MASK =
      reg8 s io.NR52 &&& BIT_7_MASK ∧
    (disable_channel (clear_channel s c) c).apu.powered = s.apu.powered := by
  obtain ⟨l1, l2, l3, l4⟩ := hl
  obtain ⟨p1, p2, p3⟩ := disable_channel_pointers (clear_channel s c) c
  have q3 : (clear_channel s c).apu.nr52 = io.NR52 := l3
  have hch : ∀ x, (disable_channel (clear_channel s c) c).apu.ch x =
      if x = c then
        { s.apu.ch c with
          volume_envelope_enabled := false, length_timer_enabled := false, dac_enabled := false,
          output := 0, enabled := false }
      else s.apu.ch x := by
    intro x
    rw [disable_channel_ch]
    by_cases hxc : x = c
    · subst hxc
      rw [if_pos rfl, if_pos rfl, clear_channel_ch, if_pos rfl]
    · rw [if_neg hxc, if_neg hxc, clear_channel_ch, if_neg hxc]
  have hmem : ∀ r, r ≠ io.NR52 → (disable_channel (clear_channel s c) c).memory r =
      if r ∈ channel_regs io c then 0 else s.memory r := by
    intro r hr
    rw [disable_channel_memory _ _ _ (by rw [q3]; exact hr), clear_channel_memory, l4 c]
  refine ⟨⟨p1.trans l1, p2.trans l2, p3.trans l3, fun x => ?_⟩, fun r hr => ?_, fun x hx => ?_,
    ?_, ?_, ?_, ?_⟩
  · rw [hch]
    by_cases hxc : x = c
    · subst hxc
      rw [if_pos rfl]
      exact l4 x
    · rw [if_neg hxc]
      exact l4 x
  · have hr52 : r ≠ io.NR52 := by
      rintro rfl
      rcases List.mem_append.mp hr with h | h
      · exact hn h
      · exact hd h
    rw [hmem r hr52]
    split_ifs with h
    · rfl
    · rcases List.mem_append.mp hr with h2 | h2
      · exact hz r h2
      · exact absurd h2 h
  · rw [hch, if_neg hx]
  · rw [hch, if_pos rfl]
  · rw [hch, if_pos rfl]
  · have e := disable_channel_bit7 (clear_channel s c) c
    rw [q3] at e
    rw [e]
    unfold reg8
    rw [clear_channel_memory, l4 c, if_neg hd]
  · exact (disable_channel_clock _ c).1
theorem power_apu_off_spec (io : ApuMap) (s : ApuSys) (hl : apu_linked io s)
    (hd : io.NR52 ∉ audio_regs io) :
    apu_linked io (power_apu_off s) ∧
    (∀ r ∈ audio_regs io, (power_apu_off s).memory r = 0) ∧
    (∀ c, ((power_apu_off s).apu.ch c).enabled = false ∧
      ((power_apu_off s).apu.ch c).dac_enabled = false) ∧
    reg8 (power_apu_off s) io.NR52 &&& BIT_7_MASK = reg8 s io.NR52 &&& BIT_7_MASK ∧
    (power_apu_off s).apu.powered = s.apu.powered := by
  have d1 : io.NR52 ∉ channel_regs io .ch1 := fun h => hd (by unfold audio_regs; simp [h])
  have d2 : io.NR52 ∉ channel_regs io .ch2 := fun h => hd (by unfold audio_regs; simp [h])
  have d3 : io.NR52 ∉ channel_regs io .ch3 := fun h => hd (by unfold audio_regs; simp [h])
  have d4 : io.NR52 ∉ channel_regs io .ch4 := fun h => hd (by unfold audio_regs; simp [h])
  have d5 : io.NR52 ≠ io.NR50 ∧ io.NR52 ≠ io.NR51 :=
    ⟨fun h => hd (by unfold audio_regs; simp [← h]), fun h => hd (by unfold audio_regs; simp [← h])⟩
  obtain ⟨a1, a2, a3, a4, a5, a6, a7⟩ := clear_disable_stage io s .ch1 [] hl d1
    (List.not_mem_nil _) (fun r hr => absurd hr (List.not_mem_nil _))
  generalize g1 : disable_channel (clear_channel s .ch1) .ch1 = s1 at a1 a2 a3 a4 a5 a6 a7
  obtain ⟨b1, b2, b3, b4, b5, b6, b7⟩ := clear_disable_stage io s1 .ch2 _ a1 d2
    (fun h => by rcases List.mem_append.mp h with h | h; exact List.not_mem_nil _ h; exact d1 h) a2
  generalize g2 : disable_channel (clear_channel s1 .ch2) .ch2 = s2 at b1 b2 b3 b4 b5 b6 b7
  obtain ⟨c1, c2, c3, c4, c5, c6, c7⟩ := clear_disable_stage io s2 .ch3 _ b1 d3
    (fun h => by
      rcases List.mem_append.mp h with h | h
      · rcases List.mem_append.mp h with h | h
        · exact List.not_mem_nil _ h
        · exact d1 h
      · exact d2 h) b2
  generalize g3 : disable_channel (clear_channel s2 .ch3) .ch3 = s3 at c1 c2 c3 c4 c5 c6 c7
  obtain ⟨e1, e2, e3, e4, e5, e6, e7⟩ := clear_disable_stage io s3 .ch4 _ c1 d4
    (fun h => by
      rcases List.mem_append.mp h with h | h
      · rcases List.mem_append.mp h with h | h
        · rcases List.mem_append.mp h with h | h
          · exact List.not_mem_nil _ h
          · exact d1 h
        · exact d2 h
      · exact d3 h) c2
  generalize g4 : disable_channel (clear_channel s3 .ch4) .ch4 = s4 at e1 e2 e3 e4 e5 e6 e7
  have hp : power_apu_off s = store8 (store8 s4 s4.apu.nr50 0) s4.apu.nr51 0 := by
    unfold power_apu_off
    dsimp only
    rw [g1, g2, g3, g4]
    rfl
  rw [hp]
  obtain ⟨k1, k2, k3, k4⟩ := e1
  refine ⟨⟨k1, k2, k3, k4⟩, fun r hr => ?_, fun c => ?_, ?_, ?_⟩
  · rw [store8_memory, store8_memory]
    show (if r = s4.apu.nr51 then 0 else if r = s4.apu.nr50 then 0 else s4.memory r) = 0
    split_ifs with h1 h2
    · rfl
    · rfl
    · rw [k1] at h2
      rw [k2] at h1
      unfold audio_regs at hr
      rcases List.mem_append.mp hr with h | h
      · exact e2 r (by simpa [List.append_assoc] using h)
      · simp only [List.mem_cons, List.mem_singleton, List.not_mem_nil, or_false] at h
        rcases h with h | h
        · exact absurd h h2
        · exact absurd h h1
  · show (s4.apu.ch c).enabled = false ∧ (s4.apu.ch c).dac_enabled = false
    cases c
    · rw [e3 _ (by decide), c3 _ (by decide), b3 _ (by decide)]
      exact ⟨a4, a5⟩
    · rw [e3 _ (by decide), c3 _ (by decide)]
      exact ⟨b4, b5⟩
    · rw [e3 _ (by decide)]
      exact ⟨c4, c5⟩
    · exact ⟨e4, e5⟩
  · unfold reg8
    rw [store8_memory, store8_memory]
    show (if io.NR52 = s4.apu.nr51 then 0 else if io.NR52 = s4.apu.nr50 then 0
      else s4.memory io.NR52) % 256 &&& BIT_7_MASK = _
    rw [k1, k2, if_neg d5.2, if_neg d5.1]
    exact e6.trans (c6.trans (b6.trans a6))
  · show s4.apu.powered = s.apu.powered
    exact e7.trans (c7.trans (b7.trans a7))

theorem bit7_clear (v : Nat) (h : v.testBit 7 = false) : v % 256 &&& BIT_7_MASK = 0 := by
  have e : v % 256 &&& 2 ^ 7 = ((v % 256).testBit 7).toNat * 2 ^ 7 := Nat.and_two_pow _ 7
  have t : (v % 2 ^ 8).testBit 7 = (decide (7 < 8) && v.testBit 7) := Nat.testBit_mod_two_pow v 8 7
  rw [h] at t
  have t2 : (v % 256).testBit 7 = false := by simpa using t
  rw [t2] at e
  exact e

theorem bit7_mod (v : Nat) : v % 256 % 256 &&& BIT_7_MASK = v % 256 &&& BIT_7_MASK := by
  rw [Nat.mod_mod]

/-- What `write_nr52` does on a powered APU when bit 7 of the value is clear. -/
theorem write_nr52_power_off (io : ApuMap) (s : ApuSys) (v : Nat) (hl : apu_linked io s)
    (hd : io.NR52 ∉ audio_regs io) (hp : s.apu.powered = true) (hv : v &&& BIT_7_MASK = 0)
    (hv8 : v < 256) :
    apu_linked io (write_nr52 s v) ∧
    (write_nr52 s v).apu.powered = false ∧
    (∀ r ∈ audio_regs io, (write_nr52 s v).memory r = 0) ∧
    (∀ c, ((write_nr52 s v).apu.ch c).enabled = false ∧
      ((write_nr52 s v).apu.ch c).dac_enabled = false) ∧
    (write_nr52 s v).memory io.NR52 = 0 := by
  have hdec : decide (v &&& BIT_7_MASK ≠ 0) = false := by simp [hv]
  have e : write_nr52 s v = sync_nr52 (power_apu_off
      { store8 s s.apu.nr52 v with apu := { s.apu with powered := false } }) := by
    unfold write_nr52
    dsimp only
    rw [hdec]
    have p1 : (store8 s s.apu.nr52 v).apu.powered = true := hp
    rw [p1]
    simp only [store8, Bool.false_eq_true, false_and, if_false, and_self, if_true]
  generalize hs1 : ({ store8 s s.apu.nr52 v with apu := { s.apu with powered := false } } : ApuSys)
    = s1 at e
  have l1 : apu_linked io s1 := by
    rw [← hs1]
    exact hl
  have m1 : reg8 s1 io.NR52 = v := by
    rw [← hs1]
    show (if io.NR52 = s.apu.nr52 then v else s.memory io.NR52) % 256 = v
    rw [if_pos hl.2.2.1.symm]
    exact Nat.mod_eq_of_lt hv8
  have w1 : s1.apu.powered = false := by
    rw [← hs1]
  obtain ⟨k1, k2, k3, k4, k5⟩ := power_apu_off_spec io s1 l1 hd
  generalize power_apu_off s1 = s2 at e k1 k2 k3 k4 k5
  rw [e]
  have n52 : s2.apu.nr52 = io.NR52 := k1.2.2.1
  refine ⟨k1, k5.trans w1, fun r hr => ?_, k3, ?_⟩
  · rw [sync_nr52_memory s2 r (fun h => hd (by rw [← n52, ← h]; exact hr))]
    exact k2 r hr
  · rw [← n52, sync_nr52_clear s2 (fun c => (k3 c).1), n52, k4, m1]
    exact hv

/-- A write to NR52 goes to `write_nr52`. -/
theorem write_audio_register_nr52 (io : ApuMap) (s : ApuSys) (v : Nat)
    (hd : io.NR52 ∉ audio_regs io) :
    write_audio_register io s io.NR52 v = write_nr52 s (v % 256) := by
  unfold audio_regs channel_regs at hd
  simp only [List.cons_append, List.nil_append, List.mem_cons, List.mem_singleton,
    List.not_mem_nil, or_false, not_or] at hd
  obtain ⟨a1, a2, a3, a4, a5, b1, b2, b3, b4, b5, c1, c2, c3, c4, c5, d1, d2, d3, d4, d5,
    e1, e2⟩ := hd
  unfold write_audio_register
  dsimp only
  rw [if_neg (fun h => h.2 rfl), if_neg a1, if_neg a2, if_neg a3, if_neg a4, if_neg a5,
    if_neg b1, if_neg b2, if_neg b3, if_neg b4, if_neg b5, if_neg c1, if_neg c2, if_neg c3,
    if_neg c4, if_neg c5, if_neg d1, if_neg d2, if_neg d3, if_neg d4, if_neg d5, if_neg e1,
    if_neg e2, if_pos rfl]

/-- While the APU is not powered a write to a register other than NR52 changes
nothing. -/
theorem write_audio_register_unpowered (io : ApuMap) (u : ApuSys) (a w : Nat)
    (hp : u.apu.powered = false) (ha : a ≠ io.NR52) :
    write_audio_register io u a w = u := by
  unfold write_audio_register
  dsimp only
  rw [if_pos ⟨hp, ha⟩]

theorem wave_ram_write_read (io : ApuMap) (u : ApuSys) (a w : Nat) :
    read_wave_ram io (write_wave_ram io u a w) a = w % 256 ∧
    (write_wave_ram io u a w).apu = u.apu ∧
    (write_wave_ram io u a w).memory = u.memory := by
  refine ⟨?_, rfl, rfl⟩
  unfold read_wave_ram write_wave_ram
  dsimp only
  rw [if_pos rfl]

/-- C33 (APU power-off).  On a linked APU whose NR52 is not one of NR10..NR51,
writing NR52 with bit 7 clear while the APU is powered turns the power off,
leaves 0 in every register NR10..NR51, leaves all four channels and their DACs
disabled and leaves 0 in NR52 (so bits 0..3 read 0).  In every unpowered state
`u` a write to an audio register other than NR52 returns `u` unchanged, and with
or without power a byte written to wave RAM is the byte read back, the write
touching neither the APU nor the registers. -/
theorem C33_apu_power_off (io : ApuMap) (s : ApuSys) (v : Nat) (hl : apu_linked io s)
    (hd : io.NR52 ∉ audio_regs io) (hp : s.apu.powered = true) (hv : v.testBit 7 = false) :
    (write_audio_register io s io.NR52 v).apu.powered = false ∧
    (∀ r ∈ audio_regs io, (write_audio_register io s io.NR52 v).memory r = 0) ∧
    (∀ c, ((write_audio_register io s io.NR52 v).apu.ch c).enabled = false ∧
      ((write_audio_register io s io.NR52 v).apu.ch c).dac_enabled = false) ∧
    reg8 (write_audio_register io s io.NR52 v) io.NR52 &&& 0x0F = 0 ∧
    (write_audio_register io s io.NR52 v).memory io.NR52 = 0 ∧
    apu_linked io (write_audio_register io s io.NR52 v) ∧
    (∀ (u : ApuSys) (a w : Nat), u.apu.powered = false → a ≠ io.NR52 →
      write_audio_register io u a w = u) ∧
    (∀ (u : ApuSys) (a w : Nat),
      read_wave_ram io (write_wave_ram io u a w) a = w % 256 ∧
      (write_wave_ram io u a w).apu = u.apu ∧
      (write_wave_ram io u a w).memory = u.memory) := by
  rw [write_audio_register_nr52 io s v hd]
  obtain ⟨k1, k2, k3, k4, k5⟩ := write_nr52_power_off io s (v % 256) hl hd hp
    (bit7_clear v hv) (Nat.mod_lt _ (by decide))
  refine ⟨k2, k3, k4, ?_, k5, k1, write_audio_register_unpowered io, wave_ram_write_read io⟩
  unfold reg8
  rw [k5]
  rfl

theorem C33_apu_power_off_witness :
    (write_audio_register hwApu
        (apu_run hwApu (apu_init hwApu (fun _ => 0) (fun _ => 0))
          [.write 0xFF26 0x80, .write 0xFF12 0xF0, .write 0xFF14 0x80]) 0xFF26 0x00).apu.powered
      = false ∧
    (write_audio_register hwApu
        (apu_run hwApu (apu_init hwApu (fun _ => 0) (fun _ => 0))
          [.write 0xFF26 0x80, .write 0xFF12 0xF0, .write 0xFF14 0x80]) 0xFF26 0x00).memory 0xFF12
      = 0 :=
  have h := C33_apu_power_off hwApu
    (apu_run hwApu (apu_init hwApu (fun _ => 0) (fun _ => 0))
      [.write 0xFF26 0x80, .write 0xFF12 0xF0, .write 0xFF14 0x80]) 0x00
    ⟨rfl, rfl, rfl, fun c => by cases c <;> rfl⟩ (by decide) (by decide) (by decide)
  ⟨h.1, h.2.1 0xFF12 (by decide)⟩

/-! ## C37: the period of the noise channel -/

theorem apu_dot_noise (s : ApuSys) :
    ∃ u, apu_dot s = clock_noise_timer u ∧ u.memory = s.memory ∧
      u.noise_period = s.noise_period ∧ u.apu.ch .ch4 = s.apu.ch .ch4 := by
  have h1 := clock_pulse_timer_only s .ch1
  have h2 := clock_pulse_timer_only (clock_pulse_timer s .ch1) .ch2
  have h3 := clock_wave_timer_only (clock_pulse_timer (clock_pulse_timer s .ch1) .ch2)
  refine ⟨clock_wave_timer (clock_pulse_timer (clock_pulse_timer s .ch1) .ch2), rfl,
    h3.1.trans (h2.1.trans h1.1), h3.2.2.1.trans (h2.2.2.1.trans h1.2.2.1), ?_⟩
  exact (h3.2.2.2.2.2.2 _ (by decide)).trans
    ((h2.2.2.2.2.2.2 _ (by decide)).trans (h1.2.2.2.2.2.2 _ (by decide)))

/-- A dot on which the timer of channel 4 stays below the period: the timer is
incremented and nothing else of the channel changes. -/
theorem noise_dot_idle (s : ApuSys) (he : (s.apu.ch .ch4).enabled = true)
    (ht : ((s.apu.ch .ch4).timer + 1) % 256 < s.noise_period) :
    (apu_dot s).apu.ch .ch4 =
      { s.apu.ch .ch4 with timer := ((s.apu.ch .ch4).timer + 1) % 256 } ∧
    (apu_dot s).memory = s.memory ∧ (apu_dot s).noise_period = s.noise_period := by
  obtain ⟨u, e, hm, hp, h4⟩ := apu_dot_noise s
  rw [e]
  have k := clock_noise_timer_only u
  refine ⟨?_, k.1.trans hm, k.2.2.1.trans hp⟩
  unfold clock_noise_timer
  dsimp only
  rw [if_neg (by rw [h4, he]; decide)]
  simp only [with_ch_same, with_ch_noise_period]
  rw [h4, hp, if_pos ht, with_ch_same, h4]

/-- A dot on which the timer of channel 4 reaches the period: the timer returns
to 0 and `clock_lfsr` runs once. -/
theorem noise_dot_clock (s : ApuSys) (he : (s.apu.ch .ch4).enabled = true)
    (ht : ¬ ((s.apu.ch .ch4).timer + 1) % 256 < s.noise_period) :
    ((apu_dot s).apu.ch .ch4).lfsr = ((clock_lfsr s .ch4).apu.ch .ch4).lfsr ∧
    ((apu_dot s).apu.ch .ch4).timer = 0 ∧
    ((apu_dot s).apu.ch .ch4).enabled = true ∧
    ((apu_dot s).apu.ch .ch4).nrx4 = (s.apu.ch .ch4).nrx4 ∧
    (apu_dot s).memory = s.memory ∧ (apu_dot s).noise_period = s.noise_period := by
  obtain ⟨u, e, hm, hp, h4⟩ := apu_dot_noise s
  rw [e]
  have k := clock_noise_timer_only u
  refine ⟨?_, ?_, ?_, ?_, k.1.trans hm, k.2.2.1.trans hp⟩ <;>
  · unfold clock_noise_timer
    dsimp only
    rw [if_neg (by rw [h4, he]; decide)]
    simp only [with_ch_same, with_ch_noise_period]
    rw [h4, hp, if_neg ht]
    unfold clock_lfsr
    simp only [with_ch_same, h4, he]
    try (unfold reg8; simp only [with_ch_memory, hm])

theorem apu_dots_succ (n : Nat) (s : ApuSys) : apu_dots (n + 1) s = apu_dot (apu_dots n s) := by
  induction n generalizing s with
  | zero => rfl
  | succ n ih =>
    show apu_dots (n + 1) (apu_dot s) = _
    rw [ih (apu_dot s)]
    rfl

/-- With a period of 256 or more the timer never reaches it. -/
theorem noise_dots_stuck (n : Nat) (s : ApuSys) (he : (s.apu.ch .ch4).enabled = true)
    (hp : 256 ≤ s.noise_period) :
    ((apu_dots n s).apu.ch .ch4).lfsr = (s.apu.ch .ch4).lfsr ∧
    ((apu_dots n s).apu.ch .ch4).enabled = true := by
  induction n generalizing s with
  | zero => exact ⟨rfl, he⟩
  | succ n ih =>
    have ht : ((s.apu.ch .ch4).timer + 1) % 256 < s.noise_period :=
      lt_of_lt_of_le (Nat.mod_lt _ (by decide)) hp
    obtain ⟨a1, _, a3⟩ := noise_dot_idle s he ht
    have b := ih (apu_dot s) (by rw [a1]; exact he) (by rw [a3]; exact hp)
    show ((apu_dots n (apu_dot s)).apu.ch .ch4).lfsr = _ ∧ _
    rw [b.1, a1]
    exact ⟨rfl, b.2⟩

/-- Below the period the timer counts the dots. -/
theorem noise_dots_count (n : Nat) (s : ApuSys) (he : (s.apu.ch .ch4).enabled = true)
    (hn : (s.apu.ch .ch4).timer + n < s.noise_period) (hp : s.noise_period ≤ 256) :
    (apu_dots n s).apu.ch .ch4 = { s.apu.ch .ch4 with timer := (s.apu.ch .ch4).timer + n } ∧
    (apu_dots n s).memory = s.memory ∧ (apu_dots n s).noise_period = s.noise_period := by
  induction n generalizing s with
  | zero => exact ⟨rfl, rfl, rfl⟩
  | succ n ih =>
    have hm : ((s.apu.ch .ch4).timer + 1) % 256 = (s.apu.ch .ch4).timer + 1 :=
      Nat.mod_eq_of_lt (by omega)
    have ht : ((s.apu.ch .ch4).timer + 1) % 256 < s.noise_period := by
      rw [hm]
      omega
    obtain ⟨a1, a2, a3⟩ := noise_dot_idle s he ht
    rw [hm] at a1
    have t1 : ((apu_dot s).apu.ch .ch4).timer = (s.apu.ch .ch4).timer + 1 := by rw [a1]
    obtain ⟨b1, b2, b3⟩ := ih (apu_dot s) (by rw [a1]; exact he)
      (by rw [t1, a3]; omega) (by rw [a3]; exact hp)
    show (apu_dots n (apu_dot s)).apu.ch .ch4 = _ ∧ (apu_dots n (apu_dot s)).memory = _ ∧
      (apu_dots n (apu_dot s)).noise_period = _
    refine ⟨?_, b2.trans a2, b3.trans a3⟩
    rw [b1, a1]
    show _ = { s.apu.ch .ch4 with timer := (s.apu.ch .ch4).timer + (n + 1) }
    rw [Nat.add_assoc, Nat.add_comm 1 n]

theorem write_nr43_period (s : ApuSys) (v : Nat) :
    (write_nr43 s v).noise_period =
      (divisor_table.getD (v &&& 7) 0 <<< ((v >>> 4) &&& 15)) % 65536 :=
  rfl

/-- C37 (noise period).  `write_nr43` sets the period of channel 4 to
`divisor_table[NR43 & 7] << (NR43 >> 4)` on 16 bits.  With channel 4 enabled and
its timer at 0, a period `p` between 1 and 255 clocks the LFSR at the dot number
`p` and at no dot before; with a period of 256 or more no number of dots ever
clocks the LFSR, the 8-bit timer staying below the period. -/
theorem C37_noise_period (s : ApuSys) (he : (s.apu.ch .ch4).enabled = true) :
    (∀ u v, (write_nr43 u v).noise_period =
      (divisor_table.getD (v &&& 7) 0 <<< ((v >>> 4) &&& 15)) % 65536) ∧
    (1 ≤ s.noise_period → s.noise_period ≤ 255 → (s.apu.ch .ch4).timer = 0 →
      (∀ n, n < s.noise_period →
        ((apu_dots n s).apu.ch .ch4).lfsr = (s.apu.ch .ch4).lfsr ∧
        ((apu_dots n s).apu.ch .ch4).timer = n) ∧
      ((apu_dots s.noise_period s).apu.ch .ch4).lfsr = ((clock_lfsr s .ch4).apu.ch .ch4).lfsr ∧
      ((apu_dots s.noise_period s).apu.ch .ch4).timer = 0) ∧
    (256 ≤ s.noise_period → ∀ n,
      ((apu_dots n s).apu.ch .ch4).lfsr = (s.apu.ch .ch4).lfsr ∧
      ((apu_dots n s).apu.ch .ch4).enabled = true) := by
  refine ⟨write_nr43_period, fun h1 h2 h0 => ?_, fun h n => noise_dots_stuck n s he h⟩
  have count : ∀ n, n < s.noise_period →
      (apu_dots n s).apu.ch .ch4 = { s.apu.ch .ch4 with timer := n } ∧
      (apu_dots n s).memory = s.memory ∧ (apu_dots n s).noise_period = s.noise_period := by
    intro n hn
    have k := noise_dots_count n s he (by rw [h0]; omega) (by omega)
    rw [h0, Nat.zero_add] at k
    exact k
  refine ⟨fun n hn => ?_, ?_⟩
  · rw [(count n hn).1]
    exact ⟨rfl, rfl⟩
  · obtain ⟨p, hp⟩ : ∃ p, s.noise_period = p + 1 := ⟨s.noise_period - 1, by omega⟩
    obtain ⟨c1, c2, c3⟩ := count p (by omega)
    rw [hp, apu_dots_succ]
    have e1 : ((apu_dots p s).apu.ch .ch4).enabled = true := by rw [c1]; exact he
    have t1 : ((apu_dots p s).apu.ch .ch4).timer = p := by rw [c1]
    have nt : ¬ (((apu_dots p s).apu.ch .ch4).timer + 1) % 256 < (apu_dots p s).noise_period := by
      rw [t1, c3, hp, Nat.mod_eq_of_lt (by omega)]
      exact lt_irrefl _
    obtain ⟨d1, d2, _⟩ := noise_dot_clock (apu_dots p s) e1 nt
    refine ⟨?_, d2⟩
    rw [d1, (clock_lfsr_lfsr _ _).1, (clock_lfsr_lfsr _ _).1, c1]
    unfold reg8
    rw [c2]

theorem C37_noise_period_witness :
    (apu_run hwApu (apu_init hwApu (fun _ => 0) (fun _ => 0))
        [.write 0xFF26 0x80, .write 0xFF21 0xF0, .write 0xFF22 0x50, .write 0xFF23 0x80]).noise_period
      = 256 ∧
    ∀ n, ((apu_dots n (apu_run hwApu (apu_init hwApu (fun _ => 0) (fun _ => 0))
        [.write 0xFF26 0x80, .write 0xFF21 0xF0, .write 0xFF22 0x50,
          .write 0xFF23 0x80])).apu.ch .ch4).lfsr = 0 :=
  ⟨by decide, fun n => ((C37_noise_period
    (apu_run hwApu (apu_init hwApu (fun _ => 0) (fun _ => 0))
      [.write 0xFF26 0x80, .write 0xFF21 0xF0, .write 0xFF22 0x50, .write 0xFF23 0x80])
    (by decide)).2.2 (by decide) n).1⟩

/-! ## C34: the PCM ring buffer -/

theorem ring_contents_length (rb : RingBuffer) :
    (ring_contents rb).length =
      (rb.write_pos + RING_BUFFER_CAPACITY - rb.read_pos) % RING_BUFFER_CAPACITY := by
  unfold ring_contents
  rw [List.length_map, List.length_range]

theorem ring_full_iff (rb : RingBuffer) (hr : rb.read_pos < RING_BUFFER_CAPACITY)
    (hw : rb.write_pos < RING_BUFFER_CAPACITY) :
    ring_full rb ↔ (ring_contents rb).length = RING_BUFFER_CAPACITY - 1 := by
  rw [ring_contents_length]
  unfold ring_full
  simp only [RING_BUFFER_CAPACITY] at *
  omega

theorem ring_write_full (rb : RingBuffer) (x : Int) (h : ring_full rb) :
    ring_buffer_write rb x = (false, rb) := by
  unfold ring_full at h
  unfold ring_buffer_write
  dsimp only
  rw [if_pos h]

theorem ring_write_room (rb : RingBuffer) (x : Int) (hr : rb.read_pos < RING_BUFFER_CAPACITY)
    (hw : rb.write_pos < RING_BUFFER_CAPACITY) (h : ¬ ring_full rb) :
    (ring_buffer_write rb x).1 = true ∧
    ring_contents (ring_buffer_write rb x).2 = ring_contents rb ++ [x] ∧
    (ring_buffer_write rb x).2.read_pos = rb.read_pos ∧
    (ring_buffer_write rb x).2.write_pos < RING_BUFFER_CAPACITY ∧
    (ring_buffer_write rb x).2.size = rb.size + 1 := by
  unfold ring_full at h
  unfold ring_buffer_write
  dsimp only
  rw [if_neg h]
  refine ⟨rfl, ?_, rfl, Nat.mod_lt _ (by decide), rfl⟩
  unfold ring_contents
  dsimp only
  have e : ((rb.write_pos + 1) % RING_BUFFER_CAPACITY + RING_BUFFER_CAPACITY - rb.read_pos)
      % RING_BUFFER_CAPACITY
      = (rb.write_pos + RING_BUFFER_CAPACITY - rb.read_pos) % RING_BUFFER_CAPACITY + 1 := by
    simp only [RING_BUFFER_CAPACITY] at *
    omega
  rw [e, List.range_succ, List.map_append]
  congr 1
  · apply List.map_congr_left
    intro i hi
    have hi2 := List.mem_range.mp hi
    rw [if_neg]
    simp only [RING_BUFFER_CAPACITY] at *
    omega
  · rw [List.map_singleton, if_pos]
    simp only [RING_BUFFER_CAPACITY] at *
    omega

theorem ring_read_empty (rb : RingBuffer) (hr : rb.read_pos < RING_BUFFER_CAPACITY)
    (hw : rb.write_pos < RING_BUFFER_CAPACITY) (h : ring_contents rb = []) :
    ring_buffer_read rb = (false, none, rb) := by
  have hl := ring_contents_length rb
  rw [h] at hl
  have e : rb.write_pos = rb.read_pos := by
    simp only [RING_BUFFER_CAPACITY, List.length_nil] at *
    omega
  unfold ring_buffer_read ring_buffer_empty
  rw [if_pos (by simpa using e)]

theorem ring_read_head (rb : RingBuffer) (y : Int) (rest : List Int)
    (hr : rb.read_pos < RING_BUFFER_CAPACITY) (hw : rb.write_pos < RING_BUFFER_CAPACITY)
    (h : ring_contents rb = y :: rest) :
    (ring_buffer_read rb).1 = true ∧ (ring_buffer_read rb).2.1 = some y ∧
    ring_contents (ring_buffer_read rb).2.2 = rest ∧
    (ring_buffer_read rb).2.2.read_pos < RING_BUFFER_CAPACITY ∧
    (ring_buffer_read rb).2.2.write_pos = rb.write_pos ∧
    (ring_buffer_read rb).2.2.size = rb.size - 1 := by
  have hl := ring_contents_length rb
  rw [h] at hl
  have ne : rb.write_pos ≠ rb.read_pos := by
    intro e
    rw [e] at hl
    simp [RING_BUFFER_CAPACITY] at hl
  obtain ⟨n, hn⟩ : ∃ n, (rb.write_pos + RING_BUFFER_CAPACITY - rb.read_pos)
      % RING_BUFFER_CAPACITY = n + 1 := ⟨rest.length, by rw [← hl]; rfl⟩
  have hc : ring_contents rb = rb.data rb.read_pos ::
      (List.range n).map (fun i => rb.data ((rb.read_pos + (i + 1)) % RING_BUFFER_CAPACITY)) := by
    unfold ring_contents
    rw [hn, List.range_succ_eq_map, List.map_cons, List.map_map]
    congr 1
    show rb.data ((rb.read_pos + 0) % RING_BUFFER_CAPACITY) = _
    rw [Nat.add_zero, Nat.mod_eq_of_lt hr]
  rw [h] at hc
  obtain ⟨hy, hrest⟩ := List.cons.inj hc
  unfold ring_buffer_read ring_buffer_empty
  rw [if_neg (by simpa using ne)]
  refine ⟨rfl, by rw [hy], ?_, Nat.mod_lt _ (by decide), rfl, rfl⟩
  rw [hrest]
  unfold ring_contents
  dsimp only
  have e : (rb.write_pos + RING_BUFFER_CAPACITY - (rb.read_pos + 1) % RING_BUFFER_CAPACITY)
      % RING_BUFFER_CAPACITY = n := by
    simp only [RING_BUFFER_CAPACITY] at *
    omega
  rw [e]
  apply List.map_congr_left
  intro i _
  congr 1
  simp only [RING_BUFFER_CAPACITY] at *
  omega

/-- C34 (PCM ring buffer), as the code has it.  `ring_buffer_write` always
returns.  On a full buffer (65535 samples) it returns false and leaves the
buffer as it was: the sample offered is not stored and no stored sample is
dropped.  On a buffer with room it returns true and the sample becomes the last
of the stored ones.  `ring_buffer_read` returns false on an empty buffer and
otherwise returns the oldest stored sample and removes it, so samples that were
stored are read back in the order they were written. -/
theorem C34_ring_buffer (rb : RingBuffer) (x : Int) (hr : rb.read_pos < RING_BUFFER_CAPACITY)
    (hw : rb.write_pos < RING_BUFFER_CAPACITY) :
    (ring_full rb ↔ (ring_contents rb).length = RING_BUFFER_CAPACITY - 1) ∧
    (ring_full rb → ring_buffer_write rb x = (false, rb)) ∧
    (¬ ring_full rb →
      (ring_buffer_write rb x).1 = true ∧
      ring_contents (ring_buffer_write rb x).2 = ring_contents rb ++ [x] ∧
      (ring_buffer_write rb x).2.read_pos = rb.read_pos ∧
      (ring_buffer_write rb x).2.write_pos < RING_BUFFER_CAPACITY ∧
      (ring_buffer_write rb x).2.size = rb.size + 1) ∧
    (ring_contents rb = [] → ring_buffer_read rb = (false, none, rb)) ∧
    (∀ y rest, ring_contents rb = y :: rest →
      (ring_buffer_read rb).1 = true ∧ (ring_buffer_read rb).2.1 = some y ∧
      ring_contents (ring_buffer_read rb).2.2 = rest ∧
      (ring_buffer_read rb).2.2.read_pos < RING_BUFFER_CAPACITY ∧
      (ring_buffer_read rb).2.2.write_pos = rb.write_pos ∧
      (ring_buffer_read rb).2.2.size = rb.size - 1) :=
  ⟨ring_full_iff rb hr hw, ring_write_full rb x, ring_write_room rb x hr hw,
    ring_read_empty rb hr hw, fun y rest => ring_read_head rb y rest hr hw⟩

theorem C34_ring_buffer_witness :
    ring_contents (ring_buffer_write
        (ring_buffer_write { data := fun _ => 0, read_pos := 0, write_pos := 0, size := 0 } 5).2
        9).2 = [5, 9] :=
  have h1 := (C34_ring_buffer { data := fun _ => 0, read_pos := 0, write_pos := 0, size := 0 } 5
    (by decide) (by decide)).2.2.1 (show ¬ ((0 + 1) % RING_BUFFER_CAPACITY = 0) by decide)
  have h2 := (C34_ring_buffer
    (ring_buffer_write { data := fun _ => 0, read_pos := 0, write_pos := 0, size := 0 } 5).2 9
    (by decide) (by decide)).2.2.1 (show ¬ ((1 + 1) % RING_BUFFER_CAPACITY = 0) by decide)
  h2.2.1.trans (congrArg (fun l => l ++ [9]) h1.2.1)

/-- C34, counterexample: a full buffer whose oldest sample is 1.  Writing -1
returns false and leaves the buffer unchanged, so -1 is in no slot, and the next
read still returns the oldest sample 1. -/
theorem C34_full_write_drops_new :
    ring_full { data := fun i => (i : Int), read_pos := 1, write_pos := 0, size := 65535 } ∧
    ring_buffer_write { data := fun i => (i : Int), read_pos := 1, write_pos := 0, size := 65535 }
      (-1) = (false, { data := fun i => (i : Int), read_pos := 1, write_pos := 0, size := 65535 }) ∧
    (∀ i, (ring_buffer_write
      { data := fun i => (i : Int), read_pos := 1, write_pos := 0, size := 65535 } (-1)).2.data i
        ≠ -1) ∧
    (ring_buffer_read (ring_buffer_write
      { data := fun i => (i : Int), read_pos := 1, write_pos := 0, size := 65535 } (-1)).2).2.1
        = some 1 := by
  refine ⟨by unfold ring_full; decide, rfl, fun i => ?_, rfl⟩
  show (i : Int) ≠ -1
  omega

/-! ## C38: interrupts are taken between instructions -/


theorem next_ins_spec (t : MemoryTables D) (cpu : CPU D) :
    (next_ins t cpu).ins.handler =
      (if cpu.ins.cb_prefixed then HandlerRef.cb (read_memory t cpu.mem cpu.reg.PC)
       else HandlerRef.main (read_memory t cpu.mem cpu.reg.PC)) ∧
    (next_ins t cpu).ins.cb_prefixed = false ∧
    (next_ins t cpu).ins.executed = false ∧
    (next_ins t cpu).ins.duration = 0 ∧
    (next_ins t cpu).ime = cpu.ime ∧
    (next_ins t cpu).running = cpu.running ∧
    (next_ins t cpu).halted = cpu.halted ∧
    (next_ins t cpu).mem = cpu.mem := by
  unfold next_ins fetch reset_ins
  dsimp only
  cases hb : cpu.halt_bug_active <;> cases hc : cpu.ins.cb_prefixed <;>
    simp only [Bool.false_eq_true, if_false, if_true, and_self]

theorem next_ins_not_int (t : MemoryTables D) (cpu : CPU D) :
    (next_ins t cpu).ins.handler ≠ HandlerRef.int_exec := by
  rw [(next_ins_spec t cpu).1]
  split <;> exact fun h => HandlerRef.noConfusion h

theorem service_interrupts_iff (t : MemoryTables D) (cpu : CPU D) :
    ((service_interrupts t cpu).1 = true ↔
      cpu.ime = true ∧ get_pending_interrupts t cpu ≠ 0) ∧
    ((service_interrupts t cpu).1 = false → (service_interrupts t cpu).2 = cpu) := by
  unfold service_interrupts
  dsimp only
  cases hi : cpu.ime
  · simp
  · by_cases hp : get_pending_interrupts t cpu = 0
    · simp [hp]
    · simp [hp]

theorem dispatch_cb_prefix (t : MemoryTables D) (cpu : CPU D) :
    dispatch (HandlerRef.main 0xCB) t cpu = cb_prefix t cpu :=
  rfl

theorem execute_cb_prefix (t : MemoryTables D) (cpu : CPU D)
    (h : cpu.ins.handler = HandlerRef.main 0xCB) :
    (execute_ins t cpu).ins.executed = true ∧ (execute_ins t cpu).ins.cb_prefixed = true ∧
    (execute_ins t cpu).ins.handler = HandlerRef.main 0xCB ∧
    (execute_ins t cpu).running = cpu.running ∧ (execute_ins t cpu).halted = cpu.halted ∧
    (execute_ins t cpu).reg = cpu.reg ∧ (execute_ins t cpu).mem = cpu.mem := by
  unfold execute_ins
  dsimp only
  rw [h, dispatch_cb_prefix]
  unfold cb_prefix
  dsimp only
  split_ifs <;> exact ⟨rfl, rfl, rfl, rfl, rfl, rfl, rfl⟩

/-- C38 (interrupts between instructions).  `check_ins`, the only place of a
machine cycle where a handler is installed, leaves the state alone while the
instruction has not completed; when it installs `int_exec` the instruction had
completed without the 0xCB flag, IME was 1 and `IF & IE & 0x1F` was not 0.
Executing the handler of opcode 0xCB completes with the flag set, and from a
completed instruction with the flag set the next machine cycle is
`execute_ins` after `next_ins`: the byte at PC is fetched and its entry of the
0xCB table is the handler, the flag is cleared, IME and the memory (IF, IE) are
as they were, whatever IME and the pending interrupts are. -/
theorem C38_interrupt_boundary (t : MemoryTables D) (cpu : CPU D) :
    (cpu.ins.executed = false → check_ins t cpu = cpu) ∧
    (cpu.ins.executed = true → (check_ins t cpu).ins.handler = HandlerRef.int_exec →
      cpu.ins.cb_prefixed = false ∧ cpu.ime = true ∧ get_pending_interrupts t cpu ≠ 0 ∧
      check_ins t cpu = (service_interrupts t cpu).2) ∧
    (cpu.ins.handler = HandlerRef.main 0xCB →
      dispatch cpu.ins.handler t cpu = cb_prefix t cpu ∧
      (execute_ins t cpu).ins.executed = true ∧ (execute_ins t cpu).ins.cb_prefixed = true ∧
      (execute_ins t cpu).running = cpu.running ∧ (execute_ins t cpu).halted = cpu.halted) ∧
    (cpu.ins.executed = true → cpu.ins.cb_prefixed = true →
      check_ins t cpu = next_ins t cpu ∧
      (check_ins t cpu).ins.handler = HandlerRef.cb (read_memory t cpu.mem cpu.reg.PC) ∧
      dispatch (check_ins t cpu).ins.handler t =
        (prefix_opcode_table D).getD (read_memory t cpu.mem cpu.reg.PC) nop t ∧
      (check_ins t cpu).ins.cb_prefixed = false ∧
      (check_ins t cpu).ime = cpu.ime ∧ (check_ins t cpu).mem = cpu.mem ∧
      (cpu.running = true → cpu.halted = false →
        machine_cycle t cpu = execute_ins t (next_ins t cpu))) := by
  refine ⟨fun h => ?_, fun h hi => ?_, fun h => ?_, fun h hc => ?_⟩
  · unfold check_ins
    rw [h]
    rfl
  · have e : check_ins t cpu = if cpu.ins.cb_prefixed then next_ins t cpu
        else if (service_interrupts t cpu).1 then (service_interrupts t cpu).2
        else next_ins t (service_interrupts t cpu).2 := by
      unfold check_ins
      rw [h]
      rfl
    rw [e] at hi
    cases hc : cpu.ins.cb_prefixed
    · rw [hc] at hi
      simp only [Bool.false_eq_true, if_false] at hi
      cases hs : (service_interrupts t cpu).1
      · rw [hs] at hi
        exact absurd hi (next_ins_not_int t _)
      · obtain ⟨a, b⟩ := (service_interrupts_iff t cpu).1.mp hs
        refine ⟨rfl, a, b, ?_⟩
        rw [e, hc, hs]
        rfl
    · rw [hc] at hi
      exact absurd hi (next_ins_not_int t _)
  · obtain ⟨a, b, _, c, d, _, _⟩ := execute_cb_prefix t cpu h
    refine ⟨?_, a, b, c, d⟩
    rw [h]
    rfl
  · have e : check_ins t cpu = next_ins t cpu := by
      unfold check_ins
      rw [h, hc]
      rfl
    obtain ⟨a, b, _, _, c, _, _, d⟩ := next_ins_spec t cpu
    rw [hc] at a
    rw [e]
    refine ⟨rfl, a, ?_, b, c, d, fun hr hh => ?_⟩
    · rw [a]
      rfl
    · unfold machine_cycle check_pending_interrupts
      simp only [hh, hr, Bool.false_eq_true, if_false, Bool.not_true, Bool.or_self]
      rw [e]

theorem C38_interrupt_boundary_witness :
    (machine_cycles ioTables 2 (progCpu [0xFB, 0xCB, 0x37])).ime = true ∧
    get_pending_interrupts ioTables (machine_cycles ioTables 2 (progCpu [0xFB, 0xCB, 0x37])) ≠ 0 ∧
    (check_ins ioTables (machine_cycles ioTables 2 (progCpu [0xFB, 0xCB, 0x37]))).ins.handler
      = HandlerRef.cb 0x37 ∧
    (machine_cycles ioTables 4 (progCpu [0xFB, 0xCB, 0x37])).ins.handler = HandlerRef.int_exec :=
  ⟨by decide!, by decide!,
    (((C38_interrupt_boundary ioTables
      (machine_cycles ioTables 2 (progCpu [0xFB, 0xCB, 0x37]))).2.2.2
        (by decide!) (by decide!)).2.1).trans (by decide!),
    by decide!⟩

/-! ## C39: interrupt priority -/


theorem lowest_bit_0 : ∀ p, p < 32 → p &&& 1 ≠ 0 → p.testBit 0 = true := by
  decide!

theorem lowest_bit_1 : ∀ p, p < 32 → (p &&& 1 = 0 ∧ p &&& 2 ≠ 0) →
    p.testBit 0 = false ∧ p.testBit 1 = true := by
  decide!

theorem lowest_bit_2 : ∀ p, p < 32 → (p &&& 1 = 0 ∧ p &&& 2 = 0 ∧ p &&& 4 ≠ 0) →
    p.testBit 0 = false ∧ p.testBit 1 = false ∧ p.testBit 2 = true := by
  decide!

theorem lowest_bit_3 : ∀ p, p < 32 → (p &&& 1 = 0 ∧ p &&& 2 = 0 ∧ p &&& 4 = 0 ∧ p &&& 8 ≠ 0) →
    p.testBit 0 = false ∧ p.testBit 1 = false ∧ p.testBit 2 = false ∧ p.testBit 3 = true := by
  decide!

theorem lowest_bit_4 : ∀ p, p < 32 →
    (p &&& 1 = 0 ∧ p &&& 2 = 0 ∧ p &&& 4 = 0 ∧ p &&& 8 = 0 ∧ p &&& 16 ≠ 0) →
    p.testBit 0 = false ∧ p.testBit 1 = false ∧ p.testBit 2 = false ∧ p.testBit 3 = false ∧
      p.testBit 4 = true := by
  decide!

/-- `encode_interrupt` latches the code `1 <<< k` and the vector `0x40 + 8 * k`
of the lowest bit `k` set in `p`. -/
theorem encode_interrupt_lowest (cpu : CPU D) (p : Nat) (hlt : p < 32) (hp : p ≠ 0) :
    ∃ k, k < 5 ∧ (encode_interrupt cpu p).ins.low = 2 ^ k ∧
      (encode_interrupt cpu p).ins.address = 0x40 + 8 * k ∧
      p.testBit k = true ∧ ∀ j, j < k → p.testBit j = false := by
  have c0 := lowest_bit_0 p hlt
  have c1 := lowest_bit_1 p hlt
  have c2 := lowest_bit_2 p hlt
  have c3 := lowest_bit_3 p hlt
  have c4 := lowest_bit_4 p hlt
  unfold encode_interrupt
  split
  · next h => exact ⟨0, by decide, rfl, rfl, c0 h, fun j hj => absurd hj (Nat.not_lt_zero j)⟩
  next h0 =>
  have h0 := not_not.mp h0
  split
  · next h =>
    refine ⟨1, by decide, rfl, rfl, (c1 ⟨h0, h⟩).2, fun j hj => ?_⟩
    interval_cases j
    exact (c1 ⟨h0, h⟩).1
  next h1 =>
  have h1 := not_not.mp h1
  split
  · next h =>
    obtain ⟨a, b, c⟩ := c2 ⟨h0, h1, h⟩
    refine ⟨2, by decide, rfl, rfl, c, fun j hj => ?_⟩
    interval_cases j
    · exact a
    · exact b
  next h2 =>
  have h2 := not_not.mp h2
  split
  · next h =>
    obtain ⟨a, b, c, d⟩ := c3 ⟨h0, h1, h2, h⟩
    refine ⟨3, by decide, rfl, rfl, d, fun j hj => ?_⟩
    interval_cases j
    · exact a
    · exact b
    · exact c
  next h3 =>
  have h3 := not_not.mp h3
  split
  · next h =>
    obtain ⟨a, b, c, d, e⟩ := c4 ⟨h0, h1, h2, h3, h⟩
    refine ⟨4, by decide, rfl, rfl, e, fun j hj => ?_⟩
    interval_cases j
    · exact a
    · exact b
    · exact c
    · exact d
  · next h4 =>
    exact absurd (pending_zero_of_no_bit p hlt ⟨h0, h1, h2, h3, not_not.mp h4⟩) hp

/-- The write of `x & ~(1 << k)` to IF through `write_interrupt_flag`: bit `k`
is cleared and the other four interrupt bits are those of `x`. -/
theorem clear_bit_testBit (x k j : Nat) (hk : k < 5) (hj : j < 5) :
    (0xE0 ||| ((x &&& (0xFF ^^^ 2 ^ k)) &&& 0x1F)).testBit j =
      (x.testBit j && decide (j ≠ k)) := by
  rw [Nat.testBit_or, Nat.testBit_and, Nat.testBit_and]
  interval_cases k <;> interval_cases j <;> cases x.testBit _ <;> decide

theorem and_testBit_single (p k : Nat) (h : p.testBit k = true) : p &&& 2 ^ k = 2 ^ k := by
  rw [Nat.and_two_pow, h]
  simp

/-- C39 (interrupt priority).  From a running machine at an instruction
boundary with IME = 1 and `IF & IE & 0x1F` not 0, the first machine cycle
latches the code `1 <<< k` and the vector `0x40 + 8 * k` of the lowest bit `k`
set in the pending mask: V-blank (bit 0) before LCD-STAT before timer before
serial before joypad (bit 4); the code is a single bit and is set in the mask.
If that interrupt is still pending when the high byte of PC has been pushed, the
fifth machine cycle completes the service with PC at the vector and writes IF
with bit `k` cleared: through `write_interrupt_flag`, bit `k` of IF is then 0
and each other interrupt bit of IF is as before the write, so with IE elsewhere
every other pending interrupt stays pending. -/
theorem C39_interrupt_priority (t : MemoryTables D) (cpu : CPU D)
    (hrun : cpu.running = true) (hh : cpu.halted = false)
    (hex : cpu.ins.executed = true) (hcb : cpu.ins.cb_prefixed = false)
    (hime : cpu.ime = true) (hsch : cpu.ime_scheduled = false)
    (hp : get_pending_interrupts t cpu ≠ 0) :
    ∃ k, k < 5 ∧
      (machine_cycles t 1 cpu).ins.handler = HandlerRef.int_exec ∧
      (machine_cycles t 1 cpu).ins.low = 2 ^ k ∧
      (machine_cycles t 1 cpu).ins.address = 0x40 + 8 * k ∧
      (get_pending_interrupts t cpu).testBit k = true ∧
      (∀ j, j < k → (get_pending_interrupts t cpu).testBit j = false) ∧
      get_pending_interrupts t cpu &&& (machine_cycles t 1 cpu).ins.low =
        (machine_cycles t 1 cpu).ins.low ∧
      (get_pending_interrupts t { cpu with
          mem := write_memory t cpu.mem (dec16 cpu.reg.SP)
            ((cpu.reg.PC >>> BYTE) &&& LOWER_BYTE_MASK) } &&& 2 ^ k ≠ 0 →
        (machine_cycles t 5 cpu).ins.executed = true ∧
        (machine_cycles t 5 cpu).reg.PC = 0x40 + 8 * k ∧
        (machine_cycles t 5 cpu).mem =
          write_memory t (machine_cycles t 4 cpu).mem t.IFR
            ((machine_cycles t 4 cpu).mem.memory t.IFR &&& (0xFF ^^^ 2 ^ k)) ∧
        (t.memory_write_table t.IFR = write_interrupt_flag t.IFR →
          ((machine_cycles t 5 cpu).mem.memory t.IFR).testBit k = false ∧
          (∀ j, j < 5 → j ≠ k →
            ((machine_cycles t 5 cpu).mem.memory t.IFR).testBit j =
              ((machine_cycles t 4 cpu).mem.memory t.IFR).testBit j) ∧
          (t.IER ≠ t.IFR →
            (get_pending_interrupts t (machine_cycles t 5 cpu)).testBit k = false ∧
            ∀ j, j < 5 → j ≠ k →
              (get_pending_interrupts t (machine_cycles t 5 cpu)).testBit j =
                (get_pending_interrupts t (machine_cycles t 4 cpu)).testBit j))) := by
  obtain ⟨c1, _, _, c4⟩ := int_service_cycles t cpu hrun hh hex hcb hime hsch hp
  obtain ⟨h1, h2⟩ := service_interrupts_taken t cpu hime hp
  have e : (service_interrupts t cpu).2 =
      encode_interrupt
        { reset_ins { cpu with ime := false } with
          ins := { (reset_ins { cpu with ime := false }).ins with handler := .int_exec } }
        (get_pending_interrupts t cpu) := by
    unfold service_interrupts
    simp only [hime, hp, Bool.not_true, Bool.false_or, decide_False, if_false,
      Bool.false_eq_true]
  obtain ⟨k, hk, l1, l2, l3, l4⟩ := encode_interrupt_lowest
    { reset_ins { cpu with ime := false } with
      ins := { (reset_ins { cpu with ime := false }).ins with handler := .int_exec } }
    (get_pending_interrupts t cpu) (get_pending_interrupts_lt t cpu) hp
  rw [← e] at l1 l2
  have e1low : (machine_cycles t 1 cpu).ins.low = 2 ^ k := by
    rw [c1]
    exact l1
  have e1adr : (machine_cycles t 1 cpu).ins.address = 0x40 + 8 * k := by
    rw [c1]
    exact l2
  have e1h : (machine_cycles t 1 cpu).ins.handler = HandlerRef.int_exec := by
    rw [c1, h2]
  refine ⟨k, hk, e1h, e1low, e1adr, l3, l4, ?_, fun h3 => ?_⟩
  · rw [e1low]
    exact and_testBit_single _ _ l3
  have hpend : get_pending_interrupts t (push_stack t (service_interrupts t cpu).2
        ((cpu.reg.PC >>> BYTE) &&& LOWER_BYTE_MASK)) =
      get_pending_interrupts t { cpu with
        mem := write_memory t cpu.mem (dec16 cpu.reg.SP)
          ((cpu.reg.PC >>> BYTE) &&& LOWER_BYTE_MASK) } := by
    rw [h2]
    simp only [get_pending_interrupts, push_stack]
  obtain ⟨_, d4, d5⟩ := c4 (by rw [hpend, l1]; exact h3)
  rw [l1, l2] at d5
  generalize machine_cycles t 4 cpu = m4 at d5 ⊢
  have hm : (machine_cycles t 5 cpu).mem =
      write_memory t m4.mem t.IFR (m4.mem.memory t.IFR &&& (0xFF ^^^ 2 ^ k)) := by
    rw [d5]
  refine ⟨by rw [d5], by rw [d5], hm, fun hw => ?_⟩
  have hIF : (machine_cycles t 5 cpu).mem.memory t.IFR =
      0xE0 ||| ((m4.mem.memory t.IFR &&& (0xFF ^^^ 2 ^ k)) &&& 0x1F) := by
    rw [hm]
    unfold write_memory
    rw [hw]
    unfold write_interrupt_flag
    simp
  have hbit : ∀ j, j < 5 → ((machine_cycles t 5 cpu).mem.memory t.IFR).testBit j =
      ((m4.mem.memory t.IFR).testBit j && decide (j ≠ k)) := by
    intro j hj
    rw [hIF]
    exact clear_bit_testBit _ k j hk hj
  refine ⟨?_, fun j hj hjk => ?_, fun hie => ?_⟩
  · rw [hbit k hk]
    simp
  · rw [hbit j hj]
    simp [hjk]
  · have hIE : (machine_cycles t 5 cpu).mem.memory t.IER = m4.mem.memory t.IER := by
      rw [hm]
      unfold write_memory
      rw [hw]
      unfold write_interrupt_flag
      simp [hie]
    have hpb : ∀ (c : CPU D) (j : Nat), j < 5 → (get_pending_interrupts t c).testBit j =
        ((c.mem.memory t.IFR).testBit j && (c.mem.memory t.IER).testBit j) := by
      intro c j hj
      unfold get_pending_interrupts
      dsimp only
      rw [Nat.testBit_and, Nat.testBit_and, Nat.testBit_and]
      have : Nat.testBit LOWER_5_MASK j = true := by
        interval_cases j <;> decide
      rw [this]
      simp
    refine ⟨?_, fun j hj hjk => ?_⟩
    · rw [hpb _ k hk, hbit k hk]
      simp
    · rw [hpb _ j hj, hpb _ j hj, hbit j hj, hIE]
      simp [hjk]

/-- Witness for C39: IF = 0xF6 and IE = 0x1F, so that LCD-STAT (bit 1), timer
(bit 2) and joypad (bit 4) are pending together. The service latches the
LCD-STAT code and vector, ends with PC at 0x48, and leaves bit 1 of IF clear
and bits 2 and 4 set: timer and joypad are still pending. -/
theorem C39_interrupt_priority_witness :
    get_pending_interrupts ioTables (pendingCpu 0xF6 0x1F) = 0x16 ∧
    (machine_cycles ioTables 1 (pendingCpu 0xF6 0x1F)).ins.low = LCD_STAT_INTERRUPT_CODE ∧
    (machine_cycles ioTables 1 (pendingCpu 0xF6 0x1F)).ins.address = LCD_VECTOR ∧
    (machine_cycles ioTables 5 (pendingCpu 0xF6 0x1F)).reg.PC = LCD_VECTOR ∧
    ((machine_cycles ioTables 5 (pendingCpu 0xF6 0x1F)).mem.memory 0xFF0F).testBit 1 = false ∧
    ((machine_cycles ioTables 5 (pendingCpu 0xF6 0x1F)).mem.memory 0xFF0F).testBit 2 = true ∧
    ((machine_cycles ioTables 5 (pendingCpu 0xF6 0x1F)).mem.memory 0xFF0F).testBit 4 = true ∧
    (get_pending_interrupts ioTables (machine_cycles ioTables 5 (pendingCpu 0xF6 0x1F))).testBit 1
      = false ∧
    (get_pending_interrupts ioTables (machine_cycles ioTables 5 (pendingCpu 0xF6 0x1F))).testBit 2
      = true ∧
    (get_pending_interrupts ioTables (machine_cycles ioTables 5 (pendingCpu 0xF6 0x1F))).testBit 4
      = true := by
  obtain ⟨k, hk, _, hlow, hadr, hbit, hmin, _, hdone⟩ :=
    C39_interrupt_priority ioTables (pendingCpu 0xF6 0x1F) (by decide!) (by decide!) (by decide!)
      (by decide!) (by decide!) (by decide!) (by decide!)
  have hpend : get_pending_interrupts ioTables (pendingCpu 0xF6 0x1F) = 0x16 := by decide!
  rw [hpend] at hbit hmin
  have hk1 : k = 1 := by
    have h0 : k ≠ 0 := by
      intro h
      subst h
      exact absurd hbit (by decide)
    have h1 : ¬ 1 < k := fun h => absurd (hmin 1 h) (by decide)
    omega
  subst hk1
  obtain ⟨_, hpc, _, hif⟩ := hdone (by decide!)
  obtain ⟨b1, b2, b3⟩ := hif rfl
  obtain ⟨p1, p2⟩ := b3 (by decide)
  exact ⟨hpend, hlow, hadr, hpc, b1,
    (b2 2 (by decide) (by decide)).trans (by decide!),
    (b2 4 (by decide) (by decide)).trans (by decide!), p1,
    (p2 2 (by decide) (by decide)).trans (by decide!),
    (p2 4 (by decide) (by decide)).trans (by decide!)⟩

/-! ## C35: the selected objects are sorted by X, stably -/

theorem same_x_order_refl (l : List OamObject) : same_x_order l l :=
  fun _ => rfl

theorem same_x_order_trans {l1 l2 l3 : List OamObject} (h1 : same_x_order l1 l2)
    (h2 : same_x_order l2 l3) : same_x_order l1 l3 :=
  fun v => (h2 v).trans (h1 v)

/-- Exchanging two neighbours with different X keeps the order of the objects
of each X. -/
theorem same_x_order_swap (p q : List OamObject) (a b : OamObject) (h : a.x ≠ b.x) :
    same_x_order (p ++ a :: b :: q) (p ++ b :: a :: q) := by
  intro v
  simp only [List.filter_append, List.filter_cons]
  by_cases ha : a.x = v
  · have hb : ¬ b.x = v := fun hb => h (ha.trans hb.symm)
    simp [ha, hb]
  · simp [ha]

theorem same_x_order_mem {l1 l2 : List OamObject} (h : same_x_order l1 l2) (o : OamObject)
    (ho : o ∈ l2) : o ∈ l1 := by
  have h1 : o ∈ l2.filter (fun c => decide (c.x = o.x)) :=
    List.mem_filter.mpr ⟨ho, by simp⟩
  rw [h o.x] at h1
  exact (List.mem_filter.mp h1).1

/-- Two lists in ascending order of X that agree on the objects of each X, in
order, are equal. -/
theorem x_sorted_unique : ∀ (l1 l2 : List OamObject), x_sorted l1 → x_sorted l2 →
    same_x_order l1 l2 → l2 = l1 := by
  intro l1
  induction l1 with
  | nil =>
    intro l2 _ _ h
    cases l2 with
    | nil => rfl
    | cons b t => exact absurd (same_x_order_mem h b (List.mem_cons_self _ _)) (List.not_mem_nil b)
  | cons a t1 ih =>
    intro l2 s1 s2 h
    cases l2 with
    | nil =>
      have h1 := h a.x
      simp at h1
    | cons b t2 =>
      have hsym : same_x_order (b :: t2) (a :: t1) := fun v => (h v).symm
      have s1c := List.pairwise_cons.mp s1
      have s2c := List.pairwise_cons.mp s2
      have hab : a.x ≤ b.x := by
        rcases List.mem_cons.mp (same_x_order_mem h b (List.mem_cons_self _ _)) with e | m
        · rw [e]
        · exact s1c.1 b m
      have hba : b.x ≤ a.x := by
        rcases List.mem_cons.mp (same_x_order_mem hsym a (List.mem_cons_self _ _)) with e | m
        · rw [e]
        · exact s2c.1 a m
      have hx : b.x = a.x := le_antisymm hba hab
      have h1 := h a.x
      simp only [List.filter_cons, hx, decide_True, if_true] at h1
      obtain ⟨e1, e2⟩ := List.cons.inj h1
      subst e1
      congr 1
      refine ih t2 s1c.2 s2c.2 (fun v => ?_)
      by_cases hv : b.x = v
      · subst hv
        exact e2
      · have h2 := h v
        simpa only [List.filter_cons, hv, decide_False, Bool.false_eq_true, if_false] using h2

theorem insert_by_x_sorted (o : OamObject) : ∀ l, x_sorted l →
    x_sorted (insert_by_x o l) ∧ (insert_by_x o l).Perm (o :: l) ∧
    ∀ v, (insert_by_x o l).filter (fun c => decide (c.x = v)) =
      l.filter (fun c => decide (c.x = v)) ++ [o].filter (fun c => decide (c.x = v)) := by
  intro l
  induction l with
  | nil =>
    intro _
    exact ⟨List.pairwise_singleton _ _, List.Perm.refl _, fun _ => rfl⟩
  | cons b t ih =>
    intro s
    have sc := List.pairwise_cons.mp s
    obtain ⟨i1, i2, i3⟩ := ih sc.2
    unfold insert_by_x
    by_cases hlt : o.x < b.x
    · rw [if_pos hlt]
      refine ⟨?_, List.Perm.refl _, fun v => ?_⟩
      · refine List.pairwise_cons.mpr ⟨fun c hc => ?_, s⟩
        rcases List.mem_cons.mp hc with e | m
        · rw [e]
          exact le_of_lt hlt
        · exact le_trans (le_of_lt hlt) (sc.1 c m)
      · by_cases hv : o.x = v
        · have hb : ¬ b.x = v := by omega
          have ht : t.filter (fun c => decide (c.x = v)) = [] := by
            rw [List.filter_eq_nil_iff]
            intro c hc
            have := sc.1 c hc
            simp only [decide_eq_true_eq]
            omega
          simp [List.filter_cons, hv, hb, ht]
        · simp [List.filter_cons, hv]
    · rw [if_neg hlt]
      refine ⟨?_, ?_, fun v => ?_⟩
      · refine List.pairwise_cons.mpr ⟨fun c hc => ?_, i1⟩
        rcases List.mem_cons.mp (i2.subset hc) with e | m
        · rw [e]
          omega
        · exact sc.1 c m
      · exact (List.Perm.cons b i2).trans (List.Perm.swap o b t)
      · rw [List.filter_cons, List.filter_cons, i3 v]
        split <;> simp

theorem foldl_insert_by_x (l : List OamObject) : ∀ acc, x_sorted acc →
    x_sorted (l.foldl (fun acc o => insert_by_x o acc) acc) ∧
    (l.foldl (fun acc o => insert_by_x o acc) acc).Perm (acc ++ l) ∧
    ∀ v, (l.foldl (fun acc o => insert_by_x o acc) acc).filter (fun c => decide (c.x = v)) =
      acc.filter (fun c => decide (c.x = v)) ++ l.filter (fun c => decide (c.x = v)) := by
  induction l with
  | nil =>
    intro acc s
    exact ⟨s, by simp, fun v => by simp⟩
  | cons o t ih =>
    intro acc s
    obtain ⟨i1, i2, i3⟩ := insert_by_x_sorted o acc s
    obtain ⟨j1, j2, j3⟩ := ih (insert_by_x o acc) i1
    refine ⟨j1, ?_, fun v => ?_⟩
    · refine j2.trans ?_
      refine (List.Perm.append_right t i2).trans ?_
      simp only [List.cons_append]
      exact (List.perm_middle).symm
    · show (t.foldl (fun acc o => insert_by_x o acc) (insert_by_x o acc)).filter _ = _
      rw [j3 v, i3 v, List.append_assoc, ← List.filter_append]
      rfl

/-- The specification sort returns a permutation in ascending order of X that
keeps the order of the objects of equal X. -/
theorem stable_sort_by_x_spec (l : List OamObject) :
    x_sorted (stable_sort_by_x l) ∧ (stable_sort_by_x l).Perm l ∧
    same_x_order l (stable_sort_by_x l) := by
  obtain ⟨h1, h2, h3⟩ := foldl_insert_by_x l [] List.Pairwise.nil
  exact ⟨h1, by simpa using h2, fun v => by simpa using h3 v⟩

theorem x_sorted_take_one (l : List OamObject) : x_sorted (l.take 1) := by
  cases l with
  | nil => exact List.Pairwise.nil
  | cons a t => exact List.pairwise_singleton _ _

theorem x_sorted_snoc (p : List OamObject) (a b : OamObject) (h : x_sorted (p ++ [a]))
    (hab : a.x ≤ b.x) : x_sorted (p ++ [a, b]) := by
  unfold x_sorted at h ⊢
  rw [List.pairwise_append] at h ⊢
  obtain ⟨h1, _, h3⟩ := h
  refine ⟨h1, ?_, fun c hc d hd => ?_⟩
  · exact List.pairwise_cons.mpr ⟨fun d hd => by
      rw [List.mem_singleton.mp hd]
      exact hab, List.pairwise_singleton _ _⟩
  · have hca : c.x ≤ a.x := h3 c hc a (List.mem_singleton.mpr rfl)
    rcases List.mem_cons.mp hd with e | m
    · rw [e]
      exact hca
    · rw [List.mem_singleton.mp m]
      exact le_trans hca hab

/-- What the loop of `sort_oam_by_xpos` returns: if the slots before the index
are in ascending order of X, the first `size` slots of the result are, and the
objects of each X are in the order they had. -/
theorem sort_oam_loop_sorted (size : Nat) (hs2 : 2 ≤ size) (hs : size ≤ 255) :
    ∀ (fuel : Nat) (items : List OamObject) (index : Nat) (items' : List OamObject),
      size ≤ items.length → index ≤ size →
      x_sorted (items.take (max index 1)) →
      sort_oam_loop fuel items size index = some items' →
      x_sorted (items'.take size) ∧ same_x_order items items' := by
  intro fuel
  induction fuel with
  | zero =>
    intro items index items' _ _ _ h
    simp [sort_oam_loop] at h
  | succ fuel ih =>
    intro items index items' hlen hidx hsort hres
    have hguard : sort_oam_loop (fuel + 1) items size index =
        sort_oam_loop (fuel + 1) items size (max index 1) := by
      by_cases h0 : index = 0
      · subst h0
        rw [sort_oam_loop, sort_oam_loop]
        simp only [show (0 : Nat) < size by omega, show (1 : Nat) < size by omega, if_true,
          Nat.zero_max]
        rfl
      · rw [max_eq_left (by omega)]
    rw [hguard] at hres
    obtain ⟨j, hj⟩ : ∃ j, max index 1 = j + 1 := ⟨max index 1 - 1, by omega⟩
    have hmax : max index 1 ≤ size := by omega
    rw [hj] at hres hmax hsort
    rw [sort_oam_loop_step] at hres
    by_cases hlt : j + 1 < size
    · rw [if_pos hlt] at hres
      obtain ⟨e1, e2⟩ := swap_adjacent items j (by omega)
      have hlp : (items.take j).length = j := by
        rw [List.length_take]
        omega
      by_cases hx : (items.getD j default).x > (items.getD (j + 1) default).x
      · rw [if_pos hx] at hres
        have hidx2 : (j + 1 + 0xFF) % 256 = j := by omega
        rw [hidx2, e2] at hres
        have hs' : x_sorted ((items.take j ++ items.getD (j + 1) default ::
            items.getD j default :: items.drop (j + 2)).take (max j 1)) := by
          by_cases hj0 : j = 0
          · subst hj0
            exact x_sorted_take_one _
          · rw [max_eq_left (by omega), List.take_append_of_le_length (by omega),
              List.take_of_length_le (by omega)]
            have hp : x_sorted ((items.take (j + 1)).take j) :=
              List.Pairwise.sublist (List.take_sublist _ _) hsort
            rw [List.take_take, min_eq_left (by omega)] at hp
            exact hp
        obtain ⟨r1, r2⟩ := ih _ j items' (by
            simp only [List.length_append, List.length_cons, List.length_drop, hlp]
            omega) (by omega) hs' hres
        refine ⟨r1, same_x_order_trans ?_ r2⟩
        conv =>
          lhs
          rw [e1]
        exact same_x_order_swap _ _ _ _ (by omega)
      · rw [if_neg hx] at hres
        have hidx2 : (j + 1 + 1) % 256 = j + 2 := by omega
        rw [hidx2] at hres
        refine ih items (j + 2) items' hlen (by omega) ?_ hres
        rw [max_eq_left (by omega)]
        have t1 : items.take (j + 1) = items.take j ++ [items.getD j default] := by
          conv =>
            lhs
            rw [e1]
          rw [List.take_append_eq_append_take, List.take_of_length_le (by omega), hlp]
          simp
        have t2 : items.take (j + 2) =
            items.take j ++ [items.getD j default, items.getD (j + 1) default] := by
          conv =>
            lhs
            rw [e1]
          rw [List.take_append_eq_append_take, List.take_of_length_le (by omega), hlp]
          simp
        rw [t2]
        rw [t1] at hsort
        exact x_sorted_snoc _ _ _ hsort (by omega)
    · rw [if_neg hlt] at hres
      have e : items' = items := (Option.some.inj hres).symm
      subst e
      have hsz : j + 1 = size := by omega
      rw [hsz] at hsort
      exact ⟨hsort, same_x_order_refl _⟩

/-- C35 (sorting the selected objects).  On a queue of 10 slots holding at most
10 objects from slot 0 on, `sort_oam_by_xpos` returns (the loop ends within 128
tests). The first `size` slots of the result are the stable insertion sort by X
of the first `size` slots of the input: a permutation of them, in ascending
order of X, in which the objects of equal X keep the order they had; the other
slots and the other fields of the queue are unchanged. -/
theorem C35_sort_oam_stable (fuel : Nat) (hfuel : 128 ≤ fuel) (queue : Queue OamObject)
    (hlen : queue.items.length = 10) (hsize : queue.size ≤ 10) :
    ∃ items', sort_oam_by_xpos fuel queue = some { queue with items := items' } ∧
      items'.take queue.size = stable_sort_by_x (queue.items.take queue.size) ∧
      items'.drop queue.size = queue.items.drop queue.size ∧
      x_sorted (items'.take queue.size) ∧
      (items'.take queue.size).Perm (queue.items.take queue.size) ∧
      same_x_order (queue.items.take queue.size) (items'.take queue.size) := by
  obtain ⟨p1, p2, p3⟩ := stable_sort_by_x_spec (queue.items.take queue.size)
  have key : ∀ items', x_sorted (List.take queue.size items') →
      same_x_order (queue.items.take queue.size) (items'.take queue.size) →
      items'.take queue.size = stable_sort_by_x (queue.items.take queue.size) := by
    intro items' h1 h2
    refine x_sorted_unique _ _ p1 h1 (fun v => ?_)
    rw [h2 v, p3 v]
  by_cases h2 : queue.size < 2
  · refine ⟨queue.items, ?_, ?_, rfl, ?_, List.Perm.refl _, same_x_order_refl _⟩
    · unfold sort_oam_by_xpos
      rw [if_pos h2]
    · have hs : x_sorted (queue.items.take queue.size) := by
        have hl : (queue.items.take queue.size).length ≤ 1 := by
          rw [List.length_take]
          omega
        match hq : queue.items.take queue.size, hl with
        | [], _ => exact List.Pairwise.nil
        | [a], _ => exact List.pairwise_singleton _ _
      exact key _ hs (same_x_order_refl _)
    · have hl : (queue.items.take queue.size).length ≤ 1 := by
        rw [List.length_take]
        omega
      match hq : queue.items.take queue.size, hl with
      | [], _ => exact List.Pairwise.nil
      | [a], _ => exact List.pairwise_singleton _ _
  · have hb := x_inversions_bound queue.items
    rw [hlen] at hb
    obtain ⟨items', r1, r2, r3, r4⟩ := sort_oam_loop_total queue.size (by omega) (by omega) fuel
      queue.items 1 (by omega) (by omega) (by
        have : max 1 1 = 1 := rfl
        omega)
    obtain ⟨q1, q2⟩ := sort_oam_loop_sorted queue.size (by omega) (by omega) fuel queue.items 1
      items' (by omega) (by omega) (x_sorted_take_one _) r1
    have hso : same_x_order (queue.items.take queue.size) (items'.take queue.size) := by
      intro v
      have h := q2 v
      rw [← List.take_append_drop queue.size items', ← List.take_append_drop queue.size queue.items,
        List.filter_append, List.filter_append, r3] at h
      exact List.append_cancel_right h
    have hperm : (items'.take queue.size).Perm (queue.items.take queue.size) := by
      rw [key items' q1 hso]
      exact p2
    refine ⟨items', ?_, key items' q1 hso, r3, q1, hperm, hso⟩
    unfold sort_oam_by_xpos
    rw [if_neg h2, r1]

theorem C35_sort_oam_stable_witness :
    sort_oam_by_xpos 128
        { items := [{ (default : OamObject) with x := 9, oam_address := 0 },
            { (default : OamObject) with x := 3, oam_address := 4 },
            { (default : OamObject) with x := 9, oam_address := 8 },
            { (default : OamObject) with x := 3, oam_address := 12 }] ++
            List.replicate 6 default,
          front := 0, rear := 3, size := 4, capacity := 10 } =
      some
        { items := [{ (default : OamObject) with x := 3, oam_address := 4 },
            { (default : OamObject) with x := 3, oam_address := 12 },
            { (default : OamObject) with x := 9, oam_address := 0 },
            { (default : OamObject) with x := 9, oam_address := 8 }] ++
            List.replicate 6 default,
          front := 0, rear := 3, size := 4, capacity := 10 } :=
  (C35_sort_oam_stable 128 (le_refl _)
    { items := [{ (default : OamObject) with x := 9, oam_address := 0 },
        { (default : OamObject) with x := 3, oam_address := 4 },
        { (default : OamObject) with x := 9, oam_address := 8 },
        { (default : OamObject) with x := 3, oam_address := 12 }] ++
        List.replicate 6 default,
      front := 0, rear := 3, size := 4, capacity := 10 } (by decide) (by decide)).elim
    (fun items' h => h.1.trans (by
      have e1 := h.2.1
      have e2 := h.2.2.1
      have e : items' = List.take 4 items' ++ List.drop 4 items' :=
        (List.take_append_drop 4 items').symm
      rw [e]
      simp only at e1 e2
      rw [e1, e2]
      rfl))

end Gizmo
